import Mathlib

/-!
Verification of the vanity-address generator core.

Shallow embedding of:
* the OpenCL mining kernel (field arithmetic mod the secp256k1 prime,
  affine and Jacobian elliptic-curve point arithmetic, the Keccak-256
  permutation with the kernel's constant tables, nibble pattern matching,
  and the per-work-item result-write protocol), and
* the JavaScript CREATE2 verification tools (hex parsing, salt-nonce
  parsing, the CREATE2 address formula).

Machine integers are modelled as `Nat` with explicit truncation at every
point where the source's fixed-width arithmetic can wrap; a C shift
`x >> k` is `x / 2^k`, a mask `x & (2^k - 1)` is `x % 2^k`, and genuine
bit-mixing (`^`, `&`, `|`, rotation) uses the corresponding `Nat` bitwise
operations.  A C array of w-bit cells is a single `Nat` holding the cells
at w-bit offsets (`aget`/`aset` below); cell reads and writes translate
the source's indexed accesses one for one.  Byte strings are `List Nat`.
-/

set_option maxRecDepth 1000000
set_option exponentiation.threshold 2000

namespace Vanity

/-- 64-bit mask, the width of the kernel's `ulong` lanes. -/
def M64 : Nat := 2 ^ 64 - 1

/-- Read cell `i` of a packed array of `w`-bit cells. -/
def aget (w arr i : Nat) : Nat := arr / 2 ^ (w * i) % 2 ^ w

/-- Write cell `i` of a packed array of `w`-bit cells. -/
def aset (w arr i v : Nat) : Nat := arr - aget w arr i * 2 ^ (w * i) + v * 2 ^ (w * i)

/-! ## Keccak-f[1600] permutation (kernel translation, lines 404-466)

The permutation is written once, parameterised by the rho rotation table,
because the kernel's table and the standard table differ (that difference
is what claim C2 is about).  The 25-lane state is a packed array of
64-bit cells. -/

/-- `rotl64` from the kernel: rotate a 64-bit lane left by `n`. -/
def rotl64 (x n : Nat) : Nat := ((x <<< n) ||| (x >>> (64 - n))) % 2 ^ 64

/-- `keccak_rotc` exactly as in the kernel source (note the tail
`39, 21, 56, 14`). -/
def keccak_rotc : List Nat :=
  [1, 3, 6, 10, 15, 21, 28, 36,
   45, 55, 2, 14, 27, 41, 56, 8,
   25, 43, 62, 18, 39, 21, 56, 14]

/-- Modelled from the spec: the standard Keccak-f[1600] rho rotation
offsets in the same pi-trail order, `rotc[i] = (i+1)(i+2)/2 mod 64`
(tail `39, 61, 20, 44`).  The reference CPU-side hash implementation is
not under `src/`; the spec requires "rho+pi with the standard rotation
offsets". -/
def keccak_rotc_std : List Nat :=
  [1, 3, 6, 10, 15, 21, 28, 36,
   45, 55, 2, 14, 27, 41, 56, 8,
   25, 43, 62, 18, 39, 61, 20, 44]

/-- `keccak_piln`, the pi-permutation trail, as in the kernel source. -/
def keccak_piln : List Nat :=
  [10, 7, 11, 17, 18, 3, 5, 16,
   8, 21, 24, 4, 15, 23, 19, 13,
   12, 2, 20, 14, 22, 9, 6, 1]

/-- `keccak_rndc`, the 24 iota round constants, as in the kernel source. -/
def keccak_rndc : List Nat :=
  [0x0000000000000001, 0x0000000000008082, 0x800000000000808a,
   0x8000000080008000, 0x000000000000808b, 0x0000000080000001,
   0x8000000080008081, 0x8000000000008009, 0x000000000000008a,
   0x0000000000000088, 0x0000000080008009, 0x000000008000000a,
   0x000000008000808b, 0x800000000000008b, 0x8000000000008089,
   0x8000000000008003, 0x8000000000008002, 0x8000000000000080,
   0x000000000000800a, 0x800000008000000a, 0x8000000080008081,
   0x8000000000008080, 0x0000000080000001, 0x8000000080008008]

/-- Theta step of one Keccak round: the `bc` parity array, then the xor
of `bc[(i+4)%5] ^ rotl(bc[(i+1)%5], 1)` into every lane of column `i`. -/
def keccakTheta (st : Nat) : Nat :=
  let bc := (List.range 5).foldl (fun bc i =>
    aset 64 bc i (aget 64 st i ^^^ aget 64 st (i + 5) ^^^ aget 64 st (i + 10) ^^^
      aget 64 st (i + 15) ^^^ aget 64 st (i + 20))) 0
  (List.range 5).foldl (fun st1 i =>
    let t := aget 64 bc ((i + 4) % 5) ^^^ rotl64 (aget 64 bc ((i + 1) % 5)) 1
    (List.range 5).foldl (fun st2 jq =>
      aset 64 st2 (5 * jq + i) (aget 64 st2 (5 * jq + i) ^^^ t)) st1) st

/-- Rho-and-pi step: the moving-lane loop `t = st[1]; st[j] = rotl(t, rotc[i])`. -/
def keccakRhoPi (rotc : List Nat) (st : Nat) : Nat :=
  ((List.range 24).foldl (fun (acc : Nat × Nat) i =>
    let j := keccak_piln.getD i 0
    let tmp := aget 64 acc.1 j
    (aset 64 acc.1 j (rotl64 acc.2 (rotc.getD i 0)), tmp)) (st, aget 64 st 1)).1

/-- Chi step: per row, copy the row into `tmp`, then
`st[j+i] = tmp[i] ^ ((~tmp[(i+1)%5]) & tmp[(i+2)%5])`. -/
def keccakChi (st : Nat) : Nat :=
  (List.range 5).foldl (fun st1 row =>
    let j := 5 * row
    let tmp := (List.range 5).foldl (fun tb i => aset 64 tb i (aget 64 st1 (j + i))) 0
    (List.range 5).foldl (fun st2 i =>
      aset 64 st2 (j + i)
        (aget 64 tmp i ^^^ ((aget 64 tmp ((i + 1) % 5) ^^^ M64) &&& aget 64 tmp ((i + 2) % 5)))) st1) st

/-- One full round: theta, rho+pi, chi, iota. -/
def keccakRound (rotc : List Nat) (st : Nat) (round : Nat) : Nat :=
  let st1 := keccakChi (keccakRhoPi rotc (keccakTheta st))
  aset 64 st1 0 (aget 64 st1 0 ^^^ keccak_rndc.getD round 0)

/-- `keccak_f1600`: 24 rounds over the 25-lane state. -/
def keccak_f1600 (rotc : List Nat) (st : Nat) : Nat :=
  (List.range 24).foldl (keccakRound rotc) st

/-- Assemble the little-endian 64-bit lane `i` from a byte list
(`lane |= input[i*8+j] << (j*8)`). -/
def laneOfBytes (input : List Nat) (i : Nat) : Nat :=
  (List.range 8).foldl (fun lane j => lane ||| (input.getD (i * 8 + j) 0 <<< (j * 8))) 0

/-- Squeeze the first 32 output bytes (4 lanes, little-endian). -/
def keccakSqueeze32 (st : Nat) : List Nat :=
  (List.range 32).map (fun k => aget 64 st (k / 8) / 2 ^ (k % 8 * 8) % 256)

/-- The pre-permutation state of `keccak256_64bytes`: absorb exactly 64
bytes (8 lanes), xor `0x01` into rate byte 64 (lane 8) and `0x80` into
rate byte 135 (top byte of lane 16). -/
def keccak64AbsorbState (input : List Nat) : Nat :=
  let st0 := (List.range 8).foldl (fun st i => aset 64 st i (laneOfBytes input i)) 0
  let st1 := aset 64 st0 8 (aget 64 st0 8 ^^^ 0x01)
  aset 64 st1 16 (aget 64 st1 16 ^^^ (0x80 <<< 56))

/-- `keccak256_64bytes` generic in the rotation table: absorb, permute
once, squeeze 32 bytes. -/
def keccak256_64bytesWith (rotc : List Nat) (input : List Nat) : List Nat :=
  keccakSqueeze32 (keccak_f1600 rotc (keccak64AbsorbState input))

/-- `keccak256_64bytes` exactly as the kernel computes it (kernel rotation
table). -/
def keccak256_64bytes (input : List Nat) : List Nat :=
  keccak256_64bytesWith keccak_rotc input

/-- Modelled from the spec: the same sponge with the standard rotation
offsets, i.e. genuine Keccak-256 of a 64-byte input. -/
def keccak256_64bytes_std (input : List Nat) : List Nat :=
  keccak256_64bytesWith keccak_rotc_std input

/-! ### General variable-length Keccak-256

Modelled from the spec (section 4.1) as the reference for the external
`js-sha3` library used by the JS tools, which is not part of `src/`:
rate 136, Keccak (not SHA3) padding `0x01 … 0x80` folded into the last
rate byte, standard permutation.  Validated below by the published
golden digest of the empty input. -/

/-- Absorb one 136-byte block (17 lanes) into the state. -/
def keccakAbsorbBlock (st : Nat) (block : List Nat) : Nat :=
  (List.range 17).foldl (fun st1 i => aset 64 st1 i (aget 64 st1 i ^^^ laneOfBytes block i)) st

/-- Keccak multi-rate padding for rate 136 with domain byte `0x01`. -/
def keccakPad (msg : List Nat) : List Nat :=
  let padlen := 136 - msg.length % 136
  if padlen = 1 then msg ++ [0x81]
  else msg ++ [0x01] ++ List.replicate (padlen - 2) 0 ++ [0x80]

/-- Absorb all 136-byte blocks of a padded message; structural recursion
on a block-count fuel so the kernel can evaluate it. -/
def keccakAbsorbAll : Nat → Nat → List Nat → Nat
  | 0, st, _ => st
  | fuel + 1, st, msg =>
    if msg = [] then st
    else keccakAbsorbAll fuel
      (keccak_f1600 keccak_rotc_std (keccakAbsorbBlock st (msg.take 136))) (msg.drop 136)

/-- Standard Keccak-256 of an arbitrary byte string. -/
def keccak256 (msg : List Nat) : List Nat :=
  let padded := keccakPad msg
  keccakSqueeze32 (keccakAbsorbAll (padded.length / 136) 0 padded)

/-! ## 256-bit limb arithmetic (kernel translation, lines 17-171)

A `uint256_t` is 8 little-endian 32-bit limbs; packed, that is exactly
the 256-bit value, so a `uint256_t` is a `Nat` below `2^256` and limb
`i` is `aget 32 a i`.  The intermediate product of `fp_mul` is a packed
array of 16 `ulong` (64-bit) cells. -/

/-- The field prime `p = 2^256 - 2^32 - 977`; its little-endian 32-bit
limbs are exactly the `SECP256K1_P` initialiser of the source. -/
def secpP : Nat := 2 ^ 256 - 2 ^ 32 - 977

/-- `uint256_is_zero`: or of all limbs compared with 0. -/
def uint256_is_zero (a : Nat) : Bool :=
  (aget 32 a 0 ||| aget 32 a 1 ||| aget 32 a 2 ||| aget 32 a 3 |||
   aget 32 a 4 ||| aget 32 a 5 ||| aget 32 a 6 ||| aget 32 a 7) == 0

/-- `uint256_eq`: limbwise equality. -/
def uint256_eq (a b : Nat) : Bool :=
  (List.range 8).all (fun i => aget 32 a i == aget 32 b i)

/-- Descending-limb comparison loop of `uint256_gte` (`n` limbs left to
scan, most significant first). -/
def gteFrom (a b : Nat) : Nat → Bool
  | 0 => true
  | n + 1 =>
    if aget 32 a n > aget 32 b n then true
    else if aget 32 a n < aget 32 b n then false
    else gteFrom a b n

/-- `uint256_gte`: `a >= b`. -/
def uint256_gte (a b : Nat) : Bool := gteFrom a b 8

/-- `uint256_add`: limbwise add with carry; returns the packed limbs and
the final carry. -/
def uint256_add (a b : Nat) : Nat × Nat :=
  (List.range 8).foldl (fun (acc : Nat × Nat) i =>
    let sum := aget 32 a i + aget 32 b i + acc.2
    (aset 32 acc.1 i (sum % 2 ^ 32), sum / 2 ^ 32)) (0, 0)

/-- `uint256_sub`: limbwise subtract with borrow; the per-limb `ulong`
difference wraps mod `2^64` exactly as in the C source, and the borrow is
bit 63 of the wrapped difference. -/
def uint256_sub (a b : Nat) : Nat × Nat :=
  (List.range 8).foldl (fun (acc : Nat × Nat) i =>
    let diff := (aget 32 a i + 2 ^ 64 - aget 32 b i - acc.2) % 2 ^ 64
    (aset 32 acc.1 i (diff % 2 ^ 32), diff / 2 ^ 63 % 2)) (0, 0)

/-- `fp_add`: add then one conditional subtraction of `p` on carry-out or
`r >= p`. -/
def fp_add (a b : Nat) : Nat :=
  let s := uint256_add a b
  if s.2 ≠ 0 || uint256_gte s.1 secpP then (uint256_sub s.1 secpP).1 else s.1

/-- `fp_sub`: subtract then one conditional addition of `p` on borrow
(the final carry of that addition is discarded, as in C). -/
def fp_sub (a b : Nat) : Nat :=
  let d := uint256_sub a b
  if d.2 ≠ 0 then (uint256_add d.1 secpP).1 else d.1

/-- The 8x8 schoolbook multiply into 16 `ulong` cells: per row `i`, the
inner loop accumulates `prod[i+j] + a[i]*b[j] + carry` (wrapping mod
`2^64`), stores the low 32 bits, carries the high bits, and finally adds
the last carry into `prod[i+8]`. -/
def schoolbook (a b : Nat) : Nat :=
  (List.range 8).foldl (fun prod i =>
    let f := (List.range 8).foldl (fun (acc : Nat × Nat) j =>
      let t := (aget 64 acc.1 (i + j) + aget 32 a i * aget 32 b j + acc.2) % 2 ^ 64
      (aset 64 acc.1 (i + j) (t % 2 ^ 32), t / 2 ^ 32)) (prod, 0)
    aset 64 f.1 (i + 8) ((aget 64 f.1 (i + 8) + f.2) % 2 ^ 64)) 0

/-- First reduction pass of `fp_mul`: fold the high limbs times
`c = 0x1000003D1` into the low limbs.  The C expression
`prod[i] + prod[i+8]*c_lo + carry` is a wrapping `ulong` sum, hence the
`% 2^64` (this wrap is where the source can lose a `2^64`). -/
def fpMulReduce1 (prod : Nat) : Nat × Nat :=
  (List.range 8).foldl (fun (acc : Nat × Nat) i =>
    let t := (aget 64 acc.1 i + aget 64 acc.1 (i + 8) * 0x1000003D1 + acc.2) % 2 ^ 64
    (aset 64 acc.1 i (t % 2 ^ 32), t / 2 ^ 32)) (prod, 0)

/-- Second reduction pass with the early-exit branch
(`i >= 1 && extra == 0 && carry == 0`); `n` counts the remaining loop
iterations so the recursion is structural, with `i = 8 - n`.  On early
exit the untouched cells keep their first-pass values, exactly like the
C copy loops. -/
def fpMulReduce2 : Nat → Nat → Nat → Nat → Nat
  | 0, prod, _, _ => prod
  | n + 1, prod, extra, carry =>
    let i := 8 - (n + 1)
    let t := (aget 64 prod i + extra % 2 ^ 32 + carry) % 2 ^ 64
    let prod1 := aset 64 prod i (t % 2 ^ 32)
    let carry1 := t / 2 ^ 32
    let extra1 := extra / 2 ^ 32
    if 1 ≤ i ∧ extra1 = 0 ∧ carry1 = 0 then prod1
    else fpMulReduce2 n prod1 extra1 carry1

/-- `fp_mul`: schoolbook product, two reduction passes (with the
early-exit path), the copy of the low 8 cells into the `uint256_t`
result, and one final conditional subtraction of `p`. -/
def fp_mul (a b : Nat) : Nat :=
  let prod := schoolbook a b
  let r1 := fpMulReduce1 prod
  let extra := r1.2 * 0x1000003D1 % 2 ^ 64
  let prod2 := fpMulReduce2 8 r1.1 extra 0
  let r := (List.range 8).foldl (fun r i => aset 32 r i (aget 64 prod2 i % 2 ^ 32)) 0
  if uint256_gte r secpP then (uint256_sub r secpP).1 else r

/-- `fp_sqr`. -/
def fp_sqr (a : Nat) : Nat := fp_mul a a

/-- `n` successive squarings (the `for` loops of `fp_inv`). -/
def sqrN : Nat → Nat → Nat
  | 0, t => t
  | n + 1, t => sqrN n (fp_sqr t)

/-- `fp_inv`: the kernel's fixed square-and-multiply chain. -/
def fp_inv (a : Nat) : Nat :=
  let x2 := fp_mul (fp_sqr a) a
  let x3 := fp_mul (fp_sqr x2) a
  let x6 := fp_mul (sqrN 3 x3) x3
  let x9 := fp_mul (sqrN 3 x6) x3
  let x11 := fp_mul (sqrN 2 x9) x2
  let x22 := fp_mul (sqrN 11 x11) x11
  let x44 := fp_mul (sqrN 22 x22) x22
  let x88 := fp_mul (sqrN 44 x44) x44
  let x176 := fp_mul (sqrN 88 x88) x88
  let x220 := fp_mul (sqrN 44 x176) x44
  let x223 := fp_mul (sqrN 3 x220) x3
  let t1 := fp_mul (sqrN 23 x223) x22
  let t2 := fp_mul (sqrN 5 t1) a
  let t3 := fp_mul (sqrN 3 t2) x2
  sqrN 2 t3

/-- Square-and-multiply modular exponentiation, structural on a fuel of
binary digits; used to state Fermat exponents without forming the
astronomically large power itself. -/
def powModFuel : Nat → Nat → Nat → Nat → Nat
  | 0, _, _, m => 1 % m
  | fuel + 1, b, e, m =>
    if e = 0 then 1 % m
    else
      let h := powModFuel fuel (b % m * (b % m) % m) (e / 2) m
      if e % 2 = 1 then h * (b % m) % m else h

/-- Modular exponentiation `b ^ e % m` (see `powMod_eq`). -/
def powMod (b e m : Nat) : Nat := powModFuel (e + 1) b e m

/-! ## Elliptic-curve point arithmetic (kernel translation)

Affine points (lines 263-343) and Jacobian points (second kernel,
lines 1007-1188).  Where the C source returns a point at infinity it
writes only the `infinity` flag (and `Z = 0` for Jacobian results),
leaving the other coordinates unspecified; the embedding keeps the input
coordinates in those fields, and no consumer reads them past the flag. -/

structure ec_point where
  x : Nat
  y : Nat
  infinity : Bool
deriving DecidableEq

/-- `ec_double`: affine doubling with the `y = 0` infinity check. -/
def ec_double (p : ec_point) : ec_point :=
  if p.infinity then p
  else if uint256_eq p.y 0 then { p with infinity := true }
  else
    let x_sq := fp_sqr p.x
    let num := fp_add (fp_add x_sq x_sq) x_sq
    let two_y := fp_add p.y p.y
    let denom := fp_inv two_y
    let lam := fp_mul num denom
    let lam_sq := fp_sqr lam
    let xr := fp_sub (fp_sub lam_sq p.x) p.x
    let dx := fp_sub p.x xr
    let yr := fp_sub (fp_mul lam dx) p.y
    { x := xr, y := yr, infinity := false }

/-- `ec_add`: affine addition with the equal-`x` branches (doubling when
`y` also matches, infinity for `P + (-P)`). -/
def ec_add (p q : ec_point) : ec_point :=
  if p.infinity then q
  else if q.infinity then p
  else if uint256_eq p.x q.x then
    if uint256_eq p.y q.y then ec_double p
    else { x := p.x, y := p.y, infinity := true }
  else
    let dy := fp_sub q.y p.y
    let dx := fp_sub q.x p.x
    let dx_inv := fp_inv dx
    let lam := fp_mul dy dx_inv
    let lam_sq := fp_sqr lam
    let xr := fp_sub (fp_sub lam_sq p.x) q.x
    let t := fp_sub p.x xr
    let yr := fp_sub (fp_mul lam t) p.y
    { x := xr, y := yr, infinity := false }

/-- The arguments `ec_double` passes to `fp_inv`, mirroring its control
flow call site for call site (used to state that the early-return paths
invoke no inversion). -/
def ec_double_invArgs (p : ec_point) : List Nat :=
  if p.infinity then []
  else if uint256_eq p.y 0 then []
  else [fp_add p.y p.y]

/-- The arguments `ec_add` passes to `fp_inv` (directly or through
`ec_double`), mirroring its control flow. -/
def ec_add_invArgs (p q : ec_point) : List Nat :=
  if p.infinity then []
  else if q.infinity then []
  else if uint256_eq p.x q.x then
    if uint256_eq p.y q.y then ec_double_invArgs p else []
  else [fp_sub q.x p.x]

structure jac_point where
  X : Nat
  Y : Nat
  Z : Nat
  infinity : Bool
deriving DecidableEq

/-- `jacobian_double` (secp256k1, a = 0): no inversion. -/
def jacobian_double (p : jac_point) : jac_point :=
  if p.infinity then p
  else if uint256_eq p.Y 0 then { p with Z := 0, infinity := true }
  else
    let Y2 := fp_sqr p.Y
    let Sa := fp_mul p.X Y2
    let Sb := fp_add Sa Sa
    let S := fp_add Sb Sb
    let X_sq := fp_sqr p.X
    let Ma := fp_add X_sq X_sq
    let M := fp_add Ma X_sq
    let M2 := fp_sqr M
    let X3 := fp_sub (fp_sub M2 S) S
    let Y4a := fp_sqr Y2
    let Y4b := fp_add Y4a Y4a
    let Y4 := fp_add Y4b Y4b
    let Y3 := fp_sub (fp_mul M (fp_sub S X3)) Y4
    let two_Y_Z := fp_mul p.Y p.Z
    let Z3 := fp_add two_Y_Z two_Y_Z
    { X := X3, Y := Y3, Z := Z3, infinity := false }

/-- `jacobian_add`: full Jacobian addition, delegating the `U1 = U2`
branches (doubling / infinity). -/
def jacobian_add (p q : jac_point) : jac_point :=
  if p.infinity then q
  else if q.infinity then p
  else
    let Z1_sq := fp_sqr p.Z
    let Z2_sq := fp_sqr q.Z
    let Z1_cub := fp_mul Z1_sq p.Z
    let Z2_cub := fp_mul Z2_sq q.Z
    let U1 := fp_mul p.X Z2_sq
    let U2 := fp_mul q.X Z1_sq
    let S1 := fp_mul p.Y Z2_cub
    let S2 := fp_mul q.Y Z1_cub
    if uint256_eq U1 U2 then
      if uint256_eq S1 S2 then jacobian_double p
      else { X := p.X, Y := p.Y, Z := 0, infinity := true }
    else
      let H := fp_sub U2 U1
      let R_val := fp_sub S2 S1
      let H_sq := fp_sqr H
      let H_cub := fp_mul H_sq H
      let U1_H_sq := fp_mul U1 H_sq
      let S1_H_cub := fp_mul S1 H_cub
      let R_sq := fp_sqr R_val
      let two_U1_H_sq := fp_add U1_H_sq U1_H_sq
      let X3 := fp_sub (fp_sub R_sq H_cub) two_U1_H_sq
      let Y3 := fp_sub (fp_mul R_val (fp_sub U1_H_sq X3)) S1_H_cub
      let Z3 := fp_mul (fp_mul p.Z q.Z) H
      { X := X3, Y := Y3, Z := Z3, infinity := false }

/-- `mixed_add_jacobian`: affine + Jacobian addition, no inversion. -/
def mixed_add_jacobian (pa : ec_point) (q : jac_point) : jac_point :=
  if pa.infinity then q
  else if q.infinity then { X := pa.x, Y := pa.y, Z := 1, infinity := false }
  else
    let Z2_sq := fp_sqr q.Z
    let Z2_cub := fp_mul Z2_sq q.Z
    let U1 := fp_mul pa.x Z2_sq
    let U2 := q.X
    let S1 := fp_mul pa.y Z2_cub
    let S2 := q.Y
    if uint256_eq U1 U2 then
      if uint256_eq S1 S2 then
        jacobian_double { X := pa.x, Y := pa.y, Z := 1, infinity := false }
      else { X := pa.x, Y := pa.y, Z := 0, infinity := true }
    else
      let H := fp_sub U2 U1
      let R_val := fp_sub S2 S1
      let H_sq := fp_sqr H
      let H_cub := fp_mul H_sq H
      let U1_H_sq := fp_mul U1 H_sq
      let S1_H_cub := fp_mul S1 H_cub
      let R_sq := fp_sqr R_val
      let two_U1_H_sq := fp_add U1_H_sq U1_H_sq
      let X3 := fp_sub (fp_sub R_sq H_cub) two_U1_H_sq
      let Y3 := fp_sub (fp_mul R_val (fp_sub U1_H_sq X3)) S1_H_cub
      let Z3 := fp_mul q.Z H
      { X := X3, Y := Y3, Z := Z3, infinity := false }

/-- `jacobian_to_affine`: the single inversion `Z^(-1)` (as computed by
`fp_inv`), with the infinity / `Z = 0` guard. -/
def jacobian_to_affine (p : jac_point) : ec_point :=
  if p.infinity || uint256_eq p.Z 0 then { x := p.X, y := p.Y, infinity := true }
  else
    let inv_Z := fp_inv p.Z
    let inv_Z2 := fp_sqr inv_Z
    let inv_Z3 := fp_mul inv_Z2 inv_Z
    { x := fp_mul p.X inv_Z2, y := fp_mul p.Y inv_Z3, infinity := false }

/-! ## Power table, scalar multiplication, public key bytes -/

/-- `load_uint256_be`: read a big-endian 32-byte buffer into limbs
(`r.d[i] = buf[(7-i)*4 ..]`). -/
def load_uint256_be (buf : List Nat) : Nat :=
  (List.range 8).foldl (fun r i =>
    let off := (7 - i) * 4
    aset 32 r i ((buf.getD off 0 <<< 24) ||| (buf.getD (off + 1) 0 <<< 16) |||
      (buf.getD (off + 2) 0 <<< 8) ||| buf.getD (off + 3) 0)) 0

/-- `load_g_table_entry`: entry `index` of the 32-entry, 64-bytes-each
power table. -/
def load_g_table_entry (table : List Nat) (index : Nat) : ec_point :=
  let entry := table.drop (index * 64)
  { x := load_uint256_be entry, y := load_uint256_be (entry.drop 32), infinity := false }

/-- `scalar_mul_g` (first kernel): affine accumulation of the table
entries at the set bits of `offset`. -/
def scalar_mul_g (offset : Nat) (g_table : List Nat) : ec_point :=
  (List.range 32).foldl (fun result bit =>
    if offset &&& (1 <<< bit) ≠ 0 then ec_add result (load_g_table_entry g_table bit)
    else result) { x := 0, y := 0, infinity := true }

/-- `scalar_mul_g_jacobian` (second kernel): Jacobian accumulation, no
inversion. -/
def scalar_mul_g_jacobian (offset : Nat) (g_table : List Nat) : jac_point :=
  (List.range 32).foldl (fun result bit =>
    if offset &&& (1 <<< bit) ≠ 0 then
      let g := load_g_table_entry g_table bit
      jacobian_add result { X := g.x, Y := g.y, Z := 1, infinity := false }
    else result) { X := 0, Y := 0, Z := 0, infinity := true }

/-- `point_to_pubkey`: 64 bytes, big-endian `x ‖ y`, no prefix byte. -/
def point_to_pubkey (pt : ec_point) : List Nat :=
  (List.range 32).map (fun b => aget 32 pt.x (7 - b / 4) / 2 ^ ((3 - b % 4) * 8) % 256) ++
    (List.range 32).map (fun b => aget 32 pt.y (7 - b / 4) / 2 ^ ((3 - b % 4) * 8) % 256)

/-! ## Pattern matching (kernel lines 535-589) -/

structure gpu_pattern_config where
  pattern_type : Nat
  pattern_len : Nat
  suffix_len : Nat
  pattern_nibbles : List Nat
  suffix_nibbles : List Nat
deriving DecidableEq

/-- `get_nibble`: nibble `idx` of a 20-byte address
(`addr[idx >> 1]`, high half when `idx` is even). -/
def get_nibble (addr : List Nat) (idx : Nat) : Nat :=
  let byte := addr.getD (idx / 2) 0
  if idx % 2 = 1 then byte % 16 else byte / 16

/-- `match_pattern_at`: the nibble-comparison loop `i < len` starting at
`start`. -/
def match_pattern_at (addr nibbles : List Nat) (len start : Nat) : Bool :=
  (List.range len).all (fun i => get_nibble addr (start + i) == nibbles.getD i 0)

/-- `pattern_matches`: dispatch on `pattern_type`; the private copies
`pnib`/`snib` of the config arrays are semantically the arrays
themselves.  In the contains branch the C loop bound `limit = 40 - len`
is a signed int, so a `len > 40` gives no iterations. -/
def pattern_matches (addr : List Nat) (cfg : gpu_pattern_config) : Bool :=
  if cfg.pattern_type == 0 then
    match_pattern_at addr cfg.pattern_nibbles cfg.pattern_len 0
  else if cfg.pattern_type == 1 then
    match_pattern_at addr cfg.suffix_nibbles cfg.suffix_len (40 - cfg.suffix_len)
  else if cfg.pattern_type == 2 then
    if 40 < cfg.pattern_len then false
    else (List.range (40 - cfg.pattern_len + 1)).any (fun start =>
      match_pattern_at addr cfg.pattern_nibbles cfg.pattern_len start)
  else if cfg.pattern_type == 3 then
    match_pattern_at addr cfg.pattern_nibbles cfg.pattern_len 0 &&
      match_pattern_at addr cfg.suffix_nibbles cfg.suffix_len (40 - cfg.suffix_len)
  else false

/-! ## The mining kernels (lines 603-658 affine, 1454-1512 Jacobian)

One work item of `vanity_iterate_and_match`, as a function of the work
item's `offset = gid + batch_offset` (a wrapping `uint` sum): derive the
candidate public key, hash it, take hash bytes 12..31 as the address.
The result is `none` when the item returns early (offset 0, or derived
point at infinity). -/

/-- The point the Jacobian kernel derives for a work item:
`base + offset*G` via Jacobian accumulation, mixed addition and the final
affine conversion. -/
def kernel_derived_point (base_pubkey g_table : List Nat) (offset : Nat) : ec_point :=
  jacobian_to_affine (mixed_add_jacobian
    { x := load_uint256_be base_pubkey, y := load_uint256_be (base_pubkey.drop 32),
      infinity := false }
    (scalar_mul_g_jacobian offset g_table))

/-- Address derivation of the Jacobian kernel work item. -/
def vanity_derive_jacobian (base_pubkey g_table : List Nat) (offset : Nat) :
    Option (List Nat) :=
  if offset = 0 then none
  else
    let q := kernel_derived_point base_pubkey g_table offset
    if q.infinity then none
    else
      let hash := keccak256_64bytes (point_to_pubkey q)
      some ((List.range 20).map (fun i => hash.getD (i + 12) 0))

/-- Address derivation of the affine kernel work item
(`scalar_mul_g` then one affine `ec_add`). -/
def vanity_derive_affine (base_pubkey g_table : List Nat) (offset : Nat) :
    Option (List Nat) :=
  if offset = 0 then none
  else
    let base_pt : ec_point :=
      { x := load_uint256_be base_pubkey, y := load_uint256_be (base_pubkey.drop 32),
        infinity := false }
    let q := ec_add base_pt (scalar_mul_g offset g_table)
    if q.infinity then none
    else
      let hash := keccak256_64bytes (point_to_pubkey q)
      some ((List.range 20).map (fun i => hash.getD (i + 12) 0))

/-- A result-buffer entry (`gpu_result_t`). -/
structure gpu_result where
  found : Nat
  offset : Nat
  addr : List Nat
deriving DecidableEq

/-- The hit a work item produces, if any: derived address passes the
pattern test. -/
def kernel_item (base g_table : List Nat) (cfg : gpu_pattern_config)
    (batch_offset gid : Nat) : Option (Nat × List Nat) :=
  let offset := (gid + batch_offset) % 2 ^ 32
  match vanity_derive_jacobian base g_table offset with
  | none => none
  | some addr => if pattern_matches addr cfg then some (offset, addr) else none

/-- The entry a hit writes (`found = 1`, the offset, the address). -/
def mk_result (hit : Nat × List Nat) : gpu_result :=
  { found := 1, offset := hit.1, addr := hit.2 }

/-- One work item's effect on the shared state `(result_count, results)`:
on a hit, `idx = atomic_inc(result_count)` and the entry is written only
when `idx < max_results`.  The accelerator's concurrent counter is
modelled by its linearisation: items take counter values in sequence. -/
def kernel_step (base g_table : List Nat) (cfg : gpu_pattern_config)
    (max_results batch_offset : Nat) (st : Nat × List gpu_result) (gid : Nat) :
    Nat × List gpu_result :=
  match kernel_item base g_table cfg batch_offset gid with
  | none => st
  | some hit =>
    let idx := st.1
    (st.1 + 1, if idx < max_results then st.2.set idx (mk_result hit) else st.2)

/-- A whole batch: every work item in dispatch order. -/
def kernel_batch (base g_table : List Nat) (cfg : gpu_pattern_config)
    (max_results batch_offset : Nat) (gids : List Nat) (st : Nat × List gpu_result) :
    Nat × List gpu_result :=
  gids.foldl (kernel_step base g_table cfg max_results batch_offset) st

/-- Reference writer for the saturation proof: hits take counter values
`c, c+1, …` and only those below `max` write their slot. -/
def writeSeq (max : Nat) : Nat → List gpu_result → List (Nat × List Nat) → List gpu_result
  | _, buf, [] => buf
  | c, buf, h :: t => writeSeq max (c + 1) (if c < max then buf.set c (mk_result h) else buf) t

/-! ## The JavaScript CREATE2 verifier (verify.js and lib/safe-config.js)

String-level embedding of `strip0x`, `hexToBytes`, `saltNonceToBytes`,
`saltNonceDecimalToBytes`, `computeCreate2Address` and the formula-mode
driver `runFormulaMode`.  A thrown `Error` is `none` / `Except.error`.
Platform pieces that are not repository code are modelled and marked:
`Buffer.from(str, 'hex')` (decode pairs until the first non-hex pair,
drop a trailing odd character) and `BigInt(str)`. -/

/-- `strip0x` (`hex.startsWith('0x') ? hex.slice(2) : hex`), written on
the character sequence so the kernel can evaluate it. -/
def strip0x (s : String) : String :=
  match s.toList with
  | '0' :: 'x' :: rest => String.mk rest
  | _ => s

/-- Hex-digit test (the `/^[0-9a-fA-F]+$/` character class). -/
def isHexDigit (c : Char) : Bool :=
  ('0' ≤ c && c ≤ '9') || ('a' ≤ c && c ≤ 'f') || ('A' ≤ c && c ≤ 'F')

/-- Value of a hex digit. -/
def hexDigitVal (c : Char) : Nat :=
  if '0' ≤ c && c ≤ '9' then c.toNat - 48
  else if 'a' ≤ c && c ≤ 'f' then c.toNat - 87
  else c.toNat - 55

/-- Modelled from the spec: Node's `Buffer.from(str, 'hex')` — decode
successive hex pairs, stopping at the first invalid or incomplete pair
(no error). -/
def bufferFromHex : List Char → List Nat
  | c1 :: c2 :: rest =>
    if isHexDigit c1 && isHexDigit c2 then
      (16 * hexDigitVal c1 + hexDigitVal c2) :: bufferFromHex rest
    else []
  | _ => []

/-- `hexToBytes` (verify.js lines 14-18): odd-length hex throws. -/
def hexToBytes (hex : String) : Option (List Nat) :=
  let h := strip0x hex
  if h.length % 2 = 1 then none else some (bufferFromHex h.toList)

/-- Decimal-digit string to value (`none` when a character is not a
digit or the string is empty). -/
def parseDecimalDigits : List Char → Option Nat → Option Nat
  | [], acc => acc
  | c :: rest, acc =>
    if '0' ≤ c && c ≤ '9' then
      parseDecimalDigits rest (some ((acc.getD 0) * 10 + (c.toNat - 48)))
    else none

/-- Hex-digit string to value (`none` when empty or a character is not a
hex digit). -/
def parseHexDigits : List Char → Option Nat → Option Nat
  | [], acc => acc
  | c :: rest, acc =>
    if isHexDigit c then parseHexDigits rest (some ((acc.getD 0) * 16 + hexDigitVal c))
    else none

/-- Modelled from the spec: JavaScript `BigInt(string)` for the string
shapes this tool is given — empty string is 0, a `0x` prefix reads hex,
otherwise decimal digits; anything else throws.  (Signs, binary/octal
prefixes and whitespace trimming are outside the inputs exercised
here.) -/
def bigIntOfString (s : String) : Option Nat :=
  match s.toList with
  | [] => some 0
  | '0' :: 'x' :: rest => parseHexDigits rest none
  | cs => parseDecimalDigits cs none

/-- Lowercase hex digit character. -/
def hexCharLower (n : Nat) : Char :=
  if n < 10 then Char.ofNat (48 + n) else Char.ofNat (87 + n)

/-- Digits of `BigInt.prototype.toString(16)` (lowercase, "0" for 0);
`fuel` makes the division recursion structural. -/
def natToHexAux : Nat → Nat → List Char → List Char
  | 0, _, acc => acc
  | fuel + 1, n, acc =>
    let acc1 := hexCharLower (n % 16) :: acc
    if n < 16 then acc1 else natToHexAux fuel (n / 16) acc1

/-- `v.toString(16)`. -/
def natToHexString (n : Nat) : String := ⟨natToHexAux (n + 1) n []⟩

/-- `.padStart(64, '0')`. -/
def padStart64 (s : String) : String :=
  if s.length < 64 then ⟨List.replicate (64 - s.length) '0'⟩ ++ s else s

/-- `saltNonceDecimalToBytes` (safe-config.js lines 174-178):
`BigInt(decStr).toString(16).padStart(64, '0')` decoded as hex. -/
def saltNonceDecimalToBytes (decStr : String) : Option (List Nat) :=
  (bigIntOfString decStr).map (fun v => bufferFromHex (padStart64 (natToHexString v)).toList)

/-- `saltNonceToBytes` (verify.js lines 20-25): a 64-hex-char string is
read as bytes, anything else goes through the decimal path. -/
def saltNonceToBytes (s : String) : Option (List Nat) :=
  let raw := strip0x s
  if raw.length = 64 && raw.toList.all isHexDigit then some (bufferFromHex raw.toList)
  else saltNonceDecimalToBytes s

/-- `computeCreate2Address` (safe-config.js lines 181-195):
`salt = keccak256(initializerHash ‖ saltNonce)`,
`address = keccak256(0xff ‖ factory ‖ salt ‖ initCodeHash).slice(12, 32)`. -/
def computeCreate2Address (factory initCodeHash initializerHash : String)
    (saltNonceBytes : List Nat) : List Nat :=
  let factoryBytes := bufferFromHex (strip0x factory).toList
  let initCodeHashBytes := bufferFromHex (strip0x initCodeHash).toList
  let initializerHashBytes := bufferFromHex (strip0x initializerHash).toList
  let saltPreimage := initializerHashBytes ++ saltNonceBytes
  let salt := keccak256 saltPreimage
  let preimage := [0xff] ++ factoryBytes ++ salt ++ initCodeHashBytes
  let hash := keccak256 preimage
  (hash.take 32).drop 12

/-- `runFormulaMode` (verify.js lines 27-49): parse the four inputs
(each parse can throw), check the four byte lengths, then compute the
address.  Console output is irrelevant to the result. -/
def runFormulaMode (factory initCodeHash initializerHash saltNonce : String) :
    Option (List Nat) :=
  match hexToBytes factory, hexToBytes initCodeHash, hexToBytes initializerHash,
      saltNonceToBytes saltNonce with
  | some fB, some icB, some izB, some snB =>
    if fB.length ≠ 20 then none
    else if icB.length ≠ 32 then none
    else if izB.length ≠ 32 then none
    else if snB.length ≠ 32 then none
    else some (computeCreate2Address factory initCodeHash initializerHash snB)
  | _, _, _, _ => none

/-- The error condition claim C9 enumerates, read on the embedded
parsers: an odd-length hex input, or a parsed byte length different from
20/32/32/32 (for the salt nonce: no 32-byte value is produced). -/
def c9_badInputs (factory initCodeHash initializerHash saltNonce : String) : Bool :=
  ((strip0x factory).length % 2 == 1) ||
  ((strip0x initCodeHash).length % 2 == 1) ||
  ((strip0x initializerHash).length % 2 == 1) ||
  ((bufferFromHex (strip0x factory).toList).length != 20) ||
  ((bufferFromHex (strip0x initCodeHash).toList).length != 32) ||
  ((bufferFromHex (strip0x initializerHash).toList).length != 32) ||
  (match saltNonceToBytes saltNonce with
   | none => true
   | some b => b.length != 32)

/-! ## Spec-side reference definitions -/

/-- Modelled from the spec (section 4.4): the CREATE2 formula over raw
bytes — inner salt hash over the 64-byte `initializerHash ‖ saltNonce`,
outer hash over the 85-byte `0xff ‖ factory ‖ salt ‖ initCodeHash`, and
the low 20 bytes (bytes 12..32) of the outer digest. -/
def create2SpecAddress (factoryB initCodeHashB initializerHashB saltNonceB : List Nat) :
    List Nat :=
  let salt := keccak256 (initializerHashB ++ saltNonceB)
  (keccak256 ([0xff] ++ factoryB ++ salt ++ initCodeHashB)).drop 12

/-- Claim C5's nibble convention: nibble `i` is the high half of byte
`i/2` when `i` is even, the low half when odd. -/
def nibbleSpec (addr : List Nat) (i : Nat) : Nat :=
  if i % 2 = 0 then addr.getD (i / 2) 0 / 16 else addr.getD (i / 2) 0 % 16

/-- The first `len` nibbles of an address under `nibbleSpec`. -/
def addrNibbles (addr : List Nat) (len : Nat) : List Nat :=
  (List.range len).map (nibbleSpec addr)

/-- Curve membership `y^2 = x^3 + 7 (mod p)`, in plain modular
arithmetic (used only to certify concrete table constants). -/
def onCurve (x y : Nat) : Bool :=
  y * y % secpP == (x * x % secpP * x + 7) % secpP

/-- The standard affine doubling relations, cross-multiplied to avoid
division: with `n = 3*x1^2` and `d = 2*y1`, `(x2, y2) = 2*(x1, y1)` iff
`n^2 ≡ (x2 + 2*x1) * d^2` and `n * (x1 - x2) ≡ (y1 + y2) * d (mod p)`
(used only to certify concrete table constants; both points on the
curve, `y1 ≠ 0`). -/
def isDoubleOf (x1 y1 x2 y2 : Nat) : Bool :=
  let n := 3 * x1 % secpP * x1 % secpP
  let d := 2 * y1 % secpP
  (n * n % secpP == (x2 + 2 * x1) % secpP * (d * d % secpP) % secpP) &&
  (n * ((x1 + secpP - x2) % secpP) % secpP == (y1 + y2) % secpP * d % secpP)

/-! # Concrete table constants -/

/-- A genuine power table: entry `k` is `2^k * G` as 64 big-endian bytes (certified on-curve and consecutive-doubling below). -/
def c4_table : List Nat :=
  [121, 190, 102, 126, 249, 220, 187, 172, 85, 160, 98, 149, 206, 135, 11, 7,
     2, 155, 252, 219, 45, 206, 40, 217, 89, 242, 129, 91, 22, 248, 23, 152,
     72, 58, 218, 119, 38, 163, 196, 101, 93, 164, 251, 252, 14, 17, 8, 168,
     253, 23, 180, 72, 166, 133, 84, 25, 156, 71, 208, 143, 251, 16, 212, 184,
     198, 4, 127, 148, 65, 237, 125, 109, 48, 69, 64, 110, 149, 192, 124, 216,
     92, 119, 142, 75, 140, 239, 60, 167, 171, 172, 9, 185, 92, 112, 158, 229,
     26, 225, 104, 254, 166, 61, 195, 57, 163, 197, 132, 25, 70, 108, 234, 238,
     247, 246, 50, 101, 50, 102, 208, 225, 35, 100, 49, 169, 80, 207, 229, 42,
     228, 147, 219, 241, 193, 13, 128, 243, 88, 30, 73, 4, 147, 11, 20, 4,
     204, 108, 19, 144, 14, 224, 117, 132, 116, 250, 148, 171, 232, 196, 205, 19,
     81, 237, 153, 62, 160, 212, 85, 183, 86, 66, 226, 9, 142, 165, 20, 72,
     217, 103, 174, 51, 191, 189, 254, 64, 207, 233, 123, 220, 71, 115, 153, 34,
     47, 1, 229, 225, 92, 202, 53, 29, 175, 243, 132, 63, 183, 15, 60, 47,
     10, 27, 221, 5, 229, 175, 136, 138, 103, 120, 78, 243, 225, 10, 42, 1,
     92, 77, 168, 167, 65, 83, 153, 73, 41, 61, 8, 42, 19, 45, 19, 180,
     194, 226, 19, 214, 186, 91, 118, 23, 181, 218, 44, 183, 108, 189, 233, 4,
     230, 15, 206, 147, 181, 158, 158, 197, 48, 17, 170, 188, 33, 194, 62, 151,
     178, 163, 19, 105, 184, 122, 90, 233, 196, 78, 232, 158, 42, 109, 236, 10,
     247, 227, 80, 115, 153, 229, 149, 146, 157, 185, 159, 52, 245, 121, 55, 16,
     18, 150, 137, 30, 68, 210, 63, 11, 225, 243, 44, 206, 105, 97, 104, 33,
     211, 1, 153, 215, 79, 181, 162, 45, 71, 182, 224, 84, 226, 243, 120, 206,
     218, 207, 252, 184, 153, 4, 166, 29, 117, 208, 219, 212, 7, 20, 62, 101,
     149, 3, 141, 157, 10, 227, 213, 195, 179, 214, 222, 201, 233, 131, 128, 101,
     31, 118, 12, 195, 100, 237, 129, 150, 5, 179, 255, 31, 36, 16, 106, 185,
     191, 35, 193, 84, 45, 22, 234, 183, 11, 16, 81, 234, 248, 50, 130, 60,
     252, 76, 111, 29, 205, 186, 253, 129, 227, 121, 24, 230, 248, 116, 239, 139,
     92, 179, 134, 111, 195, 48, 3, 115, 122, 217, 40, 160, 186, 83, 146, 228,
     197, 34, 252, 84, 129, 30, 47, 120, 77, 195, 126, 254, 102, 131, 29, 159,
     52, 255, 59, 228, 3, 63, 122, 6, 105, 108, 61, 9, 247, 209, 103, 28,
     188, 245, 92, 215, 0, 83, 86, 85, 100, 112, 119, 69, 103, 105, 162, 78,
     93, 157, 17, 98, 58, 35, 108, 85, 63, 102, 25, 216, 152, 50, 9, 140,
     85, 223, 22, 195, 232, 248, 182, 129, 132, 145, 6, 122, 115, 204, 47, 26,
     130, 130, 38, 50, 18, 198, 9, 217, 234, 42, 110, 62, 23, 45, 226, 56,
     216, 195, 156, 171, 213, 172, 28, 161, 6, 70, 226, 63, 213, 245, 21, 8,
     17, 248, 168, 9, 133, 87, 223, 228, 94, 130, 86, 232, 48, 182, 10, 206,
     98, 214, 19, 172, 47, 123, 23, 190, 211, 27, 110, 175, 246, 226, 108, 175,
     70, 83, 112, 178, 135, 167, 159, 243, 144, 90, 133, 122, 156, 249, 24, 213,
     10, 219, 201, 104, 217, 225, 89, 208, 146, 110, 44, 0, 239, 52, 162, 77,
     53, 229, 49, 179, 131, 104, 192, 130, 164, 175, 139, 218, 253, 238, 194, 193,
     88, 142, 9, 178, 21, 211, 122, 16, 162, 248, 251, 32, 179, 56, 135, 244,
     36, 31, 235, 184, 226, 60, 189, 119, 214, 100, 161, 143, 102, 173, 98, 64,
     170, 236, 110, 205, 200, 19, 176, 136, 213, 185, 1, 178, 226, 133, 19, 31,
     81, 51, 120, 217, 255, 148, 248, 211, 214, 196, 32, 189, 19, 152, 29, 248,
     205, 80, 253, 15, 189, 12, 181, 175, 171, 179, 230, 111, 39, 80, 2, 109,
     93, 27, 219, 78, 161, 114, 250, 121, 252, 228, 204, 41, 131, 216, 248, 217,
     252, 49, 139, 133, 244, 35, 222, 13, 237, 203, 99, 6, 155, 146, 4, 113,
     40, 67, 130, 103, 121, 55, 158, 46, 121, 75, 185, 148, 56, 162, 38, 86,
     121, 235, 30, 153, 150, 197, 110, 123, 112, 51, 6, 102, 247, 184, 49, 3,
     23, 94, 21, 159, 114, 139, 134, 90, 114, 249, 156, 198, 198, 252, 132, 109,
     224, 185, 56, 51, 253, 34, 34, 237, 115, 252, 229, 181, 81, 229, 183, 57,
     211, 80, 110, 13, 158, 60, 121, 235, 164, 239, 151, 165, 31, 247, 31, 94,
     172, 181, 149, 90, 221, 36, 52, 92, 110, 250, 111, 254, 233, 254, 214, 149,
     66, 58, 1, 63, 3, 255, 50, 215, 165, 255, 188, 200, 225, 57, 198, 33,
     48, 253, 254, 181, 198, 218, 18, 27, 206, 120, 4, 158, 70, 188, 71, 214,
     185, 26, 224, 15, 225, 225, 217, 112, 161, 23, 159, 123, 186, 246, 179, 199,
     114, 13, 142, 195, 82, 79, 0, 158, 209, 35, 110, 109, 139, 84, 138, 52,
     17, 29, 106, 69, 172, 31, 185, 5, 8, 144, 122, 122, 188, 214, 135, 118,
     73, 223, 102, 47, 59, 62, 39, 65, 48, 45, 246, 247, 132, 22, 130, 74,
     6, 150, 145, 28, 71, 142, 175, 251, 185, 13, 72, 219, 255, 6, 89, 82,
     240, 112, 0, 137, 150, 218, 202, 76, 169, 161, 17, 212, 33, 8, 233, 208,
     74, 74, 109, 201, 122, 199, 200, 184, 173, 121, 93, 190, 188, 185, 220, 255,
     114, 144, 182, 138, 94, 247, 78, 86, 171, 94, 221, 224, 27, 206, 215, 117,
     82, 153, 17, 176, 22, 99, 30, 114, 148, 62, 249, 247, 57, 192, 244, 87,
     29, 233, 12, 219, 66, 71, 66, 172, 178, 191, 143, 104, 167, 141, 214, 109,
     54, 61, 144, 212, 71, 176, 12, 156, 153, 206, 172, 5, 182, 38, 46, 224,
     83, 68, 28, 126, 85, 85, 47, 254, 82, 107, 173, 143, 131, 255, 70, 64,
     4, 226, 115, 173, 252, 115, 34, 33, 149, 59, 68, 83, 151, 243, 54, 49,
     69, 185, 168, 144, 8, 25, 158, 203, 98, 0, 60, 127, 59, 238, 157, 233,
     76, 27, 152, 102, 237, 154, 126, 155, 85, 57, 115, 198, 201, 59, 2, 191,
     11, 98, 251, 1, 46, 223, 181, 157, 210, 113, 42, 92, 175, 146, 197, 65,
     193, 247, 146, 211, 32, 190, 138, 15, 127, 188, 183, 83, 206, 86, 230, 156,
     198, 82, 234, 215, 228, 62, 177, 173, 114, 196, 243, 253, 198, 143, 224, 32,
     164, 8, 56, 119, 186, 131, 177, 43, 82, 154, 47, 60, 7, 128, 181, 78,
     50, 51, 237, 188, 26, 40, 241, 53, 224, 200, 242, 140, 190, 170, 243, 209,
     64, 233, 246, 18, 254, 239, 188, 121, 184, 191, 131, 214, 147, 97, 179, 226,
     32, 1, 231, 87, 110, 209, 239, 144, 177, 43, 83, 77, 240, 178, 84, 185,
     168, 4, 198, 65, 210, 140, 192, 181, 58, 78, 62, 26, 47, 86, 200, 111,
     110, 13, 136, 10, 69, 66, 3, 185, 140, 211, 219, 90, 121, 64, 211, 58,
     149, 190, 131, 37, 43, 47, 166, 208, 61, 236, 40, 66, 193, 96, 71, 232,
     26, 241, 140, 168, 156, 247, 54, 169, 67, 206, 149, 250, 109, 70, 150, 122,
     139, 75, 95, 22, 93, 243, 194, 190, 140, 98, 68, 181, 183, 69, 99, 136,
     67, 228, 167, 129, 161, 91, 205, 27, 105, 247, 154, 85, 223, 253, 248, 12,
     74, 173, 10, 111, 104, 211, 8, 180, 179, 251, 215, 129, 58, 176, 218, 4,
     249, 227, 54, 84, 97, 98, 238, 86, 179, 239, 240, 198, 95, 212, 253, 54,
     237, 12, 92, 228, 225, 50, 145, 113, 140, 225, 124, 126, 200, 60, 97, 16,
     113, 175, 100, 238, 65, 124, 153, 122, 187, 63, 38, 113, 71, 85, 228, 190,
     34, 26, 159, 199, 188, 35, 69, 189, 191, 61, 173, 127, 90, 126, 166, 128,
     73, 217, 57, 37, 118, 61, 218, 177, 99, 249, 250, 110, 160, 123, 244, 47,
     250, 236, 176, 19, 196, 76, 230, 148, 179, 177, 92, 63, 131, 241, 250, 232,
     229, 50, 84, 86, 110, 5, 82, 206, 212, 182, 230, 200, 7, 206, 200, 171,
     204, 9, 181, 233, 14, 158, 203, 87, 252, 46, 2, 198, 236, 47, 177, 61,
     156, 50, 178, 134, 184, 94, 46, 46, 137, 129, 223, 217, 171, 21, 80, 112,
     9, 187, 138, 19, 45, 202, 210, 242, 200, 115, 26, 11, 55, 203, 202, 253,
     179, 178, 221, 130, 79, 35, 205, 62, 7, 246, 78, 174, 154, 209, 177, 247,
     148, 91, 178, 178, 175, 238, 227, 185, 182, 249, 221, 40, 79, 134, 62, 133,
     15, 84, 168, 64, 244, 117, 45, 83, 100, 19, 6, 39, 195, 129, 28, 128,
     114, 60, 186, 166, 229, 219, 153, 109, 107, 247, 113, 192, 11, 213, 72, 199,
     183, 0, 219, 255, 166, 192, 231, 123, 203, 97, 21, 146, 82, 50, 252, 218,
     150, 232, 103, 181, 89, 92, 196, 152, 169, 33, 19, 116, 136, 130, 77, 110,
     38, 96, 160, 101, 55, 121, 73, 72, 1, 220, 6, 157, 158, 179, 159, 95,
     87, 239, 167, 134, 67, 123, 116, 77, 52, 61, 125, 196, 87, 115, 163, 198,
     45, 36, 10, 67, 7, 152, 73, 7, 31, 211, 131, 214, 12, 160, 48, 213,
     215, 18, 219, 11, 209, 180, 133, 24, 137, 54, 39, 201, 40, 222, 3, 236,
     104, 155, 109, 42, 229, 233, 151, 74, 176, 122, 180, 66, 116, 176, 47, 158,
     38, 75, 189, 67, 106, 40, 188, 66, 162, 223, 126, 156, 213, 34, 108, 185,
     16, 128, 87, 126, 50, 123, 1, 42, 127, 175, 199, 119, 12, 88, 77, 213,
     216, 124, 111, 169, 78, 224, 147, 180, 212, 247, 92, 226, 76, 51, 190, 34,
     106, 17, 130, 67, 113, 123, 141, 141, 230, 18, 39, 147, 119, 4, 171, 17,
     169, 76, 101, 36, 189, 64, 210, 187, 218, 200, 92, 5, 98, 54, 167, 157,
     167, 139, 198, 31, 213, 189, 236, 157, 43, 242, 107, 216, 75, 36, 56, 232,
     181, 32, 31, 217, 146, 249, 98, 128, 253, 121, 33, 149, 5, 1, 158, 58,
     126, 93, 60, 96, 160, 227, 155, 43, 194, 226, 200, 219, 241, 134, 97, 244,
     238, 191, 164, 212, 147, 190, 191, 152, 186, 95, 238, 200, 18, 194, 211, 181,
     9, 71, 150, 18, 55, 169, 25, 131, 154, 83, 62, 202, 14, 125, 215, 250,
     93, 154, 140, 163, 151, 14, 240, 242, 105, 238, 126, 218, 241, 120, 8, 157,
     154, 228, 205, 195, 167, 17, 247, 18, 221, 253, 79, 218, 225, 222, 137, 153,
     56, 28, 74, 215, 167, 169, 123, 253, 166, 28, 96, 49, 193, 24, 73, 95,
     196, 234, 75, 192, 143, 103, 102, 214, 118, 190, 233, 8, 71, 210, 151, 253,
     147, 106, 245, 59, 35, 142, 238, 228, 143, 62, 95, 167, 9, 145, 94, 204,
     240, 69, 16, 50, 219, 147, 156, 0, 147, 172, 227, 24, 125, 73, 63, 197,
     225, 239, 185, 205, 5, 173, 198, 59, 204, 225, 8, 49, 217, 83, 140, 71,
     156, 241, 208, 95, 239, 221, 8, 178, 68, 141, 112, 66, 46, 222, 69, 76,
     14, 203, 69, 48, 216, 175, 155, 231, 176, 21, 76, 31, 254, 71, 113, 35,
     70, 78, 50, 68, 167, 162, 212, 198, 173, 159, 210, 51, 168, 145, 55, 151,
     83, 24, 249, 177, 162, 105, 112, 16, 197, 172, 35, 94, 154, 244, 117, 168,
     199, 229, 65, 159, 51, 212, 123, 24, 211, 63, 238, 179, 41, 235, 153, 164,
     244, 76, 207, 235, 75, 237, 164, 25, 87, 114, 217, 58, 235, 180, 5, 232,
     164, 31, 43, 64, 209, 227, 236, 101, 44, 114, 110, 238, 254, 145, 249, 45]

/-- The base public key `2G` as 64 big-endian bytes. -/
def c4_base : List Nat :=
  [198, 4, 127, 148, 65, 237, 125, 109, 48, 69, 64, 110, 149, 192, 124, 216,
     92, 119, 142, 75, 140, 239, 60, 167, 171, 172, 9, 185, 92, 112, 158, 229,
     26, 225, 104, 254, 166, 61, 195, 57, 163, 197, 132, 25, 70, 108, 234, 238,
     247, 246, 50, 101, 50, 102, 208, 225, 35, 100, 49, 169, 80, 207, 229, 42]

/-! # General helper theorems -/

/-- Keccak-256 always squeezes exactly 32 bytes. -/
theorem keccak256_length (msg : List Nat) : (keccak256 msg).length = 32 := by
  simp [keccak256, keccakSqueeze32]

/-- The two CREATE2 composition orders agree: the verifier's
`computeCreate2Address` equals the spec formula on the parsed bytes,
for all inputs (the 32-byte digest makes `slice(12, 32)` a plain
`drop 12`). -/
theorem computeCreate2Address_eq_spec (factory initCodeHash initializerHash : String)
    (saltNonceBytes : List Nat) :
    computeCreate2Address factory initCodeHash initializerHash saltNonceBytes =
      create2SpecAddress (bufferFromHex (strip0x factory).toList)
        (bufferFromHex (strip0x initCodeHash).toList)
        (bufferFromHex (strip0x initializerHash).toList) saltNonceBytes := by
  simp only [computeCreate2Address, create2SpecAddress]
  rw [List.take_of_length_le (le_of_eq (keccak256_length _))]

/-- `powModFuel` computes modular exponentiation once the fuel covers the
exponent's binary length. -/
theorem powModFuel_eq : ∀ fuel e, e < fuel → ∀ b m, powModFuel fuel b e m = b ^ e % m := by
  intro fuel
  induction fuel with
  | zero => intro e h; omega
  | succ n ih =>
    intro e he b m
    by_cases h0 : e = 0
    · subst h0; simp [powModFuel]
    · have hdiv : e / 2 < n := by omega
      have hrec := ih (e / 2) hdiv (b % m * (b % m) % m) m
      have hbb : (b % m * (b % m) % m) ^ (e / 2) % m = (b * b) ^ (e / 2) % m := by
        conv_rhs => rw [Nat.pow_mod, Nat.mul_mod]
      have hsplit : (b * b) ^ (e / 2) = b ^ (2 * (e / 2)) := by
        rw [Nat.pow_mul, Nat.pow_two]
      rcases Nat.mod_two_eq_zero_or_one e with hpar | hpar
      · have he2 : 2 * (e / 2) = e := by omega
        simp only [powModFuel, h0, if_false, hpar]
        rw [hrec, hbb, hsplit, he2]
        simp only [Nat.zero_ne_one, if_false]
      · have he2 : 2 * (e / 2) + 1 = e := by omega
        simp only [powModFuel, h0, if_false, hpar, if_true]
        rw [hrec, hbb, hsplit]
        conv_rhs => rw [← he2, Nat.pow_succ, Nat.mul_mod]

/-- `powMod` is `b ^ e % m`. -/
theorem powMod_eq (b e m : Nat) : powMod b e m = b ^ e % m :=
  powModFuel_eq (e + 1) e (Nat.lt_succ_self e) b m

/-- The computed CREATE2 address is 20 bytes. -/
theorem computeCreate2Address_length (factory initCodeHash initializerHash : String)
    (saltNonceBytes : List Nat) :
    (computeCreate2Address factory initCodeHash initializerHash saltNonceBytes).length = 20 := by
  simp [computeCreate2Address, keccak256_length]

/-- One absorb round of the fuelled sponge loop on a nonempty message. -/
theorem keccakAbsorbAll_one (st : Nat) (msg : List Nat) (h : ¬ msg = []) :
    keccakAbsorbAll 1 st msg =
      keccak_f1600 keccak_rotc_std (keccakAbsorbBlock st (msg.take 136)) := by
  show (if msg = [] then st
    else keccakAbsorbAll 0
      (keccak_f1600 keccak_rotc_std (keccakAbsorbBlock st (msg.take 136))) (msg.drop 136)) =
    keccak_f1600 keccak_rotc_std (keccakAbsorbBlock st (msg.take 136))
  rw [if_neg h]
  rfl

/-- Keccak-256 of a message whose padded form is a single 136-byte block:
absorb that block, permute once, squeeze. -/
theorem keccak256_single_block (msg padded : List Nat) (st : Nat)
    (hpad : keccakPad msg = padded) (hlen : padded.length = 136) (hne : ¬ padded = [])
    (habs : keccakAbsorbBlock 0 padded = st) :
    keccak256 msg = keccakSqueeze32 (keccak_f1600 keccak_rotc_std st) := by
  simp only [keccak256, hpad, hlen]
  rw [show (136 : Nat) / 136 = 1 from rfl, keccakAbsorbAll_one 0 padded hne,
    List.take_of_length_le (le_of_eq hlen), habs]

/-! # Generated evaluation lemmas -/

theorem keccak_f1600_expand (rotc : List Nat) (st : Nat) :
    keccak_f1600 rotc st = keccakRound rotc (keccakRound rotc (keccakRound rotc (keccakRound rotc (keccakRound rotc (keccakRound rotc (keccakRound rotc (keccakRound rotc (keccakRound rotc (keccakRound rotc (keccakRound rotc (keccakRound rotc (keccakRound rotc (keccakRound rotc (keccakRound rotc (keccakRound rotc (keccakRound rotc (keccakRound rotc (keccakRound rotc (keccakRound rotc (keccakRound rotc (keccakRound rotc (keccakRound rotc (keccakRound rotc st 0) 1) 2) 3) 4) 5) 6) 7) 8) 9) 10) 11) 12) 13) 14) 15) 16) 17) 18) 19) 20) 21) 22) 23 := rfl

theorem sqrN_zero (t : Nat) : sqrN 0 t = t := rfl
theorem sqrN_step_1 (t : Nat) : sqrN 1 t = sqrN 0 (fp_sqr t) := rfl
theorem sqrN_step_2 (t : Nat) : sqrN 2 t = sqrN 1 (fp_sqr t) := rfl
theorem sqrN_step_3 (t : Nat) : sqrN 3 t = sqrN 2 (fp_sqr t) := rfl
theorem sqrN_step_4 (t : Nat) : sqrN 4 t = sqrN 3 (fp_sqr t) := rfl
theorem sqrN_step_5 (t : Nat) : sqrN 5 t = sqrN 4 (fp_sqr t) := rfl
theorem sqrN_step_6 (t : Nat) : sqrN 6 t = sqrN 5 (fp_sqr t) := rfl
theorem sqrN_step_7 (t : Nat) : sqrN 7 t = sqrN 6 (fp_sqr t) := rfl
theorem sqrN_step_8 (t : Nat) : sqrN 8 t = sqrN 7 (fp_sqr t) := rfl
theorem sqrN_step_9 (t : Nat) : sqrN 9 t = sqrN 8 (fp_sqr t) := rfl
theorem sqrN_step_10 (t : Nat) : sqrN 10 t = sqrN 9 (fp_sqr t) := rfl
theorem sqrN_step_11 (t : Nat) : sqrN 11 t = sqrN 10 (fp_sqr t) := rfl
theorem sqrN_step_12 (t : Nat) : sqrN 12 t = sqrN 11 (fp_sqr t) := rfl
theorem sqrN_step_13 (t : Nat) : sqrN 13 t = sqrN 12 (fp_sqr t) := rfl
theorem sqrN_step_14 (t : Nat) : sqrN 14 t = sqrN 13 (fp_sqr t) := rfl
theorem sqrN_step_15 (t : Nat) : sqrN 15 t = sqrN 14 (fp_sqr t) := rfl
theorem sqrN_step_16 (t : Nat) : sqrN 16 t = sqrN 15 (fp_sqr t) := rfl
theorem sqrN_step_17 (t : Nat) : sqrN 17 t = sqrN 16 (fp_sqr t) := rfl
theorem sqrN_step_18 (t : Nat) : sqrN 18 t = sqrN 17 (fp_sqr t) := rfl
theorem sqrN_step_19 (t : Nat) : sqrN 19 t = sqrN 18 (fp_sqr t) := rfl
theorem sqrN_step_20 (t : Nat) : sqrN 20 t = sqrN 19 (fp_sqr t) := rfl
theorem sqrN_step_21 (t : Nat) : sqrN 21 t = sqrN 20 (fp_sqr t) := rfl
theorem sqrN_step_22 (t : Nat) : sqrN 22 t = sqrN 21 (fp_sqr t) := rfl
theorem sqrN_step_23 (t : Nat) : sqrN 23 t = sqrN 22 (fp_sqr t) := rfl
theorem sqrN_step_24 (t : Nat) : sqrN 24 t = sqrN 23 (fp_sqr t) := rfl
theorem sqrN_step_25 (t : Nat) : sqrN 25 t = sqrN 24 (fp_sqr t) := rfl
theorem sqrN_step_26 (t : Nat) : sqrN 26 t = sqrN 25 (fp_sqr t) := rfl
theorem sqrN_step_27 (t : Nat) : sqrN 27 t = sqrN 26 (fp_sqr t) := rfl
theorem sqrN_step_28 (t : Nat) : sqrN 28 t = sqrN 27 (fp_sqr t) := rfl
theorem sqrN_step_29 (t : Nat) : sqrN 29 t = sqrN 28 (fp_sqr t) := rfl
theorem sqrN_step_30 (t : Nat) : sqrN 30 t = sqrN 29 (fp_sqr t) := rfl
theorem sqrN_step_31 (t : Nat) : sqrN 31 t = sqrN 30 (fp_sqr t) := rfl
theorem sqrN_step_32 (t : Nat) : sqrN 32 t = sqrN 31 (fp_sqr t) := rfl
theorem sqrN_step_33 (t : Nat) : sqrN 33 t = sqrN 32 (fp_sqr t) := rfl
theorem sqrN_step_34 (t : Nat) : sqrN 34 t = sqrN 33 (fp_sqr t) := rfl
theorem sqrN_step_35 (t : Nat) : sqrN 35 t = sqrN 34 (fp_sqr t) := rfl
theorem sqrN_step_36 (t : Nat) : sqrN 36 t = sqrN 35 (fp_sqr t) := rfl
theorem sqrN_step_37 (t : Nat) : sqrN 37 t = sqrN 36 (fp_sqr t) := rfl
theorem sqrN_step_38 (t : Nat) : sqrN 38 t = sqrN 37 (fp_sqr t) := rfl
theorem sqrN_step_39 (t : Nat) : sqrN 39 t = sqrN 38 (fp_sqr t) := rfl
theorem sqrN_step_40 (t : Nat) : sqrN 40 t = sqrN 39 (fp_sqr t) := rfl
theorem sqrN_step_41 (t : Nat) : sqrN 41 t = sqrN 40 (fp_sqr t) := rfl
theorem sqrN_step_42 (t : Nat) : sqrN 42 t = sqrN 41 (fp_sqr t) := rfl
theorem sqrN_step_43 (t : Nat) : sqrN 43 t = sqrN 42 (fp_sqr t) := rfl
theorem sqrN_step_44 (t : Nat) : sqrN 44 t = sqrN 43 (fp_sqr t) := rfl
theorem sqrN_step_45 (t : Nat) : sqrN 45 t = sqrN 44 (fp_sqr t) := rfl
theorem sqrN_step_46 (t : Nat) : sqrN 46 t = sqrN 45 (fp_sqr t) := rfl
theorem sqrN_step_47 (t : Nat) : sqrN 47 t = sqrN 46 (fp_sqr t) := rfl
theorem sqrN_step_48 (t : Nat) : sqrN 48 t = sqrN 47 (fp_sqr t) := rfl
theorem sqrN_step_49 (t : Nat) : sqrN 49 t = sqrN 48 (fp_sqr t) := rfl
theorem sqrN_step_50 (t : Nat) : sqrN 50 t = sqrN 49 (fp_sqr t) := rfl
theorem sqrN_step_51 (t : Nat) : sqrN 51 t = sqrN 50 (fp_sqr t) := rfl
theorem sqrN_step_52 (t : Nat) : sqrN 52 t = sqrN 51 (fp_sqr t) := rfl
theorem sqrN_step_53 (t : Nat) : sqrN 53 t = sqrN 52 (fp_sqr t) := rfl
theorem sqrN_step_54 (t : Nat) : sqrN 54 t = sqrN 53 (fp_sqr t) := rfl
theorem sqrN_step_55 (t : Nat) : sqrN 55 t = sqrN 54 (fp_sqr t) := rfl
theorem sqrN_step_56 (t : Nat) : sqrN 56 t = sqrN 55 (fp_sqr t) := rfl
theorem sqrN_step_57 (t : Nat) : sqrN 57 t = sqrN 56 (fp_sqr t) := rfl
theorem sqrN_step_58 (t : Nat) : sqrN 58 t = sqrN 57 (fp_sqr t) := rfl
theorem sqrN_step_59 (t : Nat) : sqrN 59 t = sqrN 58 (fp_sqr t) := rfl
theorem sqrN_step_60 (t : Nat) : sqrN 60 t = sqrN 59 (fp_sqr t) := rfl
theorem sqrN_step_61 (t : Nat) : sqrN 61 t = sqrN 60 (fp_sqr t) := rfl
theorem sqrN_step_62 (t : Nat) : sqrN 62 t = sqrN 61 (fp_sqr t) := rfl
theorem sqrN_step_63 (t : Nat) : sqrN 63 t = sqrN 62 (fp_sqr t) := rfl
theorem sqrN_step_64 (t : Nat) : sqrN 64 t = sqrN 63 (fp_sqr t) := rfl
theorem sqrN_step_65 (t : Nat) : sqrN 65 t = sqrN 64 (fp_sqr t) := rfl
theorem sqrN_step_66 (t : Nat) : sqrN 66 t = sqrN 65 (fp_sqr t) := rfl
theorem sqrN_step_67 (t : Nat) : sqrN 67 t = sqrN 66 (fp_sqr t) := rfl
theorem sqrN_step_68 (t : Nat) : sqrN 68 t = sqrN 67 (fp_sqr t) := rfl
theorem sqrN_step_69 (t : Nat) : sqrN 69 t = sqrN 68 (fp_sqr t) := rfl
theorem sqrN_step_70 (t : Nat) : sqrN 70 t = sqrN 69 (fp_sqr t) := rfl
theorem sqrN_step_71 (t : Nat) : sqrN 71 t = sqrN 70 (fp_sqr t) := rfl
theorem sqrN_step_72 (t : Nat) : sqrN 72 t = sqrN 71 (fp_sqr t) := rfl
theorem sqrN_step_73 (t : Nat) : sqrN 73 t = sqrN 72 (fp_sqr t) := rfl
theorem sqrN_step_74 (t : Nat) : sqrN 74 t = sqrN 73 (fp_sqr t) := rfl
theorem sqrN_step_75 (t : Nat) : sqrN 75 t = sqrN 74 (fp_sqr t) := rfl
theorem sqrN_step_76 (t : Nat) : sqrN 76 t = sqrN 75 (fp_sqr t) := rfl
theorem sqrN_step_77 (t : Nat) : sqrN 77 t = sqrN 76 (fp_sqr t) := rfl
theorem sqrN_step_78 (t : Nat) : sqrN 78 t = sqrN 77 (fp_sqr t) := rfl
theorem sqrN_step_79 (t : Nat) : sqrN 79 t = sqrN 78 (fp_sqr t) := rfl
theorem sqrN_step_80 (t : Nat) : sqrN 80 t = sqrN 79 (fp_sqr t) := rfl
theorem sqrN_step_81 (t : Nat) : sqrN 81 t = sqrN 80 (fp_sqr t) := rfl
theorem sqrN_step_82 (t : Nat) : sqrN 82 t = sqrN 81 (fp_sqr t) := rfl
theorem sqrN_step_83 (t : Nat) : sqrN 83 t = sqrN 82 (fp_sqr t) := rfl
theorem sqrN_step_84 (t : Nat) : sqrN 84 t = sqrN 83 (fp_sqr t) := rfl
theorem sqrN_step_85 (t : Nat) : sqrN 85 t = sqrN 84 (fp_sqr t) := rfl
theorem sqrN_step_86 (t : Nat) : sqrN 86 t = sqrN 85 (fp_sqr t) := rfl
theorem sqrN_step_87 (t : Nat) : sqrN 87 t = sqrN 86 (fp_sqr t) := rfl
theorem sqrN_step_88 (t : Nat) : sqrN 88 t = sqrN 87 (fp_sqr t) := rfl

/-! ## C3: the inversion chain at `a = 2` -/

theorem inv2_e0 : fp_sqr 0x2 = 0x4 := by decide
theorem inv2_e1 : fp_mul 0x4 0x2 = 0x8 := by decide
theorem inv2_e2 : fp_sqr 0x8 = 0x40 := by decide
theorem inv2_e3 : fp_mul 0x40 0x2 = 0x80 := by decide
theorem inv2_e4 : fp_sqr 0x80 = 0x4000 := by decide
theorem inv2_e5 : fp_sqr 0x4000 = 0x10000000 := by decide
theorem inv2_e6 : fp_sqr 0x10000000 = 0x100000000000000 := by decide
theorem inv2_e7 : fp_mul 0x100000000000000 0x80 = 0x8000000000000000 := by decide
theorem inv2_e8 : fp_sqr 0x8000000000000000 = 0x40000000000000000000000000000000 := by decide
theorem inv2_e9 : fp_sqr 0x40000000000000000000000000000000 = 0x1000000000000000000000000000000000000000000000000000000000000000 := by decide
theorem inv2_e10 : fp_sqr 0x1000000000000000000000000000000000000000000000000000000000000000 = 0xd1000000000000000000000000000000000000000000000001000006d1000b73 := by decide
theorem inv2_e11 : fp_mul 0xd1000000000000000000000000000000000000000000000001000006d1000b73 0x80 = 0x800000000000000000000000000000000000000000000000800003d080074668 := by decide
theorem inv2_e12 : fp_sqr 0x800000000000000000000000000000000000000000000000800003d080074668 = 0x40000000000000000000000000000000400003d10015d8f1b795f6a5c8d4605c := by decide
theorem inv2_e13 : fp_sqr 0x40000000000000000000000000000000400003d10015d8f1b795f6a5c8d4605c = 0x200001e880197d1a828ce22b9a8fb89a38868b5de6ca941a21ace55945e7e96b := by decide
theorem inv2_e14 : fp_mul 0x200001e880197d1a828ce22b9a8fb89a38868b5de6ca941a21ace55945e7e96b 0x8 = 0xf4400cbe8d41467115cd47dc4d1c4345aef3654a0d10d672acb2f3f4f29 := by decide
theorem inv2_e15 : fp_sqr 0xf4400cbe8d41467115cd47dc4d1c4345aef3654a0d10d672acb2f3f4f29 = 0xfb070fcce8566bb8d7aee790765a94bace4f68c177d996239107024aace2972 := by decide
theorem inv2_e16 : fp_sqr 0xfb070fcce8566bb8d7aee790765a94bace4f68c177d996239107024aace2972 = 0x4309228700eb007da46a8b02ca326b5549e0e7a117786ec0675b3b14c1c3ae85 := by decide
theorem inv2_e17 : fp_sqr 0x4309228700eb007da46a8b02ca326b5549e0e7a117786ec0675b3b14c1c3ae85 = 0xf832bc527e23a994027c4d492634e2a9c79ee2f45957b1bd0ec066c2cc150e51 := by decide
theorem inv2_e18 : fp_sqr 0xf832bc527e23a994027c4d492634e2a9c79ee2f45957b1bd0ec066c2cc150e51 = 0xb76c47b8444f5e933ab592c1253adf5c5e938e35db38faef68beeebc62110c6b := by decide
theorem inv2_e19 : fp_sqr 0xb76c47b8444f5e933ab592c1253adf5c5e938e35db38faef68beeebc62110c6b = 0x75a6c5740cfc001ad90035b38add8354ca767679551f3413f4bbc3b3532c8d8e := by decide
theorem inv2_e20 : fp_sqr 0x75a6c5740cfc001ad90035b38add8354ca767679551f3413f4bbc3b3532c8d8e = 0x1cb18720fd4a4e0e9b4315cb0400419ccb5b9ef9944b00c1a387226614135f78 := by decide
theorem inv2_e21 : fp_sqr 0x1cb18720fd4a4e0e9b4315cb0400419ccb5b9ef9944b00c1a387226614135f78 = 0x6562f3343bf9ebd19497629965786311915579c3b2b5caac9324103aa2cb0f3e := by decide
theorem inv2_e22 : fp_sqr 0x6562f3343bf9ebd19497629965786311915579c3b2b5caac9324103aa2cb0f3e = 0x9574b352b55938f012c366be316d01ef6791701c108d1f70837071bfb1caccff := by decide
theorem inv2_e23 : fp_sqr 0x9574b352b55938f012c366be316d01ef6791701c108d1f70837071bfb1caccff = 0xd4eb0d5fd01458e0058b43f76c9be386b87031b542883ddaa670501464cf4f51 := by decide
theorem inv2_e24 : fp_sqr 0xd4eb0d5fd01458e0058b43f76c9be386b87031b542883ddaa670501464cf4f51 = 0xfb56ce09221a097c438f9db2fb32465b07929e59994ea44bbd12d4cea0806355 := by decide
theorem inv2_e25 : fp_sqr 0xfb56ce09221a097c438f9db2fb32465b07929e59994ea44bbd12d4cea0806355 = 0xa1427566109157c9bd787c024758515d9c732829bbcfb538e380cb5e0768e17c := by decide
theorem inv2_e26 : fp_mul 0xa1427566109157c9bd787c024758515d9c732829bbcfb538e380cb5e0768e17c 0xf4400cbe8d41467115cd47dc4d1c4345aef3654a0d10d672acb2f3f4f29 = 0x77c89305c3dbe43c459749bb025cdadf2bd5571cae4971f8b911c70d0fcd4510 := by decide
theorem inv2_e27 : fp_sqr 0x77c89305c3dbe43c459749bb025cdadf2bd5571cae4971f8b911c70d0fcd4510 = 0x2ba975385d70d4078dbd86c04f6a7ceaafae823616fbf4448315c675043e80b4 := by decide
theorem inv2_e28 : fp_sqr 0x2ba975385d70d4078dbd86c04f6a7ceaafae823616fbf4448315c675043e80b4 = 0xeade317a168723ac226f4d26cd347e29cb8a384b9f6379a4f9fddac98a72226c := by decide
theorem inv2_e29 : fp_sqr 0xeade317a168723ac226f4d26cd347e29cb8a384b9f6379a4f9fddac98a72226c = 0x42fc2140660cde08335259f7c3af1e7afcde7915bb57d8f39fd6612a4d0862b6 := by decide
theorem inv2_e30 : fp_sqr 0x42fc2140660cde08335259f7c3af1e7afcde7915bb57d8f39fd6612a4d0862b6 = 0x7e81f53ea79713efdd094e82ed0713427d085a2b978cec9731ef449acba73906 := by decide
theorem inv2_e31 : fp_sqr 0x7e81f53ea79713efdd094e82ed0713427d085a2b978cec9731ef449acba73906 = 0x26de6e0cd52f3b4607d3db8221878eacf3c17f361d0ab9fdb41b63b593daa4e8 := by decide
theorem inv2_e32 : fp_sqr 0x26de6e0cd52f3b4607d3db8221878eacf3c17f361d0ab9fdb41b63b593daa4e8 = 0x77d9483c58f9fb2dd691634d760a8feea3afbf14789843b35757958fca1b5d97 := by decide
theorem inv2_e33 : fp_sqr 0x77d9483c58f9fb2dd691634d760a8feea3afbf14789843b35757958fca1b5d97 = 0xf43fd713aebff7b6794b099f6eb31bcc00863721ce2f780f418edd5651da1535 := by decide
theorem inv2_e34 : fp_sqr 0xf43fd713aebff7b6794b099f6eb31bcc00863721ce2f780f418edd5651da1535 = 0x6c752eddbb6fb538d2ba9ffb8ee91f41ee5c740be89cf91027a6d2da0c577839 := by decide
theorem inv2_e35 : fp_sqr 0x6c752eddbb6fb538d2ba9ffb8ee91f41ee5c740be89cf91027a6d2da0c577839 = 0x126304261e7215d5eec0dcf609e2ea4419e78f42350421ac7090b880d11f628 := by decide
theorem inv2_e36 : fp_sqr 0x126304261e7215d5eec0dcf609e2ea4419e78f42350421ac7090b880d11f628 = 0xec4038fcb77032570b50b5d9328a035568b9ec222e2c495033796cae96e819b0 := by decide
theorem inv2_e37 : fp_sqr 0xec4038fcb77032570b50b5d9328a035568b9ec222e2c495033796cae96e819b0 = 0x49acb206a5eb0be449ea03f4e3118a97a49eea71627779626484d9016d4934b0 := by decide
theorem inv2_e38 : fp_sqr 0x49acb206a5eb0be449ea03f4e3118a97a49eea71627779626484d9016d4934b0 = 0xea26cf4432569f4546f474ffef20788dff6fb2b13a0fc333192d54f4c5f2d65c := by decide
theorem inv2_e39 : fp_sqr 0xea26cf4432569f4546f474ffef20788dff6fb2b13a0fc333192d54f4c5f2d65c = 0x2a71228a89fd0fddf56728afebd446565cb94efa040049da1c5eb171f085bc4e := by decide
theorem inv2_e40 : fp_sqr 0x2a71228a89fd0fddf56728afebd446565cb94efa040049da1c5eb171f085bc4e = 0x4ecb3670eeede5b9862ff5750fbd8521f5ff918043446b2cf99a1c9aa62574c1 := by decide
theorem inv2_e41 : fp_sqr 0x4ecb3670eeede5b9862ff5750fbd8521f5ff918043446b2cf99a1c9aa62574c1 = 0x57d32191902d8269774da63f63008fb0ba4678f7913692e371ddac48c5aabace := by decide
theorem inv2_e42 : fp_sqr 0x57d32191902d8269774da63f63008fb0ba4678f7913692e371ddac48c5aabace = 0x12d893023fc04aa5405551a0fe2660ebf0a8773707bbdcd777a8a6595e6cc70a := by decide
theorem inv2_e43 : fp_sqr 0x12d893023fc04aa5405551a0fe2660ebf0a8773707bbdcd777a8a6595e6cc70a = 0x8e0850a772f8cc4518c665ff2e017e748784af28823dd9a4b24ddd5364bfecba := by decide
theorem inv2_e44 : fp_sqr 0x8e0850a772f8cc4518c665ff2e017e748784af28823dd9a4b24ddd5364bfecba = 0xef5223de1d5c389392ce924c0bd57191bbaa19802cc4b7537d4e75dc5b9da622 := by decide
theorem inv2_e45 : fp_sqr 0xef5223de1d5c389392ce924c0bd57191bbaa19802cc4b7537d4e75dc5b9da622 = 0x5359ea5f4bc6183eb5f2b1fc25f14c21fcdfd276c06b49247c7ebbc3ba99bd97 := by decide
theorem inv2_e46 : fp_sqr 0x5359ea5f4bc6183eb5f2b1fc25f14c21fcdfd276c06b49247c7ebbc3ba99bd97 = 0x5d9c4291bc0daf79c352f2fc0ac3538bc9767b7198e671e8981b18c7f1ff3861 := by decide
theorem inv2_e47 : fp_sqr 0x5d9c4291bc0daf79c352f2fc0ac3538bc9767b7198e671e8981b18c7f1ff3861 = 0xd809ca97df8035224ede10febbc50fcc697552095b04810ebdcff821e4926d56 := by decide
theorem inv2_e48 : fp_sqr 0xd809ca97df8035224ede10febbc50fcc697552095b04810ebdcff821e4926d56 = 0x1a9c99585a1a8fba209faea2a9f704203d5a9db276968d9e73dd06646f6f5855 := by decide
theorem inv2_e49 : fp_mul 0x1a9c99585a1a8fba209faea2a9f704203d5a9db276968d9e73dd06646f6f5855 0x77c89305c3dbe43c459749bb025cdadf2bd5571cae4971f8b911c70d0fcd4510 = 0xf30df12a0f45a89647f796d13add3c6c797e9ed93a06c41ac2f5c864a9a82275 := by decide
theorem inv2_e50 : fp_sqr 0xf30df12a0f45a89647f796d13add3c6c797e9ed93a06c41ac2f5c864a9a82275 = 0x5e831ce149159f1fa79a78efb9406d1859916b0f85aa62201c3ef5644b3d3017 := by decide
theorem inv2_e51 : fp_sqr 0x5e831ce149159f1fa79a78efb9406d1859916b0f85aa62201c3ef5644b3d3017 = 0x691d7b2bae44ff75b2ca0c05c9a9445caf40bbab9e0cd0ab067dffe081ab7950 := by decide
theorem inv2_e52 : fp_sqr 0x691d7b2bae44ff75b2ca0c05c9a9445caf40bbab9e0cd0ab067dffe081ab7950 = 0xd11364d8879cc66d7a641342cc4af165626eb1ad3ffd780a578ef010c1dcd96f := by decide
theorem inv2_e53 : fp_sqr 0xd11364d8879cc66d7a641342cc4af165626eb1ad3ffd780a578ef010c1dcd96f = 0xc9847894482a31d05e3975ba3447eebd98fc83a2eb035c93262a53b86fa78469 := by decide
theorem inv2_e54 : fp_sqr 0xc9847894482a31d05e3975ba3447eebd98fc83a2eb035c93262a53b86fa78469 = 0xaac70e955b8fb5d1e19e1753db594f7e48e4dc4d66552efdaae5b84f8bc96c6a := by decide
theorem inv2_e55 : fp_sqr 0xaac70e955b8fb5d1e19e1753db594f7e48e4dc4d66552efdaae5b84f8bc96c6a = 0x833f04851e95830da7d6b63c86ef64ed831eeb24bd002761f5e5d245c8c33323 := by decide
theorem inv2_e56 : fp_sqr 0x833f04851e95830da7d6b63c86ef64ed831eeb24bd002761f5e5d245c8c33323 = 0x7054eb14f4e7a6b796e2075103ecde4a1734813777ca83149f11554c68b7bfc4 := by decide
theorem inv2_e57 : fp_sqr 0x7054eb14f4e7a6b796e2075103ecde4a1734813777ca83149f11554c68b7bfc4 = 0xa10342d0c05b294567faa29db79b149c37a48d9d5327e47e1932c08157c628fc := by decide
theorem inv2_e58 : fp_sqr 0xa10342d0c05b294567faa29db79b149c37a48d9d5327e47e1932c08157c628fc = 0x5b8854fff81311f0bd6c522947b3a3825dd060001e579090f93ac21f8d87f2db := by decide
theorem inv2_e59 : fp_sqr 0x5b8854fff81311f0bd6c522947b3a3825dd060001e579090f93ac21f8d87f2db = 0x333090d90baf11eff9a3f7c74bbdc8d3706f3fafa838e2fa114a09d494ff636b := by decide
theorem inv2_e60 : fp_sqr 0x333090d90baf11eff9a3f7c74bbdc8d3706f3fafa838e2fa114a09d494ff636b = 0xf51de9bc830c7f669e1280ca9e9f0b35726364fe866637ba5994bdd78d788b62 := by decide
theorem inv2_e61 : fp_sqr 0xf51de9bc830c7f669e1280ca9e9f0b35726364fe866637ba5994bdd78d788b62 = 0xf6fe0f42fe27be588db45ecd462f4089864266870df27a86c54450de4e18cb43 := by decide
theorem inv2_e62 : fp_sqr 0xf6fe0f42fe27be588db45ecd462f4089864266870df27a86c54450de4e18cb43 = 0x6f862780479284a16aa2ad6091915fec9c6b18bf2204e194b9048ddc5ac79bd4 := by decide
theorem inv2_e63 : fp_sqr 0x6f862780479284a16aa2ad6091915fec9c6b18bf2204e194b9048ddc5ac79bd4 = 0xa49f8c35273ccb418966e329991080ccb947a3e3d623006642a0ac64f287d8d7 := by decide
theorem inv2_e64 : fp_sqr 0xa49f8c35273ccb418966e329991080ccb947a3e3d623006642a0ac64f287d8d7 = 0x56cf90ba934be5c722d3838ab4a588b17a6d4d006b4e207f48b3ab4822b8a475 := by decide
theorem inv2_e65 : fp_sqr 0x56cf90ba934be5c722d3838ab4a588b17a6d4d006b4e207f48b3ab4822b8a475 = 0x56507531cf8bcf62711c98263b4f62a2cc8575259ad5f2a35497dc61e54ec2a := by decide
theorem inv2_e66 : fp_sqr 0x56507531cf8bcf62711c98263b4f62a2cc8575259ad5f2a35497dc61e54ec2a = 0x357d89ecdefc4995aec3c3d8aa6fea86b05fdff3d653e3b26f07ecb2d8c8f245 := by decide
theorem inv2_e67 : fp_sqr 0x357d89ecdefc4995aec3c3d8aa6fea86b05fdff3d653e3b26f07ecb2d8c8f245 = 0xf7a5b85ad5eca6850e0e20733441ffbc842c458fb6e25572153d619d09dfa38c := by decide
theorem inv2_e68 : fp_sqr 0xf7a5b85ad5eca6850e0e20733441ffbc842c458fb6e25572153d619d09dfa38c = 0x1f9d7a4cd124942a47b64c142ac12369e37e3d4e5de62c01e56136e7a41c86a8 := by decide
theorem inv2_e69 : fp_sqr 0x1f9d7a4cd124942a47b64c142ac12369e37e3d4e5de62c01e56136e7a41c86a8 = 0x992e0467d086540f0c46d303b28d9966b02c6039d5074d00fecb19e9102d2936 := by decide
theorem inv2_e70 : fp_sqr 0x992e0467d086540f0c46d303b28d9966b02c6039d5074d00fecb19e9102d2936 = 0xd027f6cc59f2dbcb21554c335719726fd24474e7175541b54bc2fe7e77b7dae5 := by decide
theorem inv2_e71 : fp_sqr 0xd027f6cc59f2dbcb21554c335719726fd24474e7175541b54bc2fe7e77b7dae5 = 0x25e0cc95348a6d82b8571a87af9961b9234dd94f44b454498ded7c23add209f5 := by decide
theorem inv2_e72 : fp_sqr 0x25e0cc95348a6d82b8571a87af9961b9234dd94f44b454498ded7c23add209f5 = 0x8091093001ef04edc8daa9b3a86629832463444692565e2fc096815e55b1fe39 := by decide
theorem inv2_e73 : fp_sqr 0x8091093001ef04edc8daa9b3a86629832463444692565e2fc096815e55b1fe39 = 0xd86cf286eb676c28da466f7a3a9c7eb835fdceb116ed9b318cc821df1735d842 := by decide
theorem inv2_e74 : fp_sqr 0xd86cf286eb676c28da466f7a3a9c7eb835fdceb116ed9b318cc821df1735d842 = 0xef6e01a3bf493351376e7a1b24fd28322cd978d6ccedda67a79dc0929f6271b7 := by decide
theorem inv2_e75 : fp_sqr 0xef6e01a3bf493351376e7a1b24fd28322cd978d6ccedda67a79dc0929f6271b7 = 0x652e40d417c8c6b7882a2a23e46e33246da27891d5c9ff25c5208deeeeb92814 := by decide
theorem inv2_e76 : fp_sqr 0x652e40d417c8c6b7882a2a23e46e33246da27891d5c9ff25c5208deeeeb92814 = 0x19cfc77d153d3b43e6e21104b51a9481a2314d89db14de005b6a4d69d9c7f182 := by decide
theorem inv2_e77 : fp_sqr 0x19cfc77d153d3b43e6e21104b51a9481a2314d89db14de005b6a4d69d9c7f182 = 0xf3ea5c91547ea795ed5c2aefdf26c392899b0b0ae10814d7b4ae56d2b88a141d := by decide
theorem inv2_e78 : fp_sqr 0xf3ea5c91547ea795ed5c2aefdf26c392899b0b0ae10814d7b4ae56d2b88a141d = 0xb8cac84dfcddbb7a7effab9ed0d7f56e389cee95a7e478475372fb6552f89bfd := by decide
theorem inv2_e79 : fp_sqr 0xb8cac84dfcddbb7a7effab9ed0d7f56e389cee95a7e478475372fb6552f89bfd = 0x7b527f246b2eaf70524e186a34aaeead73ad872a7e34d252b91d413f4e8d600d := by decide
theorem inv2_e80 : fp_sqr 0x7b527f246b2eaf70524e186a34aaeead73ad872a7e34d252b91d413f4e8d600d = 0xb5714a30a57498f42f6eedf98a15933f9355a70d628360b56ff6a7c39af7aaf5 := by decide
theorem inv2_e81 : fp_sqr 0xb5714a30a57498f42f6eedf98a15933f9355a70d628360b56ff6a7c39af7aaf5 = 0x322fdfad6aff1c93ef629b84dbd5e067d6e41b3209fb4555ed1026d517be7e1 := by decide
theorem inv2_e82 : fp_sqr 0x322fdfad6aff1c93ef629b84dbd5e067d6e41b3209fb4555ed1026d517be7e1 = 0xbc13011f1c7ac328dcbfcd352ddaefed763c271557b909301abbc952731c42d0 := by decide
theorem inv2_e83 : fp_sqr 0xbc13011f1c7ac328dcbfcd352ddaefed763c271557b909301abbc952731c42d0 = 0xa0a9c473d67b75896c411a799078bb6420e25acc5b245711709e7a56114c7c7b := by decide
theorem inv2_e84 : fp_sqr 0xa0a9c473d67b75896c411a799078bb6420e25acc5b245711709e7a56114c7c7b = 0x13e767acd24eadcec89b4c4b9374c95eb35db83a496eb45417798d747d735b9f := by decide
theorem inv2_e85 : fp_sqr 0x13e767acd24eadcec89b4c4b9374c95eb35db83a496eb45417798d747d735b9f = 0x59b6af258ad710ae3c8ce12a8e6f6a17e030351abcca68b57ddc3200c9393ea6 := by decide
theorem inv2_e86 : fp_sqr 0x59b6af258ad710ae3c8ce12a8e6f6a17e030351abcca68b57ddc3200c9393ea6 = 0x1dc58107885b52183b4b8e420c5154cba1d273359526207e476f3216f6c1ee7 := by decide
theorem inv2_e87 : fp_sqr 0x1dc58107885b52183b4b8e420c5154cba1d273359526207e476f3216f6c1ee7 = 0x5d350f29afcccf75a15713e25b6727883b1f29ad690fbb6b41583b9d77c4b923 := by decide
theorem inv2_e88 : fp_sqr 0x5d350f29afcccf75a15713e25b6727883b1f29ad690fbb6b41583b9d77c4b923 = 0x9ea17f390af2c296b07b120b12ebaa603db5485e20bb57b1059e9a75c432b081 := by decide
theorem inv2_e89 : fp_sqr 0x9ea17f390af2c296b07b120b12ebaa603db5485e20bb57b1059e9a75c432b081 = 0xf41939039d60716e7b51c9af15027b5f1fade832f6d534c6e79f022e2ed88f42 := by decide
theorem inv2_e90 : fp_sqr 0xf41939039d60716e7b51c9af15027b5f1fade832f6d534c6e79f022e2ed88f42 = 0xcf275b134f7857d15a5f17bcac8fbf593631c4752fbe9f56478878fac6a15476 := by decide
theorem inv2_e91 : fp_sqr 0xcf275b134f7857d15a5f17bcac8fbf593631c4752fbe9f56478878fac6a15476 = 0x92ee37e5936c96fd58a23beda61d1744b207e118168ca751d3801750da59be15 := by decide
theorem inv2_e92 : fp_sqr 0x92ee37e5936c96fd58a23beda61d1744b207e118168ca751d3801750da59be15 = 0x447594f1b69eb1fe39fb11ca1a1c45b1b5e6688df0c2f5936e68825aa4ae37cb := by decide
theorem inv2_e93 : fp_sqr 0x447594f1b69eb1fe39fb11ca1a1c45b1b5e6688df0c2f5936e68825aa4ae37cb = 0x816047a7d5281295139aeea6c701b6e8d768854dfbead0b665a5352f286b59ae := by decide
theorem inv2_e94 : fp_mul 0x816047a7d5281295139aeea6c701b6e8d768854dfbead0b665a5352f286b59ae 0xf30df12a0f45a89647f796d13add3c6c797e9ed93a06c41ac2f5c864a9a82275 = 0x533baafb906b52753c3cbe3011d90599b60c94fa8ce9cd0f35235fa422c9e73c := by decide
theorem inv2_e95 : fp_sqr 0x533baafb906b52753c3cbe3011d90599b60c94fa8ce9cd0f35235fa422c9e73c = 0xf16ae6cb42fa4d4bbca7065ba46a7768a32b3357576946f516955a64ac77ee48 := by decide
theorem inv2_e96 : fp_sqr 0xf16ae6cb42fa4d4bbca7065ba46a7768a32b3357576946f516955a64ac77ee48 = 0x27b4ab833bc53ae2a9ed75abd75cbab2528d85335fdba47cb5fb26643a170ce4 := by decide
theorem inv2_e97 : fp_sqr 0x27b4ab833bc53ae2a9ed75abd75cbab2528d85335fdba47cb5fb26643a170ce4 = 0xfd961b290ef8a5ccf0a58e5b01d5bd0926e2b948f9242e218ca5fe9eea4b7c3f := by decide
theorem inv2_e98 : fp_sqr 0xfd961b290ef8a5ccf0a58e5b01d5bd0926e2b948f9242e218ca5fe9eea4b7c3f = 0xa7bdf4eb3219a89f1a715839cbcf880c56a82ad415ce44cdc483ed277221cb2d := by decide
theorem inv2_e99 : fp_sqr 0xa7bdf4eb3219a89f1a715839cbcf880c56a82ad415ce44cdc483ed277221cb2d = 0x20c5bda5975314a867bf9c7f00a083b1cad880512937d49ef51ea103551f12df := by decide
theorem inv2_e100 : fp_sqr 0x20c5bda5975314a867bf9c7f00a083b1cad880512937d49ef51ea103551f12df = 0x4d0982d3116cf42cd25d229e2860af24ac1d2cbbf2e4ec54664a1f5563a31a19 := by decide
theorem inv2_e101 : fp_sqr 0x4d0982d3116cf42cd25d229e2860af24ac1d2cbbf2e4ec54664a1f5563a31a19 = 0xbf8c44a3f519d4de66423149b8697e5ca0477c75655c3068ae32057dc4b65a29 := by decide
theorem inv2_e102 : fp_sqr 0xbf8c44a3f519d4de66423149b8697e5ca0477c75655c3068ae32057dc4b65a29 = 0x1c41bed3c54a06ce2e01fac546ba28ca361ba9b13410d3f173ff3c5d26a343e := by decide
theorem inv2_e103 : fp_sqr 0x1c41bed3c54a06ce2e01fac546ba28ca361ba9b13410d3f173ff3c5d26a343e = 0x2c1a36854661f1611c0adf692498145deb5caf5b0e3e3c71fd16577f059e010a := by decide
theorem inv2_e104 : fp_sqr 0x2c1a36854661f1611c0adf692498145deb5caf5b0e3e3c71fd16577f059e010a = 0xa567c650570d66c1659c78f2a2a565963b2d247983f42544b9ffa733a9154fbe := by decide
theorem inv2_e105 : fp_sqr 0xa567c650570d66c1659c78f2a2a565963b2d247983f42544b9ffa733a9154fbe = 0x73d00ea76cf52ad95b5ce06d736c684318fd822376547e3864ef0a72ab00680a := by decide
theorem inv2_e106 : fp_sqr 0x73d00ea76cf52ad95b5ce06d736c684318fd822376547e3864ef0a72ab00680a = 0xdb8331f2e4499b4c42d8bf4e37279558e6d661abfd87da0ee37db80c6bf52706 := by decide
theorem inv2_e107 : fp_sqr 0xdb8331f2e4499b4c42d8bf4e37279558e6d661abfd87da0ee37db80c6bf52706 = 0x39df4f053963624b14cbf2d55ba09228f57baa04e9d426a04049a2dac4d35f46 := by decide
theorem inv2_e108 : fp_sqr 0x39df4f053963624b14cbf2d55ba09228f57baa04e9d426a04049a2dac4d35f46 = 0xf34489ba70b0bafbd00d4b3b7a47392868ef004ef713efc1349094db1720d07e := by decide
theorem inv2_e109 : fp_sqr 0xf34489ba70b0bafbd00d4b3b7a47392868ef004ef713efc1349094db1720d07e = 0x95d2ed63e517c4d7bf1a4b5adeac022897b17e63df926634b015d92c712bcdb4 := by decide
theorem inv2_e110 : fp_sqr 0x95d2ed63e517c4d7bf1a4b5adeac022897b17e63df926634b015d92c712bcdb4 = 0x99b67e61090f68890a608fed058dd795749f6d000db7e0062115123f7000b9d0 := by decide
theorem inv2_e111 : fp_sqr 0x99b67e61090f68890a608fed058dd795749f6d000db7e0062115123f7000b9d0 = 0xda164f9e77290341d58f7955874738cabe6df27de356f12bbddf22f34fb94059 := by decide
theorem inv2_e112 : fp_sqr 0xda164f9e77290341d58f7955874738cabe6df27de356f12bbddf22f34fb94059 = 0xfa24de91cc3f1ef11c6b28f7366086908404c3e6c4e3f7359cbad7fa96e316cf := by decide
theorem inv2_e113 : fp_sqr 0xfa24de91cc3f1ef11c6b28f7366086908404c3e6c4e3f7359cbad7fa96e316cf = 0x99e557efed045e24700dea28e8f686b114c0ce1b918a36917910ae4f68bb531d := by decide
theorem inv2_e114 : fp_sqr 0x99e557efed045e24700dea28e8f686b114c0ce1b918a36917910ae4f68bb531d = 0xee085ec20b67c7bdbbb0e967dade96dd6d9220708c237076c86f5f73914837c0 := by decide
theorem inv2_e115 : fp_sqr 0xee085ec20b67c7bdbbb0e967dade96dd6d9220708c237076c86f5f73914837c0 = 0x178468fbe7a2fdf182001dfcd0fc4feb403764c86b1f507c63267b6e3c3b49ac := by decide
theorem inv2_e116 : fp_sqr 0x178468fbe7a2fdf182001dfcd0fc4feb403764c86b1f507c63267b6e3c3b49ac = 0x928716972a4440e69565aab86f5924e5970d43f26af07cd422c8d2ef9a05606a := by decide
theorem inv2_e117 : fp_sqr 0x928716972a4440e69565aab86f5924e5970d43f26af07cd422c8d2ef9a05606a = 0x7cc1f472c19ac91df938027411506d5885eee87a7542eedc78d37e41a76e2c3b := by decide
theorem inv2_e118 : fp_sqr 0x7cc1f472c19ac91df938027411506d5885eee87a7542eedc78d37e41a76e2c3b = 0x1fa5945988ce41de6fc7641f54de695c844196cffa89c1994a05f137b2a9226c := by decide
theorem inv2_e119 : fp_sqr 0x1fa5945988ce41de6fc7641f54de695c844196cffa89c1994a05f137b2a9226c = 0xaf09d60f8934908923846cb835f4d3b120d5bcb530d96de8b0f6db66a8f0ccfd := by decide
theorem inv2_e120 : fp_sqr 0xaf09d60f8934908923846cb835f4d3b120d5bcb530d96de8b0f6db66a8f0ccfd = 0xb8d572a37db307120b6b9600cc33784cc18d1110c45d6106c2b37176c44b346c := by decide
theorem inv2_e121 : fp_sqr 0xb8d572a37db307120b6b9600cc33784cc18d1110c45d6106c2b37176c44b346c = 0xf332352f052640ebd2812d142ddb8ebe8d7dd2b5e8ee72457f41b17725312c8b := by decide
theorem inv2_e122 : fp_sqr 0xf332352f052640ebd2812d142ddb8ebe8d7dd2b5e8ee72457f41b17725312c8b = 0xb52513498ce590da6459163828118ceaa83f02d786aeb88f4153c69002a0126f := by decide
theorem inv2_e123 : fp_sqr 0xb52513498ce590da6459163828118ceaa83f02d786aeb88f4153c69002a0126f = 0x6c7b3e250f38dd07542ecc7818b70ce50605afb451de92b3d8e2982d951ba11e := by decide
theorem inv2_e124 : fp_sqr 0x6c7b3e250f38dd07542ecc7818b70ce50605afb451de92b3d8e2982d951ba11e = 0xa89f1c9015930fc1cfbe9be68a867b0e39cec6b0ba2dedfd730f7dfa42fb62d2 := by decide
theorem inv2_e125 : fp_sqr 0xa89f1c9015930fc1cfbe9be68a867b0e39cec6b0ba2dedfd730f7dfa42fb62d2 = 0x285a7de68ea87b01fba6892d81468496f04332ac9759a9bf59d9b2edb1a3b546 := by decide
theorem inv2_e126 : fp_sqr 0x285a7de68ea87b01fba6892d81468496f04332ac9759a9bf59d9b2edb1a3b546 = 0xdb51669620ebd352e6f625ba9e22fccaf09e33f61f68fd273fb51806b8150aad := by decide
theorem inv2_e127 : fp_sqr 0xdb51669620ebd352e6f625ba9e22fccaf09e33f61f68fd273fb51806b8150aad = 0x19890131f40aa191a4a8ea0b9d226f395c53ffd4995a32aef62680fa3283b57c := by decide
theorem inv2_e128 : fp_sqr 0x19890131f40aa191a4a8ea0b9d226f395c53ffd4995a32aef62680fa3283b57c = 0x7265d25fc1152befc1cf7d790b4c52ba9eddc15f7cff6e047f0f15ff4dcbc453 := by decide
theorem inv2_e129 : fp_sqr 0x7265d25fc1152befc1cf7d790b4c52ba9eddc15f7cff6e047f0f15ff4dcbc453 = 0x6c926d3344a0a9fdc78d0ffb59c7dbc07eae672b33fe67a737110bfcc516a469 := by decide
theorem inv2_e130 : fp_sqr 0x6c926d3344a0a9fdc78d0ffb59c7dbc07eae672b33fe67a737110bfcc516a469 = 0x4a374953d1598db7283a7135bf7fd34acb290d53173d9acf6db616796c38e602 := by decide
theorem inv2_e131 : fp_sqr 0x4a374953d1598db7283a7135bf7fd34acb290d53173d9acf6db616796c38e602 = 0x87f7d8450f4d55c3a80a6d917f43980e1570e2732e8f3263d0a1ed51bcab047 := by decide
theorem inv2_e132 : fp_sqr 0x87f7d8450f4d55c3a80a6d917f43980e1570e2732e8f3263d0a1ed51bcab047 = 0x8906f275b4bdb8cb96ccdc815294b521114ac296ca86bff35e8b84fc4d4b8dd2 := by decide
theorem inv2_e133 : fp_sqr 0x8906f275b4bdb8cb96ccdc815294b521114ac296ca86bff35e8b84fc4d4b8dd2 = 0x55e605a533e8a3d1ff6a255379436272ea45fa66e4fc9654aedbc5bd77c06060 := by decide
theorem inv2_e134 : fp_sqr 0x55e605a533e8a3d1ff6a255379436272ea45fa66e4fc9654aedbc5bd77c06060 = 0x5840cf06317d698fd215852fc7fd6ee6fa76d7a38ddc74959e1526e774d9f60 := by decide
theorem inv2_e135 : fp_sqr 0x5840cf06317d698fd215852fc7fd6ee6fa76d7a38ddc74959e1526e774d9f60 = 0x2f712699a71f94939f112453ae2260846dd03562d314d88fc417c447d4e9ae52 := by decide
theorem inv2_e136 : fp_sqr 0x2f712699a71f94939f112453ae2260846dd03562d314d88fc417c447d4e9ae52 = 0x119f88a42590ad4d929d68b3869aaa78b55a8b5e1ac9d9e43844ed2d89edf34b := by decide
theorem inv2_e137 : fp_sqr 0x119f88a42590ad4d929d68b3869aaa78b55a8b5e1ac9d9e43844ed2d89edf34b = 0x2be991515a97610074769a17fcd6dfc0eca080999449311479983454184d3e61 := by decide
theorem inv2_e138 : fp_sqr 0x2be991515a97610074769a17fcd6dfc0eca080999449311479983454184d3e61 = 0x6dbb1913aaa821a64e9cd1c913eb6f0d3a0bf4fa0f17cfe04164ee4930127353 := by decide
theorem inv2_e139 : fp_sqr 0x6dbb1913aaa821a64e9cd1c913eb6f0d3a0bf4fa0f17cfe04164ee4930127353 = 0x5c3454fe95f9ecc8e764393352d77277bcad6859162eb81d88a2ce62b2e88eea := by decide
theorem inv2_e140 : fp_sqr 0x5c3454fe95f9ecc8e764393352d77277bcad6859162eb81d88a2ce62b2e88eea = 0xd00816f886d771b0f6d1f818c4acb91bede9fb0e58944e53bb3f5525fa44f696 := by decide
theorem inv2_e141 : fp_sqr 0xd00816f886d771b0f6d1f818c4acb91bede9fb0e58944e53bb3f5525fa44f696 = 0xd9ae95bd13c8f5d342b89d991c55ab1e2bd9ef9b32d66f18cddab1dafae9e46e := by decide
theorem inv2_e142 : fp_sqr 0xd9ae95bd13c8f5d342b89d991c55ab1e2bd9ef9b32d66f18cddab1dafae9e46e = 0xbea09795bb6f5ed04466ff9f7a0f0695e3b76c085fa0f089bc3004db244a27d1 := by decide
theorem inv2_e143 : fp_sqr 0xbea09795bb6f5ed04466ff9f7a0f0695e3b76c085fa0f089bc3004db244a27d1 = 0x59f80776ec8ad887aecfe2a8831099185c0ccce360f3bab26b2e6a2d7e06b4bc := by decide
theorem inv2_e144 : fp_sqr 0x59f80776ec8ad887aecfe2a8831099185c0ccce360f3bab26b2e6a2d7e06b4bc = 0x84741373b12455482c6bf84c27e1f233dbdcc22473d687f7689afce1e293d32 := by decide
theorem inv2_e145 : fp_sqr 0x84741373b12455482c6bf84c27e1f233dbdcc22473d687f7689afce1e293d32 = 0x6dc995c12ef1fa9657740dea955628bd22153d7338e1ab16cb2cec3226fa4791 := by decide
theorem inv2_e146 : fp_sqr 0x6dc995c12ef1fa9657740dea955628bd22153d7338e1ab16cb2cec3226fa4791 = 0x1558d45a77ecc78c3b0e4fa1c713d00a3624ffe42c1e53752dbe253ffc6eef13 := by decide
theorem inv2_e147 : fp_sqr 0x1558d45a77ecc78c3b0e4fa1c713d00a3624ffe42c1e53752dbe253ffc6eef13 = 0x4ee2ad5961f5dbca66154e4f6ba094ec04e8d1f744e0f02cd8b80c39ef0a64d4 := by decide
theorem inv2_e148 : fp_sqr 0x4ee2ad5961f5dbca66154e4f6ba094ec04e8d1f744e0f02cd8b80c39ef0a64d4 = 0x935296de3bd433b8ee8b89e01f710e05875ebf32507b7707042811fbed5da52b := by decide
theorem inv2_e149 : fp_sqr 0x935296de3bd433b8ee8b89e01f710e05875ebf32507b7707042811fbed5da52b = 0x70f443232c094c5e89a409715c15eab10a346aea4050b92a310108ebd9e37796 := by decide
theorem inv2_e150 : fp_sqr 0x70f443232c094c5e89a409715c15eab10a346aea4050b92a310108ebd9e37796 = 0xe36719ef91b372a936ce337d3ec98b796252b4743ac6f01997923868320506ca := by decide
theorem inv2_e151 : fp_sqr 0xe36719ef91b372a936ce337d3ec98b796252b4743ac6f01997923868320506ca = 0x70b62bc7182589f446283456f4e2b554de8b24c58c76c9a70dee48f9f31e3b5a := by decide
theorem inv2_e152 : fp_sqr 0x70b62bc7182589f446283456f4e2b554de8b24c58c76c9a70dee48f9f31e3b5a = 0xc2ee7e5cdc66eb3dbd82a68c32ee246d02c47cc0ea62e8b7566efe2be1b433d6 := by decide
theorem inv2_e153 : fp_sqr 0xc2ee7e5cdc66eb3dbd82a68c32ee246d02c47cc0ea62e8b7566efe2be1b433d6 = 0x51902c7d78621c0411fd1572d60b9d196ff4b2b47634bf0267388de4aa902ea5 := by decide
theorem inv2_e154 : fp_sqr 0x51902c7d78621c0411fd1572d60b9d196ff4b2b47634bf0267388de4aa902ea5 = 0x560191dc6f656fa21946c9c38c1dbf3f1835b64cf13cf9f741136e000964ef5d := by decide
theorem inv2_e155 : fp_sqr 0x560191dc6f656fa21946c9c38c1dbf3f1835b64cf13cf9f741136e000964ef5d = 0x82be5a5740c4136f044241a4356b0803b4bcabe21c681c9d0bb14738e5b5d491 := by decide
theorem inv2_e156 : fp_sqr 0x82be5a5740c4136f044241a4356b0803b4bcabe21c681c9d0bb14738e5b5d491 = 0x2bbdb4e46d14a51e499a588c6650544ac6bd9619cd6f07a4b83fbc7cb59e4095 := by decide
theorem inv2_e157 : fp_sqr 0x2bbdb4e46d14a51e499a588c6650544ac6bd9619cd6f07a4b83fbc7cb59e4095 = 0xc48bfc6716213712fbd797526ee4b68ac5159a2a06a4eec4eb3d7e98d1c6ef4f := by decide
theorem inv2_e158 : fp_sqr 0xc48bfc6716213712fbd797526ee4b68ac5159a2a06a4eec4eb3d7e98d1c6ef4f = 0x10a21bf91b2eebe13421f35a4d5e00bb6981198a1def6aafae27047d899c090b := by decide
theorem inv2_e159 : fp_sqr 0x10a21bf91b2eebe13421f35a4d5e00bb6981198a1def6aafae27047d899c090b = 0x8c6088b1cc223992382ae0e3fa0c04c7054edf61e4f8cfb46b65c8500a6050b2 := by decide
theorem inv2_e160 : fp_sqr 0x8c6088b1cc223992382ae0e3fa0c04c7054edf61e4f8cfb46b65c8500a6050b2 = 0xf73556d788e29f0104edb2d47c8544104eba3ff848e5e0eb5bbfffacba451583 := by decide
theorem inv2_e161 : fp_sqr 0xf73556d788e29f0104edb2d47c8544104eba3ff848e5e0eb5bbfffacba451583 = 0x47eaab0bb54dce666e7332f426e32d39f3358c37f60a11dd2f153f92b450a412 := by decide
theorem inv2_e162 : fp_sqr 0x47eaab0bb54dce666e7332f426e32d39f3358c37f60a11dd2f153f92b450a412 = 0xb01369544faa0711db801929e3f8f73c1c9640f8cd42443ae9a8428acddd3f36 := by decide
theorem inv2_e163 : fp_sqr 0xb01369544faa0711db801929e3f8f73c1c9640f8cd42443ae9a8428acddd3f36 = 0x9b086806758183b35d3ec338d2938ef0b1161017a0d6f45c9c3dd120cde9c2f3 := by decide
theorem inv2_e164 : fp_sqr 0x9b086806758183b35d3ec338d2938ef0b1161017a0d6f45c9c3dd120cde9c2f3 = 0xeb29290ce2d29e0fa6fabd74f6d6e4764250acd32e62c39ff2157b07f2f0968 := by decide
theorem inv2_e165 : fp_sqr 0xeb29290ce2d29e0fa6fabd74f6d6e4764250acd32e62c39ff2157b07f2f0968 = 0x6d251de125e385342bd4abc1846802fd5175dc61d00b06d4e266414b3f6210a1 := by decide
theorem inv2_e166 : fp_sqr 0x6d251de125e385342bd4abc1846802fd5175dc61d00b06d4e266414b3f6210a1 = 0x6ad7c9b547f755a7266a1acac4cf0c8fafd7485c3ba462a140826b7ba908c2bc := by decide
theorem inv2_e167 : fp_sqr 0x6ad7c9b547f755a7266a1acac4cf0c8fafd7485c3ba462a140826b7ba908c2bc = 0x7b738d7b579a9069fb7cf8bd252c661b4159dd30d333cc667030eddf31de8efe := by decide
theorem inv2_e168 : fp_sqr 0x7b738d7b579a9069fb7cf8bd252c661b4159dd30d333cc667030eddf31de8efe = 0x7360e41631dbef84510db20c64e5e3343664d917a876c4002b84f14ae3c6bace := by decide
theorem inv2_e169 : fp_sqr 0x7360e41631dbef84510db20c64e5e3343664d917a876c4002b84f14ae3c6bace = 0x47b7cb06127afb590c1e81f495408da5902b7b3292a828bb46f697632b104d8 := by decide
theorem inv2_e170 : fp_sqr 0x47b7cb06127afb590c1e81f495408da5902b7b3292a828bb46f697632b104d8 = 0x466829239dd5e668342f33348927984462c5b675ae8e629fba8856d4dea01044 := by decide
theorem inv2_e171 : fp_sqr 0x466829239dd5e668342f33348927984462c5b675ae8e629fba8856d4dea01044 = 0x36ac034db89ad7ec1da75a5d8051cac946000a387975e0624f2e0e677d6eaa43 := by decide
theorem inv2_e172 : fp_sqr 0x36ac034db89ad7ec1da75a5d8051cac946000a387975e0624f2e0e677d6eaa43 = 0x7e587b52167a03ff3f94e8cc66274f5d0783dea11759ccf41bc23419e1fe35af := by decide
theorem inv2_e173 : fp_sqr 0x7e587b52167a03ff3f94e8cc66274f5d0783dea11759ccf41bc23419e1fe35af = 0x241b5270655e71d7a5417cff19b38c5264c4942fb3308a5150d47fdff78408c6 := by decide
theorem inv2_e174 : fp_sqr 0x241b5270655e71d7a5417cff19b38c5264c4942fb3308a5150d47fdff78408c6 = 0x904878e765ddada47c5984bc0371c7ad6175d9f0ecfc2d758c1da3f058d737a7 := by decide
theorem inv2_e175 : fp_sqr 0x904878e765ddada47c5984bc0371c7ad6175d9f0ecfc2d758c1da3f058d737a7 = 0x35a8d47b731591988c3683f19e8f1be672e7f2b28194b36d33e526784ffe3843 := by decide
theorem inv2_e176 : fp_sqr 0x35a8d47b731591988c3683f19e8f1be672e7f2b28194b36d33e526784ffe3843 = 0x1cdb0ce6670b63443fb914a37dd0c167a7fb14d4de62ecccec132263a67efe3c := by decide
theorem inv2_e177 : fp_sqr 0x1cdb0ce6670b63443fb914a37dd0c167a7fb14d4de62ecccec132263a67efe3c = 0x1b3771973b9dabfc1f18c90b7a613b381ff626e260e5500e666aeacab048db57 := by decide
theorem inv2_e178 : fp_sqr 0x1b3771973b9dabfc1f18c90b7a613b381ff626e260e5500e666aeacab048db57 = 0x525c999d4f62bab013cc9ef6940d76b48a303c3ff6744715e835dfd0f432d39e := by decide
theorem inv2_e179 : fp_sqr 0x525c999d4f62bab013cc9ef6940d76b48a303c3ff6744715e835dfd0f432d39e = 0xf66254abd57bfd84b78ad362d50e3bd152c7b7a38d52af54a22a2494ae89a25 := by decide
theorem inv2_e180 : fp_sqr 0xf66254abd57bfd84b78ad362d50e3bd152c7b7a38d52af54a22a2494ae89a25 = 0x6fdffd58cede8a9d18aa3014442fce11bca4ef9401f33f058f2141cf67572a35 := by decide
theorem inv2_e181 : fp_sqr 0x6fdffd58cede8a9d18aa3014442fce11bca4ef9401f33f058f2141cf67572a35 = 0x830f637cdad252a46c48068575e5fe05346bc38419212bd1dfb6303bfb92c51 := by decide
theorem inv2_e182 : fp_sqr 0x830f637cdad252a46c48068575e5fe05346bc38419212bd1dfb6303bfb92c51 = 0x48dbf06f9fed5ffe87f1137fa1b67f261fb6372d8710a9bca856b66c4fb04231 := by decide
theorem inv2_e183 : fp_mul 0x48dbf06f9fed5ffe87f1137fa1b67f261fb6372d8710a9bca856b66c4fb04231 0x533baafb906b52753c3cbe3011d90599b60c94fa8ce9cd0f35235fa422c9e73c = 0x6abdc26ac57e279a42579d24d57bd402d13e690176a501537dcb8c7a12634df1 := by decide
theorem inv2_e184 : fp_sqr 0x6abdc26ac57e279a42579d24d57bd402d13e690176a501537dcb8c7a12634df1 = 0x3298e96f242784891ec9020f2214a5cb59e368904bc950070e7e8f6191ab7c92 := by decide
theorem inv2_e185 : fp_sqr 0x3298e96f242784891ec9020f2214a5cb59e368904bc950070e7e8f6191ab7c92 = 0xd2947f7796ee4c3decef4eadfdf059f95ff71997274599795c429c78565abe5 := by decide
theorem inv2_e186 : fp_sqr 0xd2947f7796ee4c3decef4eadfdf059f95ff71997274599795c429c78565abe5 = 0x1431071cac1b6a33467e0a1909f8b648218d7ab7c1066543d0f22d6fdedc5ff0 := by decide
theorem inv2_e187 : fp_sqr 0x1431071cac1b6a33467e0a1909f8b648218d7ab7c1066543d0f22d6fdedc5ff0 = 0xbcc4b1fd0f7ae21b8babaf301132fe0986f384b09f37960ffda8949e43c88206 := by decide
theorem inv2_e188 : fp_sqr 0xbcc4b1fd0f7ae21b8babaf301132fe0986f384b09f37960ffda8949e43c88206 = 0x446fec100458779aa93302ceb9ab985188f40326c71266583bc7c75130f132fd := by decide
theorem inv2_e189 : fp_sqr 0x446fec100458779aa93302ceb9ab985188f40326c71266583bc7c75130f132fd = 0x7b65dedc12bf631ba8b477697db5d6403f65122ec0be978fda80da0debd46346 := by decide
theorem inv2_e190 : fp_sqr 0x7b65dedc12bf631ba8b477697db5d6403f65122ec0be978fda80da0debd46346 = 0xcfce6cd8c9fdcd87a6d86c8b78f9dc6071189626d8798919510b41ce011c7563 := by decide
theorem inv2_e191 : fp_sqr 0xcfce6cd8c9fdcd87a6d86c8b78f9dc6071189626d8798919510b41ce011c7563 = 0x48962a3a20b7a9410a77b817f9650b0a97d58c0604e3dda164562aed6773b96a := by decide
theorem inv2_e192 : fp_sqr 0x48962a3a20b7a9410a77b817f9650b0a97d58c0604e3dda164562aed6773b96a = 0xcf12e1b3a318f1d6a699b9062f8cfe70d825a729d4e17c8403e13e153c5349e7 := by decide
theorem inv2_e193 : fp_sqr 0xcf12e1b3a318f1d6a699b9062f8cfe70d825a729d4e17c8403e13e153c5349e7 = 0xed561f4e4d7c3c948c1367fcb0d13638171ea9f6a71795051ff473610eba71f9 := by decide
theorem inv2_e194 : fp_sqr 0xed561f4e4d7c3c948c1367fcb0d13638171ea9f6a71795051ff473610eba71f9 = 0x9881d2c2dcfbcbd9dfaf4fad318dcb06d686882b303c61a970785cc6826a1d25 := by decide
theorem inv2_e195 : fp_sqr 0x9881d2c2dcfbcbd9dfaf4fad318dcb06d686882b303c61a970785cc6826a1d25 = 0xc800104103e0a9877767a4664a7a9872d21b690fd2a25a80ec91e6ef0f2920ee := by decide
theorem inv2_e196 : fp_sqr 0xc800104103e0a9877767a4664a7a9872d21b690fd2a25a80ec91e6ef0f2920ee = 0xafb296e1d941f1708741aad6dc55cb807567187fb85fc9155c99ea14ff8d380e := by decide
theorem inv2_e197 : fp_sqr 0xafb296e1d941f1708741aad6dc55cb807567187fb85fc9155c99ea14ff8d380e = 0x3d157c60206cf7cc9f424074633718ae792b71d14a8773c711bc4206a64096eb := by decide
theorem inv2_e198 : fp_sqr 0x3d157c60206cf7cc9f424074633718ae792b71d14a8773c711bc4206a64096eb = 0x1e0fde28564f8aba1f8332b5237cb1e116ba21d8dc086237924f97efd72e8db7 := by decide
theorem inv2_e199 : fp_sqr 0x1e0fde28564f8aba1f8332b5237cb1e116ba21d8dc086237924f97efd72e8db7 = 0x5b5a0ca59d5fe243d3ca21feaafe28990c23f3036b81e69770d46d439f46ebf3 := by decide
theorem inv2_e200 : fp_sqr 0x5b5a0ca59d5fe243d3ca21feaafe28990c23f3036b81e69770d46d439f46ebf3 = 0xb8be13cb4465328e23647a65529340fa699b8d1dcdbc4decab366e6434d19160 := by decide
theorem inv2_e201 : fp_sqr 0xb8be13cb4465328e23647a65529340fa699b8d1dcdbc4decab366e6434d19160 = 0x5e50a720462bd050a82f856a91b2a43184c8358b8267983d8da08273b0d5cecd := by decide
theorem inv2_e202 : fp_sqr 0x5e50a720462bd050a82f856a91b2a43184c8358b8267983d8da08273b0d5cecd = 0x6920685247ea8bc2f7ccf6025f5f189ccbd50f1c54f61400473e025aa2f315f := by decide
theorem inv2_e203 : fp_sqr 0x6920685247ea8bc2f7ccf6025f5f189ccbd50f1c54f61400473e025aa2f315f = 0x1c90b9ac62eebbfc4a6d1a390e271fae9818b8e7f0765b07fb5bd6837147ca09 := by decide
theorem inv2_e204 : fp_sqr 0x1c90b9ac62eebbfc4a6d1a390e271fae9818b8e7f0765b07fb5bd6837147ca09 = 0x1b4dbbb7b284d32ec2b5bf0971cadfa07a68e3acbe98f6c779798055ecc83e70 := by decide
theorem inv2_e205 : fp_sqr 0x1b4dbbb7b284d32ec2b5bf0971cadfa07a68e3acbe98f6c779798055ecc83e70 = 0x1339d8fd9ab639707bf715de4c702652efc91848fad4d76a4335ebff5cf944e9 := by decide
theorem inv2_e206 : fp_sqr 0x1339d8fd9ab639707bf715de4c702652efc91848fad4d76a4335ebff5cf944e9 = 0x520777465fcd0b2ebea64f1ca52cc055d2b9c526c8da0f1e1a27eeecf64470d0 := by decide
theorem inv2_e207 : fp_sqr 0x520777465fcd0b2ebea64f1ca52cc055d2b9c526c8da0f1e1a27eeecf64470d0 = 0xf1ae6e0399a49a3f1fc64a0688a92e2d018de6dea8f06c38f0151b1939ce527 := by decide
theorem inv2_e208 : fp_sqr 0xf1ae6e0399a49a3f1fc64a0688a92e2d018de6dea8f06c38f0151b1939ce527 = 0xfd5c0874fb55d91c206644790bd334f842b6a0c19c1aaa1823edbdc674cba4ad := by decide
theorem inv2_e209 : fp_sqr 0xfd5c0874fb55d91c206644790bd334f842b6a0c19c1aaa1823edbdc674cba4ad = 0xaed941f22e15cd9a5efb1b202e450da6efb63509b0fb1bd7a35b78d1e6897e8c := by decide
theorem inv2_e210 : fp_sqr 0xaed941f22e15cd9a5efb1b202e450da6efb63509b0fb1bd7a35b78d1e6897e8c = 0x2a6c5dbcaea35973d8634aaf707db83fbeb5284b06a2d1131aace89f223c1b8d := by decide
theorem inv2_e211 : fp_sqr 0x2a6c5dbcaea35973d8634aaf707db83fbeb5284b06a2d1131aace89f223c1b8d = 0x2663aa30d1b05abf82e1e736882790ec5e3754f4af8e13c62ae327ea0ea2b1f5 := by decide
theorem inv2_e212 : fp_sqr 0x2663aa30d1b05abf82e1e736882790ec5e3754f4af8e13c62ae327ea0ea2b1f5 = 0xb20416e3d0217695e48600787342553bab282d9c0b7fdd403c19eb1ef3b3e39d := by decide
theorem inv2_e213 : fp_sqr 0xb20416e3d0217695e48600787342553bab282d9c0b7fdd403c19eb1ef3b3e39d = 0xd37df6770d02a6a1a88a83960b158c4f8a9af59cdd5d0f6551e74cb402bd4225 := by decide
theorem inv2_e214 : fp_sqr 0xd37df6770d02a6a1a88a83960b158c4f8a9af59cdd5d0f6551e74cb402bd4225 = 0x56e9eb955364942351c58b0eb0fc2d4f43b86330ce4fa01f41b69d3bd2cc25a3 := by decide
theorem inv2_e215 : fp_sqr 0x56e9eb955364942351c58b0eb0fc2d4f43b86330ce4fa01f41b69d3bd2cc25a3 = 0xe9057ef34571776f9d000edb71f1a8b37589f92388d2d373103692f3f4f829e4 := by decide
theorem inv2_e216 : fp_sqr 0xe9057ef34571776f9d000edb71f1a8b37589f92388d2d373103692f3f4f829e4 = 0xf9e2f67414039b30e01c0b6239d726f5cc98b62056b0fb6dc7f8ad77937028a1 := by decide
theorem inv2_e217 : fp_sqr 0xf9e2f67414039b30e01c0b6239d726f5cc98b62056b0fb6dc7f8ad77937028a1 = 0x592b781f4f82c297f45c802ebda6be514d8cf2de9e336f834c96cdc92d4e72cc := by decide
theorem inv2_e218 : fp_sqr 0x592b781f4f82c297f45c802ebda6be514d8cf2de9e336f834c96cdc92d4e72cc = 0xae7a17a56f065d4b4a94bf19624b37fd322d2ea9f17d4a8b461b4de1c541ce66 := by decide
theorem inv2_e219 : fp_sqr 0xae7a17a56f065d4b4a94bf19624b37fd322d2ea9f17d4a8b461b4de1c541ce66 = 0x2ddd1e25930695a09f6a2918b4376b302cf99d6977e8c87358559e5f44f754b := by decide
theorem inv2_e220 : fp_sqr 0x2ddd1e25930695a09f6a2918b4376b302cf99d6977e8c87358559e5f44f754b = 0x5a6242624b32963ba549275c4842cbd07d8da3bc45ab6a5f735dd6132a2f788d := by decide
theorem inv2_e221 : fp_sqr 0x5a6242624b32963ba549275c4842cbd07d8da3bc45ab6a5f735dd6132a2f788d = 0x3bb2cc1628a0f502ace7cbd780c26f2f2663266767cbc7d0d22175a7835c2522 := by decide
theorem inv2_e222 : fp_sqr 0x3bb2cc1628a0f502ace7cbd780c26f2f2663266767cbc7d0d22175a7835c2522 = 0xb863e122649955c3781e2d4c6bbbc8618a7805fd57b92e4da9efca381fa72698 := by decide
theorem inv2_e223 : fp_sqr 0xb863e122649955c3781e2d4c6bbbc8618a7805fd57b92e4da9efca381fa72698 = 0x9b986e0dfbdccd5422ac6df3a0a6c082d8890f06eecc8ccbc9274e6a330f82cb := by decide
theorem inv2_e224 : fp_sqr 0x9b986e0dfbdccd5422ac6df3a0a6c082d8890f06eecc8ccbc9274e6a330f82cb = 0x98d12e2345fd8744c4e3a63261d4a5e524f4594cba9cad18a21ba7ef7c53eaa6 := by decide
theorem inv2_e225 : fp_sqr 0x98d12e2345fd8744c4e3a63261d4a5e524f4594cba9cad18a21ba7ef7c53eaa6 = 0x1408be28b00eacbe2a2454afb01e49a42d4c74fc2510a9a63676b6818f6ecbee := by decide
theorem inv2_e226 : fp_sqr 0x1408be28b00eacbe2a2454afb01e49a42d4c74fc2510a9a63676b6818f6ecbee = 0x1fa017ead6661d7cf7cb02d8ff7affd6ea0671c9d6001c638e1cf9adce68f160 := by decide
theorem inv2_e227 : fp_sqr 0x1fa017ead6661d7cf7cb02d8ff7affd6ea0671c9d6001c638e1cf9adce68f160 = 0x630b7a86683f79b3f86afad1c54e844f004217d5567e204802fb4343273b6f78 := by decide
theorem inv2_e228 : fp_mul 0x630b7a86683f79b3f86afad1c54e844f004217d5567e204802fb4343273b6f78 0xf30df12a0f45a89647f796d13add3c6c797e9ed93a06c41ac2f5c864a9a82275 = 0x5efe0aa0399758e803d3751899a5f06f7dee3b51429d9ef9c0b6f4abe2a0097e := by decide
theorem inv2_e229 : fp_sqr 0x5efe0aa0399758e803d3751899a5f06f7dee3b51429d9ef9c0b6f4abe2a0097e = 0xe3bfe06d4e7061aa62098d21423ae2ad185edb545a1c34398217b25673a3b18b := by decide
theorem inv2_e230 : fp_sqr 0xe3bfe06d4e7061aa62098d21423ae2ad185edb545a1c34398217b25673a3b18b = 0xea80fedf33db3ccd873b7276f74484b91b5bab5c960c0fa80285f60a7a7b81ba := by decide
theorem inv2_e231 : fp_sqr 0xea80fedf33db3ccd873b7276f74484b91b5bab5c960c0fa80285f60a7a7b81ba = 0x2f148d3d463a9126e9213df2fc906d2ca880a558b8efb637d6224d37c53af0bc := by decide
theorem inv2_e232 : fp_mul 0x2f148d3d463a9126e9213df2fc906d2ca880a558b8efb637d6224d37c53af0bc 0x80 = 0x8a469ea31d489374909ef97e483696544052ac5c77db1beb11269bf99d78b5c7 := by decide
theorem inv2_e233 : fp_sqr 0x8a469ea31d489374909ef97e483696544052ac5c77db1beb11269bf99d78b5c7 = 0xb6fd36483a262bce0b6462cba9152a47ba716e5fc4c6df43ffe4994494d642f3 := by decide
theorem inv2_e234 : fp_sqr 0xb6fd36483a262bce0b6462cba9152a47ba716e5fc4c6df43ffe4994494d642f3 = 0xb58608202b48ba0b48d00b96bdb13bc36d886e1b792ee5be98e79f77b1ea285b := by decide
theorem inv2_e235 : fp_sqr 0xb58608202b48ba0b48d00b96bdb13bc36d886e1b792ee5be98e79f77b1ea285b = 0x3caa496d2311dabd6bac36a3f046a43d5e8b454c6c0c18a329e7aead39c35440 := by decide
theorem inv2_e236 : fp_sqr 0x3caa496d2311dabd6bac36a3f046a43d5e8b454c6c0c18a329e7aead39c35440 = 0x2624731e95b40d7af316f92d6789a434564669e184efa949bd220a7a21fc19bb := by decide
theorem inv2_e237 : fp_sqr 0x2624731e95b40d7af316f92d6789a434564669e184efa949bd220a7a21fc19bb = 0x67b03a2a2c2585b32f675feac7a7d15c87fed3d101864a0dbd85868069acfce2 := by decide
theorem inv2_e238 : fp_sqr 0x67b03a2a2c2585b32f675feac7a7d15c87fed3d101864a0dbd85868069acfce2 = 0x2b6f51ad34b0f8be0b5a36fb941213c073404496f4f52677d43a368090e01e3a := by decide
theorem inv2_e239 : fp_sqr 0x2b6f51ad34b0f8be0b5a36fb941213c073404496f4f52677d43a368090e01e3a = 0x7a4a175a6b48ca29da1f1c2fa42e1cb1b5e958c171f3ee8770c4c12d81a31c74 := by decide
theorem inv2_e240 : fp_sqr 0x7a4a175a6b48ca29da1f1c2fa42e1cb1b5e958c171f3ee8770c4c12d81a31c74 = 0xec125bf9b8113406b5154f66090130e6140fb3b023ad58c3d33a5b2ba715b31c := by decide
theorem inv2_e241 : fp_sqr 0xec125bf9b8113406b5154f66090130e6140fb3b023ad58c3d33a5b2ba715b31c = 0xa755d4c350feab058d8d221caaec027d48bace61cbb48feca9fa4ef269bb4fa4 := by decide
theorem inv2_e242 : fp_sqr 0xa755d4c350feab058d8d221caaec027d48bace61cbb48feca9fa4ef269bb4fa4 = 0xcd2246369e45c5b58803ac4f5c6514bb3eab63c699c910fede9347f576a39c3f := by decide
theorem inv2_e243 : fp_sqr 0xcd2246369e45c5b58803ac4f5c6514bb3eab63c699c910fede9347f576a39c3f = 0xce38b10ecef174e302a8f2e5cffb8a7b058aa8e3a9747a5b260bb0460bfaf48e := by decide
theorem inv2_e244 : fp_sqr 0xce38b10ecef174e302a8f2e5cffb8a7b058aa8e3a9747a5b260bb0460bfaf48e = 0xe0a43c45b1ef945bdced1498ed5e2ec9946b0364f008d3a41d80570a96865722 := by decide
theorem inv2_e245 : fp_sqr 0xe0a43c45b1ef945bdced1498ed5e2ec9946b0364f008d3a41d80570a96865722 = 0xeff3ce29f29b78d14fb161a7260a647fa669dfee92bd6c00359bb5e4c9de940b := by decide
theorem inv2_e246 : fp_sqr 0xeff3ce29f29b78d14fb161a7260a647fa669dfee92bd6c00359bb5e4c9de940b = 0x8b0c6cac96aa08992c2eb3eebbdfb8481659880deb0529298aa9ac5e6b6b857f := by decide
theorem inv2_e247 : fp_sqr 0x8b0c6cac96aa08992c2eb3eebbdfb8481659880deb0529298aa9ac5e6b6b857f = 0x5f59094a15fb9b61666246fb563dd28b9bf19032c597d12e64a082756e0807e0 := by decide
theorem inv2_e248 : fp_sqr 0x5f59094a15fb9b61666246fb563dd28b9bf19032c597d12e64a082756e0807e0 = 0x116ca9f319e6251a6dbc28b9f6f062d12e5a75601c363570eb6ad95715170e93 := by decide
theorem inv2_e249 : fp_sqr 0x116ca9f319e6251a6dbc28b9f6f062d12e5a75601c363570eb6ad95715170e93 = 0x540402e38c11dfbd331245f4cfd9de7ca870f38927b5bd097a571bd341853c11 := by decide
theorem inv2_e250 : fp_sqr 0x540402e38c11dfbd331245f4cfd9de7ca870f38927b5bd097a571bd341853c11 = 0x5409bf73eb3145086e42e58879b4110b6a927728714c89aea010c412118ce7bc := by decide
theorem inv2_e251 : fp_sqr 0x5409bf73eb3145086e42e58879b4110b6a927728714c89aea010c412118ce7bc = 0x4c230eba3d9328862395cf126a4ed0c4fe3100d3bd24c068c3cad8679320d245 := by decide
theorem inv2_e252 : fp_sqr 0x4c230eba3d9328862395cf126a4ed0c4fe3100d3bd24c068c3cad8679320d245 = 0x7a44e1e9459f9a3b60118fae4c5c47f3d36482c816245530200ffc0d76871277 := by decide
theorem inv2_e253 : fp_sqr 0x7a44e1e9459f9a3b60118fae4c5c47f3d36482c816245530200ffc0d76871277 = 0x6e87e979ca1f3e16168e410b8a320d80b77ffecf40e3667d557c0e0a253d1591 := by decide
theorem inv2_e254 : fp_sqr 0x6e87e979ca1f3e16168e410b8a320d80b77ffecf40e3667d557c0e0a253d1591 = 0x1959a0e59a385e2d716699d16472719c3f43eccde26d43f80e7dc113cf166188 := by decide
theorem inv2_e255 : fp_sqr 0x1959a0e59a385e2d716699d16472719c3f43eccde26d43f80e7dc113cf166188 = 0xa39c213518f05a31ef1b4ab15c93d3b66e7bb97166ca3f07552e5e894ccfc6a6 := by decide
theorem inv2_e256 : fp_mul 0xa39c213518f05a31ef1b4ab15c93d3b66e7bb97166ca3f07552e5e894ccfc6a6 0x77c89305c3dbe43c459749bb025cdadf2bd5571cae4971f8b911c70d0fcd4510 = 0xecf66030b869bd2be06d14b0790779b7e78ebb8800506aabeb6701c7f0133c79 := by decide
theorem inv2_e257 : fp_sqr 0xecf66030b869bd2be06d14b0790779b7e78ebb8800506aabeb6701c7f0133c79 = 0xf17fad5f6168ed6feb1204c479660336adc1ebfd63acd22d93f26fb1504c0ae := by decide
theorem inv2_e258 : fp_sqr 0xf17fad5f6168ed6feb1204c479660336adc1ebfd63acd22d93f26fb1504c0ae = 0x4ae2878964bdac11397944330b6025bc404ec55c515f15f7935c1e3ab9987b65 := by decide
theorem inv2_e259 : fp_sqr 0x4ae2878964bdac11397944330b6025bc404ec55c515f15f7935c1e3ab9987b65 = 0x669973f816ba85e5ce4589bf7c71b6d36b4b311eb1bd84019f61bd774d127e3a := by decide
theorem inv2_e260 : fp_sqr 0x669973f816ba85e5ce4589bf7c71b6d36b4b311eb1bd84019f61bd774d127e3a = 0xe789cead38cf0bed4eb74e52a5f9d26f93ec2765c6f74ecd769acabe1031cdcb := by decide
theorem inv2_e261 : fp_sqr 0xe789cead38cf0bed4eb74e52a5f9d26f93ec2765c6f74ecd769acabe1031cdcb = 0x3063121fded829d5b259877afa5a79ff0ce8f3eec058888cb2166c9e8042ce77 := by decide
theorem inv2_e262 : fp_mul 0x3063121fded829d5b259877afa5a79ff0ce8f3eec058888cb2166c9e8042ce77 0x2 = 0x60c6243fbdb053ab64b30ef5f4b4f3fe19d1e7dd80b11119642cd93d00859cee := by decide
theorem inv2_e263 : fp_sqr 0x60c6243fbdb053ab64b30ef5f4b4f3fe19d1e7dd80b11119642cd93d00859cee = 0xc39793e3865a7ddc1de7788ffee59112320c6f268b15b42c60f578e097c63975 := by decide
theorem inv2_e264 : fp_sqr 0xc39793e3865a7ddc1de7788ffee59112320c6f268b15b42c60f578e097c63975 = 0x7de814ded3869c0a8d9645fe2b3559ad2441a4f100d271e558ca5b2cb0157c62 := by decide
theorem inv2_e265 : fp_sqr 0x7de814ded3869c0a8d9645fe2b3559ad2441a4f100d271e558ca5b2cb0157c62 = 0x7210c790573632359b1edb4302c117d8a132654692c3feeb7de3a86a53f3b394 := by decide
theorem inv2_e266 : fp_mul 0x7210c790573632359b1edb4302c117d8a132654692c3feeb7de3a86a53f3b394 0x8 = 0x90863c82b9b191acd8f6da181608bec509932a34961ff75bef1d43559f9da813 := by decide
theorem inv2_e267 : fp_sqr 0x90863c82b9b191acd8f6da181608bec509932a34961ff75bef1d43559f9da813 = 0x7fffffffffffffffffffffffffffffffffffffffffffffffffffffff7ffffe18 := by decide
theorem inv2_e268 : fp_sqr 0x7fffffffffffffffffffffffffffffffffffffffffffffffffffffff7ffffe18 = 0x3ffffffefffffffefffffffefffffffefffffffefffffffffffffffebffffb3b := by decide
theorem inv2_value : fp_inv 0x2 = 0x3ffffffefffffffefffffffefffffffefffffffefffffffffffffffebffffb3b := by
  simp only [fp_inv, sqrN_step_1, sqrN_step_2, sqrN_step_3, sqrN_step_4, sqrN_step_5, sqrN_step_6, sqrN_step_7, sqrN_step_8, sqrN_step_9, sqrN_step_10, sqrN_step_11, sqrN_step_12, sqrN_step_13, sqrN_step_14, sqrN_step_15, sqrN_step_16, sqrN_step_17, sqrN_step_18, sqrN_step_19, sqrN_step_20, sqrN_step_21, sqrN_step_22, sqrN_step_23, sqrN_step_24, sqrN_step_25, sqrN_step_26, sqrN_step_27, sqrN_step_28, sqrN_step_29, sqrN_step_30, sqrN_step_31, sqrN_step_32, sqrN_step_33, sqrN_step_34, sqrN_step_35, sqrN_step_36, sqrN_step_37, sqrN_step_38, sqrN_step_39, sqrN_step_40, sqrN_step_41, sqrN_step_42, sqrN_step_43, sqrN_step_44, sqrN_step_45, sqrN_step_46, sqrN_step_47, sqrN_step_48, sqrN_step_49, sqrN_step_50, sqrN_step_51, sqrN_step_52, sqrN_step_53, sqrN_step_54, sqrN_step_55, sqrN_step_56, sqrN_step_57, sqrN_step_58, sqrN_step_59, sqrN_step_60, sqrN_step_61, sqrN_step_62, sqrN_step_63, sqrN_step_64, sqrN_step_65, sqrN_step_66, sqrN_step_67, sqrN_step_68, sqrN_step_69, sqrN_step_70, sqrN_step_71, sqrN_step_72, sqrN_step_73, sqrN_step_74, sqrN_step_75, sqrN_step_76, sqrN_step_77, sqrN_step_78, sqrN_step_79, sqrN_step_80, sqrN_step_81, sqrN_step_82, sqrN_step_83, sqrN_step_84, sqrN_step_85, sqrN_step_86, sqrN_step_87, sqrN_step_88, sqrN_zero, inv2_e0, inv2_e1, inv2_e2, inv2_e3, inv2_e4, inv2_e5, inv2_e6, inv2_e7, inv2_e8, inv2_e9, inv2_e10, inv2_e11, inv2_e12, inv2_e13, inv2_e14, inv2_e15, inv2_e16, inv2_e17, inv2_e18, inv2_e19, inv2_e20, inv2_e21, inv2_e22, inv2_e23, inv2_e24, inv2_e25, inv2_e26, inv2_e27, inv2_e28, inv2_e29, inv2_e30, inv2_e31, inv2_e32, inv2_e33, inv2_e34, inv2_e35, inv2_e36, inv2_e37, inv2_e38, inv2_e39, inv2_e40, inv2_e41, inv2_e42, inv2_e43, inv2_e44, inv2_e45, inv2_e46, inv2_e47, inv2_e48, inv2_e49, inv2_e50, inv2_e51, inv2_e52, inv2_e53, inv2_e54, inv2_e55, inv2_e56, inv2_e57, inv2_e58, inv2_e59, inv2_e60, inv2_e61, inv2_e62, inv2_e63, inv2_e64, inv2_e65, inv2_e66, inv2_e67, inv2_e68, inv2_e69, inv2_e70, inv2_e71, inv2_e72, inv2_e73, inv2_e74, inv2_e75, inv2_e76, inv2_e77, inv2_e78, inv2_e79, inv2_e80, inv2_e81, inv2_e82, inv2_e83, inv2_e84, inv2_e85, inv2_e86, inv2_e87, inv2_e88, inv2_e89, inv2_e90, inv2_e91, inv2_e92, inv2_e93, inv2_e94, inv2_e95, inv2_e96, inv2_e97, inv2_e98, inv2_e99, inv2_e100, inv2_e101, inv2_e102, inv2_e103, inv2_e104, inv2_e105, inv2_e106, inv2_e107, inv2_e108, inv2_e109, inv2_e110, inv2_e111, inv2_e112, inv2_e113, inv2_e114, inv2_e115, inv2_e116, inv2_e117, inv2_e118, inv2_e119, inv2_e120, inv2_e121, inv2_e122, inv2_e123, inv2_e124, inv2_e125, inv2_e126, inv2_e127, inv2_e128, inv2_e129, inv2_e130, inv2_e131, inv2_e132, inv2_e133, inv2_e134, inv2_e135, inv2_e136, inv2_e137, inv2_e138, inv2_e139, inv2_e140, inv2_e141, inv2_e142, inv2_e143, inv2_e144, inv2_e145, inv2_e146, inv2_e147, inv2_e148, inv2_e149, inv2_e150, inv2_e151, inv2_e152, inv2_e153, inv2_e154, inv2_e155, inv2_e156, inv2_e157, inv2_e158, inv2_e159, inv2_e160, inv2_e161, inv2_e162, inv2_e163, inv2_e164, inv2_e165, inv2_e166, inv2_e167, inv2_e168, inv2_e169, inv2_e170, inv2_e171, inv2_e172, inv2_e173, inv2_e174, inv2_e175, inv2_e176, inv2_e177, inv2_e178, inv2_e179, inv2_e180, inv2_e181, inv2_e182, inv2_e183, inv2_e184, inv2_e185, inv2_e186, inv2_e187, inv2_e188, inv2_e189, inv2_e190, inv2_e191, inv2_e192, inv2_e193, inv2_e194, inv2_e195, inv2_e196, inv2_e197, inv2_e198, inv2_e199, inv2_e200, inv2_e201, inv2_e202, inv2_e203, inv2_e204, inv2_e205, inv2_e206, inv2_e207, inv2_e208, inv2_e209, inv2_e210, inv2_e211, inv2_e212, inv2_e213, inv2_e214, inv2_e215, inv2_e216, inv2_e217, inv2_e218, inv2_e219, inv2_e220, inv2_e221, inv2_e222, inv2_e223, inv2_e224, inv2_e225, inv2_e226, inv2_e227, inv2_e228, inv2_e229, inv2_e230, inv2_e231, inv2_e232, inv2_e233, inv2_e234, inv2_e235, inv2_e236, inv2_e237, inv2_e238, inv2_e239, inv2_e240, inv2_e241, inv2_e242, inv2_e243, inv2_e244, inv2_e245, inv2_e246, inv2_e247, inv2_e248, inv2_e249, inv2_e250, inv2_e251, inv2_e252, inv2_e253, inv2_e254, inv2_e255, inv2_e256, inv2_e257, inv2_e258, inv2_e259, inv2_e260, inv2_e261, inv2_e262, inv2_e263, inv2_e264, inv2_e265, inv2_e266, inv2_e267, inv2_e268]

/-! ## C2: the kernel hash vs standard Keccak-256 on 64 zero bytes -/

theorem c2c_abs : keccak64AbsorbState [0, 0, 0, 0, 0, 0, 0, 0, 0, 0, 0, 0, 0, 0, 0, 0, 0, 0, 0, 0, 0, 0, 0, 0, 0, 0, 0, 0, 0, 0, 0, 0, 0, 0, 0, 0, 0, 0, 0, 0, 0, 0, 0, 0, 0, 0, 0, 0, 0, 0, 0, 0, 0, 0, 0, 0, 0, 0, 0, 0, 0, 0, 0, 0] = 0x80000000000000000000000000000000000000000000000000000000000000000000000000000000000000000000000000000000000000000000000000000000000000000000000100000000000000000000000000000000000000000000000000000000000000000000000000000000000000000000000000000000000000000000000000000000 := by decide

theorem c2c_r0t : keccakTheta 0x80000000000000000000000000000000000000000000000000000000000000000000000000000000000000000000000000000000000000000000000000000000000000000000000100000000000000000000000000000000000000000000000000000000000000000000000000000000000000000000000000000000000000000000000000000000 = 0x1000000000000000080000000000000020000000000000000000000000000000100000000000000010000000000000000800000000000000280000000000000000000000000000001000000000000000100000000000000008000000000000002000000000000000000000000000000010000000000000001000000000000000180000000000000020000000000000000000000000000000100000000000000010000000000000000800000000000000200000000000000000000000000000001 := by decide

theorem c2c_r0p : keccakRhoPi keccak_rotc 0x1000000000000000080000000000000020000000000000000000000000000000100000000000000010000000000000000800000000000000280000000000000000000000000000001000000000000000100000000000000008000000000000002000000000000000000000000000000010000000000000001000000000000000180000000000000020000000000000000000000000000000100000000000000010000000000000000800000000000000200000000000000000000000000000001 = 0x2000000000000000080000000000080000000000000a0000000000000000000000000000000000000000001400000000000000000000000001000000000000000000800000000000000000400000000000000000100000000000000000000000000000000a000000000000000000000000000500000000010000000000000000000000000080100000000000000000000000000000000000000000040000000000000000000000014000000000000000000000000000000000000000001 := by decide

theorem c2c_r0c : keccakChi 0x2000000000000000080000000000080000000000000a0000000000000000000000000000000000000000001400000000000000000000000001000000000000000000800000000000000000400000000000000000100000000000000000000000000000000a000000000000000000000000000500000000010000000000000000000000000080100000000000000000000000000000000000000000040000000000000000000000014000000000000000000000000000000000000000001 = 0x80000000000000a00002000000000000000080000000000080020000000000a0000080000000000000001000000000000000000801400000000000000000000000001000014000000000000800000000000000000400a00000000000000100000000000004000000000000000001a000000000000000000100000000500000000010000000000000000000005000080100100000000000000000000000000800000000000040000000000000000001000014000000400000000000000000000000140000000001 := by decide

theorem c2c_r0 : keccakRound keccak_rotc 0x80000000000000000000000000000000000000000000000000000000000000000000000000000000000000000000000000000000000000000000000000000000000000000000000100000000000000000000000000000000000000000000000000000000000000000000000000000000000000000000000000000000000000000000000000000000 0 = 0x80000000000000a00002000000000000000080000000000080020000000000a0000080000000000000001000000000000000000801400000000000000000000000001000014000000000000800000000000000000400a00000000000000100000000000004000000000000000001a000000000000000000100000000500000000010000000000000000000005000080100100000000000000000000000000800000000000040000000000000000001000014000000400000000000000000000000140000000000 := by

  simp only [keccakRound, c2c_r0t, c2c_r0p, c2c_r0c]

  decide

theorem c2c_r1t : keccakTheta 0x80000000000000a00002000000000000000080000000000080020000000000a0000080000000000000001000000000000000000801400000000000000000000000001000014000000000000800000000000000000400a00000000000000100000000000004000000000000000001a000000000000000000100000000500000000010000000000000000000005000080100100000000000000000000000000800000000000040000000000000000001000014000000400000000000000000000000140000000000 = 0xe0803b0018014110a30016a000fcc148418036901003c3a3a0803f8008a88018a28024b00056c3e0e0003b1018014110030014a008fd8148418036101003c3a3a0003d9008a9c018028024300856c3e0e0003b00180541b0030014a000fcc048418036101007c3a3a0003d8008a881b8028024300056c3e0e1003b0018514110030004a000fcc148418036101053c3aba1002d8008a88018028024300056c3e8e0003b0018010110030014a000fcc14941802210100383a3a0003d8008a88018028030300056c3e0 := by decide

theorem c2c_r1p : keccakRhoPi keccak_rotc 0xe0803b0018014110a30016a000fcc148418036901003c3a3a0803f8008a88018a28024b00056c3e0e0003b1018014110030014a008fd8148418036101003c3a3a0003d9008a9c018028024300856c3e0e0003b00180541b0030014a000fcc048418036101007c3a3a0003d8008a881b8028024300056c3e0e1003b0018514110030004a000fcc148418036101053c3aba1002d8008a88018028024300056c3e8e0003b0018010110030014a000fcc14941802210100383a3a0003d8008a88018028030300056c3e0 = 0x8200fe0022a20062ad87c0050048601002a0d870001d800ca401800250007e60d06008840400e0e848a30016a000fcc11b080801e1d1a0c000f60022a206e280056c3e802802430000c00808870001d892c0015b0f828a00003b1018014110e04001f98090060029600d840414f0ead040007b0011510031d2020078746830063803140007b201151401218002b61f0010e1003b00185141000fcc149030014a0ec006005044382094011fb0290060023e1d1a0c01b080800b60022a20062840028030300056c3e0 := by decide

theorem c2c_r1c : keccakChi 0x8200fe0022a20062ad87c0050048601002a0d870001d800ca401800250007e60d06008840400e0e848a30016a000fcc11b080801e1d1a0c000f60022a206e280056c3e802802430000c00808870001d892c0015b0f828a00003b1018014110e04001f98090060029600d840414f0ead040007b0011510031d2020078746830063803140007b201151401218002b61f0010e1003b00185141000fcc149030014a0ec006005044382094011fb0290060023e1d1a0c01b080800b60022a20062840028030300056c3e0 = 0xa6017e0272a21e62fde7c0810448809800a0e67022bf806e0906800750401e70d2c050f4041d60e44d8f36968802bec11b480009e6d1a1d840550034a206be811e64368169d343400052082a0504a158b2cd855f0b2260c0403b6a18111010d1d2c1f8c39e848a296037841c15b1fa104000028091570018c2e2005374606007380ed80487a2005dd60121f872fe2f0238e3143b05185154040fed9492960f4a07a0040a7044102094012f802912a3c234dd1a0c51f498a08b60079a08064842369d283401e64360 := by decide

theorem c2c_r1 : keccakRound keccak_rotc 0x80000000000000a00002000000000000000080000000000080020000000000a0000080000000000000001000000000000000000801400000000000000000000000001000014000000000000800000000000000000400a00000000000000100000000000004000000000000000001a000000000000000000100000000500000000010000000000000000000005000080100100000000000000000000000000800000000000040000000000000000001000014000000400000000000000000000000140000000000 1 = 0xa6017e0272a21e62fde7c0810448809800a0e67022bf806e0906800750401e70d2c050f4041d60e44d8f36968802bec11b480009e6d1a1d840550034a206be811e64368169d343400052082a0504a158b2cd855f0b2260c0403b6a18111010d1d2c1f8c39e848a296037841c15b1fa104000028091570018c2e2005374606007380ed80487a2005dd60121f872fe2f0238e3143b05185154040fed9492960f4a07a0040a7044102094012f802912a3c234dd1a0c51f498a08b60079a08064842369d283401e6c3e2 := by

  simp only [keccakRound, c2c_r1t, c2c_r1p, c2c_r1c]

  decide

theorem c2c_r2t : keccakTheta 0xa6017e0272a21e62fde7c0810448809800a0e67022bf806e0906800750401e70d2c050f4041d60e44d8f36968802bec11b480009e6d1a1d840550034a206be811e64368169d343400052082a0504a158b2cd855f0b2260c0403b6a18111010d1d2c1f8c39e848a296037841c15b1fa104000028091570018c2e2005374606007380ed80487a2005dd60121f872fe2f0238e3143b05185154040fed9492960f4a07a0040a7044102094012f802912a3c234dd1a0c51f498a08b60079a08064842369d283401e6c3e2 = 0xec9b1cea29e79675b50c76d7d232e375d1407d63b9f01a4448d6551f291015b4c76ddb10b3c2accd0715547ed34736d653a3b65f30abc23591b59b27394924ab5fb4e3991083488415ff83ceb2db6d71f857e7b75067e8d708d0dc4ec76a733c032163d005cb100321e751046ce1f1d455ad89642688cc31887862bb2f25e81070e56e5251d863b007e1baebe9b1b5287933c1237c485a9011a266702549c3634d3a66e22b019837dcea99d6ff68c02fe53d811fcabb028acab0d282715643862330a3d0b6390fcb := by decide

theorem c2c_r2p : keccakRhoPi keccak_rotc 0xec9b1cea29e79675b50c76d7d232e375d1407d63b9f01a4448d6551f291015b4c76ddb10b3c2accd0715547ed34736d653a3b65f30abc23591b59b27394924ab5fb4e3991083488415ff83ceb2db6d71f857e7b75067e8d708d0dc4ec76a733c032163d005cb100321e751046ce1f1d455ad89642688cc31887862bb2f25e81070e56e5251d863b007e1baebe9b1b5287933c1237c485a9011a266702549c3634d3a66e22b019837dcea99d6ff68c02fe53d811fcabb028acab0d282715643862330a3d0b6390fcb = 0x2359547ca44056d1b6dae22bff079d6533f46bfc2bf3dba8d83872b72928ec31b94f6047f2aec0a275b50c76d7d232e3cd939ca49255c8da9d4411b387c75087549c36311a26670211580cc1ba69d3376c42cf0ab3371db715547ed34736d6079d8ed4e67811a1b8f86ebafa6c6d4a019561a504e2ac870dac773e03489a280f69108bf69c732210ad6c4b213446618a10887862bb2f25e86ff68c02fdcea99dc73a8a79e59d7b26cbe6157846aa7476588018190b1e802ef048df1216a41e4c2330a3d0b6390fcb := by decide

theorem c2c_r2c : keccakChi 0x2359547ca44056d1b6dae22bff079d6533f46bfc2bf3dba8d83872b72928ec31b94f6047f2aec0a275b50c76d7d232e3cd939ca49255c8da9d4411b387c75087549c36311a26670211580cc1ba69d3376c42cf0ab3371db715547ed34736d6079d8ed4e67811a1b8f86ebafa6c6d4a019561a504e2ac870dac773e03489a280f69108bf69c732210ad6c4b213446618a10887862bb2f25e86ff68c02fdcea99dc73a8a79e59d7b26cbe6157846aa7476588018190b1e802ef048df1216a41e4c2330a3d0b6390fcb = 0x636946ccad407ac02edcc228ada91d4732f57fa82bb399385c32f2b4fd2ce8749a8b690ff07dd32a31313e46d7d416e3cddb9c25ba7c09cead6011e1c24562a6140fba350a36ef5a98180d433fa8c3b2044cd5f0bf7655b784755ed707be540ff58c55eec810a808f83e90eb6b4b1c0690e1e100f2bc26b5bc7f4e634abb2c6f2a900bf62937a380290b7f2074ce69855098f8b4331e27f8c2928f03f98ee99f1772d67be5196b22ebe634f8548a70bf5c989218aa0b8b2e732eda7252046a1c2bb0a3d9bf238fe9 := by decide

theorem c2c_r2 : keccakRound keccak_rotc 0xa6017e0272a21e62fde7c0810448809800a0e67022bf806e0906800750401e70d2c050f4041d60e44d8f36968802bec11b480009e6d1a1d840550034a206be811e64368169d343400052082a0504a158b2cd855f0b2260c0403b6a18111010d1d2c1f8c39e848a296037841c15b1fa104000028091570018c2e2005374606007380ed80487a2005dd60121f872fe2f0238e3143b05185154040fed9492960f4a07a0040a7044102094012f802912a3c234dd1a0c51f498a08b60079a08064842369d283401e6c3e2 2 = 0x636946ccad407ac02edcc228ada91d4732f57fa82bb399385c32f2b4fd2ce8749a8b690ff07dd32a31313e46d7d416e3cddb9c25ba7c09cead6011e1c24562a6140fba350a36ef5a98180d433fa8c3b2044cd5f0bf7655b784755ed707be540ff58c55eec810a808f83e90eb6b4b1c0690e1e100f2bc26b5bc7f4e634abb2c6f2a900bf62937a380290b7f2074ce69855098f8b4331e27f8c2928f03f98ee99f1772d67be5196b22ebe634f8548a70bf5c989218aa0b8b2e732eda7252046a1cabb0a3d9bf230f63 := by

  simp only [keccakRound, c2c_r2t, c2c_r2p, c2c_r2c]

  decide

theorem c2c_r3t : keccakTheta 0x636946ccad407ac02edcc228ada91d4732f57fa82bb399385c32f2b4fd2ce8749a8b690ff07dd32a31313e46d7d416e3cddb9c25ba7c09cead6011e1c24562a6140fba350a36ef5a98180d433fa8c3b2044cd5f0bf7655b784755ed707be540ff58c55eec810a808f83e90eb6b4b1c0690e1e100f2bc26b5bc7f4e634abb2c6f2a900bf62937a380290b7f2074ce69855098f8b4331e27f8c2928f03f98ee99f1772d67be5196b22ebe634f8548a70bf5c989218aa0b8b2e732eda7252046a1cabb0a3d9bf230f63 = 0x33cc2a34371f48dacb647e73860a51c9ed48faac0d55e8879877f61d78af5adf40f9a93460ab006a619452be4d8b24f92863207e91df454072dd94e5e4a31319d04abe9c8fb55df1426acd78af7e10f254e9b908252967ad61cde28c2c1d18812a31d0eaeef6d9b73c7b9442eec8aead4a93213b626af5f5ecda229bd0e41e75cf28b7ad0294ef0ef6b6fa245228183a94ddfc1db69d955318e04f3869583adf47d7ba837f4659380e5e88a37f293c318325171c8cedfa91b76bdedbd787d8b771c263e22ff5dc23 := by decide

theorem c2c_r3p : keccakRhoPi keccak_rotc 0x33cc2a34371f48dacb647e73860a51c9ed48faac0d55e8879877f61d78af5adf40f9a93460ab006a619452be4d8b24f92863207e91df454072dd94e5e4a31319d04abe9c8fb55df1426acd78af7e10f254e9b908252967ad61cde28c2c1d18812a31d0eaeef6d9b73c7b9442eec8aead4a93213b626af5f5ecda229bd0e41e75cf28b7ad0294ef0ef6b6fa245228183a94ddfc1db69d955318e04f3869583adf47d7ba837f4659380e5e88a37f293c318325171c8cedfa91b76bdedbd787d8b771c263e22ff5dc23 = 0x61dfd875e2bd6b7efc21e484d59af15e94b3d6aa74dc84128767945bd6814a7760c945c7233b7ea4c9cb647e73860a51ca72f251898cb96eee510bbb22bab4f19583adf18e04f3861bfa32c9c23ebdd4a4d182ac01a903e69452be4d8b24f96118583a3102c39bc5adbe89148a060ebd6ed7bdb7af0fb16f5581aabd10fda91fabbe3a0957d391f6549909db1357afaa75ecda229bd0e41e37f293c310e5e88a0a8d0dc7d2368cf30fd23be8a8050c64b6cdb9518e8757777f076da76554e53771c263e22ff5dc23 := by decide

theorem c2c_r3c : keccakChi 0x61dfd875e2bd6b7efc21e484d59af15e94b3d6aa74dc84128767945bd6814a7760c945c7233b7ea4c9cb647e73860a51ca72f251898cb96eee510bbb22bab4f19583adf18e04f3861bfa32c9c23ebdd4a4d182ac01a903e69452be4d8b24f96118583a3102c39bc5adbe89148a060ebd6ed7bdb7af0fb16f5581aabd10fda91fabbe3a0957d391f6549909db1357afaa75ecda229bd0e41e37f293c310e5e88a0a8d0dc7d2368cf30fd23be8a8050c64b6cdb9518e8757777f076da76554e53771c263e22ff5dc23 = 0xe6f9486d363d6b2dfc21e106d498e5de956dcedb56f98e32ef67b45f57833b3b705907670367faa44dcae94e7f864853d842e0d009b40ceaefd80f9550b8b6e095a15db10700fa8871aa30c3e284b9a525f982ac01a90d76de54835e2522496838d93a91024a994329bc0d5803226e9d7e978f96afce202f158de29d9bedad0b89cc2b4b57d3d1760098896f137b87a3decae822df50f44a37e3921a10e2e32a048801c29236ade77e9059c885c45c64b6c0bd56dcb5d7e476156f0f4554ed37f10af3b2a576ce63 := by decide

theorem c2c_r3 : keccakRound keccak_rotc 0x636946ccad407ac02edcc228ada91d4732f57fa82bb399385c32f2b4fd2ce8749a8b690ff07dd32a31313e46d7d416e3cddb9c25ba7c09cead6011e1c24562a6140fba350a36ef5a98180d433fa8c3b2044cd5f0bf7655b784755ed707be540ff58c55eec810a808f83e90eb6b4b1c0690e1e100f2bc26b5bc7f4e634abb2c6f2a900bf62937a380290b7f2074ce69855098f8b4331e27f8c2928f03f98ee99f1772d67be5196b22ebe634f8548a70bf5c989218aa0b8b2e732eda7252046a1cabb0a3d9bf230f63 3 = 0xe6f9486d363d6b2dfc21e106d498e5de956dcedb56f98e32ef67b45f57833b3b705907670367faa44dcae94e7f864853d842e0d009b40ceaefd80f9550b8b6e095a15db10700fa8871aa30c3e284b9a525f982ac01a90d76de54835e2522496838d93a91024a994329bc0d5803226e9d7e978f96afce202f158de29d9bedad0b89cc2b4b57d3d1760098896f137b87a3decae822df50f44a37e3921a10e2e32a048801c29236ade77e9059c885c45c64b6c0bd56dcb5d7e476156f0f4554ed37710af3b225764e63 := by

  simp only [keccakRound, c2c_r3t, c2c_r3p, c2c_r3c]

  decide

theorem c2c_r4t : keccakTheta 0xe6f9486d363d6b2dfc21e106d498e5de956dcedb56f98e32ef67b45f57833b3b705907670367faa44dcae94e7f864853d842e0d009b40ceaefd80f9550b8b6e095a15db10700fa8871aa30c3e284b9a525f982ac01a90d76de54835e2522496838d93a91024a994329bc0d5803226e9d7e978f96afce202f158de29d9bedad0b89cc2b4b57d3d1760098896f137b87a3decae822df50f44a37e3921a10e2e32a048801c29236ade77e9059c885c45c64b6c0bd56dcb5d7e476156f0f4554ed37710af3b225764e63 = 0x98890b52eb57daad378aaf409ccf49c1741f4d56cb6e62fd3e83f208bbb116f118dc0080d1e5b8e733baaa71a2ecf9d313e9ae9641e3a0f50eaa8c18cd2f5a2f44451be6eb32d742192f37243006fbe65b89c193dcc3bcf615ffcd186d75e577d9abb91c9fdd758cf8584b0fef104357161288717d4c626c6bfda1a246871c8b4267650d1f847d69e1ea0ae28eec6b6c0f2eae753362d9805f6695fdc260a1697af842fd4f5c1c67b53b178ecd93f07b57b23edb41223b2ba7f12958a966c0fd198ff455f7f40c20 := by decide

theorem c2c_r4p : keccakRhoPi keccak_rotc 0x98890b52eb57daad378aaf409ccf49c1741f4d56cb6e62fd3e83f208bbb116f118dc0080d1e5b8e733baaa71a2ecf9d313e9ae9641e3a0f50eaa8c18cd2f5a2f44451be6eb32d742192f37243006fbe65b89c193dcc3bcf615ffcd186d75e577d9abb91c9fdd758cf8584b0fef104357161288717d4c626c6bfda1a246871c8b4267650d1f847d69e1ea0ae28eec6b6c0f2eae753362d9805f6695fdc260a1697af842fd4f5c1c67b53b178ecd93f07b57b23edb41223b2ba7f12958a966c0fd198ff455f7f40c20 = 0xfa0fc822eec45bc40df7cc325e6e486061de7b2dc4e0c9eeb4a133b2868fc23ed5ec8fb6d0488ecac1378aaf409ccf49460c6697ad178755612c3fbc410d5fe1260a1695f6695fdcea7ae0e33bd7c21702034796e39c6370baaa71a2ecf9d33330daebcaee2bff9a7a82b8a3bb1adb384fe252b152cd81fbaad96dcc5fae83e95ae84888a37cdd66b094438bea6313608b6bfda1a246871cecd93f07bb53b17842d4bad5f6ab6622d2c83c741ea27d35ebac66cd5dc8e4feab9d4cd8b66003cb198ff455f7f40c20 := by decide

theorem c2c_r4c : keccakChi 0xfa0fc822eec45bc40df7cc325e6e486061de7b2dc4e0c9eeb4a133b2868fc23ed5ec8fb6d0488ecac1378aaf409ccf49460c6697ad178755612c3fbc410d5fe1260a1695f6695fdcea7ae0e33bd7c21702034796e39c6370baaa71a2ecf9d33330daebcaee2bff9a7a82b8a3bb1adb384fe252b152cd81fbaad96dcc5fae83e95ae84888a37cdd66b094438bea6313608b6bfda1a246871cecd93f07bb53b17842d4bad5f6ab6622d2c83c741ea27d35ebac66cd5dc8e4feab9d4cd8b66003cb198ff455f7f40c20 = 0xda0ef822e8431bf00817cba64e66cc6a93d67b2d6460da6ab880b7a09c81c23e94b2c7bb9028870ac5379cbb84b4d2816c4406d796548743e01fb794018517e9200a56965a7bdfc8ab5ec9cb3ad3c2363203ef944a8e3970f74a6183fcb853b830dbeddeed2fdfdaf0a2a883bbcadb194fba11f916eca579a9fbad6c5faa85ed1ee85a8b032ded76108566cfb6e111e9c103f5a1a35a4b1adc4d3d0df372a118e0c4b25df6ab65e9cbc378741ff67535ebb8e44cbdc1e6fcbbdd54e8b4421aca59afd650be7ce814 := by decide

theorem c2c_r4 : keccakRound keccak_rotc 0xe6f9486d363d6b2dfc21e106d498e5de956dcedb56f98e32ef67b45f57833b3b705907670367faa44dcae94e7f864853d842e0d009b40ceaefd80f9550b8b6e095a15db10700fa8871aa30c3e284b9a525f982ac01a90d76de54835e2522496838d93a91024a994329bc0d5803226e9d7e978f96afce202f158de29d9bedad0b89cc2b4b57d3d1760098896f137b87a3decae822df50f44a37e3921a10e2e32a048801c29236ade77e9059c885c45c64b6c0bd56dcb5d7e476156f0f4554ed37710af3b225764e63 4 = 0xda0ef822e8431bf00817cba64e66cc6a93d67b2d6460da6ab880b7a09c81c23e94b2c7bb9028870ac5379cbb84b4d2816c4406d796548743e01fb794018517e9200a56965a7bdfc8ab5ec9cb3ad3c2363203ef944a8e3970f74a6183fcb853b830dbeddeed2fdfdaf0a2a883bbcadb194fba11f916eca579a9fbad6c5faa85ed1ee85a8b032ded76108566cfb6e111e9c103f5a1a35a4b1adc4d3d0df372a118e0c4b25df6ab65e9cbc378741ff67535ebb8e44cbdc1e6fcbbdd54e8b4421aca59afd650be7c689f := by

  simp only [keccakRound, c2c_r4t, c2c_r4p, c2c_r4c]

  decide

theorem c2c_r5t : keccakTheta 0xda0ef822e8431bf00817cba64e66cc6a93d67b2d6460da6ab880b7a09c81c23e94b2c7bb9028870ac5379cbb84b4d2816c4406d796548743e01fb794018517e9200a56965a7bdfc8ab5ec9cb3ad3c2363203ef944a8e3970f74a6183fcb853b830dbeddeed2fdfdaf0a2a883bbcadb194fba11f916eca579a9fbad6c5faa85ed1ee85a8b032ded76108566cfb6e111e9c103f5a1a35a4b1adc4d3d0df372a118e0c4b25df6ab65e9cbc378741ff67535ebb8e44cbdc1e6fcbbdd54e8b4421aca59afd650be7c689f = 0x77559f863220c8a77833403bd37c092c0d458fcb7eeb4cf13d6b04bd6a4d2165d55a827fcb01b971686cfb1f5ed701d61c608d4a0b4e42057e8c43721b0e8172a5e1e58bacb73c93eab68c0f61fafc4d9f58883090edea27876eea1e61a296feae481938f7a4494175491b9e4d0638420e52543d4dc59b0204a0cac885c956ba6eccd1169e3728308e169229ac6a877244e846bc5596a8419da578c9a85b9f634d9fd5f92cc8b6bebbe7f3e982ecb073752b10aaa74a70673e36e7f5428ef99118479394e55556e4 := by decide

theorem c2c_r5p : keccakRhoPi keccak_rotc 0x77559f863220c8a77833403bd37c092c0d458fcb7eeb4cf13d6b04bd6a4d2165d55a827fcb01b971686cfb1f5ed701d61c608d4a0b4e42057e8c43721b0e8172a5e1e58bacb73c93eab68c0f61fafc4d9f58883090edea27876eea1e61a296feae481938f7a4494175491b9e4d0638420e52543d4dc59b0204a0cac885c956ba6eccd1169e3728308e169229ac6a877244e846bc5596a8419da578c9a85b9f634d9fd5f92cc8b6bebbe7f3e982ecb073752b10aaa74a70673e36e7f5428ef99118479394e55556e4 = 0xf5ac12f5a9348594f5f89bd56d181ec376f513cfac441848183766688b4f1b94dd4ac42aa9d29c192c7833403bd37c0921b90d8740b93f46246e793418e109d585b9f639da578c9ac96645b5f26cfeaf09ff2c06e5c7556a6cfb1f5ed701d6683cc3452dfd0eddd485a48a6b1aa1dca37c6dcfea851df322f96fdd699e21a8b1e79274bc3cb175967292a1ea6e2cd810ba04a0cac885c956982ecb073bbe7f3e67e18c883229ddd5a94169c840a38c11224a0d7240c9c7bd11af1565aa10513a18479394e55556e4 := by decide

theorem c2c_r5c : keccakChi 0xf5ac12f5a9348594f5f89bd56d181ec376f513cfac441848183766688b4f1b94dd4ac42aa9d29c192c7833403bd37c0921b90d8740b93f46246e793418e109d585b9f639da578c9ac96645b5f26cfeaf09ff2c06e5c7556a6cfb1f5ed701d6683cc3452dfd0eddd485a48a6b1aa1dca37c6dcfea851df322f96fdd699e21a8b1e79274bc3cb175967292a1ea6e2cd810ba04a0cac885c956982ecb073bbe7f3e67e18c883229ddd5a94169c840a38c11224a0d7240c9c7bd11af1565aa10513a18479394e55556e4 = 0xf59930b5ab398610fdba5fdf6dda06ca76f113ef2c60995c993fee78ca571d17bb8ad5ad8dd29c5128e1814833c07c19e0bf49328095bde0282e4b7423a349dc8428f2ba9a4fba98e9204cb1f2ccffea887f2c07ff6759eb18fbdcb6d71974683dc7652dddc8dcd6c59c903918a0de8b442e8aee6013f276db6ffda15e2028f1e79276ba1d2f22986aff28abec2c50313f04f4ded814ecd0d8bcca271d966f3e664988e93829dccfb1477adc85f78e3164ea897272c1967998ae75edaa32593a3a079b86a59cd061 := by decide

theorem c2c_r5 : keccakRound keccak_rotc 0xda0ef822e8431bf00817cba64e66cc6a93d67b2d6460da6ab880b7a09c81c23e94b2c7bb9028870ac5379cbb84b4d2816c4406d796548743e01fb794018517e9200a56965a7bdfc8ab5ec9cb3ad3c2363203ef944a8e3970f74a6183fcb853b830dbeddeed2fdfdaf0a2a883bbcadb194fba11f916eca579a9fbad6c5faa85ed1ee85a8b032ded76108566cfb6e111e9c103f5a1a35a4b1adc4d3d0df372a118e0c4b25df6ab65e9cbc378741ff67535ebb8e44cbdc1e6fcbbdd54e8b4421aca59afd650be7c689f 5 = 0xf59930b5ab398610fdba5fdf6dda06ca76f113ef2c60995c993fee78ca571d17bb8ad5ad8dd29c5128e1814833c07c19e0bf49328095bde0282e4b7423a349dc8428f2ba9a4fba98e9204cb1f2ccffea887f2c07ff6759eb18fbdcb6d71974683dc7652dddc8dcd6c59c903918a0de8b442e8aee6013f276db6ffda15e2028f1e79276ba1d2f22986aff28abec2c50313f04f4ded814ecd0d8bcca271d966f3e664988e93829dccfb1477adc85f78e3164ea897272c1967998ae75edaa32593a3a079b86259cd060 := by

  simp only [keccakRound, c2c_r5t, c2c_r5p, c2c_r5c]

  decide

theorem c2c_r6t : keccakTheta 0xf59930b5ab398610fdba5fdf6dda06ca76f113ef2c60995c993fee78ca571d17bb8ad5ad8dd29c5128e1814833c07c19e0bf49328095bde0282e4b7423a349dc8428f2ba9a4fba98e9204cb1f2ccffea887f2c07ff6759eb18fbdcb6d71974683dc7652dddc8dcd6c59c903918a0de8b442e8aee6013f276db6ffda15e2028f1e79276ba1d2f22986aff28abec2c50313f04f4ded814ecd0d8bcca271d966f3e664988e93829dccfb1477adc85f78e3164ea897272c1967998ae75edaa32593a3a079b86259cd060 = 0x4ecc722e47b9b8dc40f412d42212636daf87925c53e29264b71b94f5749da7b8ade9268ff978525193b4c3d3df4042d55df10439cf5dd847f158cac75c2142e4aa0c883724850037ff43bf93866631ea332a6e9c13e76727a5b591bd98d111cfe4b1e49ea24ad7eeebb8eab4a66a6424524d79cc14b93c76603abf3ab2a0163d5adc3bb152e7473fb389a91893ae5b0911208e5366de567fcedf3905693ca13edd1cca72d4a9e2030c0937d7ca3feb96bd9c08c10d439d41b68a0f6014f8e3952c6468a451361e60 := by decide

theorem c2c_r6p : keccakRhoPi keccak_rotc 0x4ecc722e47b9b8dc40f412d42212636daf87925c53e29264b71b94f5749da7b8ade9268ff978525193b4c3d3df4042d55df10439cf5dd847f158cac75c2142e4aa0c883724850037ff43bf93866631ea332a6e9c13e76727a5b591bd98d111cfe4b1e49ea24ad7eeebb8eab4a66a6424524d79cc14b93c76603abf3ab2a0163d5adc3bb152e7473fb389a91893ae5b0911208e5366de567fcedf3905693ca13edd1cca72d4a9e2030c0937d7ca3feb96bd9c08c10d439d41b68a0f6014f8e3952c6468a451361e60 = 0xdc6e53d5d2769ee2cc63d5fe877f270cf3b3939995374e099fad6e1dd8a973a36f6702304350e7506d40f412d42212636563ae10a17278ace3aad299a99093ae93ca13ecedf3905696a54f101ee8e6539a3fe5e14946b7a4b4c3d3df4042d5937b31a2239f4b6b23e26a4624eb96c26c6d141ec029f1c72b4b8a7c524c95f0f2a006f5419106e490926bce60a5c9e3b23d603abf3ab2a0167ca3feb960c0937d1c8b91ee6e3713b38739ebbb08ebbe2056bf77258f24f5122394d9b7959fc4482c6468a451361e60 := by decide

theorem c2c_r6c : keccakChi 0xdc6e53d5d2769ee2cc63d5fe877f270cf3b3939995374e099fad6e1dd8a973a36f6702304350e7506d40f412d42212636563ae10a17278ace3aad299a99093ae93ca13ecedf3905696a54f101ee8e6539a3fe5e14946b7a4b4c3d3df4042d5937b31a2239f4b6b23e26a4624eb96c26c6d141ec029f1c72b4b8a7c524c95f0f2a006f5419106e490926bce60a5c9e3b23d603abf3ab2a0167ca3feb960c0937d1c8b91ee6e3713b38739ebbb08ebbe2056bf77258f24f5122394d9b7959fc4482c6468a451361e60 = 0x4ce63fd84adf8e41ef62d5de867f461ce3bf9198c537d6eb93ed2a7bdae152a70f7593b04646eb586c0ae4fe35310267f7c6a510abba9cbcebaa829bfd9091ed978b3feced91f856f6858f011ee8e5fb1855a5c58b40b7e0d1c3c9df60f39598710d8603964f490766a817f8ab9656fc7405bec33db8ee284aca7c5456a7d0f0942777e8b146e79dd9e3c672e958f3d01d640bbe2ab4a416fea83af9e589d0dd1f1b00fdeabed3bba75d83bb19ebb2604e3d6761e930f481a294512d9554ce68784f4ea45b162f72 := by decide

theorem c2c_r6 : keccakRound keccak_rotc 0xf59930b5ab398610fdba5fdf6dda06ca76f113ef2c60995c993fee78ca571d17bb8ad5ad8dd29c5128e1814833c07c19e0bf49328095bde0282e4b7423a349dc8428f2ba9a4fba98e9204cb1f2ccffea887f2c07ff6759eb18fbdcb6d71974683dc7652dddc8dcd6c59c903918a0de8b442e8aee6013f276db6ffda15e2028f1e79276ba1d2f22986aff28abec2c50313f04f4ded814ecd0d8bcca271d966f3e664988e93829dccfb1477adc85f78e3164ea897272c1967998ae75edaa32593a3a079b86259cd060 6 = 0x4ce63fd84adf8e41ef62d5de867f461ce3bf9198c537d6eb93ed2a7bdae152a70f7593b04646eb586c0ae4fe35310267f7c6a510abba9cbcebaa829bfd9091ed978b3feced91f856f6858f011ee8e5fb1855a5c58b40b7e0d1c3c9df60f39598710d8603964f490766a817f8ab9656fc7405bec33db8ee284aca7c5456a7d0f0942777e8b146e79dd9e3c672e958f3d01d640bbe2ab4a416fea83af9e589d0dd1f1b00fdeabed3bba75d83bb19ebb2604e3d6761e930f481a294512d9554ce68f84f4ea4db16aff3 := by

  simp only [keccakRound, c2c_r6t, c2c_r6p, c2c_r6c]

  decide

theorem c2c_r7t : keccakTheta 0x4ce63fd84adf8e41ef62d5de867f461ce3bf9198c537d6eb93ed2a7bdae152a70f7593b04646eb586c0ae4fe35310267f7c6a510abba9cbcebaa829bfd9091ed978b3feced91f856f6858f011ee8e5fb1855a5c58b40b7e0d1c3c9df60f39598710d8603964f490766a817f8ab9656fc7405bec33db8ee284aca7c5456a7d0f0942777e8b146e79dd9e3c672e958f3d01d640bbe2ab4a416fea83af9e589d0dd1f1b00fdeabed3bba75d83bb19ebb2604e3d6761e930f481a294512d9554ce68f84f4ea4db16aff3 = 0xa0dedec41857abcfdb74e559b9913e56cabb53e12d077513c5739473dc68dfa3d861200248fcff32803205e267b927e9c3d095979454e4f6c2ae40e215a03215c11581e4eb18755221913cb31052f191f46d44d9d9c8926ee5d5f9585f1dedd25809447a7e7feaff3036a9f0ad1fdbf8a3110d713302fa42a6f29d48042ff57ea031476f8ea89fd7f0e7040b016850284bfab5b62c3d291229bc894beb33c4b7f323e1e1b836f635934bb33c2605ca2a6739a51801005779f40aef2593dd436c2f5bfd16d5acbb99 := by decide

theorem c2c_r7p : keccakRhoPi keccak_rotc 0xa0dedec41857abcfdb74e559b9913e56cabb53e12d077513c5739473dc68dfa3d861200248fcff32803205e267b927e9c3d095979454e4f6c2ae40e215a03215c11581e4eb18755221913cb31052f191f46d44d9d9c8926ee5d5f9585f1dedd25809447a7e7feaff3036a9f0ad1fdbf8a3110d713302fa42a6f29d48042ff57ea031476f8ea89fd7f0e7040b016850284bfab5b62c3d291229bc894beb33c4b7f323e1e1b836f635934bb33c2605ca2a6739a51801005779f40aef2593dd436c2f5bfd16d5acbb99 = 0x15ce51cf71a37e8fa5e3224322796620e449377a36a26cecebd018a3b7c7544f59ce6946004015de56db74e559b9913e20710ad0190ae157daa7c2b47f6fe0c0b33c4b729bc894be0dc1b7b1af991f0f800923f3fccb61843205e267b927e980b0be3bdba5cbabf239c102c05a140a3ce815de4b27ba86d97c25a0eea279576a0eaa5822b03c9d6318886b899817d2157ea6f29d48042ff5c2605ca2a934bb33b7b10615eaf3e837b2f28a9c9ed87a12ff57fac04a23d3f3ad6d8b0f4a4492fe2f5bfd16d5acbb99 := by decide

theorem c2c_r7c : keccakChi 0x15ce51cf71a37e8fa5e3224322796620e449377a36a26cecebd018a3b7c7544f59ce6946004015de56db74e559b9913e20710ad0190ae157daa7c2b47f6fe0c0b33c4b729bc894be0dc1b7b1af991f0f800923f3fccb61843205e267b927e980b0be3bdba5cbabf239c102c05a140a3ce815de4b27ba86d97c25a0eea279576a0eaa5822b03c9d6318886b899817d2157ea6f29d48042ff5c2605ca2a934bb33b7b10615eaf3e837b2f28a9c9ed87a12ff57fac04a23d3f3ad6d8b0f4a4492fe2f5bfd16d5acbb99 = 0xb7de416ec6243e8eede30a4322396770f44566f667207463ea7218a2b79e564f5dc74e1e00603d7ee4e73ca749f9118e297189c0bf0aef568c2db6913fdef0e8936c43329bc895a945423735cbbe7f4f91c92373a4cf69a05a113e6fba176fd930b63a4be103abf63bc0c2e442304a3c682be7508271271b40a302f3e27953ae8cea0422b9383572688dcb459a56901d7884e2bf682c2297c26855a239276b333795041ce0b3e851bab8739e8bd4699afa56fec12a0053d6adcd8b13de9cbafe7d498dd6d58ffa98 := by decide

theorem c2c_r7 : keccakRound keccak_rotc 0x4ce63fd84adf8e41ef62d5de867f461ce3bf9198c537d6eb93ed2a7bdae152a70f7593b04646eb586c0ae4fe35310267f7c6a510abba9cbcebaa829bfd9091ed978b3feced91f856f6858f011ee8e5fb1855a5c58b40b7e0d1c3c9df60f39598710d8603964f490766a817f8ab9656fc7405bec33db8ee284aca7c5456a7d0f0942777e8b146e79dd9e3c672e958f3d01d640bbe2ab4a416fea83af9e589d0dd1f1b00fdeabed3bba75d83bb19ebb2604e3d6761e930f481a294512d9554ce68f84f4ea4db16aff3 7 = 0xb7de416ec6243e8eede30a4322396770f44566f667207463ea7218a2b79e564f5dc74e1e00603d7ee4e73ca749f9118e297189c0bf0aef568c2db6913fdef0e8936c43329bc895a945423735cbbe7f4f91c92373a4cf69a05a113e6fba176fd930b63a4be103abf63bc0c2e442304a3c682be7508271271b40a302f3e27953ae8cea0422b9383572688dcb459a56901d7884e2bf682c2297c26855a239276b333795041ce0b3e851bab8739e8bd4699afa56fec12a0053d6adcd8b13de9cbafefd498dd6d58f7a91 := by

  simp only [keccakRound, c2c_r7t, c2c_r7p, c2c_r7c]

  decide

theorem c2c_r8t : keccakTheta 0xb7de416ec6243e8eede30a4322396770f44566f667207463ea7218a2b79e564f5dc74e1e00603d7ee4e73ca749f9118e297189c0bf0aef568c2db6913fdef0e8936c43329bc895a945423735cbbe7f4f91c92373a4cf69a05a113e6fba176fd930b63a4be103abf63bc0c2e442304a3c682be7508271271b40a302f3e27953ae8cea0422b9383572688dcb459a56901d7884e2bf682c2297c26855a239276b333795041ce0b3e851bab8739e8bd4699afa56fec12a0053d6adcd8b13de9cbafefd498dd6d58f7a91 = 0x8011072199e26c895c6a6541782371793271028e946713ff11f6e1fd01cefbaac72ef7fa9814e346d3287ae8163f438998f8e6c2e510f95f4a19d2e9cc99977468e8ba6d2d98384cdfab8ed153caa177a606653cfb093ba7eb98516de00d79d0f6825e331244cc6ac0443bbbf460e7d9f2c25eb41a05f923776c44bcbdbf01a93d636b20e322237baeb9af3d6911f78183001be0de7c8f725881ec46a153b50b005a4253bf75ba560b311c9cd1ce7f933c629ab9d947344a5649724c68cc171b67a034324dfba4a9 := by decide

theorem c2c_r8p : keccakRhoPi keccak_rotc 0x8011072199e26c895c6a6541782371793271028e946713ff11f6e1fd01cefbaac72ef7fa9814e346d3287ae8163f438998f8e6c2e510f95f4a19d2e9cc99977468e8ba6d2d98384cdfab8ed153caa177a606653cfb093ba7eb98516de00d79d0f6825e331244cc6ac0443bbbf460e7d9f2c25eb41a05f923776c44bcbdbf01a93d636b20e322237baeb9af3d6911f78183001be0de7c8f725881ec46a153b50b005a4253bf75ba560b311c9cd1ce7f933c629ab9d947344a5649724c68cc171b67a034324dfba4a9 = 0x47db87f4073beea89542efbf571da2a7849dd3d303329e7dbd9eb1b5907191118f18a6ae7651cd12795c6a6541782371e974e64ccbba250c10eeefd1839f6701153b50b5881ec46a9dfbadd2b002d212dfea60538d1b1cbb287ae8163f4389d3dbc01af3a1d730a2ae6bcf5a447de06bac92e498d1982e3651d28ce27fe64e2007098d1d174da5b39612f5a0d02fc91fa9776c44bcbdbf01cd1ce7f930b311c941c866789b226004d85ca21f2bf31f1c266357b412f1989206f8379f23dca0c067a034324dfba4a9 := by decide

theorem c2c_r8c : keccakChi 0x47db87f4073beea89542efbf571da2a7849dd3d303329e7dbd9eb1b5907191118f18a6ae7651cd12795c6a6541782371e974e64ccbba250c10eeefd1839f6701153b50b5881ec46a9dfbadd2b002d212dfea60538d1b1cbb287ae8163f4389d3dbc01af3a1d730a2ae6bcf5a447de06bac92e498d1982e3651d28ce27fe64e2007098d1d174da5b39612f5a0d02fc91fa9776c44bcbdbf01cd1ce7f930b311c941c866789b226004d85ca21f2bf31f1c266357b412f1989206f8379f23dca0c067a034324dfba4a9 = 0x775d96e5871bfea91d42cfb5275da3b5c604d3930310d275acdc9d99c47cb1938f19e4ec7553c37e795c3a40496427196dd763de7bb8f50e00e6e7f083df6570fc2b50b9c03ec4669d3f0292b383f113dd836b11897edcf2086a6c9e6fc3abd70c401ab221cf248a8e512f5e5a7d693afd12f439701a3eb671b184e6f3eae0208b05ee04175cb47ac6c0f542b88d831fa87e6459bbfd9ba1db1c765970b151d7419065f5b9266044fe7cb21d6f2a9bb527e313d482f1f892dee497940adea7cc47a374125ddabcbb := by decide

theorem c2c_r8 : keccakRound keccak_rotc 0xb7de416ec6243e8eede30a4322396770f44566f667207463ea7218a2b79e564f5dc74e1e00603d7ee4e73ca749f9118e297189c0bf0aef568c2db6913fdef0e8936c43329bc895a945423735cbbe7f4f91c92373a4cf69a05a113e6fba176fd930b63a4be103abf63bc0c2e442304a3c682be7508271271b40a302f3e27953ae8cea0422b9383572688dcb459a56901d7884e2bf682c2297c26855a239276b333795041ce0b3e851bab8739e8bd4699afa56fec12a0053d6adcd8b13de9cbafefd498dd6d58f7a91 8 = 0x775d96e5871bfea91d42cfb5275da3b5c604d3930310d275acdc9d99c47cb1938f19e4ec7553c37e795c3a40496427196dd763de7bb8f50e00e6e7f083df6570fc2b50b9c03ec4669d3f0292b383f113dd836b11897edcf2086a6c9e6fc3abd70c401ab221cf248a8e512f5e5a7d693afd12f439701a3eb671b184e6f3eae0208b05ee04175cb47ac6c0f542b88d831fa87e6459bbfd9ba1db1c765970b151d7419065f5b9266044fe7cb21d6f2a9bb527e313d482f1f892dee497940adea7cc47a374125ddabc31 := by

  simp only [keccakRound, c2c_r8t, c2c_r8p, c2c_r8c]

  decide

theorem c2c_r9t : keccakTheta 0x775d96e5871bfea91d42cfb5275da3b5c604d3930310d275acdc9d99c47cb1938f19e4ec7553c37e795c3a40496427196dd763de7bb8f50e00e6e7f083df6570fc2b50b9c03ec4669d3f0292b383f113dd836b11897edcf2086a6c9e6fc3abd70c401ab221cf248a8e512f5e5a7d693afd12f439701a3eb671b184e6f3eae0208b05ee04175cb47ac6c0f542b88d831fa87e6459bbfd9ba1db1c765970b151d7419065f5b9266044fe7cb21d6f2a9bb527e313d482f1f892dee497940adea7cc47a374125ddabc31 = 0x9dcd2a10fb08ee70f1854abca7ba41fa7535fbf87aad579188541d1a692480aa3cc2e12ca6a6071d93cc86b5357737c08110e6d7fb5f1741b3d7cf9bfa62e094d8a3d03a6d66f55f2ee40752607635703713d7e4f56dcc2be4ade997ef244998bf7132d95872a16eaad9afddf72558034ec9f1f9a3effad59b2138138ff9f0f967c26b0d97bb563575f1dd29c13006fb8cf6e4da16a5aa9868c77399a34495b4ab00d900c535709d12bb3714efcd79fa94d23bbffb4c7d76fa6c1717a78696f5f47871d28e2f7852 := by decide

theorem c2c_r9p : keccakRhoPi keccak_rotc 0x9dcd2a10fb08ee70f1854abca7ba41fa7535fbf87aad579188541d1a692480aa3cc2e12ca6a6071d93cc86b5357737c08110e6d7fb5f1741b3d7cf9bfa62e094d8a3d03a6d66f55f2ee40752607635703713d7e4f56dcc2be4ade997ef244998bf7132d95872a16eaad9afddf72558034ec9f1f9a3effad59b2138138ff9f0f967c26b0d97bb563575f1dd29c13006fb8cf6e4da16a5aa9868c77399a34495b4ab00d900c535709d12bb3714efcd79fa94d23bbffb4c7d76fa6c1717a78696f5f47871d28e2f7852 = 0x21507469a49202aaec6ae05dc80ea4c0b6e6159b89ebf27a1ab3e13586cbddaba5348eeffed31f5dfaf1854abca7ba41e7cdfd31704a59eb66bf77dc95600eab34495b468c77399a0629ab84ed5806c884b29a981c74f30bcc86b5357737c0932fde489331c95bd37c774a704c01beddf4d82e2f4f0d2deb7f0f55aaf22ea6bfdeabfb147a074dac764f8fcd1f7fd6aaf99b2138138ff9f04efcd79fa12bb3714a843ec23b9c2773daff6be2e830221c950b75fb8996cac3b93685a96aa6233df47871d28e2f7852 := by decide

theorem c2c_r9c : keccakChi 0x21507469a49202aaec6ae05dc80ea4c0b6e6159b89ebf27a1ab3e13586cbddaba5348eeffed31f5dfaf1854abca7ba41e7cdfd31704a59eb66bf77dc95600eab34495b468c77399a0629ab84ed5806c884b29a981c74f30bcc86b5357737c0932fde489331c95bd37c774a704c01beddf4d82e2f4f0d2deb7f0f55aaf22ea6bfdeabfb147a074dac764f8fcd1f7fd6aaf99b2138138ff9f04efcd79fa12bb3714a843ec23b9c2773daff6be2e830221c950b75fb8996cac3b93685a96aa6233df47871d28e2f7852 = 0x3bd31579a49ac208684e6adb924fb995b7f601bbad7bf05052bb0171c6cfd92b01709a65f7f33d0dcab1d508bc808353e3c5d7b531125d637e8f779619c5acabb509d367ec7d68da449f8f1cfc5800e98c95dac81c74611fbcce9112343ecc732fee421b398968dbbc77ff540a373eddf7502eac7ec56ce9ce0c758ae0aaee3fde5b79017b065cec574b8b679f5774b9713b5128738ff0f448b8595aad5bb57b4382baeb5b1c245e6e872af26c137a1c950b61fb9a1acfa0f3c28fa90a860321f07101800f3fb090 := by decide

theorem c2c_r9 : keccakRound keccak_rotc 0x775d96e5871bfea91d42cfb5275da3b5c604d3930310d275acdc9d99c47cb1938f19e4ec7553c37e795c3a40496427196dd763de7bb8f50e00e6e7f083df6570fc2b50b9c03ec4669d3f0292b383f113dd836b11897edcf2086a6c9e6fc3abd70c401ab221cf248a8e512f5e5a7d693afd12f439701a3eb671b184e6f3eae0208b05ee04175cb47ac6c0f542b88d831fa87e6459bbfd9ba1db1c765970b151d7419065f5b9266044fe7cb21d6f2a9bb527e313d482f1f892dee497940adea7cc47a374125ddabc31 9 = 0x3bd31579a49ac208684e6adb924fb995b7f601bbad7bf05052bb0171c6cfd92b01709a65f7f33d0dcab1d508bc808353e3c5d7b531125d637e8f779619c5acabb509d367ec7d68da449f8f1cfc5800e98c95dac81c74611fbcce9112343ecc732fee421b398968dbbc77ff540a373eddf7502eac7ec56ce9ce0c758ae0aaee3fde5b79017b065cec574b8b679f5774b9713b5128738ff0f448b8595aad5bb57b4382baeb5b1c245e6e872af26c137a1c950b61fb9a1acfa0f3c28fa90a860321f07101800f3fb018 := by

  simp only [keccakRound, c2c_r9t, c2c_r9p, c2c_r9c]

  decide

theorem c2c_r10t : keccakTheta 0x3bd31579a49ac208684e6adb924fb995b7f601bbad7bf05052bb0171c6cfd92b01709a65f7f33d0dcab1d508bc808353e3c5d7b531125d637e8f779619c5acabb509d367ec7d68da449f8f1cfc5800e98c95dac81c74611fbcce9112343ecc732fee421b398968dbbc77ff540a373eddf7502eac7ec56ce9ce0c758ae0aaee3fde5b79017b065cec574b8b679f5774b9713b5128738ff0f448b8595aad5bb57b4382baeb5b1c245e6e872af26c137a1c950b61fb9a1acfa0f3c28fa90a860321f07101800f3fb018 = 0xa8a6ace98af864a1ac6a1fc06584e2e761f80d67f41b90421162df2b013093374370a83bfb332edb59c46c9892e225fa27e1a2aec6d90611a8817b4a40a5ccb9f6d00d3d2b8222c6069fbd42f098133f1fe063583216c7b678eae409c3f59701f9e04ec760e908c9ffae210ecdc874c1b5501cf272057f3f5d79cc1acec848961a7f0c1a8ccd079e814587bbc63714ab32e28f72b470bae80ab86b04a19ba6add0f7037b757e82f7aaa35fe99bd8216e43056d27c37aafb2b01b51f3cd79493db27133de03ffa3ce := by decide

theorem c2c_r10p : keccakRhoPi keccak_rotc 0xa8a6ace98af864a1ac6a1fc06584e2e761f80d67f41b90421162df2b013093374370a83bfb332edb59c46c9892e225fa27e1a2aec6d90611a8817b4a40a5ccb9f6d00d3d2b8222c6069fbd42f098133f1fe063583216c7b678eae409c3f59701f9e04ec760e908c9ffae210ecdc874c1b5501cf272057f3f5d79cc1acec848961a7f0c1a8ccd079e814587bbc63714ab32e28f72b470bae80ab86b04a19ba6add0f7037b757e82f7aaa35fe99bd8216e43056d27c37aafb2b01b51f3cd79493db27133de03ffa3ce = 0x458b7cac04c24cdc30267e0d3f7a85e10b63db0ff031ac19cf0d3f860d46668390c15b49f0deabece7ac6a1fc06584e2bda52052e65cd440b8843b3721d307fe19ba6ad0ab86b04adbabf417be87b81ba0efecccbb6d0dc2c46c9892e225fa591387eb2e02f1d5c85161eef18dc52ae06036a3e79af2927bacfe8372084c3f014458deda01a7a570aa80e793902bf9fd965d79cc1acec84899bd8216eaaa35feab3a62be19286a2955d8db20c224fc3448464fcf02763b07a3dcad1c2eba0cb8b27133de03ffa3ce := by decide

theorem c2c_r10c : keccakChi 0x458b7cac04c24cdc30267e0d3f7a85e10b63db0ff031ac19cf0d3f860d46668390c15b49f0deabece7ac6a1fc06584e2bda52052e65cd440b8843b3721d307fe19ba6ad0ab86b04adbabf417be87b81ba0efecccbb6d0dc2c46c9892e225fa591387eb2e02f1d5c85161eef18dc52ae06036a3e79af2927bacfe8372084c3f014458deda01a7a570aa80e793902bf9fd965d79cc1acec84899bd8216eaaa35feab3a62be19286a2955d8db20c224fc3448464fcf02763b07a3dcad1c2eba0cb8b27133de03ffa3ce = 0xa87582a09c208dfa0667d4ccf6626c14eeadbaff0b1e405ff091b86020c676390a39b4000ef23f4e7bc60dfc16584a2a5a6b452d8deec59fa8c713a21f2075c1c9b6a906d8a604a7bafe530bed6bfafb1aea0dcbe682542847c9bb1e2b7686033048f621bb9d04a9509fe616dc100f162b0a2e998c24773aabefaba1808f7015559dedee305a58e0226e6b39863e3fcd20561841b4acc48b13d04056a8b044baab6eebe352866194599ca60c0f37df2e2646f511b7e390eb6443d3ceebac888fa73711d03bb90c9 := by decide

theorem c2c_r10 : keccakRound keccak_rotc 0x3bd31579a49ac208684e6adb924fb995b7f601bbad7bf05052bb0171c6cfd92b01709a65f7f33d0dcab1d508bc808353e3c5d7b531125d637e8f779619c5acabb509d367ec7d68da449f8f1cfc5800e98c95dac81c74611fbcce9112343ecc732fee421b398968dbbc77ff540a373eddf7502eac7ec56ce9ce0c758ae0aaee3fde5b79017b065cec574b8b679f5774b9713b5128738ff0f448b8595aad5bb57b4382baeb5b1c245e6e872af26c137a1c950b61fb9a1acfa0f3c28fa90a860321f07101800f3fb018 10 = 0xa87582a09c208dfa0667d4ccf6626c14eeadbaff0b1e405ff091b86020c676390a39b4000ef23f4e7bc60dfc16584a2a5a6b452d8deec59fa8c713a21f2075c1c9b6a906d8a604a7bafe530bed6bfafb1aea0dcbe682542847c9bb1e2b7686033048f621bb9d04a9509fe616dc100f162b0a2e998c24773aabefaba1808f7015559dedee305a58e0226e6b39863e3fcd20561841b4acc48b13d04056a8b044baab6eebe352866194599ca60c0f37df2e2646f511b7e390eb6443d3ceebac888fa73711d83bb10c0 := by

  simp only [keccakRound, c2c_r10t, c2c_r10p, c2c_r10c]

  decide

theorem c2c_r11t : keccakTheta 0xa87582a09c208dfa0667d4ccf6626c14eeadbaff0b1e405ff091b86020c676390a39b4000ef23f4e7bc60dfc16584a2a5a6b452d8deec59fa8c713a21f2075c1c9b6a906d8a604a7bafe530bed6bfafb1aea0dcbe682542847c9bb1e2b7686033048f621bb9d04a9509fe616dc100f162b0a2e998c24773aabefaba1808f7015559dedee305a58e0226e6b39863e3fcd20561841b4acc48b13d04056a8b044baab6eebe352866194599ca60c0f37df2e2646f511b7e390eb6443d3ceebac888fa73711d83bb10c0 = 0x1e1e4d3840aced1c7e7dc903315fbf6e7ec88443aaf41214f3baea2d5e087b02e98bb0f2b46e1de3f32575cd880b61617bbd001d26e775f6caae2ed67bb7f14d10289b3b318e7c2b0287ce820a5781b8a537b5cef706c0815a672ffe1c8ef1cf0326d08e41fc265b99ba0fca31c51c901b98895b2c437964be27efa8516612c28b426a911d3c3c213204b95fc22615eddeb6902f474ed029c8152fb7de0a3a5cbe2ffbac7c4683da9b827e2f3ecae45dd24630bd413bcf1fbaf7cc97b2bed4e9835b5aaf373a2ed7 := by decide

theorem c2c_r11p : keccakRhoPi keccak_rotc 0x1e1e4d3840aced1c7e7dc903315fbf6e7ec88443aaf41214f3baea2d5e087b02e98bb0f2b46e1de3f32575cd880b61617bbd001d26e775f6caae2ed67bb7f14d10289b3b318e7c2b0287ce820a5781b8a537b5cef706c0815a672ffe1c8ef1cf0326d08e41fc265b99ba0fca31c51c901b98895b2c437964be27efa8516612c28b426a911d3c3c213204b95fc22615eddeb6902f474ed029c8152fb7de0a3a5cbe2ffbac7c4683da9b827e2f3ecae45dd24630bd413bcf1fbaf7cc97b2bed4e9835b5aaf373a2ed7 = 0xceeba8b57821ec0baf0370050f9d0414836040d29bdae77b10c5a135488e9e1ef4918c2f504ef3c76e7e7dc903315fbf176b3ddbf8a6e557e83f28c714724266e0a3a5cc8152fb7d63e2341ed5f17fddc3cad1b8778fa62e2575cd880b6161f3fc391de39eb4ce5f812e57f089857b4c75ef992f657da9d388755e82428fd910cf85620513676631dcc44ad9621bcb20c2be27efa8516612f3ecae45d9b827e2934e102b3b47078703a4dceebecf77a0e132d8193684720fa40bd1d3b40a77ad835b5aaf373a2ed7 := by decide

theorem c2c_r11c : keccakChi 0xceeba8b57821ec0baf0370050f9d0414836040d29bdae77b10c5a135488e9e1ef4918c2f504ef3c76e7e7dc903315fbf176b3ddbf8a6e557e83f28c714724266e0a3a5cc8152fb7d63e2341ed5f17fddc3cad1b8778fa62e2575cd880b6161f3fc391de39eb4ce5f812e57f089857b4c75ef992f657da9d388755e82428fd910cf85620513676631dcc44ad9621bcb20c2be27efa8516612f3ecae45d9b827e2934e102b3b47078703a4dceebecf77a0e132d8193684720fa40bd1d3b40a77ad835b5aaf373a2ed7 = 0xceaf89a570a1e0139f13740f0fd317d0c388c862ebfa0f703cc691304c8b9e1a77b1ccedc31e92a6ee7ffc090333df9f16eb3dcd2c66c517802b68c7176358cef7e3b0d469d65e6c6bfe3c1dc1d17fdf43ca9768ff0ff4221150c58f0b1168223eb30dd3ea3a4853806a97f888c45aec09fe912c734d2dc088675f2862ce9900bc0dc2408a5740d3dcb4565b22935220c1bf07ebb9354203eface6559bb2aec2b74e917bbb4756af03b5966abaf75ff07178d81837847208a68fd5353c41720dc26b52a735be2ed5 := by decide

theorem c2c_r11 : keccakRound keccak_rotc 0xa87582a09c208dfa0667d4ccf6626c14eeadbaff0b1e405ff091b86020c676390a39b4000ef23f4e7bc60dfc16584a2a5a6b452d8deec59fa8c713a21f2075c1c9b6a906d8a604a7bafe530bed6bfafb1aea0dcbe682542847c9bb1e2b7686033048f621bb9d04a9509fe616dc100f162b0a2e998c24773aabefaba1808f7015559dedee305a58e0226e6b39863e3fcd20561841b4acc48b13d04056a8b044baab6eebe352866194599ca60c0f37df2e2646f511b7e390eb6443d3ceebac888fa73711d83bb10c0 11 = 0xceaf89a570a1e0139f13740f0fd317d0c388c862ebfa0f703cc691304c8b9e1a77b1ccedc31e92a6ee7ffc090333df9f16eb3dcd2c66c517802b68c7176358cef7e3b0d469d65e6c6bfe3c1dc1d17fdf43ca9768ff0ff4221150c58f0b1168223eb30dd3ea3a4853806a97f888c45aec09fe912c734d2dc088675f2862ce9900bc0dc2408a5740d3dcb4565b22935220c1bf07ebb9354203eface6559bb2aec2b74e917bbb4756af03b5966abaf75ff07178d81837847208a68fd5353c41720dc26b52a7b5be2edf := by

  simp only [keccakRound, c2c_r11t, c2c_r11p, c2c_r11c]

  decide

theorem c2c_r12t : keccakTheta 0xceaf89a570a1e0139f13740f0fd317d0c388c862ebfa0f703cc691304c8b9e1a77b1ccedc31e92a6ee7ffc090333df9f16eb3dcd2c66c517802b68c7176358cef7e3b0d469d65e6c6bfe3c1dc1d17fdf43ca9768ff0ff4221150c58f0b1168223eb30dd3ea3a4853806a97f888c45aec09fe912c734d2dc088675f2862ce9900bc0dc2408a5740d3dcb4565b22935220c1bf07ebb9354203eface6559bb2aec2b74e917bbb4756af03b5966abaf75ff07178d81837847208a68fd5353c41720dc26b52a7b5be2edf = 0x9952fb9ed7b9c49df7a90e14a64f2017a1d61c6ef31eee68a5080274146da135737c29fec7d1c38fb9828e32a42bfb117e5147d685faf2d0e275bccb0f87b9d66e2d2390313061436f33d90ec51e2ef61437e5535817d0ac79eabf94a28d5fe55cedd9dff2dea94b19a404bcd02265c30d33743f77827ce9df9a2d13c5d6bd8ed4b7b85b23cb7714beea82573a77b338587194afe1d37d2ceb6103469f7dffebe0b3e3401c5f72216b0fec71136b683713260c142f6093103f41467164a74d22c6a6b7b4b1717ff6 := by decide

theorem c2c_r12p : keccakRhoPi keccak_rotc 0x9952fb9ed7b9c49df7a90e14a64f2017a1d61c6ef31eee68a5080274146da135737c29fec7d1c38fb9828e32a42bfb117e5147d685faf2d0e275bccb0f87b9d66e2d2390313061436f33d90ec51e2ef61437e5535817d0ac79eabf94a28d5fe55cedd9dff2dea94b19a404bcd02265c30d33743f77827ce9df9a2d13c5d6bd8ed4b7b85b23cb7714beea82573a77b338587194afe1d37d2ceb6103469f7dffebe0b3e3401c5f72216b0fec71136b683713260c142f6093103f41467164a74d22c6a6b7b4b1717ff6 = 0x942009d051b684d63c5decde67b21d8a0be8560a1bf2a9ac8a6a5bdc2d91e5bb04c983050bd824c417f7a90e14a64f20de6587c3dceb713a9012f34089970c66f7dffebeb610346900e2fb910f059f1aa7fb1f470e3dcdf0828e32a42bfb11b929451abfcaf3d57fbaa095ce9decce2f7e828ce2c94e9a448dde63ddcd143ac30c286dc5a4720626699ba1fbbc13e7488edf9a2d13c5d6bd1136b68376b0fec7bee7b5ee71276654fad0bf5e5a0fca28f54a5ae76eceff96652bf874df4b161cc6a6b7b4b1717ff6 := by decide

theorem c2c_r12c : keccakChi 0x942009d051b684d63c5decde67b21d8a0be8560a1bf2a9ac8a6a5bdc2d91e5bb04c983050bd824c417f7a90e14a64f20de6587c3dceb713a9012f34089970c66f7dffebeb610346900e2fb910f059f1aa7fb1f470e3dcdf0828e32a42bfb11b929451abfcaf3d57fbaa095ce9decce2f7e828ce2c94e9a448dde63ddcd143ac30c286dc5a4720626699ba1fbbc13e7488edf9a2d13c5d6bd1136b68376b0fec7bee7b5ee71276654fad0bf5e5a0fca28f54a5ae76eceff96652bf874df4b161cc6a6b7b4b1717ff6 = 0x1e02510875b745ed3c946edb6dfa3d8a8bc8570a0bf629f8be7ff3084991f1b90549870719ba2cc0e0eaad20a4b66f41de65d552d7eae1209180db4c89930266b9bafa3de278457100e2fad10682971c27db0e4b1a9d89dbda8eb204eab903bd0c3417fccef7193f382ab5cebce4ceaf7fc786d38b5d8b1403176bf1cc513afb1c08f9c796d2c222e84da3e3f517df898affd62913a5d69b70369751daa2df879feefdae3f2d665cbad0bd4eda5fd38af16d5a474feedbc26fbb5d6ccf4a163456e6b53791f59674 := by decide

theorem c2c_r12 : keccakRound keccak_rotc 0xceaf89a570a1e0139f13740f0fd317d0c388c862ebfa0f703cc691304c8b9e1a77b1ccedc31e92a6ee7ffc090333df9f16eb3dcd2c66c517802b68c7176358cef7e3b0d469d65e6c6bfe3c1dc1d17fdf43ca9768ff0ff4221150c58f0b1168223eb30dd3ea3a4853806a97f888c45aec09fe912c734d2dc088675f2862ce9900bc0dc2408a5740d3dcb4565b22935220c1bf07ebb9354203eface6559bb2aec2b74e917bbb4756af03b5966abaf75ff07178d81837847208a68fd5353c41720dc26b52a7b5be2edf 12 = 0x1e02510875b745ed3c946edb6dfa3d8a8bc8570a0bf629f8be7ff3084991f1b90549870719ba2cc0e0eaad20a4b66f41de65d552d7eae1209180db4c89930266b9bafa3de278457100e2fad10682971c27db0e4b1a9d89dbda8eb204eab903bd0c3417fccef7193f382ab5cebce4ceaf7fc786d38b5d8b1403176bf1cc513afb1c08f9c796d2c222e84da3e3f517df898affd62913a5d69b70369751daa2df879feefdae3f2d665cbad0bd4eda5fd38af16d5a474feedbc26fbb5d6ccf4a163456e6b53711f516ff := by

  simp only [keccakRound, c2c_r12t, c2c_r12p, c2c_r12c]

  decide

theorem c2c_r13t : keccakTheta 0x1e02510875b745ed3c946edb6dfa3d8a8bc8570a0bf629f8be7ff3084991f1b90549870719ba2cc0e0eaad20a4b66f41de65d552d7eae1209180db4c89930266b9bafa3de278457100e2fad10682971c27db0e4b1a9d89dbda8eb204eab903bd0c3417fccef7193f382ab5cebce4ceaf7fc786d38b5d8b1403176bf1cc513afb1c08f9c796d2c222e84da3e3f517df898affd62913a5d69b70369751daa2df879feefdae3f2d665cbad0bd4eda5fd38af16d5a474feedbc26fbb5d6ccf4a163456e6b53711f516ff = 0x39dcaecad7f67832b85cc4bdea50f4c06c2dfabcf85d0e4ffc7bee56fa7565ddf5d58c46b69fa681c73452e206f7529e5aad7f345040286a766576fa7a3825d1fbbee763519cd115f07ef190a9a71d5d0005f189b8dcb4045e4618626d13caf7ebd1ba4a3d5c3e887a2ea8900f005acb8f5b8d922478015524c994336e10072498c053a111780b680fa80e5506bcf83ec8fbcb77a04142ff80aa9c10758755c6b830026c9d6c5b833e1817285df51ac01688f7f1bc45fc752dbf40327cae8250a67abe76bed09cbe := by decide

theorem c2c_r13p : keccakRhoPi keccak_rotc 0x39dcaecad7f67832b85cc4bdea50f4c06c2dfabcf85d0e4ffc7bee56fa7565ddf5d58c46b69fa681c73452e206f7529e5aad7f345040286a766576fa7a3825d1fbbee763519cd115f07ef190a9a71d5d0005f189b8dcb4045e4618626d13caf7ebd1ba4a3d5c3e887a2ea8900f005acb8f5b8d922478015524c994336e10072498c053a111780b680fa80e5506bcf83ec8fbcb77a04142ff80aa9c10758755c6b830026c9d6c5b833e1817285df51ac01688f7f1bc45fc752dbf40327cae8250a67abe76bed09cbe = 0xf1efb95be9d597774e3abbe0fde321536e5a020002f8c4dcb44c6029d088bc0545a23dfc6f117f1dc0b85cc4bdea50f4bb7d3d1c12e8bb32baa2403c016b2de858755c680aa9c10764eb62dc1dc18013311ada7e9a07d7563452e206f7529ec7c4da2795eebc8c30ea039541af3e0f835b7e8064f95d04a0579f0ba1c9ed85bf9a22bf77dcec6a337adc6c9123c00aac2424c994336e100785df51ac03e181722bb2b5fd9e0c8e77e68a08050d4b55afe1f4475e8dd251eaf2dde81050bff23ea67abe76bed09cbe := by decide

theorem c2c_r13c : keccakChi 0xf1efb95be9d597774e3abbe0fde321536e5a020002f8c4dcb44c6029d088bc0545a23dfc6f117f1dc0b85cc4bdea50f4bb7d3d1c12e8bb32baa2403c016b2de858755c680aa9c10764eb62dc1dc18013311ada7e9a07d7563452e206f7529ec7c4da2795eebc8c30ea039541af3e0f835b7e8064f95d04a0579f0ba1c9ed85bf9a22bf77dcec6a337adc6c9123c00aac2424c994336e100785df51ac03e181722bb2b5fd9e0c8e77e68a08050d4b55afe1f4475e8dd251eaf2dde81050bff23ea67abe76bed09cbe = 0x41a3f95a795d17774a3abf44fbe3495bdf9f021b02ec52f8b46cd9c92d8b9d060fb03ffc6d613fc5d8ac40e4bfc211f09f3e1f0412e93b31fa2200fcac696d2c5928616818295315c66962c81c83acfb911bcf7f9c25dc557e36e206960a9e67c5d23fede6b9cd20da035543be7c1d445fa6a2f0b9dd849077bf83b1f9e395ba1a62ef7bdeec6a733f416c1122c18f20a4065af2ef427014df0775ad03618bda7b37f5fdde23ec7762c202072d9b4527e8c4f2a61fd6dbbaf4d7e01150b6f63ba75ab93833909d7e := by decide

theorem c2c_r13 : keccakRound keccak_rotc 0x1e02510875b745ed3c946edb6dfa3d8a8bc8570a0bf629f8be7ff3084991f1b90549870719ba2cc0e0eaad20a4b66f41de65d552d7eae1209180db4c89930266b9bafa3de278457100e2fad10682971c27db0e4b1a9d89dbda8eb204eab903bd0c3417fccef7193f382ab5cebce4ceaf7fc786d38b5d8b1403176bf1cc513afb1c08f9c796d2c222e84da3e3f517df898affd62913a5d69b70369751daa2df879feefdae3f2d665cbad0bd4eda5fd38af16d5a474feedbc26fbb5d6ccf4a163456e6b53711f516ff 13 = 0x41a3f95a795d17774a3abf44fbe3495bdf9f021b02ec52f8b46cd9c92d8b9d060fb03ffc6d613fc5d8ac40e4bfc211f09f3e1f0412e93b31fa2200fcac696d2c5928616818295315c66962c81c83acfb911bcf7f9c25dc557e36e206960a9e67c5d23fede6b9cd20da035543be7c1d445fa6a2f0b9dd849077bf83b1f9e395ba1a62ef7bdeec6a733f416c1122c18f20a4065af2ef427014df0775ad03618bda7b37f5fdde23ec7762c202072d9b4527e8c4f2a61fd6dbbaf4d7e01150b6f63b275ab93833909df5 := by

  simp only [keccakRound, c2c_r13t, c2c_r13p, c2c_r13c]

  decide

theorem c2c_r14t : keccakTheta 0x41a3f95a795d17774a3abf44fbe3495bdf9f021b02ec52f8b46cd9c92d8b9d060fb03ffc6d613fc5d8ac40e4bfc211f09f3e1f0412e93b31fa2200fcac696d2c5928616818295315c66962c81c83acfb911bcf7f9c25dc557e36e206960a9e67c5d23fede6b9cd20da035543be7c1d445fa6a2f0b9dd849077bf83b1f9e395ba1a62ef7bdeec6a733f416c1122c18f20a4065af2ef427014df0775ad03618bda7b37f5fdde23ec7762c202072d9b4527e8c4f2a61fd6dbbaf4d7e01150b6f63b275ab93833909df5 = 0x4e7530c304b6d72c74e81de3743da90b1f2c0b6f2e298133b59bade23f12d05bc4009173784f362ad77a897dc229d1aba1ecbda39d37db613a91098880acbee758df15430ab01e480dd9cc4709ada5149ecd06e6e1ce1c0e40e440a119d47e3705613699ca7c1eebdbf42168ace5501994160c7facf38d7f78694a28840855e124b04ddc51328a23fff265650e045ceba5f12ed9fddb3d4914b7db22164f823574e13c64a3c82c2c5c10a0a0a245a5772877fbd233130871f520943a422fbb66ecea17b726be941a := by decide

theorem c2c_r14p : keccakRhoPi keccak_rotc 0x4e7530c304b6d72c74e81de3743da90b1f2c0b6f2e298133b59bade23f12d05bc4009173784f362ad77a897dc229d1aba1ecbda39d37db613a91098880acbee758df15430ab01e480dd9cc4709ada5149ecd06e6e1ce1c0e40e440a119d47e3705613699ca7c1eebdbf42168ace5501994160c7facf38d7f78694a28840855e124b04ddc51328a23fff265650e045ceba5f12ed9fddb3d4914b7db22164f823574e13c64a3c82c2c5c10a0a0a245a5772877fbd233130871f520943a422fbb66ecea17b726be941a = 0xd66eb788fc4b416e5b4a281bb3988e13e70e074f6683737011925826ee2899454a1dfef48cc4c21c0b74e81de3743da984c440565f739d48d085a2b39540676f64f823514b7db221251e416163a709e345cde13cd8ab10027a897dc229d1abd74233a8fc6e81c881fc99594381173affea412874845f76cd6de5c5302663e58103c90b1be2a86156a0b063fd679c6bfce178694a288408550a245a5775c10a0a4c30c12db5cb139db473a6fb6c343d97e0f7582b09b4ce534bb67f76cf52697cecea17b726be941a := by decide

theorem c2c_r14c : keccakChi 0xd66eb788fc4b416e5b4a281bb3988e13e70e074f6683737011925826ee2899454a1dfef48cc4c21c0b74e81de3743da984c440565f739d48d085a2b39540676f64f823514b7db221251e416163a709e345cde13cd8ab10027a897dc229d1abd74233a8fc6e81c881fc99594381173affea412874845f76cd6de5c5302663e58103c90b1be2a86156a0b063fd679c6bfce178694a288408550a245a5775c10a0a4c30c12db5cb139db473a6fb6c343d97e0f7582b09b4ce534bb67f76cf52697cecea17b726be941a = 0xc7ecb78a9e63582f535b606fb31c0c03632a90cf2ac0321c09d270367f301546ac11f9bd8c47a02c4b94ca0deb2c8fa9a0ce41365ff09d0adbb50aba354447ce60b86315014e2a21b51bc1c3f7a74cad5155b03fd9ab1830d08975822d85cd1a477728c0beabd881c4110c41804719a9e86388c8eadfb6cd8cbde4382e67e5d401c9115cb3286b5ccc94a7dd63dfef7de2316148a8a408570aa458e232d969a24f24a96d7c8b7af914b9b0696e00b995a8f7192f987fcc5b5fb6d9a6ab5258f84cab17be261a1219 := by decide

theorem c2c_r14 : keccakRound keccak_rotc 0x41a3f95a795d17774a3abf44fbe3495bdf9f021b02ec52f8b46cd9c92d8b9d060fb03ffc6d613fc5d8ac40e4bfc211f09f3e1f0412e93b31fa2200fcac696d2c5928616818295315c66962c81c83acfb911bcf7f9c25dc557e36e206960a9e67c5d23fede6b9cd20da035543be7c1d445fa6a2f0b9dd849077bf83b1f9e395ba1a62ef7bdeec6a733f416c1122c18f20a4065af2ef427014df0775ad03618bda7b37f5fdde23ec7762c202072d9b4527e8c4f2a61fd6dbbaf4d7e01150b6f63b275ab93833909df5 14 = 0xc7ecb78a9e63582f535b606fb31c0c03632a90cf2ac0321c09d270367f301546ac11f9bd8c47a02c4b94ca0deb2c8fa9a0ce41365ff09d0adbb50aba354447ce60b86315014e2a21b51bc1c3f7a74cad5155b03fd9ab1830d08975822d85cd1a477728c0beabd881c4110c41804719a9e86388c8eadfb6cd8cbde4382e67e5d401c9115cb3286b5ccc94a7dd63dfef7de2316148a8a408570aa458e232d969a24f24a96d7c8b7af914b9b0696e00b995a8f7192f987fcc5b5fb6d9a6ab5258f8ccab17be261a9290 := by

  simp only [keccakRound, c2c_r14t, c2c_r14p, c2c_r14c]

  decide

theorem c2c_r15t : keccakTheta 0xc7ecb78a9e63582f535b606fb31c0c03632a90cf2ac0321c09d270367f301546ac11f9bd8c47a02c4b94ca0deb2c8fa9a0ce41365ff09d0adbb50aba354447ce60b86315014e2a21b51bc1c3f7a74cad5155b03fd9ab1830d08975822d85cd1a477728c0beabd881c4110c41804719a9e86388c8eadfb6cd8cbde4382e67e5d401c9115cb3286b5ccc94a7dd63dfef7de2316148a8a408570aa458e232d969a24f24a96d7c8b7af914b9b0696e00b995a8f7192f987fcc5b5fb6d9a6ab5258f8ccab17be261a9290 = 0x9f4dbdb189db9409f5b96df3158323401f0fdc9fef8c59c909a297524fd3a8d3935c364989d11c751335c036fc94438f062c4caaf96fb249a79046eaf0082c1b60c8847131ad97b48a560e37f231f0f409f4ba04ce13d416766b781e8b1ae2593b5264907be7b354c461eb25b0a4a43cd72e473cef490a94d41cee0339df29f2a72b1cc015b7441fb0b1eb8da69384a8e241862c9847b5c235e99716374fd5fb1785a3566b33b6dfb25bbdf5c89f96d6d4d2557f5d33a78e5fc63ec29bb1e56df3e6d84a238c2ec9 := by decide

theorem c2c_r15p : keccakRhoPi keccak_rotc 0x9f4dbdb189db9409f5b96df3158323401f0fdc9fef8c59c909a297524fd3a8d3935c364989d11c751335c036fc94438f062c4caaf96fb249a79046eaf0082c1b60c8847131ad97b48a560e37f231f0f409f4ba04ce13d416766b781e8b1ae2593b5264907be7b354c461eb25b0a4a43cd72e473cef490a94d41cee0339df29f2a72b1cc015b7441fb0b1eb8da69384a8e241862c9847b5c235e99716374fd5fb1785a3566b33b6dfb25bbdf5c89f96d6d4d2557f5d33a78e5fc63ec29bb1e56df3e6d84a238c2ec9 = 0x268a5d493f4ea34c63e1e914ac1c6fe409ea0b04fa5d02670fd3958e600adba2b534955fd74ce9e340f5b96df315832323757804160dd3c887ac96c29290f31174fd5fb35e997163b3599db6f8bc2d1ad926274471d64d7035c036fc94438f133d1635c4b2ecd6f02c7ae369a4e12a2cbf8c7d853763cada93fdf18b3923e1fbb2f68c19108e2635b97239e77a4854a6f2d41cee0339df295c89f96d6b25bbdf6f6c6276e50267d3955f2df64920c5893d9aa1da932483df618b2611ed70b890f3e6d84a238c2ec9 := by decide

theorem c2c_r15c : keccakChi 0x268a5d493f4ea34c63e1e914ac1c6fe409ea0b04fa5d02670fd3958e600adba2b534955fd74ce9e340f5b96df315832323757804160dd3c887ac96c29290f31174fd5fb35e997163b3599db6f8bc2d1ad926274471d64d7035c036fc94438f133d1635c4b2ecd6f02c7ae369a4e12a2cbf8c7d853763cada93fdf18b3923e1fbb2f68c19108e2635b97239e77a4854a6f2d41cee0339df295c89f96d6b25bbdf6f6c6276e50267d3955f2df64920c5893d9aa1da932483df618b2611ed70b890f3e6d84a238c2ec9 = 0x2c495dc91f4cb14cf2d569026c1c27470de01f4de91f826f6dd2759e640ab622b51c9f5f4d19e9a60451fb6cf514d342907d7c961ea5ffd0c72c17ab7380f33254ac37b75a9471ab30591df678bcaf0ad954a52cf1566d5413486e7d92620d99f53034c4d37896902cbae151a0e2232fae886901256f1e0a31a9f509393ba5dbfef6847d528a3c31b87b48655369956cf05098f603bffd3855abd86c1365bb596f6544672972f7c305ddb5fe4baccd8157bae3da3726a18de1ce2a35a570fc90eff6598031882d86 := by decide

theorem c2c_r15 : keccakRound keccak_rotc 0xc7ecb78a9e63582f535b606fb31c0c03632a90cf2ac0321c09d270367f301546ac11f9bd8c47a02c4b94ca0deb2c8fa9a0ce41365ff09d0adbb50aba354447ce60b86315014e2a21b51bc1c3f7a74cad5155b03fd9ab1830d08975822d85cd1a477728c0beabd881c4110c41804719a9e86388c8eadfb6cd8cbde4382e67e5d401c9115cb3286b5ccc94a7dd63dfef7de2316148a8a408570aa458e232d969a24f24a96d7c8b7af914b9b0696e00b995a8f7192f987fcc5b5fb6d9a6ab5258f8ccab17be261a9290 15 = 0x2c495dc91f4cb14cf2d569026c1c27470de01f4de91f826f6dd2759e640ab622b51c9f5f4d19e9a60451fb6cf514d342907d7c961ea5ffd0c72c17ab7380f33254ac37b75a9471ab30591df678bcaf0ad954a52cf1566d5413486e7d92620d99f53034c4d37896902cbae151a0e2232fae886901256f1e0a31a9f509393ba5dbfef6847d528a3c31b87b48655369956cf05098f603bffd3855abd86c1365bb596f6544672972f7c305ddb5fe4baccd8157bae3da3726a18de1ce2a35a570fc906ff659803188ad85 := by

  simp only [keccakRound, c2c_r15t, c2c_r15p, c2c_r15c]

  decide

theorem c2c_r16t : keccakTheta 0x2c495dc91f4cb14cf2d569026c1c27470de01f4de91f826f6dd2759e640ab622b51c9f5f4d19e9a60451fb6cf514d342907d7c961ea5ffd0c72c17ab7380f33254ac37b75a9471ab30591df678bcaf0ad954a52cf1566d5413486e7d92620d99f53034c4d37896902cbae151a0e2232fae886901256f1e0a31a9f509393ba5dbfef6847d528a3c31b87b48655369956cf05098f603bffd3855abd86c1365bb596f6544672972f7c305ddb5fe4baccd8157bae3da3726a18de1ce2a35a570fc906ff659803188ad85 = 0x85a2c32b82ff09067de99b51573a4eee1c2c9a2322562e1cdc3930e00d7c5e0112280ece37397ef8adba658e68a76b081f418ec525839679d6e092c5b8c95f41e54772c933e29988976d8c67029c385470bf3bce6ce5d51e9c749c2ea9446430e4fcb1aa18313ae39d51a42fc994cb0c09bcf8905f4f895498426beba4881d9171ca762e69ac5598a9b7cd0b9820391f41bbdd886ac9151bf29f49fd69452c07c68eda85b4c14f898ae147ad708aa428467666b4fc6f0dfe50256f4bcc0614b3c8c2c8114ba83adb := by decide

theorem c2c_r16p : keccakRhoPi keccak_rotc 0x85a2c32b82ff09067de99b51573a4eee1c2c9a2322562e1cdc3930e00d7c5e0112280ece37397ef8adba658e68a76b081f418ec525839679d6e092c5b8c95f41e54772c933e29988976d8c67029c385470bf3bce6ce5d51e9c749c2ea9446430e4fcb1aa18313ae39d51a42fc994cb0c09bcf8905f4f895498426beba4881d9171ca762e69ac5598a9b7cd0b9820391f41bbdd886ac9151bf29f49fd69452c07c68eda85b4c14f898ae147ad708aa428467666b4fc6f0dfe50256f4bcc0614b3c8c2c8114ba83adb = 0x70e4c38035f178073870a92edb18ce0572ea8f385f9de736cc38e53b1734d62a919d99ad3f1bc37fee7de99b51573a4e4962dc64afa0eb704690bf26532c32759452c07f29f49fd62da60a7c4e3476d43b38dce5fbe048a0ba658e68a76b08ad5d5288c86138e9386df342e6080e47eaa04ade97980c296644644ac5c383859353311ca8ee59267c4de7c482fa7c4aa09198426beba4881dd708aa4288ae147ab0cae0bfc241a168d8a4b072cf23e83189d71f27e58d50c1f7621ab24546d06ec8c2c8114ba83adb := by decide

theorem c2c_r16c : keccakChi 0x70e4c38035f178073870a92edb18ce0572ea8f385f9de736cc38e53b1734d62a919d99ad3f1bc37fee7de99b51573a4e4962dc64afa0eb704690bf26532c32759452c07f29f49fd62da60a7c4e3476d43b38dce5fbe048a0ba658e68a76b08ad5d5288c86138e9386df342e6080e47eaa04ade97980c296644644ac5c383859353311ca8ee59267c4de7c482fa7c4aa09198426beba4881dd708aa4288ae147ab0cae0bfc241a168d8a4b072cf23e83189d71f27e58d50c1f7621ab24546d06ec8c2c8114ba83adb = 0x3cc4a79235d56c07b969b103d1124d7d326ecdb87b7cd734c428c53d9734de2ba35f93ad7792e26b7e2d29987097b34c48e0de00a180afe0e08d9ebd037b227b9d30803f857456d66f26357c1c3c56f57689dc85fbe20e283a278c7aa76729eb5c4ad84d39b8a938cfd644c68e4d476fb04a569ff93c817644f40aeca0830d96c039bcaae675361449a386c7fbfecb2383885a43efa5ac419b6f2ec298f656da87eaf21dc607614c90a4b872c68bf2a2a99d5faae5cd5189a742bae24f64785ec057cd14eb213a5a := by decide

theorem c2c_r16 : keccakRound keccak_rotc 0x2c495dc91f4cb14cf2d569026c1c27470de01f4de91f826f6dd2759e640ab622b51c9f5f4d19e9a60451fb6cf514d342907d7c961ea5ffd0c72c17ab7380f33254ac37b75a9471ab30591df678bcaf0ad954a52cf1566d5413486e7d92620d99f53034c4d37896902cbae151a0e2232fae886901256f1e0a31a9f509393ba5dbfef6847d528a3c31b87b48655369956cf05098f603bffd3855abd86c1365bb596f6544672972f7c305ddb5fe4baccd8157bae3da3726a18de1ce2a35a570fc906ff659803188ad85 16 = 0x3cc4a79235d56c07b969b103d1124d7d326ecdb87b7cd734c428c53d9734de2ba35f93ad7792e26b7e2d29987097b34c48e0de00a180afe0e08d9ebd037b227b9d30803f857456d66f26357c1c3c56f57689dc85fbe20e283a278c7aa76729eb5c4ad84d39b8a938cfd644c68e4d476fb04a569ff93c817644f40aeca0830d96c039bcaae675361449a386c7fbfecb2383885a43efa5ac419b6f2ec298f656da87eaf21dc607614c90a4b872c68bf2a2a99d5faae5cd5189a742bae24f64785e4057cd14eb21ba58 := by

  simp only [keccakRound, c2c_r16t, c2c_r16p, c2c_r16c]

  decide

theorem c2c_r17t : keccakTheta 0x3cc4a79235d56c07b969b103d1124d7d326ecdb87b7cd734c428c53d9734de2ba35f93ad7792e26b7e2d29987097b34c48e0de00a180afe0e08d9ebd037b227b9d30803f857456d66f26357c1c3c56f57689dc85fbe20e283a278c7aa76729eb5c4ad84d39b8a938cfd644c68e4d476fb04a569ff93c817644f40aeca0830d96c039bcaae675361449a386c7fbfecb2383885a43efa5ac419b6f2ec298f656da87eaf21dc607614c90a4b872c68bf2a2a99d5faae5cd5189a742bae24f64785e4057cd14eb21ba58 = 0xe9e167020055d1123903b7db3ed7f0d3b60de39ea9a6d338be0d72efc9688afb3028fb19d62e68c9ab08e90845170e59c88ad8d84e45124e64eeb09bd1a12677e71537eddb280206fc515dc8bd80dc57a3ac1c15ce62b33dba4d8aa248a29445d829f66beb62ad34b5f3f314d01113bf233d3e2b58800bd491d1ca7c9503b0834053ba7209b08bbacdc0a8e12924cf2ff9aded91b1f9f89108184676394adc7852cf328df387dc5910cebeaa294e4f0c2dfe718c37175585dd670d3011382c8ed320a5a04a9d30fa := by decide

theorem c2c_r17p : keccakRhoPi keccak_rotc 0xe9e167020055d1123903b7db3ed7f0d3b60de39ea9a6d338be0d72efc9688afb3028fb19d62e68c9ab08e90845170e59c88ad8d84e45124e64eeb09bd1a12677e71537eddb280206fc515dc8bd80dc57a3ac1c15ce62b33dba4d8aa248a29445d829f66beb62ad34b5f3f314d01113bf233d3e2b58800bd491d1ca7c9503b0834053ba7209b08bbacdc0a8e12924cf2ff9aded91b1f9f89108184676394adc7852cf328df387dc5910cebeaa294e4f0c2dfe718c37175585dd670d3011382c8ed320a5a04a9d30fa = 0xf835cbbf25a22bee01b8aff8a2bb917b31599ed1d60e0ae7dd2029dd3904d8454b7f9c630dc5d561d33903b7db3ed7f0584de8d0933bb277cfcc5340444efed794adc780818467636f9c3ee2ca967994ec6758b9a324c0a308e90845170e59ab449145288b749b15702a384a4933cbf3bace1a602270591d73d534da6716c1bc0040dce2a6fdbb6519e9f15ac4005ea18391d1ca7c9503b0a294e4f0c10cebea59c080157444ba781b09c8a249d9115b1569a6c14fb35f5b7b646c7e7e247e6bd320a5a04a9d30fa := by decide

theorem c2c_r17c : keccakChi 0xf835cbbf25a22bee01b8aff8a2bb917b31599ed1d60e0ae7dd2029dd3904d8454b7f9c630dc5d561d33903b7db3ed7f0584de8d0933bb277cfcc5340444efed794adc780818467636f9c3ee2ca967994ec6758b9a324c0a308e90845170e59ab449145288b749b15702a384a4933cbf3bace1a602270591d73d534da6716c1bc0040dce2a6fdbb6519e9f15ac4005ea18391d1ca7c9503b0a294e4f0c10cebea59c080157444ba781b09c8a249d9115b1569a6c14fb35f5b7b646c7e7e247e6bd320a5a04a9d30fa = 0x6c35ea2315a223ea02f2bbb8aafe457ac95cded6d30e2063dd8008f519b5495d6b260a63cbcfd7c34318c2b7da3ed19374c9d49093bb9a734cfc50670c4abb5784ac6f1012b5674324dc2ea28edce100ac4778b3ea2742411a610a05175e40b7a09715902b541b157842300f5d398b59be5f5f40a034491972d425d05b87c1ac80401cc226f591276a7cd14285021e398391dd6a5e68a2f4bafcc4e0410cb7eb7184c84b4064f4799929ed02434011d955a9a6d47bb7f57b7164245c7e6c7e6bd72927214b0e31ea := by decide

theorem c2c_r17 : keccakRound keccak_rotc 0x3cc4a79235d56c07b969b103d1124d7d326ecdb87b7cd734c428c53d9734de2ba35f93ad7792e26b7e2d29987097b34c48e0de00a180afe0e08d9ebd037b227b9d30803f857456d66f26357c1c3c56f57689dc85fbe20e283a278c7aa76729eb5c4ad84d39b8a938cfd644c68e4d476fb04a569ff93c817644f40aeca0830d96c039bcaae675361449a386c7fbfecb2383885a43efa5ac419b6f2ec298f656da87eaf21dc607614c90a4b872c68bf2a2a99d5faae5cd5189a742bae24f64785e4057cd14eb21ba58 17 = 0x6c35ea2315a223ea02f2bbb8aafe457ac95cded6d30e2063dd8008f519b5495d6b260a63cbcfd7c34318c2b7da3ed19374c9d49093bb9a734cfc50670c4abb5784ac6f1012b5674324dc2ea28edce100ac4778b3ea2742411a610a05175e40b7a09715902b541b157842300f5d398b59be5f5f40a034491972d425d05b87c1ac80401cc226f591276a7cd14285021e398391dd6a5e68a2f4bafcc4e0410cb7eb7184c84b4064f4799929ed02434011d955a9a6d47bb7f57b7164245c7e6c7e6b572927214b0e316a := by

  simp only [keccakRound, c2c_r17t, c2c_r17p, c2c_r17c]

  decide

theorem c2c_r18t : keccakTheta 0x6c35ea2315a223ea02f2bbb8aafe457ac95cded6d30e2063dd8008f519b5495d6b260a63cbcfd7c34318c2b7da3ed19374c9d49093bb9a734cfc50670c4abb5784ac6f1012b5674324dc2ea28edce100ac4778b3ea2742411a610a05175e40b7a09715902b541b157842300f5d398b59be5f5f40a034491972d425d05b87c1ac80401cc226f591276a7cd14285021e398391dd6a5e68a2f4bafcc4e0410cb7eb7184c84b4064f4799929ed02434011d955a9a6d47bb7f57b7164245c7e6c7e6b572927214b0e316a = 0x21e74e4f8047ce1c18652c77dcea25c2f0a059d0326f673bf43549dbe3da66c04c2bea6719eda19f0eca66db4fdb3c656e5e435fe5affacb7500d761ed2bfc0fad192e3ee8da48de03d1cea65cfe975ce195dcdf7fc2afb700f69dca614a200f996b9296ca355c4d51f77121a756a4c49952bf4472163f453f0681bcce622c5a9ad78b0d50e1f19f5380564464635961aa249c44a4078d699df124e4932ec1b73c566c27d581198f83be7acd355471616c5521d29ad6b22358d16572840351f67024c725992c4736 := by decide

theorem c2c_r18p : keccakRhoPi keccak_rotc 0x21e74e4f8047ce1c18652c77dcea25c2f0a059d0326f673bf43549dbe3da66c04c2bea6719eda19f0eca66db4fdb3c656e5e435fe5affacb7500d761ed2bfc0fad192e3ee8da48de03d1cea65cfe975ce195dcdf7fc2afb700f69dca614a200f996b9296ca355c4d51f77121a756a4c49952bf4472163f453f0681bcce622c5a9ad78b0d50e1f19f5380564464635961aa249c44a4078d699df124e4932ec1b73c566c27d581198f83be7acd355471616c5521d29ad6b22358d16572840351f67024c725992c4736 = 0xd0d5276f8f699b03fd2eb807a39d4cb9e157dbf0caee6fbfcfcd6bc586a870f8db154874a6b5ac88c218652c77dcea256bb0f695fe07ba80ddc4869d5a93114732ec1b79df124e493eac08cc79e2b361a99c67b6867d30afca66db4fdb3c650e94c294401e01ed3be015911918d65854b1a2cae50806a3ec3a064dece77e140b491bd5a325c7dd1bca95fa2390b1fa2c5a3f0681bcce622cd3554716183be7acd393e011f38708796bfcb5ff596dcbc8aae26ccb5c94b65127112901e35a6a897024c725992c4736 := by decide

theorem c2c_r18c : keccakChi 0xd0d5276f8f699b03fd2eb807a39d4cb9e157dbf0caee6fbfcfcd6bc586a870f8db154874a6b5ac88c218652c77dcea256bb0f695fe07ba80ddc4869d5a93114732ec1b79df124e493eac08cc79e2b361a99c67b6867d30afca66db4fdb3c650e94c294401e01ed3be015911918d65854b1a2cae50806a3ec3a064dece77e140b491bd5a325c7dd1bca95fa2390b1fa2c5a3f0681bcce622cd3554716183be7acd393e011f38708796bfcb5ff596dcbc8aae26ccb5c94b65127112901e35a6a897024c725992c4736 = 0xd41d04ee8f61cb73f62ef01783096831e186dc98c68efcbdd3e54bc2a7b970f8fb07d844eef3a38fc258761df1cca62d5714fe55f625abc05dcc87b55b4b516210dc6b797b16e4c9f3ac8c487963a267e98976ae96ad68bfda44530ed33ee64eb55ab0f01a40fd9aaa31da16d9ea5850a560cea50e0706c7322c4d6d43ba140b884ad7b13dc63ebff891f26f5289fa2c5b3503019988673f53d5bf34180a7facd482c81191d520f04bd8b2db51458cce3ae12ccbfe16b660660db835e2332301f8c683ef85a8d366 := by decide

theorem c2c_r18 : keccakRound keccak_rotc 0x6c35ea2315a223ea02f2bbb8aafe457ac95cded6d30e2063dd8008f519b5495d6b260a63cbcfd7c34318c2b7da3ed19374c9d49093bb9a734cfc50670c4abb5784ac6f1012b5674324dc2ea28edce100ac4778b3ea2742411a610a05175e40b7a09715902b541b157842300f5d398b59be5f5f40a034491972d425d05b87c1ac80401cc226f591276a7cd14285021e398391dd6a5e68a2f4bafcc4e0410cb7eb7184c84b4064f4799929ed02434011d955a9a6d47bb7f57b7164245c7e6c7e6b572927214b0e316a 18 = 0xd41d04ee8f61cb73f62ef01783096831e186dc98c68efcbdd3e54bc2a7b970f8fb07d844eef3a38fc258761df1cca62d5714fe55f625abc05dcc87b55b4b516210dc6b797b16e4c9f3ac8c487963a267e98976ae96ad68bfda44530ed33ee64eb55ab0f01a40fd9aaa31da16d9ea5850a560cea50e0706c7322c4d6d43ba140b884ad7b13dc63ebff891f26f5289fa2c5b3503019988673f53d5bf34180a7facd482c81191d520f04bd8b2db51458cce3ae12ccbfe16b660660db835e2332301f8c683ef85a8536c := by

  simp only [keccakRound, c2c_r18t, c2c_r18p, c2c_r18c]

  decide

theorem c2c_r19t : keccakTheta 0xd41d04ee8f61cb73f62ef01783096831e186dc98c68efcbdd3e54bc2a7b970f8fb07d844eef3a38fc258761df1cca62d5714fe55f625abc05dcc87b55b4b516210dc6b797b16e4c9f3ac8c487963a267e98976ae96ad68bfda44530ed33ee64eb55ab0f01a40fd9aaa31da16d9ea5850a560cea50e0706c7322c4d6d43ba140b884ad7b13dc63ebff891f26f5289fa2c5b3503019988673f53d5bf34180a7facd482c81191d520f04bd8b2db51458cce3ae12ccbfe16b660660db835e2332301f8c683ef85a8536c = 0x6140702c4d9a0b630f8bc72cdccd160cc46eed4c2d535b7f43fd8742f5b863044a05da572961822b770502df3337663daeb1c96ea9e1d5fd7824b661b096f6a080c4a7f92917f73542ae8e5bbef183c35cd4026c5456a8af23e164358cfa987390b28124f19d5a583a2916968beb4bac1462ccb6c9952763877139af8141d41b71efe08a62024082dd79c3bbb9545deecb2dcf81cb8974c3e2d7bd27df985e0861dfbcd3532ee0e0b27d85e00e81f2f31f091d1f15cb11a2f61574b5b03230fd49c481fc423a72c8 := by decide

theorem c2c_r19p : keccakRhoPi keccak_rotc 0x6140702c4d9a0b630f8bc72cdccd160cc46eed4c2d535b7f43fd8742f5b863044a05da572961822b770502df3337663daeb1c96ea9e1d5fd7824b661b096f6a080c4a7f92917f73542ae8e5bbef183c35cd4026c5456a8af23e164358cfa987390b28124f19d5a583a2916968beb4bac1462ccb6c9952763877139af8141d41b71efe08a62024082dd79c3bbb9545deecb2dcf81cb8974c3e2d7bd27df985e0861dfbcd3532ee0e0b27d85e00e81f2f31f091d1f15cb11a2f61574b5b03230fd49c481fc423a72c8 = 0xff61d0bd6e18c11e30786855d1cb77d2b5457ae6a01362a4138f7f04531012087c24747c572c4680c0f8bc72cdccd165b30d84b7b503c12a45a5a2fad2eb0e8f985e08e2d7bd27d9a997707030efde6695ca58608ad28170502df3337663d776b19f530e647c2c85e70eeee55177bb7ec2ae96b606461fba985aa6b6ff88dddfee6b01894ff2522a31665b64ca93b181b877139af8141d400e81f2f3b27d85e1c0b136682d8d8502dd53c3abfb5d639ead2c4859409278c73e072e25d30f2cb49c481fc423a72c8 := by decide

theorem c2c_r19c : keccakChi 0xff61d0bd6e18c11e30786855d1cb77d2b5457ae6a01362a4138f7f04531012087c24747c572c4680c0f8bc72cdccd165b30d84b7b503c12a45a5a2fad2eb0e8f985e08e2d7bd27d9a997707030efde6695ca58608ad28170502df3337663d776b19f530e647c2c85e70eeee55177bb7ec2ae96b606461fba985aa6b6ff88dddfee6b01894ff2522a31665b64ca93b181b877139af8141d400e81f2f3b27d85e1c0b136682d8d8502dd53c3abfb5d639ead2c4859409278c73e072e25d30f2cb49c481fc423a72c8 = 0x4fceadbbd6e08d116307c4c15c0ef71527a44ea4e8e03e2a813b77f1502d8075ad864749ef72f2626d0b0b4f00adcf0fc9a0ac4b78520cf2a05559aba9a271eca2a560ce7f2bde6f9ec36d26830add667b0ca3021dbe32138120975a57267c9f0345d5b4eecec2c85a72e4ed44374680cd23f87bc224e1b3b282ca7beb788c5dfe8ea51c84f87520a2176fd527a9b3c54767e1313fd745f6a0f81ba97b0fe2562e2b61649fd858536c11bca2ff97f4b1fad8c7c194412fcc76e54ad8768422fac1d605f9c23377cc := by decide

theorem c2c_r19 : keccakRound keccak_rotc 0xd41d04ee8f61cb73f62ef01783096831e186dc98c68efcbdd3e54bc2a7b970f8fb07d844eef3a38fc258761df1cca62d5714fe55f625abc05dcc87b55b4b516210dc6b797b16e4c9f3ac8c487963a267e98976ae96ad68bfda44530ed33ee64eb55ab0f01a40fd9aaa31da16d9ea5850a560cea50e0706c7322c4d6d43ba140b884ad7b13dc63ebff891f26f5289fa2c5b3503019988673f53d5bf34180a7facd482c81191d520f04bd8b2db51458cce3ae12ccbfe16b660660db835e2332301f8c683ef85a8536c 19 = 0x4fceadbbd6e08d116307c4c15c0ef71527a44ea4e8e03e2a813b77f1502d8075ad864749ef72f2626d0b0b4f00adcf0fc9a0ac4b78520cf2a05559aba9a271eca2a560ce7f2bde6f9ec36d26830add667b0ca3021dbe32138120975a57267c9f0345d5b4eecec2c85a72e4ed44374680cd23f87bc224e1b3b282ca7beb788c5dfe8ea51c84f87520a2176fd527a9b3c54767e1313fd745f6a0f81ba97b0fe2562e2b61649fd858536c11bca2ff97f4b1fad8c7c194412fcc76e54ad8768422fa41d605f9423377c6 := by

  simp only [keccakRound, c2c_r19t, c2c_r19p, c2c_r19c]

  decide

theorem c2c_r20t : keccakTheta 0x4fceadbbd6e08d116307c4c15c0ef71527a44ea4e8e03e2a813b77f1502d8075ad864749ef72f2626d0b0b4f00adcf0fc9a0ac4b78520cf2a05559aba9a271eca2a560ce7f2bde6f9ec36d26830add667b0ca3021dbe32138120975a57267c9f0345d5b4eecec2c85a72e4ed44374680cd23f87bc224e1b3b282ca7beb788c5dfe8ea51c84f87520a2176fd527a9b3c54767e1313fd745f6a0f81ba97b0fe2562e2b61649fd858536c11bca2ff97f4b1fad8c7c194412fcc76e54ad8768422fa41d605f9423377c6 = 0xc847d35cf0353db635bdf3bd3ecdae151dfbda43daa84c6f26856eebff85f95df83a59d614e5a94dea8275a826787fa89f1a9b371a9155f29a0acd4c9bea03a9051b79d4d083a747cb7f73b9789d8649fc85dde53b6b82b4d79aa02635e5259f391a4153dc86b08dfdccfdf7eb9f3fa8989fe6e439b3ba9c350bb49ccdad3cfaa8349260e63b2c209848fb3215e1c180e0d9f82b907f3cdef54405368098b979a9a21f83b90de8f43aab8bde9d54adb1c0875326a6095d89d15b53c2d92c5bd2146a1b66b9a42ce9 := by decide

theorem c2c_r20p : keccakRhoPi keccak_rotc 0xc847d35cf0353db635bdf3bd3ecdae151dfbda43daa84c6f26856eebff85f95df83a59d614e5a94dea8275a826787fa89f1a9b371a9155f29a0acd4c9bea03a9051b79d4d083a747cb7f73b9789d8649fc85dde53b6b82b4d79aa02635e5259f391a4153dc86b08dfdccfdf7eb9f3fa8989fe6e439b3ba9c350bb49ccdad3cfaa8349260e63b2c209848fb3215e1c180e0d9f82b907f3cdef54405368098b979a9a21f83b90de8f43aab8bde9d54adb1c0875326a6095d89d15b53c2d92c5bd2146a1b66b9a42ce9 = 0x9a15bbaffe17e5743b0c9396fee772f1b5c15a7e42eef29d10541a4930731d967021d4c9a98257621535bdf3bd3ecdae66a64df501d4cd0533f7dfae7cfea3f7098b979f544053681dc86f47a54d10fc67585396a537e0e98275a826787fa8ea4c6bca4b3faf3540123ecc8578706026a2b6a785b258b7a5487b55098de3bf7b74e8e0a36f3a9a10c4ff3721cd9dd4e4fa350bb49ccdad3ce9d54adb13aab8bdf4d73c0d4f6db21166e3522abe53e353358469c8d20a9ee47e0ae41fcf37b836146a1b66b9a42ce9 := by decide

theorem c2c_r20c : keccakChi 0x9a15bbaffe17e5743b0c9396fee772f1b5c15a7e42eef29d10541a4930731d967021d4c9a98257621535bdf3bd3ecdae66a64df501d4cd0533f7dfae7cfea3f7098b979f544053681dc86f47a54d10fc67585396a537e0e98275a826787fa8ea4c6bca4b3faf3540123ecc8578706026a2b6a785b258b7a5487b55098de3bf7b74e8e0a36f3a9a10c4ff3721cd9dd4e4fa350bb49ccdad3ce9d54adb13aab8bdf4d73c0d4f6db21166e3522abe53e353358469c8d20a9ee47e0ae41fcf37b836146a1b66b9a42ce9 = 0x9a41b1afee66ede05b2cd7d6ff6760f335d0725742fe77991a589bc98c721df6d5a094ffeb0eb56b15362d6bed3e8eae6e6e0ff10195dd5522e66facc0d4a35d4d8b97ce55401f682fbc27678df3b06b77501b96ed17a0eb02d30c276a37bfee296399dbbaaf7541902aeca13820e88ceef7a5cfb5d7a2e55a5b542d01a6ba7bd56cea717d329a94ccec22294d5cf18fca35cb36beefa72ced1f7eda52bae87d9ed7d814097e220766cb51480ed3efbba59045cd93268ee43c69f63de366d92515ee12a6a9ac2a29 := by decide

theorem c2c_r20 : keccakRound keccak_rotc 0x4fceadbbd6e08d116307c4c15c0ef71527a44ea4e8e03e2a813b77f1502d8075ad864749ef72f2626d0b0b4f00adcf0fc9a0ac4b78520cf2a05559aba9a271eca2a560ce7f2bde6f9ec36d26830add667b0ca3021dbe32138120975a57267c9f0345d5b4eecec2c85a72e4ed44374680cd23f87bc224e1b3b282ca7beb788c5dfe8ea51c84f87520a2176fd527a9b3c54767e1313fd745f6a0f81ba97b0fe2562e2b61649fd858536c11bca2ff97f4b1fad8c7c194412fcc76e54ad8768422fa41d605f9423377c6 20 = 0x9a41b1afee66ede05b2cd7d6ff6760f335d0725742fe77991a589bc98c721df6d5a094ffeb0eb56b15362d6bed3e8eae6e6e0ff10195dd5522e66facc0d4a35d4d8b97ce55401f682fbc27678df3b06b77501b96ed17a0eb02d30c276a37bfee296399dbbaaf7541902aeca13820e88ceef7a5cfb5d7a2e55a5b542d01a6ba7bd56cea717d329a94ccec22294d5cf18fca35cb36beefa72ced1f7eda52bae87d9ed7d814097e220766cb51480ed3efbba59045cd93268ee43c69f63de366d92595ee12a629acaaa8 := by

  simp only [keccakRound, c2c_r20t, c2c_r20p, c2c_r20c]

  decide

theorem c2c_r21t : keccakTheta 0x9a41b1afee66ede05b2cd7d6ff6760f335d0725742fe77991a589bc98c721df6d5a094ffeb0eb56b15362d6bed3e8eae6e6e0ff10195dd5522e66facc0d4a35d4d8b97ce55401f682fbc27678df3b06b77501b96ed17a0eb02d30c276a37bfee296399dbbaaf7541902aeca13820e88ceef7a5cfb5d7a2e55a5b542d01a6ba7bd56cea717d329a94ccec22294d5cf18fca35cb36beefa72ced1f7eda52bae87d9ed7d814097e220766cb51480ed3efbba59045cd93268ee43c69f63de366d92595ee12a629acaaa8 = 0xc6432ac1593b50e7755322c5d4b609af0c197189302d0d4dd811266be9b1451a8a4024cf74aec6844934b6055a6333a94011fae22a44b4091b2f6c72b207d9898fc22a6c30834784705c97571253c3842b5280f85a4a1dec2cacf93441e6d6b210aa9a05c87c0f95526351035de3b060b11715ff2a77d10a0659cf43b6fb077cfb131f6256e3f3c8f52521f73f8f8b5b087c7694db2cffc0b2ffceeacd1a9b92c2d5437abe239f0048b4a45b250286e79c594613e1f5f430fe204b9f86a581c9ca0ea296b60cd947 := by decide

theorem c2c_r21p : keccakRhoPi keccak_rotc 0xc6432ac1593b50e7755322c5d4b609af0c197189302d0d4dd811266be9b1451a8a4024cf74aec6844934b6055a6333a94011fae22a44b4091b2f6c72b207d9898fc22a6c30834784705c97571253c3842b5280f85a4a1dec2cacf93441e6d6b210aa9a05c87c0f95526351035de3b060b11715ff2a77d10a0659cf43b6fb077cfb131f6256e3f3c8f52521f73f8f8b5b087c7694db2cffc0b2ffceeacd1a9b92c2d5437abe239f0048b4a45b250286e79c594613e1f5f430fe204b9f86a581c9ca0ea296b60cd947 = 0x604499afa6c5146ba78708e0b92eae24250ef615a9407c2de47d898fb12b71f927165184f87d7d0caf755322c5d4b609b6395903ecc48d978d440d778ec18149d1a9b92b2ffceeacd5f11cf80616aa1b933dd2bb1a12290034b6055a6333a9496883cdad645959f249487dcfe3e2d6fdfc40973f0d4b0393312605a1a9a1832e68f091f8454d861088b8aff953be88557c0659cf43b6fb07b250286e748b4a45cab0564ed439f1905c4548968128023fe07ca88554d02e431da536cb3ff0021fca0ea296b60cd947 := by decide

theorem c2c_r21c : keccakChi 0x604499afa6c5146ba78708e0b92eae24250ef615a9407c2de47d898fb12b71f927165184f87d7d0caf755322c5d4b609b6395903ecc48d978d440d778ec18149d1a9b92b2ffceeacd5f11cf80616aa1b933dd2bb1a12290034b6055a6333a9496883cdad645959f249487dcfe3e2d6fdfc40973f0d4b0393312605a1a9a1832e68f091f8454d861088b8aff953be88557c0659cf43b6fb07b250286e748b4a45cab0564ed439f1905c4548968128023fe07ca88554d02e431da536cb3ff0021fca0ea296b60cd947 = 0xa02d11a4a7c7149aa09548e0e116c720654e671aaf816c6666fc816fa105f3f926142794f03d7108af7df221ec3cf2ade6b955dbeec6858584000f578fd1b341e390e92b4ff8e23ad9b518ac8617ab5a9235ba7bf8b2fd6c58f6005e667aabdaeb8a1f0c7c5959f25d7c7d9de0c076f4dcc3171f09520a917d205420aa95322ceaa0b9b61147ce5199beabf8fb1e897b1c4649cf47f7fd0732e88e5e64834a15df114207ddc9f3885c4be806a32c0a7862ccbecd00c1dfc301a476d9bed802232a562a92f60cf507 := by decide

theorem c2c_r21 : keccakRound keccak_rotc 0x9a41b1afee66ede05b2cd7d6ff6760f335d0725742fe77991a589bc98c721df6d5a094ffeb0eb56b15362d6bed3e8eae6e6e0ff10195dd5522e66facc0d4a35d4d8b97ce55401f682fbc27678df3b06b77501b96ed17a0eb02d30c276a37bfee296399dbbaaf7541902aeca13820e88ceef7a5cfb5d7a2e55a5b542d01a6ba7bd56cea717d329a94ccec22294d5cf18fca35cb36beefa72ced1f7eda52bae87d9ed7d814097e220766cb51480ed3efbba59045cd93268ee43c69f63de366d92595ee12a629acaaa8 21 = 0xa02d11a4a7c7149aa09548e0e116c720654e671aaf816c6666fc816fa105f3f926142794f03d7108af7df221ec3cf2ade6b955dbeec6858584000f578fd1b341e390e92b4ff8e23ad9b518ac8617ab5a9235ba7bf8b2fd6c58f6005e667aabdaeb8a1f0c7c5959f25d7c7d9de0c076f4dcc3171f09520a917d205420aa95322ceaa0b9b61147ce5199beabf8fb1e897b1c4649cf47f7fd0732e88e5e64834a15df114207ddc9f3885c4be806a32c0a7862ccbecd00c1dfc301a476d9bed80223aa562a92f60c7587 := by

  simp only [keccakRound, c2c_r21t, c2c_r21p, c2c_r21c]

  decide

theorem c2c_r22t : keccakTheta 0xa02d11a4a7c7149aa09548e0e116c720654e671aaf816c6666fc816fa105f3f926142794f03d7108af7df221ec3cf2ade6b955dbeec6858584000f578fd1b341e390e92b4ff8e23ad9b518ac8617ab5a9235ba7bf8b2fd6c58f6005e667aabdaeb8a1f0c7c5959f25d7c7d9de0c076f4dcc3171f09520a917d205420aa95322ceaa0b9b61147ce5199beabf8fb1e897b1c4649cf47f7fd0732e88e5e64834a15df114207ddc9f3885c4be806a32c0a7862ccbecd00c1dfc301a476d9bed80223aa562a92f60c7587 = 0x7fa544a6a7e9e76f2f8bb527ceeba2b3f0ded47eef11aed83e4cc96d035fbc7392a43dd2da0d9bd070f5a723ec12015869a7a81cc13be0161190bc33cf4171ffbb20a129eda2adb06d0502eaac2741824dbdef79f89c0e99d7e8fd994987ce497e1aac683cc99b4c05cc359f429a397e68730d592362e049a2a80122aabbc1d965be44713ebaabc20c2e189cbb8e4bc544f601cde5adb28d865894184eb3a0cd00991705dde7007dd35515c18cd16febf75c0da940511d7d59143edb1c824da91ee630d4dc3c9f5f := by decide

theorem c2c_r22p : keccakRhoPi keccak_rotc 0x7fa544a6a7e9e76f2f8bb527ceeba2b3f0ded47eef11aed83e4cc96d035fbc7392a43dd2da0d9bd070f5a723ec12015869a7a81cc13be0161190bc33cf4171ffbb20a129eda2adb06d0502eaac2741824dbdef79f89c0e99d7e8fd994987ce497e1aac683cc99b4c05cc359f429a397e68730d592362e049a2a80122aabbc1d965be44713ebaabc20c2e189cbb8e4bc544f601cde5adb28d865894184eb3a0cd00991705dde7007dd35515c18cd16febf75c0da940511d7d59143edb1c824da91ee630d4dc3c9f5f = 0xf93325b40d7ef1cc4e8304da0a05d5584e074ca6def7bcfce132df22389f5d557dd7036a5014475fb32f8bb527ceeba25e19e7a0b8ff88c830d67d0a68e5f817eb3a0cd8658941842eef3803e804c8b8f74b68366f424a90f5a723ec1201587032930f9c93afd1fb0b86272ee392f143b2287db639049b528fdde235db1e1bda55b6176414253db443986ac91b17024bd9a2a80122aabbc118cd16febd35515c5129a9fa79dbdfe90398277c02cd34f54cda63f0d56341e68073796b6ca3513d1ee630d4dc3c9f5f := by decide

theorem c2c_r22c : keccakChi 0xf93325b40d7ef1cc4e8304da0a05d5584e074ca6def7bcfce132df22389f5d557dd7036a5014475fb32f8bb527ceeba25e19e7a0b8ff88c830d67d0a68e5f817eb3a0cd8658941842eef3803e804c8b8f74b68366f424a90f5a723ec1201587032930f9c93afd1fb0b86272ee392f143b2287db639049b528fdde235db1e1bda55b6176414253db443986ac91b17024bd9a2a80122aabbc118cd16febd35515c5129a9fa79dbdfe90398277c02cd34f54cda63f0d56341e68073796b6ca3513d1ee630d4dc3c9f5f = 0x7913f9b425f5e9cc4a4706905a05d34bff376d82db8d9c78e1b2df7a389f1c5573d203ee9674e7f7723f8f6d2247eaa652d9d7a270ff88d091f0751f6fe59b35a5338e78f593414c3e2b4901e06070abfecd6a3eadd02a91f587366c0205c93230db478efeedd37bcea2074ee392f9438239752629299bea4eff4a34d994b15b45b603ae30047db0c9d18ad8d00d0001cd84bd25268a86751ad55436a4205156d138e0d159589fc90d5e377886e934e31cfbeb72ac718aee83737d676e2f652c526e32444d7c9f9d := by decide

theorem c2c_r22 : keccakRound keccak_rotc 0xa02d11a4a7c7149aa09548e0e116c720654e671aaf816c6666fc816fa105f3f926142794f03d7108af7df221ec3cf2ade6b955dbeec6858584000f578fd1b341e390e92b4ff8e23ad9b518ac8617ab5a9235ba7bf8b2fd6c58f6005e667aabdaeb8a1f0c7c5959f25d7c7d9de0c076f4dcc3171f09520a917d205420aa95322ceaa0b9b61147ce5199beabf8fb1e897b1c4649cf47f7fd0732e88e5e64834a15df114207ddc9f3885c4be806a32c0a7862ccbecd00c1dfc301a476d9bed80223aa562a92f60c7587 22 = 0x7913f9b425f5e9cc4a4706905a05d34bff376d82db8d9c78e1b2df7a389f1c5573d203ee9674e7f7723f8f6d2247eaa652d9d7a270ff88d091f0751f6fe59b35a5338e78f593414c3e2b4901e06070abfecd6a3eadd02a91f587366c0205c93230db478efeedd37bcea2074ee392f9438239752629299bea4eff4a34d994b15b45b603ae30047db0c9d18ad8d00d0001cd84bd25268a86751ad55436a4205156d138e0d159589fc90d5e377886e934e31cfbeb72ac718aee83737d676e2f652c526e3244cd7c9f9c := by

  simp only [keccakRound, c2c_r22t, c2c_r22p, c2c_r22c]

  decide

theorem c2c_r23t : keccakTheta 0x7913f9b425f5e9cc4a4706905a05d34bff376d82db8d9c78e1b2df7a389f1c5573d203ee9674e7f7723f8f6d2247eaa652d9d7a270ff88d091f0751f6fe59b35a5338e78f593414c3e2b4901e06070abfecd6a3eadd02a91f587366c0205c93230db478efeedd37bcea2074ee392f9438239752629299bea4eff4a34d994b15b45b603ae30047db0c9d18ad8d00d0001cd84bd25268a86751ad55436a4205156d138e0d159589fc90d5e377886e934e31cfbeb72ac718aee83737d676e2f652c526e3244cd7c9f9c = 0xd214994ad724b6cf153c542d39a0834070005c9d81936c8e70a5fbb3630c639a905d99f070ac6e99d938ef93d096b5a50da2851f135ad8db1ec7440035fb6bc33424aab1ae003e83dda4d31f06b8f9c555ca0ac05f017592aafc64d161a09939bfec7691a4f3238d5fb52387b801868c61b6ef38cff11284e5f82aca2b45ee581acd511353a12dbb46e6bbc78a13f0f75c9399ec7d19f9baf95ace2842f8d8387a3f802fab89c0ca522565c5e54c64e893ccda6df66f7a18126459ae35bc1ae3b1e1a85a2ba416f2 := by decide

theorem c2c_r23p : keccakRhoPi keccak_rotc 0xd214994ad724b6cf153c542d39a0834070005c9d81936c8e70a5fbb3630c639a905d99f070ac6e99d938ef93d096b5a50da2851f135ad8db1ec7440035fb6bc33424aab1ae003e83dda4d31f06b8f9c555ca0ac05f017592aafc64d161a09939bfec7691a4f3238d5fb52387b801868c61b6ef38cff11284e5f82aca2b45ee581acd511353a12dbb46e6bbc78a13f0f75c9399ec7d19f9baf95ace2842f8d8387a3f802fab89c0ca522565c5e54c64e893ccda6df66f7a18126459ae35bc1ae3b1e1a85a2ba416f2 = 0xc297eecd8c318e6971f38bbb49a63e0d80bac92ae505602fdd8d66a889a9d09624f3369b7d9bde8640153c542d39a083a2001afdb5e18f63d48e1ee0061a317e2f8d838f95ace2847d5c4e0653d1fc0167c1c2b1ba66417638ef93d096b5a5d9a2c341327355f8c9b9aef1e284fc3dd124c8b35c6b7835c693b0326d91ce000b07d06684955635c00db779c67f88942358e5f82aca2b45ee5e54c64e8522565c2652b5c92db3f485a3e26b5b1b61b450991c6dff63b48d27e67b1f467e6e9724b1e1a85a2ba416f2 := by decide

theorem c2c_r23c : keccakChi 0xc297eecd8c318e6971f38bbb49a63e0d80bac92ae505602fdd8d66a889a9d09624f3369b7d9bde8640153c542d39a083a2001afdb5e18f63d48e1ee0061a317e2f8d838f95ace2847d5c4e0653d1fc0167c1c2b1ba66417638ef93d096b5a5d9a2c341327355f8c9b9aef1e284fc3dd124c8b35c6b7835c693b0326d91ce000b07d06684955635c00db779c67f88942358e5f82aca2b45ee5e54c64e8522565c2652b5c92db3f485a3e26b5b1b61b450991c6dff63b48d27e67b1f467e6e9724b1e1a85a2ba416f2 = 0x1b9baeed0c118e7955939ba9382c6e8b02bead6e6114e04faccc6439810bce9624c1bf99199ffeaf4294bddda915a2079f4858ffe721d363949b3ae00e0211fe0d8d8392244d6c85ad5e526651c3ed7bfee782133ee2496738e7a29cd7ad9159e5c301135b17b8efa1826322005c38c12689b34c1879f5ce93110a4ddbc701a94b94a286917663949d9769af7f0094285aa5fe2a4a7d642e5b46c78ab0a2c65d6048a2cd79f97581324363491965b6229d0cf97f4726cda2c4991d46662fa774a8e5c8e32a341ef1 := by decide

theorem c2c_r23 : keccakRound keccak_rotc 0x7913f9b425f5e9cc4a4706905a05d34bff376d82db8d9c78e1b2df7a389f1c5573d203ee9674e7f7723f8f6d2247eaa652d9d7a270ff88d091f0751f6fe59b35a5338e78f593414c3e2b4901e06070abfecd6a3eadd02a91f587366c0205c93230db478efeedd37bcea2074ee392f9438239752629299bea4eff4a34d994b15b45b603ae30047db0c9d18ad8d00d0001cd84bd25268a86751ad55436a4205156d138e0d159589fc90d5e377886e934e31cfbeb72ac718aee83737d676e2f652c526e3244cd7c9f9c 23 = 0x1b9baeed0c118e7955939ba9382c6e8b02bead6e6114e04faccc6439810bce9624c1bf99199ffeaf4294bddda915a2079f4858ffe721d363949b3ae00e0211fe0d8d8392244d6c85ad5e526651c3ed7bfee782133ee2496738e7a29cd7ad9159e5c301135b17b8efa1826322005c38c12689b34c1879f5ce93110a4ddbc701a94b94a286917663949d9769af7f0094285aa5fe2a4a7d642e5b46c78ab0a2c65d6048a2cd79f97581324363491965b6229d0cf97f4726cda2c4991d46662fa77428e5c8e3aa349ef9 := by

  simp only [keccakRound, c2c_r23t, c2c_r23p, c2c_r23c]

  decide

theorem c2c_perm : keccak_f1600 keccak_rotc 0x80000000000000000000000000000000000000000000000000000000000000000000000000000000000000000000000000000000000000000000000000000000000000000000000100000000000000000000000000000000000000000000000000000000000000000000000000000000000000000000000000000000000000000000000000000000 = 0x1b9baeed0c118e7955939ba9382c6e8b02bead6e6114e04faccc6439810bce9624c1bf99199ffeaf4294bddda915a2079f4858ffe721d363949b3ae00e0211fe0d8d8392244d6c85ad5e526651c3ed7bfee782133ee2496738e7a29cd7ad9159e5c301135b17b8efa1826322005c38c12689b34c1879f5ce93110a4ddbc701a94b94a286917663949d9769af7f0094285aa5fe2a4a7d642e5b46c78ab0a2c65d6048a2cd79f97581324363491965b6229d0cf97f4726cda2c4991d46662fa77428e5c8e3aa349ef9 := by

  rw [keccak_f1600_expand, c2c_r0, c2c_r1, c2c_r2, c2c_r3, c2c_r4, c2c_r5, c2c_r6, c2c_r7, c2c_r8, c2c_r9, c2c_r10, c2c_r11, c2c_r12, c2c_r13, c2c_r14, c2c_r15, c2c_r16, c2c_r17, c2c_r18, c2c_r19, c2c_r20, c2c_r21, c2c_r22, c2c_r23]

theorem c2c_sq : keccakSqueeze32 0x1b9baeed0c118e7955939ba9382c6e8b02bead6e6114e04faccc6439810bce9624c1bf99199ffeaf4294bddda915a2079f4858ffe721d363949b3ae00e0211fe0d8d8392244d6c85ad5e526651c3ed7bfee782133ee2496738e7a29cd7ad9159e5c301135b17b8efa1826322005c38c12689b34c1879f5ce93110a4ddbc701a94b94a286917663949d9769af7f0094285aa5fe2a4a7d642e5b46c78ab0a2c65d6048a2cd79f97581324363491965b6229d0cf97f4726cda2c4991d46662fa77428e5c8e3aa349ef9 = [249, 158, 52, 170, 227, 200, 229, 40, 116, 167, 47, 102, 70, 29, 153, 196, 162, 205, 38, 71, 127, 249, 12, 157, 34, 182, 101, 25, 73, 99, 67, 50] := by decide

theorem c2c_value : keccak256_64bytes [0, 0, 0, 0, 0, 0, 0, 0, 0, 0, 0, 0, 0, 0, 0, 0, 0, 0, 0, 0, 0, 0, 0, 0, 0, 0, 0, 0, 0, 0, 0, 0, 0, 0, 0, 0, 0, 0, 0, 0, 0, 0, 0, 0, 0, 0, 0, 0, 0, 0, 0, 0, 0, 0, 0, 0, 0, 0, 0, 0, 0, 0, 0, 0] = [249, 158, 52, 170, 227, 200, 229, 40, 116, 167, 47, 102, 70, 29, 153, 196, 162, 205, 38, 71, 127, 249, 12, 157, 34, 182, 101, 25, 73, 99, 67, 50] := by

  simp only [keccak256_64bytes, keccak256_64bytesWith, c2c_abs, c2c_perm, c2c_sq]

theorem c2s_abs : keccak64AbsorbState [0, 0, 0, 0, 0, 0, 0, 0, 0, 0, 0, 0, 0, 0, 0, 0, 0, 0, 0, 0, 0, 0, 0, 0, 0, 0, 0, 0, 0, 0, 0, 0, 0, 0, 0, 0, 0, 0, 0, 0, 0, 0, 0, 0, 0, 0, 0, 0, 0, 0, 0, 0, 0, 0, 0, 0, 0, 0, 0, 0, 0, 0, 0, 0] = 0x80000000000000000000000000000000000000000000000000000000000000000000000000000000000000000000000000000000000000000000000000000000000000000000000100000000000000000000000000000000000000000000000000000000000000000000000000000000000000000000000000000000000000000000000000000000 := by decide

theorem c2s_r0t : keccakTheta 0x80000000000000000000000000000000000000000000000000000000000000000000000000000000000000000000000000000000000000000000000000000000000000000000000100000000000000000000000000000000000000000000000000000000000000000000000000000000000000000000000000000000000000000000000000000000 = 0x1000000000000000080000000000000020000000000000000000000000000000100000000000000010000000000000000800000000000000280000000000000000000000000000001000000000000000100000000000000008000000000000002000000000000000000000000000000010000000000000001000000000000000180000000000000020000000000000000000000000000000100000000000000010000000000000000800000000000000200000000000000000000000000000001 := by decide

theorem c2s_r0p : keccakRhoPi keccak_rotc_std 0x1000000000000000080000000000000020000000000000000000000000000000100000000000000010000000000000000800000000000000280000000000000000000000000000001000000000000000100000000000000008000000000000002000000000000000000000000000000010000000000000001000000000000000180000000000000020000000000000000000000000000000100000000000000010000000000000000800000000000000200000000000000000000000000000001 = 0x2000000000000000080000000000080000000000000a0000000000000000000000000000000000000000001400000000000000000000000001000000000000000000800000000000000000400000000000000000100000000000000000000000000000000a000000000000000005000000000000000000010000000000000000000000000080000000000100000000000000000000000000000000040000000000000000000000014000000000000000000000000000000000000000001 := by decide

theorem c2s_r0c : keccakChi 0x2000000000000000080000000000080000000000000a0000000000000000000000000000000000000000001400000000000000000000000001000000000000000000800000000000000000400000000000000000100000000000000000000000000000000a000000000000000005000000000000000000010000000000000000000000000080000000000100000000000000000000000000000000040000000000000000000000014000000000000000000000000000000000000000001 = 0x80000000000000a00002000000000000000080000000000080020000000000a0000080000000000000001000000000000000000801400000000000000000000000001000014000000000000800000000000000000400a00000000000000100000000000004000000000000000001a000000000000000005000000000100000000010000000000050000000000000080000100000100000000000000000000800000000000040000000000000000001000014000000400000000000000000000000140000000001 := by decide

theorem c2s_r0 : keccakRound keccak_rotc_std 0x80000000000000000000000000000000000000000000000000000000000000000000000000000000000000000000000000000000000000000000000000000000000000000000000100000000000000000000000000000000000000000000000000000000000000000000000000000000000000000000000000000000000000000000000000000000 0 = 0x80000000000000a00002000000000000000080000000000080020000000000a0000080000000000000001000000000000000000801400000000000000000000000001000014000000000000800000000000000000400a00000000000000100000000000004000000000000000001a000000000000000005000000000100000000010000000000050000000000000080000100000100000000000000000000800000000000040000000000000000001000014000000400000000000000000000000140000000000 := by

  simp only [keccakRound, c2s_r0t, c2s_r0p, c2s_r0c]

  decide

theorem c2s_r1t : keccakTheta 0x80000000000000a00002000000000000000080000000000080020000000000a0000080000000000000001000000000000000000801400000000000000000000000001000014000000000000800000000000000000400a00000000000000100000000000004000000000000000001a000000000000000005000000000100000000010000000000050000000000000080000100000100000000000000000000800000000000040000000000000000001000014000000400000000000000000000000140000000000 = 0xe0803b0018014110510016a0002cc148408036901013c3a300803f8008088018f18024b00036c3e0e0003b1018014110f10014a0082d8148408036101013c3a300003d900809c018518024300836c3e0e0003b00180541b0f10014a0002cc048408036101017c3a300003d80080881b8518024300036c3e0b0003b0018114110f10004a0002cc148108036101013c3ab00002d8008188018518024300036c3e8e0003b0018010110f10014a0002cc14940802210101383a300003d8008088018518030300036c3e0 := by decide

theorem c2s_r1p : keccakRhoPi keccak_rotc_std 0xe0803b0018014110510016a0002cc148408036901013c3a300803f8008088018f18024b00036c3e0e0003b1018014110f10014a0082d8148408036101013c3a300003d900809c018518024300836c3e0e0003b00180541b0f10014a0002cc048408036101017c3a300003d80080881b8518024300036c3e0b0003b0018114110f10004a0002cc148108036101013c3ab00002d8008188018518024300036c3e8e0003b0018010110f10014a0002cc14940802210101383a300003d8008088018518030300036c3e0 = 0x200fe00202200606d87c0a30048601002a0d870001d800ca478800250001660d02008840404e0e848510016a0002cc11b080809e1d1a04000f600202206e000036c3e851802430000c00808870001d892c000db0f83c600003b1018014110e04000598091e20029200d840404f0eac400007b0010110030681006d2020278743803000007b201018c01218001b61f02b0018114110b00030002cc149f10014a0ec0060050443820940105b0291e2002be1d1a0401b080808801800002d80081518030300036c3e0 := by decide

theorem c2s_r1c : keccakChi 0x200fe00202200606d87c0a30048601002a0d870001d800ca478800250001660d02008840404e0e848510016a0002cc11b080809e1d1a04000f600202206e000036c3e851802430000c00808870001d892c000db0f83c600003b1018014110e04000598091e20029200d840404f0eac400007b0010110030681006d2020278743803000007b201018c01218001b61f02b0018114110b00030002cc149f10014a0ec0060050443820940105b0291e2002be1d1a0401b080808801800002d80081518030300036c3e0 = 0x26587e0270221660bda7c027044c809800a0e670203f806cc97f808150407670d2a050f4041960e44b7d3693b8026ec11b880001e6d1a15840a700362206ec811864368cd9d3434000520828a504a1d8b2cd84df0b632cc4003b6b18115110d0d2c059439f60c6292036841c04f1fa044000228081130019d81107d2020978753801c8049aa2000bcc11275201b6677680038114170b00020c02ec949fa41e4a86c18600528c3821c5013580292ce3c2b4dd180451f098a0880185b02ad62083679c2a34011643e0 := by decide

theorem c2s_r1 : keccakRound keccak_rotc_std 0x80000000000000a00002000000000000000080000000000080020000000000a0000080000000000000001000000000000000000801400000000000000000000000001000014000000000000800000000000000000400a00000000000000100000000000004000000000000000001a000000000000000005000000000100000000010000000000050000000000000080000100000100000000000000000000800000000000040000000000000000001000014000000400000000000000000000000140000000000 1 = 0x26587e0270221660bda7c027044c809800a0e670203f806cc97f808150407670d2a050f4041960e44b7d3693b8026ec11b880001e6d1a15840a700362206ec811864368cd9d3434000520828a504a1d8b2cd84df0b632cc4003b6b18115110d0d2c059439f60c6292036841c04f1fa044000228081130019d81107d2020978753801c8049aa2000bcc11275201b6677680038114170b00020c02ec949fa41e4a86c18600528c3821c5013580292ce3c2b4dd180451f098a0880185b02ad62083679c2a340116c362 := by

  simp only [keccakRound, c2s_r1t, c2s_r1p, c2s_r1c]

  decide

theorem c2s_r2t : keccakTheta 0x26587e0270221660bda7c027044c809800a0e670203f806cc97f808150407670d2a050f4041960e44b7d3693b8026ec11b880001e6d1a15840a700362206ec811864368cd9d3434000520828a504a1d8b2cd84df0b632cc4003b6b18115110d0d2c059439f60c6292036841c04f1fa044000228081130019d81107d2020978753801c8049aa2000bcc11275201b6677680038114170b00020c02ec949fa41e4a86c18600528c3821c5013580292ce3c2b4dd180451f098a0880185b02ad62083679c2a340116c362 = 0x8f9551414d18fca255dcdb4deedffde94fa77db11005ca6be4043cda74c2c058a1c67003f6a0abbee2b019d085388403f3f31b6b0c42dc290fa09bf7123ca686351f8ad7fd51f568733428df57bd6a821b00ab9c3659c606e8407072fbc26da19dc7c282af5a8c2e0d4d384720734c2c3366027773aacb4371dc28913f3392b7d07ad36e70317d7a8316bc93318c2d71ad783d4f3389b62a7f64cc636d1dd5102f0ca9436fb6d2e32d7a2eeac3bf9eb3fbda83c561cad2a7a57a39eb0e5496ab14fa0ac3f3af0838 := by decide

theorem c2s_r2p : keccakRhoPi keccak_rotc_std 0x8f9551414d18fca255dcdb4deedffde94fa77db11005ca6be4043cda74c2c058a1c67003f6a0abbee2b019d085388403f3f31b6b0c42dc290fa09bf7123ca686351f8ad7fd51f568733428df57bd6a821b00ab9c3659c606e8407072fbc26da19dc7c282af5a8c2e0d4d384720734c2c3366027773aacb4371dc28913f3392b7d07ad36e70317d7a8316bc93318c2d71ad783d4f3389b62a7f64cc636d1dd5102f0ca9436fb6d2e32d7a2eeac3bf9eb3fbda83c561cad2a7a57a39eb0e5496ab14fa0ac3f3af0838 = 0x9010f369d30b01637ad504e66851beaf2ce3030d8055ce1bbd683d69b73818befef6a0f15872b4a9e955dcdb4deedffd4dfb891e534307d034e11c81cd30b035d1dd5107f64cc6361b7db6971978654ac00fda82aefa8719b019d085388403e2e5f784db43d080e0c5af24cc630b5c604af473d61ca92d5769f4efb62200b94d3ead06a3f15affaa9b3013bb9d565a198913f3392b771dc2ac3bf9eb32d7a2ee545053463f28a3e56d61885b853e7e63d46174ee3e14157a9b62aad783d4f33814fa0ac3f3af0838 := by decide

theorem c2s_r2c : keccakChi 0x9010f369d30b01637ad504e66851beaf2ce3030d8055ce1bbd683d69b73818befef6a0f15872b4a9e955dcdb4deedffd4dfb891e534307d034e11c81cd30b035d1dd5107f64cc6361b7db6971978654ac00fda82aefa8719b019d085388403e2e5f784db43d080e0c5af24cc630b5c604af473d61ca92d5769f4efb62200b94d3ead06a3f15affaa9b3013bb9d565a198913f3392b771dc2ac3bf9eb32d7a2ee545053463f28a3e56d61885b853e7e63d46174ee3e14157a9b62aad783d4f33814fa0ac3f3af0838 = 0x9118ee61740309751433047660210a27ace3f004135fcf5bef7c398bdf38281afe75a2f5583772a829d59ddbabea5dc95fd3ab1a435327d294e54840c19c681898c7d019e40fc1f63f5dba171048554b4504de8acdf8d739bae9f1d128852ba4a5f18ed9c5aa04f9d5a774c85b0f5f626aa4f3c51c79add768f4eda62b20a44dbaa616eae18dfd08da60faaf9f565a5cad9ef7394b7fb860be1bf969a6d7e0f7df50f3523f7850e56dcb80da45b9767bc47127ea041494feb26222c602fe993950fb5eebcfaf0c7a := by decide

theorem c2s_r2 : keccakRound keccak_rotc_std 0x26587e0270221660bda7c027044c809800a0e670203f806cc97f808150407670d2a050f4041960e44b7d3693b8026ec11b880001e6d1a15840a700362206ec811864368cd9d3434000520828a504a1d8b2cd84df0b632cc4003b6b18115110d0d2c059439f60c6292036841c04f1fa044000228081130019d81107d2020978753801c8049aa2000bcc11275201b6677680038114170b00020c02ec949fa41e4a86c18600528c3821c5013580292ce3c2b4dd180451f098a0880185b02ad62083679c2a340116c362 2 = 0x9118ee61740309751433047660210a27ace3f004135fcf5bef7c398bdf38281afe75a2f5583772a829d59ddbabea5dc95fd3ab1a435327d294e54840c19c681898c7d019e40fc1f63f5dba171048554b4504de8acdf8d739bae9f1d128852ba4a5f18ed9c5aa04f9d5a774c85b0f5f626aa4f3c51c79add768f4eda62b20a44dbaa616eae18dfd08da60faaf9f565a5cad9ef7394b7fb860be1bf969a6d7e0f7df50f3523f7850e56dcb80da45b9767bc47127ea041494feb26222c602fe9939d0fb5eebcfaf8cf0 := by

  simp only [keccakRound, c2s_r2t, c2s_r2p, c2s_r2c]

  decide

theorem c2s_r3t : keccakTheta 0x9118ee61740309751433047660210a27ace3f004135fcf5bef7c398bdf38281afe75a2f5583772a829d59ddbabea5dc95fd3ab1a435327d294e54840c19c681898c7d019e40fc1f63f5dba171048554b4504de8acdf8d739bae9f1d128852ba4a5f18ed9c5aa04f9d5a774c85b0f5f626aa4f3c51c79add768f4eda62b20a44dbaa616eae18dfd08da60faaf9f565a5cad9ef7394b7fb860be1bf969a6d7e0f7df50f3523f7850e56dcb80da45b9767bc47127ea041494feb26222c602fe9939d0fb5eebcfaf8cf0 = 0x3da4bfa6a13d4830030e8826e09889655dca29ba656142c82ddda29ffa101418cfd8807b0d0d2a2a8569cc1c7ed41c8c48ee274ac3eaa49065cc91feb7a2e58b5a664b0dc127fdf40ef0989945720dc9e9b88f4d18c6967cadd47d81a83ca8e654d85767b394896a1706efdc7e2763605b09d14b4943f555c448bc61fe1ee508ad9b9aba61347e4a2b492311e968d7cf6f3f6c2d6e5784628fb6dbe7f3edb87573eca295ea4611a07af60c8ac500f5393558fe54722a196d70c3b9d227d6a53be1567c659a95d472 := by decide

theorem c2s_r3p : keccakRhoPi keccak_rotc_std 0x3da4bfa6a13d4830030e8826e09889655dca29ba656142c82ddda29ffa101418cfd8807b0d0d2a2a8569cc1c7ed41c8c48ee274ac3eaa49065cc91feb7a2e58b5a664b0dc127fdf40ef0989945720dc9e9b88f4d18c6967cadd47d81a83ca8e654d85767b394896a1706efdc7e2763605b09d14b4943f555c448bc61fe1ee508ad9b9aba61347e4a2b492311e968d7cf6f3f6c2d6e5784628fb6dbe7f3edb87573eca295ea4611a07af60c8ac500f5393558fe54722a196d70c3b9d227d6a53be1567c659a95d472 = 0xb7768a7fe8405060e41b921de131328a634b3e74dc47a68c2556cdcd5d309a3f4d563f951c8a865b65030e8826e0988948ff5bd172c5b2e61bbf71f89d8d805c3edb8758fb6dbe7faf52308d039f651401ec3434a8ab3f6269cc1c7ed41c8c8503507951cd5ba8fbd248c47a5a35f3cae18773a44fad4a760bb945374cac2859ffbe8b4cc961b824d84e8a5a4a1faaaac61fe1ee508c448bac500f5397af60c82fe9a84f520c0f69e9587d5492091dc4a44b52a6c2bb3d9c784626f3f6c2d6e5e1567c659a95d472 := by decide

theorem c2s_r3c : keccakChi 0xb7768a7fe8405060e41b921de131328a634b3e74dc47a68c2556cdcd5d309a3f4d563f951c8a865b65030e8826e0988948ff5bd172c5b2e61bbf71f89d8d805c3edb8758fb6dbe7faf52308d039f651401ec3434a8ab3f6269cc1c7ed41c8c8503507951cd5ba8fbd248c47a5a35f3cae18773a44fad4a760bb945374cac2859ffbe8b4cc961b824d84e8a5a4a1faaaac61fe1ee508c448bac500f5397af60c82fe9a84f520c0f69e9587d5492091dc4a44b52a6c2bb3d9c784626f3f6c2d6e5e1567c659a95d472 = 0x97764a37a9704844ac1ba79df5bbb491702f3616d407e6eca1464dc47c008a3d0f5f0da59ccda2db758a89d8de8002e2c2af6bd473dad7f23ebf75f099ad88557e9b8d59992d8cddae76402d071f651413a4b06eb8bb8eea89cf5ffe9318cc9103705951e5f89b99bac4c0544a31f7cee0974aa5cae7424749b6a59b0cac2c5a5bfe810c5a62f8a4d84fce694e93aaf3e1afe0ead1ec548fb41005439dbccae837e9aadd364e0dec294e29741a98cdd6a2ead2ad82bf3fb531560ba3e6c2d6a5655f2c619aacfd6a := by decide

theorem c2s_r3 : keccakRound keccak_rotc_std 0x9118ee61740309751433047660210a27ace3f004135fcf5bef7c398bdf38281afe75a2f5583772a829d59ddbabea5dc95fd3ab1a435327d294e54840c19c681898c7d019e40fc1f63f5dba171048554b4504de8acdf8d739bae9f1d128852ba4a5f18ed9c5aa04f9d5a774c85b0f5f626aa4f3c51c79add768f4eda62b20a44dbaa616eae18dfd08da60faaf9f565a5cad9ef7394b7fb860be1bf969a6d7e0f7df50f3523f7850e56dcb80da45b9767bc47127ea041494feb26222c602fe9939d0fb5eebcfaf8cf0 3 = 0x97764a37a9704844ac1ba79df5bbb491702f3616d407e6eca1464dc47c008a3d0f5f0da59ccda2db758a89d8de8002e2c2af6bd473dad7f23ebf75f099ad88557e9b8d59992d8cddae76402d071f651413a4b06eb8bb8eea89cf5ffe9318cc9103705951e5f89b99bac4c0544a31f7cee0974aa5cae7424749b6a59b0cac2c5a5bfe810c5a62f8a4d84fce694e93aaf3e1afe0ead1ec548fb41005439dbccae837e9aadd364e0dec294e29741a98cdd6a2ead2ad82bf3fb531560ba3e6c2d6a5e55f2c611aac7d6a := by

  simp only [keccakRound, c2s_r3t, c2s_r3p, c2s_r3c]

  decide

theorem c2s_r4t : keccakTheta 0x97764a37a9704844ac1ba79df5bbb491702f3616d407e6eca1464dc47c008a3d0f5f0da59ccda2db758a89d8de8002e2c2af6bd473dad7f23ebf75f099ad88557e9b8d59992d8cddae76402d071f651413a4b06eb8bb8eea89cf5ffe9318cc9103705951e5f89b99bac4c0544a31f7cee0974aa5cae7424749b6a59b0cac2c5a5bfe810c5a62f8a4d84fce694e93aaf3e1afe0ead1ec548fb41005439dbccae837e9aadd364e0dec294e29741a98cdd6a2ead2ad82bf3fb531560ba3e6c2d6a5e55f2c611aac7d6a = 0x235f2de750b9b6d0855058617a961f02ee59aa08e732a0e9df3d6f2d62d978fbeb99a6635900a128c1a3ee082749fc76ebe49428fcf77c61a0c9e9eeaa98ce5000e0afb087f47e1b4ab0ebebc2d266e7a78dd7be4172707ea084a0021c3567029d06c54fd6cddd9cc4bfe2bd54e805080451e1630f2a41b4fd9fc24bf565d2ce72b57ef0d54f5337463952777da6ecf69fd4c203cf35a64950d6ae855871c91b83c0cd0dcf87f3780005d68895b566453c9c4eb3b18a79b04f2d294af81b2463019987a7df617e99 := by decide

theorem c2s_r4p : keccakRhoPi keccak_rotc_std 0x235f2de750b9b6d0855058617a961f02ee59aa08e732a0e9df3d6f2d62d978fbeb99a6635900a128c1a3ee082749fc76ebe49428fcf77c61a0c9e9eeaa98ce5000e0afb087f47e1b4ab0ebebc2d266e7a78dd7be4172707ea084a0021c3567029d06c54fd6cddd9cc4bfe2bd54e805080451e1630f2a41b4fd9fc24bf565d2ce72b57ef0d54f5337463952777da6ecf69fd4c203cf35a64950d6ae855871c91b83c0cd0dcf87f3780005d68895b566453c9c4eb3b18a79b04f2d294af81b2463019987a7df617e99 = 0x7cf5bcb58b65e3efa4cdce9561d7d785b9383f53c6ebdf209bb95abf786aa7a90f2713acec629e6c02855058617a961ff4f7554c67285064ff8af553a0142312871c91b50d6ae8556e7c3f9bc41e0668998d640284a3ae66a3ee082749fc76c104386ace054109408e549ddf69bb3d919e5a5295f03648c63dcb35411ce6541d8fc3601c15f610fe228f0b1879520da024bf565d2cefd9fc895b566450005d68cb79d42e6db408d7851f9eef8c3d7c926eece4e8362a7eb65a6499fd4c203cf3019987a7df617e99 := by decide

theorem c2s_r4c : keccakChi 0x7cf5bcb58b65e3efa4cdce9561d7d785b9383f53c6ebdf209bb95abf786aa7a90f2713acec629e6c02855058617a961ff4f7554c67285064ff8af553a0142312871c91b50d6ae8556e7c3f9bc41e0668998d640284a3ae66a3ee082749fc76c104386ace054109408e549ddf69bb3d919e5a5295f03648c63dcb35411ce6541d8fc3601c15f610fe228f0b1879520da024bf565d2cefd9fc895b566450005d68cb79d42e6db408d7851f9eef8c3d7c926eece4e8362a7eb65a6499fd4c203cf3019987a7df617e99 = 0xec6df4a69b6dc26ea7cfcd9d05d5cb85e1080f734ccbff4a9f7c9a3b597ea72c2f2736ec6ae3c66c8385d07c681a7e0a988f7acfe32c5004fd8af543a046a509876991b94a42b83116fe5bd9640a056a9989e9488d2a9b77a5bc1ab239e836411c390ece814281662d929dfe21074b109e723095f4764886196f35583009d4890fd3223855f6199e12871e59715249a1a9ff3659284bc9a28b5b5f6401105968911dcc766db408b5859f9d6e1e7c0a9a248ca4e857aa7ef3db7783fac4353cf32511e3a7ed6b3c9d := by decide

theorem c2s_r4 : keccakRound keccak_rotc_std 0x97764a37a9704844ac1ba79df5bbb491702f3616d407e6eca1464dc47c008a3d0f5f0da59ccda2db758a89d8de8002e2c2af6bd473dad7f23ebf75f099ad88557e9b8d59992d8cddae76402d071f651413a4b06eb8bb8eea89cf5ffe9318cc9103705951e5f89b99bac4c0544a31f7cee0974aa5cae7424749b6a59b0cac2c5a5bfe810c5a62f8a4d84fce694e93aaf3e1afe0ead1ec548fb41005439dbccae837e9aadd364e0dec294e29741a98cdd6a2ead2ad82bf3fb531560ba3e6c2d6a5e55f2c611aac7d6a 4 = 0xec6df4a69b6dc26ea7cfcd9d05d5cb85e1080f734ccbff4a9f7c9a3b597ea72c2f2736ec6ae3c66c8385d07c681a7e0a988f7acfe32c5004fd8af543a046a509876991b94a42b83116fe5bd9640a056a9989e9488d2a9b77a5bc1ab239e836411c390ece814281662d929dfe21074b109e723095f4764886196f35583009d4890fd3223855f6199e12871e59715249a1a9ff3659284bc9a28b5b5f6401105968911dcc766db408b5859f9d6e1e7c0a9a248ca4e857aa7ef3db7783fac4353cf32511e3a7ed6bbc16 := by

  simp only [keccakRound, c2s_r4t, c2s_r4p, c2s_r4c]

  decide

theorem c2s_r5t : keccakTheta 0xec6df4a69b6dc26ea7cfcd9d05d5cb85e1080f734ccbff4a9f7c9a3b597ea72c2f2736ec6ae3c66c8385d07c681a7e0a988f7acfe32c5004fd8af543a046a509876991b94a42b83116fe5bd9640a056a9989e9488d2a9b77a5bc1ab239e836411c390ece814281662d929dfe21074b109e723095f4764886196f35583009d4890fd3223855f6199e12871e59715249a1a9ff3659284bc9a28b5b5f6401105968911dcc766db408b5859f9d6e1e7c0a9a248ca4e857aa7ef3db7783fac4353cf32511e3a7ed6bbc16 = 0xef1e24d6223ea1566d59eaaa0923d1ac876709c1bbb9239efbfde7c6d9f5113cdf2a45eff5887ffb80f6000cd1491d3252195df8efda4a2d9be5f3f1573479dde3e8ec44cac90e21e6f328dafb61bcfd9afa39383479f84f6f2a3d85351e2c687a56087c76305db24913e003a18cfd006e7f43966b1df1111a1ce528895ab7b1c545050f590003b774e818eb86209575cd7e4ba4a8c07fb27b562c679e7be0ff926e1c06d4e76b8d4f09ba59128a10b342e3a25aa0d8a227bff6fe0744be8ae3d51c90a472000581 := by decide

theorem c2s_r5p : keccakRhoPi keccak_rotc_std 0xef1e24d6223ea1566d59eaaa0923d1ac876709c1bbb9239efbfde7c6d9f5113cdf2a45eff5887ffb80f6000cd1491d3252195df8efda4a2d9be5f3f1573479dde3e8ec44cac90e21e6f328dafb61bcfd9afa39383479f84f6f2a3d85351e2c687a56087c76305db24913e003a18cfd006e7f43966b1df1111a1ce528895ab7b1c545050f590003b774e818eb86209575cd7e4ba4a8c07fb27b562c679e7be0ff926e1c06d4e76b8d4f09ba59128a10b342e3a25aa0d8a227bff6fe0744be8ae3d51c90a472000581 = 0xeff79f1b67d444f3c379fbcde651b5f63cfc27cd7d1c9c1adbe2a28287ac8001d0b8e896a8362889ac6d59eaaa0923d1f9f8ab9a3ceecdf24f800e8633f40124e7be0ff7b562c67936a73b5c6c9370e017bfd621ffef7ca9f6000cd1491d32800a6a3c58d0de547b3a063ae188255d5d7fedfc0e897d15c7d0ece1383777247321c43c7d1d88995973fa1cb358ef888b528895ab7b11a1ce9128a10b34f09ba58935888fa855bbc7bf1dfb4945aa432b82ed93d2b043e3b107fb2cd7e4ba4a8cd51c90a472000581 := by decide

theorem c2s_r5c : keccakChi 0xeff79f1b67d444f3c379fbcde651b5f63cfc27cd7d1c9c1adbe2a28287ac8001d0b8e896a8362889ac6d59eaaa0923d1f9f8ab9a3ceecdf24f800e8633f40124e7be0ff7b562c67936a73b5c6c9370e017bfd621ffef7ca9f6000cd1491d32800a6a3c58d0de547b3a063ae188255d5d7fedfc0e897d15c7d0ece1383777247321c43c7d1d88995973fa1cb358ef888b528895ab7b11a1ce9128a10b34f09ba58935888fa855bbc7bf1dfb4945aa432b82ed93d2b043e3b107fb2cd7e4ba4a8cd51c90a472000581 = 0xe4b59d1b605cc4f3d3719b496e739dfe107a23df7c98dc1b18e37a8205eda1e5f4a4eddbd02634936d755d493b69a5c8eb7a898e787c9dd24b855ee6b1f5232557c6aeefb9680aab3ea73b5c6e0771e417bdd4c0ffef34b19e4024df490d33c60bd5ee78663c1852ce063a6081247fdd7f85f816d9a715e5926cf5987c76043920c43c7e1d0802dda3d2ddb37a98aca9528cb5e77e11b09eb05aa91b341e93a48bd6a4dc2ceff1cbeb15eb6917aa472b82cd935418165b753aeb44dea1124a86551803a46241a4b0 := by decide

theorem c2s_r5 : keccakRound keccak_rotc_std 0xec6df4a69b6dc26ea7cfcd9d05d5cb85e1080f734ccbff4a9f7c9a3b597ea72c2f2736ec6ae3c66c8385d07c681a7e0a988f7acfe32c5004fd8af543a046a509876991b94a42b83116fe5bd9640a056a9989e9488d2a9b77a5bc1ab239e836411c390ece814281662d929dfe21074b109e723095f4764886196f35583009d4890fd3223855f6199e12871e59715249a1a9ff3659284bc9a28b5b5f6401105968911dcc766db408b5859f9d6e1e7c0a9a248ca4e857aa7ef3db7783fac4353cf32511e3a7ed6bbc16 5 = 0xe4b59d1b605cc4f3d3719b496e739dfe107a23df7c98dc1b18e37a8205eda1e5f4a4eddbd02634936d755d493b69a5c8eb7a898e787c9dd24b855ee6b1f5232557c6aeefb9680aab3ea73b5c6e0771e417bdd4c0ffef34b19e4024df490d33c60bd5ee78663c1852ce063a6081247fdd7f85f816d9a715e5926cf5987c76043920c43c7e1d0802dda3d2ddb37a98aca9528cb5e77e11b09eb05aa91b341e93a48bd6a4dc2ceff1cbeb15eb6917aa472b82cd935418165b753aeb44dea1124a86551803a4e241a4b1 := by

  simp only [keccakRound, c2s_r5t, c2s_r5p, c2s_r5c]

  decide

theorem c2s_r6t : keccakTheta 0xe4b59d1b605cc4f3d3719b496e739dfe107a23df7c98dc1b18e37a8205eda1e5f4a4eddbd02634936d755d493b69a5c8eb7a898e787c9dd24b855ee6b1f5232557c6aeefb9680aab3ea73b5c6e0771e417bdd4c0ffef34b19e4024df490d33c60bd5ee78663c1852ce063a6081247fdd7f85f816d9a715e5926cf5987c76043920c43c7e1d0802dda3d2ddb37a98aca9528cb5e77e11b09eb05aa91b341e93a48bd6a4dc2ceff1cbeb15eb6917aa472b82cd935418165b753aeb44dea1124a86551803a4e241a4b1 = 0x28a67449564e7de1adcacd424f2bcdbf220bfef5357a1ea8aa4c45e1278ae702a1eb9664e121c9fca166b41b0d7b1cda95c1df855924cd9379f483ccf817e196e569918c9b0f4c4c6be840e35f008c8bdbae3d92c9fd8da3e0fb72d46855638739a433522fdedae17ca90503a343393a2aca83a9e8a0e88a5e7f1cca4a64bd2b5e7f6a753c50529c91a30099337a6e1ae0238a845c76f679e515d2a405196ecb47c54d8e1afd48d995aebd6236f2176ab0bc4e7e51f499c688447bbd83750c610057781bd34659de := by decide

theorem c2s_r6p : keccakRhoPi keccak_rotc_std 0x28a67449564e7de1adcacd424f2bcdbf220bfef5357a1ea8aa4c45e1278ae702a1eb9664e121c9fca166b41b0d7b1cda95c1df855924cd9379f483ccf817e196e569918c9b0f4c4c6be840e35f008c8bdbae3d92c9fd8da3e0fb72d46855638739a433522fdedae17ca90503a343393a2aca83a9e8a0e88a5e7f1cca4a64bd2b5e7f6a753c50529c91a30099337a6e1ae0238a845c76f679e515d2a405196ecb47c54d8e1afd48d995aebd6236f2176ab0bc4e7e51f499c688447bbd83750c610057781bd34659de = 0xa93117849e2b9c0a011916d7d081c6befec6d1edd71ec9644e2f3fb53a9e2829ac2f139f947d2671bfadcacd424f2bcd41e67c0bf0cb3cfaa4140e8d0ce4e9f25196ecbe515d2a4070d7ea46ca3e2a6c5993848727f287ae66b41b0d7b1cdaa1a8d0aac70fc1f6e568c0264cde9b86a41088f77b06ea18c304417fdea6af43d5e9899cad3231936156541d4f45074451cca4a64bd2b5e7f1236f2176a95aebd69d1255939f784a29f0ab2499b272b83bf6d709cd219a917e6f679e0238a845c70057781bd34659de := by decide

theorem c2s_r6c : keccakChi 0xa93117849e2b9c0a011916d7d081c6befec6d1edd71ec9644e2f3fb53a9e2829ac2f139f947d2671bfadcacd424f2bcd41e67c0bf0cb3cfaa4140e8d0ce4e9f25196ecbe515d2a4070d7ea46ca3e2a6c5993848727f287ae66b41b0d7b1cdaa1a8d0aac70fc1f6e568c0264cde9b86a41088f77b06ea18c304417fdea6af43d5e9899cad3231936156541d4f45074451cca4a64bd2b5e7f1236f2176a95aebd69d1255939f784a29f0ab2499b272b83bf6d709cd219a917e6f679e0238a845c70057781bd34659de = 0xeb313ba4b4a99402051716ccd0d5e4cf56e6d0edd934d1644f3639a73a1f2eb31cefd3d7517de735beadce75530e2bcd01b45c0978fb3cda1a1d8c490ee0eaf710749cbca1563e48d4d7e847c69eebde31d38483ffe3018a66bc68757b14c2e0b1d32e450b23f3eb2ee43744ae878ea490987ff807aa6882c8c1f9d7f40a47f4caa79c8d3b613b6352147e1dc18904c5652d26ebe08574d1313f3872ac58ebd6f232d393b7d04e28f0ee0c91f274a9edfbc758cf2c92d37e6f4fba12aac86dc690c779d6d254c9e6 := by decide

theorem c2s_r6 : keccakRound keccak_rotc_std 0xe4b59d1b605cc4f3d3719b496e739dfe107a23df7c98dc1b18e37a8205eda1e5f4a4eddbd02634936d755d493b69a5c8eb7a898e787c9dd24b855ee6b1f5232557c6aeefb9680aab3ea73b5c6e0771e417bdd4c0ffef34b19e4024df490d33c60bd5ee78663c1852ce063a6081247fdd7f85f816d9a715e5926cf5987c76043920c43c7e1d0802dda3d2ddb37a98aca9528cb5e77e11b09eb05aa91b341e93a48bd6a4dc2ceff1cbeb15eb6917aa472b82cd935418165b753aeb44dea1124a86551803a4e241a4b1 6 = 0xeb313ba4b4a99402051716ccd0d5e4cf56e6d0edd934d1644f3639a73a1f2eb31cefd3d7517de735beadce75530e2bcd01b45c0978fb3cda1a1d8c490ee0eaf710749cbca1563e48d4d7e847c69eebde31d38483ffe3018a66bc68757b14c2e0b1d32e450b23f3eb2ee43744ae878ea490987ff807aa6882c8c1f9d7f40a47f4caa79c8d3b613b6352147e1dc18904c5652d26ebe08574d1313f3872ac58ebd6f232d393b7d04e28f0ee0c91f274a9edfbc758cf2c92d37e6f4fba12aac86dc610c779d652544967 := by

  simp only [keccakRound, c2s_r6t, c2s_r6p, c2s_r6c]

  decide

theorem c2s_r7t : keccakTheta 0xeb313ba4b4a99402051716ccd0d5e4cf56e6d0edd934d1644f3639a73a1f2eb31cefd3d7517de735beadce75530e2bcd01b45c0978fb3cda1a1d8c490ee0eaf710749cbca1563e48d4d7e847c69eebde31d38483ffe3018a66bc68757b14c2e0b1d32e450b23f3eb2ee43744ae878ea490987ff807aa6882c8c1f9d7f40a47f4caa79c8d3b613b6352147e1dc18904c5652d26ebe08574d1313f3872ac58ebd6f232d393b7d04e28f0ee0c91f274a9edfbc758cf2c92d37e6f4fba12aac86dc610c779d652544967 = 0x41d78290720d91c9ec94f4d35604943e9d8fbb1392e846da9f98940d3782d7edb5db958df5e45e3c144b774195aa2e06e837be16fe2a4c2bd174e7b7453c7d49c0da3116accbc7167de3ae1d620752d79b353db7394704418f3f8a6afdc5b2117aba45bb40ff6455fe4a9aeea31a77fa39ac39a2a333d18b622740e332ae423f23247e92bdb04b92997d15e38a55937bb5838b41ed188d8f980b7e2808c152df58d46aa771744be3196dee8e74a5d91c30ae3331674e44c0bfe117b8a7559498b9f33f8cf6cdf06e := by decide

theorem c2s_r7p : keccakRhoPi keccak_rotc_std 0x41d78290720d91c9ec94f4d35604943e9d8fbb1392e846da9f98940d3782d7edb5db958df5e45e3c144b774195aa2e06e837be16fe2a4c2bd174e7b7453c7d49c0da3116accbc7167de3ae1d620752d79b353db7394704418f3f8a6afdc5b2117aba45bb40ff6455fe4a9aeea31a77fa39ac39a2a333d18b622740e332ae423f23247e92bdb04b92997d15e38a55937bb5838b41ed188d8f980b7e2808c152df58d46aa771744be3196dee8e74a5d91c30ae3331674e44c0bfe117b8a7559498b9f33f8cf6cdf06e = 0x7e625034de0b5fb60ea5aefbc75c3ac4a38220cd9a9edb9cc911923f495ed8250c2b8ccc59d391303eec94f4d356049473dba29e3ea4e8ba2a6bba8c69dfebf98c152df980b7e2803b8ba25f1ac6a3555637d79178f2d76e4b774195aa2e0614d5fb8b64231e7f145f4578e29564dee67fc22f714eab293153b1f762725d08db78e2d81b4622d599cd61cd15199e8c590e332ae423f62274e74a5d91c196dee8e0a41c8364725075c2dfc549857d06f7fb22abd5d22dda0788d8fb5838b41ed1b9f33f8cf6cdf06e := by decide

theorem c2s_r7c : keccakChi 0x7e625034de0b5fb60ea5aefbc75c3ac4a38220cd9a9edb9cc911923f495ed8250c2b8ccc59d391303eec94f4d356049473dba29e3ea4e8ba2a6bba8c69dfebf98c152df980b7e2803b8ba25f1ac6a3555637d79178f2d76e4b774195aa2e0614d5fb8b64231e7f145f4578e29564dee67fc22f714eab293153b1f762725d08db78e2d81b4622d599cd61cd15199e8c590e332ae423f62274e74a5d91c196dee8e0a41c8364725075c2dfc549857d06f7fb22abd5d22dda0788d8fb5838b41ed1b9f33f8cf6cdf06e = 0xbf724207de0717b30eac2233c68cbac4d3c070c9829d9eaec5341c0d0c1ef8652ea9ac0ccb5392a8baf899545367441472d8809536244bfb264faeeca88deffddd852deb9697e28219e1305b738eaa2c56328713e9b601a862b769f5ac272e05c1fb1d6473ceae7e554138731d44dee6ff78ac756cb108215b80d506503d28cfdca8d08ac7a003b9ce70ea7529c3841b3eb13aee65d673f4260a9880d99e52e1e0acdcd36c425ee4db8ce64517f0a6fddb02b357b22f8a078805bf503de41a21cad13f0934c43068 := by decide

theorem c2s_r7 : keccakRound keccak_rotc_std 0xeb313ba4b4a99402051716ccd0d5e4cf56e6d0edd934d1644f3639a73a1f2eb31cefd3d7517de735beadce75530e2bcd01b45c0978fb3cda1a1d8c490ee0eaf710749cbca1563e48d4d7e847c69eebde31d38483ffe3018a66bc68757b14c2e0b1d32e450b23f3eb2ee43744ae878ea490987ff807aa6882c8c1f9d7f40a47f4caa79c8d3b613b6352147e1dc18904c5652d26ebe08574d1313f3872ac58ebd6f232d393b7d04e28f0ee0c91f274a9edfbc758cf2c92d37e6f4fba12aac86dc610c779d652544967 7 = 0xbf724207de0717b30eac2233c68cbac4d3c070c9829d9eaec5341c0d0c1ef8652ea9ac0ccb5392a8baf899545367441472d8809536244bfb264faeeca88deffddd852deb9697e28219e1305b738eaa2c56328713e9b601a862b769f5ac272e05c1fb1d6473ceae7e554138731d44dee6ff78ac756cb108215b80d506503d28cfdca8d08ac7a003b9ce70ea7529c3841b3eb13aee65d673f4260a9880d99e52e1e0acdcd36c425ee4db8ce64517f0a6fddb02b357b22f8a078805bf503de41a214ad13f0934c4b061 := by

  simp only [keccakRound, c2s_r7t, c2s_r7p, c2s_r7c]

  decide

theorem c2s_r8t : keccakTheta 0xbf724207de0717b30eac2233c68cbac4d3c070c9829d9eaec5341c0d0c1ef8652ea9ac0ccb5392a8baf899545367441472d8809536244bfb264faeeca88deffddd852deb9697e28219e1305b738eaa2c56328713e9b601a862b769f5ac272e05c1fb1d6473ceae7e554138731d44dee6ff78ac756cb108215b80d506503d28cfdca8d08ac7a003b9ce70ea7529c3841b3eb13aee65d673f4260a9880d99e52e1e0acdcd36c425ee4db8ce64517f0a6fddb02b357b22f8a078805bf503de41a214ad13f0934c4b061 = 0xef4290cd20b5c986fe82137ab5ec23bc1b4b07db44dcc78623d2bf61b14d882230b4e1ce2c05ed25eac84b9eadd59a2182f6b1dc4544d283eec4d9fe6eccb6d53b638e872bc492c507fc7d9994d8d5a1060255d91704df9d929958bcdf47b77d09706a76b58ff756b3a79b1fa017aea1e165e1b78be777ac0bb007ccae8ff6fa2c86e1c3b4c09ac106fb9d67ef82dd33d8579982d88503b33817d5423ec82d6cb09c0e1992f080d12ba2d70c64903f851389c445746ed32f6ee31c3c80b76a6654cc72cbd392cfec := by decide

theorem c2s_r8p : keccakRhoPi keccak_rotc_std 0xef4290cd20b5c986fe82137ab5ec23bc1b4b07db44dcc78623d2bf61b14d882230b4e1ce2c05ed25eac84b9eadd59a2182f6b1dc4544d283eec4d9fe6eccb6d53b638e872bc492c507fc7d9994d8d5a1060255d91704df9d929958bcdf47b77d09706a76b58ff756b3a79b1fa017aea1e165e1b78be777ac0bb007ccae8ff6fa2c86e1c3b4c09ac106fb9d67ef82dd33d8579982d88503b33817d5423ec82d6cb09c0e1992f080d12ba2d70c64903f851389c445746ed32f6ee31c3c80b76a6654cc72cbd392cfec = 0x8f4afd86c5362088b1ab420ff8fb3329826fce83012aec8b60964370e1da604dc4e271115d1bb4cbbcfe82137ab5ec236cff37665b6af7629e6c7e805eba86ceec82d6c3817d5423cc9784068d84e0708738b017b494c2d3c84b9eadd59a21ea79be8f6efb2532b1bee759fbe0b74cc1ddc63879016ed4ccc36960fb689b98f09258a76c71d0e5780b2f0dbc5f3bbd677ccae8ff6fa0bb00c64903f852ba2d70a433482d7261bbd03b88a89a50705ed67fbab04b8353b5ac503b3d8579982d8854cc72cbd392cfec := by decide

theorem c2s_r8c : keccakChi 0x8f4afd86c5362088b1ab420ff8fb3329826fce83012aec8b60964370e1da604dc4e271115d1bb4cbbcfe82137ab5ec236cff37665b6af7629e6c7e805eba86ceec82d6c3817d5423cc9784068d84e0708738b017b494c2d3c84b9eadd59a21ea79be8f6efb2532b1bee759fbe0b74cc1ddc63879016ed4ccc36960fb689b98f09258a76c71d0e5780b2f0dbc5f3bbd677ccae8ff6fa0bb00c64903f852ba2d70a433482d7261bbd03b88a89a50705ed67fbab04b8353b5ac503b3d8579982d8854cc72cbd392cfec = 0xaf5effe665f6608cf10b421ee0f2a76a8c2f7303042eec0b5116437c190b736d468bfd925d3b38499cfed0d27accf8202cfe3362de6af7320e6cfe917e2f8ecf8c11d7a5803d2503defbac06d30662bca519f1955405cad2908d96c5d4f035e67e8eaf7cdb21f0a03ea6497ae42d4d8b9cdebe7d1a6ee6fcfbeb88fc459b0af09658a46c63f0c0784a0e4d2f5730a5e7ec9a4abf4f60fb18c56c06f842a12917a40045295a699bd06b449a58d1e21afafb89f06ea15214ac503b351529b867da7b4cf28151d15fc8 := by decide

theorem c2s_r8 : keccakRound keccak_rotc_std 0xbf724207de0717b30eac2233c68cbac4d3c070c9829d9eaec5341c0d0c1ef8652ea9ac0ccb5392a8baf899545367441472d8809536244bfb264faeeca88deffddd852deb9697e28219e1305b738eaa2c56328713e9b601a862b769f5ac272e05c1fb1d6473ceae7e554138731d44dee6ff78ac756cb108215b80d506503d28cfdca8d08ac7a003b9ce70ea7529c3841b3eb13aee65d673f4260a9880d99e52e1e0acdcd36c425ee4db8ce64517f0a6fddb02b357b22f8a078805bf503de41a214ad13f0934c4b061 8 = 0xaf5effe665f6608cf10b421ee0f2a76a8c2f7303042eec0b5116437c190b736d468bfd925d3b38499cfed0d27accf8202cfe3362de6af7320e6cfe917e2f8ecf8c11d7a5803d2503defbac06d30662bca519f1955405cad2908d96c5d4f035e67e8eaf7cdb21f0a03ea6497ae42d4d8b9cdebe7d1a6ee6fcfbeb88fc459b0af09658a46c63f0c0784a0e4d2f5730a5e7ec9a4abf4f60fb18c56c06f842a12917a40045295a699bd06b449a58d1e21afafb89f06ea15214ac503b351529b867da7b4cf28151d15f42 := by

  simp only [keccakRound, c2s_r8t, c2s_r8p, c2s_r8c]

  decide

theorem c2s_r9t : keccakTheta 0xaf5effe665f6608cf10b421ee0f2a76a8c2f7303042eec0b5116437c190b736d468bfd925d3b38499cfed0d27accf8202cfe3362de6af7320e6cfe917e2f8ecf8c11d7a5803d2503defbac06d30662bca519f1955405cad2908d96c5d4f035e67e8eaf7cdb21f0a03ea6497ae42d4d8b9cdebe7d1a6ee6fcfbeb88fc459b0af09658a46c63f0c0784a0e4d2f5730a5e7ec9a4abf4f60fb18c56c06f842a12917a40045295a699bd06b449a58d1e21afafb89f06ea15214ac503b351529b867da7b4cf28151d15f42 = 0x6a26114a33cb4b092ee5fb591e2b02f8b3e66210af181555710d67b230acff6f31d8aaf43e71f55959863e7e2cf1d3a5f3108a2520b352a031a5ef82d5197791ac0af36ba99aa901a9a8fb60b04cafac60611f390238e1574f632f822a2990744147be6f701709fe1ebd6db4cd8ac189eb8de91b79242bec3e93665013a6217549b61d2b9d2965ea75c75c3cfc065cb9cc816e7166c7771ab23f519e21ebe4076178ab850c54b055b4aa231f2f3bbf68c440e17d0a64edf2702011db001febd80c1fa5e7329b9252 := by decide

theorem c2s_r9p : keccakRhoPi keccak_rotc_std 0x6a26114a33cb4b092ee5fb591e2b02f8b3e66210af181555710d67b230acff6f31d8aaf43e71f55959863e7e2cf1d3a5f3108a2520b352a031a5ef82d5197791ac0af36ba99aa901a9a8fb60b04cafac60611f390238e1574f632f822a2990744147be6f701709fe1ebd6db4cd8ac189eb8de91b79242bec3e93665013a6217549b61d2b9d2965ea75c75c3cfc065cb9cc816e7166c7771ab23f519e21ebe4076178ab850c54b055b4aa231f2f3bbf68c440e17d0a64edf2702011db001febd80c1fa5e7329b9252 = 0xc4359ec8c2b3fdbd995f595351f6c1601c70abb0308f9c81f524db0e95ce94b2b110385f42993b7cf82ee5fb591e2b02f7c16a8cbbc898d2f5b6d3362b06247a1ebe407b23f519e22862a582ab0bc55cabd0f9c7d564c762863e7e2cf1d3a55904545320e89ec65f71d70f3f01972e5de04023b6003fd7b0b67ccc4215e302aa552035815e6d75335c6f48dbc9215f6765013a621753e936f2f3bbf68b4aa23184528cf2d2c25a8944a4166a541e6211b84ff20a3df37b807771acc816e7166c0c1fa5e7329b9252 := by decide

theorem c2s_r9c : keccakChi 0xc4359ec8c2b3fdbd995f595351f6c1601c70abb0308f9c81f524db0e95ce94b2b110385f42993b7cf82ee5fb591e2b02f7c16a8cbbc898d2f5b6d3362b06247a1ebe407b23f519e22862a582ab0bc55cabd0f9c7d564c762863e7e2cf1d3a55904545320e89ec65f71d70f3f01972e5de04023b6003fd7b0b67ccc4215e302aa552035815e6d75335c6f48dbc9215f6765013a621753e936f2f3bbf68b4aa23184528cf2d2c25a8944a4166a541e6211b84ff20a3df37b807771acc816e7166c0c1fa5e7329b9252 = 0x80115dc857f5793fa85f794451fec32058502d38b28ea01c742b8b4dd4bed5d2b94018ef6298337deeb2a58259ea33a0f7816a8c19c95c8efd9856456b10077a1cff68f3b33d8162c9623686a309e144ba47f5ced4e4ef2fc63e7c1cf1c8b5c92d94d2e3ecba847df3fd233310d60f5de44073b6e83717b2b37ccc4201f24bac15a30635d465d522fe338099c8a35def64010f62011fc926ea9dfb6f436ab470f73284fad6a65ea54ca9376f7407e243381d7a9abf33630833d1a8a856eb167d8411f7e51b8bfbd2 := by decide

theorem c2s_r9 : keccakRound keccak_rotc_std 0xaf5effe665f6608cf10b421ee0f2a76a8c2f7303042eec0b5116437c190b736d468bfd925d3b38499cfed0d27accf8202cfe3362de6af7320e6cfe917e2f8ecf8c11d7a5803d2503defbac06d30662bca519f1955405cad2908d96c5d4f035e67e8eaf7cdb21f0a03ea6497ae42d4d8b9cdebe7d1a6ee6fcfbeb88fc459b0af09658a46c63f0c0784a0e4d2f5730a5e7ec9a4abf4f60fb18c56c06f842a12917a40045295a699bd06b449a58d1e21afafb89f06ea15214ac503b351529b867da7b4cf28151d15f42 9 = 0x80115dc857f5793fa85f794451fec32058502d38b28ea01c742b8b4dd4bed5d2b94018ef6298337deeb2a58259ea33a0f7816a8c19c95c8efd9856456b10077a1cff68f3b33d8162c9623686a309e144ba47f5ced4e4ef2fc63e7c1cf1c8b5c92d94d2e3ecba847df3fd233310d60f5de44073b6e83717b2b37ccc4201f24bac15a30635d465d522fe338099c8a35def64010f62011fc926ea9dfb6f436ab470f73284fad6a65ea54ca9376f7407e243381d7a9abf33630833d1a8a856eb167d8411f7e51b8bfb5a := by

  simp only [keccakRound, c2s_r9t, c2s_r9p, c2s_r9c]

  decide

theorem c2s_r10t : keccakTheta 0x80115dc857f5793fa85f794451fec32058502d38b28ea01c742b8b4dd4bed5d2b94018ef6298337deeb2a58259ea33a0f7816a8c19c95c8efd9856456b10077a1cff68f3b33d8162c9623686a309e144ba47f5ced4e4ef2fc63e7c1cf1c8b5c92d94d2e3ecba847df3fd233310d60f5de44073b6e83717b2b37ccc4201f24bac15a30635d465d522fe338099c8a35def64010f62011fc926ea9dfb6f436ab470f73284fad6a65ea54ca9376f7407e243381d7a9abf33630833d1a8a856eb167d8411f7e51b8bfb5a = 0xb527a1ecace7717ac779a0a10815bfaf157df763a1151ea712217d222091648bb018935d2e748aa9db8459a6a2f83be598a7b36940222001b0b58c1e788bb9c17af59e9c4712303bc03abd34efe558908f7109ea2ff6e76aa918a5f9a823c94660b908b8ff213ac695f7d55ce4f9be04ed18f804a4dbae66864a3066fae043e97a85dfd08d8ea9adb31e5ac2db38e354020bf90df530787fe3c570dd0f860da4c20478de2db456e0238fee8a2dec9ecc7530a0c1aca8ddb355db5ec7a2c4a7248d497c575767428e := by decide

theorem c2s_r10p : keccakRhoPi keccak_rotc_std 0xb527a1ecace7717ac779a0a10815bfaf157df763a1151ea712217d222091648bb018935d2e748aa9db8459a6a2f83be598a7b36940222001b0b58c1e788bb9c17af59e9c4712303bc03abd34efe558908f7109ea2ff6e76aa918a5f9a823c94660b908b8ff213ac695f7d55ce4f9be04ed18f804a4dbae66864a3066fae043e97a85dfd08d8ea9adb31e5ac2db38e354020bf90df530787fe3c570dd0f860da4c20478de2db456e0238fee8a2dec9ecc7530a0c1aca8ddb355db5ec7a2c4a7248d497c575767428e = 0x4885f4888245922ccab12180757a69dffb73b547b884f517d6bd42efe846c754dd4c28306b2a376cafc779a0a10815bfc60f3c45dce0d85adf557393e6f81257f860da4e3c570dd0f16da2b7061023c64d74b9d22aa6c0628459a6a2f83be5dbf35047928d52314bc796b0b6ce38d52cabb6bd8f45894e48e2afbeec7422a3d446076f5eb3d388e268c7c02526dd7337066fae043e9864a3a2dec9ecc238fee8e87b2b39dc5ead496d280444003314f609d63305c845c7f90787f020bf90df538d497c575767428e := by decide

theorem c2s_r10c : keccakChi 0x4885f4888245922ccab12180757a69dffb73b547b884f517d6bd42efe846c754dd4c28306b2a376cafc779a0a10815bfc60f3c45dce0d85adf557393e6f81257f860da4e3c570dd0f16da2b7061023c64d74b9d22aa6c0628459a6a2f83be5dbf35047928d52314bc796b0b6ce38d52cabb6bd8f45894e48e2afbeec7422a3d446076f5eb3d388e268c7c02526dd7337066fae043e9864a3a2dec9ecc238fee8e87b2b39dc5ead496d280444003314f609d63305c845c7f90787f020bf90df538d497c575767428e = 0x4a34b6470201523c5ff929b01c504c9ffb77614f3a816737d63d426fad3ccf9cf40e9d307baa076fa7c721e8994f19af9627be52daf0fa1af6953233c7f017f2f86ad60a2457c5d8f6788326c4b831c10974b9e2a096514626dba2afbd32ebd3ba745ec28fd6316bc39f1096be1111bc9bf6fa8f44cb6e0be68e98ec48a2a3d746572e5e31cbd4cac86f508562fd5023006f815eaf9aec63ca5e89cdc27dedfceafdab1974ce301868285002031256708985183c14096ef063aff460bfa2cf5585197f5217224226 := by decide

theorem c2s_r10 : keccakRound keccak_rotc_std 0x80115dc857f5793fa85f794451fec32058502d38b28ea01c742b8b4dd4bed5d2b94018ef6298337deeb2a58259ea33a0f7816a8c19c95c8efd9856456b10077a1cff68f3b33d8162c9623686a309e144ba47f5ced4e4ef2fc63e7c1cf1c8b5c92d94d2e3ecba847df3fd233310d60f5de44073b6e83717b2b37ccc4201f24bac15a30635d465d522fe338099c8a35def64010f62011fc926ea9dfb6f436ab470f73284fad6a65ea54ca9376f7407e243381d7a9abf33630833d1a8a856eb167d8411f7e51b8bfb5a 10 = 0x4a34b6470201523c5ff929b01c504c9ffb77614f3a816737d63d426fad3ccf9cf40e9d307baa076fa7c721e8994f19af9627be52daf0fa1af6953233c7f017f2f86ad60a2457c5d8f6788326c4b831c10974b9e2a096514626dba2afbd32ebd3ba745ec28fd6316bc39f1096be1111bc9bf6fa8f44cb6e0be68e98ec48a2a3d746572e5e31cbd4cac86f508562fd5023006f815eaf9aec63ca5e89cdc27dedfceafdab1974ce301868285002031256708985183c14096ef063aff460bfa2cf5585197f529722c22f := by

  simp only [keccakRound, c2s_r10t, c2s_r10p, c2s_r10c]

  decide

theorem c2s_r11t : keccakTheta 0x4a34b6470201523c5ff929b01c504c9ffb77614f3a816737d63d426fad3ccf9cf40e9d307baa076fa7c721e8994f19af9627be52daf0fa1af6953233c7f017f2f86ad60a2457c5d8f6788326c4b831c10974b9e2a096514626dba2afbd32ebd3ba745ec28fd6316bc39f1096be1111bc9bf6fa8f44cb6e0be68e98ec48a2a3d746572e5e31cbd4cac86f508562fd5023006f815eaf9aec63ca5e89cdc27dedfceafdab1974ce301868285002031256708985183c14096ef063aff460bfa2cf5585197f529722c22f = 0x26c0d95b1646633d786d57c7176a21d7f78b06a08f54e020ec02da670b1c461100eb6312329affe8cb334ef48d0828aeb1b3c025d1ca9752fa6955dc722590e5c2554e0282774c55029d7d048d88c9466580d6feb4d16047014fdcd8b608869bb688392d3a03b67cf9a0889e183198316f1304ad0dfb968c8a7af7f05ce592d661c350293af1b982c493376ad728d7343a50195609ba65ee3ebb77ef8b4d157b8609c405608901194fbc2e7508283b3885797fd3a1dce9e759906c68198246d871fc8170de123aa8 := by decide

theorem c2s_r11p : keccakRhoPi keccak_rotc_std 0x26c0d95b1646633d786d57c7176a21d7f78b06a08f54e020ec02da670b1c461100eb6312329affe8cb334ef48d0828aeb1b3c025d1ca9752fa6955dc722590e5c2554e0282774c55029d7d048d88c9466580d6feb4d16047014fdcd8b608869bb688392d3a03b67cf9a0889e183198316f1304ad0dfb968c8a7af7f05ce592d661c350293af1b982c493376ad728d7343a50195609ba65ee3ebb77ef8b4d157b8609c405608901194fbc2e7508283b3885797fd3a1dce9e759906c68198246d871fc8170de123aa8 = 0xb00b699c2c71184711928c053afa091b68b023b2c06b7f5ac130e1a8149d78dce15e5ff4e8773a79d7786d57c7176a21aaee3912c872fd3482227860c660c7e6b4d157b3ebb77ef82b044808cc304e208c48ca6bffa003ad334ef48d0828aecbb16c110d36029fb924cddab5ca35cd31b320d8d033048db01ef160d411ea9c04e98ab84aa9c0504e789825686fdcb4637f05ce592d68a7af508283b384fbc2e73656c59198cf49b004ba3952ea5636781db3e5b441c969d0a65ee3a50195609b71fc8170de123aa8 := by decide

theorem c2s_r11c : keccakChi 0xb00b699c2c71184711928c053afa091b68b023b2c06b7f5ac130e1a8149d78dce15e5ff4e8773a79d7786d57c7176a21aaee3912c872fd3482227860c660c7e6b4d157b3ebb77ef82b044808cc304e208c48ca6bffa003ad334ef48d0828aecbb16c110d36029fb924cddab5ca35cd31b320d8d033048db01ef160d411ea9c04e98ab84aa9c0504e789825686fdcb4637f05ce592d68a7af508283b384fbc2e73656c59198cf49b004ba3952ea5636781db3e5b441c969d0a65ee3a50195609b71fc8170de123aa8 = 0xb02bc99438f958c350c69a65fafc2b23c8b9422ac46a6f1ed0326dad2e0d78ddc9de5de628153d7b43a97ae4e4905af982ea391ac052f934d7323c25c165c5e79c1d56a1e3a546e829266048c870cf268885c84e379143ac006ee41d082c22db3d6c1b6fc1829e9d26cf3e35c21ded732200d9d807069f3831f42c9c38eab90ca9883b692dd112ad6ee965fc7ff63863fe07565bad68e7a3501aa293c66fd2a7b054a714994a09a345123932ac4604702ff7213551402050a656fbe7ab8376b3685d85609e5a33e8 := by decide

theorem c2s_r11 : keccakRound keccak_rotc_std 0x4a34b6470201523c5ff929b01c504c9ffb77614f3a816737d63d426fad3ccf9cf40e9d307baa076fa7c721e8994f19af9627be52daf0fa1af6953233c7f017f2f86ad60a2457c5d8f6788326c4b831c10974b9e2a096514626dba2afbd32ebd3ba745ec28fd6316bc39f1096be1111bc9bf6fa8f44cb6e0be68e98ec48a2a3d746572e5e31cbd4cac86f508562fd5023006f815eaf9aec63ca5e89cdc27dedfceafdab1974ce301868285002031256708985183c14096ef063aff460bfa2cf5585197f529722c22f 11 = 0xb02bc99438f958c350c69a65fafc2b23c8b9422ac46a6f1ed0326dad2e0d78ddc9de5de628153d7b43a97ae4e4905af982ea391ac052f934d7323c25c165c5e79c1d56a1e3a546e829266048c870cf268885c84e379143ac006ee41d082c22db3d6c1b6fc1829e9d26cf3e35c21ded732200d9d807069f3831f42c9c38eab90ca9883b692dd112ad6ee965fc7ff63863fe07565bad68e7a3501aa293c66fd2a7b054a714994a09a345123932ac4604702ff7213551402050a656fbe7ab8376b3685d85601e5a33e2 := by

  simp only [keccakRound, c2s_r11t, c2s_r11p, c2s_r11c]

  decide

theorem c2s_r12t : keccakTheta 0xb02bc99438f958c350c69a65fafc2b23c8b9422ac46a6f1ed0326dad2e0d78ddc9de5de628153d7b43a97ae4e4905af982ea391ac052f934d7323c25c165c5e79c1d56a1e3a546e829266048c870cf268885c84e379143ac006ee41d082c22db3d6c1b6fc1829e9d26cf3e35c21ded732200d9d807069f3831f42c9c38eab90ca9883b692dd112ad6ee965fc7ff63863fe07565bad68e7a3501aa293c66fd2a7b054a714994a09a345123932ac4604702ff7213551402050a656fbe7ab8376b3685d85601e5a33e2 = 0x7b8c0ba7f541a693c6705aa08476e50787b860dcab1fe16aed7fed7bc52dac53561afc5a70f148ee880eb8d72928a4a9145cf9dfbed8371098331ed3ae104b93a150d67708859266b6e2c1f49094bab343220a7dfa29bdfc96d824d876a6ecff726d3999aef710e91b82bee3293d39fdbdc478645fe2eaadfa53eeaff552475c3f3efbac535bdc8921e8470a1083b617c34ad68d4648332dcfde032f9e8ba7327bf3652754f2f7f3d3a4f9f7d2ccca5460f603c33e35ae249b1b7b3140a3a23df79924dc46be4677 := by decide

theorem c2s_r12p : keccakRhoPi keccak_rotc_std 0x7b8c0ba7f541a693c6705aa08476e50787b860dcab1fe16aed7fed7bc52dac53561afc5a70f148ee880eb8d72928a4a9145cf9dfbed8371098331ed3ae104b93a150d67708859266b6e2c1f49094bab343220a7dfa29bdfc96d824d876a6ecff726d3999aef710e91b82bee3293d39fdbdc478645fe2eaadfa53eeaff552475c3f3efbac535bdc8921e8470a1083b617c34ad68d4648332dcfde032f9e8ba7327bf3652754f2f7f3d3a4f9f7d2ccca5460f603c33e35ae249b1b7b3140a3a23df79924dc46be4677 = 0xb5ffb5ef14b6b14f2975676dc583e92114defe2191053efd449f9f7dd629adee183d80f0cf8d6b8907c6705aa08476e58f69d70825c9cc190afb8ca4f4e7f46ee8ba732cfde032f93aa797bf9bdf9b29f169c3c523b9586b0eb8d72928a4a988b0ed4dd9ff2db0497a11c28420ed85c83636f6628147447b50f70c1b9563fc2db24cd42a1acee110ee23c322ff17556deaff552475cfa53e7d2ccca54d3a4f9f02e9fd5069a4dee33bf7db06e2028b9fb8874b9369cccd778332dc34ad68d464f79924dc46be4677 := by decide

theorem c2s_r12c : keccakChi 0xb5ffb5ef14b6b14f2975676dc583e92114defe2191053efd449f9f7dd629adee183d80f0cf8d6b8907c6705aa08476e58f69d70825c9cc190afb8ca4f4e7f46ee8ba732cfde032f93aa797bf9bdf9b29f169c3c523b9586b0eb8d72928a4a988b0ed4dd9ff2db0497a11c28420ed85c83636f6628147447b50f70c1b9563fc2db24cd42a1acee110ee23c322ff17556deaff552475cfa53e7d2ccca54d3a4f9f02e9fd5069a4dee33bf7db06e2028b9fb8874b9369cccd778332dc34ad68d464f79924dc46be4677 = 0xf17daae2049635292175677d0e8aa3a180546ea381312eb36dbe9e3192ab6cee087de0f0ce897998c7de105ac4a45635b74850ad3e9245110a7dacf674e3c68a6dba2024fce83ae838e61b3f9bd85f2fb968c3410311d9eb08aee30ba8e2ad9841ac4d1dfc34e02a740150a4206d8c48b6dafb3b5e47747ad2241d1ba5a65c0d9f44148e52d6e282ae90cb337a364940fab3412c7507052e792c4ea7c72a1fde02cb2570c0e44ee3cee7db8ae4188b8bb88f6fc36068991780424c302f6ad6eccf1c275f063a4f64 := by decide

theorem c2s_r12 : keccakRound keccak_rotc_std 0xb02bc99438f958c350c69a65fafc2b23c8b9422ac46a6f1ed0326dad2e0d78ddc9de5de628153d7b43a97ae4e4905af982ea391ac052f934d7323c25c165c5e79c1d56a1e3a546e829266048c870cf268885c84e379143ac006ee41d082c22db3d6c1b6fc1829e9d26cf3e35c21ded732200d9d807069f3831f42c9c38eab90ca9883b692dd112ad6ee965fc7ff63863fe07565bad68e7a3501aa293c66fd2a7b054a714994a09a345123932ac4604702ff7213551402050a656fbe7ab8376b3685d85601e5a33e2 12 = 0xf17daae2049635292175677d0e8aa3a180546ea381312eb36dbe9e3192ab6cee087de0f0ce897998c7de105ac4a45635b74850ad3e9245110a7dacf674e3c68a6dba2024fce83ae838e61b3f9bd85f2fb968c3410311d9eb08aee30ba8e2ad9841ac4d1dfc34e02a740150a4206d8c48b6dafb3b5e47747ad2241d1ba5a65c0d9f44148e52d6e282ae90cb337a364940fab3412c7507052e792c4ea7c72a1fde02cb2570c0e44ee3cee7db8ae4188b8bb88f6fc36068991780424c302f6ad6eccf1c275f863acfef := by

  simp only [keccakRound, c2s_r12t, c2s_r12p, c2s_r12c]

  decide

theorem c2s_r13t : keccakTheta 0xf17daae2049635292175677d0e8aa3a180546ea381312eb36dbe9e3192ab6cee087de0f0ce897998c7de105ac4a45635b74850ad3e9245110a7dacf674e3c68a6dba2024fce83ae838e61b3f9bd85f2fb968c3410311d9eb08aee30ba8e2ad9841ac4d1dfc34e02a740150a4206d8c48b6dafb3b5e47747ad2241d1ba5a65c0d9f44148e52d6e282ae90cb337a364940fab3412c7507052e792c4ea7c72a1fde02cb2570c0e44ee3cee7db8ae4188b8bb88f6fc36068991780424c302f6ad6eccf1c275f863acfef = 0x5eaf6325beaf12f042a7cfe051f12bd710c0bab0c91a637ce6fba04dffdc5e9b4ab06638406ec299680cd99d7e9d71ecd49af83061e9cd679ae978e53cc88b45e6ff1e58919f089d7a2b9df7153fe42e16ba0a86b928fe326b7c4b96f79925eed138990eb41fade5ff446ed84d1abe3df4177df3d0a0cf7b7df6d4dc1f9f7bd4fc96bc130dad6af43e041f20321d048f71f67f501870375b3be1c86f49cda4dfad19ecb77add693aad357317bb6303fd281bbbd02843d4d80b07724c421de4998dd1a19708dd74ee := by decide

theorem c2s_r13p : keccakRhoPi keccak_rotc_std 0x5eaf6325beaf12f042a7cfe051f12bd710c0bab0c91a637ce6fba04dffdc5e9b4ab06638406ec299680cd99d7e9d71ecd49af83061e9cd679ae978e53cc88b45e6ff1e58919f089d7a2b9df7153fe42e16ba0a86b928fe326b7c4b96f79925eed138990eb41fade5ff446ed84d1abe3df4177df3d0a0cf7b7df6d4dc1f9f7bd4fc96bc130dad6af43e041f20321d048f71f67f501870375b3be1c86f49cda4dfad19ecb77add693aad357317bb6303fd281bbbd02843d4d80b07724c421de4998dd1a19708dd74ee = 0x9bee8137ff717a6f7fc85cf4573bee2a947f190b5d05435c7a7e4b5e0986d6b50a06eef40a10f536d742a7cfe051f12bbc729e6445a2cd7411bb61346af8f7fd9cda4df3be1c86f4bbd6eb49d568cf6598e101bb0a652ac10cd99d7e9d71ec682def324bdcd6f8978107c80c874123cf160ee498843bc9328218175619234c6fe113bcdfe3cb1233a0bbef9e85067bdf4dc1f9f7bd47df6d7bb6303fdad35731d8c96fabc4bc17ab060c3d39acfa935ffd6f2e89c4c875a00375b71f67f501878dd1a19708dd74ee := by decide

theorem c2s_r13c : keccakChi 0x9bee8137ff717a6f7fc85cf4573bee2a947f190b5d05435c7a7e4b5e0986d6b50a06eef40a10f536d742a7cfe051f12bbc729e6445a2cd7411bb61346af8f7fd9cda4df3be1c86f4bbd6eb49d568cf6598e101bb0a652ac10cd99d7e9d71ec682def324bdcd6f8978107c80c874123cf160ee498843bc9328218175619234c6fe113bcdfe3cb1233a0bbef9e85067bdf4dc1f9f7bd47df6d7bb6303fdad35731d8c96fabc4bc17ab060c3d39acfa935ffd6f2e89c4c875a00375b71f67f501878dd1a19708dd74ee = 0xeb96803dfef778ee7fc83234573b6b3a14599808f545531911fe0faa0bbc7a978e07fef55e11f47ed34aa37dca45f1bb94e6d664508ac33052bb40bfcaa9c7f6309ad3b3bb1e8ef4baf7cb4d9588be6c19e009bf0925080c0ad7797e196b2d5abdcf32caded2fa1681174538866027a73ae6d6dbdcad11228659de963c27c42398b59cf6211b0123a2b3ec9e9d2637930cc1e9b6df8edf4ddb8c3637dad377a3daed79a3a39c16aa031cbd2da4bbf31b25ae6c0b84cc71000175a62f4fc783d871dba91788d500ce := by decide

theorem c2s_r13 : keccakRound keccak_rotc_std 0xf17daae2049635292175677d0e8aa3a180546ea381312eb36dbe9e3192ab6cee087de0f0ce897998c7de105ac4a45635b74850ad3e9245110a7dacf674e3c68a6dba2024fce83ae838e61b3f9bd85f2fb968c3410311d9eb08aee30ba8e2ad9841ac4d1dfc34e02a740150a4206d8c48b6dafb3b5e47747ad2241d1ba5a65c0d9f44148e52d6e282ae90cb337a364940fab3412c7507052e792c4ea7c72a1fde02cb2570c0e44ee3cee7db8ae4188b8bb88f6fc36068991780424c302f6ad6eccf1c275f863acfef 13 = 0xeb96803dfef778ee7fc83234573b6b3a14599808f545531911fe0faa0bbc7a978e07fef55e11f47ed34aa37dca45f1bb94e6d664508ac33052bb40bfcaa9c7f6309ad3b3bb1e8ef4baf7cb4d9588be6c19e009bf0925080c0ad7797e196b2d5abdcf32caded2fa1681174538866027a73ae6d6dbdcad11228659de963c27c42398b59cf6211b0123a2b3ec9e9d2637930cc1e9b6df8edf4ddb8c3637dad377a3daed79a3a39c16aa031cbd2da4bbf31b25ae6c0b84cc71000175a62f4fc783d8f1dba91788d50045 := by

  simp only [keccakRound, c2s_r13t, c2s_r13p, c2s_r13c]

  decide

theorem c2s_r14t : keccakTheta 0xeb96803dfef778ee7fc83234573b6b3a14599808f545531911fe0faa0bbc7a978e07fef55e11f47ed34aa37dca45f1bb94e6d664508ac33052bb40bfcaa9c7f6309ad3b3bb1e8ef4baf7cb4d9588be6c19e009bf0925080c0ad7797e196b2d5abdcf32caded2fa1681174538866027a73ae6d6dbdcad11228659de963c27c42398b59cf6211b0123a2b3ec9e9d2637930cc1e9b6df8edf4ddb8c3637dad377a3daed79a3a39c16aa031cbd2da4bbf31b25ae6c0b84cc71000175a62f4fc783d8f1dba91788d50045 = 0xd944c44eefe9562af8e94349ebb7e4f04d3f375b653a3298cddfa638bf260695a800de4eb12ab90de198e70edb5bdf7f13c7a719ec064cfa0bddefec5ad6a677ecbb7a210f84f2f69cf0ebf67ab3f31f2b324dcc183b26c88df60803a5e7a290e4a99d994ead9b975d36ecaa32fa5ba51ce1f66033965c51b48b9ae52d39eae71f94ed8b9d978ee9fbd543cd0d595612d0e040246b14a34ffd8b168c35e83ad0e83f3dd0b282386e843dcc5018377cd17cc8c35814b31081dd540fbdfb5dffdad7dc89ac67ee4d36 := by decide

theorem c2s_r14p : keccakRhoPi keccak_rotc_std 0xd944c44eefe9562af8e94349ebb7e4f04d3f375b653a3298cddfa638bf260695a800de4eb12ab90de198e70edb5bdf7f13c7a719ec064cfa0bddefec5ad6a677ecbb7a210f84f2f69cf0ebf67ab3f31f2b324dcc183b26c88df60803a5e7a290e4a99d994ead9b975d36ecaa32fa5ba51ce1f66033965c51b48b9ae52d39eae71f94ed8b9d978ee9fbd543cd0d595612d0e040246b14a34ffd8b168c35e83ad0e83f3dd0b282386e843dcc5018377cd17cc8c35814b31081dd540fbdfb5dffdad7dc89ac67ee4d36 = 0x377e98e2fc981a5767e63f39e1d7ecf51d9364159926e60c748fca76c5cecbc75f3230d6052cc420f0f8e94349ebb7e4f7f62d6b533b85eedbb2a8cbe96e95745e83ad0fd8b168c3859411c37741f9ee793ac4aae436a00398e70edb5bdf7fe1074bcf45211bec10f550f343565584bebaa81f7bf6bbffb509a7e6eb6ca746539e5edd976f4421f0e70fb3019cb2e288ae52d39eae7b48b9018377cd1843dcc53113bbfa558ab651e33d80c99f4278f46cdcbf254cecca754a34fd0e040246b1d7dc89ac67ee4d36 := by decide

theorem c2s_r14c : keccakChi 0x377e98e2fc981a5767e63f39e1d7ecf51d9364159926e60c748fca76c5cecbc75f3230d6052cc420f0f8e94349ebb7e4f7f62d6b533b85eedbb2a8cbe96e95745e83ad0fd8b168c3859411c37741f9ee793ac4aae436a00398e70edb5bdf7fe1074bcf45211bec10f550f343565584bebaa81f7bf6bbffb509a7e6eb6ca746539e5edd976f4421f0e70fb3019cb2e288ae52d39eae7b48b9018377cd1843dcc53113bbfa558ab651e33d80c99f4278f46cdcbf254cecca754a34fd0e040246b1d7dc89ac67ee4d36 = 0x17f352c23c5a11902fe61f2de0f328d50d8be4d7852ef40e16ebd15ea51fc336562214d71d0ce028aafb454fc15bb7e5f2f23deb653bcde4dbba68cbe1aea7747ac7a82fcaa0684904a41103560f6cda3c6a24aae472a0091a67158a4956205566530f65853b6c126df4f3d90c91975fb8a3137fd7b197b5a7f766f9ca9f466b9e5ecc937f04b974e6ae91699c11a48bb6029f08cd3f49c9408e57cc08c37ec53933cff8558ab4d025f180cdbd2631d27cde84170c644c74c915fdc697007631f3148b8d2f02c572 := by decide

theorem c2s_r14 : keccakRound keccak_rotc_std 0xeb96803dfef778ee7fc83234573b6b3a14599808f545531911fe0faa0bbc7a978e07fef55e11f47ed34aa37dca45f1bb94e6d664508ac33052bb40bfcaa9c7f6309ad3b3bb1e8ef4baf7cb4d9588be6c19e009bf0925080c0ad7797e196b2d5abdcf32caded2fa1681174538866027a73ae6d6dbdcad11228659de963c27c42398b59cf6211b0123a2b3ec9e9d2637930cc1e9b6df8edf4ddb8c3637dad377a3daed79a3a39c16aa031cbd2da4bbf31b25ae6c0b84cc71000175a62f4fc783d8f1dba91788d50045 14 = 0x17f352c23c5a11902fe61f2de0f328d50d8be4d7852ef40e16ebd15ea51fc336562214d71d0ce028aafb454fc15bb7e5f2f23deb653bcde4dbba68cbe1aea7747ac7a82fcaa0684904a41103560f6cda3c6a24aae472a0091a67158a4956205566530f65853b6c126df4f3d90c91975fb8a3137fd7b197b5a7f766f9ca9f466b9e5ecc937f04b974e6ae91699c11a48bb6029f08cd3f49c9408e57cc08c37ec53933cff8558ab4d025f180cdbd2631d27cde84170c644c74c915fdc69700763173148b8d2f0245fb := by

  simp only [keccakRound, c2s_r14t, c2s_r14p, c2s_r14c]

  decide

theorem c2s_r15t : keccakTheta 0x17f352c23c5a11902fe61f2de0f328d50d8be4d7852ef40e16ebd15ea51fc336562214d71d0ce028aafb454fc15bb7e5f2f23deb653bcde4dbba68cbe1aea7747ac7a82fcaa0684904a41103560f6cda3c6a24aae472a0091a67158a4956205566530f65853b6c126df4f3d90c91975fb8a3137fd7b197b5a7f766f9ca9f466b9e5ecc937f04b974e6ae91699c11a48bb6029f08cd3f49c9408e57cc08c37ec53933cff8558ab4d025f180cdbd2631d27cde84170c644c74c915fdc69700763173148b8d2f0245fb = 0xd850bc0544001ca13ab9bd679df016cc8afcfa95a1476c529b7137bafdf14c61b41b5e3de948135f6558ab88b901bad4e7ad9fa11838f3fd5ccd7689c5c73f28f75d4ecb924ee71ee69d5be9a24b9fadf3c9ca6d9c28ad380f38b7c034551e4ce1241127a152f44ee06e153d547f18085a9a599523f564c26854883eb2c54b5a8b016ed90207876d61d98f2bb8783cd73b9879ec95d1c69ea2b71d26fc878db2f690213f2dd0b9e130ae2287c0250fcbfba99a55280dd428448f1b22cfeef966912dc167db46b68c := by decide

theorem c2s_r15p : keccakRhoPi keccak_rotc_std 0xd850bc0544001ca13ab9bd679df016cc8afcfa95a1476c529b7137bafdf14c61b41b5e3de948135f6558ab88b901bad4e7ad9fa11838f3fd5ccd7689c5c73f28f75d4ecb924ee71ee69d5be9a24b9fadf3c9ca6d9c28ad380f38b7c034551e4ce1241127a152f44ee06e153d547f18085a9a599523f564c26854883eb2c54b5a8b016ed90207876d61d98f2bb8783cd73b9879ec95d1c69ea2b71d26fc878db2f690213f2dd0b9e130ae2287c0250fcbfba99a55280dd428448f1b22cfeef966912dc167db46b68c = 0x6dc4deebf7c53186973f5bcd3ab7d34414569c79e4e536ceb6c580b76c8103c33eea66954a03750acc3ab9bd679df016bb44e2e39f942e66b854f551fc602381c878db2a2b71d26ff96e85cf0fb4810978f7a5204d7ed06d58ab88b901bad4658068aa3c981e716f7663caee1e0f35d8891e36459fddf2cc515f9f52b428ed8adce3deeba9d97249d4d2cca91fab261283eb2c54b5a685487c0250fcb30ae2282f01510007287614f423071e7fbcf5b397a2770920893d0a1c69e3b9879ec95d912dc167db46b68c := by decide

theorem c2s_r15c : keccakChi 0x6dc4deebf7c53186973f5bcd3ab7d34414569c79e4e536ceb6c580b76c8103c33eea66954a03750acc3ab9bd679df016bb44e2e39f942e66b854f551fc602381c878db2a2b71d26ff96e85cf0fb4810978f7a5204d7ed06d58ab88b901bad4658068aa3c981e716f7663caee1e0f35d8891e36459fddf2cc515f9f52b428ed8adce3deeba9d97249d4d2cca91fab261283eb2c54b5a685487c0250fcb30ae2282f01510007287614f423071e7fbcf5b397a2770920893d0a1c69e3b9879ec95d912dc167db46b68c = 0xedc15ec9d345334785157bd932b5974c7c96185b21a5164c35ecc3337693c2c33ef87addca674106cc2ae39d47dca2708a00e6a197b42f6ffc6eec4d9c69f391cb78d98828e5de09c96aa19edbb4a0890e966d8a4d7cd57dd9a39afc933bf6e5a03c8f3cd45a71672ee0ca6f1fafb1d8091616551fcdb2ebd2b6b352b08ce8caf0e39e47aadb7069d5cecdb90b8bab908bca3e1615f6d50128129055b903c03a2341739803b03f45640f8779a7fa753b9ca2270920893f0e7c68e3afd8aa09ec12afd567fb47828e := by decide

theorem c2s_r15 : keccakRound keccak_rotc_std 0x17f352c23c5a11902fe61f2de0f328d50d8be4d7852ef40e16ebd15ea51fc336562214d71d0ce028aafb454fc15bb7e5f2f23deb653bcde4dbba68cbe1aea7747ac7a82fcaa0684904a41103560f6cda3c6a24aae472a0091a67158a4956205566530f65853b6c126df4f3d90c91975fb8a3137fd7b197b5a7f766f9ca9f466b9e5ecc937f04b974e6ae91699c11a48bb6029f08cd3f49c9408e57cc08c37ec53933cff8558ab4d025f180cdbd2631d27cde84170c644c74c915fdc69700763173148b8d2f0245fb 15 = 0xedc15ec9d345334785157bd932b5974c7c96185b21a5164c35ecc3337693c2c33ef87addca674106cc2ae39d47dca2708a00e6a197b42f6ffc6eec4d9c69f391cb78d98828e5de09c96aa19edbb4a0890e966d8a4d7cd57dd9a39afc933bf6e5a03c8f3cd45a71672ee0ca6f1fafb1d8091616551fcdb2ebd2b6b352b08ce8caf0e39e47aadb7069d5cecdb90b8bab908bca3e1615f6d50128129055b903c03a2341739803b03f45640f8779a7fa753b9ca2270920893f0e7c68e3afd8aa09ec92afd567fb47028d := by

  simp only [keccakRound, c2s_r15t, c2s_r15p, c2s_r15c]

  decide

theorem c2s_r16t : keccakTheta 0xedc15ec9d345334785157bd932b5974c7c96185b21a5164c35ecc3337693c2c33ef87addca674106cc2ae39d47dca2708a00e6a197b42f6ffc6eec4d9c69f391cb78d98828e5de09c96aa19edbb4a0890e966d8a4d7cd57dd9a39afc933bf6e5a03c8f3cd45a71672ee0ca6f1fafb1d8091616551fcdb2ebd2b6b352b08ce8caf0e39e47aadb7069d5cecdb90b8bab908bca3e1615f6d50128129055b903c03a2341739803b03f45640f8779a7fa753b9ca2270920893f0e7c68e3afd8aa09ec92afd567fb47028d = 0x27e8503b70eb5b7551a9ca6ba592b0e3dff42842db16f09ba2846823bfe15358afde7012b9b4313d0603ed6fe472ca425ebc5713009308c05f0cdc5466da15465c107298e1974f92584cab51a867d0b2c4bf6378eed2bd4f0d1f2b4e041cd14a035ebf252ee997b0b988617fd6dd204398301c9a6c1ec2d0189fbda0132280f8245f2ff53dfc57c676acfda0f1384d471ca29506dc84449ab9349a9acad0b001e9687d6aa01e5777b0b336cb30dd52943fc01710da3ad9d9eb0048bf11d898770389dfa8889472b6 := by decide

theorem c2s_r16p : keccakRhoPi keccak_rotc_std 0x27e8503b70eb5b7551a9ca6ba592b0e3dff42842db16f09ba2846823bfe15358afde7012b9b4313d0603ed6fe472ca425ebc5713009308c05f0cdc5466da15465c107298e1974f92584cab51a867d0b2c4bf6378eed2bd4f0d1f2b4e041cd14a035ebf252ee997b0b988617fd6dd204398301c9a6c1ec2d0189fbda0132280f8245f2ff53dfc57c676acfda0f1384d471ca29506dc84449ab9349a9acad0b001e9687d6aa01e5777b0b336cb30dd52943fc01710da3ad9d9eb0048bf11d898770389dfa8889472b6 = 0x8a11a08eff854d62cfa164b09956a350695ea7e25fb1bc77e3122f97fa9efe2b4ff005c4368eb676e351a9ca6ba592b06e2a336d0aa32f862185ff5b74810ee6ad0b001b9349a9ac5500f2bbbf4b43ebc04ae6d0c4f6bf7903ed6fe472ca42069c0839a2941a3e56ab3f683c4e1351ddd600917e23b130ef7bfe85085b62de13e9f24b820e531c32c180e4d360f61684da0132280f8189fbb30dd5294b0b336c140edc3ad6dd49fae2601261180bd78a4cbd801af5f929774449a1ca29506dc80389dfa8889472b6 := by decide

theorem c2s_r16c : keccakChi 0x8a11a08eff854d62cfa164b09956a350695ea7e25fb1bc77e3122f97fa9efe2b4ff005c4368eb676e351a9ca6ba592b06e2a336d0aa32f862185ff5b74810ee6ad0b001b9349a9ac5500f2bbbf4b43ebc04ae6d0c4f6bf7903ed6fe472ca42069c0839a2941a3e56ab3f683c4e1351ddd600917e23b130ef7bfe85085b62de13e9f24b820e531c32c180e4d360f61684da0132280f8189fbb30dd5294b0b336c140edc3ad6dd49fae2601261180bd78a4cbd801af5f929774449a1ca29506dc80389dfa8889472b6 = 0x2a138a9d3795056b8a4161f0995c1144694e27ec3930f05565b36f877ad8fd2b47bc85a433afb6224b5aa9ca6ba53ab47a2a615c9ee96ecda0d477d915859ed6e321003f996b88ac55840dfbdbcb45a9e9758ed088f4fe6915ed7eca51cb42805c0ab9b2102e832fa8da2e782cd311ddc20080fcb3b91eed33fea7085fe2568069f31ba30e5a3d5ed38c60db31d6d485f2733928018081c9b28d11fa2b7d2568504efc78f79d44b2e1e111e1100be58e58b34c00332d2107e609b3ab2152bb400b3ddfb85c3d7281 := by decide

theorem c2s_r16 : keccakRound keccak_rotc_std 0xedc15ec9d345334785157bd932b5974c7c96185b21a5164c35ecc3337693c2c33ef87addca674106cc2ae39d47dca2708a00e6a197b42f6ffc6eec4d9c69f391cb78d98828e5de09c96aa19edbb4a0890e966d8a4d7cd57dd9a39afc933bf6e5a03c8f3cd45a71672ee0ca6f1fafb1d8091616551fcdb2ebd2b6b352b08ce8caf0e39e47aadb7069d5cecdb90b8bab908bca3e1615f6d50128129055b903c03a2341739803b03f45640f8779a7fa753b9ca2270920893f0e7c68e3afd8aa09ec92afd567fb47028d 16 = 0x2a138a9d3795056b8a4161f0995c1144694e27ec3930f05565b36f877ad8fd2b47bc85a433afb6224b5aa9ca6ba53ab47a2a615c9ee96ecda0d477d915859ed6e321003f996b88ac55840dfbdbcb45a9e9758ed088f4fe6915ed7eca51cb42805c0ab9b2102e832fa8da2e782cd311ddc20080fcb3b91eed33fea7085fe2568069f31ba30e5a3d5ed38c60db31d6d485f2733928018081c9b28d11fa2b7d2568504efc78f79d44b2e1e111e1100be58e58b34c00332d2107e609b3ab2152bb408b3ddfb85c3df283 := by

  simp only [keccakRound, c2s_r16t, c2s_r16p, c2s_r16c]

  decide

theorem c2s_r17t : keccakTheta 0x2a138a9d3795056b8a4161f0995c1144694e27ec3930f05565b36f877ad8fd2b47bc85a433afb6224b5aa9ca6ba53ab47a2a615c9ee96ecda0d477d915859ed6e321003f996b88ac55840dfbdbcb45a9e9758ed088f4fe6915ed7eca51cb42805c0ab9b2102e832fa8da2e782cd311ddc20080fcb3b91eed33fea7085fe2568069f31ba30e5a3d5ed38c60db31d6d485f2733928018081c9b28d11fa2b7d2568504efc78f79d44b2e1e111e1100be58e58b34c00332d2107e609b3ab2152bb408b3ddfb85c3df283 = 0x9496737b268095a943f749425e4bae63885404e746dd6534b16423de2a85f7fad855e5d49070d800f5df502c7ab0aa76b39c49ee59fed1ea41ce54d26a680bb737f64c66c936827dca6d6d8b78142b8b57f0773699e16eabdc5b567896dcfda7bd109ab96fc3164e7c0d62217c8e1b0c5de9e08c106670cf8d7b5eee4ef7c642a0453311c94d8279329643d04e3b41e426a4757151dd8b182d64718a88a24b4aeecb059ee688d47028573953d71c5aa9b9a96f0b4cc0b46632defff2710fb19114d4bfc8ffe29ca1 := by decide

theorem c2s_r17p : keccakRhoPi keccak_rotc_std 0x9496737b268095a943f749425e4bae63885404e746dd6534b16423de2a85f7fad855e5d49070d800f5df502c7ab0aa76b39c49ee59fed1ea41ce54d26a680bb737f64c66c936827dca6d6d8b78142b8b57f0773699e16eabdc5b567896dcfda7bd109ab96fc3164e7c0d62217c8e1b0c5de9e08c106670cf8d7b5eee4ef7c642a0453311c94d8279329643d04e3b41e426a4757151dd8b182d64718a88a24b4aeecb059ee688d47028573953d71c5aa9b9a96f0b4cc0b46632defff2710fb19114d4bfc8ffe29ca1 = 0xc5908f78aa17dfea28571794dadb16f0f0b755abf83b9b4c3cd0229988e4a6c1ae6a5bc2d3302d196343f749425e4bae2a69353405dba0e7358885f2386c31f08a24b4a2d64718a8f73446a38776582c975241c360036157df502c7ab0aa76f5f12db9fb4fb8b6aca590f4138ed0790c65bdffe4e21f6322910a809ce8dbaca6d04fa6fec98cd926ef4f04608333867aeee4ef7c6428d7b53d71c5aa928573959cdec9a0256a65253dcb3fda3d56738918b275e884d5cb7ed8b1826a4757151d14d4bfc8ffe29ca1 := by decide

theorem c2s_r17c : keccakChi 0xc5908f78aa17dfea28571794dadb16f0f0b755abf83b9b4c3cd0229988e4a6c1ae6a5bc2d3302d196343f749425e4bae2a69353405dba0e7358885f2386c31f08a24b4a2d64718a8f73446a38776582c975241c360036157df502c7ab0aa76f5f12db9fb4fb8b6aca590f4138ed0790c65bdffe4e21f6322910a809ce8dbaca6d04fa6fec98cd926ef4f04608333867aeee4ef7c6428d7b53d71c5aa928573959cdec9a0256a65253dcb3fda3d56738918b275e884d5cb7ed8b1826a4757151d14d4bfc8ffe29ca1 = 0xd500af61a2d35d2a023d47168bfb36e13537ddc3d83f52463490208d8a24a2716e4d0ee0a32b34156b434749125f4b2ebe5d359680fbb0e7748a47bb7a687af8804584a6d3d498afc2bc47f3af5e797c175241d06cc3795bbffd925e32b674d5f12ff87a0fb9b7aeabc0f0133ed2395d3590f60ca337e582538eaac88cf32886fc3ee3dcdb888a37ee4f0460a360a2fafee44de22ca48eb13c7ac5aa119673df54ffc982257f64393dcb0992e7d6eb0998a6b5c884fdcf5afdf888787e55259c14d6ca487f6256c3 := by decide

theorem c2s_r17 : keccakRound keccak_rotc_std 0x2a138a9d3795056b8a4161f0995c1144694e27ec3930f05565b36f877ad8fd2b47bc85a433afb6224b5aa9ca6ba53ab47a2a615c9ee96ecda0d477d915859ed6e321003f996b88ac55840dfbdbcb45a9e9758ed088f4fe6915ed7eca51cb42805c0ab9b2102e832fa8da2e782cd311ddc20080fcb3b91eed33fea7085fe2568069f31ba30e5a3d5ed38c60db31d6d485f2733928018081c9b28d11fa2b7d2568504efc78f79d44b2e1e111e1100be58e58b34c00332d2107e609b3ab2152bb408b3ddfb85c3df283 17 = 0xd500af61a2d35d2a023d47168bfb36e13537ddc3d83f52463490208d8a24a2716e4d0ee0a32b34156b434749125f4b2ebe5d359680fbb0e7748a47bb7a687af8804584a6d3d498afc2bc47f3af5e797c175241d06cc3795bbffd925e32b674d5f12ff87a0fb9b7aeabc0f0133ed2395d3590f60ca337e582538eaac88cf32886fc3ee3dcdb888a37ee4f0460a360a2fafee44de22ca48eb13c7ac5aa119673df54ffc982257f64393dcb0992e7d6eb0998a6b5c884fdcf5afdf888787e55259c94d6ca487f625643 := by

  simp only [keccakRound, c2s_r17t, c2s_r17p, c2s_r17c]

  decide

theorem c2s_r18t : keccakTheta 0xd500af61a2d35d2a023d47168bfb36e13537ddc3d83f52463490208d8a24a2716e4d0ee0a32b34156b434749125f4b2ebe5d359680fbb0e7748a47bb7a687af8804584a6d3d498afc2bc47f3af5e797c175241d06cc3795bbffd925e32b674d5f12ff87a0fb9b7aeabc0f0133ed2395d3590f60ca337e582538eaac88cf32886fc3ee3dcdb888a37ee4f0460a360a2fafee44de22ca48eb13c7ac5aa119673df54ffc982257f64393dcb0992e7d6eb0998a6b5c884fdcf5afdf888787e55259c94d6ca487f625643 = 0x74f3c40a2456d429988701d8ea0e8390adee5941e63ddd3389aa37255f75ca67f83ee716bd4f46a9cab02c2294dac22d24e77358e10e0596ec53c339446af58d3d7f930e0685f0b954cfae05b13a0bc0b6a12abbea46f0582547d4905343c1a469f67cf831bb38db16fae7bbeb83514ba3e31ffabd53973ef27dc1a30a76a1856684a512ba7d3f46769680e29d622d8f43de5a4af9f5e6a7aa092c5c0ff20163f50ca2e9a3faed3aa7714f5c86235e78007f314abaff402f40c29fd0ab044d8a02a523be610624ff := by decide

theorem c2s_r18p : keccakRhoPi keccak_rotc_std 0x74f3c40a2456d429988701d8ea0e8390adee5941e63ddd3389aa37255f75ca67f83ee716bd4f46a9cab02c2294dac22d24e77358e10e0596ec53c339446af58d3d7f930e0685f0b954cfae05b13a0bc0b6a12abbea46f0582547d4905343c1a469f67cf831bb38db16fae7bbeb83514ba3e31ffabd53973ef27dc1a30a76a1856684a512ba7d3f46769680e29d622d8f43de5a4af9f5e6a7aa092c5c0ff20163f50ca2e9a3faed3aa7714f5c86235e78007f314abaff402f40c29fd0ab044d8a02a523be610624ff = 0x26a8dc957dd7299e741780a99f5c0b6223782c5b50955df5a3334252895d3e9fc01fcc52aebfd00b90988701d8ea0e83e19ca2357ac6f629eb9eefae0d452c5bff20163aa092c5c04d1fd769d7a865179c5af53d1aa7e0fbb02c2294dac22dca20a68783484a8fa9a5a038a7588b63dd81853fa156089b1475bdcb283cc7bba6be1727aff261c0d01f18ffd5ea9cb9f51a30a76a185f27dcc86235e78a7714f5f1028915b50a5d3c6b1c21c0b2c49ceed9c6db4fb3e7c18d5e6a743de5a4af9f02a523be610624ff := by decide

theorem c2s_r18c : keccakChi 0x26a8dc957dd7299e741780a99f5c0b6223782c5b50955df5a3334252895d3e9fc01fcc52aebfd00b90988701d8ea0e83e19ca2357ac6f629eb9eefae0d452c5bff20163aa092c5c04d1fd769d7a865179c5af53d1aa7e0fbb02c2294dac22dca20a68783484a8fa9a5a038a7588b63dd81853fa156089b1475bdcb283cc7bba6be1727aff261c0d01f18ffd5ea9cb9f51a30a76a185f27dcc86235e78a7714f5f1028915b50a5d3c6b1c21c0b2c49ceed9c6db4fb3e7c18d5e6a743de5a4af9f02a523be610624ff = 0x588de957c97070ab40080eb1d74db6321d0704f30167d69f734c2f206153c9dc057e05bfe3f916b22b88713f8f88e43ac9bf25d7dc6973dfb9eeaae8d6d24d9ff20162bd21017e04d813eeddaed4d0cb87af53b12248032b1a928149eca36ce2cf452aa486f4f9835a818b3ca0b439f8183b8a15648173467ad49202ccf98ae365513687051c4815eb037d5e61a82d3ba37a740083e67dccd6a6d7268f78cd4ad48dd1431aad63c69b9036af2c0bc2d49c4535ab6ed809d7c7254bde5a4b3fd8321a8fc734564ff := by decide

theorem c2s_r18 : keccakRound keccak_rotc_std 0xd500af61a2d35d2a023d47168bfb36e13537ddc3d83f52463490208d8a24a2716e4d0ee0a32b34156b434749125f4b2ebe5d359680fbb0e7748a47bb7a687af8804584a6d3d498afc2bc47f3af5e797c175241d06cc3795bbffd925e32b674d5f12ff87a0fb9b7aeabc0f0133ed2395d3590f60ca337e582538eaac88cf32886fc3ee3dcdb888a37ee4f0460a360a2fafee44de22ca48eb13c7ac5aa119673df54ffc982257f64393dcb0992e7d6eb0998a6b5c884fdcf5afdf888787e55259c94d6ca487f625643 18 = 0x588de957c97070ab40080eb1d74db6321d0704f30167d69f734c2f206153c9dc057e05bfe3f916b22b88713f8f88e43ac9bf25d7dc6973dfb9eeaae8d6d24d9ff20162bd21017e04d813eeddaed4d0cb87af53b12248032b1a928149eca36ce2cf452aa486f4f9835a818b3ca0b439f8183b8a15648173467ad49202ccf98ae365513687051c4815eb037d5e61a82d3ba37a740083e67dccd6a6d7268f78cd4ad48dd1431aad63c69b9036af2c0bc2d49c4535ab6ed809d7c7254bde5a4b3fd8321a8fc7345e4f5 := by

  simp only [keccakRound, c2s_r18t, c2s_r18p, c2s_r18c]

  decide

theorem c2s_r19t : keccakTheta 0x588de957c97070ab40080eb1d74db6321d0704f30167d69f734c2f206153c9dc057e05bfe3f916b22b88713f8f88e43ac9bf25d7dc6973dfb9eeaae8d6d24d9ff20162bd21017e04d813eeddaed4d0cb87af53b12248032b1a928149eca36ce2cf452aa486f4f9835a818b3ca0b439f8183b8a15648173467ad49202ccf98ae365513687051c4815eb037d5e61a82d3ba37a740083e67dccd6a6d7268f78cd4ad48dd1431aad63c69b9036af2c0bc2d49c4535ab6ed809d7c7254bde5a4b3fd8321a8fc7345e4f5 = 0x776bd307d22f43d2fe905d3caecb40d73795da983a50c5d376b738e224fbb722620aa7fd9238af05505b8a815640ca9be60b2f8ace790c89eddb4079872b9c637ea3ec3bf0fe9c5fefdc794bb6ea7362ca99f8a9bc9cc4eafb39f5c32d75ad7a3ab1f87d4229f722b42be2a3e8e5c82023deff073a4f295a154e44b28277dc767cc5cebfc3ee5f3548f59d02ec5c3a693bb45d502ad0ec636f372ad404f0b2badfabd0869f1292e42329debd417f27995f81f98dbcab3827fdf1aeadc74a3842217cef5a1f42da9b := by decide

theorem c2s_r19p : keccakRhoPi keccak_rotc_std 0x776bd307d22f43d2fe905d3caecb40d73795da983a50c5d376b738e224fbb722620aa7fd9238af05505b8a815640ca9be60b2f8ace790c89eddb4079872b9c637ea3ec3bf0fe9c5fefdc794bb6ea7362ca99f8a9bc9cc4eafb39f5c32d75ad7a3ab1f87d4229f722b42be2a3e8e5c82023deff073a4f295a154e44b28277dc767cc5cebfc3ee5f3548f59d02ec5c3a693bb45d502ad0ec636f372ad404f0b2badfabd0869f1292e42329debd417f27995f81f98dbcab3827fdf1aeadc74a3842217cef5a1f42da9b = 0xdadce38893eedc89d4e6c5dfb8f2976d4e6275654cfc54de9abe62e75fe1f72fd7e07e636f2ace09d7fe905d3caecb40a03cc395ce31f6edaf8a8fa3972082d04f0b2ba6f372ad4034f8949726fd5e849ff648e2bc15882a5b8a815640ca9b50865aeb5af5f673eb3d6740bb170e9a52fbe35d5b8e94708566f2bb53074a18bad38befd47d877e1f1ef7f839d2794ad14b28277dc76154e4d417f27992329debf4c1f48bd0f49ddaf159cf21913cc1654fb911d58fc3ea110ec633bb45d502ad217cef5a1f42da9b := by decide

theorem c2s_r19c : keccakChi 0xdadce38893eedc89d4e6c5dfb8f2976d4e6275654cfc54de9abe62e75fe1f72fd7e07e636f2ace09d7fe905d3caecb40a03cc395ce31f6edaf8a8fa3972082d04f0b2ba6f372ad4034f8949726fd5e849ff648e2bc15882a5b8a815640ca9b50865aeb5af5f673eb3d6740bb170e9a52fbe35d5b8e94708566f2bb53074a18bad38befd47d877e1f1ef7f839d2794ad14b28277dc76154e4d417f27992329debf4c1f48bd0f49ddaf159cf21913cc1654fb911d58fc3ea110ec633bb45d502ad217cef5a1f42da9b = 0xd2c2e30c832fedafd1c6d9bcd4f2956d447a57654ff01c5e0a3ae27defe3740e93a06b636f36ced99cfdbb7dedac6a00803cc717cc60e269f8489feba7ae8bd04f3f6bb2bb63d96d9478109622fd5c149bf24842ad1f02783b8b944f424aebd5022ea3fa49e373c164e740bf1706124279fbf61b6e64112c6ddabe57420b58be438eaffcedb7fb5e3a87e83ad0314a718a2020b9eae760eac0c02a79822a97fafa43e42a90619dfef065c4719e3e83644b39215fcf03f68bbe86fd9b55e903c96045ef1e9540328b := by decide

theorem c2s_r19 : keccakRound keccak_rotc_std 0x588de957c97070ab40080eb1d74db6321d0704f30167d69f734c2f206153c9dc057e05bfe3f916b22b88713f8f88e43ac9bf25d7dc6973dfb9eeaae8d6d24d9ff20162bd21017e04d813eeddaed4d0cb87af53b12248032b1a928149eca36ce2cf452aa486f4f9835a818b3ca0b439f8183b8a15648173467ad49202ccf98ae365513687051c4815eb037d5e61a82d3ba37a740083e67dccd6a6d7268f78cd4ad48dd1431aad63c69b9036af2c0bc2d49c4535ab6ed809d7c7254bde5a4b3fd8321a8fc7345e4f5 19 = 0xd2c2e30c832fedafd1c6d9bcd4f2956d447a57654ff01c5e0a3ae27defe3740e93a06b636f36ced99cfdbb7dedac6a00803cc717cc60e269f8489feba7ae8bd04f3f6bb2bb63d96d9478109622fd5c149bf24842ad1f02783b8b944f424aebd5022ea3fa49e373c164e740bf1706124279fbf61b6e64112c6ddabe57420b58be438eaffcedb7fb5e3a87e83ad0314a718a2020b9eae760eac0c02a79822a97fafa43e42a90619dfef065c4719e3e83644b39215fcf03f68bbe86fd9b55e903c9e045ef1e15403281 := by

  simp only [keccakRound, c2s_r19t, c2s_r19p, c2s_r19c]

  decide

theorem c2s_r20t : keccakTheta 0xd2c2e30c832fedafd1c6d9bcd4f2956d447a57654ff01c5e0a3ae27defe3740e93a06b636f36ced99cfdbb7dedac6a00803cc717cc60e269f8489feba7ae8bd04f3f6bb2bb63d96d9478109622fd5c149bf24842ad1f02783b8b944f424aebd5022ea3fa49e373c164e740bf1706124279fbf61b6e64112c6ddabe57420b58be438eaffcedb7fb5e3a87e83ad0314a718a2020b9eae760eac0c02a79822a97fafa43e42a90619dfef065c4719e3e83644b39215fcf03f68bbe86fd9b55e903c9e045ef1e15403281 = 0xb6149376c3f444709accef3149914cf6e20b81e5e1db098bcbd9eed72638e3fffb7c098887d1364af82bcb07ad77c3dfcb36f19a51033bf25e39496b09859e058edc671872b84e9cfca4727dca1aa487ff243838edc4aba77081a2c2df29324ea45f757ae7c86614a5044c15dedd85b3112794f08683e9bf090cce2d02d0f1610884997170d422c59cf63eba7e1a5fa44bc32c13233cf71ba81c48926acd6f699e959450d0ba3421bb6ff2fc035d5affed48f7df6128e35e7f65f1319c32943888998df5fda7ca12 := by decide

theorem c2s_r20p : keccakRhoPi keccak_rotc_std 0xb6149376c3f444709accef3149914cf6e20b81e5e1db098bcbd9eed72638e3fffb7c098887d1364af82bcb07ad77c3dfcb36f19a51033bf25e39496b09859e058edc671872b84e9cfca4727dca1aa487ff243838edc4aba77081a2c2df29324ea45f757ae7c86614a5044c15dedd85b3112794f08683e9bf090cce2d02d0f1610884997170d422c59cf63eba7e1a5fa44bc32c13233cf71ba81c48926acd6f699e959450d0ba3421bb6ff2fc035d5affed48f7df6128e35e7f65f1319c32943888998df5fda7ca12 = 0x2f67bb5c98e38fff35490ff948e4fb94e255d3ff921c1c766284424cb8b86a11bb523df7d84a38d7f69accef3149914ca4b584c2cf02af1c1130577b7616ce94acd6f69a81c489268685d1a10cf4aca226221f44d92bedf02bcb07ad77c3dff885be52649ce103453d8fae9f8697e927fecbe263386528707c41703cbc3b613109d391db8ce30e57893ca784341f4df8e2d02d0f161090ccc035d5affbb6ff2f24ddb0fd111c2d85334a20677e5966de4330a522fbabd73ecf71b4bc32c1323388998df5fda7ca12 := by decide

theorem c2s_r20c : keccakChi 0x2f67bb5c98e38fff35490ff948e4fb94e255d3ff921c1c766284424cb8b86a11bb523df7d84a38d7f69accef3149914ca4b584c2cf02af1c1130577b7616ce94acd6f69a81c489268685d1a10cf4aca226221f44d92bedf02bcb07ad77c3dff885be52649ce103453d8fae9f8697e927fecbe263386528707c41703cbc3b613109d391db8ce30e57893ca784341f4df8e2d02d0f161090ccc035d5affbb6ff2f24ddb0fd111c2d85334a20677e5966de4330a522fbabd73ecf71b4bc32c1323388998df5fda7ca12 = 0x6fe3f954b853cdffa5590b5a08eccb94e87363fb021f181d778c4e4cf05889913b03ac44da4e2cb1dec8eaf5b0499048a4b095c2c3b683be433a1f56465fded40853761a08c4a82e97a5d0c07ae6ea32272613d85fb92cf7f302e78e5787dff8819e4a2414c9234517ceab16e595359f7efbb20320052a305e81583cb83b61f189e71458cf679059fd3cc7a004072cd8e2133d549ef092cbc919572fdbb9b21f63bd80f5135c1da4bb4a2d6792faa4cc47a535bafaafde3fff3bb4f9369112f388998cf7348d0f1e := by decide

theorem c2s_r20 : keccakRound keccak_rotc_std 0xd2c2e30c832fedafd1c6d9bcd4f2956d447a57654ff01c5e0a3ae27defe3740e93a06b636f36ced99cfdbb7dedac6a00803cc717cc60e269f8489feba7ae8bd04f3f6bb2bb63d96d9478109622fd5c149bf24842ad1f02783b8b944f424aebd5022ea3fa49e373c164e740bf1706124279fbf61b6e64112c6ddabe57420b58be438eaffcedb7fb5e3a87e83ad0314a718a2020b9eae760eac0c02a79822a97fafa43e42a90619dfef065c4719e3e83644b39215fcf03f68bbe86fd9b55e903c9e045ef1e15403281 20 = 0x6fe3f954b853cdffa5590b5a08eccb94e87363fb021f181d778c4e4cf05889913b03ac44da4e2cb1dec8eaf5b0499048a4b095c2c3b683be433a1f56465fded40853761a08c4a82e97a5d0c07ae6ea32272613d85fb92cf7f302e78e5787dff8819e4a2414c9234517ceab16e595359f7efbb20320052a305e81583cb83b61f189e71458cf679059fd3cc7a004072cd8e2133d549ef092cbc919572fdbb9b21f63bd80f5135c1da4bb4a2d6792faa4cc47a535bafaafde3fff3bb4f9369112f308998cf7b48d8f9f := by

  simp only [keccakRound, c2s_r20t, c2s_r20p, c2s_r20c]

  decide

theorem c2s_r21t : keccakTheta 0x6fe3f954b853cdffa5590b5a08eccb94e87363fb021f181d778c4e4cf05889913b03ac44da4e2cb1dec8eaf5b0499048a4b095c2c3b683be433a1f56465fded40853761a08c4a82e97a5d0c07ae6ea32272613d85fb92cf7f302e78e5787dff8819e4a2414c9234517ceab16e595359f7efbb20320052a305e81583cb83b61f189e71458cf679059fd3cc7a004072cd8e2133d549ef092cbc919572fdbb9b21f63bd80f5135c1da4bb4a2d6792faa4cc47a535bafaafde3fff3bb4f9369112f308998cf7b48d8f9f = 0x881f93c2a620ccde63747ea85f45c6d41dc6f94535f6ca8a44ccd234438376757a40412f4c5b099439348063ae3a9169629de030941f8efeb68f85e871b60c433b13ea62bb1f57cad6e63dabecf3cf17c0da794e41ca2dd6352f927c002ed2b8742bd09a2320f1d2248e376e564eca7b3fb85f68b6100f15b97d32aaa64860d04fca61aa98ce9d1908895d1e33eefe4fd153a12c2d2b6d2f885aba444dac973a8441ea630d2f1c857d675895c553a98cb210af04cd460ca8cc7b2881854aed1749da619c2298aaba := by decide

theorem c2s_r21p : keccakRhoPi keccak_rotc_std 0x881f93c2a620ccde63747ea85f45c6d41dc6f94535f6ca8a44ccd234438376757a40412f4c5b099439348063ae3a9169629de030941f8efeb68f85e871b60c433b13ea62bb1f57cad6e63dabecf3cf17c0da794e41ca2dd6352f927c002ed2b8742bd09a2320f1d2248e376e564eca7b3fb85f68b6100f15b97d32aaa64860d04fca61aa98ce9d1908895d1e33eefe4fd153a12c2d2b6d2f885aba444dac973a8441ea630d2f1c857d675895c553a98cb210af04cd460ca8cc7b2881854aed1749da619c2298aaba = 0x133348d10e0dd9d5e79e2fadcc7b57d9e516eb606d3ca7208ca7e530d54c674e2c842bc13351832ad463747ea85f45c6c2f438db0621db4738ddb9593b29ec92dac973a885aba444186978e42c220f5304bd316c2651e901348063ae3a916939f8005da5706a5f242257478cfbbf93c298f651030a95da2f43b8df28a6bed951eaf947627d4c5763fdc2fb45b08078a92aaa64860d0b97d35c553a98c7d67589e4f0a9883337a207061283f1dfcc53bc078e93a15e84d119b6d2fd153a12c2d249da619c2298aaba := by decide

theorem c2s_r21c : keccakChi 0x133348d10e0dd9d5e79e2fadcc7b57d9e516eb606d3ca7208ca7e530d54c674e2c842bc13351832ad463747ea85f45c6c2f438db0621db4738ddb9593b29ec92dac973a885aba444186978e42c220f5304bd316c2651e901348063ae3a916939f8005da5706a5f242257478cfbbf93c298f651030a95da2f43b8df28a6bed951eaf947627d4c5763fdc2fb45b08078a92aaa64860d0b97d35c553a98c7d67589e4f0a9883337a207061283f1dfcc53bc078e93a15e84d119b6d2fd153a12c2d249da619c2298aaba = 0x93108ce1ca01bd91cb1a0cadfd2b55f3f537ab306f382f248e2fe1bd550f37974d9421811b61030a16e3777629d6e5c2cafc305b0201d1562cdefd7d9377e81218e9732a81abb701387df0b5162247c126bc37e0d77be8c1acc223ad32157b17f83d4de5742adf2426d76586f12eb3db40f649220ad5960b61129b2eaeb75b03f6bc67f23c0c73ebfcc2634d3232f0b9289360a4404790918915a1d977561da152f035892b35e2470f18c3e5df445b04e76ebba97eb7711ab6c2fd45bb5ac07648d6633c661cbbb3 := by decide

theorem c2s_r21 : keccakRound keccak_rotc_std 0x6fe3f954b853cdffa5590b5a08eccb94e87363fb021f181d778c4e4cf05889913b03ac44da4e2cb1dec8eaf5b0499048a4b095c2c3b683be433a1f56465fded40853761a08c4a82e97a5d0c07ae6ea32272613d85fb92cf7f302e78e5787dff8819e4a2414c9234517ceab16e595359f7efbb20320052a305e81583cb83b61f189e71458cf679059fd3cc7a004072cd8e2133d549ef092cbc919572fdbb9b21f63bd80f5135c1da4bb4a2d6792faa4cc47a535bafaafde3fff3bb4f9369112f308998cf7b48d8f9f 21 = 0x93108ce1ca01bd91cb1a0cadfd2b55f3f537ab306f382f248e2fe1bd550f37974d9421811b61030a16e3777629d6e5c2cafc305b0201d1562cdefd7d9377e81218e9732a81abb701387df0b5162247c126bc37e0d77be8c1acc223ad32157b17f83d4de5742adf2426d76586f12eb3db40f649220ad5960b61129b2eaeb75b03f6bc67f23c0c73ebfcc2634d3232f0b9289360a4404790918915a1d977561da152f035892b35e2470f18c3e5df445b04e76ebba97eb7711ab6c2fd45bb5ac076c8d6633c661c3b33 := by

  simp only [keccakRound, c2s_r21t, c2s_r21p, c2s_r21c]

  decide

theorem c2s_r22t : keccakTheta 0x93108ce1ca01bd91cb1a0cadfd2b55f3f537ab306f382f248e2fe1bd550f37974d9421811b61030a16e3777629d6e5c2cafc305b0201d1562cdefd7d9377e81218e9732a81abb701387df0b5162247c126bc37e0d77be8c1acc223ad32157b17f83d4de5742adf2426d76586f12eb3db40f649220ad5960b61129b2eaeb75b03f6bc67f23c0c73ebfcc2634d3232f0b9289360a4404790918915a1d977561da152f035892b35e2470f18c3e5df445b04e76ebba97eb7711ab6c2fd45bb5ac076c8d6633c661c3b33 = 0x2e28824bc9cf8268d0380a405b97dfef7276b758ed40e2348e023dd7ca12f0a781b996b01761cd88abdb79dc2a18da3bd1de36b6a4bd5b4aab9fe115110f250218c4af401eb67031f45047841a2289439b84394ad4b5d738b7e0254094a9f10b7f7c518df652123426fab9ec6e3374eb8cdbfe1306d55889dc2a9584ad7964faed9e611f9ab0f9f77b837f25b04a3da928bebccedf5a57a1453816e87b56d323efc83b2328fbddbe143ac50879f8d118602fa7c1fccfbc0ab6ef212f2447074604fbd40d6a1cf5b1 := by decide

theorem c2s_r22p : keccakRhoPi keccak_rotc_std 0x2e28824bc9cf8268d0380a405b97dfef7276b758ed40e2348e023dd7ca12f0a781b996b01761cd88abdb79dc2a18da3bd1de36b6a4bd5b4aab9fe115110f250218c4af401eb67031f45047841a2289439b84394ad4b5d738b7e0254094a9f10b7f7c518df652123426fab9ec6e3374eb8cdbfe1306d55889dc2a9584ad7964faed9e611f9ab0f9f77b837f25b04a3da928bebccedf5a57a1453816e87b56d323efc83b2328fbddbe143ac50879f8d118602fa7c1fccfbc0ab6ef212f2447074604fbd40d6a1cf5b1 = 0x3808f75f284bc29e451287e8a08f08345aeb9c4dc21ca56afbf6cf308fcd587c980be9f07f33ef02efd0380a405b97dff08a8887928155cfeae7b1b8cdd3ac9bb56d323453816e871947deedf77e41d95ac05d87362206e6db79dc2a18da3bab812953e2176fc04ae0dfc96c128f6a5e6dde425e488e0e8d8e4ed6eb1da81c46ce06231895e803d666dff09836aac44c584ad7964fadc2a9879f8d118143ac502092f273e09a0b8ad6d497ab695a3bc69091a3fbe28c6fb2a57a128bebccedf504fbd40d6a1cf5b1 := by decide

theorem c2s_r22c : keccakChi 0x3808f75f284bc29e451287e8a08f08345aeb9c4dc21ca56afbf6cf308fcd587c980be9f07f33ef02efd0380a405b97dff08a8887928155cfeae7b1b8cdd3ac9bb56d323453816e871947deedf77e41d95ac05d87362206e6db79dc2a18da3bab812953e2176fc04ae0dfc96c128f6a5e6dde425e488e0e8d8e4ed6eb1da81c46ce06231895e803d666dff09836aac44c584ad7964fadc2a9879f8d118143ac502092f273e09a0b8ad6d497ab695a3bc69091a3fbe28c6fb2a57a128bebccedf504fbd40d6a1cf5b1 = 0x5bfcf15fa887d2e2c5118f48f7bf253462e3ec5aca5c67e0fee6cc90af4e50689802f9bd3f234a004bf8181a40dab9d9e08d4e6225a515cfe5b781b08d892e8ba5653a3341813fc353c55f657b2cc1c1dac1d4a7242366b4fe67de72505633a281a95267314fc40eba8f45641a1f51ff6cfe50dc4dee8e8dd60e846d53045eefcf972a0815aba3c66697247b3eaad84cd04ad496ceedc13ba10aad19b141a8148192f0f1615a03ced2bd93a7635ecff7b093c3ab620c6fbae33e068be29efdb1147a757d6a1cf7b3 := by decide

theorem c2s_r22 : keccakRound keccak_rotc_std 0x93108ce1ca01bd91cb1a0cadfd2b55f3f537ab306f382f248e2fe1bd550f37974d9421811b61030a16e3777629d6e5c2cafc305b0201d1562cdefd7d9377e81218e9732a81abb701387df0b5162247c126bc37e0d77be8c1acc223ad32157b17f83d4de5742adf2426d76586f12eb3db40f649220ad5960b61129b2eaeb75b03f6bc67f23c0c73ebfcc2634d3232f0b9289360a4404790918915a1d977561da152f035892b35e2470f18c3e5df445b04e76ebba97eb7711ab6c2fd45bb5ac076c8d6633c661c3b33 22 = 0x5bfcf15fa887d2e2c5118f48f7bf253462e3ec5aca5c67e0fee6cc90af4e50689802f9bd3f234a004bf8181a40dab9d9e08d4e6225a515cfe5b781b08d892e8ba5653a3341813fc353c55f657b2cc1c1dac1d4a7242366b4fe67de72505633a281a95267314fc40eba8f45641a1f51ff6cfe50dc4dee8e8dd60e846d53045eefcf972a0815aba3c66697247b3eaad84cd04ad496ceedc13ba10aad19b141a8148192f0f1615a03ced2bd93a7635ecff7b093c3ab620c6fbae33e068be29efdb1147a757dea1cf7b2 := by

  simp only [keccakRound, c2s_r22t, c2s_r22p, c2s_r22c]

  decide

theorem c2s_r23t : keccakTheta 0x5bfcf15fa887d2e2c5118f48f7bf253462e3ec5aca5c67e0fee6cc90af4e50689802f9bd3f234a004bf8181a40dab9d9e08d4e6225a515cfe5b781b08d892e8ba5653a3341813fc353c55f657b2cc1c1dac1d4a7242366b4fe67de72505633a281a95267314fc40eba8f45641a1f51ff6cfe50dc4dee8e8dd60e846d53045eefcf972a0815aba3c66697247b3eaad84cd04ad496ceedc13ba10aad19b141a8148192f0f1615a03ced2bd93a7635ecff7b093c3ab620c6fbae33e068be29efdb1147a757dea1cf7b2 = 0xb9bf0b68f946085e2f5ac5e821c3befa3d38c06ffb8dbbef4d5c524aa98a7fa5a1ab737670451f13a9bbe22d111b63650ac604c2f3d98e01ba6cad85bc58f28416dfa4e94745100e6a6cd5ae344a94d238822e9075e2bc08142c94d2862aa86cde727e52009e18010935dbbe1cdb7e325557da170288db9e344d7e5a02c5845325dc60a8c3d73808394c084e0f7b044363f04a4cc829eef698a327d2fe27fd0763d10ac6309bd97238f6d907b5225439ef48ef9e53ddb3b550849851e45ad27c2dd3ffb6a57aa2a1 := by decide

theorem c2s_r23p : keccakRhoPi keccak_rotc_std 0xb9bf0b68f946085e2f5ac5e821c3befa3d38c06ffb8dbbef4d5c524aa98a7fa5a1ab737670451f13a9bbe22d111b63650ac604c2f3d98e01ba6cad85bc58f28416dfa4e94745100e6a6cd5ae344a94d238822e9075e2bc08142c94d2862aa86cde727e52009e18010935dbbe1cdb7e325557da170288db9e344d7e5a02c5845325dc60a8c3d73808394c084e0f7b044363f04a4cc829eef698a327d2fe27fd0763d10ac6309bd97238f6d907b5225439ef48ef9e53ddb3b550849851e45ad27c2dd3ffb6a57aa2a1 = 0x3571492aa629fe959529a4d4d9ab5c68f15e041c4117483a0412ee305461eb9c7bd23be794f76cedfa2f5ac5e821c3be56c2de2c79425d36d76ef8736df8c824e27fd0798a327d2f3184decb931e8856cdd9c1147c4e86adbbe22d111b6365a9a50c5550d828592953021383dec110cea10930a3c8b5a4f8e7a7180dff71b77da201c2dbf49d28e8aabed0b81446dcf2e5a02c58453344d77b522543938f6d90c2da3e518217ae6f985e7b31c02158c0f0c00ef393f290049eef663f04a4cc822dd3ffb6a57aa2a1 := by decide

theorem c2s_r23c : keccakChi 0x3571492aa629fe959529a4d4d9ab5c68f15e041c4117483a0412ee305461eb9c7bd23be794f76cedfa2f5ac5e821c3be56c2de2c79425d36d76ef8736df8c824e27fd0798a327d2f3184decb931e8856cdd9c1147c4e86adbbe22d111b6365a9a50c5550d828592953021383dec110cea10930a3c8b5a4f8e7a7180dff71b77da201c2dbf49d28e8aabed0b81446dcf2e5a02c58453344d77b522543938f6d90c2da3e518217ae6f985e7b31c02158c0f0c00ef393f290049eef663f04a4cc822dd3ffb6a57aa2a1 = 0x31718d3ae6297d85dfab9611c97d5c00d10e4d366717eaaf00334ef0ccc9ffdc8a9e3beb95e16ccf38545af5e001b69757425a266a5c55767f43f8b2edd94aace2ffd6759a30683d2484f6c9f6d608569fdbc2146a0e96ab9be21db29bd245f9e1159554bc24db2d49e03b82dd82344e050574f3c89dedd963071015bb41b73aba51e799f4136068ef18c8bc1f264be7e5a12e1ba5aa64df714cf5e383cbf5b050f63e588293e26db55fba97e5495840b2400ab391e4362b96f1173f44a584424dd3f7763628b2a5 := by decide

theorem c2s_r23 : keccakRound keccak_rotc_std 0x5bfcf15fa887d2e2c5118f48f7bf253462e3ec5aca5c67e0fee6cc90af4e50689802f9bd3f234a004bf8181a40dab9d9e08d4e6225a515cfe5b781b08d892e8ba5653a3341813fc353c55f657b2cc1c1dac1d4a7242366b4fe67de72505633a281a95267314fc40eba8f45641a1f51ff6cfe50dc4dee8e8dd60e846d53045eefcf972a0815aba3c66697247b3eaad84cd04ad496ceedc13ba10aad19b141a8148192f0f1615a03ced2bd93a7635ecff7b093c3ab620c6fbae33e068be29efdb1147a757dea1cf7b2 23 = 0x31718d3ae6297d85dfab9611c97d5c00d10e4d366717eaaf00334ef0ccc9ffdc8a9e3beb95e16ccf38545af5e001b69757425a266a5c55767f43f8b2edd94aace2ffd6759a30683d2484f6c9f6d608569fdbc2146a0e96ab9be21db29bd245f9e1159554bc24db2d49e03b82dd82344e050574f3c89dedd963071015bb41b73aba51e799f4136068ef18c8bc1f264be7e5a12e1ba5aa64df714cf5e383cbf5b050f63e588293e26db55fba97e5495840b2400ab391e4362b96f1173f44a58442cdd3f776b62832ad := by

  simp only [keccakRound, c2s_r23t, c2s_r23p, c2s_r23c]

  decide

theorem c2s_perm : keccak_f1600 keccak_rotc_std 0x80000000000000000000000000000000000000000000000000000000000000000000000000000000000000000000000000000000000000000000000000000000000000000000000100000000000000000000000000000000000000000000000000000000000000000000000000000000000000000000000000000000000000000000000000000000 = 0x31718d3ae6297d85dfab9611c97d5c00d10e4d366717eaaf00334ef0ccc9ffdc8a9e3beb95e16ccf38545af5e001b69757425a266a5c55767f43f8b2edd94aace2ffd6759a30683d2484f6c9f6d608569fdbc2146a0e96ab9be21db29bd245f9e1159554bc24db2d49e03b82dd82344e050574f3c89dedd963071015bb41b73aba51e799f4136068ef18c8bc1f264be7e5a12e1ba5aa64df714cf5e383cbf5b050f63e588293e26db55fba97e5495840b2400ab391e4362b96f1173f44a58442cdd3f776b62832ad := by

  rw [keccak_f1600_expand, c2s_r0, c2s_r1, c2s_r2, c2s_r3, c2s_r4, c2s_r5, c2s_r6, c2s_r7, c2s_r8, c2s_r9, c2s_r10, c2s_r11, c2s_r12, c2s_r13, c2s_r14, c2s_r15, c2s_r16, c2s_r17, c2s_r18, c2s_r19, c2s_r20, c2s_r21, c2s_r22, c2s_r23]

theorem c2s_sq : keccakSqueeze32 0x31718d3ae6297d85dfab9611c97d5c00d10e4d366717eaaf00334ef0ccc9ffdc8a9e3beb95e16ccf38545af5e001b69757425a266a5c55767f43f8b2edd94aace2ffd6759a30683d2484f6c9f6d608569fdbc2146a0e96ab9be21db29bd245f9e1159554bc24db2d49e03b82dd82344e050574f3c89dedd963071015bb41b73aba51e799f4136068ef18c8bc1f264be7e5a12e1ba5aa64df714cf5e383cbf5b050f63e588293e26db55fba97e5495840b2400ab391e4362b96f1173f44a58442cdd3f776b62832ad = [173, 50, 40, 182, 118, 247, 211, 205, 66, 132, 165, 68, 63, 23, 241, 150, 43, 54, 228, 145, 179, 10, 64, 178, 64, 88, 73, 229, 151, 186, 95, 181] := by decide

theorem c2s_value : keccak256_64bytes_std [0, 0, 0, 0, 0, 0, 0, 0, 0, 0, 0, 0, 0, 0, 0, 0, 0, 0, 0, 0, 0, 0, 0, 0, 0, 0, 0, 0, 0, 0, 0, 0, 0, 0, 0, 0, 0, 0, 0, 0, 0, 0, 0, 0, 0, 0, 0, 0, 0, 0, 0, 0, 0, 0, 0, 0, 0, 0, 0, 0, 0, 0, 0, 0] = [173, 50, 40, 182, 118, 247, 211, 205, 66, 132, 165, 68, 63, 23, 241, 150, 43, 54, 228, 145, 179, 10, 64, 178, 64, 88, 73, 229, 151, 186, 95, 181] := by

  simp only [keccak256_64bytes_std, keccak256_64bytesWith, c2s_abs, c2s_perm, c2s_sq]

theorem c2g_pad : keccakPad (List.replicate 64 0) = [0, 0, 0, 0, 0, 0, 0, 0, 0, 0, 0, 0, 0, 0, 0, 0, 0, 0, 0, 0, 0, 0, 0, 0, 0, 0, 0, 0, 0, 0, 0, 0, 0, 0, 0, 0, 0, 0, 0, 0, 0, 0, 0, 0, 0, 0, 0, 0, 0, 0, 0, 0, 0, 0, 0, 0, 0, 0, 0, 0, 0, 0, 0, 0, 1, 0, 0, 0, 0, 0, 0, 0, 0, 0, 0, 0, 0, 0, 0, 0, 0, 0, 0, 0, 0, 0, 0, 0, 0, 0, 0, 0, 0, 0, 0, 0, 0, 0, 0, 0, 0, 0, 0, 0, 0, 0, 0, 0, 0, 0, 0, 0, 0, 0, 0, 0, 0, 0, 0, 0, 0, 0, 0, 0, 0, 0, 0, 0, 0, 0, 0, 0, 0, 0, 0, 128] := by decide

theorem c2g_abs : keccakAbsorbBlock 0 [0, 0, 0, 0, 0, 0, 0, 0, 0, 0, 0, 0, 0, 0, 0, 0, 0, 0, 0, 0, 0, 0, 0, 0, 0, 0, 0, 0, 0, 0, 0, 0, 0, 0, 0, 0, 0, 0, 0, 0, 0, 0, 0, 0, 0, 0, 0, 0, 0, 0, 0, 0, 0, 0, 0, 0, 0, 0, 0, 0, 0, 0, 0, 0, 1, 0, 0, 0, 0, 0, 0, 0, 0, 0, 0, 0, 0, 0, 0, 0, 0, 0, 0, 0, 0, 0, 0, 0, 0, 0, 0, 0, 0, 0, 0, 0, 0, 0, 0, 0, 0, 0, 0, 0, 0, 0, 0, 0, 0, 0, 0, 0, 0, 0, 0, 0, 0, 0, 0, 0, 0, 0, 0, 0, 0, 0, 0, 0, 0, 0, 0, 0, 0, 0, 0, 128] = 0x80000000000000000000000000000000000000000000000000000000000000000000000000000000000000000000000000000000000000000000000000000000000000000000000100000000000000000000000000000000000000000000000000000000000000000000000000000000000000000000000000000000000000000000000000000000 := by decide

theorem c2g_value : keccak256 (List.replicate 64 0) = [173, 50, 40, 182, 118, 247, 211, 205, 66, 132, 165, 68, 63, 23, 241, 150, 43, 54, 228, 145, 179, 10, 64, 178, 64, 88, 73, 229, 151, 186, 95, 181] := by

  rw [keccak256_single_block (List.replicate 64 0) [0, 0, 0, 0, 0, 0, 0, 0, 0, 0, 0, 0, 0, 0, 0, 0, 0, 0, 0, 0, 0, 0, 0, 0, 0, 0, 0, 0, 0, 0, 0, 0, 0, 0, 0, 0, 0, 0, 0, 0, 0, 0, 0, 0, 0, 0, 0, 0, 0, 0, 0, 0, 0, 0, 0, 0, 0, 0, 0, 0, 0, 0, 0, 0, 1, 0, 0, 0, 0, 0, 0, 0, 0, 0, 0, 0, 0, 0, 0, 0, 0, 0, 0, 0, 0, 0, 0, 0, 0, 0, 0, 0, 0, 0, 0, 0, 0, 0, 0, 0, 0, 0, 0, 0, 0, 0, 0, 0, 0, 0, 0, 0, 0, 0, 0, 0, 0, 0, 0, 0, 0, 0, 0, 0, 0, 0, 0, 0, 0, 0, 0, 0, 0, 0, 0, 128] 0x80000000000000000000000000000000000000000000000000000000000000000000000000000000000000000000000000000000000000000000000000000000000000000000000100000000000000000000000000000000000000000000000000000000000000000000000000000000000000000000000000000000000000000000000000000000 c2g_pad (by decide) (by decide) c2g_abs, c2s_perm, c2s_sq]

theorem c2c_value_repl : keccak256_64bytes (List.replicate 64 0) = [249, 158, 52, 170, 227, 200, 229, 40, 116, 167, 47, 102, 70, 29, 153, 196, 162, 205, 38, 71, 127, 249, 12, 157, 34, 182, 101, 25, 73, 99, 67, 50] := by
  rw [show (List.replicate 64 0 : List Nat) = [0, 0, 0, 0, 0, 0, 0, 0, 0, 0, 0, 0, 0, 0, 0, 0, 0, 0, 0, 0, 0, 0, 0, 0, 0, 0, 0, 0, 0, 0, 0, 0, 0, 0, 0, 0, 0, 0, 0, 0, 0, 0, 0, 0, 0, 0, 0, 0, 0, 0, 0, 0, 0, 0, 0, 0, 0, 0, 0, 0, 0, 0, 0, 0] from by decide]
  exact c2c_value

theorem c2s_value_repl : keccak256_64bytes_std (List.replicate 64 0) = [173, 50, 40, 182, 118, 247, 211, 205, 66, 132, 165, 68, 63, 23, 241, 150, 43, 54, 228, 145, 179, 10, 64, 178, 64, 88, 73, 229, 151, 186, 95, 181] := by
  rw [show (List.replicate 64 0 : List Nat) = [0, 0, 0, 0, 0, 0, 0, 0, 0, 0, 0, 0, 0, 0, 0, 0, 0, 0, 0, 0, 0, 0, 0, 0, 0, 0, 0, 0, 0, 0, 0, 0, 0, 0, 0, 0, 0, 0, 0, 0, 0, 0, 0, 0, 0, 0, 0, 0, 0, 0, 0, 0, 0, 0, 0, 0, 0, 0, 0, 0, 0, 0, 0, 0] from by decide]
  exact c2s_value

/-! ## The published golden digest of the empty input (model check) -/

theorem kg_pad : keccakPad [] = [1, 0, 0, 0, 0, 0, 0, 0, 0, 0, 0, 0, 0, 0, 0, 0, 0, 0, 0, 0, 0, 0, 0, 0, 0, 0, 0, 0, 0, 0, 0, 0, 0, 0, 0, 0, 0, 0, 0, 0, 0, 0, 0, 0, 0, 0, 0, 0, 0, 0, 0, 0, 0, 0, 0, 0, 0, 0, 0, 0, 0, 0, 0, 0, 0, 0, 0, 0, 0, 0, 0, 0, 0, 0, 0, 0, 0, 0, 0, 0, 0, 0, 0, 0, 0, 0, 0, 0, 0, 0, 0, 0, 0, 0, 0, 0, 0, 0, 0, 0, 0, 0, 0, 0, 0, 0, 0, 0, 0, 0, 0, 0, 0, 0, 0, 0, 0, 0, 0, 0, 0, 0, 0, 0, 0, 0, 0, 0, 0, 0, 0, 0, 0, 0, 0, 128] := by decide

theorem kg_abs : keccakAbsorbBlock 0 [1, 0, 0, 0, 0, 0, 0, 0, 0, 0, 0, 0, 0, 0, 0, 0, 0, 0, 0, 0, 0, 0, 0, 0, 0, 0, 0, 0, 0, 0, 0, 0, 0, 0, 0, 0, 0, 0, 0, 0, 0, 0, 0, 0, 0, 0, 0, 0, 0, 0, 0, 0, 0, 0, 0, 0, 0, 0, 0, 0, 0, 0, 0, 0, 0, 0, 0, 0, 0, 0, 0, 0, 0, 0, 0, 0, 0, 0, 0, 0, 0, 0, 0, 0, 0, 0, 0, 0, 0, 0, 0, 0, 0, 0, 0, 0, 0, 0, 0, 0, 0, 0, 0, 0, 0, 0, 0, 0, 0, 0, 0, 0, 0, 0, 0, 0, 0, 0, 0, 0, 0, 0, 0, 0, 0, 0, 0, 0, 0, 0, 0, 0, 0, 0, 0, 128] = 0x80000000000000000000000000000000000000000000000000000000000000000000000000000000000000000000000000000000000000000000000000000000000000000000000000000000000000000000000000000000000000000000000000000000000000000000000000000000000000000000000000000000000000000000000000000001 := by decide

theorem kg_r0t : keccakTheta 0x80000000000000000000000000000000000000000000000000000000000000000000000000000000000000000000000000000000000000000000000000000000000000000000000000000000000000000000000000000000000000000000000000000000000000000000000000000000000000000000000000000000000000000000000000000001 = 0x2000000000000000080000000000000000000000000000001000000000000000100000000000000020000000000000000800000000000000080000000000000010000000000000001000000000000000200000000000000008000000000000000000000000000000100000000000000010000000000000002000000000000000080000000000000000000000000000001000000000000000100000000000000020000000000000000800000000000000000000000000000010000000000000000 := by decide

theorem kg_r0p : keccakRhoPi keccak_rotc_std 0x2000000000000000080000000000000000000000000000001000000000000000100000000000000020000000000000000800000000000000080000000000000010000000000000001000000000000000200000000000000008000000000000000000000000000000100000000000000010000000000000002000000000000000080000000000000000000000000000001000000000000000100000000000000020000000000000000800000000000000000000000000000010000000000000000 = 0x4000002000000000000000100000000000000000000000000200000000000000000000000000000000000000000004000000000000000040000000010000000000000000010000000000000000004000000000000000002000000000000000000000000000000002000000000000000021000000000000000000030000000000000000000000000080000000000200000000000000000000000000000000080000000000000000000000004000000000000001000000000000000000000000000 := by decide

theorem kg_r0c : keccakChi 0x4000002000000000000000100000000000000000000000000200000000000000000000000000000000000000000004000000000000000040000000010000000000000000010000000000000000004000000000000000002000000000000000000000000000000002000000000000000021000000000000000000030000000000000000000000000080000000000200000000000000000000000000000000080000000000000000000000004000000000000001000000000000000000000000000 = 0x4200002000000000000000100000000040000020000000000200001000000000000000010000000000000000010004000000000000000040000000010000040000000000010000400000000000004002000000000000002020000000000040000000000000000022000000000000000021000000000200000000030000000000010000000000000080000300000200000000000000000000800001000000080000000000000000000000004000000800000001000000000000000040000000000 := by decide

theorem kg_r0 : keccakRound keccak_rotc_std 0x80000000000000000000000000000000000000000000000000000000000000000000000000000000000000000000000000000000000000000000000000000000000000000000000000000000000000000000000000000000000000000000000000000000000000000000000000000000000000000000000000000000000000000000000000000001 0 = 0x4200002000000000000000100000000040000020000000000200001000000000000000010000000000000000010004000000000000000040000000010000040000000000010000400000000000004002000000000000002020000000000040000000000000000022000000000000000021000000000200000000030000000000010000000000000080000300000200000000000000000000800001000000080000000000000000000000004000000800000001000000000000000040000000001 := by

  simp only [keccakRound, kg_r0t, kg_r0p, kg_r0c]

  decide

theorem kg_r1t : keccakTheta 0x4200002000000000000000100000000040000020000000000200001000000000000000010000000000000000010004000000000000000040000000010000040000000000010000400000000000004002000000000000002020000000000040000000000000000022000000000000000021000000000200000000030000000000010000000000000080000300000200000000000000000000800001000000080000000000000000000000004000000800000001000000000000000040000000001 = 0x6000380030004a1010002720004d8444400047102020c62000000d0010090c1330005530006404646000381030004a1430002520104dc444400046102020c22400000f1010094c1310005430106400646000380030044a3430002520004d8646400046102024c62400000f0010090e3310005430006404667000380030204a1430001520004d8444500046102020c62c00003f0010290c13100054300064046c600028003000ca1430002520004d8444400042102020462400001f0010090c131000503000640465 := by decide

theorem kg_r1p : keccakRhoPi keccak_rotc_std 0x6000380030004a1010002720004d8444400047102020c62000000d0010090c1330005530006404646000381030004a1430002520104dc444400046102020c22400000f1010094c1310005430106400646000380030044a3430002520004d8646400046102024c62400000f0010090e3310005430006404667000380030204a1430001520004d8444500046102020c62c00003f0010290c13100054300064046c600028003000ca1430002520004d8444400042102020462400001f0010090c131000503000640465 = 0x34004024304cc800c82000a8602002251a30001c00182218000a900026c210001084080811894410002720004d842308101061122000003c00402438cc00064046c10005430001800650a300014054c001901190c00100381030004a146040009b0c8c60004a0011840808318b1400003e0020121826080008e2040418c42982600001e202018002a1800320233080030204a14700030004d844430002520e000c0012841800a40209b888860004263122000230810190c1300003f001021000503000640465 := by decide

theorem kg_r1c : keccakChi 0x34004024304cc800c82000a8602002251a30001c00182218000a900026c210001084080811894410002720004d842308101061122000003c00402438cc00064046c10005430001800650a300014054c001901190c00100381030004a146040009b0c8c60004a0011840808318b1400003e0020121826080008e2040418c42982600001e202018002a1800320233080030204a14700030004d844430002520e000c0012841800a40209b888860004263122000230810190c1300003f001021000503000640465 = 0x2218340ad024160ed800c8a408a061a102252e3040181054ea18c00a90a046e210250ab408141191425040a620050f8422881640e2122040442c006724388184254056d14107630001bc065087388d4054d1819819b1431100382e3020480c4614c09a8c9df0c04b00298438083b9f3440002504a452186c88030ae2a44318c52986b00442e200138002a96207243bf4a9834204a1850002000479c4412021628ec12c0011141902b402598888e604612c3126001030990110c339b88b7601063630523000648464 := by decide

theorem kg_r1 : keccakRound keccak_rotc_std 0x4200002000000000000000100000000040000020000000000200001000000000000000010000000000000000010004000000000000000040000000010000040000000000010000400000000000004002000000000000002020000000000040000000000000000022000000000000000021000000000200000000030000000000010000000000000080000300000200000000000000000000800001000000080000000000000000000000004000000800000001000000000000000040000000001 1 = 0x2218340ad024160ed800c8a408a061a102252e3040181054ea18c00a90a046e210250ab408141191425040a620050f8422881640e2122040442c006724388184254056d14107630001bc065087388d4054d1819819b1431100382e3020480c4614c09a8c9df0c04b00298438083b9f3440002504a452186c88030ae2a44318c52986b00442e200138002a96207243bf4a9834204a1850002000479c4412021628ec12c0011141902b402598888e604612c3126001030990110c339b88b76010636305230006404e6 := by

  simp only [keccakRound, kg_r1t, kg_r1p, kg_r1c]

  decide

theorem kg_r2t : keccakTheta 0x2218340ad024160ed800c8a408a061a102252e3040181054ea18c00a90a046e210250ab408141191425040a620050f8422881640e2122040442c006724388184254056d14107630001bc065087388d4054d1819819b1431100382e3020480c4614c09a8c9df0c04b00298438083b9f3440002504a452186c88030ae2a44318c52986b00442e200138002a96207243bf4a9834204a1850002000479c4412021628ec12c0011141902b402598888e604612c3126001030990110c339b88b76010636305230006404e6 = 0x8a76297a04af1da9424d54b15fea2477ba7c75dfb28b382c7041b56d27130106ce1c0bddb20c3d69ea3e5dd6f48e0423b8c58a55b5586596fc755b88d6aba9fcbf1923b6f6b424e4df8507393d20a1b8fcbf9ce8cd3a48b69a75b22577024990ac99c1636f63e8339a70f15fbf88d8d09e39246d1e4a3494206d179270c81362b3cb2c1115a845c5385bf28df5b7138c33da3763163647e6de3d78adfb380d9a26af3170c59f12a52e4fc59ddfac41b794687defe2a3b1798a9a4cdf3cc546e2e8095359ba7c281e := by decide

theorem kg_r2p : keccakRhoPi keccak_rotc_std 0x8a76297a04af1da9424d54b15fea2477ba7c75dfb28b382c7041b56d27130106ce1c0bddb20c3d69ea3e5dd6f48e0423b8c58a55b5586596fc755b88d6aba9fcbf1923b6f6b424e4df8507393d20a1b8fcbf9ce8cd3a48b69a75b22577024990ac99c1636f63e8339a70f15fbf88d8d09e39246d1e4a3494206d179270c81362b3cb2c1115a845c5385bf28df5b7138c33da3763163647e6de3d78adfb380d9a26af3170c59f12a52e4fc59ddfac41b794687defe2a3b1798a9a4cdf3cc546e2e8095359ba7c281e = 0xc106d5b49c4c0419414371bf0a0e727a9d245b7e5fce7466e2d9e596088ad422651a1f7bf8a8ec5e77424d54b15fea24adc46b55d4fe7e3ac3c57efe23634269b380d9ade3d78adf862cf8952935798b2f76c830f5a738703e5dd6f48e0423ea4aee04932134eb6416fca37d6dc4e30e153499be798a8dc5974f8ebbf6516705849c97e32476ded6f1c92368f251a4a479270c81362206d1ddfac41b72e4fc598a5e812bc76a629d4ab6ab0cb2d718b11f419d64ce0b1b7b647e633da3763163e8095359ba7c281e := by decide

theorem kg_r2c : keccakChi 0xc106d5b49c4c0419414371bf0a0e727a9d245b7e5fce7466e2d9e596088ad422651a1f7bf8a8ec5e77424d54b15fea24adc46b55d4fe7e3ac3c57efe23634269b380d9ade3d78adf862cf8952935798b2f76c830f5a738703e5dd6f48e0423ea4aee04932134eb6416fca37d6dc4e30e153499be798a8dc5974f8ebbf6516705849c97e32476ded6f1c92368f251a4a479270c81362206d1ddfac41b72e4fc598a5e812bc76a629d4ab6ab0cb2d718b11f419d64ce0b1b7b647e633da3763163e8095359ba7c281e = 0x43c735309c4e1439655b7bf46aae9a3c1d20df7ecb8e7067a29ac517088ad63a783e0513afeccc1a46c24c7c739d68702de8dbd4dcde6fb191c77afe0262c26d9f80d8ac374bb6cdc669dec7291539ab2dbeea71f1e35a7a2e5dc77a860ca66f4bcc0c935097f37422ed7119e3c4e3845d369d3c79ba85a5b74a863bf2536585cc2cd7e324d2468ee28a2b70205085a57d33980232045c835d32e773b2b55c7d8e28a10fc66873fc2ab7f95c8ac310b39f099d478b23797724c8413593a231e3f308cf19f6752206 := by decide

theorem kg_r2 : keccakRound keccak_rotc_std 0x2218340ad024160ed800c8a408a061a102252e3040181054ea18c00a90a046e210250ab408141191425040a620050f8422881640e2122040442c006724388184254056d14107630001bc065087388d4054d1819819b1431100382e3020480c4614c09a8c9df0c04b00298438083b9f3440002504a452186c88030ae2a44318c52986b00442e200138002a96207243bf4a9834204a1850002000479c4412021628ec12c0011141902b402598888e604612c3126001030990110c339b88b76010636305230006404e6 2 = 0x43c735309c4e1439655b7bf46aae9a3c1d20df7ecb8e7067a29ac517088ad63a783e0513afeccc1a46c24c7c739d68702de8dbd4dcde6fb191c77afe0262c26d9f80d8ac374bb6cdc669dec7291539ab2dbeea71f1e35a7a2e5dc77a860ca66f4bcc0c935097f37422ed7119e3c4e3845d369d3c79ba85a5b74a863bf2536585cc2cd7e324d2468ee28a2b70205085a57d33980232045c835d32e773b2b55c7d8e28a10fc66873fc2ab7f95c8ac310b39f099d478b23797724c8413593a231e37308cf19f675a28c := by

  simp only [keccakRound, kg_r2t, kg_r2p, kg_r2c]

  decide

theorem kg_r3t : keccakTheta 0x43c735309c4e1439655b7bf46aae9a3c1d20df7ecb8e7067a29ac517088ad63a783e0513afeccc1a46c24c7c739d68702de8dbd4dcde6fb191c77afe0262c26d9f80d8ac374bb6cdc669dec7291539ab2dbeea71f1e35a7a2e5dc77a860ca66f4bcc0c935097f37422ed7119e3c4e3845d369d3c79ba85a5b74a863bf2536585cc2cd7e324d2468ee28a2b70205085a57d33980232045c835d32e773b2b55c7d8e28a10fc66873fc2ab7f95c8ac310b39f099d478b23797724c8413593a231e37308cf19f675a28c = 0x5904a1d075240c2dfc400cc20cb047045bc6f9208af795cb1a9195ddd7182386e5feda307ea020765c01d89c9af77064b4f3ace2bac0b289d7215ca0431b27c1278b8866e8d943715ba901e4f859d5c7377d7e911889426eb746b04ce0127b570d2a2acd11ee16d89ae621d33c561638c0f6421fa8f669c9ad8912db1b397d915537a0d542cc9bb6a46c0d2e61296009c538c8c8ed96a93fc0f2385063f9b01194eb35ef2f026be8b3ac8e6aecddcd8bd9efbb19ca5a9cdb9cc311ff4c30c45feec8103a27394ee0 := by decide

theorem kg_r3p : keccakRhoPi keccak_rotc_std 0x5904a1d075240c2dfc400cc20cb047045bc6f9208af795cb1a9195ddd7182386e5feda307ea020765c01d89c9af77064b4f3ace2bac0b289d7215ca0431b27c1278b8866e8d943715ba901e4f859d5c7377d7e911889426eb746b04ce0127b570d2a2acd11ee16d89ae621d33c561638c0f6421fa8f669c9ad8912db1b397d915537a0d542cc9bb6a46c0d2e61296009c538c8c8ed96a93fc0f2385063f9b01194eb35ef2f026be8b3ac8e6aecddcd8bd9efbb19ca5a9cdb9cc311ff4c30c45feec8103a27394ee0 = 0x6a4657775c608e18b3ab8eb75203c9f044a1371bbebf488cdb2a9bd06aa1664df67beec67296a73604fc400cc20cb047ae50218d93e0eb9098874cf15858e26b3f9b011c0f2385067978135f44a759af68c1fa8081db97fb01d89c9af770645c99c024f6af6e8d601b034b984a580269398623fe986188bf6b78df24115ef2b9286e24f1710cdd1b07b210fd47b34e4e2db1b397d91ad891aecddcd8bb3ac8e628741d49030b56419c57581651369e7570b6c0695156688f6a93fc538c8c8ed9eec8103a27394ee0 := by decide

theorem kg_r3c : keccakChi 0x6a4657775c608e18b3ab8eb75203c9f044a1371bbebf488cdb2a9bd06aa1664df67beec67296a73604fc400cc20cb047ae50218d93e0eb9098874cf15858e26b3f9b011c0f2385067978135f44a759af68c1fa8081db97fb01d89c9af770645c99c024f6af6e8d601b034b984a580269398623fe986188bf6b78df24115ef2b9286e24f1710cdd1b07b210fd47b34e4e2db1b397d91ad891aecddcd8bb3ac8e628741d49030b56419c57581651369e7570b6c0695156688f6a93fc538c8c8ed9eec8103a27394ee0 = 0x634646675441ce51279226377095e8d60ce5665bb2df4e84682013742aa1e73df2facacde688afb6027f400cc90c3447d75032de9743a238982b0cf11854f22c19cb20108c838c96f97c5fbe14ff3bc66ac0b280c3c395bb10de9de4ef506c58f1c146f6afe51ec31b1bd3901a486275b94607983d4705bf6a48fc23515ee2a8aceb2429db2cd55d44a2cbf947e16cee05fd9797e9164980accfdcb0bd9bcea82867f1088b8fd6585adf5824750696d55096c520535f288fe6d2e4458cac18a9feec1012766b2ee6 := by decide

theorem kg_r3 : keccakRound keccak_rotc_std 0x43c735309c4e1439655b7bf46aae9a3c1d20df7ecb8e7067a29ac517088ad63a783e0513afeccc1a46c24c7c739d68702de8dbd4dcde6fb191c77afe0262c26d9f80d8ac374bb6cdc669dec7291539ab2dbeea71f1e35a7a2e5dc77a860ca66f4bcc0c935097f37422ed7119e3c4e3845d369d3c79ba85a5b74a863bf2536585cc2cd7e324d2468ee28a2b70205085a57d33980232045c835d32e773b2b55c7d8e28a10fc66873fc2ab7f95c8ac310b39f099d478b23797724c8413593a231e37308cf19f675a28c 3 = 0x634646675441ce51279226377095e8d60ce5665bb2df4e84682013742aa1e73df2facacde688afb6027f400cc90c3447d75032de9743a238982b0cf11854f22c19cb20108c838c96f97c5fbe14ff3bc66ac0b280c3c395bb10de9de4ef506c58f1c146f6afe51ec31b1bd3901a486275b94607983d4705bf6a48fc23515ee2a8aceb2429db2cd55d44a2cbf947e16cee05fd9797e9164980accfdcb0bd9bcea82867f1088b8fd6585adf5824750696d55096c520535f288fe6d2e4458cac18a97eec1012f66baee6 := by

  simp only [keccakRound, kg_r3t, kg_r3p, kg_r3c]

  decide

theorem kg_r4t : keccakTheta 0x634646675441ce51279226377095e8d60ce5665bb2df4e84682013742aa1e73df2facacde688afb6027f400cc90c3447d75032de9743a238982b0cf11854f22c19cb20108c838c96f97c5fbe14ff3bc66ac0b280c3c395bb10de9de4ef506c58f1c146f6afe51ec31b1bd3901a486275b94607983d4705bf6a48fc23515ee2a8aceb2429db2cd55d44a2cbf947e16cee05fd9797e9164980accfdcb0bd9bcea82867f1088b8fd6585adf5824750696d55096c520535f288fe6d2e4458cac18a97eec1012f66baee6 = 0xb4a80ff4fb6c486dc504773369fbb866a96b1f7c2657dc0feab508378dc0daa8a8935540d1774504d591099f6621b27b35c663da8e2df2883da575d68cdc60a79b5e3b532be2b103a315c0332300d174bd2efb136cee1387f248cce0f63e3ce8544f3fd13b6d8c48998ec8d3bd295fe0e32f98150ab8ef0dbda6b5b0fe7364944e7d752dc24285ede12cb2ded369fe6587688cd44e777415f6a6433d8a64241aff89b89b24a25064b84909206c68c665f518bc07c7d7ba046447ff062bcd253c24858f9fc1944454 := by decide

theorem kg_r4p : keccakRhoPi keccak_rotc_std 0xb4a80ff4fb6c486dc504773369fbb866a96b1f7c2657dc0feab508378dc0daa8a8935540d1774504d591099f6621b27b35c663da8e2df2883da575d68cdc60a79b5e3b532be2b103a315c0332300d174bd2efb136cee1387f248cce0f63e3ce8544f3fd13b6d8c48998ec8d3bd295fe0e32f98150ab8ef0dbda6b5b0fe7364944e7d752dc24285ede12cb2ded369fe6587688cd44e777415f6a6433d8a64241aff89b89b24a25064b84909206c68c665f518bc07c7d7ba046447ff062bcd253c24858f9fc1944454 = 0xaad420de37036aa301a2e9462b8066467709c3de977d89b6f6a73eba96e121423d462f01f1f5ee8166c504773369fbb8baeb466e30539ed23b234ef4a57f8266a64241af6a6433d8d925128327fc4dc4550345dd1412a24d91099f6621b27bd5c1ec7c79d1e491994b2cb7b4da7f9978c88ffe0c579a4a78f52d63ef84cafb815620736bc76a657c197cc0a855c7786f5b0fe736494bda6b06c68c665b84909203fd3edb121b6d2a7b51c5be5106b8cc6c6242a279fe89db7741587688cd44e724858f9fc1944454 := by decide

theorem kg_r4c : keccakChi 0xaad420de37036aa301a2e9462b8066467709c3de977d89b6f6a73eba96e121423d462f01f1f5ee8166c504773369fbb8baeb466e30539ed23b234ef4a57f8266a64241af6a6433d8d925128327fc4dc4550345dd1412a24d91099f6621b27bd5c1ec7c79d1e491994b2cb7b4da7f9978c88ffe0c579a4a78f52d63ef84cafb815620736bc76a657c197cc0a855c7786f5b0fe736494bda6b06c68c665b84909203fd3edb121b6d2a7b51c5be5106b8cc6c6242a279fe89db7741587688cd44e724858f9fc1944454 = 0x6875306431036be114a0e647eb74e246dd5dc346837e8117f60516babe6147023c4eee45f0e966354087455b7b69c9a023cb54ee34c79a967f274ee5a657e34e268a41a57a642f48c0041cd3a2e7cde25623446d9c77334d19852566623a33e585ee3ce0c5e411915b2d34b2fa6df33c484fb645561a4af9ac2400ff8481b1e854e2ff6b9c6e656eb871c02c5547e2ee1d0fd475cb63df7b06b68cee4f00b09650bd6ebb1a526d895f5144ba9082b8986cce78e37be7ccf96450dd6a88cd74e32ca78d1fb0a6cd4c := by decide

theorem kg_r4 : keccakRound keccak_rotc_std 0x634646675441ce51279226377095e8d60ce5665bb2df4e84682013742aa1e73df2facacde688afb6027f400cc90c3447d75032de9743a238982b0cf11854f22c19cb20108c838c96f97c5fbe14ff3bc66ac0b280c3c395bb10de9de4ef506c58f1c146f6afe51ec31b1bd3901a486275b94607983d4705bf6a48fc23515ee2a8aceb2429db2cd55d44a2cbf947e16cee05fd9797e9164980accfdcb0bd9bcea82867f1088b8fd6585adf5824750696d55096c520535f288fe6d2e4458cac18a97eec1012f66baee6 4 = 0x6875306431036be114a0e647eb74e246dd5dc346837e8117f60516babe6147023c4eee45f0e966354087455b7b69c9a023cb54ee34c79a967f274ee5a657e34e268a41a57a642f48c0041cd3a2e7cde25623446d9c77334d19852566623a33e585ee3ce0c5e411915b2d34b2fa6df33c484fb645561a4af9ac2400ff8481b1e854e2ff6b9c6e656eb871c02c5547e2ee1d0fd475cb63df7b06b68cee4f00b09650bd6ebb1a526d895f5144ba9082b8986cce78e37be7ccf96450dd6a88cd74e32ca78d1fb0a64dc7 := by

  simp only [keccakRound, kg_r4t, kg_r4p, kg_r4c]

  decide

theorem kg_r5t : keccakTheta 0x6875306431036be114a0e647eb74e246dd5dc346837e8117f60516babe6147023c4eee45f0e966354087455b7b69c9a023cb54ee34c79a967f274ee5a657e34e268a41a57a642f48c0041cd3a2e7cde25623446d9c77334d19852566623a33e585ee3ce0c5e411915b2d34b2fa6df33c484fb645561a4af9ac2400ff8481b1e854e2ff6b9c6e656eb871c02c5547e2ee1d0fd475cb63df7b06b68cee4f00b09650bd6ebb1a526d895f5144ba9082b8986cce78e37be7ccf96450dd6a88cd74e32ca78d1fb0a64dc7 = 0x7100963f7702c5dde31b51e7b4852542651af1c99c739c7f8e474081d909e0c25bfc643743ab4a8559f2e3003d68679cd470e34e6b365d92c7607c6ab95afe265ec8179e1d0c8888a7b696a111a5e1524f56e236da769d71ee3e92c63dcbf4e13da90e6fdae90cf9236f62899d0554fc2ffd3c37e5586649b551a6a4c2801fd4a35948cbc39fa26a0036f2a34a4aff86654d824eac0b78bb6104069cfc429c2649c8c8e05c53c3b5a8eaf31acf737f9cd4894a6c64ead1911c128b51efa5d3234b15076d03e46177 := by decide

theorem kg_r5p : keccakRhoPi keccak_rotc_std 0x7100963f7702c5dde31b51e7b4852542651af1c99c739c7f8e474081d909e0c25bfc643743ab4a8559f2e3003d68679cd470e34e6b365d92c7607c6ab95afe265ec8179e1d0c8888a7b696a111a5e1524f56e236da769d71ee3e92c63dcbf4e13da90e6fdae90cf9236f62899d0554fc2ffd3c37e5586649b551a6a4c2801fd4a35948cbc39fa26a0036f2a34a4aff86654d824eac0b78bb6104069cfc429c2649c8c8e05c53c3b5a8eaf31acf737f9cd4894a6c64ead1911c128b51efa5d3234b15076d03e46177 = 0x391d02076427830a4bc2a54f6d2d42233b4eb8a7ab711b6d3551aca465e1cfd17522529b193ab46442e31b51e7b485253e355cad7f1363b0bd8a26741553f08dc429c266104069cf02e29e1daa4e464790dd0ead2a156ff1f2e3003d68679c598c7b97e9c3dc7d250dbca8d292bfe180382516a3df4ba646eca35e39338e738f91110bd902f3c3a17fe9e1bf2ac332496a4c2801fd4b551aacf737f9ca8eaf31258fddc0b1775c4069cd66cbb25a8e1c4867c9ed48737ed7b78bb654d824eac04b15076d03e46177 := by decide

theorem kg_r5c : keccakChi 0x391d02076427830a4bc2a54f6d2d42233b4eb8a7ab711b6d3551aca465e1cfd17522529b193ab46442e31b51e7b485253e355cad7f1363b0bd8a26741553f08dc429c266104069cf02e29e1daa4e464790dd0ead2a156ff1f2e3003d68679c598c7b97e9c3dc7d250dbca8d292bfe180382516a3df4ba646eca35e39338e738f91110bd902f3c3a17fe9e1bf2ac332496a4c2801fd4b551aacf737f9ca8eaf31258fddc0b1775c4069cd66cbb25a8e1c4867c9ed48737ed7b78bb654d824eac04b15076d03e46177 = 0x394cae2300e6c89b0fe0f5d7743576470b53baa7ab739a6575d1a9ec21ed8fd37f2c4298932aa44886ea5b33f7b4acad3e35d8a1775921f2fd48252495f77488c61c9aef7a406aff3b60ba0daf5dd6479545a6fd2aa12e71dac3103fbd2d1c5f8c679969c1cc1e857f3ca8c6ba9c61d8b866018a9e0bba63aeab563906cf238591452a19caf34f91134bb59f1bcf0247ea5c2241fd7b94bab956f647c80e8d7091056dd06977d6c023dd64e6b0daaf2b4c6550ed49562e97960390566a2c6ac803714ec403b77560 := by decide

theorem kg_r5 : keccakRound keccak_rotc_std 0x6875306431036be114a0e647eb74e246dd5dc346837e8117f60516babe6147023c4eee45f0e966354087455b7b69c9a023cb54ee34c79a967f274ee5a657e34e268a41a57a642f48c0041cd3a2e7cde25623446d9c77334d19852566623a33e585ee3ce0c5e411915b2d34b2fa6df33c484fb645561a4af9ac2400ff8481b1e854e2ff6b9c6e656eb871c02c5547e2ee1d0fd475cb63df7b06b68cee4f00b09650bd6ebb1a526d895f5144ba9082b8986cce78e37be7ccf96450dd6a88cd74e32ca78d1fb0a64dc7 5 = 0x394cae2300e6c89b0fe0f5d7743576470b53baa7ab739a6575d1a9ec21ed8fd37f2c4298932aa44886ea5b33f7b4acad3e35d8a1775921f2fd48252495f77488c61c9aef7a406aff3b60ba0daf5dd6479545a6fd2aa12e71dac3103fbd2d1c5f8c679969c1cc1e857f3ca8c6ba9c61d8b866018a9e0bba63aeab563906cf238591452a19caf34f91134bb59f1bcf0247ea5c2241fd7b94bab956f647c80e8d7091056dd06977d6c023dd64e6b0daaf2b4c6550ed49562e97960390566a2c6ac803714ec483b77561 := by

  simp only [keccakRound, kg_r5t, kg_r5p, kg_r5c]

  decide

theorem kg_r6t : keccakTheta 0x394cae2300e6c89b0fe0f5d7743576470b53baa7ab739a6575d1a9ec21ed8fd37f2c4298932aa44886ea5b33f7b4acad3e35d8a1775921f2fd48252495f77488c61c9aef7a406aff3b60ba0daf5dd6479545a6fd2aa12e71dac3103fbd2d1c5f8c679969c1cc1e857f3ca8c6ba9c61d8b866018a9e0bba63aeab563906cf238591452a19caf34f91134bb59f1bcf0247ea5c2241fd7b94bab956f647c80e8d7091056dd06977d6c023dd64e6b0daaf2b4c6550ed49562e97960390566a2c6ac803714ec483b77561 = 0xecd85eac170403310028c646bd73d4fb08e1741855c4b64379792f41938b06de0b3d7938cdadee47537eabbce056670731fdeb30be1f834efefaeb9b6b4058aecab41c42c826e3f24f7181adf1da9c4840d156723d43e5dbd50b23ae746bbee38fd557d63f7b32a373942e6b08fae8d5cc773a2ac08cf06c7b3fa6b6112de82f9e8d198803b5ed2d10f97b20e5782e61e6f4a4ec4f1d1db7cd47cde79689c77f44919d5f7e951d6a2c155777799c0d974fd79e52b7e102b19aab16fbd84ae3c577607564dd303f6e := by decide

theorem kg_r6p : keccakRhoPi keccak_rotc_std 0xecd85eac170403310028c646bd73d4fb08e1741855c4b64379792f41938b06de0b3d7938cdadee47537eabbce056670731fdeb30be1f834efefaeb9b6b4058aecab41c42c826e3f24f7181adf1da9c4840d156723d43e5dbd50b23ae746bbee38fd557d63f7b32a373942e6b08fae8d5cc773a2ac08cf06c7b3fa6b6112de82f9e8d198803b5ed2d10f97b20e5782e61e6f4a4ec4f1d1db7cd47cde79689c77f44919d5f7e951d6a2c155777799c0d974fd79e52b7e102b19aab16fbd84ae3c577607564dd303f6e = 0xe5e4bd064e2c1b79b538909ee3035be3a1f2eda068ab391e96cf468cc401daf653f5e794adf840acfb0028c646bd73d475cdb5a02c577f7d50b9ac23eba355ce689c77fcd47cde79fbf4a8eb52248ceae4e336b7b91c2cf57eabbce0566707535ce8d77dc7aa16473e5ec8395e0b984435562df7b095c78b611c2e830ab896c8dc7e59568388590463b9d156046783666b6112de82f7b3fa7799c0d972c1557717ab05c100cc7b366617c3f069c63fbdd9951c7eaabeb1fbd1db7e6f4a4ec4f177607564dd303f6e := by decide

theorem kg_r6c : keccakChi 0xe5e4bd064e2c1b79b538909ee3035be3a1f2eda068ab391e96cf468cc401daf653f5e794adf840acfb0028c646bd73d475cdb5a02c577f7d50b9ac23eba355ce689c77fcd47cde79fbf4a8eb52248ceae4e336b7b91c2cf57eabbce0566707535ce8d77dc7aa16473e5ec8395e0b984435562df7b095c78b611c2e830ab896c8dc7e59568388590463b9d156046783666b6112de82f7b3fa7799c0d972c1557717ab05c100cc7b366617c3f069c63fbdd9951c7eaabeb1fbd1db7e6f4a4ec4f177607564dd303f6e = 0x61eebd0e0e2d812ba729d20e42d31b67e136c0a06487390682c756924701981772c54eb4855261a4fb087fd2c2e521c5753935893c57f357dab9a465a90b554e4dd8667cd028f448ebd520e879a78d6ceeebf6bff71634b16fbfb5a056e6c459dca8d56a6eb23ee31c5de0b94e4e995475f63ab33135c188697c3c858a8e3440caff990ef3c9183342b9f7d70c5705aef7271ade017febfa770101d976c1557397300fca0282bba70657b3d4b4f63bf5c83d187faab6f1f9f7d9bdef0b0ecaf57f6475747d800e64 := by decide

theorem kg_r6 : keccakRound keccak_rotc_std 0x394cae2300e6c89b0fe0f5d7743576470b53baa7ab739a6575d1a9ec21ed8fd37f2c4298932aa44886ea5b33f7b4acad3e35d8a1775921f2fd48252495f77488c61c9aef7a406aff3b60ba0daf5dd6479545a6fd2aa12e71dac3103fbd2d1c5f8c679969c1cc1e857f3ca8c6ba9c61d8b866018a9e0bba63aeab563906cf238591452a19caf34f91134bb59f1bcf0247ea5c2241fd7b94bab956f647c80e8d7091056dd06977d6c023dd64e6b0daaf2b4c6550ed49562e97960390566a2c6ac803714ec483b77561 6 = 0x61eebd0e0e2d812ba729d20e42d31b67e136c0a06487390682c756924701981772c54eb4855261a4fb087fd2c2e521c5753935893c57f357dab9a465a90b554e4dd8667cd028f448ebd520e879a78d6ceeebf6bff71634b16fbfb5a056e6c459dca8d56a6eb23ee31c5de0b94e4e995475f63ab33135c188697c3c858a8e3440caff990ef3c9183342b9f7d70c5705aef7271ade017febfa770101d976c1557397300fca0282bba70657b3d4b4f63bf5c83d187faab6f1f9f7d9bdef0b0ecaf5ff647574fd808ee5 := by

  simp only [keccakRound, kg_r6t, kg_r6p, kg_r6c]

  decide

theorem kg_r7t : keccakTheta 0x61eebd0e0e2d812ba729d20e42d31b67e136c0a06487390682c756924701981772c54eb4855261a4fb087fd2c2e521c5753935893c57f357dab9a465a90b554e4dd8667cd028f448ebd520e879a78d6ceeebf6bff71634b16fbfb5a056e6c459dca8d56a6eb23ee31c5de0b94e4e995475f63ab33135c188697c3c858a8e3440caff990ef3c9183342b9f7d70c5705aef7271ade017febfa770101d976c1557397300fca0282bba70657b3d4b4f63bf5c83d187faab6f1f9f7d9bdef0b0ecaf5ff647574fd808ee5 = 0xd9ef8577ec736328de08825020a88aead084463c692bf25c3d02cade0a3f23395ffca75590add215430947ab20bbc3c60c1865d75e2c62daeb0b22f9a4a79e14f21dfa309d164f66c6ecc9096c583edd56eacec61548d6b2169ee5fe349d55d4ed1a53f6631ef5b9a3987cf50370227a58cfd35224ca7239d17d04fc68d0d643b3dec95091b289be730b714b01fbcef448e286924c4150d45a38e838633ee6c22f3137b3e0dc59a47f76e38ad68daa78f98f9ee3a71a3aa3481c21a3463071dbd25d9c95e87f3d54 := by decide

theorem kg_r7p : keccakRhoPi keccak_rotc_std 0xd9ef8577ec736328de08825020a88aead084463c692bf25c3d02cade0a3f23395ffca75590add215430947ab20bbc3c60c1865d75e2c62daeb0b22f9a4a79e14f21dfa309d164f66c6ecc9096c583edd56eacec61548d6b2169ee5fe349d55d4ed1a53f6631ef5b9a3987cf50370227a58cfd35224ca7239d17d04fc68d0d643b3dec95091b289be730b714b01fbcef448e286924c4150d45a38e838633ee6c22f3137b3e0dc59a47f76e38ad68daa78f98f9ee3a71a3aa3481c21a3463071dbd25d9c95e87f3d54 = 0xf40b2b7828fc8ce4b07dbb8dd99212d8a46b592b7567630adf59ef64a848d944fe63e7b8e9c68ea8eade08825020a88a917cd253cf0a758561f3d40dc089ea8e33ee6c25a38e83869f06e2cd217989bd9d5642b748557ff20947ab20bbc3c643fc693aaba82d3dcbc2dc52c07ef3bd1c903843468c60e3b69a1088c78d257e4bc9ecde43bf4613a2c67e9a91265391ca4fc68d0d643d17d0ad68daa787f76e38e15dfb1cd8ca367bbaebc58c5b41830cf7adcf68d29fb318150d448e286924c4d25d9c95e87f3d54 := by decide

theorem kg_r7c : keccakChi 0xf40b2b7828fc8ce4b07dbb8dd99212d8a46b592b7567630adf59ef64a848d944fe63e7b8e9c68ea8eade08825020a88a917cd253cf0a758561f3d40dc089ea8e33ee6c25a38e83869f06e2cd217989bd9d5642b748557ff20947ab20bbc3c643fc693aaba82d3dcbc2dc52c07ef3bd1c903843468c60e3b69a1088c78d257e4bc9ecde43bf4613a2c67e9a91265391ca4fc68d0d643d17d0ad68daa787f76e38e15dfb1cd8ca367bbaebc58c5b41830cf7adcf68d29fb318150d448e286924c4d25d9c95e87f3d54 = 0xf513233c28f4dda0ba1d7f0d189010d0e069595b550bef2ecf4d4de020d8c994de41f7b3bce1aca2ca3604a2d2a6aa88847c301eee5374b00b71dc8dd0a96284a3e26e77ac8c9687df1772c56178e1b5df9252373ac663fa096faa603fe3464768797a3ce839047bc3dad3c06d317f1cac196b6d0c6ce375d8968dcfed2d6f8bec848c63bd941392d46e9a152672fd834646c94ffd3915f02d50c83785b5ee32e45dbb16d8ca36fba8ebc10d7b748a08b6b9f5785215876b1d4f440a212924c030fd17f53ae9ae4c := by decide

theorem kg_r7 : keccakRound keccak_rotc_std 0x61eebd0e0e2d812ba729d20e42d31b67e136c0a06487390682c756924701981772c54eb4855261a4fb087fd2c2e521c5753935893c57f357dab9a465a90b554e4dd8667cd028f448ebd520e879a78d6ceeebf6bff71634b16fbfb5a056e6c459dca8d56a6eb23ee31c5de0b94e4e995475f63ab33135c188697c3c858a8e3440caff990ef3c9183342b9f7d70c5705aef7271ade017febfa770101d976c1557397300fca0282bba70657b3d4b4f63bf5c83d187faab6f1f9f7d9bdef0b0ecaf5ff647574fd808ee5 7 = 0xf513233c28f4dda0ba1d7f0d189010d0e069595b550bef2ecf4d4de020d8c994de41f7b3bce1aca2ca3604a2d2a6aa88847c301eee5374b00b71dc8dd0a96284a3e26e77ac8c9687df1772c56178e1b5df9252373ac663fa096faa603fe3464768797a3ce839047bc3dad3c06d317f1cac196b6d0c6ce375d8968dcfed2d6f8bec848c63bd941392d46e9a152672fd834646c94ffd3915f02d50c83785b5ee32e45dbb16d8ca36fba8ebc10d7b748a08b6b9f5785215876b1d4f440a212924c0b0fd17f53ae92e45 := by

  simp only [keccakRound, kg_r7t, kg_r7p, kg_r7c]

  decide

theorem kg_r8t : keccakTheta 0xf513233c28f4dda0ba1d7f0d189010d0e069595b550bef2ecf4d4de020d8c994de41f7b3bce1aca2ca3604a2d2a6aa88847c301eee5374b00b71dc8dd0a96284a3e26e77ac8c9687df1772c56178e1b5df9252373ac663fa096faa603fe3464768797a3ce839047bc3dad3c06d317f1cac196b6d0c6ce375d8968dcfed2d6f8bec848c63bd941392d46e9a152672fd834646c94ffd3915f02d50c83785b5ee32e45dbb16d8ca36fba8ebc10d7b748a08b6b9f5785215876b1d4f440a212924c0b0fd17f53ae92e45 = 0xe7b6e893fa66ba37e353696beb8a78acf2d6747377ff896b3cc25d377d8841f2eac54ee73378c37fd893cf0d0034cd1fdd3226781d491ccc19cef1a5f25d04c1506d7ea0f1dc1ee1eb93cb91eee18e68cd379998e854046d5021bc06ccf92e3b7ac65714cacd623e3055c3173061f77a989dd23983f58ca8ca3346603fbf081cb5ca9a054e8e7beec6d1b73d04869bc6b5c9d998a0699d9619d471630a2c81eff6f870b90a58516cf1a5d76b886ee274a406d85070e1e12eeec054dd7c79aca68479aea1b5704198 := by decide

theorem kg_r8p : keccakRhoPi keccak_rotc_std 0xe7b6e893fa66ba37e353696beb8a78acf2d6747377ff896b3cc25d377d8841f2eac54ee73378c37fd893cf0d0034cd1fdd3226781d491ccc19cef1a5f25d04c1506d7ea0f1dc1ee1eb93cb91eee18e68cd379998e854046d5021bc06ccf92e3b7ac65714cacd623e3055c3173061f77a989dd23983f58ca8ca3346603fbf081cb5ca9a054e8e7beec6d1b73d04869bc6b5c9d998a0699d9619d471630a2c81eff6f870b90a58516cf1a5d76b886ee274a406d85070e1e12eeec054dd7c79aca68479aea1b5704198 = 0xf30974ddf62107c8c31cd1d7279723dd2a0236e69bcccc74f75ae54d02a7473da901b6141c38784bace353696beb8a7878d2f92e82608ce7570c5cc187dde8c1a2c81ef19d471630c852c28b67b7c3853b9ccde30dffab1593cf0d0034cd1fd80d99f25c76a04378b46dcf4121a6f1b1dd80a9baf8f3594d7e5ace8e6efff12d83dc2a0dafd41e3bc4ee91cc1fac65446603fbf081cca334b886ee274f1a5d76ba24fe99ae8df9edcf03a923999ba6446b11f3d632b8a65699d96b5c9d998a068479aea1b5704198 := by decide

theorem kg_r8c : keccakChi 0xf30974ddf62107c8c31cd1d7279723dd2a0236e69bcccc74f75ae54d02a7473da901b6141c38784bace353696beb8a7878d2f92e82608ce7570c5cc187dde8c1a2c81ef19d471630c852c28b67b7c3853b9ccde30dffab1593cf0d0034cd1fd80d99f25c76a04378b46dcf4121a6f1b1dd80a9baf8f3594d7e5ace8e6efff12d83dc2a0dafd41e3bc4ee91cc1fac65446603fbf081cca334b886ee274f1a5d76ba24fe99ae8df9edcf03a923999ba6446b11f3d632b8a65699d96b5c9d998a068479aea1b5704198 = 0xa5533594f4a600fccb1c53d72f8f5bde1a0312ee4becc8743646245c26b464b4a101a4b68570f00b8e6b4f19f3ab9e4838c279ac8674cd62d32d5e80ee56ead98a1abfdf9d6712169d56828b652f2b441bf18ba20cfb0ba557cf2d18c4cd4f90258932bf7f92e37d262bc24121ebed31d41099a6aef35b05385bdf5eee3b532d03580a2caed41269b8ec554e5f8784406513d1f1219cb90f386aee2b513a1936a3a4bfc5a60473ebcb5aa90388eba6545b35a54e14bcffff1ddb637d149a8a06e6793e23975065c8 := by decide

theorem kg_r8 : keccakRound keccak_rotc_std 0xf513233c28f4dda0ba1d7f0d189010d0e069595b550bef2ecf4d4de020d8c994de41f7b3bce1aca2ca3604a2d2a6aa88847c301eee5374b00b71dc8dd0a96284a3e26e77ac8c9687df1772c56178e1b5df9252373ac663fa096faa603fe3464768797a3ce839047bc3dad3c06d317f1cac196b6d0c6ce375d8968dcfed2d6f8bec848c63bd941392d46e9a152672fd834646c94ffd3915f02d50c83785b5ee32e45dbb16d8ca36fba8ebc10d7b748a08b6b9f5785215876b1d4f440a212924c0b0fd17f53ae92e45 8 = 0xa5533594f4a600fccb1c53d72f8f5bde1a0312ee4becc8743646245c26b464b4a101a4b68570f00b8e6b4f19f3ab9e4838c279ac8674cd62d32d5e80ee56ead98a1abfdf9d6712169d56828b652f2b441bf18ba20cfb0ba557cf2d18c4cd4f90258932bf7f92e37d262bc24121ebed31d41099a6aef35b05385bdf5eee3b532d03580a2caed41269b8ec554e5f8784406513d1f1219cb90f386aee2b513a1936a3a4bfc5a60473ebcb5aa90388eba6545b35a54e14bcffff1ddb637d149a8a06e6793e2397506542 := by

  simp only [keccakRound, kg_r8t, kg_r8p, kg_r8c]

  decide

theorem kg_r9t : keccakTheta 0xa5533594f4a600fccb1c53d72f8f5bde1a0312ee4becc8743646245c26b464b4a101a4b68570f00b8e6b4f19f3ab9e4838c279ac8674cd62d32d5e80ee56ead98a1abfdf9d6712169d56828b652f2b441bf18ba20cfb0ba557cf2d18c4cd4f90258932bf7f92e37d262bc24121ebed31d41099a6aef35b05385bdf5eee3b532d03580a2caed41269b8ec554e5f8784406513d1f1219cb90f386aee2b513a1936a3a4bfc5a60473ebcb5aa90388eba6545b35a54e14bcffff1ddb637d149a8a06e6793e2397506542 = 0xa5e84effae229591920ffe6e390f8a1e209bb13872c0bacc1eef566c8c55ec54cf48e39f98c414e98ed03472a92f0b2561d1d41590f41ca2e9b5fd56d77a9861a2b3cdef37869af6f31fc5a2789bcfa61b4af0c9567f9ec80edc80a1d24d9e501f11916946be91c50e82b0718b0a65d1ba59de8fb347bfe738e0a435b4bfc6405a4ba795b854c3a98274f69866abf6f84dbaa3c18b7d31ef5623a9024c8efdd4a31fc4aefc80e686924904ba9e6b779461ad06982d908d473572114dbe7b02e68830790a8ae481a0 := by decide

theorem kg_r9p : keccakRhoPi keccak_rotc_std 0xa5e84effae229591920ffe6e390f8a1e209bb13872c0bacc1eef566c8c55ec54cf48e39f98c414e98ed03472a92f0b2561d1d41590f41ca2e9b5fd56d77a9861a2b3cdef37869af6f31fc5a2789bcfa61b4af0c9567f9ec80edc80a1d24d9e501f11916946be91c50e82b0718b0a65d1ba59de8fb347bfe738e0a435b4bfc6405a4ba795b854c3a98274f69866abf6f84dbaa3c18b7d31ef5623a9024c8efdd4a31fc4aefc80e686924904ba9e6b779461ad06982d908d473572114dbe7b02e68830790a8ae481a0 = 0x7bbd59b23157b150379f4de63f8b44f13fcf640da57864abd4ad25d3cadc2a61d86b41a60b6423511e920ffe6e390f8afeab6bbd4c30f4da0ac1c62c2997443ac8efdd45623a902477e407343518fe258e7e631053a73d23d03472a92f0b258e43a49b3ca01db9019d3da619aafdbe206ae4229b7cf605cc841376270e581759d35ed45679bde6f0d2cef47d9a3dff3d435b4bfc64038e0aa9e6b7794924904b13bfeb88a564697a82b21e83944c3a3af48e28f88c8b4a35d31ef4dbaa3c18b78830790a8ae481a0 := by decide

theorem kg_r9c : keccakChi 0x7bbd59b23157b150379f4de63f8b44f13fcf640da57864abd4ad25d3cadc2a61d86b41a60b6423511e920ffe6e390f8afeab6bbd4c30f4da0ac1c62c2997443ac8efdd45623a902477e407343518fe258e7e631053a73d23d03472a92f0b258e43a49b3ca01db9019d3da619aafdbe206ae4229b7cf605cc841376270e581759d35ed45679bde6f0d2cef47d9a3dff3d435b4bfc64038e0aa9e6b7794924904b13bfeb88a564697a82b21e83944c3a3af48e28f88c8b4a35d31ef4dbaa3c18b78830790a8ae481a0 = 0x7f397de3f1cfb970b7dd4de235ab46f077ef741da52cd5abd4bd2c31d05f2a31f32901aa2e4467db9699d7bf2c1b0f8a9fcf6bbd5d3004ff0ad1c26e0b9e4f3a3cc5f4d4261a20e475e4051c3c9dba3f1b67e710d1ae8703b0b47222035b25424dee9a2cf0b9a1200d2dc698a5ffbaae28643bbf7cf604cdc60a3ea32a5b1959faba550e389966f2d6cfd65c9c7dee34424b4bfe05838eca39620378d318e17e40b16f59857c716d0ab20e819eccbabae583c9f0adab0b75d12ee2d8ba7828bdacb0712a8e67c3a0 := by decide

theorem kg_r9 : keccakRound keccak_rotc_std 0xa5533594f4a600fccb1c53d72f8f5bde1a0312ee4becc8743646245c26b464b4a101a4b68570f00b8e6b4f19f3ab9e4838c279ac8674cd62d32d5e80ee56ead98a1abfdf9d6712169d56828b652f2b441bf18ba20cfb0ba557cf2d18c4cd4f90258932bf7f92e37d262bc24121ebed31d41099a6aef35b05385bdf5eee3b532d03580a2caed41269b8ec554e5f8784406513d1f1219cb90f386aee2b513a1936a3a4bfc5a60473ebcb5aa90388eba6545b35a54e14bcffff1ddb637d149a8a06e6793e2397506542 9 = 0x7f397de3f1cfb970b7dd4de235ab46f077ef741da52cd5abd4bd2c31d05f2a31f32901aa2e4467db9699d7bf2c1b0f8a9fcf6bbd5d3004ff0ad1c26e0b9e4f3a3cc5f4d4261a20e475e4051c3c9dba3f1b67e710d1ae8703b0b47222035b25424dee9a2cf0b9a1200d2dc698a5ffbaae28643bbf7cf604cdc60a3ea32a5b1959faba550e389966f2d6cfd65c9c7dee34424b4bfe05838eca39620378d318e17e40b16f59857c716d0ab20e819eccbabae583c9f0adab0b75d12ee2d8ba7828bdacb0712a8e67c328 := by

  simp only [keccakRound, kg_r9t, kg_r9p, kg_r9c]

  decide

theorem kg_r10t : keccakTheta 0x7f397de3f1cfb970b7dd4de235ab46f077ef741da52cd5abd4bd2c31d05f2a31f32901aa2e4467db9699d7bf2c1b0f8a9fcf6bbd5d3004ff0ad1c26e0b9e4f3a3cc5f4d4261a20e475e4051c3c9dba3f1b67e710d1ae8703b0b47222035b25424dee9a2cf0b9a1200d2dc698a5ffbaae28643bbf7cf604cdc60a3ea32a5b1959faba550e389966f2d6cfd65c9c7dee34424b4bfe05838eca39620378d318e17e40b16f59857c716d0ab20e819eccbabae583c9f0adab0b75d12ee2d8ba7828bdacb0712a8e67c328 = 0x6161e8a75afbf48b5cb9477c1ccc2b9ad083dca3d246b5ade8fe068c3cb46cae6b3473ab559b120e88c142fb872f427174ab612374576995adbd6ad07cf42f3c0086de69caf1667bedf9771d4742cfea053f72547a9acaf85bd078bc2a3c4828ea82329287d3c126316eec254914fc31b07949be07297118d852abe7816f54a211de5f9011fe0b9871a37ee2eb178e327e086143e968c855a17f7179a8c794ab5ee9fa1d2e483c96e1d6041fb7abd7d042ef614edac16b73ed6dc86556936e2234ad032bf5b8b6fd := by decide

theorem kg_r10p : keccakRhoPi keccak_rotc_std 0x6161e8a75afbf48b5cb9477c1ccc2b9ad083dca3d246b5ade8fe068c3cb46cae6b3473ab559b120e88c142fb872f427174ab612374576995adbd6ad07cf42f3c0086de69caf1667bedf9771d4742cfea053f72547a9acaf85bd078bc2a3c4828ea82329287d3c126316eec254914fc31b07949be07297118d852abe7816f54a211de5f9011fe0b9871a37ee2eb178e327e086143e968c855a17f7179a8c794ab5ee9fa1d2e483c96e1d6041fb7abd7d042ef614edac16b73ed6dc86556936e2234ad032bf5b8b6fd = 0xa3f81a30f2d1b2bb859fd5dbf2ee3a8e4d657c029fb92a3dcc08ef2fc808ff05d0bbd853b6b05adc9a5cb9477c1ccc2bb5683e7a179e56debbb0952453f0c4c58c794aba17f7179ae97241e4b2f74fd0cead566c4839acd1c142fb872f4271887854789050b7a0f168dfb8bac5e38c9cdadb90caad26dc45ba107b947a48d6b52ccf6010dbcd395e83ca4df0394b88c5be7816f54a2d852afb7abd7d0e1d60417a29d6befd22d858246e8aed32ae956c9e0937541194943e8c8557e086143e9634ad032bf5b8b6fd := by decide

theorem kg_r10c : keccakChi 0xa3f81a30f2d1b2bb859fd5dbf2ee3a8e4d657c029fb92a3dcc08ef2fc808ff05d0bbd853b6b05adc9a5cb9477c1ccc2bb5683e7a179e56debbb0952453f0c4c58c794aba17f7179ae97241e4b2f74fd0cead566c4839acd1c142fb872f4271887854789050b7a0f168dfb8bac5e38c9cdadb90caad26dc45ba107b947a48d6b52ccf6010dbcd395e83ca4df0394b88c5be7816f54a2d852afb7abd7d0e1d60417a29d6befd22d858246e8aed32ae956c9e0937541194943e8c8557e086143e9634ad032bf5b8b6fd = 0xaff83d1cbad917bad59c1598f6ce72ca6f0576229fa8aa0c4c926ef6a84eef87d1dec853a1015ae49e55b35d791cdc21d44a7eda957d550eb1a414213bf04ce4883160e013f90580daf2d4e0f2f78f95eea97e5c08f8ac49d1107b058a44218c76f97cf8108e2ca0e9dd3bbdeaa3dd94cadbd0cabd32fc24be1079143a68539f6da5e479dfd8191e11da5674194b4e64927d36f588a9b430faf8f47d3f5f6884f229827eff26d05a20ea8bec3236b3c9c4086346dc94dc2eace3df49a43e3fd626a5233fe43836d5 := by decide

theorem kg_r10 : keccakRound keccak_rotc_std 0x7f397de3f1cfb970b7dd4de235ab46f077ef741da52cd5abd4bd2c31d05f2a31f32901aa2e4467db9699d7bf2c1b0f8a9fcf6bbd5d3004ff0ad1c26e0b9e4f3a3cc5f4d4261a20e475e4051c3c9dba3f1b67e710d1ae8703b0b47222035b25424dee9a2cf0b9a1200d2dc698a5ffbaae28643bbf7cf604cdc60a3ea32a5b1959faba550e389966f2d6cfd65c9c7dee34424b4bfe05838eca39620378d318e17e40b16f59857c716d0ab20e819eccbabae583c9f0adab0b75d12ee2d8ba7828bdacb0712a8e67c328 10 = 0xaff83d1cbad917bad59c1598f6ce72ca6f0576229fa8aa0c4c926ef6a84eef87d1dec853a1015ae49e55b35d791cdc21d44a7eda957d550eb1a414213bf04ce4883160e013f90580daf2d4e0f2f78f95eea97e5c08f8ac49d1107b058a44218c76f97cf8108e2ca0e9dd3bbdeaa3dd94cadbd0cabd32fc24be1079143a68539f6da5e479dfd8191e11da5674194b4e64927d36f588a9b430faf8f47d3f5f6884f229827eff26d05a20ea8bec3236b3c9c4086346dc94dc2eace3df49a43e3fd626a5233f6438b6dc := by

  simp only [keccakRound, kg_r10t, kg_r10p, kg_r10c]

  decide

theorem kg_r11t : keccakTheta 0xaff83d1cbad917bad59c1598f6ce72ca6f0576229fa8aa0c4c926ef6a84eef87d1dec853a1015ae49e55b35d791cdc21d44a7eda957d550eb1a414213bf04ce4883160e013f90580daf2d4e0f2f78f95eea97e5c08f8ac49d1107b058a44218c76f97cf8108e2ca0e9dd3bbdeaa3dd94cadbd0cabd32fc24be1079143a68539f6da5e479dfd8191e11da5674194b4e64927d36f588a9b430faf8f47d3f5f6884f229827eff26d05a20ea8bec3236b3c9c4086346dc94dc2eace3df49a43e3fd626a5233f6438b6dc = 0x92574b9d587553f8e6c28bf9b20e2e747f75591ea184f46aa2c225fffffa88e65227b0a5475c6193888faf816429ea48fba43fdf893c523995637924e40a9ae6e8f2c49444842896e0e67b907831368487437f967a6eecc8ae04622e7aab1a15e0b5f4b653ec9ea0f637714bd129a9d7e276393484660d918cd30b15536111a3655d95eb2368933392875c76cfbab2e74c37a5cdf18f3394e044724ca2bf47954f4cbdb907892df7b1ab6cb5fd823e4ecfa40f5a92439644a5d93e0f38f78df92599066914c2a21 := by decide

theorem kg_r11p : keccakRhoPi keccak_rotc_std 0x92574b9d587553f8e6c28bf9b20e2e747f75591ea184f46aa2c225fffffa88e65227b0a5475c6193888faf816429ea48fba43fdf893c523995637924e40a9ae6e8f2c49444842896e0e67b907831368487437f967a6eecc8ae04622e7aab1a15e0b5f4b653ec9ea0f637714bd129a9d7e276393484660d918cd30b15536111a3655d95eb2368933392875c76cfbab2e74c37a5cdf18f3394e044724ca2bf47954f4cbdb907892df7b1ab6cb5fd823e4ecfa40f5a92439644a5d93e0f38f78df92599066914c2a21 = 0xa8b0897ffffea23a0626d0dc1ccf720fd37766243a1bfcb3999b2aecaf591b443b3e903d6a490e59e78e6c28bf9b20e21bc9272054d74cab8ddc52f44a6a743da2bf4794e044724cdc83c496faa7a65eec2951d71865948988faf816429ea43845cf55634315c08c4a1d71db3eeacb8e94bb27c1e71ef1bec8feeab23d4309e808512dd1e5892889f13b1c9a423306cb0b15536111a18cd3b5fd823e47b1ab6c5d2e7561d54fc2497fbf1278a471f748f64f52f05afa5b298f33974c37a5cdf192599066914c2a21 := by decide

theorem kg_r11c : keccakChi 0xa8b0897ffffea23a0626d0dc1ccf720fd37766243a1bfcb3999b2aecaf591b443b3e903d6a490e59e78e6c28bf9b20e21bc9272054d74cab8ddc52f44a6a743da2bf4794e044724cdc83c496faa7a65eec2951d71865948988faf816429ea43845cf55634315c08c4a1d71db3eeacb8e94bb27c1e71ef1bec8feeab23d4309e808512dd1e5892889f13b1c9a423306cb0b15536111a18cd3b5fd823e47b1ab6c5d2e7561d54fc2497fbf1278a471f748f64f52f05afa5b298f33974c37a5cdf192599066914c2a21 = 0x2831a3bf7aeeb33e1528c0dc1cce7e4e7be76f07d92b7c839d9bba34ab9d1948795ad43d7a4beaeac5b26f28bfdb70e203c8a7b614f3cab769da1afce162547db0be6294f4d17aced1c3d4f6f08da26fa62d01cd00859e899868de16a584c50e21ce54a25b74d00dc22dd9cf3e60efbe917923e1a60bf1bec2febbf32d430d7b3d502ddda7398a8d3195deb85a7107ab03557220b429a4d345d78ea405a3a964500c7269f3ee0799fdee927ea471df68f64f37f10bf45b288683974493a469b1e215d0d6d9163829 := by decide

theorem kg_r11 : keccakRound keccak_rotc_std 0xaff83d1cbad917bad59c1598f6ce72ca6f0576229fa8aa0c4c926ef6a84eef87d1dec853a1015ae49e55b35d791cdc21d44a7eda957d550eb1a414213bf04ce4883160e013f90580daf2d4e0f2f78f95eea97e5c08f8ac49d1107b058a44218c76f97cf8108e2ca0e9dd3bbdeaa3dd94cadbd0cabd32fc24be1079143a68539f6da5e479dfd8191e11da5674194b4e64927d36f588a9b430faf8f47d3f5f6884f229827eff26d05a20ea8bec3236b3c9c4086346dc94dc2eace3df49a43e3fd626a5233f6438b6dc 11 = 0x2831a3bf7aeeb33e1528c0dc1cce7e4e7be76f07d92b7c839d9bba34ab9d1948795ad43d7a4beaeac5b26f28bfdb70e203c8a7b614f3cab769da1afce162547db0be6294f4d17aced1c3d4f6f08da26fa62d01cd00859e899868de16a584c50e21ce54a25b74d00dc22dd9cf3e60efbe917923e1a60bf1bec2febbf32d430d7b3d502ddda7398a8d3195deb85a7107ab03557220b429a4d345d78ea405a3a964500c7269f3ee0799fdee927ea471df68f64f37f10bf45b288683974493a469b1e215d0d659163823 := by

  simp only [keccakRound, kg_r11t, kg_r11p, kg_r11c]

  decide

theorem kg_r12t : keccakTheta 0x2831a3bf7aeeb33e1528c0dc1cce7e4e7be76f07d92b7c839d9bba34ab9d1948795ad43d7a4beaeac5b26f28bfdb70e203c8a7b614f3cab769da1afce162547db0be6294f4d17aced1c3d4f6f08da26fa62d01cd00859e899868de16a584c50e21ce54a25b74d00dc22dd9cf3e60efbe917923e1a60bf1bec2febbf32d430d7b3d502ddda7398a8d3195deb85a7107ab03557220b429a4d345d78ea405a3a964500c7269f3ee0799fdee927ea471df68f64f37f10bf45b288683974493a469b1e215d0d659163823 = 0x5a435fd034efc7d553b9014c184c75518d5586b3c26875fdebea574cbe9479d575bb18ebec143fe9b7c09347f1da0409455966261071c1a89f68f348fa215d03c6cf8fece1d81a53dd22182066d2776cd45ffda24e84ea62def91f86a106ce11d77cbd164037d973b45c34b72b698f239d98ef37305424bdb08c479c634279907bc1ec4da3bb8192c727370c41320ed575249f58a120c44e4936427293fc7c67227e8e06bdef7372bb7f53eea0f3d47700fdde4510b75256f0f27a3c86ad092ceef41c00cf49ed20 := by decide

theorem kg_r12p : keccakRhoPi keccak_rotc_std 0x5a435fd034efc7d553b9014c184c75518d5586b3c26875fdebea574cbe9479d575bb18ebec143fe9b7c09347f1da0409455966261071c1a89f68f348fa215d03c6cf8fece1d81a53dd22182066d2776cd45ffda24e84ea62def91f86a106ce11d77cbd164037d973b45c34b72b698f239d98ef37305424bdb08c479c634279907bc1ec4da3bb8192c727370c41320ed575249f58a120c44e4936427293fc7c67227e8e06bdef7372bb7f53eea0f3d47700fdde4510b75256f0f27a3c86ad092ceef41c00cf49ed20 = 0xafa95d32fa51e757a4eed9ba443040cd4275316a2ffed127c93de0f626d1ddc0803f7791442dd4955153b9014c184c7579a47d10ae81cfb470d2dcada63c8ed13fc7c6749364272935ef7b9b9113f47063afb050ffa5d6ecc09347f1da0409b70d420d9c23bdf23fc9cdc3104c83b571e1e4f4790d5a1259b1aab0d6784d0ebf034a78d9f1fd9c3becc779b982a125ec79c63427990b08c4ea0f3d477bb7f53ed7f40d3bf1f55690c4c20e383508ab2cbecb9ebbe5e8b2010c44e75249f58a12eef41c00cf49ed20 := by decide

theorem kg_r12c : keccakChi 0xafa95d32fa51e757a4eed9ba443040cd4275316a2ffed127c93de0f626d1ddc0803f7791442dd4955153b9014c184c7579a47d10ae81cfb470d2dcada63c8ed13fc7c6749364272935ef7b9b9113f47063afb050ffa5d6ecc09347f1da0409b70d420d9c23bdf23fc9cdc3104c83b571e1e4f4790d5a1259b1aab0d6784d0ebf034a78d9f1fd9c3becc779b982a125ec79c63427990b08c4ea0f3d477bb7f53ed7f40d3bf1f55690c4c20e383508ab2cbecb9ebbe5e8b2010c44e75249f58a12eef41c00cf49ed20 = 0xe6a9dd54d881ee17a4f8fb3b401c504d4974356a95bf76356db7286666d1dd08827f66994d03d4b25b533d654e7c4f7c5d083f8a3f827fb470815cace6248e9036e3e7649be5660d75ff6312b50b7ca06ba6b350bf2473cc40d303d8da5e09a62e6ebd9c061c2477095c81719483bcf1e5e6f8f52e665057a06ab0f6f845067f494f75d8f24f6d3b5c67f9bf8aa127687ace3467e85790d76e0e74df7917d016d7f4ee69f1415482ecc21e383b00020cadff9fb8251de6914c44e75259f5833e5c7f04a96b41dd21 := by decide

theorem kg_r12 : keccakRound keccak_rotc_std 0x2831a3bf7aeeb33e1528c0dc1cce7e4e7be76f07d92b7c839d9bba34ab9d1948795ad43d7a4beaeac5b26f28bfdb70e203c8a7b614f3cab769da1afce162547db0be6294f4d17aced1c3d4f6f08da26fa62d01cd00859e899868de16a584c50e21ce54a25b74d00dc22dd9cf3e60efbe917923e1a60bf1bec2febbf32d430d7b3d502ddda7398a8d3195deb85a7107ab03557220b429a4d345d78ea405a3a964500c7269f3ee0799fdee927ea471df68f64f37f10bf45b288683974493a469b1e215d0d659163823 12 = 0xe6a9dd54d881ee17a4f8fb3b401c504d4974356a95bf76356db7286666d1dd08827f66994d03d4b25b533d654e7c4f7c5d083f8a3f827fb470815cace6248e9036e3e7649be5660d75ff6312b50b7ca06ba6b350bf2473cc40d303d8da5e09a62e6ebd9c061c2477095c81719483bcf1e5e6f8f52e665057a06ab0f6f845067f494f75d8f24f6d3b5c67f9bf8aa127687ace3467e85790d76e0e74df7917d016d7f4ee69f1415482ecc21e383b00020cadff9fb8251de6914c44e75259f5833e5c7f04a9eb415daa := by

  simp only [keccakRound, kg_r12t, kg_r12p, kg_r12c]

  decide

theorem kg_r13t : keccakTheta 0xe6a9dd54d881ee17a4f8fb3b401c504d4974356a95bf76356db7286666d1dd08827f66994d03d4b25b533d654e7c4f7c5d083f8a3f827fb470815cace6248e9036e3e7649be5660d75ff6312b50b7ca06ba6b350bf2473cc40d303d8da5e09a62e6ebd9c061c2477095c81719483bcf1e5e6f8f52e665057a06ab0f6f845067f494f75d8f24f6d3b5c67f9bf8aa127687ace3467e85790d76e0e74df7917d016d7f4ee69f1415482ecc21e383b00020cadff9fb8251de6914c44e75259f5833e5c7f04a9eb415daa = 0xba286bcd3c7e4c8d017f529adb9c4dd314abf13e94b4f0f881a7c1d5969f92a6eab851eaddf47cd207d28bfcaa83ede6f88f962ba402622a2d5e98f8e72f085ddaf30ed76bab29a31d38546125fcd4c0372705c95bdbd156e554aa7941de143873b179c80717a2bae54c68c264cdf35f8d21cf86be91f837fceb066f1cbaa4e5ecc8dc7969cf70a501b83deb8baaa1a596deddd41819df7906c943ace9e078768b7558f015bef6184945b799a0801f92f0205bec2416605ca0540ee1a9bbcc9034b833da7bb6f5ca := by decide

theorem kg_r13p : keccakRhoPi keccak_rotc_std 0xba286bcd3c7e4c8d017f529adb9c4dd314abf13e94b4f0f881a7c1d5969f92a6eab851eaddf47cd207d28bfcaa83ede6f88f962ba402622a2d5e98f8e72f085ddaf30ed76bab29a31d38546125fcd4c0372705c95bdbd156e554aa7941de143873b179c80717a2bae54c68c264cdf35f8d21cf86be91f837fceb066f1cbaa4e5ecc8dc7969cf70a501b83deb8baaa1a596deddd41819df7906c943ace9e078768b7558f015bef6184945b799a0801f92f0205bec2416605ca0540ee1a9bbcc9034b833da7bb6f5ca = 0x69f07565a7e4a9af9a9803a70a8c24bede8ab1b9382e4ad52f6646e3cb4e7b83c0816fb09059817d3017f529adb9c4d4c7c7397842e96af31a3099337cd7f959e0787606c943ace80adf7b0c45baac747ab77d1f34baae1d28bfcaa83ede607f283bc2871caa9546e0f7ae2eaa8694040a81dc35377992102957e27d2969e1f65347b5e61daed75690e7c35f48fc1bc66f1cbaa4e5fceb09a0801f924945b791af34f1f93236e8ac574804c455f11f2bd15d39d8bce40389df7996deddd418134b833da7bb6f5ca := by decide

theorem kg_r13c : keccakChi 0x69f07565a7e4a9af9a9803a70a8c24bede8ab1b9382e4ad52f6646e3cb4e7b83c0816fb09059817d3017f529adb9c4d4c7c7397842e96af31a3099337cd7f959e0787606c943ace80adf7b0c45baac747ab77d1f34baae1d28bfcaa83ede607f283bc2871caa9546e0f7ae2eaa8694040a81dc35377992102957e27d2969e1f65347b5e61daed75690e7c35f48fc1bc66f1cbaa4e5fceb09a0801f924945b791af34f1f93236e8ac574804c455f11f2bd15d39d8bce40389df7996deddd418134b833da7bb6f5ca = 0x446967526ece2d32c1a9909371a9524eebfeac5f99d4ec3d42f7644e5c9ce5fa91009dea8a079812cd037f12b25f8c454cd0f337c02eb42da2a205d32d1c77d5d25bf564ecb6bae4a10dff23d712efd669ac15f15bc3caa1d28bf4a883d9f707f7a3bf7901c8a1b46e073a60688d2f43d02899cb423519356664b42598dd1a9ffd3c7a8645daac156b8f7814668bd3b662c1c8e04f0fe2f1930635ec94145a7593b4c73a176a6e8be17cb08c2dcb80b2a7969c8e19ee2e30dd97992da9cc504314b8714a79b4f5f2 := by decide

theorem kg_r13 : keccakRound keccak_rotc_std 0xe6a9dd54d881ee17a4f8fb3b401c504d4974356a95bf76356db7286666d1dd08827f66994d03d4b25b533d654e7c4f7c5d083f8a3f827fb470815cace6248e9036e3e7649be5660d75ff6312b50b7ca06ba6b350bf2473cc40d303d8da5e09a62e6ebd9c061c2477095c81719483bcf1e5e6f8f52e665057a06ab0f6f845067f494f75d8f24f6d3b5c67f9bf8aa127687ace3467e85790d76e0e74df7917d016d7f4ee69f1415482ecc21e383b00020cadff9fb8251de6914c44e75259f5833e5c7f04a9eb415daa 13 = 0x446967526ece2d32c1a9909371a9524eebfeac5f99d4ec3d42f7644e5c9ce5fa91009dea8a079812cd037f12b25f8c454cd0f337c02eb42da2a205d32d1c77d5d25bf564ecb6bae4a10dff23d712efd669ac15f15bc3caa1d28bf4a883d9f707f7a3bf7901c8a1b46e073a60688d2f43d02899cb423519356664b42598dd1a9ffd3c7a8645daac156b8f7814668bd3b662c1c8e04f0fe2f1930635ec94145a7593b4c73a176a6e8be17cb08c2dcb80b2a7969c8e19ee2e30dd97992da9cc504394b8714a79b4f579 := by

  simp only [keccakRound, kg_r13t, kg_r13p, kg_r13c]

  decide

theorem kg_r14t : keccakTheta 0x446967526ece2d32c1a9909371a9524eebfeac5f99d4ec3d42f7644e5c9ce5fa91009dea8a079812cd037f12b25f8c454cd0f337c02eb42da2a205d32d1c77d5d25bf564ecb6bae4a10dff23d712efd669ac15f15bc3caa1d28bf4a883d9f707f7a3bf7901c8a1b46e073a60688d2f43d02899cb423519356664b42598dd1a9ffd3c7a8645daac156b8f7814668bd3b662c1c8e04f0fe2f1930635ec94145a7593b4c73a176a6e8be17cb08c2dcb80b2a7969c8e19ee2e30dd97992da9cc504394b8714a79b4f579 = 0xc8ec451dd180930a99639fa0aa06aa102d67ecd4132e555440a13f353ad7abb307ed164afe2b020e41865d5d0d11327d141afc041b814c73643b4558a7e6cebcd00dae1f8afdf4ad37e07483a33e75cae52937bee48d74998a41fb9b58760f59313afff28b3218dd6c51611b0ec6610a46c5126b36198329eae1966a2793a4a7a5f675b59e75544bad16389fec716adf6097939b2944acb805ebbe4ce038c0691f31e575a824d0b3b9b6bfbff66478ec610fdc0593149759dfc1c256cf871e0a0255faea0d986f65 := by decide

theorem kg_r14p : keccakRhoPi keccak_rotc_std 0xc8ec451dd180930a99639fa0aa06aa102d67ecd4132e555440a13f353ad7abb307ed164afe2b020e41865d5d0d11327d141afc041b814c73643b4558a7e6cebcd00dae1f8afdf4ad37e07483a33e75cae52937bee48d74998a41fb9b58760f59313afff28b3218dd6c51611b0ec6610a46c5126b36198329eae1966a2793a4a7a5f675b59e75544bad16389fec716adf6097939b2944acb805ebbe4ce038c0691f31e575a824d0b3b9b6bfbff66478ec610fdc0593149759dfc1c256cf871e0a0255faea0d986f65 = 0x284fcd4eb5eaecd7ceb946fc0e9074646ba4cf2949bdf7225d2fb3adacf3aaa5843f70164c525d61099639fa0aa06aaa2ac53f3675e321d45846c3b198429b1038c06905ebbe4cead41268598f98f2b592bf8ac08381fb4865d5d0d11327d4136b0ec1eb31483f7458e27fb1c5ab7ebbf8384ad9f0e3c1585acfd9a8265caaabe95ba01b5c3f15f36289359b0cc194a66a2793a4a7eae19ff66478ecb9b6bfb1147746024c2b23b808370298e62835f90c6e989d7ff94594acb86097939b2940255faea0d986f65 := by decide

theorem kg_r14c : keccakChi 0x284fcd4eb5eaecd7ceb946fc0e9074646ba4cf2949bdf7225d2fb3adacf3aaa5843f70164c525d61099639fa0aa06aaa2ac53f3675e321d45846c3b198429b1038c06905ebbe4cead41268598f98f2b592bf8ac08381fb4865d5d0d11327d4136b0ec1eb31483f7458e27fb1c5ab7ebbf8384ad9f0e3c1585acfd9a8265caaabe95ba01b5c3f15f36289359b0cc194a66a2793a4a7eae19ff66478ecb9b6bfb1147746024c2b23b808370298e62835f90c6e989d7ff94594acb86097939b2940255faea0d986f65 = 0x2714f4ee7154b4e524a8976ec468065444be2462bf8d77fb1d936b379aaf3aae1a6bf3c160d5e0861215638fe6a8666e0fec57f37f0fbb1c55954c3799242d13a1a4155038e1f6c2e9414eae99fd861a1927dbfe08689c5e20dd590c86345d406f924cbebb1c8143c5c336fa1c78cbeb8db34ca93c0a3c01852cc5aa82014eaac4d7b805fc59d00e3700d6c3b2e813eaee37513a4f7d4e0cef6ec5cf7b1b7ab959cd706154e322ab8293faa3877ace1b8182edc9f77fa4794aca96297139b1929251936a8b5e6b2c := by decide

theorem kg_r14 : keccakRound keccak_rotc_std 0x446967526ece2d32c1a9909371a9524eebfeac5f99d4ec3d42f7644e5c9ce5fa91009dea8a079812cd037f12b25f8c454cd0f337c02eb42da2a205d32d1c77d5d25bf564ecb6bae4a10dff23d712efd669ac15f15bc3caa1d28bf4a883d9f707f7a3bf7901c8a1b46e073a60688d2f43d02899cb423519356664b42598dd1a9ffd3c7a8645daac156b8f7814668bd3b662c1c8e04f0fe2f1930635ec94145a7593b4c73a176a6e8be17cb08c2dcb80b2a7969c8e19ee2e30dd97992da9cc504394b8714a79b4f579 14 = 0x2714f4ee7154b4e524a8976ec468065444be2462bf8d77fb1d936b379aaf3aae1a6bf3c160d5e0861215638fe6a8666e0fec57f37f0fbb1c55954c3799242d13a1a4155038e1f6c2e9414eae99fd861a1927dbfe08689c5e20dd590c86345d406f924cbebb1c8143c5c336fa1c78cbeb8db34ca93c0a3c01852cc5aa82014eaac4d7b805fc59d00e3700d6c3b2e813eaee37513a4f7d4e0cef6ec5cf7b1b7ab959cd706154e322ab8293faa3877ace1b8182edc9f77fa4794aca96297139b1921251936a8b5eeba5 := by

  simp only [keccakRound, kg_r14t, kg_r14p, kg_r14c]

  decide

theorem kg_r15t : keccakTheta 0x2714f4ee7154b4e524a8976ec468065444be2462bf8d77fb1d936b379aaf3aae1a6bf3c160d5e0861215638fe6a8666e0fec57f37f0fbb1c55954c3799242d13a1a4155038e1f6c2e9414eae99fd861a1927dbfe08689c5e20dd590c86345d406f924cbebb1c8143c5c336fa1c78cbeb8db34ca93c0a3c01852cc5aa82014eaac4d7b805fc59d00e3700d6c3b2e813eaee37513a4f7d4e0cef6ec5cf7b1b7ab959cd706154e322ab8293faa3877ace1b8182edc9f77fa4794aca96297139b1921251936a8b5eeba5 = 0x6d84611f5debddfb0d1c7a278ea62fc5020c1d82b31e73d80e43f3971f8c295e50bf1588294632615885f67eca170f702658baba35c1928d132775d795b72930b2748df0bdc2e532a395a8e7d06e54fd53b74e0f24d7f5400969b445ccfa74d12920755eb78f8560d613ae5a995bd81bc767aae07599eee6cfbc505baebe27b4ed63554cb697f99f71b2ef23be7b17c9fde7c99aca5e5dfca5ba23863288a85e135de590785c4bb5ab2717eacdb4e78ac730d429fbeca05a591a0e89f41aa26258857523c2cd3942 := by decide

theorem kg_r15p : keccakRhoPi keccak_rotc_std 0x6d84611f5debddfb0d1c7a278ea62fc5020c1d82b31e73d80e43f3971f8c295e50bf1588294632615885f67eca170f702658baba35c1928d132775d795b72930b2748df0bdc2e532a395a8e7d06e54fd53b74e0f24d7f5400969b445ccfa74d12920755eb78f8560d613ae5a995bd81bc767aae07599eee6cfbc505baebe27b4ed63554cb697f99f71b2ef23be7b17c9fde7c99aca5e5dfca5ba23863288a85e135de590785c4bb5ab2717eacdb4e78ac730d429fbeca05a591a0e89f41aa26258857523c2cd3942 = 0x390fce5c7e30a578dca9fb472b51cfa06bfaa029dba70792cff6b1aaa65b4bfcb1cc350a7efb2816c50d1c7a278ea62fbaebcadb949809934eb96a656f606f58288a85ea5ba2386383c2e25da89aef2c5620a518c98542fc85f67eca170f70588b99f4e9a212d3686cbbc8ef9ec5f25cb2341d13e83544c4004183b05663ce7b5ca6564e91be17b83b3d5703accf773605baebe27b4cfbc5acdb4e78aab2717e1847d77af77edb615746b83251a4cb177c2b014903aaf5bce5dfcfde7c99aca558857523c2cd3942 := by decide

theorem kg_r15c : keccakChi 0x390fce5c7e30a578dca9fb472b51cfa06bfaa029dba70792cff6b1aaa65b4bfcb1cc350a7efb2816c50d1c7a278ea62fbaebcadb949809934eb96a656f606f58288a85ea5ba2386383c2e25da89aef2c5620a518c98542fc85f67eca170f70588b99f4e9a212d3686cbbc8ef9ec5f25cb2341d13e83544c4004183b05663ce7b5ca6564e91be17b83b3d5703accf773605baebe27b4cfbc5acdb4e78aab2717e1847d77af77edb615746b83251a4cb177c2b014903aaf5bce5dfcfde7c99aca558857523c2cd3942 = 0x773d4efcfe30e6905c69ca452b9ac7a64afca4318f8727ca5bf7eaec860b83dc91c4350b275f2c14ed0519d874aeb66cb82928de1c8840930bbd7e454c66c97498c80570cb3a38e0c5f388588cdaa8341aab65f4df45f0e425e266c9373f7458d99975f96a92d1cc68ddc2ed8bc8d24c31342913c82745e401612232072f44faf03c1a06392e26bc3b7cd6b3ea8ebf754138ebae6a7cfb4d96de5a792e31754cbd1d5da6cb6e5fc417c698335125eb15742a4601a5f0e5dce69b77ec2c9da6a640a57522c1ef685a := by decide

theorem kg_r15 : keccakRound keccak_rotc_std 0x2714f4ee7154b4e524a8976ec468065444be2462bf8d77fb1d936b379aaf3aae1a6bf3c160d5e0861215638fe6a8666e0fec57f37f0fbb1c55954c3799242d13a1a4155038e1f6c2e9414eae99fd861a1927dbfe08689c5e20dd590c86345d406f924cbebb1c8143c5c336fa1c78cbeb8db34ca93c0a3c01852cc5aa82014eaac4d7b805fc59d00e3700d6c3b2e813eaee37513a4f7d4e0cef6ec5cf7b1b7ab959cd706154e322ab8293faa3877ace1b8182edc9f77fa4794aca96297139b1921251936a8b5eeba5 15 = 0x773d4efcfe30e6905c69ca452b9ac7a64afca4318f8727ca5bf7eaec860b83dc91c4350b275f2c14ed0519d874aeb66cb82928de1c8840930bbd7e454c66c97498c80570cb3a38e0c5f388588cdaa8341aab65f4df45f0e425e266c9373f7458d99975f96a92d1cc68ddc2ed8bc8d24c31342913c82745e401612232072f44faf03c1a06392e26bc3b7cd6b3ea8ebf754138ebae6a7cfb4d96de5a792e31754cbd1d5da6cb6e5fc417c698335125eb15742a4601a5f0e5dce69b77ec2c9da6a6c0a57522c1efe859 := by

  simp only [keccakRound, kg_r15t, kg_r15p, kg_r15c]

  decide

theorem kg_r16t : keccakTheta 0x773d4efcfe30e6905c69ca452b9ac7a64afca4318f8727ca5bf7eaec860b83dc91c4350b275f2c14ed0519d874aeb66cb82928de1c8840930bbd7e454c66c97498c80570cb3a38e0c5f388588cdaa8341aab65f4df45f0e425e266c9373f7458d99975f96a92d1cc68ddc2ed8bc8d24c31342913c82745e401612232072f44faf03c1a06392e26bc3b7cd6b3ea8ebf754138ebae6a7cfb4d96de5a792e31754cbd1d5da6cb6e5fc417c698335125eb15742a4601a5f0e5dce69b77ec2c9da6a6c0a57522c1efe859 = 0x37943eac8eee61f6f2396ff3fea2d4310a0d19ccdfd36ed9c7932f88c66d14bab5a81a28bef5fe04adac69880470310a16798d68c9b053044b4cc3b81c32806704acc0148b5caf86e19fa77b15707a245a0215a4af9b77828bb2c37fe20767cf9968c8043ac698dff4b90789cbae452a15580630518d97f441c8526277f1c39c5e6cbfb0ec16352b7b8d6b4ebadaf666dd5c2eca2a1a6c2bb2b2755ab79ba75cfdb42df6bbb0d8a2b9963d85841df88234dbfbfcf5a4accf7affb2886cfb31c0e4c95a0158453a49 := by decide

theorem kg_r16p : keccakRhoPi keccak_rotc_std 0x37943eac8eee61f6f2396ff3fea2d4310a0d19ccdfd36ed9c7932f88c66d14bab5a81a28bef5fe04adac69880470310a16798d68c9b053044b4cc3b81c32806704acc0148b5caf86e19fa77b15707a245a0215a4af9b77828bb2c37fe20767cf9968c8043ac698dff4b90789cbae452a15580630518d97f441c8526277f1c39c5e6cbfb0ec16352b7b8d6b4ebadaf666dd5c2eca2a1a6c2bb2b2755ab79ba75cfdb42df6bbb0d8a2b9963d85841df88234dbfbfcf5a4accf7affb2886cfb31c0e4c95a0158453a49 = 0x1e4cbe2319b452ebe0f449c33f4ef62acdbbc12d010ad25795af365fd8760b1acd36feff3d692b3331f2396ff3fea2d461dc0e194033a5a6e41e272eb914abd279ba75cb2b2755abb5dd86c517eda16f68a2fbd7f812d6a0ac69880470310aadffc40ecf9f176586e35ad3aeb6bd999ef5ff6510d9f663802141a3399bfa6ddb95f0c0959802916baac031828c6cbfa026277f1c39c41c855841df882b9963d80fab23bb987d8de5ad19360a6082cf3134c6fccb464021d6a6c2bdd5c2eca2a1e4c95a0158453a49 := by decide

theorem kg_r16c : keccakChi 0x1e4cbe2319b452ebe0f449c33f4ef62acdbbc12d010ad25795af365fd8760b1acd36feff3d692b3331f2396ff3fea2d461dc0e194033a5a6e41e272eb914abd279ba75cb2b2755abb5dd86c517eda16f68a2fbd7f812d6a0ac69880470310aadffc40ecf9f176586e35ad3aeb6bd999ef5ff6510d9f663802141a3399bfa6ddb95f0c0959802916baac031828c6cbfa026277f1c39c41c855841df882b9963d80fab23bb987d8de5ad19360a6082cf3134c6fccb464021d6a6c2bdd5c2eca2a1e4c95a0158453a49 = 0xec5be23d9a252e321c6091f1b07df3ad3b3770d01bad296b5eb3e9de6322f3285263fdf3c61fb7679d04865dbfcf654e5d188994432a48df43c16480ad8a982787a7dda6b04518f31d984e187fd0b3f6aa26979de1b4ebe39348c0471d52badbf467d1c1715b186e37353aed69d93b7e97b6951d0f407800767832d8bbe71decdf09c15b803936b8ac112aa8f94d3303317bf0929c61cced081df0aafb1c0f80da9866f1ad50d454d596e0a2082fd393664fd7ade3d21122fdbbfd5e26e6c80f4cd1a0b5c453b1f := by decide

theorem kg_r16 : keccakRound keccak_rotc_std 0x773d4efcfe30e6905c69ca452b9ac7a64afca4318f8727ca5bf7eaec860b83dc91c4350b275f2c14ed0519d874aeb66cb82928de1c8840930bbd7e454c66c97498c80570cb3a38e0c5f388588cdaa8341aab65f4df45f0e425e266c9373f7458d99975f96a92d1cc68ddc2ed8bc8d24c31342913c82745e401612232072f44faf03c1a06392e26bc3b7cd6b3ea8ebf754138ebae6a7cfb4d96de5a792e31754cbd1d5da6cb6e5fc417c698335125eb15742a4601a5f0e5dce69b77ec2c9da6a6c0a57522c1efe859 16 = 0xec5be23d9a252e321c6091f1b07df3ad3b3770d01bad296b5eb3e9de6322f3285263fdf3c61fb7679d04865dbfcf654e5d188994432a48df43c16480ad8a982787a7dda6b04518f31d984e187fd0b3f6aa26979de1b4ebe39348c0471d52badbf467d1c1715b186e37353aed69d93b7e97b6951d0f407800767832d8bbe71decdf09c15b803936b8ac112aa8f94d3303317bf0929c61cced081df0aafb1c0f80da9866f1ad50d454d596e0a2082fd393664fd7ade3d21122fdbbfd5e26e6c8074cd1a0b5c45bb1d := by

  simp only [keccakRound, kg_r16t, kg_r16p, kg_r16c]

  decide

theorem kg_r17t : keccakTheta 0xec5be23d9a252e321c6091f1b07df3ad3b3770d01bad296b5eb3e9de6322f3285263fdf3c61fb7679d04865dbfcf654e5d188994432a48df43c16480ad8a982787a7dda6b04518f31d984e187fd0b3f6aa26979de1b4ebe39348c0471d52badbf467d1c1715b186e37353aed69d93b7e97b6951d0f407800767832d8bbe71decdf09c15b803936b8ac112aa8f94d3303317bf0929c61cced081df0aafb1c0f80da9866f1ad50d454d596e0a2082fd393664fd7ade3d21122fdbbfd5e26e6c8074cd1a0b5c45bb1d = 0x80df6f635efa74f22b59ce6ccc84caae1a889803fd7b334204facee1e512d27ef60385c95148576cf7ca99255ca4d045ef4e4fea93b1b1193d07f946f6194856c96b8da66824acc342fc3ef7ead4a725e4b8b839594368af33ab4b77a6563e39767d9212ebd450525262a3d2d5bd6efb9a5ed347bdddab9a897d526d0ce657cfc76f5b666f8086ff43fafda4735532e482064f752ae6e182a3a4651cc2986ce283b3572f9d8d2b5447c6a979f701e8adff5f127422fcc0c69eca4fa9e14e91cc07e8a01d316c1707 := by decide

theorem kg_r17p : keccakRhoPi keccak_rotc_std 0x80df6f635efa74f22b59ce6ccc84caae1a889803fd7b334204facee1e512d27ef60385c95148576cf7ca99255ca4d045ef4e4fea93b1b1193d07f946f6194856c96b8da66824acc342fc3ef7ead4a725e4b8b839594368af33ab4b77a6563e39767d9212ebd450525262a3d2d5bd6efb9a5ed347bdddab9a897d526d0ce657cfc76f5b666f8086ff43fafda4735532e482064f752ae6e182a3a4651cc2986ce283b3572f9d8d2b5447c6a979f701e8adff5f127422fcc0c69eca4fa9e14e91cc07e8a01d316c1707 = 0x13eb3b87944b49f8a94e4a85f87defd5a1b457f25c5c1cac7fe3b7adb337c043bfd7c49d08bf3031ae2b59ce6ccc84cafca37b0ca42b1e838a8f4b56f5bbed492986ce2a3a4651cc7cec695aa41d9ab9172545215db3d80eca99255ca4d045f7ef4cac7c72675696febf691cd54cb9103d949f53c29d2399435113007faf66689598792d71b4cd04d2f69a3deeed5cd426d0ce657cf897d59f701e8ad47c6a97dbd8d7be9d3ca037fd527636233de9c9a28293b3ec90975e6e18282064f752ae07e8a01d316c1707 := by decide

theorem kg_r17c : keccakChi 0x13eb3b87944b49f8a94e4a85f87defd5a1b457f25c5c1cac7fe3b7adb337c043bfd7c49d08bf3031ae2b59ce6ccc84cafca37b0ca42b1e838a8f4b56f5bbed492986ce2a3a4651cc7cec695aa41d9ab9172545215db3d80eca99255ca4d045f7ef4cac7c72675696febf691cd54cb9103d949f53c29d2399435113007faf66689598792d71b4cd04d2f69a3deeed5cd426d0ce657cf897d59f701e8ad47c6a97dbd8d7be9d3ca037fd527636233de9c9a28293b3ec90975e6e18282064f752ae07e8a01d316c1707 = 0x53cb08a7274b89ba055a8e9df0c9dfd4b31566f0585e1c8477a9bfa8131623123fc384cf44f72c9daf29dfee768ec58eac675b1c243a04b288874b94bd7f6d015da6fe223a46434efee5680e61a436b8d50e252d48f3400ee209bf0e26dc6666fa68ec5d2b44ce9efe2e681c51dcb8713cd41b33e0be651f63d1d365572ff32809b875a7f1e4c59390b7983de0e67ebc23d8af656de816d54f560e9256792297b3c8df9ed9afe09ff9725637037dfec9a00a123b7090976833484c2467da3a2f876a338eb96c9257 := by decide

theorem kg_r17 : keccakRound keccak_rotc_std 0xec5be23d9a252e321c6091f1b07df3ad3b3770d01bad296b5eb3e9de6322f3285263fdf3c61fb7679d04865dbfcf654e5d188994432a48df43c16480ad8a982787a7dda6b04518f31d984e187fd0b3f6aa26979de1b4ebe39348c0471d52badbf467d1c1715b186e37353aed69d93b7e97b6951d0f407800767832d8bbe71decdf09c15b803936b8ac112aa8f94d3303317bf0929c61cced081df0aafb1c0f80da9866f1ad50d454d596e0a2082fd393664fd7ade3d21122fdbbfd5e26e6c8074cd1a0b5c45bb1d 17 = 0x53cb08a7274b89ba055a8e9df0c9dfd4b31566f0585e1c8477a9bfa8131623123fc384cf44f72c9daf29dfee768ec58eac675b1c243a04b288874b94bd7f6d015da6fe223a46434efee5680e61a436b8d50e252d48f3400ee209bf0e26dc6666fa68ec5d2b44ce9efe2e681c51dcb8713cd41b33e0be651f63d1d365572ff32809b875a7f1e4c59390b7983de0e67ebc23d8af656de816d54f560e9256792297b3c8df9ed9afe09ff9725637037dfec9a00a123b7090976833484c2467da3a2f076a338eb96c92d7 := by

  simp only [keccakRound, kg_r17t, kg_r17p, kg_r17c]

  decide

theorem kg_r18t : keccakTheta 0x53cb08a7274b89ba055a8e9df0c9dfd4b31566f0585e1c8477a9bfa8131623123fc384cf44f72c9daf29dfee768ec58eac675b1c243a04b288874b94bd7f6d015da6fe223a46434efee5680e61a436b8d50e252d48f3400ee209bf0e26dc6666fa68ec5d2b44ce9efe2e681c51dcb8713cd41b33e0be651f63d1d365572ff32809b875a7f1e4c59390b7983de0e67ebc23d8af656de816d54f560e9256792297b3c8df9ed9afe09ff9725637037dfec9a00a123b7090976833484c2467da3a2f076a338eb96c92d7 = 0x83a8d464720c911507f6389d81b6b60000583e192b8de4e620e9e33885c841f74f55effe363cdabf7f4a032d23c9dd21aecbed1c55456d663bca137dceac95630ae6a2b2ac9821ab8e73033f136fc09a056df9ee1db458a1e0a5090e57a30fb24925b4b4589736fca96e348cc702da944c4270029275933db3b20fa60268eb870b14c3a7809bac4723fac0d4933586de7498f3f5fb3674303fc065a324b2d4b563ab035d8ce8f830fbdee0377202971d13474ad203436f0a640810b4f10458ca77fc58bfcba764f5 := by decide

theorem kg_r18p : keccakRhoPi keccak_rotc_std 0x83a8d464720c911507f6389d81b6b60000583e192b8de4e620e9e33885c841f74f55effe363cdabf7f4a032d23c9dd21aecbed1c55456d663bca137dceac95630ae6a2b2ac9821ab8e73033f136fc09a056df9ee1db458a1e0a5090e57a30fb24925b4b4589736fca96e348cc702da944c4270029275933db3b20fa60268eb870b14c3a7809bac4723fac0d4933586de7498f3f5fb3674303fc065a324b2d4b563ab035d8ce8f830fbdee0377202971d13474ad203436f0a640810b4f10458ca77fc58bfcba764f5 = 0x83a78ce2172107dcdf81351ce6067e26da2c5082b6fcf70e23858a61d3c04dd684d1d2b480d0dbc20007f6389d81b6b609bee7564ab19de5b8d2331c0b6a52a54b2d4b53fc065a32ec6747c1831d581abff8d8f36afd3d574a032d23c9dd217f1caf461f65c14a12feb03524cd61b788c8102169e208b194c00b07c32571bc9c0435615cd45655936213801493ac99eafa60268eb87b3b2077202971dfbdee0335191c83244560eaa38aa8adacd5d97db9b7e2492da5a2c4674307498f3f5fb377fc58bfcba764f5 := by decide

theorem kg_r18c : keccakChi 0x83a78ce2172107dcdf81351ce6067e26da2c5082b6fcf70e23858a61d3c04dd684d1d2b480d0dbc20007f6389d81b6b609bee7564ab19de5b8d2331c0b6a52a54b2d4b53fc065a32ec6747c1831d581abff8d8f36afd3d574a032d23c9dd217f1caf461f65c14a12feb03524cd61b788c8102169e208b194c00b07c32571bc9c0435615cd45655936213801493ac99eafa60268eb87b3b2077202971dfbdee0335191c83244560eaa38aa8adacd5d97db9b7e2492da5a2c4674307498f3f5fb377fc58bfcba764f5 = 0xa0a384a3442103c8dbd1670866d6a624da0ad860a7ddf6d62604af7d93c245f65cf98236a4ec69ca030ffe2ae183b496e5dee69748add5edb8d323349e6a70b74a018f11bc97d7725cb577cd8075589f8958ccf7679c3b5f0a030c2b49dda1ffa95796cf47e15612bcb01c04457d96e5c81f6372c288f986484b014d0533adbc3315496c0eda1790a2198697b28d31e6fe4447c6fc297f317733a961dc396ec9351a1bc3205d7be8e16ee8916777dd68ada6f64b2da58246654b0fed0f6f068aef48b8bfeb27c4b1 := by decide

theorem kg_r18 : keccakRound keccak_rotc_std 0x53cb08a7274b89ba055a8e9df0c9dfd4b31566f0585e1c8477a9bfa8131623123fc384cf44f72c9daf29dfee768ec58eac675b1c243a04b288874b94bd7f6d015da6fe223a46434efee5680e61a436b8d50e252d48f3400ee209bf0e26dc6666fa68ec5d2b44ce9efe2e681c51dcb8713cd41b33e0be651f63d1d365572ff32809b875a7f1e4c59390b7983de0e67ebc23d8af656de816d54f560e9256792297b3c8df9ed9afe09ff9725637037dfec9a00a123b7090976833484c2467da3a2f076a338eb96c92d7 18 = 0xa0a384a3442103c8dbd1670866d6a624da0ad860a7ddf6d62604af7d93c245f65cf98236a4ec69ca030ffe2ae183b496e5dee69748add5edb8d323349e6a70b74a018f11bc97d7725cb577cd8075589f8958ccf7679c3b5f0a030c2b49dda1ffa95796cf47e15612bcb01c04457d96e5c81f6372c288f986484b014d0533adbc3315496c0eda1790a2198697b28d31e6fe4447c6fc297f317733a961dc396ec9351a1bc3205d7be8e16ee8916777dd68ada6f64b2da58246654b0fed0f6f068aef48b8bfeb2744bb := by

  simp only [keccakRound, kg_r18t, kg_r18p, kg_r18c]

  decide

theorem kg_r19t : keccakTheta 0xa0a384a3442103c8dbd1670866d6a624da0ad860a7ddf6d62604af7d93c245f65cf98236a4ec69ca030ffe2ae183b496e5dee69748add5edb8d323349e6a70b74a018f11bc97d7725cb577cd8075589f8958ccf7679c3b5f0a030c2b49dda1ffa95796cf47e15612bcb01c04457d96e5c81f6372c288f986484b014d0533adbc3315496c0eda1790a2198697b28d31e6fe4447c6fc297f317733a961dc396ec9351a1bc3205d7be8e16ee8916777dd68ada6f64b2da58246654b0fed0f6f068aef48b8bfeb2744bb = 0xe685a645e835de44b0ab23ae4908715d5d5ef4b122a5ba91fe4e12a5803160f09c28c6417160c82b4529dccc4d97691a8ea4a231677302943f870fe51b123cf0924b32c9af64f2749c6433ba55f9f97ecf7eee11cb88e6d36179488d660376862e03ba1ec2991a5564faa1dc568eb3e308ce2705170458670e6d23aba9277030586f0dca2104c0e9254daa4637f57da1260efa1eefda5a37b7e2ed1609b5cf28733c39258c49a6648a14ac3748a90a112af2da9aa8ddce01bd01b2351c9c238c2f99fcc83eabe55a := by decide

theorem kg_r19p : keccakRhoPi keccak_rotc_std 0xe685a645e835de44b0ab23ae4908715d5d5ef4b122a5ba91fe4e12a5803160f09c28c6417160c82b4529dccc4d97691a8ea4a231677302943f870fe51b123cf0924b32c9af64f2749c6433ba55f9f97ecf7eee11cb88e6d36179488d660376862e03ba1ec2991a5564faa1dc568eb3e308ce2705170458670e6d23aba9277030586f0dca2104c0e9254daa4637f57da1260efa1eefda5a37b7e2ed1609b5cf28733c39258c49a6648a14ac3748a90a112af2da9aa8ddce01bd01b2351c9c238c2f99fcc83eabe55a = 0xf9384a9600c583c3f3f2fd38c86774abc47369e7bf7708e574ac3786e51082604abcb6a6aa3773805db0ab23ae49087187f28d891e781fc3ea87715a3acf8d939b5cf28b7e2ed1602c624d332399e1c91905c58320ae70a329dccc4d97691a451acc06ed0cc2f291536a918dfd5f68497a03646a393847192babde962454b7529e4e9249665935ec46713828b822c3383aba92770300e6d2748a90a118a14ac369917a0d779139a1462cee605291d494c8d2a9701dd0f614a5a37260efa1eefd2f99fcc83eabe55a := by decide

theorem kg_r19c : keccakChi 0xf9384a9600c583c3f3f2fd38c86774abc47369e7bf7708e574ac3786e51082604abcb6a6aa3773805db0ab23ae49087187f28d891e781fc3ea87715a3acf8d939b5cf28b7e2ed1602c624d332399e1c91905c58320ae70a329dccc4d97691a451acc06ed0cc2f291536a918dfd5f68497a03646a393847192babde962454b7529e4e9249665935ec46713828b822c3383aba92770300e6d2748a90a118a14ac369917a0d779139a1462cee605291d494c8d2a9701dd0f614a5a37260efa1eefd2f99fcc83eabe55a = 0xcd384b9645c503a3f1764918625504abcc7b6b61bff78ba5472ca39ea510f66acaeffec7b0507b05ceac19abf26f1851a7b0c9991fe8fe4bb28753789ace8da39e2c7e0a7a1ec3204ce14c632358ed5a186d5406e4e958e34bdeec258e791d5d0acd076f2c449233727a598d6e76600d7287620a39b8d589219bdcc027541342ca4e92687ef87d6d67d074beb826412aa2b410364559d21630cbb8a9a0834bebe9b3782db691330440246aa05abb10cee143b97d38d0df35a38f3460ada0ee7d67c975d82efbf55a := by decide

theorem kg_r19 : keccakRound keccak_rotc_std 0xa0a384a3442103c8dbd1670866d6a624da0ad860a7ddf6d62604af7d93c245f65cf98236a4ec69ca030ffe2ae183b496e5dee69748add5edb8d323349e6a70b74a018f11bc97d7725cb577cd8075589f8958ccf7679c3b5f0a030c2b49dda1ffa95796cf47e15612bcb01c04457d96e5c81f6372c288f986484b014d0533adbc3315496c0eda1790a2198697b28d31e6fe4447c6fc297f317733a961dc396ec9351a1bc3205d7be8e16ee8916777dd68ada6f64b2da58246654b0fed0f6f068aef48b8bfeb2744bb 19 = 0xcd384b9645c503a3f1764918625504abcc7b6b61bff78ba5472ca39ea510f66acaeffec7b0507b05ceac19abf26f1851a7b0c9991fe8fe4bb28753789ace8da39e2c7e0a7a1ec3204ce14c632358ed5a186d5406e4e958e34bdeec258e791d5d0acd076f2c449233727a598d6e76600d7287620a39b8d589219bdcc027541342ca4e92687ef87d6d67d074beb826412aa2b410364559d21630cbb8a9a0834bebe9b3782db691330440246aa05abb10cee143b97d38d0df35a38f3460ada0ee7de7c975d8aefbf550 := by

  simp only [keccakRound, kg_r19t, kg_r19p, kg_r19c]

  decide

theorem kg_r20t : keccakTheta 0xcd384b9645c503a3f1764918625504abcc7b6b61bff78ba5472ca39ea510f66acaeffec7b0507b05ceac19abf26f1851a7b0c9991fe8fe4bb28753789ace8da39e2c7e0a7a1ec3204ce14c632358ed5a186d5406e4e958e34bdeec258e791d5d0acd076f2c449233727a598d6e76600d7287620a39b8d589219bdcc027541342ca4e92687ef87d6d67d074beb826412aa2b410364559d21630cbb8a9a0834bebe9b3782db691330440246aa05abb10cee143b97d38d0df35a38f3460ada0ee7de7c975d8aefbf550 = 0x1d5ce445dbd37367a477fe006ed2c82e48dfe3f74979f6b481e25b2a12ce1f524dbd1c8fc1d4ca0b1ec8b6786c796895f2b17e81136f32ce3623dbee6c40f0b258e286becdc02a18cbb3ae2b52dc5c54c809fbd57aff28271edf5b3d82fed1d88e698ff9dacaef22b4b4a139d9a88935f5d58042483c6487f1ff7313b94263869f4f2570727fb1e8e374fc284ea83c3b647ae882f2873b2eb7995ae1d107fae539d7d7fe288743c01525ddb8563cdc4b65e731ebce5ea2246541ccd41a7e0745609b9790df7f445e := by decide

theorem kg_r20p : keccakRhoPi keccak_rotc_std 0x1d5ce445dbd37367a477fe006ed2c82e48dfe3f74979f6b481e25b2a12ce1f524dbd1c8fc1d4ca0b1ec8b6786c796895f2b17e81136f32ce3623dbee6c40f0b258e286becdc02a18cbb3ae2b52dc5c54c809fbd57aff28271edf5b3d82fed1d88e698ff9dacaef22b4b4a139d9a88935f5d58042483c6487f1ff7313b94263869f4f2570727fb1e8e374fc284ea83c3b647ae882f2873b2eb7995ae1d107fae539d7d7fe288743c01525ddb8563cdc4b65e731ebce5ea2246541ccd41a7e0745609b9790df7f445e = 0x7896ca84b387d4ab8b8a997675c56a57f9413e404fdeabdf44fa792b8393fd81979cc7af397a8892ea477fe006ed2c8edf7362078591b11d284e766a224d6d2107fae5b7995ae1df1443a1e01cebebf723f0753282d36f4c8b6786c7968951e7b05fda3b03dbeb6dd3f0a13aa0f0ef8ca8399a834fc0e8a891bfc7ee92f3ed605430b1c50d7d9b8aeac021241e3243f313b9426386f1ff78563cdc4b1525ddb391176f4dcd9c757d0226de659de562f577914734c7fced673b2e647ae882f28609b9790df7f445e := by decide

theorem kg_r20c : keccakChi 0x7896ca84b387d4ab8b8a997675c56a57f9413e404fdeabdf44fa792b8393fd81979cc7af397a8892ea477fe006ed2c8edf7362078591b11d284e766a224d6d2107fae5b7995ae1df1443a1e01cebebf723f0753282d36f4c8b6786c7968951e7b05fda3b03dbeb6dd3f0a13aa0f0ef8ca8399a834fc0e8a891bfc7ee92f3ed605430b1c50d7d9b8aeac021241e3243f313b9426386f1ff78563cdc4b1525ddb391176f4dcd9c757d0226de659de562f577914734c7fced673b2e647ae882f28609b9790df7f445e = 0xe38f4f2843106a1aa0c829c5d7dbd624789557cc0cddc3f774670f81db392bd812e9dc1ef75368ac2e9ff3bf787fd2c83cb73e2079d93726d084a6b8a202161a3d0cbe5b21cca71c33c47b3a83eeee7d67030540a22e36844036e0c46db89d14490cfab0b0389c565d8d0a5fe34f0ff0e8836c0824ccbe8cb903ec5ce1023cf201230a9c408798b126b4f670e8cb027930789d2a287bc6770be7cfd4f0d27dd32a3116b3fc59ec7790a8ece65af856277e680663c87e4f86f3b08fc3bf083f0164d287a09f088488 := by decide

theorem kg_r20 : keccakRound keccak_rotc_std 0xcd384b9645c503a3f1764918625504abcc7b6b61bff78ba5472ca39ea510f66acaeffec7b0507b05ceac19abf26f1851a7b0c9991fe8fe4bb28753789ace8da39e2c7e0a7a1ec3204ce14c632358ed5a186d5406e4e958e34bdeec258e791d5d0acd076f2c449233727a598d6e76600d7287620a39b8d589219bdcc027541342ca4e92687ef87d6d67d074beb826412aa2b410364559d21630cbb8a9a0834bebe9b3782db691330440246aa05abb10cee143b97d38d0df35a38f3460ada0ee7de7c975d8aefbf550 20 = 0xe38f4f2843106a1aa0c829c5d7dbd624789557cc0cddc3f774670f81db392bd812e9dc1ef75368ac2e9ff3bf787fd2c83cb73e2079d93726d084a6b8a202161a3d0cbe5b21cca71c33c47b3a83eeee7d67030540a22e36844036e0c46db89d14490cfab0b0389c565d8d0a5fe34f0ff0e8836c0824ccbe8cb903ec5ce1023cf201230a9c408798b126b4f670e8cb027930789d2a287bc6770be7cfd4f0d27dd32a3116b3fc59ec7790a8ece65af856277e680663c87e4f86f3b08fc3bf083f01e4d287a01f080409 := by

  simp only [keccakRound, kg_r20t, kg_r20p, kg_r20c]

  decide

theorem kg_r21t : keccakTheta 0xe38f4f2843106a1aa0c829c5d7dbd624789557cc0cddc3f774670f81db392bd812e9dc1ef75368ac2e9ff3bf787fd2c83cb73e2079d93726d084a6b8a202161a3d0cbe5b21cca71c33c47b3a83eeee7d67030540a22e36844036e0c46db89d14490cfab0b0389c565d8d0a5fe34f0ff0e8836c0824ccbe8cb903ec5ce1023cf201230a9c408798b126b4f670e8cb027930789d2a287bc6770be7cfd4f0d27dd32a3116b3fc59ec7790a8ece65af856277e680663c87e4f86f3b08fc3bf083f01e4d287a01f080409 = 0xe37a58c2e5835b946b4b5463e1bd6fc6343fdc17319fdcb5217f7b77183662d68595cdff6edbc2fa2e6ae455deece346f73443864fbf8ec49c2e2d639f4009586814caade2c3ee12a4b86adb1a66442b67f612aa04bd070a8bb59d625bde24f605a6716b8d7a831408957ea9204046fe7fff7de9bd4414dab9f6fbb647910d7ccaa0773a76e121536a1e7dabd5891d3b6560e9dceb748f799c9bde35695ad7852ac401595acaddf95b2b91406c9eefc532c28db8f53c50c4a6a8fb357c07760f73ae96418680ae5f := by decide

theorem kg_r21p : keccakRhoPi keccak_rotc_std 0xe37a58c2e5835b946b4b5463e1bd6fc6343fdc17319fdcb5217f7b77183662d68595cdff6edbc2fa2e6ae455deece346f73443864fbf8ec49c2e2d639f4009586814caade2c3ee12a4b86adb1a66442b67f612aa04bd070a8bb59d625bde24f605a6716b8d7a831408957ea9204046fe7fff7de9bd4414dab9f6fbb647910d7ccaa0773a76e121536a1e7dabd5891d3b6560e9dceb748f799c9bde35695ad7852ac401595acaddf95b2b91406c9eefc532c28db8f53c50c4a6a8fb357c07760f73ae96418680ae5f = 0x85fdeddc60d98b58cc88574970d5b6345e838533fb095502a9e5503b9d3b70900cb0a36e3d4f1431c66b4b5463e1bd6f16b1cfa004ac4e1755faa481011bf82295ad7859c9bde356cad656efc956200a37fdbb6f0bea16576ae455deece3462ec4b7bc49ed176b3a879f6af562474eda4d51f66af80eec1fa687fb82e633fb967dc24d029955bc58fffbef4dea20a6d3bb647910d7cb9f6f06c9eefc55b2b9149630b960d6e538de70c9f7f1d89ee688d418a02d338b5c6b48f796560e9dceb773ae96418680ae5f := by decide

theorem kg_r21c : keccakChi 0x85fdeddc60d98b58cc88574970d5b6345e838533fb095502a9e5503b9d3b70900cb0a36e3d4f1431c66b4b5463e1bd6f16b1cfa004ac4e1755faa481011bf82295ad7859c9bde356cad656efc956200a37fdbb6f0bea16576ae455deece3462ec4b7bc49ed176b3a879f6af562474eda4d51f66af80eec1fa687fb82e633fb967dc24d029955bc58fffbef4dea20a6d3bb647910d7cb9f6f06c9eefc55b2b9149630b960d6e538de70c9f7f1d89ee688d418a02d338b5c6b48f796560e9dceb773ae96418680ae5f = 0x24b8bdcde0e9ebd8c488556b6dd3a2155ff62da7fb015c4a29ed02739defd2a45ab2266e5f4f1133d342634463487e3b1e25db0b8cba4e1795b0a4d5625a494a97ac3379cd19e5438a84d26fc954382ab573b3fa09ab149722e411de1ce7ae26d1ae1668ee1f7b6baddf2b6362a74ade0d716262751ecd3f1fa3ea82647afdfd7d8a497e88d5bc587dfe5dcd8c02e555bb647912c69e8767425268b17d9299849e61b976def8787e1147f1f0d89e60895228a82d35ea443d6836c186c6896c37e7a6b668b782be17 := by decide

theorem kg_r21 : keccakRound keccak_rotc_std 0xe38f4f2843106a1aa0c829c5d7dbd624789557cc0cddc3f774670f81db392bd812e9dc1ef75368ac2e9ff3bf787fd2c83cb73e2079d93726d084a6b8a202161a3d0cbe5b21cca71c33c47b3a83eeee7d67030540a22e36844036e0c46db89d14490cfab0b0389c565d8d0a5fe34f0ff0e8836c0824ccbe8cb903ec5ce1023cf201230a9c408798b126b4f670e8cb027930789d2a287bc6770be7cfd4f0d27dd32a3116b3fc59ec7790a8ece65af856277e680663c87e4f86f3b08fc3bf083f01e4d287a01f080409 21 = 0x24b8bdcde0e9ebd8c488556b6dd3a2155ff62da7fb015c4a29ed02739defd2a45ab2266e5f4f1133d342634463487e3b1e25db0b8cba4e1795b0a4d5625a494a97ac3379cd19e5438a84d26fc954382ab573b3fa09ab149722e411de1ce7ae26d1ae1668ee1f7b6baddf2b6362a74ade0d716262751ecd3f1fa3ea82647afdfd7d8a497e88d5bc587dfe5dcd8c02e555bb647912c69e8767425268b17d9299849e61b976def8787e1147f1f0d89e60895228a82d35ea443d6836c186c6896c3767a6b668b7823e97 := by

  simp only [keccakRound, kg_r21t, kg_r21p, kg_r21c]

  decide

theorem kg_r22t : keccakTheta 0x24b8bdcde0e9ebd8c488556b6dd3a2155ff62da7fb015c4a29ed02739defd2a45ab2266e5f4f1133d342634463487e3b1e25db0b8cba4e1795b0a4d5625a494a97ac3379cd19e5438a84d26fc954382ab573b3fa09ab149722e411de1ce7ae26d1ae1668ee1f7b6baddf2b6362a74ade0d716262751ecd3f1fa3ea82647afdfd7d8a497e88d5bc587dfe5dcd8c02e555bb647912c69e8767425268b17d9299849e61b976def8787e1147f1f0d89e60895228a82d35ea443d6836c186c6896c3767a6b668b7823e97 = 0x415a0b891f06f3467620429fc26f64f9b632c13b92ccf7c8b9229f3c29a30f9718605d130b4a3917b6a0d5009ca766a5ac8dccff230688fb7c7448490b97e2c80763ae3679553870c856a9129d51100ed09105bef6440c09904c062ab35b68ca386afaf487d2d0e93d10b62cd6eb97ed4fa3191f211be51b7a415cc69b95e563cf225e8a27697ab4943ab151e5cf4ed72babe45d72d25a54008013cc2997b1a0fb830f32211760e0a3efe6047722a665bbec44b15c27efbff8f95cc972c5b1042574cd15e38716b3 := by decide

theorem kg_r22p : keccakRhoPi keccak_rotc_std 0x415a0b891f06f3467620429fc26f64f9b632c13b92ccf7c8b9229f3c29a30f9718605d130b4a3917b6a0d5009ca766a5ac8dccff230688fb7c7448490b97e2c80763ae3679553870c856a9129d51100ed09105bef6440c09904c062ab35b68ca386afaf487d2d0e93d10b62cd6eb97ed4fa3191f211be51b7a415cc69b95e563cf225e8a27697ab4943ab151e5cf4ed72babe45d72d25a54008013cc2997b1a0fb830f32211760e0a3efe6047722a665bbec44b15c27efbff8f95cc972c5b1042574cd15e38716b3 = 0xe48a7cf0a68c3e5ea2201d90ad52253a220604e84882df7b5a67912f4513b4bdeefb112c5709fbeff97620429fc26f64242485cbf1643e3a42d8b35bae5fb4f4997b1a0008013cc29108bb0707dc1879744c2d28e45c6181a0d5009ca766a5b65566b6d19520980c0eac547973d3b5e5f1f2b992e58b620916c6582772599ef9a70e00ec75c6cf2a7d18c8f908df28dacc69b95e5637a41547722a665a3efe6082e247c1bcd190569fe460d11f7591b9968749c357d7a43e25a542babe45d72d2574cd15e38716b3 := by decide

theorem kg_r22c : keccakChi 0xe48a7cf0a68c3e5ea2201d90ad52253a220604e84882df7b5a67912f4513b4bdeefb112c5709fbeff97620429fc26f64242485cbf1643e3a42d8b35bae5fb4f4997b1a0008013cc29108bb0707dc1879744c2d28e45c6181a0d5009ca766a5b65566b6d19520980c0eac547973d3b5e5f1f2b992e58b620916c6582772599ef9a70e00ec75c6cf2a7d18c8f908df28dacc69b95e5637a41547722a665a3efe6082e247c1bcd190569fe460d11f7591b9968749c357d7a43e25a542babe45d72d2574cd15e38716b3 = 0xf48efcf3a69e3a4ea8511c9cfc53e49b668c64884a0ec53fda47883fe04394bdcefb15ec5f89b0adf105204297c34be6242c1ecef1782e239b8a935ba0ddf5b0bd5f1e80592136c8d3881a5ca182984d7a406941f60cf4652167900ea6e5a7be016e9bf1d538d80dae3d547551959057a0b01b1261ab6a019ecfc93f76589eece63e22ac7de0af2a6dd890fa0ac6380b4e6fb95a2337633576626ac752f6f6aa8263456ba091515abaf0e8c55c73971896854ec3f757a4782cc562aab665c6acb776c454a21536a1 := by decide

theorem kg_r22 : keccakRound keccak_rotc_std 0x24b8bdcde0e9ebd8c488556b6dd3a2155ff62da7fb015c4a29ed02739defd2a45ab2266e5f4f1133d342634463487e3b1e25db0b8cba4e1795b0a4d5625a494a97ac3379cd19e5438a84d26fc954382ab573b3fa09ab149722e411de1ce7ae26d1ae1668ee1f7b6baddf2b6362a74ade0d716262751ecd3f1fa3ea82647afdfd7d8a497e88d5bc587dfe5dcd8c02e555bb647912c69e8767425268b17d9299849e61b976def8787e1147f1f0d89e60895228a82d35ea443d6836c186c6896c3767a6b668b7823e97 22 = 0xf48efcf3a69e3a4ea8511c9cfc53e49b668c64884a0ec53fda47883fe04394bdcefb15ec5f89b0adf105204297c34be6242c1ecef1782e239b8a935ba0ddf5b0bd5f1e80592136c8d3881a5ca182984d7a406941f60cf4652167900ea6e5a7be016e9bf1d538d80dae3d547551959057a0b01b1261ab6a019ecfc93f76589eece63e22ac7de0af2a6dd890fa0ac6380b4e6fb95a2337633576626ac752f6f6aa8263456ba091515abaf0e8c55c73971896854ec3f757a4782cc562aab665c6acb776c454221536a0 := by

  simp only [keccakRound, kg_r22t, kg_r22p, kg_r22c]

  decide

theorem kg_r23t : keccakTheta 0xf48efcf3a69e3a4ea8511c9cfc53e49b668c64884a0ec53fda47883fe04394bdcefb15ec5f89b0adf105204297c34be6242c1ecef1782e239b8a935ba0ddf5b0bd5f1e80592136c8d3881a5ca182984d7a406941f60cf4652167900ea6e5a7be016e9bf1d538d80dae3d547551959057a0b01b1261ab6a019ecfc93f76589eece63e22ac7de0af2a6dd890fa0ac6380b4e6fb95a2337633576626ac752f6f6aa8263456ba091515abaf0e8c55c73971896854ec3f757a4782cc562aab665c6acb776c454221536a0 = 0xfcf5d0a5f2446aac69aaddcf1d19049c2eabcdd92311f8eda8fb56398bf4ffb4fa821e3cb55ad5a1f97e0c14c3191b04e5d7df9d1032ce24d3ad3a0ac9c2c862cfe3c08632965dc1e7f1118c4b51fd41723b4517a2d6a487e09c515d47af47b9494932a0bc27e5dfdc818a733a22fb5e94c910c28b780f0d96b4e5692282ce0e27c5e3ff9caa4f2d25ff39ab63d905d93cd3675c4880083c421b6117b82593a68a18693df44b01b87b0b2996bd39771fdea2e7929e4899aa5e79bcacddd2ada5830fcf84c8c653ac := by decide

theorem kg_r23p : keccakRhoPi keccak_rotc_std 0xfcf5d0a5f2446aac69aaddcf1d19049c2eabcdd92311f8eda8fb56398bf4ffb4fa821e3cb55ad5a1f97e0c14c3191b04e5d7df9d1032ce24d3ad3a0ac9c2c862cfe3c08632965dc1e7f1118c4b51fd41723b4517a2d6a487e09c515d47af47b9494932a0bc27e5dfdc818a733a22fb5e94c910c28b780f0d96b4e5692282ce0e27c5e3ff9caa4f2d25ff39ab63d905d93cd3675c4880083c421b6117b82593a68a18693df44b01b87b0b2996bd39771fdea2e7929e4899aa5e79bcacddd2ada5830fcf84c8c653ac = 0xa3ed58e62fd3fed2a3fa83cfe22318966b5243b91da28bd19693e2f1ffce5527b7a8b9e4a792266a9c69aaddcf1d19049d0564e1643169d60629cce88bed7b7282593a6421b6117befa2580dc450c34978f2d56b5687ea087e0c14c3191b04f9ba8f5e8f73c138a27fce6ad8f6417649bcf37959bba55b4aa5d579bb24623f1dcbb839fc7810c652a64886145bc0786c5692282ce0e96b4e6bd39771f7b0b29974297c911aab3f3df3a20659c49cbafb3f2efa4a499505e10083c3cd3675c488830fcf84c8c653ac := by decide

theorem kg_r23c : keccakChi 0xa3ed58e62fd3fed2a3fa83cfe22318966b5243b91da28bd19693e2f1ffce5527b7a8b9e4a792266a9c69aaddcf1d19049d0564e1643169d60629cce88bed7b7282593a6421b6117befa2580dc450c34978f2d56b5687ea087e0c14c3191b04f9ba8f5e8f73c138a27fce6ad8f6417649bcf37959bba55b4aa5d579bb24623f1dcbb839fc7810c652a64886145bc0786c5692282ce0e96b4e6bd39771f7b0b29974297c911aab3f3df3a20659c49cbafb3f2efa4a499505e10083c3cd3675c488830fcf84c8c653ac = 0xa3fe1af7779fafd7b7fa22cf622318be6b571b9910726d91163b62b71dcf4521dee8b8eca7b2acba9c3088bdeebb0936fe8734e16471ab9f064146f400e16b721b5d1a6545a611ffeb829c854e19a9493bfed7eb12c7ce09fa0d3cd3b03b15bbba7d9fa73545d2a23bce6a98fe5b72103cf26d5eba2553e8b1d551b7242b765b81babfbcab8046d2820dc6175fa241611f2211c4c0f9ed5ccb9b1161ecb0a2b974a97cd82c9abb3d70a4855d04d8fa7b3b2782ca53b600e5c003c7dcb27d7e92bc23f786814652cd := by decide

theorem kg_r23 : keccakRound keccak_rotc_std 0xf48efcf3a69e3a4ea8511c9cfc53e49b668c64884a0ec53fda47883fe04394bdcefb15ec5f89b0adf105204297c34be6242c1ecef1782e239b8a935ba0ddf5b0bd5f1e80592136c8d3881a5ca182984d7a406941f60cf4652167900ea6e5a7be016e9bf1d538d80dae3d547551959057a0b01b1261ab6a019ecfc93f76589eece63e22ac7de0af2a6dd890fa0ac6380b4e6fb95a2337633576626ac752f6f6aa8263456ba091515abaf0e8c55c73971896854ec3f757a4782cc562aab665c6acb776c454221536a0 23 = 0xa3fe1af7779fafd7b7fa22cf622318be6b571b9910726d91163b62b71dcf4521dee8b8eca7b2acba9c3088bdeebb0936fe8734e16471ab9f064146f400e16b721b5d1a6545a611ffeb829c854e19a9493bfed7eb12c7ce09fa0d3cd3b03b15bbba7d9fa73545d2a23bce6a98fe5b72103cf26d5eba2553e8b1d551b7242b765b81babfbcab8046d2820dc6175fa241611f2211c4c0f9ed5ccb9b1161ecb0a2b974a97cd82c9abb3d70a4855d04d8fa7b3b2782ca53b600e5c003c7dcb27d7e923c23f7860146d2c5 := by

  simp only [keccakRound, kg_r23t, kg_r23p, kg_r23c]

  decide

theorem kg_perm : keccak_f1600 keccak_rotc_std 0x80000000000000000000000000000000000000000000000000000000000000000000000000000000000000000000000000000000000000000000000000000000000000000000000000000000000000000000000000000000000000000000000000000000000000000000000000000000000000000000000000000000000000000000000000000001 = 0xa3fe1af7779fafd7b7fa22cf622318be6b571b9910726d91163b62b71dcf4521dee8b8eca7b2acba9c3088bdeebb0936fe8734e16471ab9f064146f400e16b721b5d1a6545a611ffeb829c854e19a9493bfed7eb12c7ce09fa0d3cd3b03b15bbba7d9fa73545d2a23bce6a98fe5b72103cf26d5eba2553e8b1d551b7242b765b81babfbcab8046d2820dc6175fa241611f2211c4c0f9ed5ccb9b1161ecb0a2b974a97cd82c9abb3d70a4855d04d8fa7b3b2782ca53b600e5c003c7dcb27d7e923c23f7860146d2c5 := by

  rw [keccak_f1600_expand, kg_r0, kg_r1, kg_r2, kg_r3, kg_r4, kg_r5, kg_r6, kg_r7, kg_r8, kg_r9, kg_r10, kg_r11, kg_r12, kg_r13, kg_r14, kg_r15, kg_r16, kg_r17, kg_r18, kg_r19, kg_r20, kg_r21, kg_r22, kg_r23]

theorem kg_sq : keccakSqueeze32 0xa3fe1af7779fafd7b7fa22cf622318be6b571b9910726d91163b62b71dcf4521dee8b8eca7b2acba9c3088bdeebb0936fe8734e16471ab9f064146f400e16b721b5d1a6545a611ffeb829c854e19a9493bfed7eb12c7ce09fa0d3cd3b03b15bbba7d9fa73545d2a23bce6a98fe5b72103cf26d5eba2553e8b1d551b7242b765b81babfbcab8046d2820dc6175fa241611f2211c4c0f9ed5ccb9b1161ecb0a2b974a97cd82c9abb3d70a4855d04d8fa7b3b2782ca53b600e5c003c7dcb27d7e923c23f7860146d2c5 = [197, 210, 70, 1, 134, 247, 35, 60, 146, 126, 125, 178, 220, 199, 3, 192, 229, 0, 182, 83, 202, 130, 39, 59, 123, 250, 216, 4, 93, 133, 164, 112] := by decide

theorem kg_value : keccak256 [] = [197, 210, 70, 1, 134, 247, 35, 60, 146, 126, 125, 178, 220, 199, 3, 192, 229, 0, 182, 83, 202, 130, 39, 59, 123, 250, 216, 4, 93, 133, 164, 112] := by

  rw [keccak256_single_block [] [1, 0, 0, 0, 0, 0, 0, 0, 0, 0, 0, 0, 0, 0, 0, 0, 0, 0, 0, 0, 0, 0, 0, 0, 0, 0, 0, 0, 0, 0, 0, 0, 0, 0, 0, 0, 0, 0, 0, 0, 0, 0, 0, 0, 0, 0, 0, 0, 0, 0, 0, 0, 0, 0, 0, 0, 0, 0, 0, 0, 0, 0, 0, 0, 0, 0, 0, 0, 0, 0, 0, 0, 0, 0, 0, 0, 0, 0, 0, 0, 0, 0, 0, 0, 0, 0, 0, 0, 0, 0, 0, 0, 0, 0, 0, 0, 0, 0, 0, 0, 0, 0, 0, 0, 0, 0, 0, 0, 0, 0, 0, 0, 0, 0, 0, 0, 0, 0, 0, 0, 0, 0, 0, 0, 0, 0, 0, 0, 0, 0, 0, 0, 0, 0, 0, 128] 0x80000000000000000000000000000000000000000000000000000000000000000000000000000000000000000000000000000000000000000000000000000000000000000000000000000000000000000000000000000000000000000000000000000000000000000000000000000000000000000000000000000000000000000000000000000001 kg_pad (by decide) (by decide) kg_abs, kg_perm, kg_sq]

/-- The model reproduces the published Keccak-256 of the empty string. -/

theorem keccak256_empty_golden : keccak256 [] = [197, 210, 70, 1, 134, 247, 35, 60, 146, 126, 125, 178, 220, 199, 3, 192, 229, 0, 182, 83, 202, 130, 39, 59, 123, 250, 216, 4, 93, 133, 164, 112] := kg_value

/-! ## C10: hex vs decimal reading of a 64-digit salt nonce -/

theorem c10_fb : bufferFromHex (strip0x "0000000000000000000000000000000000000000").toList = [0, 0, 0, 0, 0, 0, 0, 0, 0, 0, 0, 0, 0, 0, 0, 0, 0, 0, 0, 0] := by decide

theorem c10_izb : bufferFromHex (strip0x "0000000000000000000000000000000000000000000000000000000000000000").toList = [0, 0, 0, 0, 0, 0, 0, 0, 0, 0, 0, 0, 0, 0, 0, 0, 0, 0, 0, 0, 0, 0, 0, 0, 0, 0, 0, 0, 0, 0, 0, 0] := by decide

theorem c10_snb_hex : saltNonceToBytes "1111111111111111111111111111111111111111111111111111111111111111" = some [17, 17, 17, 17, 17, 17, 17, 17, 17, 17, 17, 17, 17, 17, 17, 17, 17, 17, 17, 17, 17, 17, 17, 17, 17, 17, 17, 17, 17, 17, 17, 17] := by decide

theorem c10_snb_dec : saltNonceDecimalToBytes "1111111111111111111111111111111111111111111111111111111111111111" = some [0, 0, 0, 0, 0, 2, 179, 114, 54, 92, 113, 27, 52, 189, 73, 197, 12, 63, 54, 210, 78, 40, 60, 85, 113, 199, 28, 113, 199, 28, 113, 199] := by decide

theorem c10sa_pad : keccakPad [0, 0, 0, 0, 0, 0, 0, 0, 0, 0, 0, 0, 0, 0, 0, 0, 0, 0, 0, 0, 0, 0, 0, 0, 0, 0, 0, 0, 0, 0, 0, 0, 17, 17, 17, 17, 17, 17, 17, 17, 17, 17, 17, 17, 17, 17, 17, 17, 17, 17, 17, 17, 17, 17, 17, 17, 17, 17, 17, 17, 17, 17, 17, 17] = [0, 0, 0, 0, 0, 0, 0, 0, 0, 0, 0, 0, 0, 0, 0, 0, 0, 0, 0, 0, 0, 0, 0, 0, 0, 0, 0, 0, 0, 0, 0, 0, 17, 17, 17, 17, 17, 17, 17, 17, 17, 17, 17, 17, 17, 17, 17, 17, 17, 17, 17, 17, 17, 17, 17, 17, 17, 17, 17, 17, 17, 17, 17, 17, 1, 0, 0, 0, 0, 0, 0, 0, 0, 0, 0, 0, 0, 0, 0, 0, 0, 0, 0, 0, 0, 0, 0, 0, 0, 0, 0, 0, 0, 0, 0, 0, 0, 0, 0, 0, 0, 0, 0, 0, 0, 0, 0, 0, 0, 0, 0, 0, 0, 0, 0, 0, 0, 0, 0, 0, 0, 0, 0, 0, 0, 0, 0, 0, 0, 0, 0, 0, 0, 0, 0, 128] := by decide

theorem c10sa_abs : keccakAbsorbBlock 0 [0, 0, 0, 0, 0, 0, 0, 0, 0, 0, 0, 0, 0, 0, 0, 0, 0, 0, 0, 0, 0, 0, 0, 0, 0, 0, 0, 0, 0, 0, 0, 0, 17, 17, 17, 17, 17, 17, 17, 17, 17, 17, 17, 17, 17, 17, 17, 17, 17, 17, 17, 17, 17, 17, 17, 17, 17, 17, 17, 17, 17, 17, 17, 17, 1, 0, 0, 0, 0, 0, 0, 0, 0, 0, 0, 0, 0, 0, 0, 0, 0, 0, 0, 0, 0, 0, 0, 0, 0, 0, 0, 0, 0, 0, 0, 0, 0, 0, 0, 0, 0, 0, 0, 0, 0, 0, 0, 0, 0, 0, 0, 0, 0, 0, 0, 0, 0, 0, 0, 0, 0, 0, 0, 0, 0, 0, 0, 0, 0, 0, 0, 0, 0, 0, 0, 128] = 0x80000000000000000000000000000000000000000000000000000000000000000000000000000000000000000000000000000000000000000000000000000000000000000000000111111111111111111111111111111111111111111111111111111111111111110000000000000000000000000000000000000000000000000000000000000000 := by decide

theorem c10sa_r0t : keccakTheta 0x80000000000000000000000000000000000000000000000000000000000000000000000000000000000000000000000000000000000000000000000000000000000000000000000111111111111111111111111111111111111111111111111111111111111111110000000000000000000000000000000000000000000000000000000000000000 = 0x22222222222222233333333333333333911111111111111333333333333333333333333333333332222222222222222333333333333333339111111111111113b3333333333333333333333333333332222222222222222333333333333333339111111111111113333333333333333333333333333333322222222222222223333333333333333280000000000000022222222222222222222222222222222333333333333333323333333333333333911111111111111333333333333333333333333333333332 := by decide

theorem c10sa_r0p : keccakRhoPi keccak_rotc_std 0x22222222222222233333333333333333911111111111111333333333333333333333333333333332222222222222222333333333333333339111111111111113b3333333333333333333333333333332222222222222222333333333333333339111111111111113333333333333333333333333333333322222222222222223333333333333333280000000000000022222222222222222222222222222222333333333333333323333333333333333911111111111111333333333333333333333333333333332 = 0xcccccccccccccccc666664666666666611111191111111119919999999999999e4444444444444443333333333333333888888888889c888cccccccccccccccc22222232222222229999999991999999ccccccccccc8cccc2222222222222322666666666666666600000000000000a0666666666666666672222222222222226666766666666666999999999999999122222222223222223333333333333333888888888888c888666666666666666688889c888888888822222222222222223333333333333332 := by decide

theorem c10sa_r0c : keccakChi 0xcccccccccccccccc666664666666666611111191111111119919999999999999e4444444444444443333333333333333888888888889c888cccccccccccccccc22222232222222229999999991999999ccccccccccc8cccc2222222222222322666666666666666600000000000000a0666666666666666672222222222222226666766666666666999999999999999122222222223222223333333333333333888888888888c888666666666666666688889c888888888822222222222222223333333333333332 = 0xd5d555555555555546666466666666669999991999999999ff7ffdffffffffffe44444444444444411111111111111110000000008014000fffffffffffeffff2222223222232222555555555d555555ccccccccccc8cc4c0000000000040100aaaaaaaaaaaeaaaa00000000000001a000000000000000207222222222222222677767777777777789999999999999914444444444544444aaaaaaaaaabaaaa2888888888888c888555555555555555400001400000000004444404444444444bbbbafbbbbbbbbba := by decide

theorem c10sa_r0 : keccakRound keccak_rotc_std 0x80000000000000000000000000000000000000000000000000000000000000000000000000000000000000000000000000000000000000000000000000000000000000000000000111111111111111111111111111111111111111111111111111111111111111110000000000000000000000000000000000000000000000000000000000000000 0 = 0xd5d555555555555546666466666666669999991999999999ff7ffdffffffffffe44444444444444411111111111111110000000008014000fffffffffffeffff2222223222232222555555555d555555ccccccccccc8cc4c0000000000040100aaaaaaaaaaaeaaaa00000000000001a000000000000000207222222222222222677767777777777789999999999999914444444444544444aaaaaaaaaabaaaa2888888888888c888555555555555555400001400000000004444404444444444bbbbafbbbbbbbbbb := by

  simp only [keccakRound, c10sa_r0t, c10sa_r0p, c10sa_r0c]

  decide

theorem c10sa_r1t : keccakTheta 0xd5d555555555555546666466666666669999991999999999ff7ffdffffffffffe44444444444444411111111111111110000000008014000fffffffffffeffff2222223222232222555555555d555555ccccccccccc8cc4c0000000000040100aaaaaaaaaaaeaaaa00000000000001a000000000000000207222222222222222677767777777777789999999999999914444444444544444aaaaaaaaaabaaaa2888888888888c888555555555555555400001400000000004444404444444444bbbbafbbbbbbbbbb = 0xe1912b1109345041e67761f7777af67eac4cee5cdcd74f6ed5d56a555d4f556dac5dd1fdddfb9e1d25556f554d701405a0110591191dd018ca2a88babab029080888b598809388b01d4cc0ecc4ea8f0cf888b28890a9c958a0110591111891189f7fddefefe07c5d2aaa97aaa2b0ab32481995b999bfda7946665c667e432736c76662e6666be76fbc4ceedcdcd74f666eeed3eee6e4eed6e2b33f13330570fbbcccf6ccd4e9cd9cf54450c44449c54c35d56345454ed6f76eeed7eee6f4eed6f3a23a02220461e2 := by decide

theorem c10sa_r1p : keccakRhoPi keccak_rotc_std 0xe1912b1109345041e67761f7777af67eac4cee5cdcd74f6ed5d56a555d4f556dac5dd1fdddfb9e1d25556f554d701405a0110591191dd018ca2a88babab029080888b598809388b01d4cc0ecc4ea8f0cf888b28890a9c958a0110591111891189f7fddefefe07c5d2aaa97aaa2b0ab32481995b999bfda7946665c667e432736c76662e6666be76fbc4ceedcdcd74f666eeed3eee6e4eed6e2b33f13330570fbbcccf6ccd4e9cd9cf54450c44449c54c35d56345454ed6f76eeed7eee6f4eed6f3a23a02220461e2 = 0x5755a955753d55b7d51e183a9981d98954e4ac7c44594448b7e3b331733335f3cd7558d15153b5bd7ee67761f7777af6445d5d5814846515aa5eaa8ac2acc8aa30570fbe2b33f13366a74e6ce5e667b647f777ee7876b177556f554d70140525222231223140220b133bb73735d3d9afddddafddcde9ddacd5899dcb9b9ae9ed7116011116b3101240ccadcccdfed3cac667e4327364666544449c54cf54450c4ac4424d14107864b22323ba0314022003e2ecfbfeef7f7f4eed66eeed3eee6ef3a23a02220461e2 := by decide

theorem c10sa_r1c : keccakChi 0x5755a955753d55b7d51e183a9981d98954e4ac7c44594448b7e3b331733335f3cd7558d15153b5bd7ee67761f7777af6445d5d5814846515aa5eaa8ac2acc8aa30570fbe2b33f13366a74e6ce5e667b647f777ee7876b177556f554d70140525222231223140220b133bb73735d3d9afddddafddcde9ddacd5899dcb9b9ae9ed7116011116b3101240ccadcccdfed3cac667e4327364666544449c54cf54450c4ac4424d14107864b22323ba0314022003e2ecfbfeef7f7f4eed66eeed3eee6ef3a23a02220461e2 = 0x65d70a75571d55f55d3e48ba99c3798156a50d392065407e36f9a333eab3ac728d71549d551bf5b56eb676f3fd66eaf7445c55541404601590fc88ab21dfd24874565aee3f33d426ecafee6c256a6f3e45d567cc4864b174cd67dd5cf59d49ad20b21380392292594676f37a75c7dc8bfdddafddcde9ffac57aafde9abbacb8c7152010552f71412c445310644f63a27f775e4236165667544cc959843ced486468906a1d92af66803011bb8211003a24b26acbeeaef073bfeec65eeec2eee6ef2a0b21330c570f3 := by decide

theorem c10sa_r1 : keccakRound keccak_rotc_std 0xd5d555555555555546666466666666669999991999999999ff7ffdffffffffffe44444444444444411111111111111110000000008014000fffffffffffeffff2222223222232222555555555d555555ccccccccccc8cc4c0000000000040100aaaaaaaaaaaeaaaa00000000000001a000000000000000207222222222222222677767777777777789999999999999914444444444544444aaaaaaaaaabaaaa2888888888888c888555555555555555400001400000000004444404444444444bbbbafbbbbbbbbbb 1 = 0x65d70a75571d55f55d3e48ba99c3798156a50d392065407e36f9a333eab3ac728d71549d551bf5b56eb676f3fd66eaf7445c55541404601590fc88ab21dfd24874565aee3f33d426ecafee6c256a6f3e45d567cc4864b174cd67dd5cf59d49ad20b21380392292594676f37a75c7dc8bfdddafddcde9ffac57aafde9abbacb8c7152010552f71412c445310644f63a27f775e4236165667544cc959843ced486468906a1d92af66803011bb8211003a24b26acbeeaef073bfeec65eeec2eee6ef2a0b21330c5f071 := by

  simp only [keccakRound, c10sa_r1t, c10sa_r1p, c10sa_r1c]

  decide

theorem c10sa_r2t : keccakTheta 0x65d70a75571d55f55d3e48ba99c3798156a50d392065407e36f9a333eab3ac728d71549d551bf5b56eb676f3fd66eaf7445c55541404601590fc88ab21dfd24874565aee3f33d426ecafee6c256a6f3e45d567cc4864b174cd67dd5cf59d49ad20b21380392292594676f37a75c7dc8bfdddafddcde9ffac57aafde9abbacb8c7152010552f71412c445310644f63a27f775e4236165667544cc959843ced486468906a1d92af66803011bb8211003a24b26acbeeaef073bfeec65eeec2eee6ef2a0b21330c5f071 = 0x975fb535c18691dc8b9983152e5c23d61748324d1a13e3a9cf8686c109229744c867a24b9f8c9faf9c3ec9b36bfd2ede92fb9efba39b3a42d111b7df1ba9719f8d297f1cdca2ef10a9b918baeffd0524b75dd88cdeff755d1bc016f3420213fa615f2cf40354318ebf09d6889656e7bdb8cb590b077e95b6a52242a93d210fa5a7f5caaae5684e4585a80e727e8099f00e0ac1d182f45d4301da634e8959be9cb401b9e14fb13241d5a6d017968f59f50acb93cad099a4ec0793401c0fbfd558b7b644c5fa529a6b := by decide

theorem c10sa_r2p : keccakRhoPi keccak_rotc_std 0x975fb535c18691dc8b9983152e5c23d61748324d1a13e3a9cf8686c109229744c867a24b9f8c9faf9c3ec9b36bfd2ede92fb9efba39b3a42d111b7df1ba9719f8d297f1cdca2ef10a9b918baeffd0524b75dd88cdeff755d1bc016f3420213fa615f2cf40354318ebf09d6889656e7bdb8cb590b077e95b6a52242a93d210fa5a7f5caaae5684e4585a80e727e8099f00e0ac1d182f45d4301da634e8959be9cb401b9e14fb13241d5a6d017968f59f50acb93cad099a4ec0793401c0fbfd558b7b644c5fa529a6b = 0x3e1a1b04248a5d13fa0a4953723175df7fbaaedbaeec466f22d3fae55572b42702b2e4f2b426693bd68b9983152e5c23dbef8dd4b8cfe888275a22595b9ef6fc959be9c01da634e80a7d89920da00dcf892e7e327ebf219e3ec9b36bfd2ede9ce6840427f437802d6a039c9fa0267c210f2680381f7faab022e90649a3427c755de211a52fe39b94c65ac8583bf4adb52a93d210fa5a52247968f59f5d5a6d01ed4d7061a47725d7df74736748525f73a18c730af967a01a45d430e0ac1d182fb7b644c5fa529a6b := by decide

theorem c10sa_r2c : keccakChi 0x3e1a1b04248a5d13fa0a4953723175df7fbaaedbaeec466f22d3fae55572b42702b2e4f2b426693bd68b9983152e5c23dbef8dd4b8cfe888275a22595b9ef6fc959be9c01da634e80a7d89920da00dcf892e7e327ebf219e3ec9b36bfd2ede9ce6840427f437802d6a039c9fa0267c210f2680381f7faab022e90649a3427c755de211a52fe39b94c65ac8583bf4adb52a93d210fa5a52247968f59f5d5a6d01ed4d7061a47725d7df74736748525f73a18c730af967a01a45d430e0ac1d182fb7b644c5fa529a6b = 0x1e5b010165dac917faaaada1e21555f77baabcdfaa664e6fa2d3bbe5056385b75f9ae0e81eaa2b734309f9c305286c03d39b8dc4b04fe944235a325a5ebee2df4d3e6444bde73ce8283d8b8b4fb8cfdbe92f62b5debf759f38c93363fc6e54bc67a24837f6a6a12f724a2fd7a92e22b18ba280184b6e2abc207a044901426e5104e2e03373fb9a94e453ce10bbf4c9d43333c3b5fe594024bd20fdd75cfec090ad0d4041a07a25d3cdc677e31252c55b8185730a5d42809e1ba43085ac0d474e17be07cfab303a7b := by decide

theorem c10sa_r2 : keccakRound keccak_rotc_std 0x65d70a75571d55f55d3e48ba99c3798156a50d392065407e36f9a333eab3ac728d71549d551bf5b56eb676f3fd66eaf7445c55541404601590fc88ab21dfd24874565aee3f33d426ecafee6c256a6f3e45d567cc4864b174cd67dd5cf59d49ad20b21380392292594676f37a75c7dc8bfdddafddcde9ffac57aafde9abbacb8c7152010552f71412c445310644f63a27f775e4236165667544cc959843ced486468906a1d92af66803011bb8211003a24b26acbeeaef073bfeec65eeec2eee6ef2a0b21330c5f071 2 = 0x1e5b010165dac917faaaada1e21555f77baabcdfaa664e6fa2d3bbe5056385b75f9ae0e81eaa2b734309f9c305286c03d39b8dc4b04fe944235a325a5ebee2df4d3e6444bde73ce8283d8b8b4fb8cfdbe92f62b5debf759f38c93363fc6e54bc67a24837f6a6a12f724a2fd7a92e22b18ba280184b6e2abc207a044901426e5104e2e03373fb9a94e453ce10bbf4c9d43333c3b5fe594024bd20fdd75cfec090ad0d4041a07a25d3cdc677e31252c55b8185730a5d42809e1ba43085ac0d474e97be07cfab30baf1 := by

  simp only [keccakRound, c10sa_r2t, c10sa_r2p, c10sa_r2c]

  decide

theorem c10sa_r3t : keccakTheta 0x1e5b010165dac917faaaada1e21555f77baabcdfaa664e6fa2d3bbe5056385b75f9ae0e81eaa2b734309f9c305286c03d39b8dc4b04fe944235a325a5ebee2df4d3e6444bde73ce8283d8b8b4fb8cfdbe92f62b5debf759f38c93363fc6e54bc67a24837f6a6a12f724a2fd7a92e22b18ba280184b6e2abc207a044901426e5104e2e03373fb9a94e453ce10bbf4c9d43333c3b5fe594024bd20fdd75cfec090ad0d4041a07a25d3cdc677e31252c55b8185730a5d42809e1ba43085ac0d474e97be07cfab30baf1 = 0x6bb1a7107122163cd23b6af7383627307f23b63476a3bd6ac1405dd72141b8680cf0381b8622897336e35fd211d0b328fb0a4a926a6c9b8327d338b1827b11da2ead827699c501377b575378d7306ddb9cc5c4a4ca47aab41058f435264d267b632b42dc2a63522a11d9c9e58d0c1f6ed8c858ebd3e688bc5590a25815bab17a2c732765a9d8e853e0dac4fb67313ad150a02587da7b7dfbee4a2524c4766290d8e7e650b482faf8e557b0b5c871b79c850c79e18187739b7837d6b7882f7a91c4d4df3c33b818f1 := by decide

theorem c10sa_r3p : keccakRhoPi keccak_rotc_std 0x6bb1a7107122163cd23b6af7383627307f23b63476a3bd6ac1405dd72141b8680cf0381b8622897336e35fd211d0b328fb0a4a926a6c9b8327d338b1827b11da2ead827699c501377b575378d7306ddb9cc5c4a4ca47aab41058f435264d267b632b42dc2a63522a11d9c9e58d0c1f6ed8c858ebd3e688bc5590a25815bab17a2c732765a9d8e853e0dac4fb67313ad150a02587da7b7dfbee4a2524c4766290d8e7e650b482faf8e557b0b5c871b79c850c79e18187739b7837d6b7882f7a91c4d4df3c33b818f1 = 0x501775c8506e1a360dbb6f6aea6f1ae23d55a4e62e2526529963993b2d4ec74e1431e786061dce630d23b6af73836279c58c13d88ed13e967279634307db8474766290ee4a2524c85a417d7c6c73f32e06e188a25cc33c0e35fd211d0b328366a4c9a4cf620b1e836b13ed9cc4eb478f06fad6f105ef5224fe476c68ed477ada026e5d5b04ed338c642c75e9f3445e625815bab17a5590a5c871b79ce557b0b69c41c48858f1aec524d4d93707f61491a9153195a16e153b7dfb50a02587da7c4d4df3c33b818f1 := by decide

theorem c10sa_r3c : keccakChi 0x501775c8506e1a360dbb6f6aea6f1ae23d55a4e62e2526529963993b2d4ec74e1431e786061dce630d23b6af73836279c58c13d88ed13e967279634307db8474766290ee4a2524c85a417d7c6c73f32e06e188a25cc33c0e35fd211d0b328366a4c9a4cf620b1e836b13ed9cc4eb478f06fad6f105ef5224fe476c68ed477ada026e5d5b04ed338c642c75e9f3445e625815bab17a5590a5c871b79ce557b0b69c41c48858f1aec524d4d93707f61491a9153195a16e153b7dfb50a02587da7c4d4df3c33b818f1 = 0xd9556df1792c1b38099bed6cec7edea26d51b4663e25264699c9d233ed04dfee3025c342043cee772901362d718766b197cc5a8882a1af947a5ac76476d9c41df3e68076c2251e4a5a581e7d69a9731e6fe0a1ae9cc3398f35e7774c0a1ec146a6c92c6d36ca228b7a27ec8ccddbc6eb8232d6b227ef4a26ee436449f7477adb025ececf04fdb3a8982d55c91a4616305a57b2a37efcb129ec59f2d46457fef5acf3c4a85cf7fead65d8ea7424f615833114351df96fbf7f793b98822317dafccd49d2d6bbe98a1 := by decide

theorem c10sa_r3 : keccakRound keccak_rotc_std 0x1e5b010165dac917faaaada1e21555f77baabcdfaa664e6fa2d3bbe5056385b75f9ae0e81eaa2b734309f9c305286c03d39b8dc4b04fe944235a325a5ebee2df4d3e6444bde73ce8283d8b8b4fb8cfdbe92f62b5debf759f38c93363fc6e54bc67a24837f6a6a12f724a2fd7a92e22b18ba280184b6e2abc207a044901426e5104e2e03373fb9a94e453ce10bbf4c9d43333c3b5fe594024bd20fdd75cfec090ad0d4041a07a25d3cdc677e31252c55b8185730a5d42809e1ba43085ac0d474e97be07cfab30baf1 3 = 0xd9556df1792c1b38099bed6cec7edea26d51b4663e25264699c9d233ed04dfee3025c342043cee772901362d718766b197cc5a8882a1af947a5ac76476d9c41df3e68076c2251e4a5a581e7d69a9731e6fe0a1ae9cc3398f35e7774c0a1ec146a6c92c6d36ca228b7a27ec8ccddbc6eb8232d6b227ef4a26ee436449f7477adb025ececf04fdb3a8982d55c91a4616305a57b2a37efcb129ec59f2d46457fef5acf3c4a85cf7fead65d8ea7424f615833114351df96fbf7f793b98822317daf4cd49d2debbe18a1 := by

  simp only [keccakRound, c10sa_r3t, c10sa_r3p, c10sa_r3c]

  decide

theorem c10sa_r4t : keccakTheta 0xd9556df1792c1b38099bed6cec7edea26d51b4663e25264699c9d233ed04dfee3025c342043cee772901362d718766b197cc5a8882a1af947a5ac76476d9c41df3e68076c2251e4a5a581e7d69a9731e6fe0a1ae9cc3398f35e7774c0a1ec146a6c92c6d36ca228b7a27ec8ccddbc6eb8232d6b227ef4a26ee436449f7477adb025ececf04fdb3a8982d55c91a4616305a57b2a37efcb129ec59f2d46457fef5acf3c4a85cf7fead65d8ea7424f615833114351df96fbf7f793b98822317daf4cd49d2debbe18a1 = 0x587dddeed167f4a26ab6867f10ed037ccc658e8a808a06672616086c342f6af7a8be8b00045c6f732778985311ed437af353fd015600f46fad1539baa405c84290b4fd4866dd76edee1956d3f28536a5b316812b2f39068919714fdd1e8b028280dc070a3004f62bf828eb87c6229b67f39ffa5f066155363b0cbd75598142bc5a0ad4452e6535ac6332409072cc35604a2fee653d10ec1bd5794819625ade7b0f27b77b433a4afb3c72b60e9c658fced9a1d69d3cfeaff4b8192cc728ce5aa607684a19cfa1b935 := by decide

theorem c10sa_r4p : keccakRhoPi keccak_rotc_std 0x587dddeed167f4a26ab6867f10ed037ccc658e8a808a06672616086c342f6af7a8be8b00045c6f732778985311ed437af353fd015600f46fad1539baa405c84290b4fd4866dd76edee1956d3f28536a5b316812b2f39068919714fdd1e8b028280dc070a3004f62bf828eb87c6229b67f39ffa5f066155363b0cbd75598142bc5a0ad4452e6535ac6332409072cc35604a2fee653d10ec1bd5794819625ade7b0f27b77b433a4afb3c72b60e9c658fced9a1d69d3cfeaff4b8192cc728ce5aa607684a19cfa1b935 = 0x985821b0d0bdabdc0a6d4bdc32ada7e59c8344d98b409597d62d056a2297329a366875a74f3fabfd7c6ab6867f10ed039cdd5202e421568aa3ae1f188a6d9fe025ade7bd57948196da19d257d8793dbb2c001171bdcea2fa78985311ed437a27ba3d16050432e29fcc90241cb30d58187032598e519cb54df98cb1d1501140ccaeddb2169fa90cdb9cffd2f8330aa9b7d75598142bc3b0cbe9c658fce3c72b60777bb459fd28961fa02ac01e8dfe6a7f27b15c06e03851800ec1b4a2fee653d107684a19cfa1b935 := by decide

theorem c10sa_r4c : keccakChi 0x985821b0d0bdabdc0a6d4bdc32ada7e59c8344d98b409597d62d056a2297329a366875a74f3fabfd7c6ab6867f10ed039cdd5202e421568aa3ae1f188a6d9fe025ade7bd57948196da19d257d8793dbb2c001171bdcea2fa78985311ed437a27ba3d16050432e29fcc90241cb30d58187032598e519cb54df98cb1d1501140ccaeddb2169fa90cdb9cffd2f8330aa9b7d75598142bc3b0cbe9c658fce3c72b60777bb459fd28961fa02ac01e8dfe6a7f27b15c06e03851800ec1b4a2fee653d107684a19cfa1b935 = 0x585d21f8f03dbbde2c4d1fdb3dafa7c40c9364f94b509d8fd4410e6e123a10fa3eea3536c67f2ef859ce932e78946d071ecc125364484632c38cbb9c917d36e139fca7bf3394c19c581bca57501023dba08035611fcfeaea28aa1b9fad536f22be3d166514be62478c10650c5a4c4038421f4b8f55ae17caef9d31d15811d047ae9ffa3a3c6f27fbcdffd339731ae9b3f555b812a762b483e16c1a14f3cf22547ffa00fbcd6ed4dfa02a8a1e8f7f435f70e068479038c5808ecb34baf32079ae2658021dcfb9b935 := by decide

theorem c10sa_r4 : keccakRound keccak_rotc_std 0xd9556df1792c1b38099bed6cec7edea26d51b4663e25264699c9d233ed04dfee3025c342043cee772901362d718766b197cc5a8882a1af947a5ac76476d9c41df3e68076c2251e4a5a581e7d69a9731e6fe0a1ae9cc3398f35e7774c0a1ec146a6c92c6d36ca228b7a27ec8ccddbc6eb8232d6b227ef4a26ee436449f7477adb025ececf04fdb3a8982d55c91a4616305a57b2a37efcb129ec59f2d46457fef5acf3c4a85cf7fead65d8ea7424f615833114351df96fbf7f793b98822317daf4cd49d2debbe18a1 4 = 0x585d21f8f03dbbde2c4d1fdb3dafa7c40c9364f94b509d8fd4410e6e123a10fa3eea3536c67f2ef859ce932e78946d071ecc125364484632c38cbb9c917d36e139fca7bf3394c19c581bca57501023dba08035611fcfeaea28aa1b9fad536f22be3d166514be62478c10650c5a4c4038421f4b8f55ae17caef9d31d15811d047ae9ffa3a3c6f27fbcdffd339731ae9b3f555b812a762b483e16c1a14f3cf22547ffa00fbcd6ed4dfa02a8a1e8f7f435f70e068479038c5808ecb34baf32079ae2658021dcfb939be := by

  simp only [keccakRound, c10sa_r4t, c10sa_r4p, c10sa_r4c]

  decide

theorem c10sa_r5t : keccakTheta 0x585d21f8f03dbbde2c4d1fdb3dafa7c40c9364f94b509d8fd4410e6e123a10fa3eea3536c67f2ef859ce932e78946d071ecc125364484632c38cbb9c917d36e139fca7bf3394c19c581bca57501023dba08035611fcfeaea28aa1b9fad536f22be3d166514be62478c10650c5a4c4038421f4b8f55ae17caef9d31d15811d047ae9ffa3a3c6f27fbcdffd339731ae9b3f555b812a762b483e16c1a14f3cf22547ffa00fbcd6ed4dfa02a8a1e8f7f435f70e068479038c5808ecb34baf32079ae2658021dcfb939be = 0x8b761e0448f753a98299009f142c33883f9ce8eaebb9151cafe14675b6eedbcc3bf803419b26aeb58ae5acd2c05e8570b0180d174dcbd27ef083378f3194be72425cefa497400aaa5d09fc200d49a39673ab0a9da705029d867e04db84d0fb6e8d329a76b457ead4f7b02d17fe988b0e470d7df808f797873cb60e2de0db3830004be57e15ecb3b7fef05f2ad3f361208ef5f00903b67fb5e47e2c63ae96a219acd13f0775a43ca80efe955aa6fcd71343efe45430d14d13f56b7ca157f4b298234a346a92e0b9f3 := by decide

theorem c10sa_r5p : keccakRhoPi keccak_rotc_std 0x8b761e0448f753a98299009f142c33883f9ce8eaebb9151cafe14675b6eedbcc3bf803419b26aeb58ae5acd2c05e8570b0180d174dcbd27ef083378f3194be72425cefa497400aaa5d09fc200d49a39673ab0a9da705029d867e04db84d0fb6e8d329a76b457ead4f7b02d17fe988b0e470d7df808f797873cb60e2de0db3830004be57e15ecb3b7fef05f2ad3f361208ef5f00903b67fb5e47e2c63ae96a219acd13f0775a43ca80efe955aa6fcd71343efe45430d14d13f56b7ca157f4b298234a346a92e0b9f3 = 0xbf8519d6dbbb6f3293472cba13f8401a82814eb9d5854ed3db8025f2bf0af659d0fbf9150c345344888299009f142c339bc798ca5f397841c0b45ffa622c3bdee96a219e47e2c63a3bad21e5456689f80d066c9abad4efe0e5acd2c05e85708ab709a1f6dd0cfc09bc17cab4fcd8483fead6f942afe9653187f39d1d5d7722a30155484b9df492e8386befc047bcbc3ae2de0db38303cb60aa6fcd7130efe9558781123dd4ea62dda2e9b97a4fd60301bf56a46994d3b5a267fb58ef5f00903b234a346a92e0b9f3 := by decide

theorem c10sa_r5c : keccakChi 0xbf8519d6dbbb6f3293472cba13f8401a82814eb9d5854ed3db8025f2bf0af659d0fbf9150c345344888299009f142c339bc798ca5f397841c0b45ffa622c3bdee96a219e47e2c63a3bad21e5456689f80d066c9abad4efe0e5acd2c05e85708ab709a1f6dd0cfc09bc17cab4fcd8483fead6f942afe9653187f39d1d5d7722a30155484b9df492e8386befc047bcbc3ae2de0db38303cb60aa6fcd7130efe9558781123dd4ea62dda2e9b97a4fd60301bf56a46994d3b5a267fb58ef5f00903b234a346a92e0b9f3 = 0xb4851d3468b1cb2bd33dccbb17fc505eae015ffd1d8661f3cac605f0bd72f651d0fab31c4cb15bc648c0991a9d946a31a8eab82f1f5bf989c0b45efae2283fecf229a19e5af3863b3b397f85656ab03c19076e2eeac4e7ee077c43805bac709bbf0b8dec7d5c7369fcb398b4fe5948bde9ded800aeedd131c7639d9fde7720832959082bbd7c5bbcbec97ad407bf9c39e3ca0db81b43c9a0b24e2f317453dd4fc3305ab899ea62d582a39d384dd69a23ba56a66c04fbd57e675241fd1404923abb4e906a12339c73 := by decide

theorem c10sa_r5 : keccakRound keccak_rotc_std 0x585d21f8f03dbbde2c4d1fdb3dafa7c40c9364f94b509d8fd4410e6e123a10fa3eea3536c67f2ef859ce932e78946d071ecc125364484632c38cbb9c917d36e139fca7bf3394c19c581bca57501023dba08035611fcfeaea28aa1b9fad536f22be3d166514be62478c10650c5a4c4038421f4b8f55ae17caef9d31d15811d047ae9ffa3a3c6f27fbcdffd339731ae9b3f555b812a762b483e16c1a14f3cf22547ffa00fbcd6ed4dfa02a8a1e8f7f435f70e068479038c5808ecb34baf32079ae2658021dcfb939be 5 = 0xb4851d3468b1cb2bd33dccbb17fc505eae015ffd1d8661f3cac605f0bd72f651d0fab31c4cb15bc648c0991a9d946a31a8eab82f1f5bf989c0b45efae2283fecf229a19e5af3863b3b397f85656ab03c19076e2eeac4e7ee077c43805bac709bbf0b8dec7d5c7369fcb398b4fe5948bde9ded800aeedd131c7639d9fde7720832959082bbd7c5bbcbec97ad407bf9c39e3ca0db81b43c9a0b24e2f317453dd4fc3305ab899ea62d582a39d384dd69a23ba56a66c04fbd57e675241fd1404923abb4e906a92339c72 := by

  simp only [keccakRound, c10sa_r5t, c10sa_r5p, c10sa_r5c]

  decide

theorem c10sa_r6t : keccakTheta 0xb4851d3468b1cb2bd33dccbb17fc505eae015ffd1d8661f3cac605f0bd72f651d0fab31c4cb15bc648c0991a9d946a31a8eab82f1f5bf989c0b45efae2283fecf229a19e5af3863b3b397f85656ab03c19076e2eeac4e7ee077c43805bac709bbf0b8dec7d5c7369fcb398b4fe5948bde9ded800aeedd131c7639d9fde7720832959082bbd7c5bbcbec97ad407bf9c39e3ca0db81b43c9a0b24e2f317453dd4fc3305ab899ea62d582a39d384dd69a23ba56a66c04fbd57e675241fd1404923abb4e906a92339c72 = 0x75efe8b709bc2414c43ec6a626b23d2a40666b6d4c5b33196b990e95df4845c4b0637f0539f399fe89aa6c99fc99850ebfe9b2322e1594fd2ed36a6ab3f56d065376aafb38c935ae5ba0b39c10287204d86d9bad8bc908d1107f499d6ae21def516cb97c2c8121835dec93d19c63fb2889471419dbaf13090609681cbf7acfbc3e5a02368c3236c850ae4e445662ced3429506dd79797a35d2d7e32801111f77025aaf3bf8e78dea95a097257c98f757543192fc55268794c60d4a98763e21afdbd75c73e7715e4a := by decide

theorem c10sa_r6p : keccakRhoPi keccak_rotc_std 0x75efe8b709bc2414c43ec6a626b23d2a40666b6d4c5b33196b990e95df4845c4b0637f0539f399fe89aa6c99fc99850ebfe9b2322e1594fd2ed36a6ab3f56d065376aafb38c935ae5ba0b39c10287204d86d9bad8bc908d1107f499d6ae21def516cb97c2c8121835dec93d19c63fb2889471419dbaf13090609681cbf7acfbc3e5a02368c3236c850ae4e445662ced3429506dd79797a35d2d7e32801111f77025aaf3bf8e78dea95a097257c98f757543192fc55268794c60d4a98763e21afdbd75c73e7715e4a = 0xae643a577d21171150e408b741673820e48468ec36cdd6c5641f2d011b46191b150c64bf1549a1e52ac43ec6a626b23db53559fab6831769b24f46718feca1771111f77d2d7e3280dfc73c6f5012d579fc14e7ce67fac18daa6c99fc99850e893ad5c43bde20fe932b93911598b3b4d48c1a9530ec7c435f280ccd6da98b666326b5ca6ed55f67194a38a0cedd78984c81cbf7acfbc0609657c98f75795a0972fa2dc26f09051d7b4645c2b29fb7fd36090c1a8b65cbe16497a35429506dd797dbd75c73e7715e4a := by decide

theorem c10sa_r6c : keccakChi 0xae643a577d21171150e408b741673820e48468ec36cdd6c5641f2d011b46191b150c64bf1549a1e52ac43ec6a626b23db53559fab6831769b24f46718feca1771111f77d2d7e3280dfc73c6f5012d579fc14e7ce67fac18daa6c99fc99850e893ad5c43bde20fe932b93911598b3b4d48c1a9530ec7c435f280ccd6da98b666326b5ca6ed55f67194a38a0cedd78984c81cbf7acfbc0609657c98f75795a0972fa2dc26f09051d7b4645c2b29fb7fd36090c1a8b65cbe16497a35429506dd797dbd75c73e7715e4a = 0xce77335777270f0b41ec4c1f412f98c44a845aac0acdd1d4747f2d125a64313b958c245331c067212ad4fdd68b4a90bd603659d3e6935229b88f60758fc801631421eef71d7d24887d893c6fd292540edf95e7cb7779750daa6689cc11810cdb6ec5a239b85a3f97abbb88d19936b4dc9c5ed11aaa7c095ca80ebde52b0b06e77174c87e850f6e094230a5cff5f8982ea54ebd8cfbc707871df98f377d62913afe0dc26719099cee4797dea279c7bf36b1241ac665cbe12dd1e29419ca59cb85d3db56f1c2f37e2a := by decide

theorem c10sa_r6 : keccakRound keccak_rotc_std 0xb4851d3468b1cb2bd33dccbb17fc505eae015ffd1d8661f3cac605f0bd72f651d0fab31c4cb15bc648c0991a9d946a31a8eab82f1f5bf989c0b45efae2283fecf229a19e5af3863b3b397f85656ab03c19076e2eeac4e7ee077c43805bac709bbf0b8dec7d5c7369fcb398b4fe5948bde9ded800aeedd131c7639d9fde7720832959082bbd7c5bbcbec97ad407bf9c39e3ca0db81b43c9a0b24e2f317453dd4fc3305ab899ea62d582a39d384dd69a23ba56a66c04fbd57e675241fd1404923abb4e906a92339c72 6 = 0xce77335777270f0b41ec4c1f412f98c44a845aac0acdd1d4747f2d125a64313b958c245331c067212ad4fdd68b4a90bd603659d3e6935229b88f60758fc801631421eef71d7d24887d893c6fd292540edf95e7cb7779750daa6689cc11810cdb6ec5a239b85a3f97abbb88d19936b4dc9c5ed11aaa7c095ca80ebde52b0b06e77174c87e850f6e094230a5cff5f8982ea54ebd8cfbc707871df98f377d62913afe0dc26719099cee4797dea279c7bf36b1241ac665cbe12dd1e29419ca59cb8553db56f142f3feab := by

  simp only [keccakRound, c10sa_r6t, c10sa_r6p, c10sa_r6c]

  decide

theorem c10sa_r7t : keccakTheta 0xce77335777270f0b41ec4c1f412f98c44a845aac0acdd1d4747f2d125a64313b958c245331c067212ad4fdd68b4a90bd603659d3e6935229b88f60758fc801631421eef71d7d24887d893c6fd292540edf95e7cb7779750daa6689cc11810cdb6ec5a239b85a3f97abbb88d19936b4dc9c5ed11aaa7c095ca80ebde52b0b06e77174c87e850f6e094230a5cff5f8982ea54ebd8cfbc707871df98f377d62913afe0dc26719099cee4797dea279c7bf36b1241ac665cbe12dd1e29419ca59cb8553db56f142f3feab = 0x7da984bd0acb3c6f45cc6679e6fef838f722db5709692aa91b272217602489f862bb7d857b4cd48e37956ca2cc12c70d586d3ab39d3256e7d79176cf593421df1ecb1c4311b5d2c6e2eafe4b4e6fe6716384cd7d0f2c9c01fd603b4cec17b9cab33d520c2017ce94e76d7e2b550cd788ff94291cc08a33561a316f98c80ba2ac4c442065a4f194e87c6d2d68fa3db504083e2bfd7a17e230e5e1cbc1b163b5337a0697bbe822023f22754daa687c87174d26ddf1f90a253342fcb2ae63fb221407cc57a248754c2 := by decide

theorem c10sa_r7p : keccakRhoPi keccak_rotc_std 0x7da984bd0acb3c6f45cc6679e6fef838f722db5709692aa91b272217602489f862bb7d857b4cd48e37956ca2cc12c70d586d3ab39d3256e7d79176cf593421df1ecb1c4311b5d2c6e2eafe4b4e6fe6716384cd7d0f2c9c01fd603b4cec17b9cab33d520c2017ce94e76d7e2b550cd788ff94291cc08a33561a316f98c80ba2ac4c442065a4f194e87c6d2d68fa3db504083e2bfd7a17e230e5e1cbc1b163b5337a0697bbe822023f22754daa687c87174d26ddf1f90a253342fcb2ae63fb221407cc57a248754c2 = 0x46c9c885d809227ecdfccedc5d5fc9697964e00b1c266be8a7626221032d278cdd349b77c7e4289483f45cc6679e6fef8bb67ac9a10ebebcdb5f8ad54335e139b163b530e5e1cbc1ddf4110119bd034bdf615ed3352218ae7956ca2cc12c70e3699d82f7383fac07f1b4b5a3e8f6d421685f9655cc7f644251ee45b6ae12d2556ba59e3d963886237fca148e604519ac6f98c80ba2a61a31aa687c871f22754da612f42b2cf181f675673a64addab0da0be74d599ea9061017e234083e2bfd7a407cc57a248754c2 := by decide

theorem c10sa_r7c : keccakChi 0x46c9c885d809227ecdfccedc5d5fc9697964e00b1c266be8a7626221032d278cdd349b77c7e4289483f45cc6679e6fef8bb67ac9a10ebebcdb5f8ad54335e139b163b530e5e1cbc1ddf4110119bd034bdf615ed3352218ae7956ca2cc12c70e3699d82f7383fac07f1b4b5a3e8f6d421685f9655cc7f644251ee45b6ae12d2556ba59e3d963886237fca148e604519ac6f98c80ba2a61a31aa687c871f22754da612f42b2cf181f675673a64addab0da0be74d599ea9061017e234083e2bfd7a407cc57a248754c2 = 0x648ba885d800257654c8ddae5abbc1e97b65e00a9c2649fe23fa6cf54274a78d85301b7ddbe660f4a3f7f8f683dea76fd7b67bc8b92fbebcdb1f8ed305a5a07ab1c3c53845ebd54597e81bc41ba923734ec17f7115a2888f59484a28097114a3efbc96240c3da40be1f6fdab29f684c160569401dc764c44147ec5be0e96d865c1a5a63c8718a32b6f80550c484749f86fbd423a349e9c32ba2a68035f6374c1b190c42b36d928ce350b3b34addce4da89f789529e88073463e2062c1f794db048798c2ba40756c2 := by decide

theorem c10sa_r7 : keccakRound keccak_rotc_std 0xce77335777270f0b41ec4c1f412f98c44a845aac0acdd1d4747f2d125a64313b958c245331c067212ad4fdd68b4a90bd603659d3e6935229b88f60758fc801631421eef71d7d24887d893c6fd292540edf95e7cb7779750daa6689cc11810cdb6ec5a239b85a3f97abbb88d19936b4dc9c5ed11aaa7c095ca80ebde52b0b06e77174c87e850f6e094230a5cff5f8982ea54ebd8cfbc707871df98f377d62913afe0dc26719099cee4797dea279c7bf36b1241ac665cbe12dd1e29419ca59cb8553db56f142f3feab 7 = 0x648ba885d800257654c8ddae5abbc1e97b65e00a9c2649fe23fa6cf54274a78d85301b7ddbe660f4a3f7f8f683dea76fd7b67bc8b92fbebcdb1f8ed305a5a07ab1c3c53845ebd54597e81bc41ba923734ec17f7115a2888f59484a28097114a3efbc96240c3da40be1f6fdab29f684c160569401dc764c44147ec5be0e96d865c1a5a63c8718a32b6f80550c484749f86fbd423a349e9c32ba2a68035f6374c1b190c42b36d928ce350b3b34addce4da89f789529e88073463e2062c1f794db0c8798c2ba407d6cb := by

  simp only [keccakRound, c10sa_r7t, c10sa_r7p, c10sa_r7c]

  decide

theorem c10sa_r8t : keccakTheta 0x648ba885d800257654c8ddae5abbc1e97b65e00a9c2649fe23fa6cf54274a78d85301b7ddbe660f4a3f7f8f683dea76fd7b67bc8b92fbebcdb1f8ed305a5a07ab1c3c53845ebd54597e81bc41ba923734ec17f7115a2888f59484a28097114a3efbc96240c3da40be1f6fdab29f684c160569401dc764c44147ec5be0e96d865c1a5a63c8718a32b6f80550c484749f86fbd423a349e9c32ba2a68035f6374c1b190c42b36d928ce350b3b34addce4da89f789529e88073463e2062c1f794db0c8798c2ba407d6cb = 0x4ba938e2d69a52e3a5dfa423f5ad36d059c512f719ea367b7045552323cb0cc35643150aa6c9d5df8cd568918d44d0fa26a1024516394985f9bf7c2e8069dfffe27cfcee24547e0b449b15b36686965861e3ef161b38ff1aa85f33a5a667e39acd1c64d989f1db8eb249c47d48492f8fb3259a76a159f96f3b5c55d9000caff030b2dfb1280e54124d20a7f1cd8b367d3c027bec5521377c69596674224cc1ea9eb2544c38435f5bc41c42b902ca13e3ab577baf1b4478b1305d3ffa7ec6e6fe1b0a825cd92863e0 := by decide

theorem c10sa_r8p : keccakRhoPi keccak_rotc_std 0x4ba938e2d69a52e3a5dfa423f5ad36d059c512f719ea367b7045552323cb0cc35643150aa6c9d5df8cd568918d44d0fa26a1024516394985f9bf7c2e8069dfffe27cfcee24547e0b449b15b36686965861e3ef161b38ff1aa85f33a5a667e39acd1c64d989f1db8eb249c47d48492f8fb3259a76a159f96f3b5c55d9000caff030b2dfb1280e54124d20a7f1cd8b367d3c027bec5521377c69596674224cc1ea9eb2544c38435f5bc41c42b902ca13e3ab577baf1b4478b1305d3ffa7ec6e6fe1b0a825cd92863e0 = 0xc115548c8f2c330d0d2cb089362b66cd9c7f8d30f1f78b0d0918596fd894072a6ad5deebc6d11e2cd0a5dfa423f5ad36be174034effffcdf2711f52124be3ec924cc1ea69596674261c21afadcf592a2542a9b27577d590cd568918d44d0fa8c4b4ccfc73550be674829fc7362cd9f5360ba7ff4fd8dcdfc6b38a25ee33d46cf8fc17c4f9f9dc48a992cd3b50acfcb7d5d9000caff03b5c5902ca13e3c41c42b4e38b5a694b8d2ea48a2c72930a4d4208edc7668e326cc4f1377c3c027bec5521b0a825cd92863e0 := by decide

theorem c10sa_r8c : keccakChi 0xc115548c8f2c330d0d2cb089362b66cd9c7f8d30f1f78b0d0918596fd894072a6ad5deebc6d11e2cd0a5dfa423f5ad36be174034effffcdf2711f52124be3ec924cc1ea69596674261c21afadcf592a2542a9b27577d590cd568918d44d0fa8c4b4ccfc73550be674829fc7362cd9f5360ba7ff4fd8dcdfc6b38a25ee33d46cf8fc17c4f9f9dc48a992cd3b50acfcb7d5d9000caff03b5c5902ca13e3c41c42b4e38b5a694b8d2ea48a2c72930a4d4208edc7668e326cc4f1377c3c027bec5521b0a825cd92863e0 = 0xc01d55889728320f27ec3aea76fa6aed5c6ec93478f39a0d081869e6de9c63eafeb25afbe7b29629d4a9dba022f7c8769f55406e33ffee5f67b16aa124be3fe9bcca1eb25ed7a75462d3fbfbfcdd8a2b5c2b1b24553d4b0ff5f8f55dec507e7c4b4ec5e5267dbf67dc09ec7b224ddfdb63fe7c70e89dedd826a8a29e203f770b1fc57d6f83dd44aaf91451a56aefc9385b512c806a13b1471000720b3c8d8e134e4df426b22e56f859a0c57179a4f52088c446ee673ece85535542c1373ed5729782b67419286bed := by decide

theorem c10sa_r8 : keccakRound keccak_rotc_std 0x648ba885d800257654c8ddae5abbc1e97b65e00a9c2649fe23fa6cf54274a78d85301b7ddbe660f4a3f7f8f683dea76fd7b67bc8b92fbebcdb1f8ed305a5a07ab1c3c53845ebd54597e81bc41ba923734ec17f7115a2888f59484a28097114a3efbc96240c3da40be1f6fdab29f684c160569401dc764c44147ec5be0e96d865c1a5a63c8718a32b6f80550c484749f86fbd423a349e9c32ba2a68035f6374c1b190c42b36d928ce350b3b34addce4da89f789529e88073463e2062c1f794db0c8798c2ba407d6cb 8 = 0xc01d55889728320f27ec3aea76fa6aed5c6ec93478f39a0d081869e6de9c63eafeb25afbe7b29629d4a9dba022f7c8769f55406e33ffee5f67b16aa124be3fe9bcca1eb25ed7a75462d3fbfbfcdd8a2b5c2b1b24553d4b0ff5f8f55dec507e7c4b4ec5e5267dbf67dc09ec7b224ddfdb63fe7c70e89dedd826a8a29e203f770b1fc57d6f83dd44aaf91451a56aefc9385b512c806a13b1471000720b3c8d8e134e4df426b22e56f859a0c57179a4f52088c446ee673ece85535542c1373ed5729782b67419286b67 := by

  simp only [keccakRound, c10sa_r8t, c10sa_r8p, c10sa_r8c]

  decide

theorem c10sa_r9t : keccakTheta 0xc01d55889728320f27ec3aea76fa6aed5c6ec93478f39a0d081869e6de9c63eafeb25afbe7b29629d4a9dba022f7c8769f55406e33ffee5f67b16aa124be3fe9bcca1eb25ed7a75462d3fbfbfcdd8a2b5c2b1b24553d4b0ff5f8f55dec507e7c4b4ec5e5267dbf67dc09ec7b224ddfdb63fe7c70e89dedd826a8a29e203f770b1fc57d6f83dd44aaf91451a56aefc9385b512c806a13b1471000720b3c8d8e134e4df426b22e56f859a0c57179a4f52088c446ee673ece85535542c1373ed5729782b67419286b67 = 0x3b03505068aa50176658ccb9e4fc56d92af953d4218073d57287929fe7094d381f7773926b17f80c2fb7de78dd75aa6edee1b63da1f9d26b1126f0417dcdd631c655e5cb674289868316d2927078e40ea7351efcaabf2917b44c030e7e5642483dd95f057f0e56bfa69617021bd8f109823b5519643883fdddb6a746dfbd15135e718b3c11db789e8f83cb45339c20e021ced7f953869f95f1c55b62b028e036b553f1fe4dac34e018143322eba2c914fe53dc0e3e4d275d29cab9b80eabfba076479f1d958d0542 := by decide

theorem c10sa_r9p : keccakRhoPi keccak_rotc_std 0x3b03505068aa50176658ccb9e4fc56d92af953d4218073d57287929fe7094d381f7773926b17f80c2fb7de78dd75aa6edee1b63da1f9d26b1126f0417dcdd631c655e5cb674289868316d2927078e40ea7351efcaabf2917b44c030e7e5642483dd95f057f0e56bfa69617021bd8f109823b5519643883fdddb6a746dfbd15135e718b3c11db789e8f83cb45339c20e021ced7f953869f95f1c55b62b028e036b553f1fe4dac34e018143322eba2c914fe53dc0e3e4d275d29cab9b80eabfba076479f1d958d0542 = 0xca1e4a7f9c2534e1f1c81d062da524e05f948bd39a8f7e554f2f38c59e08edbc7f94f7038f9349d7d96658ccb9e4fc567820bee6eb188893585c086f63c4269a028e036f1c55b62bf26d61a705aa9f8fce49ac5fe0307dddb7de78dd75aa6e2f1cfcac8491689806e0f2d14ce7083823539573701d57f740a55f2a7a84300e7a5130d8cabcb96ce811daa8cb21c41fec746dfbd1513ddb6a2eba2c9141814332d4141a2a9405cec0c7b43f3a4d7bdc3672b5f9eecaf82bf869f9521ced7f953876479f1d958d0542 := by decide

theorem c10sa_r9c : keccakChi 0xca1e4a7f9c2534e1f1c81d062da524e05f948bd39a8f7e554f2f38c59e08edbc7f94f7038f9349d7d96658ccb9e4fc567820bee6eb188893585c086f63c4269a028e036f1c55b62bf26d61a705aa9f8fce49ac5fe0307dddb7de78dd75aa6e2f1cfcac8491689806e0f2d14ce7083823539573701d57f740a55f2a7a84300e7a5130d8cabcb96ce811daa8cb21c41fec746dfbd1513ddb6a2eba2c9141814332d4141a2a9405cec0c7b43f3a4d7bdc3672b5f9eecaf82bf869f9521ced7f953876479f1d958d0542 = 0xca3542bb8c2d90c9c448a8062e376df65582c9aa0a8f6e54ef672cc1bb28ed1c6f0474118f145b96d9e45a84a1b1dc765a299fc5ef128b1ad91a4867732052de22aeb5ef944d3e2aaa3d69a7662a9f1f6e2b2c53023875fea64a2bfd68edec2f54fd2886117889d643f08115838a5e0a4f995ff00d377744f51af93a940c96325b90dc4bfd382de8b5958afb21c41dfe344dabd1cd04bb6a2f282c9b614147b6ddac5a2afc775ef8e5f7ba2f4cf3dd3462b5f9ee5afc2938ecf9540ce87c413e644336ff970d2f82 := by decide

theorem c10sa_r9 : keccakRound keccak_rotc_std 0xc01d55889728320f27ec3aea76fa6aed5c6ec93478f39a0d081869e6de9c63eafeb25afbe7b29629d4a9dba022f7c8769f55406e33ffee5f67b16aa124be3fe9bcca1eb25ed7a75462d3fbfbfcdd8a2b5c2b1b24553d4b0ff5f8f55dec507e7c4b4ec5e5267dbf67dc09ec7b224ddfdb63fe7c70e89dedd826a8a29e203f770b1fc57d6f83dd44aaf91451a56aefc9385b512c806a13b1471000720b3c8d8e134e4df426b22e56f859a0c57179a4f52088c446ee673ece85535542c1373ed5729782b67419286b67 9 = 0xca3542bb8c2d90c9c448a8062e376df65582c9aa0a8f6e54ef672cc1bb28ed1c6f0474118f145b96d9e45a84a1b1dc765a299fc5ef128b1ad91a4867732052de22aeb5ef944d3e2aaa3d69a7662a9f1f6e2b2c53023875fea64a2bfd68edec2f54fd2886117889d643f08115838a5e0a4f995ff00d377744f51af93a940c96325b90dc4bfd382de8b5958afb21c41dfe344dabd1cd04bb6a2f282c9b614147b6ddac5a2afc775ef8e5f7ba2f4cf3dd3462b5f9ee5afc2938ecf9540ce87c413e644336ff970d2f0a := by

  simp only [keccakRound, c10sa_r9t, c10sa_r9p, c10sa_r9c]

  decide

theorem c10sa_r10t : keccakTheta 0xca3542bb8c2d90c9c448a8062e376df65582c9aa0a8f6e54ef672cc1bb28ed1c6f0474118f145b96d9e45a84a1b1dc765a299fc5ef128b1ad91a4867732052de22aeb5ef944d3e2aaa3d69a7662a9f1f6e2b2c53023875fea64a2bfd68edec2f54fd2886117889d643f08115838a5e0a4f995ff00d377744f51af93a940c96325b90dc4bfd382de8b5958afb21c41dfe344dabd1cd04bb6a2f282c9b614147b6ddac5a2afc775ef8e5f7ba2f4cf3dd3462b5f9ee5afc2938ecf9540ce87c413e644336ff970d2f0a = 0xcfef88a5b0a5dc3561945ca0b2670f7a0f97daf8b31fed033027c05f8eb2355997532ca0dbe544cddc3e909a9d39908afff56b637342e996830f5b35cab0d189fdee5971a1d7e66f526a311632db80446bf1e64d3eb039020396df5bf4bd8ea30ee83bd4a8e80a819cb06d8bb610864fb7ce074159c6681ff0c03324a884dacefe4c28ed61684f64ef8099a998549ea9eb0d474ff89e632fd77f742a35b058edd8769034c0ff1204402b4e89d0a3bfb838a0eabce36caa6f33b9b892dde6997b9c146e4ec3fc3051 := by decide

theorem c10sa_r10p : keccakRhoPi keccak_rotc_std 0xcfef88a5b0a5dc3561945ca0b2670f7a0f97daf8b31fed033027c05f8eb2355997532ca0dbe544cddc3e909a9d39908afff56b637342e996830f5b35cab0d189fdee5971a1d7e66f526a311632db80446bf1e64d3eb039020396df5bf4bd8ea30ee83bd4a8e80a819cb06d8bb610864fb7ce074159c6681ff0c03324a884dacefe4c28ed61684f64ef8099a998549ea9eb0d474ff89e632fd77f742a35b058edd8769034c0ff1204402b4e89d0a3bfb838a0eabce36caa6f33b9b892dde6997b9c146e4ec3fc3051 = 0xc09f017e3ac8d564b70088a4d4622c65581c8135f8f3269fb27f261476b0b427ce283aaf38db2a9b7a61945ca0b2670fad9ae55868c4c187c1b62ed842193e725b058edd77f742a3a607f89026c3b481b2836f9513365d4c3e909a9d39908adcb7e97b1d46072dbee0266a661527aa7b67737125bbcd32f661f2fb5f1663fda0fccdffbdcb2e343abe703a0ace3340fd324a884dacef0c039d0a3bfb8402b4e8e2296c29770d73fb6c6e685d32dffead4054087741dea547e632feb0d474ff899c146e4ec3fc3051 := by decide

theorem c10sa_r10c : keccakChi 0xc09f017e3ac8d564b70088a4d4622c65581c8135f8f3269fb27f261476b0b427ce283aaf38db2a9b7a61945ca0b2670fad9ae55868c4c187c1b62ed842193e725b058edd77f742a3a607f89026c3b481b2836f9513365d4c3e909a9d39908adcb7e97b1d46072dbee0266a661527aa7b67737125bbcd32f661f2fb5f1663fda0fccdffbdcb2e343abe703a0ace3340fd324a884dacef0c039d0a3bfb8402b4e8e2296c29770d73fb6c6e685d32dffead4054087741dea547e632feb0d474ff899c146e4ec3fc3051 = 0xf0c8056e7ce84140b920b225d47106fe1883806fd27bf79f157f2e9472b0bc478628bb8eb098280323619211f186252d299c8dd86e85510793d73edcc22b187a770d4fdd5f33832626b5d89026cb88d1328765d71714d5457be08abd9159a86e37ea1e1d442178bee836eae62cb7283b70ba603cf9cd377243b27b5b3e8ef5a360c5ff1d4b2e3472bf423a48da72897d72c74df8ade33801113a09f9c612f414800bfc99630dbc73707a6a1bb22ffeadc2550c5704dea415ca189eb8e675a5219c506e09c2763017 := by decide

theorem c10sa_r10 : keccakRound keccak_rotc_std 0xca3542bb8c2d90c9c448a8062e376df65582c9aa0a8f6e54ef672cc1bb28ed1c6f0474118f145b96d9e45a84a1b1dc765a299fc5ef128b1ad91a4867732052de22aeb5ef944d3e2aaa3d69a7662a9f1f6e2b2c53023875fea64a2bfd68edec2f54fd2886117889d643f08115838a5e0a4f995ff00d377744f51af93a940c96325b90dc4bfd382de8b5958afb21c41dfe344dabd1cd04bb6a2f282c9b614147b6ddac5a2afc775ef8e5f7ba2f4cf3dd3462b5f9ee5afc2938ecf9540ce87c413e644336ff970d2f0a 10 = 0xf0c8056e7ce84140b920b225d47106fe1883806fd27bf79f157f2e9472b0bc478628bb8eb098280323619211f186252d299c8dd86e85510793d73edcc22b187a770d4fdd5f33832626b5d89026cb88d1328765d71714d5457be08abd9159a86e37ea1e1d442178bee836eae62cb7283b70ba603cf9cd377243b27b5b3e8ef5a360c5ff1d4b2e3472bf423a48da72897d72c74df8ade33801113a09f9c612f414800bfc99630dbc73707a6a1bb22ffeadc2550c5704dea415ca189eb8e675a5219c506e094276b01e := by

  simp only [keccakRound, c10sa_r10t, c10sa_r10p, c10sa_r10c]

  decide

theorem c10sa_r11t : keccakTheta 0xf0c8056e7ce84140b920b225d47106fe1883806fd27bf79f157f2e9472b0bc478628bb8eb098280323619211f186252d299c8dd86e85510793d73edcc22b187a770d4fdd5f33832626b5d89026cb88d1328765d71714d5457be08abd9159a86e37ea1e1d442178bee836eae62cb7283b70ba603cf9cd377243b27b5b3e8ef5a360c5ff1d4b2e3472bf423a48da72897d72c74df8ade33801113a09f9c612f414800bfc99630dbc73707a6a1bb22ffeadc2550c5704dea415ca189eb8e675a5219c506e094276b01e = 0xb1b1ec8d79b1d35c3da7ce41d15f4d3dddde980d3d811774cb6167258cf11b8ac1897f3ae224c40f62187bf2f4dfb731ad1bf1bc6bab1ac4568a26be2dd1f891a913066ca17224eb61141c24747764dd73fe8c34124d4759ff67f6d99477e3adf2b7067fabdb98553628a357d2f68ff6371ba488ab71db7e02cb92b83bd767bfe44283794e007fb17a1f222a35886996acd9044953a29fcc569bcd4d94ae1818c172157a66542e6ff4fd167fb701b56e07081435eb2444fe1406d709183402ecdbf1aabd10ca5c12 := by decide

theorem c10sa_r11p : keccakRhoPi keccak_rotc_std 0xb1b1ec8d79b1d35c3da7ce41d15f4d3dddde980d3d811774cb6167258cf11b8ac1897f3ae224c40f62187bf2f4dfb731ad1bf1bc6bab1ac4568a26be2dd1f891a913066ca17224eb61141c24747764dd73fe8c34124d4759ff67f6d99477e3adf2b7067fabdb98553628a357d2f68ff6371ba488ab71db7e02cb92b83bd767bfe44283794e007fb17a1f222a35886996acd9044953a29fcc569bcd4d94ae1818c172157a66542e6ff4fd167fb701b56e07081435eb2444fe1406d709183402ecdbf1aabd10ca5c12 = 0x2d859c9633c46e2beec9bac2283848e826a3acb9ff461a09d8f22141bca7003f81c2050d7ac9113f3d3da7ce41d15f4d135f16e8fc48ab45a28d5f4bda3fd8d84ae1818569bcd4d9d332a1737e0b90abfceb8893103f0625187bf2f4dfb73162b328efc75bfecfed87c88a8d621a659e280dae12306805d89bbbd301a7b022ee449d752260cd942eb8dd24455b8edbf12b83bd767bf02cb9fb701b56ef4fd1677b235e6c74d72c6c378d75635895a37edcc2af95b833fd5e29fccacd9044953adbf1aabd10ca5c12 := by decide

theorem c10sa_r11c : keccakChi 0x2d859c9633c46e2beec9bac2283848e826a3acb9ff461a09d8f22141bca7003f81c2050d7ac9113f3d3da7ce41d15f4d135f16e8fc48ab45a28d5f4bda3fd8d84ae1818569bcd4d9d332a1737e0b90abfceb8893103f0625187bf2f4dfb73162b328efc75bfecfed87c88a8d621a659e280dae12306805d89bbbd301a7b022ee449d752260cd942eb8dd24455b8edbf12b83bd767bf02cb9fb701b56ef4fd1677b235e6c74d72c6c378d75635895a37edcc2af95b833fd5e29fccacd9044953adbf1aabd10ca5c12 = 0x75b5bcd6b7e26e2b6e8bbbcb603159fc27a7a8adec823c0a10ba3303bc9f40dfa7c389b539890b3f35fca74a40651b1dd15d16d9c2422be78eadfe4ddbae8cd05bb381254dfcf7dc733eff39ec0898ab7b2b881e522d6623187fd4f4fff730ba57a8e7c45bf6c9e88f9b9abde61b559c182dcb50298c8fb99b387721b7000e7624dd7d742882452f23ffa644dcbef9316f83ec545bb128b76b2c1b57ef4102275b2f1e2cf4d3ad44b75dd5f2589df36c94e0a5999c71f15e0af19aafd0c0971a0ff38fad38f93456 := by decide

theorem c10sa_r11 : keccakRound keccak_rotc_std 0xf0c8056e7ce84140b920b225d47106fe1883806fd27bf79f157f2e9472b0bc478628bb8eb098280323619211f186252d299c8dd86e85510793d73edcc22b187a770d4fdd5f33832626b5d89026cb88d1328765d71714d5457be08abd9159a86e37ea1e1d442178bee836eae62cb7283b70ba603cf9cd377243b27b5b3e8ef5a360c5ff1d4b2e3472bf423a48da72897d72c74df8ade33801113a09f9c612f414800bfc99630dbc73707a6a1bb22ffeadc2550c5704dea415ca189eb8e675a5219c506e094276b01e 11 = 0x75b5bcd6b7e26e2b6e8bbbcb603159fc27a7a8adec823c0a10ba3303bc9f40dfa7c389b539890b3f35fca74a40651b1dd15d16d9c2422be78eadfe4ddbae8cd05bb381254dfcf7dc733eff39ec0898ab7b2b881e522d6623187fd4f4fff730ba57a8e7c45bf6c9e88f9b9abde61b559c182dcb50298c8fb99b387721b7000e7624dd7d742882452f23ffa644dcbef9316f83ec545bb128b76b2c1b57ef4102275b2f1e2cf4d3ad44b75dd5f2589df36c94e0a5999c71f15e0af19aafd0c0971a0ff38fadb8f9345c := by

  simp only [keccakRound, c10sa_r11t, c10sa_r11p, c10sa_r11c]

  decide

theorem c10sa_r12t : keccakTheta 0x75b5bcd6b7e26e2b6e8bbbcb603159fc27a7a8adec823c0a10ba3303bc9f40dfa7c389b539890b3f35fca74a40651b1dd15d16d9c2422be78eadfe4ddbae8cd05bb381254dfcf7dc733eff39ec0898ab7b2b881e522d6623187fd4f4fff730ba57a8e7c45bf6c9e88f9b9abde61b559c182dcb50298c8fb99b387721b7000e7624dd7d742882452f23ffa644dcbef9316f83ec545bb128b76b2c1b57ef4102275b2f1e2cf4d3ad44b75dd5f2589df36c94e0a5999c71f15e0af19aafd0c0971a0ff38fadb8f9345c = 0x11823ffbcd13ce64d1ddfc2d80d748eeee14540d2bbc88fc2bce7fd74f0088331f76cffbe7e2017d51cb24673a94bb526e0b513f22a43af5471e02ed1c90382660c7cdf1be633f30cb8bb977326392e91f1c0b3328dcc66ca72993121f1121a89e1b1b649cc87d1eb4efd66915849d70a0988d1ef7e785fbff0ff40ccdf1ae399b8b3a92c864543dea4c5ae41b804dc754f7a080a82ee05bd3995d19312a08653f189d018e220d0b080b9214b87be27e5d5359395b4f45a83185d67b235f5ff6b746c9e366923e1e := by decide

theorem c10sa_r12p : keccakRhoPi keccak_rotc_std 0x11823ffbcd13ce64d1ddfc2d80d748eeee14540d2bbc88fc2bce7fd74f0088331f76cffbe7e2017d51cb24673a94bb526e0b513f22a43af5471e02ed1c90382660c7cdf1be633f30cb8bb977326392e91f1c0b3328dcc66ca72993121f1121a89e1b1b649cc87d1eb4efd66915849d70a0988d1ef7e785fbff0ff40ccdf1ae399b8b3a92c864543dea4c5ae41b804dc754f7a080a82ee05bd3995d19312a08653f189d018e220d0b080b9214b87be27e5d5359395b4f45a83185d67b235f5ff6b746c9e366923e1e = 0xaf39ff5d3c0220ccc725d3971772ee646e63360f8e0599941ecdc59d4964322a1754d64e56d3d16aeed1ddfc2d80d74801768e481c13238fbf59a4561275c2d312a0865d3995d1930c71106859f8c4e83fef9f8805f47ddbcb24673a94bb5251243e2243514e53269316b906e01371fa630bacf646bebfec9dc28a81a577911f67e60c18f9be37cc04c468f7bf3c2fdd40ccdf1ae39ff0ff4b87be27e080b9218ffef344f399046027e454875eadc16a43e8f4f0d8db24e6ee05b54f7a080a82b746c9e366923e1e := by decide

theorem c10sa_r12c : keccakChi 0xaf39ff5d3c0220ccc725d3971772ee646e63360f8e0599941ecdc59d4964322a1754d64e56d3d16aeed1ddfc2d80d74801768e481c13238fbf59a4561275c2d312a0865d3995d1930c71106859f8c4e83fef9f8805f47ddbcb24673a94bb5251243e2243514e53269316b906e01371fa630bacf646bebfec9dc28a81a577911f67e60c18f9be37cc04c468f7bf3c2fdd40ccdf1ae39ff0ff4b87be27e080b9218ffef344f399046027e454875eadc16a43e8f4f0d8db24e6ee05b54f7a080a82b746c9e366923e1e = 0xa7b0fecc352602ccd761d39555a33f46467b1a47a605991c9fc9040d5816544a7776e44cd0d258fefc515be90d85c65b01568e484c6b232f51d8f5e233f5169312868c553597f09fa128306a5b98c6a8affb8e88a5f53dc98b24474cd6b1d07510f5bac3500a7eac5816fc3e64a271ab4723aeb757f2bde89d8acb99a668d1c125e3383eb93e1fec9cc4ea76bb7dafce23eedb12a31de0ff4f879ec2fca0b621c7ffc748eb9104e017e45c245aaffb74cbf257b079cb20e6ca01b5487c2ccb8ab6ae8953e6411a7a := by decide

theorem c10sa_r12 : keccakRound keccak_rotc_std 0x75b5bcd6b7e26e2b6e8bbbcb603159fc27a7a8adec823c0a10ba3303bc9f40dfa7c389b539890b3f35fca74a40651b1dd15d16d9c2422be78eadfe4ddbae8cd05bb381254dfcf7dc733eff39ec0898ab7b2b881e522d6623187fd4f4fff730ba57a8e7c45bf6c9e88f9b9abde61b559c182dcb50298c8fb99b387721b7000e7624dd7d742882452f23ffa644dcbef9316f83ec545bb128b76b2c1b57ef4102275b2f1e2cf4d3ad44b75dd5f2589df36c94e0a5999c71f15e0af19aafd0c0971a0ff38fadb8f9345c 12 = 0xa7b0fecc352602ccd761d39555a33f46467b1a47a605991c9fc9040d5816544a7776e44cd0d258fefc515be90d85c65b01568e484c6b232f51d8f5e233f5169312868c553597f09fa128306a5b98c6a8affb8e88a5f53dc98b24474cd6b1d07510f5bac3500a7eac5816fc3e64a271ab4723aeb757f2bde89d8acb99a668d1c125e3383eb93e1fec9cc4ea76bb7dafce23eedb12a31de0ff4f879ec2fca0b621c7ffc748eb9104e017e45c245aaffb74cbf257b079cb20e6ca01b5487c2ccb8ab6ae895366419af1 := by

  simp only [keccakRound, c10sa_r12t, c10sa_r12p, c10sa_r12c]

  decide

theorem c10sa_r13t : keccakTheta 0xa7b0fecc352602ccd761d39555a33f46467b1a47a605991c9fc9040d5816544a7776e44cd0d258fefc515be90d85c65b01568e484c6b232f51d8f5e233f5169312868c553597f09fa128306a5b98c6a8affb8e88a5f53dc98b24474cd6b1d07510f5bac3500a7eac5816fc3e64a271ab4723aeb757f2bde89d8acb99a668d1c125e3383eb93e1fec9cc4ea76bb7dafce23eedb12a31de0ff4f879ec2fca0b621c7ffc748eb9104e017e45c245aaffb74cbf257b079cb20e6ca01b5487c2ccb8ab6ae895366419af1 = 0x180c5a47957c3494dbdf75ccf3b119b2a4e5fd6d29c7361f575cb84d10d7a732a075f749ac58889743edff62addff0030de82811ea7905dbb34612c8bc37b990da1330157d5603e7762b236f271216c110472a0305af0b91879ae11570a3f681f26b5de9dfc8d1af9083407e2c6382d39020bdb22b786d8122366f120632e799295d9e671f2c39187e5a0d5c34bf00cdeb7b6752ebdc138798848dc7802a6648784363c34bcb32b81b5afa7dfcbddd80296cb09af6098fe50294090834ed38f261ad9a561acb4a98 := by decide

theorem c10sa_r13p : keccakRhoPi keccak_rotc_std 0x180c5a47957c3494dbdf75ccf3b119b2a4e5fd6d29c7361f575cb84d10d7a732a075f749ac58889743edff62addff0030de82811ea7905dbb34612c8bc37b990da1330157d5603e7762b236f271216c110472a0305af0b91879ae11570a3f681f26b5de9dfc8d1af9083407e2c6382d39020bdb22b786d8122366f120632e799295d9e671f2c39187e5a0d5c34bf00cdeb7b6752ebdc138798848dc7802a6648784363c34bcb32b81b5afa7dfcbddd80296cb09af6098fe50294090834ed38f261ad9a561acb4a98 = 0x5d72e134435e9cc9242d82ec5646de4ed785c888239501828c14aecf338f961c4a5b2c26bd8263f9b2dbdf75ccf3b11909645e1bdcc859a30d01f8b18e0b4e4202a664898848dc781a5e5995c3c21b1edd26b162225e81d7edff62addff003432ae147ed030f35c29683570d2fc0335f0528121069da71e4f49cbfada538e6c3c07cfb426602afaa8105ed915bc36c0cf120632e79922366dfcbddd801b5afa71691e55f0d250603023d4f20bb61bd05468d7f935aef4efec1387eb7b6752ebd61ad9a561acb4a98 := by decide

theorem c10sa_r13c : keccakChi 0x5d72e134435e9cc9242d82ec5646de4ed785c888239501828c14aecf338f961c4a5b2c26bd8263f9b2dbdf75ccf3b11909645e1bdcc859a30d01f8b18e0b4e4202a664898848dc781a5e5995c3c21b1edd26b162225e81d7edff62addff003432ae147ed030f35c29683570d2fc0335f0528121069da71e4f49cbfada538e6c3c07cfb426602afaa8105ed915bc36c0cf120632e79922366dfcbddd801b5afa71691e55f0d250603023d4f20bb61bd05468d7f935aef4efec1387eb7b6752ebd61ad9a561acb4a98 = 0xd97663fd415308cd26248eeeeac6bd7e8ed7a998228d0103ac3cacab67cd485019da6c26bd92627bb27bfb7dc4fb757901605e9bdfc853a5bf9a79d58e38ee5a02c26283d888cdd9175fc1a5c5c1191c4fa5f46f245e83ccedf760bd967073633ae1d6af2301b556539d770df330315e2d4812f069d57564d4bc9d8bdd3ae683cb3fbb126687a68eb585e93cdafb2c4db158716c5d92a0c4dfce514903f4e3af968181fea911222663115520a9abf59d520ddfcc5eeb4cfcc1087e9717759fbc67289b5652410ada := by decide

theorem c10sa_r13 : keccakRound keccak_rotc_std 0xa7b0fecc352602ccd761d39555a33f46467b1a47a605991c9fc9040d5816544a7776e44cd0d258fefc515be90d85c65b01568e484c6b232f51d8f5e233f5169312868c553597f09fa128306a5b98c6a8affb8e88a5f53dc98b24474cd6b1d07510f5bac3500a7eac5816fc3e64a271ab4723aeb757f2bde89d8acb99a668d1c125e3383eb93e1fec9cc4ea76bb7dafce23eedb12a31de0ff4f879ec2fca0b621c7ffc748eb9104e017e45c245aaffb74cbf257b079cb20e6ca01b5487c2ccb8ab6ae895366419af1 13 = 0xd97663fd415308cd26248eeeeac6bd7e8ed7a998228d0103ac3cacab67cd485019da6c26bd92627bb27bfb7dc4fb757901605e9bdfc853a5bf9a79d58e38ee5a02c26283d888cdd9175fc1a5c5c1191c4fa5f46f245e83ccedf760bd967073633ae1d6af2301b556539d770df330315e2d4812f069d57564d4bc9d8bdd3ae683cb3fbb126687a68eb585e93cdafb2c4db158716c5d92a0c4dfce514903f4e3af968181fea911222663115520a9abf59d520ddfcc5eeb4cfcc1087e9717759fbce7289b5652410a51 := by

  simp only [keccakRound, c10sa_r13t, c10sa_r13p, c10sa_r13c]

  decide

theorem c10sa_r14t : keccakTheta 0xd97663fd415308cd26248eeeeac6bd7e8ed7a998228d0103ac3cacab67cd485019da6c26bd92627bb27bfb7dc4fb757901605e9bdfc853a5bf9a79d58e38ee5a02c26283d888cdd9175fc1a5c5c1191c4fa5f46f245e83ccedf760bd967073633ae1d6af2301b556539d770df330315e2d4812f069d57564d4bc9d8bdd3ae683cb3fbb126687a68eb585e93cdafb2c4db158716c5d92a0c4dfce514903f4e3af968181fea911222663115520a9abf59d520ddfcc5eeb4cfcc1087e9717759fbce7289b5652410a51 = 0x8dbdd7dfad66099c072a5fc94ad8f27ac6dea2b2fcba17fa6f5fb9e330b6dad065287100656a4ff9e6b04f5f28ce7428206e8fbc7fd61ca1f79372ff500ff8a3c1a177cb8ff35f596baddc831d39349e1b6e404dc86b829dccf9b19a366e3c6772e8dd85fd36a3af90fe6245a44ba3de51ba0fd6b12d58e6807729a9310fe7d2ea316a35c699e98afd8ce21604cc3ab4723b64240ae93244a33c4c6fdb0cce2dc24a35dc45242377421f840709b5ba991a04d4e680dc5a05026b6bdf400e0d3c9bda86708ab927d3 := by decide

theorem c10sa_r14p : keccakRhoPi keccak_rotc_std 0x8dbdd7dfad66099c072a5fc94ad8f27ac6dea2b2fcba17fa6f5fb9e330b6dad065287100656a4ff9e6b04f5f28ce7428206e8fbc7fd61ca1f79372ff500ff8a3c1a177cb8ff35f596baddc831d39349e1b6e404dc86b829dccf9b19a366e3c6772e8dd85fd36a3af90fe6245a44ba3de51ba0fd6b12d58e6807729a9310fe7d2ea316a35c699e98afd8ce21604cc3ab4723b64240ae93244a33c4c6fdb0cce2dc24a35dc45242377421f840709b5ba991a04d4e680dc5a05026b6bdf400e0d3c9bda86708ab927d3 = 0xbd7ee78cc2db6b4172693cd75bb9063a35c14e8db72026e4c57518b51ae34cf446813539a03716817a072a5fc94ad8f2b97fa807fc51fbc9f98916912e8f7a43b0cce2da33c4c6fde229211bbe1251aec40195a93fe594a1b04f5f28ce7428e6346cdc78cf99f36363388581330ead3f04d6d7be801c1a7858dbd4565f9742ff6beb38342ef971fe8dd07eb5896ac7329a9310fe7d280772709b5ba99421f84075f7eb598267236ff78ffac394240dd1b51d7b9746ec2fe993244723b64240ae9bda86708ab927d3 := by decide

theorem c10sa_r14c : keccakChi 0xbd7ee78cc2db6b4172693cd75bb9063a35c14e8db72026e4c57518b51ae34cf446813539a03716817a072a5fc94ad8f2b97fa807fc51fbc9f98916912e8f7a43b0cce2da33c4c6fde229211bbe1251aec40195a93fe594a1b04f5f28ce7428e6346cdc78cf99f36363388581330ead3f04d6d7be801c1a7858dbd4565f9742ff6beb38342ef971fe8dd07eb5896ac7329a9310fe7d280772709b5ba99421f84075f7eb598267236ff78ffac394240dd1b51d7b9746ec2fe993244723b64240ae9bda86708ab927d3 = 0x3c0aef08d81b233530e82ce67b9d12bab8d78d8537624fa5875d28e7527a4cee76017331053734816ac3e89fc88e5ea33957a907ca41fac5bb8914c92f857a71b0ba4adce3944775ab28351ab21969aca72995a80ce731a6b0991d3e4e6c22be706c5cf9fe186762e33b8681336aa5bb10928fc64c8d4838d2dbd400369f45cd4beb339daed9c9fe9dc0baf7d86cc533f8b810fe5bb937be75db35a81463384075d3aa5ab62563437d87fee39cbc0941b56d7a8f44af0dc7d1a6c763264240bebfc3bee4ca150892 := by decide

theorem c10sa_r14 : keccakRound keccak_rotc_std 0xd97663fd415308cd26248eeeeac6bd7e8ed7a998228d0103ac3cacab67cd485019da6c26bd92627bb27bfb7dc4fb757901605e9bdfc853a5bf9a79d58e38ee5a02c26283d888cdd9175fc1a5c5c1191c4fa5f46f245e83ccedf760bd967073633ae1d6af2301b556539d770df330315e2d4812f069d57564d4bc9d8bdd3ae683cb3fbb126687a68eb585e93cdafb2c4db158716c5d92a0c4dfce514903f4e3af968181fea911222663115520a9abf59d520ddfcc5eeb4cfcc1087e9717759fbce7289b5652410a51 14 = 0x3c0aef08d81b233530e82ce67b9d12bab8d78d8537624fa5875d28e7527a4cee76017331053734816ac3e89fc88e5ea33957a907ca41fac5bb8914c92f857a71b0ba4adce3944775ab28351ab21969aca72995a80ce731a6b0991d3e4e6c22be706c5cf9fe186762e33b8681336aa5bb10928fc64c8d4838d2dbd400369f45cd4beb339daed9c9fe9dc0baf7d86cc533f8b810fe5bb937be75db35a81463384075d3aa5ab62563437d87fee39cbc0941b56d7a8f44af0dc7d1a6c763264240be3fc3bee4ca15881b := by

  simp only [keccakRound, c10sa_r14t, c10sa_r14p, c10sa_r14c]

  decide

theorem c10sa_r15t : keccakTheta 0x3c0aef08d81b233530e82ce67b9d12bab8d78d8537624fa5875d28e7527a4cee76017331053734816ac3e89fc88e5ea33957a907ca41fac5bb8914c92f857a71b0ba4adce3944775ab28351ab21969aca72995a80ce731a6b0991d3e4e6c22be706c5cf9fe186762e33b8681336aa5bb10928fc64c8d4838d2dbd400369f45cd4beb339daed9c9fe9dc0baf7d86cc533f8b810fe5bb937be75db35a81463384075d3aa5ab62563437d87fee39cbc0941b56d7a8f44af0dc7d1a6c763264240be3fc3bee4ca15881b = 0xbc063feb5e6563d6c6a6f1e038315d845b8115e153b78278b7c061dc83d6dd24db6df91b6700ec7eeacf387c4ef01e40cf19740189edb5fb58df8cad4b50b7ac802703e73238d6bf0644bf30d02eb1532725454b8a99714546d7c0380dc06d80933ac49d9acdaabfd3a6cfbae2c63471bdfe05ec2eba90c752d704e3b0e1052ebda5ee9bed7586c07e962293bcb908eec82559c58a15a674d8b7bf827654e0bff5df7ab9305b23a08bc923e5df10467f563be2eb207ac01ae13b8e58f7eed17492af34cea82250e4 := by decide

theorem c10sa_r15p : keccakRhoPi keccak_rotc_std 0xbc063feb5e6563d6c6a6f1e038315d845b8115e153b78278b7c061dc83d6dd24db6df91b6700ec7eeacf387c4ef01e40cf19740189edb5fb58df8cad4b50b7ac802703e73238d6bf0644bf30d02eb1532725454b8a99714546d7c0380dc06d80933ac49d9acdaabfd3a6cfbae2c63471bdfe05ec2eba90c752d704e3b0e1052ebda5ee9bed7586c07e962293bcb908eec82559c58a15a674d8b7bf827654e0bff5df7ab9305b23a08bc923e5df10467f563be2eb207ac01ae13b8e58f7eed17492af34cea82250e4 = 0xdf0187720f5b74925d62a60c897e61a04cb8a29392a2a5c5605ed2f74df6bac3958ef8bac81eb00684c6a6f1e038315dc656a5a85bd62c6f9b3eeb8b18d1c74e654e0bfd8b7bf827c982d91d07aefbd5e46d9c03b1fb6db7cf387c4ef01e40ea701b80db008daf80a588a4ef2e423b9fc2771cb1efdda2e90b7022bc2a76f04f1ad7f004e07ce647eff02f6175d4863d4e3b0e1052e52d705df10467f8bc923e8ffad79958f5af0180313db6bf79e32e6d55fc99d624ecd65a674c82559c58a192af34cea82250e4 := by decide

theorem c10sa_r15c : keccakChi 0xdf0187720f5b74925d62a60c897e61a04cb8a29392a2a5c5605ed2f74df6bac3958ef8bac81eb00684c6a6f1e038315dc656a5a85bd62c6f9b3eeb8b18d1c74e654e0bfd8b7bf827c982d91d07aefbd5e46d9c03b1fb6db7cf387c4ef01e40ea701b80db008daf80a588a4ef2e423b9fc2771cb1efdda2e90b7022bc2a76f04f1ad7f004e07ce647eff02f6175d4863d4e3b0e1052e52d705df10467f8bc923e8ffad79958f5af0180313db6bf79e32e6d55fc99d624ecd65a674c82559c58a192af34cea82250e4 = 0xbf5185370abb7e535decde84497ae1a4ceb9a3e194a3b1d7711cd6fb44aafae3992ed8ba5a1eb502a08aa4116869317f8f56fca45c50e6ef9bbee9dab8f9d65e210e0fddc87dd00653b2391f172efc9dc1e53c4db1f974a1cd2a7cfebe1ac2a2505e00da016c82952aa8d8ebde507bf592641ca1ef5026e9097a28ac2837dd0f4e56f44730f4e477eed02dd97fd696355e3cde14d2cd4d32fc312506ddac1033c7ba9f990d69a70090341df01f7bb3ca629f3e9096a0e0d7da474da47cc55b89b7bf84d72a02f4b2 := by decide

theorem c10sa_r15 : keccakRound keccak_rotc_std 0x3c0aef08d81b233530e82ce67b9d12bab8d78d8537624fa5875d28e7527a4cee76017331053734816ac3e89fc88e5ea33957a907ca41fac5bb8914c92f857a71b0ba4adce3944775ab28351ab21969aca72995a80ce731a6b0991d3e4e6c22be706c5cf9fe186762e33b8681336aa5bb10928fc64c8d4838d2dbd400369f45cd4beb339daed9c9fe9dc0baf7d86cc533f8b810fe5bb937be75db35a81463384075d3aa5ab62563437d87fee39cbc0941b56d7a8f44af0dc7d1a6c763264240be3fc3bee4ca15881b 15 = 0xbf5185370abb7e535decde84497ae1a4ceb9a3e194a3b1d7711cd6fb44aafae3992ed8ba5a1eb502a08aa4116869317f8f56fca45c50e6ef9bbee9dab8f9d65e210e0fddc87dd00653b2391f172efc9dc1e53c4db1f974a1cd2a7cfebe1ac2a2505e00da016c82952aa8d8ebde507bf592641ca1ef5026e9097a28ac2837dd0f4e56f44730f4e477eed02dd97fd696355e3cde14d2cd4d32fc312506ddac1033c7ba9f990d69a70090341df01f7bb3ca629f3e9096a0e0d7da474da47cc55b8937bf84d72a0274b1 := by

  simp only [keccakRound, c10sa_r15t, c10sa_r15p, c10sa_r15c]

  decide

theorem c10sa_r16t : keccakTheta 0xbf5185370abb7e535decde84497ae1a4ceb9a3e194a3b1d7711cd6fb44aafae3992ed8ba5a1eb502a08aa4116869317f8f56fca45c50e6ef9bbee9dab8f9d65e210e0fddc87dd00653b2391f172efc9dc1e53c4db1f974a1cd2a7cfebe1ac2a2505e00da016c82952aa8d8ebde507bf592641ca1ef5026e9097a28ac2837dd0f4e56f44730f4e477eed02dd97fd696355e3cde14d2cd4d32fc312506ddac1033c7ba9f990d69a70090341df01f7bb3ca629f3e9096a0e0d7da474da47cc55b8937bf84d72a0274b1 = 0x584f8bf42598fbeef507d39161d0f15eb39d5f4f6153d2d5f046397f99e5d6ea7453561f55757bd74794aad2474ab4c227bdf1b174faf615e69a15744d09b55ca054e0591532fc0fbecfb7ba1845324826fb328e9edaf11c65c171eb96b0d2582d7afc74f49ce197abf2376f031f57fc7f199204e03be83cee64266f071458b2e6bdf952185ef48d93f4d1778a26f537df6631900f82613b114caba3d2c7dee620a4915a224a22bd38df10e537d1a3301fbbc23e635083d55b1da220a18a7780dac20a722569ba64 := by decide

theorem c10sa_r16p : keccakRhoPi keccak_rotc_std 0x584f8bf42598fbeef507d39161d0f15eb39d5f4f6153d2d5f046397f99e5d6ea7453561f55757bd74794aad2474ab4c227bdf1b174faf615e69a15744d09b55ca054e0591532fc0fbecfb7ba1845324826fb328e9edaf11c65c171eb96b0d2582d7afc74f49ce197abf2376f031f57fc7f199204e03be83cee64266f071458b2e6bdf952185ef48d93f4d1778a26f537df6631900f82613b114caba3d2c7dee620a4915a224a22bd38df10e537d1a3301fbbc23e635083d55b1da220a18a7780dac20a722569ba64 = 0xc118e5fe67975bab8a64917d9f6f74306d788e137d99474f46f35efca90c2f7a47eef08f98d420f55ef507d39161d0f10aba2684daae734dc8ddbc0c7d5ff2af2c7dee6114caba3dd1125115e905248a587d55d5ef5dd14d94aad2474ab4c247d72d61a4b0cb82e3fd345de289bd4de4b63b44414314ef00b673abe9ec2a7a5a5f81f40a9c0b22a6f8cc902701df41e366f071458b2ee642537d1a33038df10ee2fd09663efb9613362e9f5ec2a4f7bee70cb96bd7e3a7a42613bdf6631900f8dac20a722569ba64 := by decide

theorem c10sa_r16c : keccakChi 0xc118e5fe67975bab8a64917d9f6f74306d788e137d99474f46f35efca90c2f7a47eef08f98d420f55ef507d39161d0f10aba2684daae734dc8ddbc0c7d5ff2af2c7dee6114caba3dd1125115e905248a587d55d5ef5dd14d94aad2474ab4c247d72d61a4b0cb82e3fd345de289bd4de4b63b44414314ef00b673abe9ec2a7a5a5f81f40a9c0b22a6f8cc902701df41e366f071458b2ee642537d1a33038df10ee2fd09663efb9613362e9f5ec2a4f7bee70cb96bd7e3a7a42613bdf6631900f8dac20a722569ba64 = 0xc109eb8e469f54a18c82817c072f54642c60ea911d094cc4c4f74f902b6a1f4a6ee6708ccc4560f07298a9b385ab4ac48bb87680b2aa57479c98bd5f7c1e721f2e5fece1966abb7d119241198010640811794c7767f4d1a932a8d2474ab4ec479f786434158293ebfdb6cfa1c3890de0b432644573566d0392f3caad64087c1a1e8de4189f8ea3a258be9bc661ff19bb61f1154d172ec446cb719a11035cf0afc6ecbce27ceb968b2e2c9d4ec3a4dfda27ddb94bebb8a7a53631bbe2631d50e21bce0a7bb18b1d60 := by decide

theorem c10sa_r16 : keccakRound keccak_rotc_std 0xbf5185370abb7e535decde84497ae1a4ceb9a3e194a3b1d7711cd6fb44aafae3992ed8ba5a1eb502a08aa4116869317f8f56fca45c50e6ef9bbee9dab8f9d65e210e0fddc87dd00653b2391f172efc9dc1e53c4db1f974a1cd2a7cfebe1ac2a2505e00da016c82952aa8d8ebde507bf592641ca1ef5026e9097a28ac2837dd0f4e56f44730f4e477eed02dd97fd696355e3cde14d2cd4d32fc312506ddac1033c7ba9f990d69a70090341df01f7bb3ca629f3e9096a0e0d7da474da47cc55b8937bf84d72a0274b1 16 = 0xc109eb8e469f54a18c82817c072f54642c60ea911d094cc4c4f74f902b6a1f4a6ee6708ccc4560f07298a9b385ab4ac48bb87680b2aa57479c98bd5f7c1e721f2e5fece1966abb7d119241198010640811794c7767f4d1a932a8d2474ab4ec479f786434158293ebfdb6cfa1c3890de0b432644573566d0392f3caad64087c1a1e8de4189f8ea3a258be9bc661ff19bb61f1154d172ec446cb719a11035cf0afc6ecbce27ceb968b2e2c9d4ec3a4dfda27ddb94bebb8a7a53631bbe2631d50e29bce0a7bb18b9d62 := by

  simp only [keccakRound, c10sa_r16t, c10sa_r16p, c10sa_r16c]

  decide

theorem c10sa_r17t : keccakTheta 0xc109eb8e469f54a18c82817c072f54642c60ea911d094cc4c4f74f902b6a1f4a6ee6708ccc4560f07298a9b385ab4ac48bb87680b2aa57479c98bd5f7c1e721f2e5fece1966abb7d119241198010640811794c7767f4d1a932a8d2474ab4ec479f786434158293ebfdb6cfa1c3890de0b432644573566d0392f3caad64087c1a1e8de4189f8ea3a258be9bc661ff19bb61f1154d172ec446cb719a11035cf0afc6ecbce27ceb968b2e2c9d4ec3a4dfda27ddb94bebb8a7a53631bbe2631d50e29bce0a7bb18b9d62 = 0xf3c93c16fe2ccfd0318f600081bb0df166d891355184578ffec8a8c55b1a3d2019ac8c7765123f4b40587e2b3d18d1b536b597fc343e0ed2d620c6fb3093695414600bb4e61a991766d8bde229473bb323b99befdf474ad88fa5333bcc20b5d2d5c01f90590f88a0c78928f4b3f92f8ac37898beda0132b8a0331d35dcbbe76ba3800564191afa371206e0622d7202f05bcef218675ee62cbc3b66eaaa0baf14f42c6b7ac4580dfa93217c324530864f6d65c2efa735bcee0c0e5cb7136d7288ec84f68018dcc2d9 := by decide

theorem c10sa_r17p : keccakRhoPi keccak_rotc_std 0xf3c93c16fe2ccfd0318f600081bb0df166d891355184578ffec8a8c55b1a3d2019ac8c7765123f4b40587e2b3d18d1b536b597fc343e0ed2d620c6fb3093695414600bb4e61a991766d8bde229473bb323b99befdf474ad88fa5333bcc20b5d2d5c01f90590f88a0c78928f4b3f92f8ac37898beda0132b8a0331d35dcbbe76ba3800564191afa371206e0622d7202f05bcef218675ee62cbc3b66eaaa0baf14f42c6b7ac4580dfa93217c324530864f6d65c2efa735bcee0c0e5cb7136d7288ec84f68018dcc2d9 = 0xfb22a3156c68f4838e7766cdb17bc452a3a56c11dccdf7ef1bd1c002b20c8d7d9b5970bbe9cd6f3bf1318f600081bb0d637d9849b4aa6b1024a3d2cfe4be2b1ea0baf14bc3b66eaad622c06fd7a1635b31dd9448fd2c66b2587e2b3d18d1b5407798416ba51f4a6681b8188b5c80bc04181cb96e26dae510ecdb1226aa308af15322e28c01769cc31bc4c5f6d00995c6d35dcbbe76ba033124530864f93217c34f05bf8b33f43cf2ff8687c1da46d6b27c4506ae00fc82c8ee62c5bcef218675ec84f68018dcc2d9 := by decide

theorem c10sa_r17c : keccakChi 0xfb22a3156c68f4838e7766cdb17bc452a3a56c11dccdf7ef1bd1c002b20c8d7d9b5970bbe9cd6f3bf1318f600081bb0d637d9849b4aa6b1024a3d2cfe4be2b1ea0baf14bc3b66eaad622c06fd7a1635b31dd9448fd2c66b2587e2b3d18d1b5407798416ba51f4a6681b8188b5c80bc04181cb96e26dae510ecdb1226aa308af15322e28c01769cc31bc4c5f6d00995c6d35dcbbe76ba033124530864f93217c34f05bf8b33f43cf2ff8687c1da46d6b27c4506ae00fc82c8ee62c5bcef218675ec84f68018dcc2d9 = 0xfba223157e6874c78e2e366730fecf6ad2a5ed0190cdc76e1783c2ce933e8d6d3b7d5caaa50c1db9d1a9be600097b7ad657fd846638a2b42b4a3d5efe4bfbb13e3e6f94bd3b62eaad223c2ebf3a9624fb07d94c9a52c7eb6507e021b1a0334405619d52b403308d489de329f444009046e1cf80e87c5a7723fd7d1bcacb88ac15322eacc507489c1b71dd5d47a0997f6937fe9b677cc0b302cd30c24793383054d67beb7d4d538d65f06c7c1d24e14bb7c443ea4214caa886de044fd3523d247fc81f4821800c251 := by decide

theorem c10sa_r17 : keccakRound keccak_rotc_std 0xc109eb8e469f54a18c82817c072f54642c60ea911d094cc4c4f74f902b6a1f4a6ee6708ccc4560f07298a9b385ab4ac48bb87680b2aa57479c98bd5f7c1e721f2e5fece1966abb7d119241198010640811794c7767f4d1a932a8d2474ab4ec479f786434158293ebfdb6cfa1c3890de0b432644573566d0392f3caad64087c1a1e8de4189f8ea3a258be9bc661ff19bb61f1154d172ec446cb719a11035cf0afc6ecbce27ceb968b2e2c9d4ec3a4dfda27ddb94bebb8a7a53631bbe2631d50e29bce0a7bb18b9d62 17 = 0xfba223157e6874c78e2e366730fecf6ad2a5ed0190cdc76e1783c2ce933e8d6d3b7d5caaa50c1db9d1a9be600097b7ad657fd846638a2b42b4a3d5efe4bfbb13e3e6f94bd3b62eaad223c2ebf3a9624fb07d94c9a52c7eb6507e021b1a0334405619d52b403308d489de329f444009046e1cf80e87c5a7723fd7d1bcacb88ac15322eacc507489c1b71dd5d47a0997f6937fe9b677cc0b302cd30c24793383054d67beb7d4d538d65f06c7c1d24e14bb7c443ea4214caa886de044fd3523d2477c81f4821800c2d1 := by

  simp only [keccakRound, c10sa_r17t, c10sa_r17p, c10sa_r17c]

  decide

theorem c10sa_r18t : keccakTheta 0xfba223157e6874c78e2e366730fecf6ad2a5ed0190cdc76e1783c2ce933e8d6d3b7d5caaa50c1db9d1a9be600097b7ad657fd846638a2b42b4a3d5efe4bfbb13e3e6f94bd3b62eaad223c2ebf3a9624fb07d94c9a52c7eb6507e021b1a0334405619d52b403308d489de329f444009046e1cf80e87c5a7723fd7d1bcacb88ac15322eacc507489c1b71dd5d47a0997f6937fe9b677cc0b302cd30c24793383054d67beb7d4d538d65f06c7c1d24e14bb7c443ea4214caa886de044fd3523d2477c81f4821800c2d1 = 0xe288dff1d5820b74a4e4fdbd1886992a3f96cb3f40702eff361f514dfd658792d5f272bf8afcf51bc8834284ab7dc81e4fb5139c4bf27d025990f3d134025282c27a6ac8bded24553cacecfedc598aeda957682d0ec601057ab4c9c1327b6200bb2af315908ee145a842a11c2a1b03fb8093d61ba8354fd026fd2d580752f57279e82116780cdf815a2ef3eaaab47e67b2e37a35199701cfc25c223156c36ba7544d42537f3f476575cc0c1bfa3642fb9177189af1f143194c7cd77e5b78d8b8920eda9737f02a73 := by decide

theorem c10sa_r18p : keccakRhoPi keccak_rotc_std 0xe288dff1d5820b74a4e4fdbd1886992a3f96cb3f40702eff361f514dfd658792d5f272bf8afcf51bc8834284ab7dc81e4fb5139c4bf27d025990f3d134025282c27a6ac8bded24553cacecfedc598aeda957682d0ec601057ab4c9c1327b6200bb2af315908ee145a842a11c2a1b03fb8093d61ba8354fd026fd2d580752f57279e82116780cdf815a2ef3eaaab47e67b2e37a35199701cfc25c223156c36ba7544d42537f3f476575cc0c1bfa3642fb9177189af1f143194c7cd77e5b78d8b8920eda9737f02a73 = 0xd87d4537f5961e48b315da7959d9fdb8630082d4abb41687c0bcf4108b3c066f645dc626bc7c50c62aa4e4fdbd18869979e89a0129412cc80a8470a86c0feea16c36ba7c25c223159bf9fa3b2aa26a12cafe2bf3d46f57c9834284ab7dc81ec88264f6c400f569938bbcfaaaad1f99d698f9aefcb6f1b170e7f2d967e80e05dfa48ab84f4d5917bd049eb0dd41aa7e84d580752f57226fd2bfa3642fb75cc0c137fc756082dd38a273897e4fa049f6a2770a2dd95798ac84701cfb2e37a35199920eda9737f02a73 := by decide

theorem c10sa_r18c : keccakChi 0xd87d4537f5961e48b315da7959d9fdb8630082d4abb41687c0bcf4108b3c066f645dc626bc7c50c62aa4e4fdbd18869979e89a0129412cc80a8470a86c0feea16c36ba7c25c223159bf9fa3b2aa26a12cafe2bf3d46f57c9834284ab7dc81ec88264f6c400f569938bbcfaaaad1f99d698f9aefcb6f1b170e7f2d967e80e05dfa48ab84f4d5917bd049eb0dd41aa7e84d580752f57226fd2bfa3642fb75cc0c137fc756082dd38a273897e4fa049f6a2770a2dd95798ac84701cfb2e37a35199920eda9737f02a73 = 0x58dd7527f69618619715587951b1bd3e2b6887d20fb214c750a9ac39db75ef57475dc4e29cfc40464ea2e4b9b858879ce8b180032be344ca08801454f8176cb01d5e307d2482235d9979babb62afa6b2c9fa7bf1dd615f4f934300a75f58bef8cad8dd9480d228928abefa81d0178f9e98b9aab8b611d171a7f2c867a82c2acdbc8b9c475a09d7bd47eef1fde1ac7ec675807d2d5b736eebbfbde4ffb7d4d0c557ec544882de692af38bf4d89569f4f3737e2cf9550ca484709da92897e203bb950cde4677e88677 := by decide

theorem c10sa_r18 : keccakRound keccak_rotc_std 0xfba223157e6874c78e2e366730fecf6ad2a5ed0190cdc76e1783c2ce933e8d6d3b7d5caaa50c1db9d1a9be600097b7ad657fd846638a2b42b4a3d5efe4bfbb13e3e6f94bd3b62eaad223c2ebf3a9624fb07d94c9a52c7eb6507e021b1a0334405619d52b403308d489de329f444009046e1cf80e87c5a7723fd7d1bcacb88ac15322eacc507489c1b71dd5d47a0997f6937fe9b677cc0b302cd30c24793383054d67beb7d4d538d65f06c7c1d24e14bb7c443ea4214caa886de044fd3523d2477c81f4821800c2d1 18 = 0x58dd7527f69618619715587951b1bd3e2b6887d20fb214c750a9ac39db75ef57475dc4e29cfc40464ea2e4b9b858879ce8b180032be344ca08801454f8176cb01d5e307d2482235d9979babb62afa6b2c9fa7bf1dd615f4f934300a75f58bef8cad8dd9480d228928abefa81d0178f9e98b9aab8b611d171a7f2c867a82c2acdbc8b9c475a09d7bd47eef1fde1ac7ec675807d2d5b736eebbfbde4ffb7d4d0c557ec544882de692af38bf4d89569f4f3737e2cf9550ca484709da92897e203bb950cde4677e8067d := by

  simp only [keccakRound, c10sa_r18t, c10sa_r18p, c10sa_r18c]

  decide

theorem c10sa_r19t : keccakTheta 0x58dd7527f69618619715587951b1bd3e2b6887d20fb214c750a9ac39db75ef57475dc4e29cfc40464ea2e4b9b858879ce8b180032be344ca08801454f8176cb01d5e307d2482235d9979babb62afa6b2c9fa7bf1dd615f4f934300a75f58bef8cad8dd9480d228928abefa81d0178f9e98b9aab8b611d171a7f2c867a82c2acdbc8b9c475a09d7bd47eef1fde1ac7ec675807d2d5b736eebbfbde4ffb7d4d0c557ec544882de692af38bf4d89569f4f3737e2cf9550ca484709da92897e203bb950cde4677e8067d = 0x236319d40c01be59158327eee0dd3133aef355973817f28687c4644cd4a41b25ec6fd723e3439e9a351c884a42cf21a46a27ff949a8fc8c78d1bc611cfb28af1ca33f8082b53d72f324ba97a1d10786eb244170227f6f97711d57f30ee3432f54f430fd1b777ced35dd332f4dfc67bec338bb979c9ae0faddc4ca49452bb8cf53e1de3d0eb655bb0c27523b8d6099887a2edb55854a29a99148ff73ec86b0e192c5238bb7849cf12711d8b4f240578fef6e5febc62a942c5a7f0615d9833f7c93e3ecd870857d8a1 := by decide

theorem c10sa_r19p : keccakRhoPi keccak_rotc_std 0x236319d40c01be59158327eee0dd3133aef355973817f28687c4644cd4a41b25ec6fd723e3439e9a351c884a42cf21a46a27ff949a8fc8c78d1bc611cfb28af1ca33f8082b53d72f324ba97a1d10786eb244170227f6f97711d57f30ee3432f54f430fd1b777ced35dd332f4dfc67bec338bb979c9ae0faddc4ca49452bb8cf53e1de3d0eb655bb0c27523b8d6099887a2edb55854a29a99148ff73ec86b0e192c5238bb7849cf12711d8b4f240578fef6e5febc62a942c5a7f0615d9833f7c93e3ecd870857d8a1 = 0x1f11913352906c9620f0dc649752f43afb7cbbd9220b8113d81f0ef1e875b2ad7db97faf18aa50b133158327eee0dd31e308e7d94578c68d4ccbd37f19efb17786b0e19148ff73ecdbc24e78916291c55c8f8d0e7a6bb1bf1c884a42cf21a43561dc6865ea23aafe9d48ee35826621f04fe0c2bb3067ef93d5de6ab2e702fe507ae5f9467f01056a9c5dcbce4d707d6949452bb8cf5dc4caf240578fe711d8b4c67503006f9648d8f29351f918ed44ffbe769a7a187e8dbb29a99a2edb55854a3e3ecd870857d8a1 := by decide

theorem c10sa_r19c : keccakChi 0x1f11913352906c9620f0dc649752f43afb7cbbd9220b8113d81f0ef1e875b2ad7db97faf18aa50b133158327eee0dd31e308e7d94578c68d4ccbd37f19efb17786b0e19148ff73ecdbc24e78916291c55c8f8d0e7a6bb1bf1c884a42cf21a43561dc6865ea23aafe9d48ee35826621f04fe0c2bb3067ef93d5de6ab2e702fe507ae5f9467f01056a9c5dcbce4d707d6949452bb8cf5dc4caf240578fe711d8b4c67503006f9648d8f29351f918ed44ffbe769a7a187e8dbb29a99a2edb55854a3e3ecd870857d8a1 = 0x9f179163b2c5ce9a4058b2e89f78e41be47dbaca628b8997d89f4ad57d25c6855ed9cea71aa051a3372522a6a67dbf192bcaab81547ac6495cded359b36fa84725b0c5110cef356493895c16806211d6cc87a10af86bb1df1fe808f3cf25ea3521dbed69da69bb748148ec37876625f12f74c2fb5866659ddcdb4282ef4efa1a58e5ec4b7f1005ce1947c97ecd7287792be51bb8fd5cc4c8665897c9e731e195c7f41128bc964d92ca999d7e18acd4deba12987a7f6c85bb6928dbafdbd4c50ea868cdd7087dd010 := by decide

theorem c10sa_r19 : keccakRound keccak_rotc_std 0x58dd7527f69618619715587951b1bd3e2b6887d20fb214c750a9ac39db75ef57475dc4e29cfc40464ea2e4b9b858879ce8b180032be344ca08801454f8176cb01d5e307d2482235d9979babb62afa6b2c9fa7bf1dd615f4f934300a75f58bef8cad8dd9480d228928abefa81d0178f9e98b9aab8b611d171a7f2c867a82c2acdbc8b9c475a09d7bd47eef1fde1ac7ec675807d2d5b736eebbfbde4ffb7d4d0c557ec544882de692af38bf4d89569f4f3737e2cf9550ca484709da92897e203bb950cde4677e8067d 19 = 0x9f179163b2c5ce9a4058b2e89f78e41be47dbaca628b8997d89f4ad57d25c6855ed9cea71aa051a3372522a6a67dbf192bcaab81547ac6495cded359b36fa84725b0c5110cef356493895c16806211d6cc87a10af86bb1df1fe808f3cf25ea3521dbed69da69bb748148ec37876625f12f74c2fb5866659ddcdb4282ef4efa1a58e5ec4b7f1005ce1947c97ecd7287792be51bb8fd5cc4c8665897c9e731e195c7f41128bc964d92ca999d7e18acd4deba12987a7f6c85bb6928dbafdbd4c50e2868cdd7887dd01a := by

  simp only [keccakRound, c10sa_r19t, c10sa_r19p, c10sa_r19c]

  decide

theorem c10sa_r20t : keccakTheta 0x9f179163b2c5ce9a4058b2e89f78e41be47dbaca628b8997d89f4ad57d25c6855ed9cea71aa051a3372522a6a67dbf192bcaab81547ac6495cded359b36fa84725b0c5110cef356493895c16806211d6cc87a10af86bb1df1fe808f3cf25ea3521dbed69da69bb748148ec37876625f12f74c2fb5866659ddcdb4282ef4efa1a58e5ec4b7f1005ce1947c97ecd7287792be51bb8fd5cc4c8665897c9e731e195c7f41128bc964d92ca999d7e18acd4deba12987a7f6c85bb6928dbafdbd4c50e2868cdd7887dd01a = 0x2139e5658a8eff228541e5dd58fd93d516dbd87075996cae00d0eb7ca3eae22e5c16c80b05e289db890b56a09e368ea1eed3fcb493ffb187ae78b1e3a47d4d7efdff64b8d22011cf91465aba9f20c9ae72a9d50cc0208067daf15fc608a09dfbd37d8fd3cd7b5e4d59074d9e59a9015a2dbbc4574724bde562f53684d705cba29dfcbb7eb8957200ebe1abc4da606240f3aaba112393e06364979165f87339ed79da652e84dd7c2a0f80ca4bdf29a31048b4fac0687e6082b1677a06051be1a52aa7cb7b973f0862 := by decide

theorem c10sa_r20p : keccakRhoPi keccak_rotc_std 0x2139e5658a8eff228541e5dd58fd93d516dbd87075996cae00d0eb7ca3eae22e5c16c80b05e289db890b56a09e368ea1eed3fcb493ffb187ae78b1e3a47d4d7efdff64b8d22011cf91465aba9f20c9ae72a9d50cc0208067daf15fc608a09dfbd37d8fd3cd7b5e4d59074d9e59a9015a2dbbc4574724bde562f53684d705cba29dfcbb7eb8957200ebe1abc4da606240f3aaba112393e06364979165f87339ed79da652e84dd7c2a0f80ca4bdf29a31048b4fac0687e6082b1677a06051be1a52aa7cb7b973f0862 = 0x343adf28fab88b841935d228cb5753e104033b954ea8660004efe5dbf5c4ab9922d3eb01a1f9820d58541e5dd58fd9358f1d23ea6bf573c1d367966a405696487339ed64979165f7426ebe153ced329202c178a276d705b0b56a09e368ea1898c11413bf7b5e2bff86af1369818903a62cef40c0a37c34bc2db7b0e0eb32d950239ffbfec971a446dde22ba3925ef29684d705cba262f53bdf29a3100f80ca4795962a3bfc8884e96927ff630fdda7fdaf26e9bec7e9e6b3e063f3aaba112392aa7cb7b973f0862 := by decide

theorem c10sa_r20c : keccakChi 0x343adf28fab88b841935d228cb5753e104033b954ea8660004efe5dbf5c4ab9922d3eb01a1f9820d58541e5dd58fd9358f1d23ea6bf573c1d367966a405696487339ed64979165f7426ebe153ced329202c178a276d705b0b56a09e368ea1898c11413bf7b5e2bff86af1369818903a62cef40c0a37c34bc2db7b0e0eb32d950239ffbfec971a446dde22ba3925ef29684d705cba262f53bdf29a3100f80ca4795962a3bfc8884e96927ff630fdda7fdaf26e9bec7e9e6b3e063f3aaba112392aa7cb7b973f0862 = 0x3016dbf2aebca21d1bf4f229ca1653e1200936957e00ee041ddb25f37493ba7822d3f105abd1c60569455f3d569f9c578d3783ea4395514983278a7fd45c1e7c7f21cce4bc300476c228ac1f7caba09b80c16b8b765606b4994409a3e9c2289ac39563bf6d4b2edfb2c51b29812913a66dff4056d92a1ce82d61b42b4b50ec63f197f8eecdf1a64ad1c22ba3b05cab86a6cad597eb43f17b860989301f9cc8c6d5956a397489a579434f6ae30cada5fb3bb6e9a637e9e6b3a062e5ebb20522dea578bfad3618420 := by decide

theorem c10sa_r20 : keccakRound keccak_rotc_std 0x9f179163b2c5ce9a4058b2e89f78e41be47dbaca628b8997d89f4ad57d25c6855ed9cea71aa051a3372522a6a67dbf192bcaab81547ac6495cded359b36fa84725b0c5110cef356493895c16806211d6cc87a10af86bb1df1fe808f3cf25ea3521dbed69da69bb748148ec37876625f12f74c2fb5866659ddcdb4282ef4efa1a58e5ec4b7f1005ce1947c97ecd7287792be51bb8fd5cc4c8665897c9e731e195c7f41128bc964d92ca999d7e18acd4deba12987a7f6c85bb6928dbafdbd4c50e2868cdd7887dd01a 20 = 0x3016dbf2aebca21d1bf4f229ca1653e1200936957e00ee041ddb25f37493ba7822d3f105abd1c60569455f3d569f9c578d3783ea4395514983278a7fd45c1e7c7f21cce4bc300476c228ac1f7caba09b80c16b8b765606b4994409a3e9c2289ac39563bf6d4b2edfb2c51b29812913a66dff4056d92a1ce82d61b42b4b50ec63f197f8eecdf1a64ad1c22ba3b05cab86a6cad597eb43f17b860989301f9cc8c6d5956a397489a579434f6ae30cada5fb3bb6e9a637e9e6b3a062e5ebb20522d6a578bfa536104a1 := by

  simp only [keccakRound, c10sa_r20t, c10sa_r20p, c10sa_r20c]

  decide

theorem c10sa_r21t : keccakTheta 0x3016dbf2aebca21d1bf4f229ca1653e1200936957e00ee041ddb25f37493ba7822d3f105abd1c60569455f3d569f9c578d3783ea4395514983278a7fd45c1e7c7f21cce4bc300476c228ac1f7caba09b80c16b8b765606b4994409a3e9c2289ac39563bf6d4b2edfb2c51b29812913a66dff4056d92a1ce82d61b42b4b50ec63f197f8eecdf1a64ad1c22ba3b05cab86a6cad597eb43f17b860989301f9cc8c6d5956a397489a579434f6ae30cada5fb3bb6e9a637e9e6b3a062e5ebb20522d6a578bfa536104a1 = 0xfd1a3662d40187aded3f78dd4e9ec23ba8c21200c2cf6c306a630348ad20a65fdae9a44d73be54bea88f0e2e2b83b44944534fc17606f21122f0f9ce686aa337ec4cadd9d1aa9dbf34e6119cdec9f2d746174d65498f2de775147765eca3858c16fbd75263fbd03dd092e0a5027b0cc23e1b6f584491e9107ccd409f4a5f434a039948713ee0bd6117dea3d3ae2aa86841d21c4ee4dda2efe0a403ce28fa845293420d7e69a2d7dba8b4c151e2f57d5a0979eff3f651fcbb11b89f492149cfd5329310a77a624c7f := by decide

theorem c10sa_r21p : keccakRhoPi keccak_rotc_std 0xfd1a3662d40187aded3f78dd4e9ec23ba8c21200c2cf6c306a630348ad20a65fdae9a44d73be54bea88f0e2e2b83b44944534fc17606f21122f0f9ce686aa337ec4cadd9d1aa9dbf34e6119cdec9f2d746174d65498f2de775147765eca3858c16fbd75263fbd03dd092e0a5027b0cc23e1b6f584491e9107ccd409f4a5f434a039948713ee0bd6117dea3d3ae2aa86841d21c4ee4dda2efe0a403ce28fa845293420d7e69a2d7dba8b4c151e2f57d5a0979eff3f651fcbb11b89f492149cfd5329310a77a624c7f = 0xa98c0d22b482997d93e5ae69cc2339bdc796f3a30ba6b2a4b081cca4389f705ec25e7bfcfd947f2e3bed3f78dd4e9ec27ce73435519b91784b829409ec330b428fa8452e0a403ce2f34d16bedc9a106b9135cef952fb6ba68f0e2e2b83b449a8cbd9470b18ea28eef7a8f4eb8aaa1a0523713e9242939faa151842401859ed8653b7fd8995bb3a35f0db7ac2248f488109f4a5f434a7ccd41e2f57d5aa8b4c158d98b50061eb7f46f82ec0de42288a69de81e8b7deba931fda2ef41d21c4ee4d329310a77a624c7f := by decide

theorem c10sa_r21c : keccakChi 0xa98c0d22b482997d93e5ae69cc2339bdc796f3a30ba6b2a4b081cca4389f705ec25e7bfcfd947f2e3bed3f78dd4e9ec27ce73435519b91784b829409ec330b428fa8452e0a403ce2f34d16bedc9a106b9135cef952fb6ba68f0e2e2b83b449a8cbd9470b18ea28eef7a8f4eb8aaa1a0523713e9242939faa151842401859ed8653b7fd8995bb3a35f0db7ac2248f488109f4a5f434a7ccd41e2f57d5aa8b4c158d98b50061eb7f46f82ec0de42288a69de81e8b7deba931fda2ef41d21c4ee4d329310a77a624c7f = 0x990d8922b489992dd1b7dcb585375fbfef9ef2a13b2632e4a0e0c0ecfc9e7947854848fffeb4fd8e374d7e78df0eb242bce734b3510b9151488a9f41607705c0bbcd651a1bc8acdab34f86bf38a9136b45bd0e90dad36ba3ad4e1e2983b4dda0dbe887db48a10ae8f3aedccb09be5b052b203d9252d3bf4014c8e2600c7d6d465990e81c37393a24f4d378822ccf8d030ad020fda597fee0ee240dd7aa834c1445b45118606fdd46ca2dc07958288a50db11ddb7ff79e619fa00f45521c4e62d36121805a4585d6d := by decide

theorem c10sa_r21 : keccakRound keccak_rotc_std 0x3016dbf2aebca21d1bf4f229ca1653e1200936957e00ee041ddb25f37493ba7822d3f105abd1c60569455f3d569f9c578d3783ea4395514983278a7fd45c1e7c7f21cce4bc300476c228ac1f7caba09b80c16b8b765606b4994409a3e9c2289ac39563bf6d4b2edfb2c51b29812913a66dff4056d92a1ce82d61b42b4b50ec63f197f8eecdf1a64ad1c22ba3b05cab86a6cad597eb43f17b860989301f9cc8c6d5956a397489a579434f6ae30cada5fb3bb6e9a637e9e6b3a062e5ebb20522d6a578bfa536104a1 21 = 0x990d8922b489992dd1b7dcb585375fbfef9ef2a13b2632e4a0e0c0ecfc9e7947854848fffeb4fd8e374d7e78df0eb242bce734b3510b9151488a9f41607705c0bbcd651a1bc8acdab34f86bf38a9136b45bd0e90dad36ba3ad4e1e2983b4dda0dbe887db48a10ae8f3aedccb09be5b052b203d9252d3bf4014c8e2600c7d6d465990e81c37393a24f4d378822ccf8d030ad020fda597fee0ee240dd7aa834c1445b45118606fdd46ca2dc07958288a50db11ddb7ff79e619fa00f45521c4e62db6121805a458dded := by

  simp only [keccakRound, c10sa_r21t, c10sa_r21p, c10sa_r21c]

  decide

theorem c10sa_r22t : keccakTheta 0x990d8922b489992dd1b7dcb585375fbfef9ef2a13b2632e4a0e0c0ecfc9e7947854848fffeb4fd8e374d7e78df0eb242bce734b3510b9151488a9f41607705c0bbcd651a1bc8acdab34f86bf38a9136b45bd0e90dad36ba3ad4e1e2983b4dda0dbe887db48a10ae8f3aedccb09be5b052b203d9252d3bf4014c8e2600c7d6d465990e81c37393a24f4d378822ccf8d030ad020fda597fee0ee240dd7aa834c1445b45118606fdd46ca2dc07958288a50db11ddb7ff79e619fa00f45521c4e62db6121805a458dded = 0x408d9b69b83bbaaff78b06defffce8f0508ae3a020aee2c5438db8f1e60714b70f6e5967f68521e8eecd6c33d3bc91c09adbeed82bc0261ef79e8e407bffd5e158a01d070151c12a396997273098cf0d9c3d1cdbd66148218b72c442f97f6aef64fc96da5329dac910c3a4d6132736f5a1062c0a5ae26326cd48f02b00cf4ec47fac32774df28d6b4bc7698337475d22e9bd58e0bf0e931064021c4fa2b290729c3443536cddfec4ec111a1222e33d1f6405ccb6e4f13638196d8c483b5d8bdd3c34099dac69018b := by decide

theorem c10sa_r22p : keccakRhoPi keccak_rotc_std 0x408d9b69b83bbaaff78b06defffce8f0508ae3a020aee2c5438db8f1e60714b70f6e5967f68521e8eecd6c33d3bc91c09adbeed82bc0261ef79e8e407bffd5e158a01d070151c12a396997273098cf0d9c3d1cdbd66148218b72c442f97f6aef64fc96da5329dac910c3a4d6132736f5a1062c0a5ae26326cd48f02b00cf4ec47fac32774df28d6b4bc7698337475d22e9bd58e0bf0e931064021c4fa2b290729c3443536cddfec4ec111a1222e33d1f6405ccb6e4f13638196d8c483b5d8bdd3c34099dac69018b = 0xe36e3c7981c52dd319e1a72d32e4e6130a410ce1e8e6debb5bfd6193ba6f9461901732db93c4d8ef0f78b06defffce847203dffeaf0fbcf0e93584c9cdbd4432b2907264021c4fa9b66eff624e1a21a659fda1487a03db9cd6c33d3bc91c0ee85f2fed5df16e588f1da60cdd1d7489232db189076bb17baaa115c740415dc5838254b1403a0e02a08316052d713193502b00cf4ec4cd48f222e33d1fec111a166da6e0eeeabd023db057804c3d35b7d4ed64b27e4b6d299e9310e9bd58e0bf03c34099dac69018b := by decide

theorem c10sa_r22c : keccakChi 0xe36e3c7981c52dd319e1a72d32e4e6130a410ce1e8e6debb5bfd6193ba6f9461901732db93c4d8ef0f78b06defffce847203dffeaf0fbcf0e93584c9cdbd4432b2907264021c4fa9b66eff624e1a21a659fda1487a03db9cd6c33d3bc91c0ee85f2fed5df16e588f1da60cdd1d7489232db189076bb17baaa115c740415dc5838254b1403a0e02a08316052d713193502b00cf4ec4cd48f222e33d1fec111a166da6e0eeeabd023db057804c3d35b7d4ed64b27e4b6d299e9310e9bd58e0bf03c34099dac69018b = 0xaa8867d79a9ee29d209f0a5af20e43633e84f14b169e7d77b4a5dc29fa86fb46190173ebbd344927d0fe8b069effb8084c20590fcaf0f9ddbe44da4c88d4d0636a0922952201ef769ff4b7beb83bb21ba49fba5906e475b9df2c3353cc8ac2eca56136d1dc36d899b9d661cff15648f436fb868078bbb2b2aa81505004191856380b6895f960e18b8a217432d306056532b407f0ecec34852a2f53d3edd21891a7db680cbf2dda53c3217995c3935af56a0c4d2dc89e529b78303e9bd6cf02943af248b98c59d182 := by decide

theorem c10sa_r22 : keccakRound keccak_rotc_std 0x990d8922b489992dd1b7dcb585375fbfef9ef2a13b2632e4a0e0c0ecfc9e7947854848fffeb4fd8e374d7e78df0eb242bce734b3510b9151488a9f41607705c0bbcd651a1bc8acdab34f86bf38a9136b45bd0e90dad36ba3ad4e1e2983b4dda0dbe887db48a10ae8f3aedccb09be5b052b203d9252d3bf4014c8e2600c7d6d465990e81c37393a24f4d378822ccf8d030ad020fda597fee0ee240dd7aa834c1445b45118606fdd46ca2dc07958288a50db11ddb7ff79e619fa00f45521c4e62db6121805a458dded 22 = 0xaa8867d79a9ee29d209f0a5af20e43633e84f14b169e7d77b4a5dc29fa86fb46190173ebbd344927d0fe8b069effb8084c20590fcaf0f9ddbe44da4c88d4d0636a0922952201ef769ff4b7beb83bb21ba49fba5906e475b9df2c3353cc8ac2eca56136d1dc36d899b9d661cff15648f436fb868078bbb2b2aa81505004191856380b6895f960e18b8a217432d306056532b407f0ecec34852a2f53d3edd21891a7db680cbf2dda53c3217995c3935af56a0c4d2dc89e529b78303e9bd6cf02943af248b90c59d183 := by

  simp only [keccakRound, c10sa_r22t, c10sa_r22p, c10sa_r22c]

  decide

theorem c10sa_r23t : keccakTheta 0xaa8867d79a9ee29d209f0a5af20e43633e84f14b169e7d77b4a5dc29fa86fb46190173ebbd344927d0fe8b069effb8084c20590fcaf0f9ddbe44da4c88d4d0636a0922952201ef769ff4b7beb83bb21ba49fba5906e475b9df2c3353cc8ac2eca56136d1dc36d899b9d661cff15648f436fb868078bbb2b2aa81505004191856380b6895f960e18b8a217432d306056532b407f0ecec34852a2f53d3edd21891a7db680cbf2dda53c3217995c3935af56a0c4d2dc89e529b78303e9bd6cf02943af248b90c59d183 = 0xa397a5ae6c6620884275f33ad889bb438208b55e986391fa9f6ecc04d5713f3d914f510f236171a4d9e1497f68077a1d2ecaa06fe07701fd02c89e5906293cee41c232b80df62b0d17ba955a266e8a98ad807820f01cb7acbdc6ca33e60d3acc19ed72c452cb3414921d71e2dea18c8fbeb5a464e6ee8a31a39e9229f2e1da435ae191f5d3e719ab36ad30275dfbe9e8197f17ddc31bf0fea261713773872012aec4aa7549d51846a1cb80f5e914a2d5d68009384663be1653fb2eb6f938c6efb2bc6a5d920ce900 := by decide

theorem c10sa_r23p : keccakRhoPi keccak_rotc_std 0xa397a5ae6c6620884275f33ad889bb438208b55e986391fa9f6ecc04d5713f3d914f510f236171a4d9e1497f68077a1d2ecaa06fe07701fd02c89e5906293cee41c232b80df62b0d17ba955a266e8a98ad807820f01cb7acbdc6ca33e60d3acc19ed72c452cb3414921d71e2dea18c8fbeb5a464e6ee8a31a39e9229f2e1da435ae191f5d3e719ab36ad30275dfbe9e8197f17ddc31bf0fea261713773872012aec4aa7549d51846a1cb80f5e914a2d5d68009384663be1653fb2eb6f938c6efb2bc6a5d920ce900 = 0x7dbb301355c4fcf6dd15302f752ab44c0e5bd656c03c1078d5ad70c8fae9f38cb5a0024e1198ef85434275f33ad889bb4f2c83149e77016475c78b7a86323e483872012a26171377aa4ea8c235762553443c8d85c692453de1497f68077a1dd967cc1a75997b8d94ab4c09d77efa7a0da7f65d6df2718dde504116abd30c723fc561a838465701bef5ad23273774518d229f2e1da43a39e95e914a2d5a1cb80fe96b9b19882228e50dfc0ee03fa5d95459a0a0cf6b962296bf0fe197f17ddc31b2bc6a5d920ce900 := by decide

theorem c10sa_r23c : keccakChi 0x7dbb301355c4fcf6dd15302f752ab44c0e5bd656c03c1078d5ad70c8fae9f38cb5a0024e1198ef85434275f33ad889bb4f2c83149e77016475c78b7a86323e483872012a26171377aa4ea8c235762553443c8d85c692453de1497f68077a1dd967cc1a75997b8d94ab4c09d77efa7a0da7f65d6df2718dde504116abd30c723fc561a838465701bef5ad23273774518d229f2e1da43a39e95e914a2d5a1cb80fe96b9b19882228e50dfc0ee03fa5d95459a0a0cf6b962296bf0fe197f17ddc31b2bc6a5d920ce900 = 0x3db64093bfa5ecfe5d1532637532b74d2ef1d646c0f858ca04a950e1cfeb5788bff28458118ceff5537274db38d99b9fe7200b149b5125247585ff99a6bab6d3325a012e3e521253efcb2292b556095b4c348d17ca18373c428b2f00371b951b63f89af059fbcdb02b4d6cdf78fa6a44e3764f4d7370084e704f32bb772e73dfcbf1e03c4e4789bee5ad35a4a67c238c22dfa605e43939db8bb14b0f4958f80be4681a9be9533cd41f686ea42da91854b9a331d6eb940237bb53efb7e55c0571f21c6a15988ecb86 := by decide

theorem c10sa_r23 : keccakRound keccak_rotc_std 0xaa8867d79a9ee29d209f0a5af20e43633e84f14b169e7d77b4a5dc29fa86fb46190173ebbd344927d0fe8b069effb8084c20590fcaf0f9ddbe44da4c88d4d0636a0922952201ef769ff4b7beb83bb21ba49fba5906e475b9df2c3353cc8ac2eca56136d1dc36d899b9d661cff15648f436fb868078bbb2b2aa81505004191856380b6895f960e18b8a217432d306056532b407f0ecec34852a2f53d3edd21891a7db680cbf2dda53c3217995c3935af56a0c4d2dc89e529b78303e9bd6cf02943af248b90c59d183 23 = 0x3db64093bfa5ecfe5d1532637532b74d2ef1d646c0f858ca04a950e1cfeb5788bff28458118ceff5537274db38d99b9fe7200b149b5125247585ff99a6bab6d3325a012e3e521253efcb2292b556095b4c348d17ca18373c428b2f00371b951b63f89af059fbcdb02b4d6cdf78fa6a44e3764f4d7370084e704f32bb772e73dfcbf1e03c4e4789bee5ad35a4a67c238c22dfa605e43939db8bb14b0f4958f80be4681a9be9533cd41f686ea42da91854b9a331d6eb940237bb53efb7e55c0571721c6a15188e4b8e := by

  simp only [keccakRound, c10sa_r23t, c10sa_r23p, c10sa_r23c]

  decide

theorem c10sa_perm : keccak_f1600 keccak_rotc_std 0x80000000000000000000000000000000000000000000000000000000000000000000000000000000000000000000000000000000000000000000000000000000000000000000000111111111111111111111111111111111111111111111111111111111111111110000000000000000000000000000000000000000000000000000000000000000 = 0x3db64093bfa5ecfe5d1532637532b74d2ef1d646c0f858ca04a950e1cfeb5788bff28458118ceff5537274db38d99b9fe7200b149b5125247585ff99a6bab6d3325a012e3e521253efcb2292b556095b4c348d17ca18373c428b2f00371b951b63f89af059fbcdb02b4d6cdf78fa6a44e3764f4d7370084e704f32bb772e73dfcbf1e03c4e4789bee5ad35a4a67c238c22dfa605e43939db8bb14b0f4958f80be4681a9be9533cd41f686ea42da91854b9a331d6eb940237bb53efb7e55c0571721c6a15188e4b8e := by

  rw [keccak_f1600_expand, c10sa_r0, c10sa_r1, c10sa_r2, c10sa_r3, c10sa_r4, c10sa_r5, c10sa_r6, c10sa_r7, c10sa_r8, c10sa_r9, c10sa_r10, c10sa_r11, c10sa_r12, c10sa_r13, c10sa_r14, c10sa_r15, c10sa_r16, c10sa_r17, c10sa_r18, c10sa_r19, c10sa_r20, c10sa_r21, c10sa_r22, c10sa_r23]

theorem c10sa_sq : keccakSqueeze32 0x3db64093bfa5ecfe5d1532637532b74d2ef1d646c0f858ca04a950e1cfeb5788bff28458118ceff5537274db38d99b9fe7200b149b5125247585ff99a6bab6d3325a012e3e521253efcb2292b556095b4c348d17ca18373c428b2f00371b951b63f89af059fbcdb02b4d6cdf78fa6a44e3764f4d7370084e704f32bb772e73dfcbf1e03c4e4789bee5ad35a4a67c238c22dfa605e43939db8bb14b0f4958f80be4681a9be9533cd41f686ea42da91854b9a331d6eb940237bb53efb7e55c0571721c6a15188e4b8e = [142, 75, 142, 24, 21, 106, 28, 114, 113, 5, 92, 229, 183, 239, 83, 187, 55, 2, 148, 235, 214, 49, 163, 185, 84, 24, 169, 45, 164, 110, 104, 31] := by decide

theorem c10sa_value : keccak256 [0, 0, 0, 0, 0, 0, 0, 0, 0, 0, 0, 0, 0, 0, 0, 0, 0, 0, 0, 0, 0, 0, 0, 0, 0, 0, 0, 0, 0, 0, 0, 0, 17, 17, 17, 17, 17, 17, 17, 17, 17, 17, 17, 17, 17, 17, 17, 17, 17, 17, 17, 17, 17, 17, 17, 17, 17, 17, 17, 17, 17, 17, 17, 17] = [142, 75, 142, 24, 21, 106, 28, 114, 113, 5, 92, 229, 183, 239, 83, 187, 55, 2, 148, 235, 214, 49, 163, 185, 84, 24, 169, 45, 164, 110, 104, 31] := by

  rw [keccak256_single_block [0, 0, 0, 0, 0, 0, 0, 0, 0, 0, 0, 0, 0, 0, 0, 0, 0, 0, 0, 0, 0, 0, 0, 0, 0, 0, 0, 0, 0, 0, 0, 0, 17, 17, 17, 17, 17, 17, 17, 17, 17, 17, 17, 17, 17, 17, 17, 17, 17, 17, 17, 17, 17, 17, 17, 17, 17, 17, 17, 17, 17, 17, 17, 17] [0, 0, 0, 0, 0, 0, 0, 0, 0, 0, 0, 0, 0, 0, 0, 0, 0, 0, 0, 0, 0, 0, 0, 0, 0, 0, 0, 0, 0, 0, 0, 0, 17, 17, 17, 17, 17, 17, 17, 17, 17, 17, 17, 17, 17, 17, 17, 17, 17, 17, 17, 17, 17, 17, 17, 17, 17, 17, 17, 17, 17, 17, 17, 17, 1, 0, 0, 0, 0, 0, 0, 0, 0, 0, 0, 0, 0, 0, 0, 0, 0, 0, 0, 0, 0, 0, 0, 0, 0, 0, 0, 0, 0, 0, 0, 0, 0, 0, 0, 0, 0, 0, 0, 0, 0, 0, 0, 0, 0, 0, 0, 0, 0, 0, 0, 0, 0, 0, 0, 0, 0, 0, 0, 0, 0, 0, 0, 0, 0, 0, 0, 0, 0, 0, 0, 128] 0x80000000000000000000000000000000000000000000000000000000000000000000000000000000000000000000000000000000000000000000000000000000000000000000000111111111111111111111111111111111111111111111111111111111111111110000000000000000000000000000000000000000000000000000000000000000 c10sa_pad (by decide) (by decide) c10sa_abs, c10sa_perm, c10sa_sq]

theorem c10sb_pad : keccakPad [0, 0, 0, 0, 0, 0, 0, 0, 0, 0, 0, 0, 0, 0, 0, 0, 0, 0, 0, 0, 0, 0, 0, 0, 0, 0, 0, 0, 0, 0, 0, 0, 0, 0, 0, 0, 0, 2, 179, 114, 54, 92, 113, 27, 52, 189, 73, 197, 12, 63, 54, 210, 78, 40, 60, 85, 113, 199, 28, 113, 199, 28, 113, 199] = [0, 0, 0, 0, 0, 0, 0, 0, 0, 0, 0, 0, 0, 0, 0, 0, 0, 0, 0, 0, 0, 0, 0, 0, 0, 0, 0, 0, 0, 0, 0, 0, 0, 0, 0, 0, 0, 2, 179, 114, 54, 92, 113, 27, 52, 189, 73, 197, 12, 63, 54, 210, 78, 40, 60, 85, 113, 199, 28, 113, 199, 28, 113, 199, 1, 0, 0, 0, 0, 0, 0, 0, 0, 0, 0, 0, 0, 0, 0, 0, 0, 0, 0, 0, 0, 0, 0, 0, 0, 0, 0, 0, 0, 0, 0, 0, 0, 0, 0, 0, 0, 0, 0, 0, 0, 0, 0, 0, 0, 0, 0, 0, 0, 0, 0, 0, 0, 0, 0, 0, 0, 0, 0, 0, 0, 0, 0, 0, 0, 0, 0, 0, 0, 0, 0, 128] := by decide

theorem c10sb_abs : keccakAbsorbBlock 0 [0, 0, 0, 0, 0, 0, 0, 0, 0, 0, 0, 0, 0, 0, 0, 0, 0, 0, 0, 0, 0, 0, 0, 0, 0, 0, 0, 0, 0, 0, 0, 0, 0, 0, 0, 0, 0, 2, 179, 114, 54, 92, 113, 27, 52, 189, 73, 197, 12, 63, 54, 210, 78, 40, 60, 85, 113, 199, 28, 113, 199, 28, 113, 199, 1, 0, 0, 0, 0, 0, 0, 0, 0, 0, 0, 0, 0, 0, 0, 0, 0, 0, 0, 0, 0, 0, 0, 0, 0, 0, 0, 0, 0, 0, 0, 0, 0, 0, 0, 0, 0, 0, 0, 0, 0, 0, 0, 0, 0, 0, 0, 0, 0, 0, 0, 0, 0, 0, 0, 0, 0, 0, 0, 0, 0, 0, 0, 0, 0, 0, 0, 0, 0, 0, 0, 128] = 0x800000000000000000000000000000000000000000000000000000000000000000000000000000000000000000000000000000000000000000000000000000000000000000000001c7711cc7711cc771553c284ed2363f0cc549bd341b715c3672b30200000000000000000000000000000000000000000000000000000000000000000000000000 := by decide

theorem c10sb_r0t : keccakTheta 0x800000000000000000000000000000000000000000000000000000000000000000000000000000000000000000000000000000000000000000000000000000000000000000000001c7711cc7711cc771553c284ed2363f0cc549bd341b715c3672b30200000000000000000000000000000000000000000000000000000000000000000000000000 = 0x8a937a6836e2b86c221718c7711cc771d53c284ed2363f0e4bab84baf948d2d5d8cb529da46c7e198a937a6836e2b86c221718c7711cc771d53c284ed2363f0ecbab84baf948d2d5d8cb529da46c7e198a937a6836e2b86c221718c7711cc771d53c284ed2363f0e4bab84baf948d2d5d8cb529da46c7e198a937a6836e2b86c221718c7711cc770124d3489a32af87f1e97acf42b7eedd91d82efa9bf1d222ff820786836e2b86c221718c7711cc771d53c284ed2363f0e4bab84baf948d2d5d8cb529da46c7e19 := by decide

theorem c10sb_r0p : keccakRhoPi keccak_rotc_std 0x8a937a6836e2b86c221718c7711cc771d53c284ed2363f0e4bab84baf948d2d5d8cb529da46c7e198a937a6836e2b86c221718c7711cc771d53c284ed2363f0ecbab84baf948d2d5d8cb529da46c7e198a937a6836e2b86c221718c7711cc771d53c284ed2363f0e4bab84baf948d2d5d8cb529da46c7e198a937a6836e2b86c221718c7711cc770124d3489a32af87f1e97acf42b7eedd91d82efa9bf1d222ff820786836e2b86c221718c7711cc771d53c284ed2363f0e4bab84baf948d2d5d8cb529da46c7e19 = 0x2eae12ebe5234b55d8fc33b196a53b48715c364549bd341bb8110b8c63b88e63b54f0a13b48d8fc371221718c7711cc71427691b1f876a9eae12ebe5234b552ef1d222f1d82efa9b41b715c367c103c34a7691b1f867632d937a6836e2b86c8a8ee2398ee2442e31934d2268cabe1fc497570975f291a5aadaa78509da46c7e11a5ab97570975f29c65a94ed2363f0cea6836e2b86c8a9377711cc771221718cde9a0db8ae1b22a418ee2398ee2442e3b1f876a9e1427691eedd91e97acf42b7d8cb529da46c7e19 := by decide

theorem c10sb_r0c : keccakChi 0x2eae12ebe5234b55d8fc33b196a53b48715c364549bd341bb8110b8c63b88e63b54f0a13b48d8fc371221718c7711cc71427691b1f876a9eae12ebe5234b552ef1d222f1d82efa9b41b715c367c103c34a7691b1f867632d937a6836e2b86c8a8ee2398ee2442e31934d2268cabe1fc497570975f291a5aadaa78509da46c7e11a5ab97570975f29c65a94ed2363f0cea6836e2b86c8a9377711cc771221718cde9a0db8ae1b22a418ee2398ee2442e3b1f876a9e1427691eedd91e97acf42b7d8cb529da46c7e19 = 0x26be1367a6134b7549bd3ba18629bfca575e360f28bf740e30b10a3cf5b88523f4033e52bc88bfdbc16235285f5fe4df14b269d83f07699ecf12fde5e33b416fe1f722ebc4aad00b4fb7dcc7448006e74a7eb3b9f0497969067b6072e028e808c6e6a80ffa032d1482556258ca065f4e9bf510f3d2d1859b5a25a7015e8e4fd23f4af10370b66f2506ff90e5a923700ebe83473bd65ca61637495cb333022144f88e8cd8f498220218af719dee401efa77e87a89e1595695e6db90f974eb42d5c9eb349d256c4a19 := by decide

theorem c10sb_r0 : keccakRound keccak_rotc_std 0x800000000000000000000000000000000000000000000000000000000000000000000000000000000000000000000000000000000000000000000000000000000000000000000001c7711cc7711cc771553c284ed2363f0cc549bd341b715c3672b30200000000000000000000000000000000000000000000000000000000000000000000000000 0 = 0x26be1367a6134b7549bd3ba18629bfca575e360f28bf740e30b10a3cf5b88523f4033e52bc88bfdbc16235285f5fe4df14b269d83f07699ecf12fde5e33b416fe1f722ebc4aad00b4fb7dcc7448006e74a7eb3b9f0497969067b6072e028e808c6e6a80ffa032d1482556258ca065f4e9bf510f3d2d1859b5a25a7015e8e4fd23f4af10370b66f2506ff90e5a923700ebe83473bd65ca61637495cb333022144f88e8cd8f498220218af719dee401efa77e87a89e1595695e6db90f974eb42d5c9eb349d256c4a18 := by

  simp only [keccakRound, c10sb_r0t, c10sb_r0p, c10sb_r0c]

  decide

theorem c10sb_r1t : keccakTheta 0x26be1367a6134b7549bd3ba18629bfca575e360f28bf740e30b10a3cf5b88523f4033e52bc88bfdbc16235285f5fe4df14b269d83f07699ecf12fde5e33b416fe1f722ebc4aad00b4fb7dcc7448006e74a7eb3b9f0497969067b6072e028e808c6e6a80ffa032d1482556258ca065f4e9bf510f3d2d1859b5a25a7015e8e4fd23f4af10370b66f2506ff90e5a923700ebe83473bd65ca61637495cb333022144f88e8cd8f498220218af719dee401efa77e87a89e1595695e6db90f974eb42d5c9eb349d256c4a18 = 0xe7e89562188dab017813ce77b9f3f702a536ce69fefc05adb12983663af5af04ed9dbae7acdcd9820034b32de1c104ab251c9c0e00dd21563d7a0583357830cc606fabb10be7fa2c5629587254d460be8b2835bc4ed7991d37d595a4dff2a0c0348e50692c405cb703cdeb02054b7569826b9446c285e3c29b732104e010afa60ee404d54f6c27edf49768837f6001ad3f1bce6119118c312ed7d8062356471d39d80add4a06c2762901844bd19a5632858082ef371a2736674319a3bba668f2d075b02835382c41 := by decide

theorem c10sb_r1p : keccakRhoPi keccak_rotc_std 0xe7e89562188dab017813ce77b9f3f702a536ce69fefc05adb12983663af5af04ed9dbae7acdcd9820034b32de1c104ab251c9c0e00dd21563d7a0583357830cc606fabb10be7fa2c5629587254d460be8b2835bc4ed7991d37d595a4dff2a0c0348e50692c405cb703cdeb02054b7569826b9446c285e3c29b732104e010afa60ee404d54f6c27edf49768837f6001ad3f1bce6119118c312ed7d8062356471d39d80add4a06c2762901844bd19a5632858082ef371a2736674319a3bba668f2d075b02835382c41 = 0xc4a60d98ebd6bc12a8c17cac52b0e4a96bcc8ec5941ade27f68772026aa7b613a16020bbcdc689cd027813ce77b9f3f702c19abc18661ebd37ac08152dd5a40f356471d2ed7d8062ea503613b1cec056eb9eb373660bb67634b32de1c104ab0049bfe541806fab2b25da20dfd8006b7dce863347774cd1e4b4a6d9cd3fdf80b5ff458c0df576217c135ca236142f1e14104e010afa69b732bd19a56322901844255886236ac079fa81c01ba42ac4a39302e5b9a47283496218c313f1bce61191d075b02835382c41 := by decide

theorem c10sb_r1c : keccakChi 0xc4a60d98ebd6bc12a8c17cac52b0e4a96bcc8ec5941ade27f68772026aa7b613a16020bbcdc689cd027813ce77b9f3f702c19abc18661ebd37ac08152dd5a40f356471d2ed7d8062ea503613b1cec056eb9eb373660bb67634b32de1c104ab0049bfe541806fab2b25da20dfd8006b7dce863347774cd1e4b4a6d9cd3fdf80b5ff458c0df576217c135ca236142f1e14104e010afa69b732bd19a56322901844255886236ac079fa81c01ba42ac4a39302e5b9a47283496218c313f1bce61191d075b02835382c41 = 0x92215f98c9f78a0089815c8f56b0e5642fea8fd53d5cc6357686022a2807969ba828ac7e59dec1e9175c520e3b88f3d7eac1bead98201ebd379409574a4c454d3525e37afd5f9ad2e8d83e16b14ee45bcac6b3ebee0b9c6f30b32de5d040ea8082b37753a664bf5d11da287f99006b7d86a3f647772351e6b4e0d9c5e7b62787f65ca82ff576393c13fef3f61ea69e95fc4f0d031b39965abe090757269610402dda85f2e206686a51e52bac3ffca79226fd3da73283110a99c311f1b4a2b300d251182c77396423 := by decide

theorem c10sb_r1 : keccakRound keccak_rotc_std 0x26be1367a6134b7549bd3ba18629bfca575e360f28bf740e30b10a3cf5b88523f4033e52bc88bfdbc16235285f5fe4df14b269d83f07699ecf12fde5e33b416fe1f722ebc4aad00b4fb7dcc7448006e74a7eb3b9f0497969067b6072e028e808c6e6a80ffa032d1482556258ca065f4e9bf510f3d2d1859b5a25a7015e8e4fd23f4af10370b66f2506ff90e5a923700ebe83473bd65ca61637495cb333022144f88e8cd8f498220218af719dee401efa77e87a89e1595695e6db90f974eb42d5c9eb349d256c4a18 1 = 0x92215f98c9f78a0089815c8f56b0e5642fea8fd53d5cc6357686022a2807969ba828ac7e59dec1e9175c520e3b88f3d7eac1bead98201ebd379409574a4c454d3525e37afd5f9ad2e8d83e16b14ee45bcac6b3ebee0b9c6f30b32de5d040ea8082b37753a664bf5d11da287f99006b7d86a3f647772351e6b4e0d9c5e7b62787f65ca82ff576393c13fef3f61ea69e95fc4f0d031b39965abe090757269610402dda85f2e206686a51e52bac3ffca79226fd3da73283110a99c311f1b4a2b300d251182c7739e4a1 := by

  simp only [keccakRound, c10sb_r1t, c10sb_r1p, c10sb_r1c]

  decide

theorem c10sb_r2t : keccakTheta 0x92215f98c9f78a0089815c8f56b0e5642fea8fd53d5cc6357686022a2807969ba828ac7e59dec1e9175c520e3b88f3d7eac1bead98201ebd379409574a4c454d3525e37afd5f9ad2e8d83e16b14ee45bcac6b3ebee0b9c6f30b32de5d040ea8082b37753a664bf5d11da287f99006b7d86a3f647772351e6b4e0d9c5e7b62787f65ca82ff576393c13fef3f61ea69e95fc4f0d031b39965abe090757269610402dda85f2e206686a51e52bac3ffca79226fd3da73283110a99c311f1b4a2b300d251182c7739e4a1 = 0x327de5758194049c8b4ca79b98680275f08bc281762a9bb48311067f1cb8715b1142e58f879cef60b700e8e373eb7d4be80c45b956f8f9ace8f54403013a18ccc0b2e72fc9e07d1251b277e76f0ccad26a9a0906a66812f3327ed6f11e980d915dd23a07ed12e2dce44d2c2aadbf8cbd3fc9bfb6a9617f6f14bc6328afd5a91bf491533b3baede2dcc9fbea255d0c31409d809562f86719a07634ea6f8d43ec98d863f1faa65e6f65328d0b8f1244083f99c70f379f54c8b6c5415a4801d54c06b3b51dda97bca28 := by decide

theorem c10sb_r2p : keccakRhoPi keccak_rotc_std 0x327de5758194049c8b4ca79b98680275f08bc281762a9bb48311067f1cb8715b1142e58f879cef60b700e8e373eb7d4be80c45b956f8f9ace8f54403013a18ccc0b2e72fc9e07d1251b277e76f0ccad26a9a0906a66812f3327ed6f11e980d915dd23a07ed12e2dce44d2c2aadbf8cbd3fc9bfb6a9617f6f14bc6328afd5a91bf491533b3baede2dcc9fbea255d0c31409d809562f86719a07634ea6f8d43ec98d863f1faa65e6f65328d0b8f1244083f99c70f379f54c8b6c5415a4801d54c06b3b51dda97bca28 = 0xc4419fc72e1c56e1995a4a364efcede340979b54d04835316fa48a99d9dd76ffe671c3cde7d5322758b4ca79b986802a201809d0c66747a34b0aab6fe32f7918d43ec907634ea6ffd532f37b46c31f8963e1e73bd80450b00e8e373eb7d4bb7e23d301b2264fdad27efa8957430c533d8a82b49003aa9809e1178502ec553760fa258165ce5f93cfe4dfdb54b0bfb79328afd5a91b14bc68f12440835328d0b795d606501270c9fb72adf1f359d01889716e2ee91d03f686719a09d809562f86b3b51dda97bca28 := by decide

theorem c10sb_r2c : keccakChi 0xc4419fc72e1c56e1995a4a364efcede340979b54d04835316fa48a99d9dd76ffe671c3cde7d5322758b4ca79b986802a201809d0c66747a34b0aab6fe32f7918d43ec907634ea6ffd532f37b46c31f8963e1e73bd80450b00e8e373eb7d4bb7e23d301b2264fdad27efa8957430c533d8a82b49003aa9809e1178502ec553760fa258165ce5f93cfe4dfdb54b0bfb79328afd5a91b14bc68f12440835328d0b795d606501270c9fb72adf1f359d01889716e2ee91d03f686719a09d809562f86b3b51dda97bca28 = 0xcdc597d73614123ebb6a0a3e8f3dcde304960e95f0482731f6eccabbd769be3de662d289e7d5332758b8c27d988a2052a51a38d28026582613ae6946daaff910f42ec997670ea05cde32d113c6e2468b1799ee7c98001384868c27beb47e337742b2c1b36e4f9a5272f6bf5bd29c72118b83b43027e910cae99c102ae4411b20ea05c1e4dd775356e5cddf5690bf93b3328fd5885554bc2435744ad7f383d327d5dc06501a32c4fb508ce879dc5c3a8df43c28e91f2337f4731bd8ca4986278fb3d13bfb83bd728 := by decide

theorem c10sb_r2 : keccakRound keccak_rotc_std 0x92215f98c9f78a0089815c8f56b0e5642fea8fd53d5cc6357686022a2807969ba828ac7e59dec1e9175c520e3b88f3d7eac1bead98201ebd379409574a4c454d3525e37afd5f9ad2e8d83e16b14ee45bcac6b3ebee0b9c6f30b32de5d040ea8082b37753a664bf5d11da287f99006b7d86a3f647772351e6b4e0d9c5e7b62787f65ca82ff576393c13fef3f61ea69e95fc4f0d031b39965abe090757269610402dda85f2e206686a51e52bac3ffca79226fd3da73283110a99c311f1b4a2b300d251182c7739e4a1 2 = 0xcdc597d73614123ebb6a0a3e8f3dcde304960e95f0482731f6eccabbd769be3de662d289e7d5332758b8c27d988a2052a51a38d28026582613ae6946daaff910f42ec997670ea05cde32d113c6e2468b1799ee7c98001384868c27beb47e337742b2c1b36e4f9a5272f6bf5bd29c72118b83b43027e910cae99c102ae4411b20ea05c1e4dd775356e5cddf5690bf93b3328fd5885554bc2435744ad7f383d327d5dc06501a32c4fb508ce879dc5c3a8df43c28e91f2337f4731bd8ca49862787b3d13bfb83b57a2 := by

  simp only [keccakRound, c10sb_r2t, c10sb_r2p, c10sb_r2c]

  decide

theorem c10sb_r3t : keccakTheta 0xcdc597d73614123ebb6a0a3e8f3dcde304960e95f0482731f6eccabbd769be3de662d289e7d5332758b8c27d988a2052a51a38d28026582613ae6946daaff910f42ec997670ea05cde32d113c6e2468b1799ee7c98001384868c27beb47e337742b2c1b36e4f9a5272f6bf5bd29c72118b83b43027e910cae99c102ae4411b20ea05c1e4dd775356e5cddf5690bf93b3328fd5885554bc2435744ad7f383d327d5dc06501a32c4fb508ce879dc5c3a8df43c28e91f2337f4731bd8ca49862787b3d13bfb83b57a2 = 0x5855d2614618b4594825800b8d5d2d1b171dcc63ffafc4e204b6caf8237e8b2243b871d4fd36b22b2102073becf1577f89c283254dac9447466e4a1ecd01b900149aeacae878fac4503d71ed5f25c571e5f015fbfcf9f442ebfbe2d38ee912f2537f8091964fbf343cf76da62321d7e0856667bf61357015fa104a1e9b3de4c8ad337cb6287984f04908717fc9a0bfaa28f0fb0b1b5d5b03de8918511c73dc2b29d44b7934dad935169bee2ff86b326df8176e04315975ee5ce9bbdf3a9072b9e6e34f43db70b6bb := by decide

theorem c10sb_r3p : keccakRhoPi keccak_rotc_std 0x5855d2614618b4594825800b8d5d2d1b171dcc63ffafc4e204b6caf8237e8b2243b871d4fd36b22b2102073becf1577f89c283254dac9447466e4a1ecd01b900149aeacae878fac4503d71ed5f25c571e5f015fbfcf9f442ebfbe2d38ee912f2537f8091964fbf343cf76da62321d7e0856667bf61357015fa104a1e9b3de4c8ad337cb6287984f04908717fc9a0bfaa28f0fb0b1b5d5b03de8918511c73dc2b29d44b7934dad935169bee2ff86b326df8176e04315975ee5ce9bbdf3a9072b9e6e34f43db70b6bb = 0x12db2be08dfa2c884b8ae2a07ae3dabe7cfa2172f80afdfe785699be5b143cc2be05db810c565d7b1b4825800b8d5d2d250f6680dc802337ddb6988c875f80f3c73dc2bde8918511c9a6d6c9a94ea25bc753f4dac8ad0ee102073becf1577f21a71dd225e5d7f7c5421c5ff2682fea92b9d377be7520e57242e3b98c7ff5f89c1f5882935d595d0f2b333dfb09ab80aca1e9b3de4c8fa104ff86b326d169bee2749851862d16561564a9b59288f138507df9a29bfc048cb2d5b0328f0fb0b1b5e6e34f43db70b6bb := by decide

theorem c10sb_r3c : keccakChi 0x12db2be08dfa2c884b8ae2a07ae3dabe7cfa2172f80afdfe785699be5b143cc2be05db810c565d7b1b4825800b8d5d2d250f6680dc802337ddb6988c875f80f3c73dc2bde8918511c9a6d6c9a94ea25bc753f4dac8ad0ee102073becf1577f21a71dd225e5d7f7c5421c5ff2682fea92b9d377be7520e57242e3b98c7ff5f89c1f5882935d595d0f2b333dfb09ab80aca1e9b3de4c8fa104ff86b326d169bee2749851862d16561564a9b59288f138507df9a29bfc048cb2d5b0328f0fb0b1b5e6e34f43db70b6bb = 0x52892bdedefa0c08e78e32a17ae78bcd6cab28327d12d9fe7b565b3e59f53ec2baadfbc1ac5c9c471d5125b44b1c582de5a9b4c97cc28165c7f6998c8452dcfbe734a4bdb011a615d124cec9ae00a2b9855ffc9ac0a204613a8738c8c4579e33624d1637ed7ff705421e763a782fe2b21cd2f7bbf0f0f037428ab9547373f998a25c80b1dd515b6d6b9004f72b0f203cb5a131de18dffc07f594bf07d049be4a6588610a29965711e6cabbd35a9198fa6de9e29fd902cab7d5b0278f0f4181f5ceaacf532b74bab9 := by decide

theorem c10sb_r3 : keccakRound keccak_rotc_std 0xcdc597d73614123ebb6a0a3e8f3dcde304960e95f0482731f6eccabbd769be3de662d289e7d5332758b8c27d988a2052a51a38d28026582613ae6946daaff910f42ec997670ea05cde32d113c6e2468b1799ee7c98001384868c27beb47e337742b2c1b36e4f9a5272f6bf5bd29c72118b83b43027e910cae99c102ae4411b20ea05c1e4dd775356e5cddf5690bf93b3328fd5885554bc2435744ad7f383d327d5dc06501a32c4fb508ce879dc5c3a8df43c28e91f2337f4731bd8ca49862787b3d13bfb83b57a2 3 = 0x52892bdedefa0c08e78e32a17ae78bcd6cab28327d12d9fe7b565b3e59f53ec2baadfbc1ac5c9c471d5125b44b1c582de5a9b4c97cc28165c7f6998c8452dcfbe734a4bdb011a615d124cec9ae00a2b9855ffc9ac0a204613a8738c8c4579e33624d1637ed7ff705421e763a782fe2b21cd2f7bbf0f0f037428ab9547373f998a25c80b1dd515b6d6b9004f72b0f203cb5a131de18dffc07f594bf07d049be4a6588610a29965711e6cabbd35a9198fa6de9e29fd902cab7d5b0278f0f4181f54eaacf53ab743ab9 := by

  simp only [keccakRound, c10sb_r3t, c10sb_r3p, c10sb_r3c]

  decide

theorem c10sb_r4t : keccakTheta 0x52892bdedefa0c08e78e32a17ae78bcd6cab28327d12d9fe7b565b3e59f53ec2baadfbc1ac5c9c471d5125b44b1c582de5a9b4c97cc28165c7f6998c8452dcfbe734a4bdb011a615d124cec9ae00a2b9855ffc9ac0a204613a8738c8c4579e33624d1637ed7ff705421e763a782fe2b21cd2f7bbf0f0f037428ab9547373f998a25c80b1dd515b6d6b9004f72b0f203cb5a131de18dffc07f594bf07d049be4a6588610a29965711e6cabbd35a9198fa6de9e29fd902cab7d5b0278f0f4181f54eaacf53ab743ab9 = 0xb674cbd3886acf71f3ed261c83966edd2aabbc5e7023707129e16a1a1c0045ef2bf3eebeaf576da5f9acc5b91d8c9b54f1caa07485b3647581f60de089637574b5839599f5e4dd38407adbb6ad0b535b61a21c979632c7182ee42c753d267b23244d825be04e5e8a10a9471e3dda999f8d8ce2c4f3fb01d5a677595925e33ae1b63f940c2420be7d2d90909b263e89b3e71600fa5d2a872a64caaa78d3424fa8817581077f069468f2a9af6ea3e07dea2be976f3d4336338870716ab4ab4fad8dff4da2ca87fcb5b := by decide

theorem c10sb_r4p : keccakRhoPi keccak_rotc_std 0xb674cbd3886acf71f3ed261c83966edd2aabbc5e7023707129e16a1a1c0045ef2bf3eebeaf576da5f9acc5b91d8c9b54f1caa07485b3647581f60de089637574b5839599f5e4dd38407adbb6ad0b535b61a21c979632c7182ee42c753d267b23244d825be04e5e8a10a9471e3dda999f8d8ce2c4f3fb01d5a677595925e33ae1b63f940c2420be7d2d90909b263e89b3e71600fa5d2a872a64caaa78d3424fa8817581077f069468f2a9af6ea3e07dea2be976f3d4336338870716ab4ab4fad8dff4da2ca87fcb5b = 0xa785a868700117bc16a6b680f5b76d5a19638c30d10e4bcb3edb1fca0612105f0afa5dbcf50cd8ceddf3ed261c83966e06f044b1baba40fba51c78f76a667c423424fa864caaa78d3bf834a3440bac08bafabd5db694afcfacc5b91d8c9b54f9ea7a4cf6465dc858642426c98fa26ccb0e0e2d569569f5b12555778bce046e0e9ba716b072b33ebc6c6716279fd80eac95925e33ae1a6775ea3e07deaf2a9af632f4e21ab3dc6d9d0e90b66c8ebe395472f451226c12df02a872ae71600fa5d2dff4da2ca87fcb5b := by decide

theorem c10sb_r4c : keccakChi 0xa785a868700117bc16a6b680f5b76d5a19638c30d10e4bcb3edb1fca0612105f0afa5dbcf50cd8ceddf3ed261c83966e06f044b1baba40fba51c78f76a667c423424fa864caaa78d3bf834a3440bac08bafabd5db694afcfacc5b91d8c9b54f9ea7a4cf6465dc858642426c98fa26ccb0e0e2d569569f5b12555778bce046e0e9ba716b072b33ebc6c6716279fd80eac95925e33ae1a6775ea3e07deaf2a9af632f4e21ab3dc6d9d0e90b66c8ebe395472f451226c12df02a872ae71600fa5d2dff4da2ca87fcb5b = 0x9384aa2a721317ad1edce31470bba518b8628458d10e596f385f2d4a22a3344f0bdadd8c2400934ed9f72722142395eb24f85430fab268fb7c1fd1f16e67ea4636c4fe86dc32a734bae034d2664ff44adadabfd4bc16a785a8c1b91f8df204c9f84048b67459635e60a197c00720786a84546560d53475a130d52faace140b0f518d16e45399ae4c4837772c13dc4eae06125ea3ce395765825b07dabeea927e12f6c64bf3dc491dc390ae48869dbb16429011305d529b8ba472083de2a385868d708b2ea46f915b := by decide

theorem c10sb_r4 : keccakRound keccak_rotc_std 0x52892bdedefa0c08e78e32a17ae78bcd6cab28327d12d9fe7b565b3e59f53ec2baadfbc1ac5c9c471d5125b44b1c582de5a9b4c97cc28165c7f6998c8452dcfbe734a4bdb011a615d124cec9ae00a2b9855ffc9ac0a204613a8738c8c4579e33624d1637ed7ff705421e763a782fe2b21cd2f7bbf0f0f037428ab9547373f998a25c80b1dd515b6d6b9004f72b0f203cb5a131de18dffc07f594bf07d049be4a6588610a29965711e6cabbd35a9198fa6de9e29fd902cab7d5b0278f0f4181f54eaacf53ab743ab9 4 = 0x9384aa2a721317ad1edce31470bba518b8628458d10e596f385f2d4a22a3344f0bdadd8c2400934ed9f72722142395eb24f85430fab268fb7c1fd1f16e67ea4636c4fe86dc32a734bae034d2664ff44adadabfd4bc16a785a8c1b91f8df204c9f84048b67459635e60a197c00720786a84546560d53475a130d52faace140b0f518d16e45399ae4c4837772c13dc4eae06125ea3ce395765825b07dabeea927e12f6c64bf3dc491dc390ae48869dbb16429011305d529b8ba472083de2a385868d708b2ea46f11d0 := by

  simp only [keccakRound, c10sb_r4t, c10sb_r4p, c10sb_r4c]

  decide

theorem c10sb_r5t : keccakTheta 0x9384aa2a721317ad1edce31470bba518b8628458d10e596f385f2d4a22a3344f0bdadd8c2400934ed9f72722142395eb24f85430fab268fb7c1fd1f16e67ea4636c4fe86dc32a734bae034d2664ff44adadabfd4bc16a785a8c1b91f8df204c9f84048b67459635e60a197c00720786a84546560d53475a130d52faace140b0f518d16e45399ae4c4837772c13dc4eae06125ea3ce395765825b07dabeea927e12f6c64bf3dc491dc390ae48869dbb16429011305d529b8ba472083de2a385868d708b2ea46f11d0 = 0xe7f61d28bb11e9cb4d532e6c3ad96fe975c9fbe5a1dad87d6f2edb87a421afe021e4239469b8877aad859020dd216b8d77779948b0d0a20ab1b4ae4c1eb36b5461b5084b5ab03c9b90decaca2bf7e07eaea808d6751459e3fb4e7467c790ce3835eb370b048de24c37d0610d81a2e3c5ae6a9b78988c619544a798a80716f5690202db9c19fb64bd859c08916308cfbc5163a86e48bbcccaa865f9c2f352864a668471493adeb77b901f6330ccff71e78f3b6e8d2d861a99f303fef064211e29a74e7536e9d705e4 := by decide

theorem c10sb_r5p : keccakRhoPi keccak_rotc_std 0xe7f61d28bb11e9cb4d532e6c3ad96fe975c9fbe5a1dad87d6f2edb87a421afe021e4239469b8877aad859020dd216b8d77779948b0d0a20ab1b4ae4c1eb36b5461b5084b5ab03c9b90decaca2bf7e07eaea808d6751459e3fb4e7467c790ce3835eb370b048de24c37d0610d81a2e3c5ae6a9b78988c619544a798a80716f5690202db9c19fb64bd859c08916308cfbc5163a86e48bbcccaa865f9c2f352864a668471493adeb77b901f6330ccff71e78f3b6e8d2d861a99f303fef064211e29a74e7536e9d705e4 = 0xbcbb6e1e9086bf81efc0fd21bd9594578a2cf1d754046b3a5e81016dce0cfdb263cedba34b6186a6e94d532e6c3ad96f57260f59b5aa58da418436068b8f14df352864aa865f9c2f49d6f5bbdb34238a8e51a6e21de88790859020dd216b8dadcf8f219c71f69ce867022458c233ef21e607fde0c8423c53aeb93f7cb43b5b0f07936c36a1096b567354dbc4c4630cad8a80716f56944a790ccff71e7901f633874a2ec47a72f9fd29161a14414eeef36f1261af59b85824bccca5163a86e48ba74e7536e9d705e4 := by decide

theorem c10sb_r5c : keccakChi 0xbcbb6e1e9086bf81efc0fd21bd9594578a2cf1d754046b3a5e81016dce0cfdb263cedba34b6186a6e94d532e6c3ad96f57260f59b5aa58da418436068b8f14df352864aa865f9c2f49d6f5bbdb34238a8e51a6e21de88790859020dd216b8dadcf8f219c71f69ce867022458c233ef21e607fde0c8423c53aeb93f7cb43b5b0f07936c36a1096b567354dbc4c4630cad8a80716f56944a790ccff71e7901f633874a2ec47a72f9fd29161a14414eeef36f1261af59b85824bccca5163a86e48ba74e7536e9d705e4 = 0xa0ba6e52148ac691ac846c80f6f494719a17f3c9540640ba3b410d4d679d69f7e3e22b315b6184aedd65532e6871454a57b4abc826ae7a5ae9cd6620c39f95fa230a6df3b27fd42f0952e7bfd2b4235a8f51a6fa1fd944b0e59679dde169b5eec5cea7be6d769ef867122419c23aee246e8afc64f9862c9b2cb93f1db2af534707d5ac34e809cf66db7cc88cd0511ca48e03555d779c292b7d9b7d9ef962f2b79fcaaec4687219f609124b26c0cbeaf3e95a456f63884928bcc8bf063ac04258e45c359fa8ef1dc0 := by decide

theorem c10sb_r5 : keccakRound keccak_rotc_std 0x9384aa2a721317ad1edce31470bba518b8628458d10e596f385f2d4a22a3344f0bdadd8c2400934ed9f72722142395eb24f85430fab268fb7c1fd1f16e67ea4636c4fe86dc32a734bae034d2664ff44adadabfd4bc16a785a8c1b91f8df204c9f84048b67459635e60a197c00720786a84546560d53475a130d52faace140b0f518d16e45399ae4c4837772c13dc4eae06125ea3ce395765825b07dabeea927e12f6c64bf3dc491dc390ae48869dbb16429011305d529b8ba472083de2a385868d708b2ea46f11d0 5 = 0xa0ba6e52148ac691ac846c80f6f494719a17f3c9540640ba3b410d4d679d69f7e3e22b315b6184aedd65532e6871454a57b4abc826ae7a5ae9cd6620c39f95fa230a6df3b27fd42f0952e7bfd2b4235a8f51a6fa1fd944b0e59679dde169b5eec5cea7be6d769ef867122419c23aee246e8afc64f9862c9b2cb93f1db2af534707d5ac34e809cf66db7cc88cd0511ca48e03555d779c292b7d9b7d9ef962f2b79fcaaec4687219f609124b26c0cbeaf3e95a456f63884928bcc8bf063ac04258e45c359f28ef1dc1 := by

  simp only [keccakRound, c10sb_r5t, c10sb_r5p, c10sb_r5c]

  decide

theorem c10sb_r6t : keccakTheta 0xa0ba6e52148ac691ac846c80f6f494719a17f3c9540640ba3b410d4d679d69f7e3e22b315b6184aedd65532e6871454a57b4abc826ae7a5ae9cd6620c39f95fa230a6df3b27fd42f0952e7bfd2b4235a8f51a6fa1fd944b0e59679dde169b5eec5cea7be6d769ef867122419c23aee246e8afc64f9862c9b2cb93f1db2af534707d5ac34e809cf66db7cc88cd0511ca48e03555d779c292b7d9b7d9ef962f2b79fcaaec4687219f609124b26c0cbeaf3e95a456f63884928bcc8bf063ac04258e45c359f28ef1dc1 = 0x8b21c6024ec770f3ab4cc78bcc3d91f1f747ee3b3d6084952ed90ace542f3187393a7c965796786af6fefb7e323cf328507c00c31c677fda849d7bd2aaf951d536926a7081cd8c5fd38ab018de43df9ea4ca0eaa4594f2d2e25ed2d6dba0b06ea89eba4c04105ad7728a239af188b654b452abc3f571d05f0722974de8e2e525001d073fd2c0cae6b62cd57eb937d88b9b9b52de442e715ba7432a39f5950e73b4510694323faf940edae02dfa02ef73840a589d0aee8d07a950b88509721a283e8462382418e105 := by decide

theorem c10sb_r6p : keccakRhoPi keccak_rotc_std 0x8b21c6024ec770f3ab4cc78bcc3d91f1f747ee3b3d6084952ed90ace542f3187393a7c965796786af6fefb7e323cf328507c00c31c677fda849d7bd2aaf951d536926a7081cd8c5fd38ab018de43df9ea4ca0eaa4594f2d2e25ed2d6dba0b06ea89eba4c04105ad7728a239af188b654b452abc3f571d05f0722974de8e2e525001d073fd2c0cae6b62cd57eb937d88b9b9b52de442e715ba7432a39f5950e73b4510694323faf940edae02dfa02ef73840a589d0aee8d07a950b88509721a283e8462382418e105 = 0xbb642b3950bcc61c87bf3da7156031bcca7969526507552273000e839fe96065e102962742bba341f1ab4cc78bcc3d91bde9557ca8eac24e288e6bc622d951ca5950e73a7432a39fa191fd7ca5a28834f2595e59e1a8e4e9fefb7e323cf328f6adb74160ddc4bda58b355fae4df622ed52a1710a12e43451bee8fdc767ac1092b18be6d24d4e1039a2955e1fab8e82fd74de8e2e52507229dfa02ef730edae02718093b1dc3ce2c818638ceffb4a0f8082d6bd44f5d26020e715b9b9b52de4423e8462382418e105 := by decide

theorem c10sb_r6c : keccakChi 0xbb642b3950bcc61c87bf3da7156031bcca7969526507552273000e839fe96065e102962742bba341f1ab4cc78bcc3d91bde9557ca8eac24e288e6bc622d951ca5950e73a7432a39fa191fd7ca5a28834f2595e59e1a8e4e9fefb7e323cf328f6adb74160ddc4bda58b355fae4df622ed52a1710a12e43451bee8fdc767ac1092b18be6d24d4e1039a2955e1fab8e82fd74de8e2e52507229dfa02ef730edae02718093b1dc3ce2c818638ceffb4a0f8082d6bd44f5d26020e715b9b9b52de4423e8462382418e105 = 0xa96423b9cdfc8638c7bda9a1176310fdf2396b4a259b932276861a268f8940f9697bf77722bdb643a9eb4ec5dbdc1e1abdf9e4448cc8426a688c634521dd6c5bcc31f302fc10219b811ff5b8a76bd8747b4d50fdacbae645fe5b5f302eb738e6adb741291ccc79acd97d61bc6dc522bf7623714a82e4a9519eb67dcf25bc40bbf08be4e25d0fbe39acf5471a892e827f65d42eee161062295da17ee699632ed6b0910a304d19e68a1667ece7db4a0e85e356ae54f1e68068ff34b912bf25ebc23e46667c64cae125 := by decide

theorem c10sb_r6 : keccakRound keccak_rotc_std 0xa0ba6e52148ac691ac846c80f6f494719a17f3c9540640ba3b410d4d679d69f7e3e22b315b6184aedd65532e6871454a57b4abc826ae7a5ae9cd6620c39f95fa230a6df3b27fd42f0952e7bfd2b4235a8f51a6fa1fd944b0e59679dde169b5eec5cea7be6d769ef867122419c23aee246e8afc64f9862c9b2cb93f1db2af534707d5ac34e809cf66db7cc88cd0511ca48e03555d779c292b7d9b7d9ef962f2b79fcaaec4687219f609124b26c0cbeaf3e95a456f63884928bcc8bf063ac04258e45c359f28ef1dc1 6 = 0xa96423b9cdfc8638c7bda9a1176310fdf2396b4a259b932276861a268f8940f9697bf77722bdb643a9eb4ec5dbdc1e1abdf9e4448cc8426a688c634521dd6c5bcc31f302fc10219b811ff5b8a76bd8747b4d50fdacbae645fe5b5f302eb738e6adb741291ccc79acd97d61bc6dc522bf7623714a82e4a9519eb67dcf25bc40bbf08be4e25d0fbe39acf5471a892e827f65d42eee161062295da17ee699632ed6b0910a304d19e68a1667ece7db4a0e85e356ae54f1e68068ff34b912bf25ebc2be46667ce4ca61a4 := by

  simp only [keccakRound, c10sb_r6t, c10sb_r6p, c10sb_r6c]

  decide

theorem c10sb_r7t : keccakTheta 0xa96423b9cdfc8638c7bda9a1176310fdf2396b4a259b932276861a268f8940f9697bf77722bdb643a9eb4ec5dbdc1e1abdf9e4448cc8426a688c634521dd6c5bcc31f302fc10219b811ff5b8a76bd8747b4d50fdacbae645fe5b5f302eb738e6adb741291ccc79acd97d61bc6dc522bf7623714a82e4a9519eb67dcf25bc40bbf08be4e25d0fbe39acf5471a892e827f65d42eee161062295da17ee699632ed6b0910a304d19e68a1667ece7db4a0e85e356ae54f1e68068ff34b912bf25ebc2be46667ce4ca61a4 = 0x30d7ef570b924cdd14d69d34d35e2493cef5418ef441ec8efa6531e93597c169ceca83c09e51fa783058822b1db2d4ff6e92d0d148f5760454404981f00713f740d2d8cd460ea00b26ae810f1b87944fe2fe9c136ad42ca02d306ba5ea8a0c88917b6bedcd160600559e4a73d7dba32fd19205fd3e08e56a0705b121e3d28a5e23e0d07799328a5790396dde58f4fdd3e9370521ac0ee3b9fa100a51258f62ed2922c6de8b772c6fc50cd8721f773aebdf9a8490203cffc473d792dd053b6a5219f712cb58262d9f := by decide

theorem c10sb_r7p : keccakRhoPi keccak_rotc_std 0x30d7ef570b924cdd14d69d34d35e2493cef5418ef441ec8efa6531e93597c169ceca83c09e51fa783058822b1db2d4ff6e92d0d148f5760454404981f00713f740d2d8cd460ea00b26ae810f1b87944fe2fe9c136ad42ca02d306ba5ea8a0c88917b6bedcd160600559e4a73d7dba32fd19205fd3e08e56a0705b121e3d28a5e23e0d07799328a5790396dde58f4fdd3e9370521ac0ee3b9fa100a51258f62ed2922c6de8b772c6fc50cd8721f773aebdf9a8490203cffc473d792dd053b6a5219f712cb58262d9f = 0xe994c7a4d65f05a70f289e4d5d021e376a1650717f4e09b52b91f0683bcc994537e6a124080f3ff19314d69d34d35e2424c0f80389fbaa207929cf5f6e8cbd5658f62edfa100a512f45bb963794916360f027947e9e33b2a58822b1db2d4ff304bd51419105a60d70e5b77963d3f74e4e7af25ba0a76d4a4d9dea831de883d91d401681a5b19a8c18c902fe9f0472b56121e3d28a5e0705b21f773aebc50cd87fbd5c2e493374c351a291eaec08dd25ab030048bdb5f6e68ee3b9e9370521ac019f712cb58262d9f := by decide

theorem c10sb_r7c : keccakChi 0xe994c7a4d65f05a70f289e4d5d021e376a1650717f4e09b52b91f0683bcc994537e6a124080f3ff19314d69d34d35e2424c0f80389fbaa207929cf5f6e8cbd5658f62edfa100a512f45bb963794916360f027947e9e33b2a58822b1db2d4ff304bd51419105a60d70e5b77963d3f74e4e7af25ba0a76d4a4d9dea831de883d91d401681a5b19a8c18c902fe9f0472b56121e3d28a5e0705b21f773aebc50cd87fbd5c2e493374c351a291eaec08dd25ab030048bdb5f6e68ee3b9e9370521ac019f712cb58262d9f = 0xe18597ece59f85a3194abe4d550224678a8211d1fd1308352eb97e643bcc8f4777e0a1354c0d3f419bb0d001b4d3ff24408bd161c0f3aa32ea3dc9c35a8ce9525c361edf2073a732d552786337c50e7207522b43dcea1b6ab82f2fa5b0c03bb44cd5445b597960dd1e595c929fbbebc4a62b25b30a36d4b7cbd6a431df280dc9f4203b947b4968c7854eafc874c73e46421f7d3aaef8f0daad77716fec57c6831ddd4ef4b3675e751a0b0ea5888df3d051e4c4cbc86d624de43284b770d28ad209f712c3d32b49b7 := by decide

theorem c10sb_r7 : keccakRound keccak_rotc_std 0xa96423b9cdfc8638c7bda9a1176310fdf2396b4a259b932276861a268f8940f9697bf77722bdb643a9eb4ec5dbdc1e1abdf9e4448cc8426a688c634521dd6c5bcc31f302fc10219b811ff5b8a76bd8747b4d50fdacbae645fe5b5f302eb738e6adb741291ccc79acd97d61bc6dc522bf7623714a82e4a9519eb67dcf25bc40bbf08be4e25d0fbe39acf5471a892e827f65d42eee161062295da17ee699632ed6b0910a304d19e68a1667ece7db4a0e85e356ae54f1e68068ff34b912bf25ebc2be46667ce4ca61a4 7 = 0xe18597ece59f85a3194abe4d550224678a8211d1fd1308352eb97e643bcc8f4777e0a1354c0d3f419bb0d001b4d3ff24408bd161c0f3aa32ea3dc9c35a8ce9525c361edf2073a732d552786337c50e7207522b43dcea1b6ab82f2fa5b0c03bb44cd5445b597960dd1e595c929fbbebc4a62b25b30a36d4b7cbd6a431df280dc9f4203b947b4968c7854eafc874c73e46421f7d3aaef8f0daad77716fec57c6831ddd4ef4b3675e751a0b0ea5888df3d051e4c4cbc86d624de43284b770d28ad289f712c3d32bc9be := by

  simp only [keccakRound, c10sb_r7t, c10sb_r7p, c10sb_r7c]

  decide

theorem c10sb_r8t : keccakTheta 0xe18597ece59f85a3194abe4d550224678a8211d1fd1308352eb97e643bcc8f4777e0a1354c0d3f419bb0d001b4d3ff24408bd161c0f3aa32ea3dc9c35a8ce9525c361edf2073a732d552786337c50e7207522b43dcea1b6ab82f2fa5b0c03bb44cd5445b597960dd1e595c929fbbebc4a62b25b30a36d4b7cbd6a431df280dc9f4203b947b4968c7854eafc874c73e46421f7d3aaef8f0daad77716fec57c6831ddd4ef4b3675e751a0b0ea5888df3d051e4c4cbc86d624de43284b770d28ad289f712c3d32bc9be = 0xae73dcc6ae6f7e27b75345d0d49c9d755ff33f040ad7ec60ff210fb9f1d7de9d497bac1619b97e63d4469b2bff2304a0ee922afc416d13203f4ce716ad480d078dae6f02ea68f6e8ebc9754062714f5048a46069971ae0ee1636d438315e82a699a46a8eaebd8488cfc12d4f55a0ba1e98b028905f8295958420ef1b94d8f64d5a39c009fad7d1d5503f811d8303da1393870ce764e3a10093ec7c4cb9e387a1522b05def897a5f1b412f53809134ac28495ea1e3fa9861835aaf56abac9db08b76c1fe0869f889c := by decide

theorem c10sb_r8p : keccakRhoPi keccak_rotc_std 0xae73dcc6ae6f7e27b75345d0d49c9d755ff33f040ad7ec60ff210fb9f1d7de9d497bac1619b97e63d4469b2bff2304a0ee922afc416d13203f4ce716ad480d078dae6f02ea68f6e8ebc9754062714f5048a46069971ae0ee1636d438315e82a699a46a8eaebd8488cfc12d4f55a0ba1e98b028905f8295958420ef1b94d8f64d5a39c009fad7d1d5503f811d8303da1393870ce764e3a10093ec7c4cb9e387a1522b05def897a5f1b412f53809134ac28495ea1e3fa9861835aaf56abac9db08b76c1fe0869f889c = 0xfc843ee7c75f7a77e29ea1d792ea80c48d707724523034cbeaad1ce004fd6be821257a878fea618675b75345d0d49c9d738b56a406839fa604b53d5682e87b3f9e387a193ec7c4cbf7c4bd2f8a91582eb05866e5f98d25ee469b2bff2304a0d47062bd054c2c6da80fe04760c0f684d46b55ead57593b6100bfe67e0815afd8c1edd11b5cde05d4dc5814482fc14acacf1b94d8f64d8420e809134ac2b412f53f731ab9bdf89eb9c5f882da2641dd245ec2444cd235475753a10093870ce764eb76c1fe0869f889c := by decide

theorem c10sb_r8c : keccakChi 0xfc843ee7c75f7a77e29ea1d792ea80c48d707724523034cbeaad1ce004fd6be821257a878fea618675b75345d0d49c9d738b56a406839fa604b53d5682e87b3f9e387a193ec7c4cbf7c4bd2f8a91582eb05866e5f98d25ee469b2bff2304a0d47062bd054c2c6da80fe04760c0f684d46b55ead57593b6100bfe67e0815afd8c1edd11b5cde05d4dc5814482fc14acacf1b94d8f64d8420e809134ac2b412f53f731ab9bdf89eb9c5f882da2641dd245ec2444cd235475753a10093870ce764eb76c1fe0869f889c = 0x360c3a87c74a701fe3bfe1d79a4a81449170690417254ef888239c338437ebec24751983ddea75857d8f1155e492185cf1cbfa8e0c82df8400813c1752bc7b26ed3238b93ac4404bf741b8690ab9631ab4f863c579e9252a0d9ea3ef271632c4c022f90594a568820979459ae3f604801b5752d0799bdf387ad62ee3c5c2bd809edc01b9e7e15f1ec4a322c2fc0e0c2cebe55cba6538134f849134acb34583f3ff21ab83afc99dde5fc439c2640bd2454c15c6d4b8d45ced2998201a34c7f44e73485b25858f89ad := by decide

theorem c10sb_r8 : keccakRound keccak_rotc_std 0xe18597ece59f85a3194abe4d550224678a8211d1fd1308352eb97e643bcc8f4777e0a1354c0d3f419bb0d001b4d3ff24408bd161c0f3aa32ea3dc9c35a8ce9525c361edf2073a732d552786337c50e7207522b43dcea1b6ab82f2fa5b0c03bb44cd5445b597960dd1e595c929fbbebc4a62b25b30a36d4b7cbd6a431df280dc9f4203b947b4968c7854eafc874c73e46421f7d3aaef8f0daad77716fec57c6831ddd4ef4b3675e751a0b0ea5888df3d051e4c4cbc86d624de43284b770d28ad289f712c3d32bc9be 8 = 0x360c3a87c74a701fe3bfe1d79a4a81449170690417254ef888239c338437ebec24751983ddea75857d8f1155e492185cf1cbfa8e0c82df8400813c1752bc7b26ed3238b93ac4404bf741b8690ab9631ab4f863c579e9252a0d9ea3ef271632c4c022f90594a568820979459ae3f604801b5752d0799bdf387ad62ee3c5c2bd809edc01b9e7e15f1ec4a322c2fc0e0c2cebe55cba6538134f849134acb34583f3ff21ab83afc99dde5fc439c2640bd2454c15c6d4b8d45ced2998201a34c7f44e73485b25858f8927 := by

  simp only [keccakRound, c10sb_r8t, c10sb_r8p, c10sb_r8c]

  decide

theorem c10sb_r9t : keccakTheta 0x360c3a87c74a701fe3bfe1d79a4a81449170690417254ef888239c338437ebec24751983ddea75857d8f1155e492185cf1cbfa8e0c82df8400813c1752bc7b26ed3238b93ac4404bf741b8690ab9631ab4f863c579e9252a0d9ea3ef271632c4c022f90594a568820979459ae3f604801b5752d0799bdf387ad62ee3c5c2bd809edc01b9e7e15f1ec4a322c2fc0e0c2cebe55cba6538134f849134acb34583f3ff21ab83afc99dde5fc439c2640bd2454c15c6d4b8d45ced2998201a34c7f44e73485b25858f8927 = 0x978b832dc57b17a6cfc333396fd856b78280f52e7fb6c4610553908137f933a402d2ef94f42488ffdc08a8ffe6a37fe5ddb72860f91008771371a03d3a2ff1bf6042340b890a9803d1e64e7e23779e60157fda6f7bd8429321e27101d284e537d3d2652ffc36e21b840949285038dcc83df0a4c750552242db519749c7f3da39b2a0d357127388edd753bee8949d86b566955008d6f6cb07a236c2bb9a8b7e895ea61229adf8fa6773b8eb2c919905b65fe55afed047d674a4e82ca887092c0655efad32ac41745d := by decide

theorem c10sb_r9p : keccakRhoPi keccak_rotc_std 0x978b832dc57b17a6cfc333396fd856b78280f52e7fb6c4610553908137f933a402d2ef94f42488ffdc08a8ffe6a37fe5ddb72860f91008771371a03d3a2ff1bf6042340b890a9803d1e64e7e23779e60157fda6f7bd8429321e27101d284e537d3d2652ffc36e21b840949285038dcc83df0a4c750552242db519749c7f3da39b2a0d357127388edd753bee8949d86b566955008d6f6cb07a236c2bb9a8b7e895ea61229adf8fa6773b8eb2c919905b65fe55afed047d674a4e82ca887092c0655efad32ac41745d = 0x154e4204dfe4ce90ef3cc1a3cc9cfc46ec21498abfed37bd76d95069ab8939c417f956bfb411f59db7cfc333396fd856d01e9d17f8df89b82524a140e3732210a8b7e89a236c2bb94d6fc7d33af53091be53d09223fc0b4b08a8ffe6a37fe5dc03a509ca6e43c4e2d4efba252761ad7549d059510e12580d30501ea5cff6d88c53006c0846817121ef85263a82a91211749c7f3da39db519c919905b673b8eb2e0cb715ec5e9a5e20c1f22010efbb6e5b710de9e93297fe16cb0766955008d6f55efad32ac41745d := by decide

theorem c10sb_r9c : keccakChi 0x154e4204dfe4ce90ef3cc1a3cc9cfc46ec21498abfed37bd76d95069ab8939c417f956bfb411f59db7cfc333396fd856d01e9d17f8df89b82524a140e3732210a8b7e89a236c2bb94d6fc7d33af53091be53d09223fc0b4b08a8ffe6a37fe5dc03a509ca6e43c4e2d4efba252761ad7549d059510e12580d30501ea5cff6d88c53006c0846817121ef85263a82a91211749c7f3da39db519c919905b673b8eb2e0cb715ec5e9a5e20c1f22010efbb6e5b710de9e93297fe16cb0766955008d6f55efad32ac41745d = 0x754e4244d46cc6d0ed8dd518ec8dcd4bfc634b8eac8d352d75c5d048eb99f1869fd95f3da075f3a4175feb3b3867d37e983e99d7fa4fa93902e5e360e253725678adf48d3be0a211486fc693fae630912a7c72b6029dae3b4928f6a7af7db5d8b5f609da6ec3cee1dce74c01a65d8c694ad0589b4610188f04d471814f72e9859a09ec5266887713cfd5349f0bdf9a9d649c373de79dd43942189059671b8cb2c8db231794e92cc0193bae2126fbe6f857d08fc052297ee364bf566859d20d6bc6ef25a42e6806dd := by decide

theorem c10sb_r9 : keccakRound keccak_rotc_std 0x360c3a87c74a701fe3bfe1d79a4a81449170690417254ef888239c338437ebec24751983ddea75857d8f1155e492185cf1cbfa8e0c82df8400813c1752bc7b26ed3238b93ac4404bf741b8690ab9631ab4f863c579e9252a0d9ea3ef271632c4c022f90594a568820979459ae3f604801b5752d0799bdf387ad62ee3c5c2bd809edc01b9e7e15f1ec4a322c2fc0e0c2cebe55cba6538134f849134acb34583f3ff21ab83afc99dde5fc439c2640bd2454c15c6d4b8d45ced2998201a34c7f44e73485b25858f8927 9 = 0x754e4244d46cc6d0ed8dd518ec8dcd4bfc634b8eac8d352d75c5d048eb99f1869fd95f3da075f3a4175feb3b3867d37e983e99d7fa4fa93902e5e360e253725678adf48d3be0a211486fc693fae630912a7c72b6029dae3b4928f6a7af7db5d8b5f609da6ec3cee1dce74c01a65d8c694ad0589b4610188f04d471814f72e9859a09ec5266887713cfd5349f0bdf9a9d649c373de79dd43942189059671b8cb2c8db231794e92cc0193bae2126fbe6f857d08fc052297ee364bf566859d20d6bc6ef25a42e680655 := by

  simp only [keccakRound, c10sb_r9t, c10sb_r9p, c10sb_r9c]

  decide

theorem c10sb_r10t : keccakTheta 0x754e4244d46cc6d0ed8dd518ec8dcd4bfc634b8eac8d352d75c5d048eb99f1869fd95f3da075f3a4175feb3b3867d37e983e99d7fa4fa93902e5e360e253725678adf48d3be0a211486fc693fae630912a7c72b6029dae3b4928f6a7af7db5d8b5f609da6ec3cee1dce74c01a65d8c694ad0589b4610188f04d471814f72e9859a09ec5266887713cfd5349f0bdf9a9d649c373de79dd43942189059671b8cb2c8db231794e92cc0193bae2126fbe6f857d08fc052297ee364bf566859d20d6bc6ef25a42e680655 = 0xf9c553cf8640242b363dddcdff7c5d0e529cb228977eb302cabe90564dbf7b12b8e3c54105ae802d9bd4fab06a4b3185438e9102e9be397cac1a1ac6d9a0f479c7d6b4939dc628856f555cef5f3d4318a6f7633d50b14cc09298fe72bc8c259d1b09f07c553048ce639c0c1f007b06fd6deac2e7e3cb6b06885f600a1d5e0b7e41b9e4877579e756612acd39302c1cb2dbe7772341bb5ead65220a25c2c0ff3b4450329cc6c5ce3bc28ba6f4350a76bdf92f766669daf8ccdbc41676fff487ffe1d5bfd88bb375dc := by decide

theorem c10sb_r10p : keccakRhoPi keccak_rotc_std 0xf9c553cf8640242b363dddcdff7c5d0e529cb228977eb302cabe90564dbf7b12b8e3c54105ae802d9bd4fab06a4b3185438e9102e9be397cac1a1ac6d9a0f479c7d6b4939dc628856f555cef5f3d4318a6f7633d50b14cc09298fe72bc8c259d1b09f07c553048ce639c0c1f007b06fd6deac2e7e3cb6b06885f600a1d5e0b7e41b9e4877579e756612acd39302c1cb2dbe7772341bb5ead65220a25c2c0ff3b4450329cc6c5ce3bc28ba6f4350a76bdf92f766669daf8ccdbc41676fff487ffe1d5bfd88bb375dc = 0x2afa415936fdec4b7a8630deaab9debe58a660537bb19ea8ab20dcf243babcf33e4bdd999a76be330e363dddcdff7c5d0d636cd07a3cd60d70307c01ec1bf58e2c0ff3b65220a25ce6362e71da228194150416ba00b6e38fd4fab06a4b31859be579184b3b2531fc4ab34e4c0b072c98b7882cedffe90fff4a53964512efd660c510b8fad69273b86f56173f1e5b583300a1d5e0b7e885f64350a76bdc28ba6f54f3e190090afe71205d37c72f8871d2824670d84f83e2a9b5eaddbe7772341be1d5bfd88bb375dc := by decide

theorem c10sb_r10c : keccakChi 0x2afa415936fdec4b7a8630deaab9debe58a660537bb19ea8ab20dcf243babcf33e4bdd999a76be330e363dddcdff7c5d0d636cd07a3cd60d70307c01ec1bf58e2c0ff3b65220a25ce6362e71da228194150416ba00b6e38fd4fab06a4b31859be579184b3b2531fc4ab34e4c0b072c98b7882cedffe90fff4a53964512efd660c510b8fad69273b86f56173f1e5b583300a1d5e0b7e885f64350a76bdc28ba6f54f3e190090afe71205d37c72f8871d2824670d84f83e2a9b5eaddbe7772341be1d5bfd88bb375dc = 0xabda413b7775ec8b6e87ac5e22bbcc8e58de21526ff5bee98920cc7ec3b2fce56ecdfd98a277bc3b063fec5bcdff5e15ed636ef0683c578d72246d0c69d8ddde214cf3664004a05db60622707639d4165d3754ba00b0c38f7672982fb47889ebe47d1edb3ba353f85a31ee6c4b17a89b12c03ceecfc91e9b4af2c6c5312fd3f0c41099d01a925bb76515113a1e36dc7380a17d207768a67e2c06a574d43be26e40d9a1b67d4afe728159298fad39705ed6e4b0c84f816c8895f3dab9577a2549e3d19f988332b77c := by decide

theorem c10sb_r10 : keccakRound keccak_rotc_std 0x754e4244d46cc6d0ed8dd518ec8dcd4bfc634b8eac8d352d75c5d048eb99f1869fd95f3da075f3a4175feb3b3867d37e983e99d7fa4fa93902e5e360e253725678adf48d3be0a211486fc693fae630912a7c72b6029dae3b4928f6a7af7db5d8b5f609da6ec3cee1dce74c01a65d8c694ad0589b4610188f04d471814f72e9859a09ec5266887713cfd5349f0bdf9a9d649c373de79dd43942189059671b8cb2c8db231794e92cc0193bae2126fbe6f857d08fc052297ee364bf566859d20d6bc6ef25a42e680655 10 = 0xabda413b7775ec8b6e87ac5e22bbcc8e58de21526ff5bee98920cc7ec3b2fce56ecdfd98a277bc3b063fec5bcdff5e15ed636ef0683c578d72246d0c69d8ddde214cf3664004a05db60622707639d4165d3754ba00b0c38f7672982fb47889ebe47d1edb3ba353f85a31ee6c4b17a89b12c03ceecfc91e9b4af2c6c5312fd3f0c41099d01a925bb76515113a1e36dc7380a17d207768a67e2c06a574d43be26e40d9a1b67d4afe728159298fad39705ed6e4b0c84f816c8895f3dab9577a2549e3d19f9803323775 := by

  simp only [keccakRound, c10sb_r10t, c10sb_r10p, c10sb_r10c]

  decide

theorem c10sb_r11t : keccakTheta 0xabda413b7775ec8b6e87ac5e22bbcc8e58de21526ff5bee98920cc7ec3b2fce56ecdfd98a277bc3b063fec5bcdff5e15ed636ef0683c578d72246d0c69d8ddde214cf3664004a05db60622707639d4165d3754ba00b0c38f7672982fb47889ebe47d1edb3ba353f85a31ee6c4b17a89b12c03ceecfc91e9b4af2c6c5312fd3f0c41099d01a925bb76515113a1e36dc7380a17d207768a67e2c06a574d43be26e40d9a1b67d4afe728159298fad39705ed6e4b0c84f816c8895f3dab9577a2549e3d19f9803323775 = 0x10bc1830a73c92d0e602627aa23cf59dde6e820315eebbfe7611f37ad74f5f205a2a8eea854e0e81bd59b5501db6204e65e6a0d4e8bb6e9ef494ce5d13c3d8c9de7dcc6254f9039882e15102510066ace6510db1d0f9bdd4fef7560b34ffb0f862cdbd8a41b856efa500d1685fea0b5e26274f9ce8f0ac21f1949fcee166adab4c9557f49a1562a4e3a5b26b642dd9647f904224639505bb18e1d606f30250d4fbbff8bdad03802909dce7ab2dbe494d50541399359a699f6ac2e5bd4387868cd736ecea240b85cf := by decide

theorem c10sb_r11p : keccakRhoPi keccak_rotc_std 0x10bc1830a73c92d0e602627aa23cf59dde6e820315eebbfe7611f37ad74f5f205a2a8eea854e0e81bd59b5501db6204e65e6a0d4e8bb6e9ef494ce5d13c3d8c9de7dcc6254f9039882e15102510066ace6510db1d0f9bdd4fef7560b34ffb0f862cdbd8a41b856efa500d1685fea0b5e26274f9ce8f0ac21f1949fcee166adab4c9557f49a1562a4e3a5b26b642dd9647f904224639505bb18e1d606f30250d4fbbff8bdad03802909dce7ab2dbe494d50541399359a699f6ac2e5bd4387868cd736ecea240b85cf = 0xd847cdeb5d3d7c8100cd5905c2a204a27cdeea732886d8e852264aabfa4d0ab1d41504e64d669a679de602627aa23cf5672e89e1ec64fa4a0345a17fa82d7a9430250d418e1d606fed681c014fddffc53baa15383a0568aa59b5501db6204ebd1669ff61f1fdeeace96c9ad90b765938d585cb7a870f0d18dbcdd04062bdd77f20731bcfb98c4a9f313a7ce747856109fcee166adabf1949b2dbe494d09dce7a060c29cf24b4042f1a9d176dd3ccbcd4c2b77b166dec520d505bb7f904224639d736ecea240b85cf := by decide

theorem c10sb_r11c : keccakChi 0xd847cdeb5d3d7c8100cd5905c2a204a27cdeea732886d8e852264aabfa4d0ab1d41504e64d669a679de602627aa23cf5672e89e1ec64fa4a0345a17fa82d7a9430250d418e1d606fed681c014fddffc53baa15383a0568aa59b5501db6204ebd1669ff61f1fdeeace96c9ad90b765938d585cb7a870f0d18dbcdd04062bdd77f20731bcfb98c4a9f313a7ce747856109fcee166adabf1949b2dbe494d09dce7a060c29cf24b4042f1a9d176dd3ccbcd4c2b77b166dec520d505bb7f904224639d736ecea240b85cf = 0xda6587e2ef347c1104dd5901c2e086c4a4dc6e99359ba0e952275baf386d0eb3f8cda4b64de44a2f8de30322faa23cdf072695e0e939394a9b85a37dbaaf7e21540f05c1ca5de025ee28bc3f6ffde55513c205b93275388a9db09a5f332a4bad3463fa41f9f8ceaea0f89ac50d765929c384ae5a7786ab9c97e9c22a689fc67e00613f5b298c429feab6bce705b4f469fcaf156262b713dfb3cb8c11d59dae7a06453ade2494461fcbafd34dd3c73d14c6b7539449dc52264853b3909622eae95592a4ec4dc795cb := by decide

theorem c10sb_r11 : keccakRound keccak_rotc_std 0xabda413b7775ec8b6e87ac5e22bbcc8e58de21526ff5bee98920cc7ec3b2fce56ecdfd98a277bc3b063fec5bcdff5e15ed636ef0683c578d72246d0c69d8ddde214cf3664004a05db60622707639d4165d3754ba00b0c38f7672982fb47889ebe47d1edb3ba353f85a31ee6c4b17a89b12c03ceecfc91e9b4af2c6c5312fd3f0c41099d01a925bb76515113a1e36dc7380a17d207768a67e2c06a574d43be26e40d9a1b67d4afe728159298fad39705ed6e4b0c84f816c8895f3dab9577a2549e3d19f9803323775 11 = 0xda6587e2ef347c1104dd5901c2e086c4a4dc6e99359ba0e952275baf386d0eb3f8cda4b64de44a2f8de30322faa23cdf072695e0e939394a9b85a37dbaaf7e21540f05c1ca5de025ee28bc3f6ffde55513c205b93275388a9db09a5f332a4bad3463fa41f9f8ceaea0f89ac50d765929c384ae5a7786ab9c97e9c22a689fc67e00613f5b298c429feab6bce705b4f469fcaf156262b713dfb3cb8c11d59dae7a06453ade2494461fcbafd34dd3c73d14c6b7539449dc52264853b3909622eae95592a4eccdc795c1 := by

  simp only [keccakRound, c10sb_r11t, c10sb_r11p, c10sb_r11c]

  decide

theorem c10sb_r12t : keccakTheta 0xda6587e2ef347c1104dd5901c2e086c4a4dc6e99359ba0e952275baf386d0eb3f8cda4b64de44a2f8de30322faa23cdf072695e0e939394a9b85a37dbaaf7e21540f05c1ca5de025ee28bc3f6ffde55513c205b93275388a9db09a5f332a4bad3463fa41f9f8ceaea0f89ac50d765929c384ae5a7786ab9c97e9c22a689fc67e00613f5b298c429feab6bce705b4f469fcaf156262b713dfb3cb8c11d59dae7a06453ade2494461fcbafd34dd3c73d14c6b7539449dc52264853b3909622eae95592a4eccdc795c1 = 0xe991011696068903883672cd2f95c0a61dfb7991fb39f9302f68742d00e15dbc097d198931aa2f18be1785d68390c9cd8bcdbe2c044c7f2822a2b475740d27f829402a43f2d1b32a1f98010013b380622036834d4b47cd98115bb193de5f0dcf8d44ed49375a9777ddb7b54735fa0a26323413650bc8ceaba41d44de11ad336c8c8a1497c4f904fd5391abefcb16adb081e03ae05a3b40d0427b312ea9d3cb4d35b1bc2a5da6b30d4744f8813eb27b767f90449c877e0bff351c9c12aeaeb9e6a42219d3b189f0f6 := by decide

theorem c10sb_r12p : keccakRhoPi keccak_rotc_std 0xe991011696068903883672cd2f95c0a61dfb7991fb39f9302f68742d00e15dbc097d198931aa2f18be1785d68390c9cd8bcdbe2c044c7f2822a2b475740d27f829402a43f2d1b32a1f98010013b380622036834d4b47cd98115bb193de5f0dcf8d44ed49375a9777ddb7b54735fa0a26323413650bc8ceaba41d44de11ad336c8c8a1497c4f904fd5391abefcb16adb081e03ae05a3b40d0427b312ea9d3cb4d35b1bc2a5da6b30d4744f8813eb27b767f90449c877e0bff351c9c12aeaeb9e6a42219d3b189f0f6 = 0xbda1d0b4038576f06700c43f30020027a3e6cc101b41a6a57ec6450a4be27c82dfe4112721df82ffa6883672cd2f95c05a3aba0693fc1151ded51cd7e8289b769d3cb4d427b312ea52ed359869ad8de16624c6a8bc6025f41785d68390c9cdbe27bcbe1b9e22b763e46afbf2c5ab6c146a3938255d5d73cc03bf6f323f673f263665452805487e5a91a09b285e4675594de11ad336ca41d413eb27b764744f884045a581a240fa64c580898fe51179b7d4bbbc6a276a49bab40d081e03ae05a3a42219d3b189f0f6 := by decide

theorem c10sb_r12c : keccakChi 0xbda1d0b4038576f06700c43f30020027a3e6cc101b41a6a57ec6450a4be27c82dfe4112721df82ffa6883672cd2f95c05a3aba0693fc1151ded51cd7e8289b769d3cb4d427b312ea52ed359869ad8de16624c6a8bc6025f41785d68390c9cdbe27bcbe1b9e22b763e46afbf2c5ab6c146a3938255d5d73cc03bf6f323f673f263665452805487e5a91a09b285e4675594de11ad336ca41d413eb27b764744f884045a581a240fa64c580898fe51179b7d4bbbc6a276a49bab40d081e03ae05a3a42219d3b189f0f6 = 0x9da394bc49a50af02544c53c105880283b47dc9018c4d0753ac645256be07c805ec4993731de00da2b98b636cb3d87ca0a5fbb8eb37c19707a5518a7a42b1ff69d1616d4346712eb102c3d9ba1a504f5e266057a3cc229e41f9cee86d1d49fb6479cbe33b2029723f46bbb72c562248869ad3c2c475de0af4fbf77722ded3f72262545ad45583ed2903ab13a6461747d6ba45ed337c24bd683eba69f2c707b815048a58da066ff6561a291ddf4987925d4fe986a252acbfab50d099bc3bf35a6e490adb395c9b8ee := by decide

theorem c10sb_r12 : keccakRound keccak_rotc_std 0xda6587e2ef347c1104dd5901c2e086c4a4dc6e99359ba0e952275baf386d0eb3f8cda4b64de44a2f8de30322faa23cdf072695e0e939394a9b85a37dbaaf7e21540f05c1ca5de025ee28bc3f6ffde55513c205b93275388a9db09a5f332a4bad3463fa41f9f8ceaea0f89ac50d765929c384ae5a7786ab9c97e9c22a689fc67e00613f5b298c429feab6bce705b4f469fcaf156262b713dfb3cb8c11d59dae7a06453ade2494461fcbafd34dd3c73d14c6b7539449dc52264853b3909622eae95592a4eccdc795c1 12 = 0x9da394bc49a50af02544c53c105880283b47dc9018c4d0753ac645256be07c805ec4993731de00da2b98b636cb3d87ca0a5fbb8eb37c19707a5518a7a42b1ff69d1616d4346712eb102c3d9ba1a504f5e266057a3cc229e41f9cee86d1d49fb6479cbe33b2029723f46bbb72c562248869ad3c2c475de0af4fbf77722ded3f72262545ad45583ed2903ab13a6461747d6ba45ed337c24bd683eba69f2c707b815048a58da066ff6561a291ddf4987925d4fe986a252acbfab50d099bc3bf35a6e490adb315c93865 := by

  simp only [keccakRound, c10sb_r12t, c10sb_r12p, c10sb_r12c]

  decide

theorem c10sb_r13t : keccakTheta 0x9da394bc49a50af02544c53c105880283b47dc9018c4d0753ac645256be07c805ec4993731de00da2b98b636cb3d87ca0a5fbb8eb37c19707a5518a7a42b1ff69d1616d4346712eb102c3d9ba1a504f5e266057a3cc229e41f9cee86d1d49fb6479cbe33b2029723f46bbb72c562248869ad3c2c475de0af4fbf77722ded3f72262545ad45583ed2903ab13a6461747d6ba45ed337c24bd683eba69f2c707b815048a58da066ff6561a291ddf4987925d4fe986a252acbfab50d099bc3bf35a6e490adb315c93865 = 0x6adef7a157aa0521f05b7c76385cae9d5855ebd2f03c66d4fe6c70211a3215aa0f4b13aedf3f0d34dce5d52bd532881bdf4002c49b7837c519472fe54cd3a95759bc23d045b57bc141a3b7024f44091b151b666722cd2635ca8357ccf9d0b103248e89715afa218230c18e76b4b04da23822b6b5a9bced41b8c2146f33e230a3f33afce76d5c1067f32886788c99c2dcaf0e6bd7461022fcd2642c06c291766fa735c690be69f0b4b4bd2897dc9c5790b7ecaf28cdd27d5b71a73c9fb26d5c8cb51f272afb28358b := by decide

theorem c10sb_r13p : keccakRhoPi keccak_rotc_std 0x6adef7a157aa0521f05b7c76385cae9d5855ebd2f03c66d4fe6c70211a3215aa0f4b13aedf3f0d34dce5d52bd532881bdf4002c49b7837c519472fe54cd3a95759bc23d045b57bc141a3b7024f44091b151b666722cd2635ca8357ccf9d0b103248e89715afa218230c18e76b4b04da23822b6b5a9bced41b8c2146f33e230a3f33afce76d5c1067f32886788c99c2dcaf0e6bd7461022fcd2642c06c291766fa735c690be69f0b4b4bd2897dc9c5790b7ecaf28cdd27d5b71a73c9fb26d5c8cb51f272afb28358b = 0xf9b1c08468c856ab88123683476e049e66931a8a8db3339133f99d7e73b6ae08edfb2bca33749f569df05b7c76385cae97f2a669d4ab8ca30639dad2c13688c3291766fd2642c06c85f34f85a539ae344ebb7cfc34d03d2ce5d52bd532881bdc99f3a162079506afca219e232670b73ce34e793f64dab9188b0abd7a5e078cdaaf782b37847a08b6c115b5ad4de76a0946f33e230a3b8c217dc9c5790b4bd289bde855ea81485ab758936f06f8bbe800d10c1124744b8ad7022fcaf0e6bd7461b51f272afb28358b := by decide

theorem c10sb_r13c : keccakChi 0xf9b1c08468c856ab88123683476e049e66931a8a8db3339133f99d7e73b6ae08edfb2bca33749f569df05b7c76385cae97f2a669d4ab8ca30639dad2c13688c3291766fd2642c06c85f34f85a539ae344ebb7cfc34d03d2ce5d52bd532881bdc99f3a162079506afca219e232670b73ce34e793f64dab9188b0abd7a5e078cdaaf782b37847a08b6c115b5ad4de76a0946f33e230a3b8c217dc9c5790b4bd289bde855ea81485ab758936f06f8bbe800d10c1124744b8ad7022fcaf0e6bd7461b51f272afb28358b = 0xebb154b0284a76a38c581dc9545a8dca1732da8ea53361b0bbf9b97f31faaa06a9f9294abf758ec7b5f47b04747a1ce697f1a2e855aa2eb30e3983c6e326d8cfb8d542d432cbc44c83dbd787640da6b7469afafc36f03b0844912ad672829bcc93d9f54a03c5228fae2594b61678ae6cf29c587f655fb99b893887785e3780fadbb96b3685325ab7c11721e517e2ee41689b34318a238c97fccd44f54e8fb081bfc89d3a85dd1ad758844d06829bcd08746401cc750b98600abca4f26e0d1461641f362eeb6abf1d := by decide

theorem c10sb_r13 : keccakRound keccak_rotc_std 0x9da394bc49a50af02544c53c105880283b47dc9018c4d0753ac645256be07c805ec4993731de00da2b98b636cb3d87ca0a5fbb8eb37c19707a5518a7a42b1ff69d1616d4346712eb102c3d9ba1a504f5e266057a3cc229e41f9cee86d1d49fb6479cbe33b2029723f46bbb72c562248869ad3c2c475de0af4fbf77722ded3f72262545ad45583ed2903ab13a6461747d6ba45ed337c24bd683eba69f2c707b815048a58da066ff6561a291ddf4987925d4fe986a252acbfab50d099bc3bf35a6e490adb315c93865 13 = 0xebb154b0284a76a38c581dc9545a8dca1732da8ea53361b0bbf9b97f31faaa06a9f9294abf758ec7b5f47b04747a1ce697f1a2e855aa2eb30e3983c6e326d8cfb8d542d432cbc44c83dbd787640da6b7469afafc36f03b0844912ad672829bcc93d9f54a03c5228fae2594b61678ae6cf29c587f655fb99b893887785e3780fadbb96b3685325ab7c11721e517e2ee41689b34318a238c97fccd44f54e8fb081bfc89d3a85dd1ad758844d06829bcd08746401cc750b98600abca4f26e0d1461e41f362eeb6abf96 := by

  simp only [keccakRound, c10sb_r13t, c10sb_r13p, c10sb_r13c]

  decide

theorem c10sb_r14t : keccakTheta 0xebb154b0284a76a38c581dc9545a8dca1732da8ea53361b0bbf9b97f31faaa06a9f9294abf758ec7b5f47b04747a1ce697f1a2e855aa2eb30e3983c6e326d8cfb8d542d432cbc44c83dbd787640da6b7469afafc36f03b0844912ad672829bcc93d9f54a03c5228fae2594b61678ae6cf29c587f655fb99b893887785e3780fadbb96b3685325ab7c11721e517e2ee41689b34318a238c97fccd44f54e8fb081bfc89d3a85dd1ad758844d06829bcd08746401cc750b98600abca4f26e0d1461e41f362eeb6abf96 = 0xb76d4fa56b14e450efa60ff71136f6db601742debde3677504d67540644bef58198b19fdec91f406e928601137248e15f40fb0d610c655a2791c1b96fbf6de0a07fa8eeb677a811233a9e73037e9dc761a46e1e975aea9fb276f38e837eee0dde4fc6d1a1b15244a110a588943c9eb3242ee68c836bbc35ad5e49c6d1d691209b8477908c05e21a6b632b9b50f32e884d7b4f80edf92c9c94cbf74421d6bca40e314862fc68388243b7a5f38c7f7b6190341999c6ddb9ea5b59368cd3bbc513f546d0699b88ec557 := by decide

theorem c10sb_r14p : keccakRhoPi keccak_rotc_std 0xb76d4fa56b14e450efa60ff71136f6db601742debde3677504d67540644bef58198b19fdec91f406e928601137248e15f40fb0d610c655a2791c1b96fbf6de0a07fa8eeb677a811233a9e73037e9dc761a46e1e975aea9fb276f38e837eee0dde4fc6d1a1b15244a110a588943c9eb3242ee68c836bbc35ad5e49c6d1d691209b8477908c05e21a6b632b9b50f32e884d7b4f80edf92c9c94cbf74421d6bca40e314862fc68388243b7a5f38c7f7b6190341999c6ddb9ea5b59368cd3bbc513f546d0699b88ec557 = 0x1359d501912fbd60d3b8ec6753ce606fd754fd8d2370f4bad35c23bc84602f1040d066671b76e7a9dbefa60ff71136f60dcb7dfb6f053c8e2962250f27acc844d6bca404cbf744217e341c412718a43167f7b247d018662c28601137248e15e9d06fddc1ba4ede718cae6d43ccba212d6b26d19a7778a27fac02e85bd7bc6cee502240ff51dd6cef17734641b5de1ad2c6d1d691209d5e498c7f7b6193b7a5f353e95ac539142ddb1ac218cab45e81f6a9225727e368d0d82c9c9d7b4f80edf9546d0699b88ec557 := by decide

theorem c10sb_r14c : keccakChi 0x1359d501912fbd60d3b8ec6753ce606fd754fd8d2370f4bad35c23bc84602f1040d066671b76e7a9dbefa60ff71136f60dcb7dfb6f053c8e2962250f27acc844d6bca404cbf744217e341c412718a43167f7b247d018662c28601137248e15e9d06fddc1ba4ede718cae6d43ccba212d6b26d19a7778a27fac02e85bd7bc6cee502240ff51dd6cef17734641b5de1ad2c6d1d691209d5e498c7f7b6193b7a5f353e95ac539142ddb1ac218cab45e81f6a9225727e368d0d82c9c9d7b4f80edf9546d0699b88ec557 = 0x8055d499152fb5709338ce01599e22e6d715ec8da35169bad3f423ded4ee2f5544d0ba66386637035b67060b3ff676f629db65bb6f0dbc8ffb46a70bb7bcca34d235fcf483f670ab57761d4a03102c75e37f9e06589a672c206050af03ee95ba97f87f816a5ebc75a4ae6d75c83a20a53b67411a453c7c2fee826ccbf7b436e6505f53df51deedfebb73ee4133fe1ad286d1d62f609c3a649d5d7b2106f5a5617b79c3a77e1405731ec61cd234d441f2e80b1522ea68fcd13e5c95b35b96ecdfd54f449d18e6d557 := by decide

theorem c10sb_r14 : keccakRound keccak_rotc_std 0xebb154b0284a76a38c581dc9545a8dca1732da8ea53361b0bbf9b97f31faaa06a9f9294abf758ec7b5f47b04747a1ce697f1a2e855aa2eb30e3983c6e326d8cfb8d542d432cbc44c83dbd787640da6b7469afafc36f03b0844912ad672829bcc93d9f54a03c5228fae2594b61678ae6cf29c587f655fb99b893887785e3780fadbb96b3685325ab7c11721e517e2ee41689b34318a238c97fccd44f54e8fb081bfc89d3a85dd1ad758844d06829bcd08746401cc750b98600abca4f26e0d1461e41f362eeb6abf96 14 = 0x8055d499152fb5709338ce01599e22e6d715ec8da35169bad3f423ded4ee2f5544d0ba66386637035b67060b3ff676f629db65bb6f0dbc8ffb46a70bb7bcca34d235fcf483f670ab57761d4a03102c75e37f9e06589a672c206050af03ee95ba97f87f816a5ebc75a4ae6d75c83a20a53b67411a453c7c2fee826ccbf7b436e6505f53df51deedfebb73ee4133fe1ad286d1d62f609c3a649d5d7b2106f5a5617b79c3a77e1405731ec61cd234d441f2e80b1522ea68fcd13e5c95b35b96ecdf554f449d18e655de := by

  simp only [keccakRound, c10sb_r14t, c10sb_r14p, c10sb_r14c]

  decide

theorem c10sb_r15t : keccakTheta 0x8055d499152fb5709338ce01599e22e6d715ec8da35169bad3f423ded4ee2f5544d0ba66386637035b67060b3ff676f629db65bb6f0dbc8ffb46a70bb7bcca34d235fcf483f670ab57761d4a03102c75e37f9e06589a672c206050af03ee95ba97f87f816a5ebc75a4ae6d75c83a20a53b67411a453c7c2fee826ccbf7b436e6505f53df51deedfebb73ee4133fe1ad286d1d62f609c3a649d5d7b2106f5a5617b79c3a77e1405731ec61cd234d441f2e80b1522ea68fcd13e5c95b35b96ecdf554f449d18e655de = 0x95e8d39585eb3d622086c694097cf56162c2757ea7968fe5e280649dfafc4b42d2a3ba198bd4f3fc4eda0107af32fee49a656d2e3fef6b084e913ef8b37b2c6be341bbb7ade414bcc1051d35b0a2e88af6c2990ac85eef3e93de583a530c423d222fe6726e995a2a95da2a36e62844b2ad144165f68eb8d0fb3f6bc76770bef4e3e15b4a013c3a790ea477b23739fc8db7a5916c4e8e5e730b2e7b5eb547619e6ec4c4abeed08d61ad781447643696755ddc8cd1eeaf1a8e0f28d2f0758488c8c33c44e2ab549121 := by decide

theorem c10sb_r15p : keccakRhoPi keccak_rotc_std 0x95e8d39585eb3d622086c694097cf56162c2757ea7968fe5e280649dfafc4b42d2a3ba198bd4f3fc4eda0107af32fee49a656d2e3fef6b084e913ef8b37b2c6be341bbb7ade414bcc1051d35b0a2e88af6c2990ac85eef3e93de583a530c423d222fe6726e995a2a95da2a36e62844b2ad144165f68eb8d0fb3f6bc76770bef4e3e15b4a013c3a790ea477b23739fc8db7a5916c4e8e5e730b2e7b5eb547619e6ec4c4abeed08d61ad781447643696755ddc8cd1eeaf1a8e0f28d2f0758488c8c33c44e2ab549121 = 0x8a019277ebf12d0b45d115820a3a6b612f779f7b614c85643cf1f0ada5009e1d977723347babc6a3612086c694097cf59f7c59bd9635a74868a8db98a112ca57547619e0b2e7b5eb5f76846b0b762625e8662f53cff34a8eda0107af32fee44e74a618847b27bcb0a91dec8dce7f23431e51a5e0eb091190ac584eafd4f2d1fc82979c683776f5bc68a20b2fb475c685bc76770bef4fb3f6764369675ad7814434e5617acf58a57aa5c7fded61134cadcad151117f339374e5e73b7a5916c4e8c33c44e2ab549121 := by decide

theorem c10sb_r15c : keccakChi 0x8a019277ebf12d0b45d115820a3a6b612f779f7b614c85643cf1f0ada5009e1d977723347babc6a3612086c694097cf59f7c59bd9635a74868a8db98a112ca57547619e0b2e7b5eb5f76846b0b762625e8662f53cff34a8eda0107af32fee44e74a618847b27bcb0a91dec8dce7f23431e51a5e0eb091190ac584eafd4f2d1fc82979c683776f5bc68a20b2fb475c685bc76770bef4fb3f6764369675ad7814434e5617acf58a57aa5c7fded61134cadcad151117f339374e5e73b7a5916c4e8c33c44e2ab549121 = 0xa28142fe6ff1351750a734821a30a9c1a5771d0e808d816e7c71f02daf32f41c94712c663be7c7c361209f462488ed3f812a59949d43a54808a85ddaa11a92e2c32219c5a4c290e377fe46730a666c31496a675ecb8568cdcc10870f12f6f55e54c030d4b626b630231ceba6cea7630d4af3b5e0da098d20246c58a771fae34ed094bd283d73f5bc44ea49a874f5c6c53e63e34bec4d82ce36c361434ae7c54510265a629f5ae1b266dff96d41175cacdaf15103f17b3226c0e1979659168861c92c04e38d758235 := by decide

theorem c10sb_r15 : keccakRound keccak_rotc_std 0x8055d499152fb5709338ce01599e22e6d715ec8da35169bad3f423ded4ee2f5544d0ba66386637035b67060b3ff676f629db65bb6f0dbc8ffb46a70bb7bcca34d235fcf483f670ab57761d4a03102c75e37f9e06589a672c206050af03ee95ba97f87f816a5ebc75a4ae6d75c83a20a53b67411a453c7c2fee826ccbf7b436e6505f53df51deedfebb73ee4133fe1ad286d1d62f609c3a649d5d7b2106f5a5617b79c3a77e1405731ec61cd234d441f2e80b1522ea68fcd13e5c95b35b96ecdf554f449d18e655de 15 = 0xa28142fe6ff1351750a734821a30a9c1a5771d0e808d816e7c71f02daf32f41c94712c663be7c7c361209f462488ed3f812a59949d43a54808a85ddaa11a92e2c32219c5a4c290e377fe46730a666c31496a675ecb8568cdcc10870f12f6f55e54c030d4b626b630231ceba6cea7630d4af3b5e0da098d20246c58a771fae34ed094bd283d73f5bc44ea49a874f5c6c53e63e34bec4d82ce36c361434ae7c54510265a629f5ae1b266dff96d41175cacdaf15103f17b3226c0e1979659168861492c04e38d750236 := by

  simp only [keccakRound, c10sb_r15t, c10sb_r15p, c10sb_r15c]

  decide

theorem c10sb_r16t : keccakTheta 0xa28142fe6ff1351750a734821a30a9c1a5771d0e808d816e7c71f02daf32f41c94712c663be7c7c361209f462488ed3f812a59949d43a54808a85ddaa11a92e2c32219c5a4c290e377fe46730a666c31496a675ecb8568cdcc10870f12f6f55e54c030d4b626b630231ceba6cea7630d4af3b5e0da098d20246c58a771fae34ed094bd283d73f5bc44ea49a874f5c6c53e63e34bec4d82ce36c361434ae7c54510265a629f5ae1b266dff96d41175cacdaf15103f17b3226c0e1979659168861492c04e38d750236 = 0xa4709808de25a6934aa02c6fd4b69cad9017372423432dbc64ea9b2ea756b703ef6a7963b5a36f6067d145b0955c7ebb9b2d417953c590243dc877f002d43e30dbb972c6aca6d3fc0ce513768422c4924f9bbda87a51fb49d6179fe2dc70c03261a01afe15e81ae23b8780a5c6c3201231e8e0e5544d2583229d8251c02e70caca93a5c5f3f5c0d0718a6382d73b6a1726f88848e429c1d14dd83446c4a36de616d780942e8e72367cd8e1808f9169c0ef917b2952b59ef4d87afc955172cb7e323751e60331aa95 := by decide

theorem c10sb_r16p : keccakRhoPi keccak_rotc_std 0xa4709808de25a6934aa02c6fd4b69cad9017372423432dbc64ea9b2ea756b703ef6a7963b5a36f6067d145b0955c7ebb9b2d417953c590243dc877f002d43e30dbb972c6aca6d3fc0ce513768422c4924f9bbda87a51fb49d6179fe2dc70c03261a01afe15e81ae23b8780a5c6c3201231e8e0e5544d2583229d8251c02e70caca93a5c5f3f5c0d0718a6382d73b6a1726f88848e429c1d14dd83446c4a36de616d780942e8e72367cd8e1808f9169c0ef917b2952b59ef4d87afc955172cb7e323751e60331aa95 = 0x93aa6cba9d5adc0d45892419ca26ed0828fda4a7cdded43d686549d2e2f9fae03be45eca54ad67bdad4aa02c6fd4b69c3bf8016a1f181ee41e02971b0c8048ee4a36de64dd83446ca1747391b0b6bc04e58ed68dbd83bda9d145b0955c7ebb67c5b8e18065ac2f3f6298e0b5ceda85dcb0f5f92aa2e596fd9202e6e4846865b7da7f9b772e58d5948f47072aa2692c19251c02e70ca229d808f9169c07cd8e182602378969a4e91c2f2a78b2049365a840d7130d00d7f0af9c1d126f88848e42323751e60331aa95 := by decide

theorem c10sb_r16c : keccakChi 0x93aa6cba9d5adc0d45892419ca26ed0828fda4a7cdded43d686549d2e2f9fae03be45eca54ad67bdad4aa02c6fd4b69c3bf8016a1f181ee41e02971b0c8048ee4a36de64dd83446ca1747391b0b6bc04e58ed68dbd83bda9d145b0955c7ebb67c5b8e18065ac2f3f6298e0b5ceda85dcb0f5f92aa2e596fd9202e6e4846865b7da7f9b772e58d5948f47072aa2692c19251c02e70ca229d808f9169c07cd8e182602378969a4e91c2f2a78b2049365a840d7130d00d7f0af9c1d126f88848e42323751e60331aa95 = 0xd3ab6daa3f0a444d6dcd36598a83ceb8badfec05d886c4382d6549cae0d9d3e03b7cfaef59ab63a0e7482c4822d5f6f43bcc52fb8f3a16e49a00371f6c44e8f66bcede04ce9b526cb574728ab0b6b486a786d618f199bca9c13499b75e1ab933e132a788c42d2bb772ddf0a0d688159c35d5f82a83c1bcdeb706e6878c4a4477d2868b6f2ddd5f9c8f4763aa22490c3a75249ab200b2f85c82ba1394a5848a19aa0a3580e120ed5e3f1f38d40682672940d7140469f378bbb3357add8c848b4272f550e60362da38 := by decide

theorem c10sb_r16 : keccakRound keccak_rotc_std 0xa28142fe6ff1351750a734821a30a9c1a5771d0e808d816e7c71f02daf32f41c94712c663be7c7c361209f462488ed3f812a59949d43a54808a85ddaa11a92e2c32219c5a4c290e377fe46730a666c31496a675ecb8568cdcc10870f12f6f55e54c030d4b626b630231ceba6cea7630d4af3b5e0da098d20246c58a771fae34ed094bd283d73f5bc44ea49a874f5c6c53e63e34bec4d82ce36c361434ae7c54510265a629f5ae1b266dff96d41175cacdaf15103f17b3226c0e1979659168861492c04e38d750236 16 = 0xd3ab6daa3f0a444d6dcd36598a83ceb8badfec05d886c4382d6549cae0d9d3e03b7cfaef59ab63a0e7482c4822d5f6f43bcc52fb8f3a16e49a00371f6c44e8f66bcede04ce9b526cb574728ab0b6b486a786d618f199bca9c13499b75e1ab933e132a788c42d2bb772ddf0a0d688159c35d5f82a83c1bcdeb706e6878c4a4477d2868b6f2ddd5f9c8f4763aa22490c3a75249ab200b2f85c82ba1394a5848a19aa0a3580e120ed5e3f1f38d40682672940d7140469f378bbb3357add8c848b42f2f550e603625a3a := by

  simp only [keccakRound, c10sb_r16t, c10sb_r16p, c10sb_r16c]

  decide

theorem c10sb_r17t : keccakTheta 0xd3ab6daa3f0a444d6dcd36598a83ceb8badfec05d886c4382d6549cae0d9d3e03b7cfaef59ab63a0e7482c4822d5f6f43bcc52fb8f3a16e49a00371f6c44e8f66bcede04ce9b526cb574728ab0b6b486a786d618f199bca9c13499b75e1ab933e132a788c42d2bb772ddf0a0d688159c35d5f82a83c1bcdeb706e6878c4a4477d2868b6f2ddd5f9c8f4763aa22490c3a75249ab200b2f85c82ba1394a5848a19aa0a3580e120ed5e3f1f38d40682672940d7140469f378bbb3357add8c848b42f2f550e603625a3a = 0x3e23457fd7836a207f62b49eb38ff333bde0f6584d829082fa0d6c8f5a498fcb51dab010317e0a840ac0049dca5cd8992963d03cb6362b6f9d3f2d42f940bc4cbca6fb41740b0e47dfd23875d863dda24a0efecd191092c4d39b1b70671684b8e60dbdd551297f0da5b5d5e56c1849b75f73b2d5eb14d5fa5a8ece5264c36a1ac02909a814d16217887879f7b74d5880a24cbff7ba22a477e81c596bcd51e33d47821d5509a9c3332db0ba133f8e5aa247e80e59fcf72c01645d5f983614d76998531a196bb7331e := by decide

theorem c10sb_r17p : keccakRhoPi keccak_rotc_std 0x3e23457fd7836a207f62b49eb38ff333bde0f6584d829082fa0d6c8f5a498fcb51dab010317e0a840ac0049dca5cd8992963d03cb6362b6f9d3f2d42f940bc4cbca6fb41740b0e47dfd23875d863dda24a0efecd191092c4d39b1b70671684b8e60dbdd551297f0da5b5d5e56c1849b75f73b2d5eb14d5fa5a8ece5264c36a1ac02909a814d16217887879f7b74d5880a24cbff7ba22a477e81c596bcd51e33d47821d5509a9c3332db0ba133f8e5aa247e80e59fcf72c01645d5f983614d76998531a196bb7331e = 0xe835b23d69263f2fc7bb45bfa470ebb088496225077f668c0be01484d40a68b151fa03967f3dcb00337f62b49eb38ff396a17ca05e264e9fd75795b06126de96d51e33de81c596bca84d4e199a3c10eac040c5f82a11476ac0049dca5cd8990ae0ce2d0971a736361e1e7dedd3562022c8babf306c29aed257bc1ecb09b0521061c8f794df682e81fb9d96af58a6afd2e5264c36a1a5a8ec33f8e5aa22db0ba1d15ff5e0da880f880796c6c56de52c7a4bf86f306deeaa892a477a24cbff7ba298531a196bb7331e := by decide

theorem c10sb_r17c : keccakChi 0xe835b23d69263f2fc7bb45bfa470ebb088496225077f668c0be01484d40a68b151fa03967f3dcb00337f62b49eb38ff396a17ca05e264e9fd75795b06126de96d51e33de81c596bca84d4e199a3c10eac040c5f82a11476ac0049dca5cd8990ae0ce2d0971a736361e1e7dedd3562022c8babf306c29aed257bc1ecb09b0521061c8f794df682e81fb9d96af58a6afd2e5264c36a1a5a8ec33f8e5aa22db0ba1d15ff5e0da880f880796c6c56de52c7a4bf86f306deeaa892a477a24cbff7ba298531a196bb7331e = 0xe235a63de9241f9ed671443db2692bb0a04dd0254e7972834c52111e740ae181d1f361b77c48cd0c666d53729f7209e71ea170a95e2a5e97f60997a4e1b75ff6d5be5bde9fc596b5aa0cca39fa1e58e8d6448535b947474ac8bea7ca18f0319ae08e6d3953a670561e1eed2fdf0ea92a287abf304c88b8c693ba16df8894f25c418816b4fd232720eda99ee45836ffc2e5662d2626eda8ed296177237ad90cb3f35b95c45ac047280f96ccdc4cd21c6c9bb15e10ffe6a9092e41fae1cbfe7fd0d9eb1f094fb7b317 := by decide

theorem c10sb_r17 : keccakRound keccak_rotc_std 0xd3ab6daa3f0a444d6dcd36598a83ceb8badfec05d886c4382d6549cae0d9d3e03b7cfaef59ab63a0e7482c4822d5f6f43bcc52fb8f3a16e49a00371f6c44e8f66bcede04ce9b526cb574728ab0b6b486a786d618f199bca9c13499b75e1ab933e132a788c42d2bb772ddf0a0d688159c35d5f82a83c1bcdeb706e6878c4a4477d2868b6f2ddd5f9c8f4763aa22490c3a75249ab200b2f85c82ba1394a5848a19aa0a3580e120ed5e3f1f38d40682672940d7140469f378bbb3357add8c848b42f2f550e603625a3a 17 = 0xe235a63de9241f9ed671443db2692bb0a04dd0254e7972834c52111e740ae181d1f361b77c48cd0c666d53729f7209e71ea170a95e2a5e97f60997a4e1b75ff6d5be5bde9fc596b5aa0cca39fa1e58e8d6448535b947474ac8bea7ca18f0319ae08e6d3953a670561e1eed2fdf0ea92a287abf304c88b8c693ba16df8894f25c418816b4fd232720eda99ee45836ffc2e5662d2626eda8ed296177237ad90cb3f35b95c45ac047280f96ccdc4cd21c6c9bb15e10ffe6a9092e41fae1cbfe7fd059eb1f094fb7b397 := by

  simp only [keccakRound, c10sb_r17t, c10sb_r17p, c10sb_r17c]

  decide

theorem c10sb_r18t : keccakTheta 0xe235a63de9241f9ed671443db2692bb0a04dd0254e7972834c52111e740ae181d1f361b77c48cd0c666d53729f7209e71ea170a95e2a5e97f60997a4e1b75ff6d5be5bde9fc596b5aa0cca39fa1e58e8d6448535b947474ac8bea7ca18f0319ae08e6d3953a670561e1eed2fdf0ea92a287abf304c88b8c693ba16df8894f25c418816b4fd232720eda99ee45836ffc2e5662d2626eda8ed296177237ad90cb3f35b95c45ac047280f96ccdc4cd21c6c9bb15e10ffe6a9092e41fae1cbfe7fd059eb1f094fb7b397 = 0xea5b162253074463735848b3d35ae8d6707832611d2f8442eef8b9123cca64567aa47287d2a93b0d6e03e36d2551521abb887c273f199df1263c75e0b2e1a9377714f3d2d7051362015bd90954ffaee9de2a352a03641cb76d97ab4479c3f2fc30bb8f7d00f08697bcb4452397ce2cfd832dac00e2694ec79bd4a6c032b7a9a1e4a11a3a9c10e4463d9c7ca00b60090347cc852a6e2d2d3a82366413d438fab2fb3525dbe0e31cd5aabfc0522de1df0a4b84bc54acb05fc88ceb52ed833efa07f2bc0c39e1564596 := by decide

theorem c10sb_r18p : keccakRhoPi keccak_rotc_std 0xea5b162253074463735848b3d35ae8d6707832611d2f8442eef8b9123cca64567aa47287d2a93b0d6e03e36d2551521abb887c273f199df1263c75e0b2e1a9377714f3d2d7051362015bd90954ffaee9de2a352a03641cb76d97ab4479c3f2fc30bb8f7d00f08697bcb4452397ce2cfd832dac00e2694ec79bd4a6c032b7a9a1e4a11a3a9c10e4463d9c7ca00b60090347cc852a6e2d2d3a82366413d438fab2fb3525dbe0e31cd5aabfc0522de1df0a4b84bc54acb05fc88ceb52ed833efa07f2bc0c39e1564596 = 0xbbe2e448f329915bff5dd202b7b212a9b20e5bef151a95012372508d1d4e087212e12f152b2c17f2d6735848b3d35ae83af05970d49b931ed1148e5f38b3f6f2438fab282366413ddf0718e6afd9a92eca1f4aa4ec35ea9103e36d2551521a6e88f387e5f8db2f56671f2802d80240cf19d6a5db067df40f4e0f064c23a5f088a26c4ee29e7a5ae0196d6007134a763c6c032b7a9a19bd4a22de1df0aaabfc05c58894c1d118fa9684e7e333be37710f8434b985dc7be807d2d3a47cc852a6e2f2bc0c39e1564596 := by decide

theorem c10sb_r18c : keccakChi 0xbbe2e448f329915bff5dd202b7b212a9b20e5bef151a95012372508d1d4e087212e12f152b2c17f2d6735848b3d35ae83af05970d49b931ed1148e5f38b3f6f2438fab282366413ddf0718e6afd9a92eca1f4aa4ec35ea9103e36d2551521a6e88f387e5f8db2f56671f2802d80240cf19d6a5db067df40f4e0f064c23a5f088a26c4ee29e7a5ae0196d6007134a763c6c032b7a9a19bd4a22de1df0aaabfc05c58894c1d118fa9684e7e333be37710f8434b985dc7be807d2d3a47cc852a6e2f2bc0c39e1564596 = 0x9af0b4c0e76b995bff5cd917bfb61409b2ac7fa7551314536e23d08dbfee0ada82ed24772b3c82f3d6fbfb40b3f51af933f459d6d893321815178e571bf3be12696ffa08e76e40314f171cb1b7481fecac1642a43437ea511223c87e531a0e6040ef856554fecfc7641f4002d90250e79136223e26a4db1f020e244633b5f1c282bc5752167056e5556e600b32cfd634ce03259a1629b58a33b25df5abe9be31c5cb3485d91858f6b6d3eb0b9e71740fc53cad459d736297d210e64eea56b7eaf69815b8f57f0d93 := by decide

theorem c10sb_r18 : keccakRound keccak_rotc_std 0xe235a63de9241f9ed671443db2692bb0a04dd0254e7972834c52111e740ae181d1f361b77c48cd0c666d53729f7209e71ea170a95e2a5e97f60997a4e1b75ff6d5be5bde9fc596b5aa0cca39fa1e58e8d6448535b947474ac8bea7ca18f0319ae08e6d3953a670561e1eed2fdf0ea92a287abf304c88b8c693ba16df8894f25c418816b4fd232720eda99ee45836ffc2e5662d2626eda8ed296177237ad90cb3f35b95c45ac047280f96ccdc4cd21c6c9bb15e10ffe6a9092e41fae1cbfe7fd059eb1f094fb7b397 18 = 0x9af0b4c0e76b995bff5cd917bfb61409b2ac7fa7551314536e23d08dbfee0ada82ed24772b3c82f3d6fbfb40b3f51af933f459d6d893321815178e571bf3be12696ffa08e76e40314f171cb1b7481fecac1642a43437ea511223c87e531a0e6040ef856554fecfc7641f4002d90250e79136223e26a4db1f020e244633b5f1c282bc5752167056e5556e600b32cfd634ce03259a1629b58a33b25df5abe9be31c5cb3485d91858f6b6d3eb0b9e71740fc53cad459d736297d210e64eea56b7eaf69815b8f57f8d99 := by

  simp only [keccakRound, c10sb_r18t, c10sb_r18p, c10sb_r18c]

  decide

theorem c10sb_r19t : keccakTheta 0x9af0b4c0e76b995bff5cd917bfb61409b2ac7fa7551314536e23d08dbfee0ada82ed24772b3c82f3d6fbfb40b3f51af933f459d6d893321815178e571bf3be12696ffa08e76e40314f171cb1b7481fecac1642a43437ea511223c87e531a0e6040ef856554fecfc7641f4002d90250e79136223e26a4db1f020e244633b5f1c282bc5752167056e5556e600b32cfd634ce03259a1629b58a33b25df5abe9be31c5cb3485d91858f6b6d3eb0b9e71740fc53cad459d736297d210e64eea56b7eaf69815b8f57f8d99 = 0x43d8e54d93d97891c7ea5b031e1d44a218253f395092190819c8f18f30eddd385bb46b365ac272ec0fd3aacdc747fb330b42dbc2793862b3bf9ecec91e72b3491e84db0a686d97d3964e53f0c6b6eff3753e132940850b9b2a954a6af2b15ecbea66c5fb517fc29c13f4610056018705486f6d7f575a2b00db2675cb47071008ba0ad546b7db064effe72095374edb6fb9e80498992a6268eaeb12b4da174e2e1ce36508adaab93c8e65691f3fda24a46fb5eddb98f26fcca5fbc74c655560082fc15af984817d86 := by decide

theorem c10sb_r19p : keccakRhoPi keccak_rotc_std 0x43d8e54d93d97891c7ea5b031e1d44a218253f395092190819c8f18f30eddd385bb46b365ac272ec0fd3aacdc747fb330b42dbc2793862b3bf9ecec91e72b3491e84db0a686d97d3964e53f0c6b6eff3753e132940850b9b2a954a6af2b15ecbea66c5fb517fc29c13f4610056018705486f6d7f575a2b00db2675cb47071008ba0ad546b7db064effe72095374edb6fb9e80498992a6268eaeb12b4da174e2e1ce36508adaab93c8e65691f3fda24a46fb5eddb98f26fcca5fbc74c655560082fc15af984817d86 = 0x6723c63cc3b774e06ddfe72c9ca7e18d4285cdba9f0994a0275d056aa35bed831bed7b76e63c9bf3a2c7ea5b031e1d4467648f3959a4dfcfd1840158061c144fa174e2eeaeb12b4d456d55c9e0e71b28acd96b09cbb16ed1d3aacdc747fb330fd5e562bd96552a94f9c8254dd3b6dbff4bf78e98caaac0110304a7e72a124321b2fa63d09b614d0d437b6bfabad158025cb47071008db267f3fda24a48e65691395364f65e2450f6784f270c5661685bfe14e753362fda8ba6268b9e804989922fc15af984817d86 := by decide

theorem c10sb_r19c : keccakChi 0x6723c63cc3b774e06ddfe72c9ca7e18d4285cdba9f0994a0275d056aa35bed831bed7b76e63c9bf3a2c7ea5b031e1d4467648f3959a4dfcfd1840158061c144fa174e2eeaeb12b4d456d55c9e0e71b28acd96b09cbb16ed1d3aacdc747fb330fd5e562bd96552a94f9c8254dd3b6dbff4bf78e98caaac0110304a7e72a124321b2fa63d09b614d0d437b6bfabad158025cb47071008db267f3fda24a48e65691395364f65e2450f6784f270c5661685bfe14e753362fda8ba6268b9e804989922fc15af984817d86 = 0x4333c234c2f410e07513de6eb8af6a9e40a5cdaadc1980c00a07276ea3fd8c8e5b6db3e6fa3c8bd302d7487d0d0e3d01224c9ab9b945dde75107611a0406144f87146ccff711e0cd15ed54d9e0eb0f2a1cd14a4cdaa5753f908c495747f1b30ff9b440b51e556644fbc2a80f921ccaf44fd2cc28ceebe0110f04f7d62a1be347420363d8db85599d427fefdd9ac35a22ec34707101adb76af0b6a9c0f2b61e91b975e5f05e6cd0e67ecf3d05d6e0455bff04a7a13e2bca2fa66d8b92c009a9c277d13eb8b2a72f8f := by decide

theorem c10sb_r19 : keccakRound keccak_rotc_std 0x9af0b4c0e76b995bff5cd917bfb61409b2ac7fa7551314536e23d08dbfee0ada82ed24772b3c82f3d6fbfb40b3f51af933f459d6d893321815178e571bf3be12696ffa08e76e40314f171cb1b7481fecac1642a43437ea511223c87e531a0e6040ef856554fecfc7641f4002d90250e79136223e26a4db1f020e244633b5f1c282bc5752167056e5556e600b32cfd634ce03259a1629b58a33b25df5abe9be31c5cb3485d91858f6b6d3eb0b9e71740fc53cad459d736297d210e64eea56b7eaf69815b8f57f8d99 19 = 0x4333c234c2f410e07513de6eb8af6a9e40a5cdaadc1980c00a07276ea3fd8c8e5b6db3e6fa3c8bd302d7487d0d0e3d01224c9ab9b945dde75107611a0406144f87146ccff711e0cd15ed54d9e0eb0f2a1cd14a4cdaa5753f908c495747f1b30ff9b440b51e556644fbc2a80f921ccaf44fd2cc28ceebe0110f04f7d62a1be347420363d8db85599d427fefdd9ac35a22ec34707101adb76af0b6a9c0f2b61e91b975e5f05e6cd0e67ecf3d05d6e0455bff04a7a13e2bca2fa66d8b92c009a9c2f7d13eb832a72f85 := by

  simp only [keccakRound, c10sb_r19t, c10sb_r19p, c10sb_r19c]

  decide

theorem c10sb_r20t : keccakTheta 0x4333c234c2f410e07513de6eb8af6a9e40a5cdaadc1980c00a07276ea3fd8c8e5b6db3e6fa3c8bd302d7487d0d0e3d01224c9ab9b945dde75107611a0406144f87146ccff711e0cd15ed54d9e0eb0f2a1cd14a4cdaa5753f908c495747f1b30ff9b440b51e556644fbc2a80f921ccaf44fd2cc28ceebe0110f04f7d62a1be347420363d8db85599d427fefdd9ac35a22ec34707101adb76af0b6a9c0f2b61e91b975e5f05e6cd0e67ecf3d05d6e0455bff04a7a13e2bca2fa66d8b92c009a9c2f7d13eb832a72f85 = 0xb447e9b7a1d0a3a8f6f7de51185ddea78a13735d4db109bea6e9d3f372941cfec939515f95bd9092f5a363fe6e2a8e49a1a89a8619b769de9bb1dfed95ae9d312bfa9852267870bd87b9b6608f6a146beba561cfb981c67713684968e70307363302fe428ffdef3a572c5c9243755a84dd862e91a16afb50f870dc55493f500fc1e763e77b77eda488c9512a0b6bd35c40da84ecd0c4271a62e24b799d3705d04e01ce733d4863aefd2b3d3a7612f16235b21956af8343510a837f0f116039b26585dc015d2634c4 := by decide

theorem c10sb_r20p : keccakRhoPi keccak_rotc_std 0xb447e9b7a1d0a3a8f6f7de51185ddea78a13735d4db109bea6e9d3f372941cfec939515f95bd9092f5a363fe6e2a8e49a1a89a8619b769de9bb1dfed95ae9d312bfa9852267870bd87b9b6608f6a146beba561cfb981c67713684968e70307363302fe428ffdef3a572c5c9243755a84dd862e91a16afb50f870dc55493f500fc1e763e77b77eda488c9512a0b6bd35c40da84ecd0c4271a62e24b799d3705d04e01ce733d4863aefd2b3d3a7612f16235b21956af8343510a837f0f116039b26585dc015d2634c4 = 0x9ba74fcdca5073fad428d70f736cc11ec0e33bf5d2b0e7dcd260f3b1f3bdbbf64d6c8655abe0d0d4a7f6f7de51185ddeeff6cad74e98cdd8b172490dd56a115cd3705d062e24b79999ea431d72700e73457e56f6424b24e5a363fe6e2a8e49f5d1ce060e6c26d09232544a82daf4d7221506fe1e22c07364d1426e6ba9b621370e17a57f530a44cfec31748d0b57da86c55493f500ff870da7612f162fd2b3d3fa6de87428ea2d1150c336ed3bd43513ef79d19817f2147f4271a40da84ecd0c6585dc015d2634c4 := by decide

theorem c10sb_r20c : keccakChi 0x9ba74fcdca5073fad428d70f736cc11ec0e33bf5d2b0e7dcd260f3b1f3bdbbf64d6c8655abe0d0d4a7f6f7de51185ddeeff6cad74e98cdd8b172490dd56a115cd3705d062e24b79999ea431d72700e73457e56f6424b24e5a363fe6e2a8e49f5d1ce060e6c26d09232544a82daf4d7221506fe1e22c07364d1426e6ba9b621370e17a57f530a44cfec31748d0b57da86c55493f500ff870da7612f162fd2b3d3fa6de87428ea2d1150c336ed3bd43513ef79d19817f2147f4271a40da84ecd0c6585dc015d2634c4 = 0x9a73e6d9a4d58d89060571f52cc411acb6433355aa0d53cc66837bbd2f1bbf44def8e11abe094dce5e6ebdc5d1cec56f7fecad66cf8cff9b1727c05c46a015a9df4dfd424b47b19b9e84314a33a0e37672e56769a7fa0e7b36356660a0e1af595d2069e2c67f4921075b2e2d87cde47d48cfa1206c273f49156fe8aa99b253b2836a46b554ad60f3d713e8da3e3fbb6c752128750f783448f404b1e24d2eb51f81dc87888a2e419554322ec6ed025d74555198817d81c7f52f38268804aec0cc88d8d914a9624b7 := by decide

theorem c10sb_r20 : keccakRound keccak_rotc_std 0x4333c234c2f410e07513de6eb8af6a9e40a5cdaadc1980c00a07276ea3fd8c8e5b6db3e6fa3c8bd302d7487d0d0e3d01224c9ab9b945dde75107611a0406144f87146ccff711e0cd15ed54d9e0eb0f2a1cd14a4cdaa5753f908c495747f1b30ff9b440b51e556644fbc2a80f921ccaf44fd2cc28ceebe0110f04f7d62a1be347420363d8db85599d427fefdd9ac35a22ec34707101adb76af0b6a9c0f2b61e91b975e5f05e6cd0e67ecf3d05d6e0455bff04a7a13e2bca2fa66d8b92c009a9c2f7d13eb832a72f85 20 = 0x9a73e6d9a4d58d89060571f52cc411acb6433355aa0d53cc66837bbd2f1bbf44def8e11abe094dce5e6ebdc5d1cec56f7fecad66cf8cff9b1727c05c46a015a9df4dfd424b47b19b9e84314a33a0e37672e56769a7fa0e7b36356660a0e1af595d2069e2c67f4921075b2e2d87cde47d48cfa1206c273f49156fe8aa99b253b2836a46b554ad60f3d713e8da3e3fbb6c752128750f783448f404b1e24d2eb51f81dc87888a2e419554322ec6ed025d74555198817d81c7f52f38268804aec0c488d8d91ca96a436 := by

  simp only [keccakRound, c10sb_r20t, c10sb_r20p, c10sb_r20c]

  decide

theorem c10sb_r21t : keccakTheta 0x9a73e6d9a4d58d89060571f52cc411acb6433355aa0d53cc66837bbd2f1bbf44def8e11abe094dce5e6ebdc5d1cec56f7fecad66cf8cff9b1727c05c46a015a9df4dfd424b47b19b9e84314a33a0e37672e56769a7fa0e7b36356660a0e1af595d2069e2c67f4921075b2e2d87cde47d48cfa1206c273f49156fe8aa99b253b2836a46b554ad60f3d713e8da3e3fbb6c752128750f783448f404b1e24d2eb51f81dc87888a2e419554322ec6ed025d74555198817d81c7f52f38268804aec0c488d8d91ca96a436 = 0x6ea29074555473e7c3c953deac752cb0463c6307bb646b430eee1b753f8093f7135aafe12affa25282e345c59205c769a457ce179241a2533c2a2c3725aebf255572f31ac9c5531ae75d62e4222538b9002bf86f55668bd8e0ca52a7f4b7775f188a56accda34aedd8f39e2c350df6448a39dbe287dd457af653509366820e047b9fa0aaabf3bba5b0296ebf422745c90fd43e49bd86ab47d1f56aeea5cddddf9f18666147bbcf2606ea262d9069487dc80d49baf61ca2009a75aea66d3bc40f1638ac614b8992b8 := by decide

theorem c10sb_r21p : keccakRhoPi keccak_rotc_std 0x6ea29074555473e7c3c953deac752cb0463c6307bb646b430eee1b753f8093f7135aafe12affa25282e345c59205c769a457ce179241a2533c2a2c3725aebf255572f31ac9c5531ae75d62e4222538b9002bf86f55668bd8e0ca52a7f4b7775f188a56accda34aedd8f39e2c350df6448a39dbe287dd457af653509366820e047b9fa0aaabf3bba5b0296ebf422745c90fd43e49bd86ab47d1f56aeea5cddddf9f18666147bbcf2606ea262d9069487dc80d49baf61ca2009a75aea66d3bc40f1638ac614b8992b8 = 0x3bb86dd4fe024fdc4a7173cebac5c844b345ec0015fc37aad2bdcfd05555f9dd3203526ebd872880b0c3c953deac752c161b92d75f929e15ce78b0d437d913635cddddfd1f56aeea0a3dde7934f8c333bf84abfe89484d6ae345c59205c769824fe96eeebfc194a50a5bafd089d1726c34eb5d4cda77881f68c78c60f76c8d68aa634aae5e63593851cedf143eea2bd409366820e04f6535d9069487d06ea262a41d15551cf9dba8c2f248344a748af91a5768c452b5666d6ab470fd43e49bd81638ac614b8992b8 := by decide

theorem c10sb_r21c : keccakChi 0x3bb86dd4fe024fdc4a7173cebac5c844b345ec0015fc37aad2bdcfd05555f9dd3203526ebd872880b0c3c953deac752c161b92d75f929e15ce78b0d437d913635cddddfd1f56aeea0a3dde7934f8c333bf84abfe89484d6ae345c59205c769824fe96eeebfc194a50a5bafd089d1726c34eb5d4cda77881f68c78c60f76c8d68aa634aae5e63593851cedf143eea2bd409366820e04f6535d9069487d06ea262a41d15551cf9dba8c2f248344a748af91a5768c452b5666d6ab470fd43e49bd81638ac614b8992b8 = 0xfb04e044be529e814a7261e4bb40e84482cde01051fe30329a8ddc1eff5431991343726ebd2f2ea2e403c8d7d5aa59e41c2784ff7fc21c066eb8f9d4b7f5724b4cdedffe575422fe881dfe791471d232b594096e88c83f0ae32e919257f0e9975369448237c990cdaa5f2ec089d71b6e714b1d62ec770c9e68f7e440d76dc87d3b635a295e617b3a114a5b549fe6af94a317688aa04e351d89ce0393cecea8a2cc9945c91c9dd2e8d0d2e01409748ae93e5a7d85463c376daa1470cd4ba41348067ba4615b98f69d := by decide

theorem c10sb_r21 : keccakRound keccak_rotc_std 0x9a73e6d9a4d58d89060571f52cc411acb6433355aa0d53cc66837bbd2f1bbf44def8e11abe094dce5e6ebdc5d1cec56f7fecad66cf8cff9b1727c05c46a015a9df4dfd424b47b19b9e84314a33a0e37672e56769a7fa0e7b36356660a0e1af595d2069e2c67f4921075b2e2d87cde47d48cfa1206c273f49156fe8aa99b253b2836a46b554ad60f3d713e8da3e3fbb6c752128750f783448f404b1e24d2eb51f81dc87888a2e419554322ec6ed025d74555198817d81c7f52f38268804aec0c488d8d91ca96a436 21 = 0xfb04e044be529e814a7261e4bb40e84482cde01051fe30329a8ddc1eff5431991343726ebd2f2ea2e403c8d7d5aa59e41c2784ff7fc21c066eb8f9d4b7f5724b4cdedffe575422fe881dfe791471d232b594096e88c83f0ae32e919257f0e9975369448237c990cdaa5f2ec089d71b6e714b1d62ec770c9e68f7e440d76dc87d3b635a295e617b3a114a5b549fe6af94a317688aa04e351d89ce0393cecea8a2cc9945c91c9dd2e8d0d2e01409748ae93e5a7d85463c376daa1470cd4ba41348867ba4615b98761d := by

  simp only [keccakRound, c10sb_r21t, c10sb_r21p, c10sb_r21c]

  decide

theorem c10sb_r22t : keccakTheta 0xfb04e044be529e814a7261e4bb40e84482cde01051fe30329a8ddc1eff5431991343726ebd2f2ea2e403c8d7d5aa59e41c2784ff7fc21c066eb8f9d4b7f5724b4cdedffe575422fe881dfe791471d232b594096e88c83f0ae32e919257f0e9975369448237c990cdaa5f2ec089d71b6e714b1d62ec770c9e68f7e440d76dc87d3b635a295e617b3a114a5b549fe6af94a317688aa04e351d89ce0393cecea8a2cc9945c91c9dd2e8d0d2e01409748ae93e5a7d85463c376daa1470cd4ba41348867ba4615b98761d = 0x6e8e43ffdacb2fe4c7851a9be2d967fd4a57481e130cc6625f351db73f1b8bb3f7a098d5019590e071896b6cb133e88191d0ff80265b93bfa62251daf507841b89661e57971b98d46cfe14c2a8cb6c70201eaad5ec518e6f6ed9eaed0e69662e9bf3ec8c753b669d6fe7ef694998a14495a8f7d950cdb2dcfd7d47fbb3f47918b694215607f8f483d9d0f35add1459c466afa92360018f376d2de928727416e05913e6727804638d5d259b6b50ed0550f6c0d58b04cec13d6facb1648beba96262984edae722c85f := by decide

theorem c10sb_r22p : keccakRhoPi keccak_rotc_std 0x6e8e43ffdacb2fe4c7851a9be2d967fd4a57481e130cc6625f351db73f1b8bb3f7a098d5019590e071896b6cb133e88191d0ff80265b93bfa62251daf507841b89661e57971b98d46cfe14c2a8cb6c70201eaad5ec518e6f6ed9eaed0e69662e9bf3ec8c753b669d6fe7ef694998a14495a8f7d950cdb2dcfd7d47fbb3f47918b694215607f8f483d9d0f35add1459c466afa92360018f376d2de928727416e05913e6727804638d5d259b6b50ed0550f6c0d58b04cec13d6facb1648beba96262984edae722c85f = 0x7cd476dcfc6e2ecd96d8e0d9fc29855128c737900f556af641db4a10ab03fc7a7db03562c133b04ffdc7851a9be2d96728ed7a83c20dd3119fbda526628511bf27416e06d2de928793c0231c6ac89f33635406564383de82896b6cb133e88171da1cd2cc5cddb3d5743cd6b745167136df5962c917d752c4494ae903c26198cc731a912cc3caf2e3ad47beca866d96e47fbb3f47918fd7d4b50ed05505d259b690fff6b2cbf91ba3f004cb7277f23a1fdb34ecdf9f6463a918f3766afa92360062984edae722c85f := by decide

theorem c10sb_r22c : keccakChi 0x7cd476dcfc6e2ecd96d8e0d9fc29855128c737900f556af641db4a10ab03fc7a7db03562c133b04ffdc7851a9be2d96728ed7a83c20dd3119fbda526628511bf27416e06d2de928793c0231c6ac89f33635406564383de82896b6cb133e88171da1cd2cc5cddb3d5743cd6b745167136df5962c917d752c4494ae903c26198cc731a912cc3caf2e3ad47beca866d96e47fbb3f47918fd7d4b50ed05505d259b690fff6b2cbf91ba3f004cb7277f23a1fdb34ecdf9f6463a918f3766afa92360062984edae722c85f = 0x7c9f3cccd66e62fd97f8e1fbfd38155340c321940f13407ad7c38a595b2b797b55b400e2c567b2cbd9c6c9180bf4d9e32aed5887a205d5014abf203e7b6719d90701348752d650870b7ca23c4ac99e0b437092600383ffb015620c3827bc8135b808d08a1cdeed57755ffa8666367116555962810f1ed00503fbc601526c1e8cc71e8178c658b3d1a507d6c9864c9ee82da33e63d00db7d7354a50dd03b25996889cc692d3692da39204c33a53f0fa43dbcfd85f176d620938f3754a9a002e16a19cc64fe24689f6 := by decide

theorem c10sb_r22 : keccakRound keccak_rotc_std 0xfb04e044be529e814a7261e4bb40e84482cde01051fe30329a8ddc1eff5431991343726ebd2f2ea2e403c8d7d5aa59e41c2784ff7fc21c066eb8f9d4b7f5724b4cdedffe575422fe881dfe791471d232b594096e88c83f0ae32e919257f0e9975369448237c990cdaa5f2ec089d71b6e714b1d62ec770c9e68f7e440d76dc87d3b635a295e617b3a114a5b549fe6af94a317688aa04e351d89ce0393cecea8a2cc9945c91c9dd2e8d0d2e01409748ae93e5a7d85463c376daa1470cd4ba41348867ba4615b98761d 22 = 0x7c9f3cccd66e62fd97f8e1fbfd38155340c321940f13407ad7c38a595b2b797b55b400e2c567b2cbd9c6c9180bf4d9e32aed5887a205d5014abf203e7b6719d90701348752d650870b7ca23c4ac99e0b437092600383ffb015620c3827bc8135b808d08a1cdeed57755ffa8666367116555962810f1ed00503fbc601526c1e8cc71e8178c658b3d1a507d6c9864c9ee82da33e63d00db7d7354a50dd03b25996889cc692d3692da39204c33a53f0fa43dbcfd85f176d620938f3754a9a002e16a19cc64f624689f7 := by

  simp only [keccakRound, c10sb_r22t, c10sb_r22p, c10sb_r22c]

  decide

theorem c10sb_r23t : keccakTheta 0x7c9f3cccd66e62fd97f8e1fbfd38155340c321940f13407ad7c38a595b2b797b55b400e2c567b2cbd9c6c9180bf4d9e32aed5887a205d5014abf203e7b6719d90701348752d650870b7ca23c4ac99e0b437092600383ffb015620c3827bc8135b808d08a1cdeed57755ffa8666367116555962810f1ed00503fbc601526c1e8cc71e8178c658b3d1a507d6c9864c9ee82da33e63d00db7d7354a50dd03b25996889cc692d3692da39204c33a53f0fa43dbcfd85f176d620938f3754a9a002e16a19cc64f624689f7 = 0xbf7c6651f9cf334181d8f003ba8bb2440ad5c0e8f08790bad1fd63f94979c5f459607927d1f6471d1a2593852455885f3ccd497fe5b6721600a9c14284f3c919013fdd274084ec0807a8dbf95e586bdd8093c8fd2c22ae0c03421dc0600f2622f21e31f6e34a3d97736113267464cd99598d1b441b8f25d3c0189c9c7dcd4f30d13e908081eb14c6ef1137b579d84e282b9dd7c3c25f0b58399e29181723ac404b7f9c0ffcc87c1f8424d2c214435d5491d93923e8f9b2c93ecd9cea88529299ad48bf8a76d77c21 := by decide

theorem c10sb_r23p : keccakRhoPi keccak_rotc_std 0xbf7c6651f9cf334181d8f003ba8bb2440ad5c0e8f08790bad1fd63f94979c5f459607927d1f6471d1a2593852455885f3ccd497fe5b6721600a9c14284f3c919013fdd274084ec0807a8dbf95e586bdd8093c8fd2c22ae0c03421dc0600f2622f21e31f6e34a3d97736113267464cd99598d1b441b8f25d3c0189c9c7dcd4f30d13e908081eb14c6ef1137b579d84e282b9dd7c3c25f0b58399e29181723ac404b7f9c0ffcc87c1f8424d2c214435d5491d93923e8f9b2c93ecd9cea88529299ad48bf8a76d77c21 = 0x47f58fe525e717d3b0d7ba0f51b7f2bc1157064049e47e9663689f484040f58a64764e48fa3e6cb24481d8f003ba8bb2e0a14279e48c8054844c99d1933665cd723ac40399e291817fe643e0fa5bfce0e49f47d91c7565812593852455885f1a80c01e4c4406843bc44ded5e76138a3b7d9b39d510a52532415ab81d1e10f2179d810027fba4e810cc68da20dc792e9ac9c7dcd4f30c0189214435d548424d2c19947e73ccd06fdf2ffcb6ce42c799a951ecbf90f18fb71af0b582b9dd7c3c25ad48bf8a76d77c21 := by decide

theorem c10sb_r23c : keccakChi 0x47f58fe525e717d3b0d7ba0f51b7f2bc1157064049e47e9663689f484040f58a64764e48fa3e6cb24481d8f003ba8bb2e0a14279e48c8054844c99d1933665cd723ac40399e291817fe643e0fa5bfce0e49f47d91c7565812593852455885f1a80c01e4c4406843bc44ded5e76138a3b7d9b39d510a52532415ab81d1e10f2179d810027fba4e810cc68da20dc792e9ac9c7dcd4f30c0189214435d548424d2c19947e73ccd06fdf2ffcb6ce42c799a951ecbf90f18fb71af0b582b9dd7c3c25ad48bf8a76d77c21 = 0x44fd1ee525a786db90d5fa078baf9a9c567703a06da47bd5c3e82747505375a274614e48f39a66a644995cf3021a8ab3dbc741791ccdf414804c015190046e6f129b862bfd6a1191fba25a30f84f98ac64db83d37a67ef883c93bd2055085f2840cc5c954c73a4bae15e6c7e679bd13b7d1b2bd510a1213289d9701dad1cf296bd8505e7bbe6e5388c326238d8693c9dd846dcd3d088c189256c37f54433633e49217e4245f86fdb8bb4374670c0898941ecf7a17d9fd14cdea582f7df3c3484ac00828a5654ff3b := by decide

theorem c10sb_r23 : keccakRound keccak_rotc_std 0x7c9f3cccd66e62fd97f8e1fbfd38155340c321940f13407ad7c38a595b2b797b55b400e2c567b2cbd9c6c9180bf4d9e32aed5887a205d5014abf203e7b6719d90701348752d650870b7ca23c4ac99e0b437092600383ffb015620c3827bc8135b808d08a1cdeed57755ffa8666367116555962810f1ed00503fbc601526c1e8cc71e8178c658b3d1a507d6c9864c9ee82da33e63d00db7d7354a50dd03b25996889cc692d3692da39204c33a53f0fa43dbcfd85f176d620938f3754a9a002e16a19cc64f624689f7 23 = 0x44fd1ee525a786db90d5fa078baf9a9c567703a06da47bd5c3e82747505375a274614e48f39a66a644995cf3021a8ab3dbc741791ccdf414804c015190046e6f129b862bfd6a1191fba25a30f84f98ac64db83d37a67ef883c93bd2055085f2840cc5c954c73a4bae15e6c7e679bd13b7d1b2bd510a1213289d9701dad1cf296bd8505e7bbe6e5388c326238d8693c9dd846dcd3d088c189256c37f54433633e49217e4245f86fdb8bb4374670c0898941ecf7a17d9fd14cdea582f7df3c34842c00828ad6547f33 := by

  simp only [keccakRound, c10sb_r23t, c10sb_r23p, c10sb_r23c]

  decide

theorem c10sb_perm : keccak_f1600 keccak_rotc_std 0x800000000000000000000000000000000000000000000000000000000000000000000000000000000000000000000000000000000000000000000000000000000000000000000001c7711cc7711cc771553c284ed2363f0cc549bd341b715c3672b30200000000000000000000000000000000000000000000000000000000000000000000000000 = 0x44fd1ee525a786db90d5fa078baf9a9c567703a06da47bd5c3e82747505375a274614e48f39a66a644995cf3021a8ab3dbc741791ccdf414804c015190046e6f129b862bfd6a1191fba25a30f84f98ac64db83d37a67ef883c93bd2055085f2840cc5c954c73a4bae15e6c7e679bd13b7d1b2bd510a1213289d9701dad1cf296bd8505e7bbe6e5388c326238d8693c9dd846dcd3d088c189256c37f54433633e49217e4245f86fdb8bb4374670c0898941ecf7a17d9fd14cdea582f7df3c34842c00828ad6547f33 := by

  rw [keccak_f1600_expand, c10sb_r0, c10sb_r1, c10sb_r2, c10sb_r3, c10sb_r4, c10sb_r5, c10sb_r6, c10sb_r7, c10sb_r8, c10sb_r9, c10sb_r10, c10sb_r11, c10sb_r12, c10sb_r13, c10sb_r14, c10sb_r15, c10sb_r16, c10sb_r17, c10sb_r18, c10sb_r19, c10sb_r20, c10sb_r21, c10sb_r22, c10sb_r23]

theorem c10sb_sq : keccakSqueeze32 0x44fd1ee525a786db90d5fa078baf9a9c567703a06da47bd5c3e82747505375a274614e48f39a66a644995cf3021a8ab3dbc741791ccdf414804c015190046e6f129b862bfd6a1191fba25a30f84f98ac64db83d37a67ef883c93bd2055085f2840cc5c954c73a4bae15e6c7e679bd13b7d1b2bd510a1213289d9701dad1cf296bd8505e7bbe6e5388c326238d8693c9dd846dcd3d088c189256c37f54433633e49217e4245f86fdb8bb4374670c0898941ecf7a17d9fd14cdea582f7df3c34842c00828ad6547f33 = [51, 127, 84, 214, 138, 130, 0, 44, 132, 52, 60, 223, 247, 130, 165, 222, 76, 209, 159, 125, 161, 247, 236, 65, 137, 137, 192, 112, 70, 55, 180, 139] := by decide

theorem c10sb_value : keccak256 [0, 0, 0, 0, 0, 0, 0, 0, 0, 0, 0, 0, 0, 0, 0, 0, 0, 0, 0, 0, 0, 0, 0, 0, 0, 0, 0, 0, 0, 0, 0, 0, 0, 0, 0, 0, 0, 2, 179, 114, 54, 92, 113, 27, 52, 189, 73, 197, 12, 63, 54, 210, 78, 40, 60, 85, 113, 199, 28, 113, 199, 28, 113, 199] = [51, 127, 84, 214, 138, 130, 0, 44, 132, 52, 60, 223, 247, 130, 165, 222, 76, 209, 159, 125, 161, 247, 236, 65, 137, 137, 192, 112, 70, 55, 180, 139] := by

  rw [keccak256_single_block [0, 0, 0, 0, 0, 0, 0, 0, 0, 0, 0, 0, 0, 0, 0, 0, 0, 0, 0, 0, 0, 0, 0, 0, 0, 0, 0, 0, 0, 0, 0, 0, 0, 0, 0, 0, 0, 2, 179, 114, 54, 92, 113, 27, 52, 189, 73, 197, 12, 63, 54, 210, 78, 40, 60, 85, 113, 199, 28, 113, 199, 28, 113, 199] [0, 0, 0, 0, 0, 0, 0, 0, 0, 0, 0, 0, 0, 0, 0, 0, 0, 0, 0, 0, 0, 0, 0, 0, 0, 0, 0, 0, 0, 0, 0, 0, 0, 0, 0, 0, 0, 2, 179, 114, 54, 92, 113, 27, 52, 189, 73, 197, 12, 63, 54, 210, 78, 40, 60, 85, 113, 199, 28, 113, 199, 28, 113, 199, 1, 0, 0, 0, 0, 0, 0, 0, 0, 0, 0, 0, 0, 0, 0, 0, 0, 0, 0, 0, 0, 0, 0, 0, 0, 0, 0, 0, 0, 0, 0, 0, 0, 0, 0, 0, 0, 0, 0, 0, 0, 0, 0, 0, 0, 0, 0, 0, 0, 0, 0, 0, 0, 0, 0, 0, 0, 0, 0, 0, 0, 0, 0, 0, 0, 0, 0, 0, 0, 0, 0, 128] 0x800000000000000000000000000000000000000000000000000000000000000000000000000000000000000000000000000000000000000000000000000000000000000000000001c7711cc7711cc771553c284ed2363f0cc549bd341b715c3672b30200000000000000000000000000000000000000000000000000000000000000000000000000 c10sb_pad (by decide) (by decide) c10sb_abs, c10sb_perm, c10sb_sq]

theorem c10oa_pad : keccakPad [255, 0, 0, 0, 0, 0, 0, 0, 0, 0, 0, 0, 0, 0, 0, 0, 0, 0, 0, 0, 0, 142, 75, 142, 24, 21, 106, 28, 114, 113, 5, 92, 229, 183, 239, 83, 187, 55, 2, 148, 235, 214, 49, 163, 185, 84, 24, 169, 45, 164, 110, 104, 31, 0, 0, 0, 0, 0, 0, 0, 0, 0, 0, 0, 0, 0, 0, 0, 0, 0, 0, 0, 0, 0, 0, 0, 0, 0, 0, 0, 0, 0, 0, 0, 0] = [255, 0, 0, 0, 0, 0, 0, 0, 0, 0, 0, 0, 0, 0, 0, 0, 0, 0, 0, 0, 0, 142, 75, 142, 24, 21, 106, 28, 114, 113, 5, 92, 229, 183, 239, 83, 187, 55, 2, 148, 235, 214, 49, 163, 185, 84, 24, 169, 45, 164, 110, 104, 31, 0, 0, 0, 0, 0, 0, 0, 0, 0, 0, 0, 0, 0, 0, 0, 0, 0, 0, 0, 0, 0, 0, 0, 0, 0, 0, 0, 0, 0, 0, 0, 0, 1, 0, 0, 0, 0, 0, 0, 0, 0, 0, 0, 0, 0, 0, 0, 0, 0, 0, 0, 0, 0, 0, 0, 0, 0, 0, 0, 0, 0, 0, 0, 0, 0, 0, 0, 0, 0, 0, 0, 0, 0, 0, 0, 0, 0, 0, 0, 0, 0, 0, 128] := by decide

theorem c10oa_abs : keccakAbsorbBlock 0 [255, 0, 0, 0, 0, 0, 0, 0, 0, 0, 0, 0, 0, 0, 0, 0, 0, 0, 0, 0, 0, 142, 75, 142, 24, 21, 106, 28, 114, 113, 5, 92, 229, 183, 239, 83, 187, 55, 2, 148, 235, 214, 49, 163, 185, 84, 24, 169, 45, 164, 110, 104, 31, 0, 0, 0, 0, 0, 0, 0, 0, 0, 0, 0, 0, 0, 0, 0, 0, 0, 0, 0, 0, 0, 0, 0, 0, 0, 0, 0, 0, 0, 0, 0, 0, 1, 0, 0, 0, 0, 0, 0, 0, 0, 0, 0, 0, 0, 0, 0, 0, 0, 0, 0, 0, 0, 0, 0, 0, 0, 0, 0, 0, 0, 0, 0, 0, 0, 0, 0, 0, 0, 0, 0, 0, 0, 0, 0, 0, 0, 0, 0, 0, 0, 0, 128] = 0x80000000000000000000000000000000000000000000000000000000000000000000000000000000000000000000000000000100000000000000000000000000000000000000000000000000000000000000001f686ea42da91854b9a331d6eb940237bb53efb7e55c0571721c6a15188e4b8e0000000000000000000000000000000000000000ff := by decide

theorem c10oa_r0t : keccakTheta 0x80000000000000000000000000000000000000000000000000000000000000000000000000000000000000000000000000000100000000000000000000000000000000000000000000000000000000000000001f686ea42da91854b9a331d6eb940237bb53efb7e55c0571721c6a15188e4b8e0000000000000000000000000000000000000000ff = 0xe35da015a09b931a64fe176a7df6fcb380ae2fb50ba8e1db58f49b9a331d615940237858332ffbe0e35da015a09b931a64fe176a7df6fcb380ae2fb50ba8e1d358f49b9a331d615940237858332ffbe0e35da015a09b931a64fe176a7df6fcb380ae2fb50ba8e1db58f49b9a331d615940236858332ffbe0e35da015a09b931a64fe176a7df6fcb380ae2fb50ba8e1db58f49a6cb5f72383d1a633c200329559a37edba09e60ed4fa4a9004bbb57ad3b6416cfb50ba8e1db58f49b9a331d615940237858332ff41 := by decide

theorem c10oa_r0p : keccakRhoPi keccak_rotc_std 0xe35da015a09b931a64fe176a7df6fcb380ae2fb50ba8e1db58f49b9a331d615940237858332ffbe0e35da015a09b931a64fe176a7df6fcb380ae2fb50ba8e1d358f49b9a331d615940237858332ffbe0e35da015a09b931a64fe176a7df6fcb380ae2fb50ba8e1db58f49b9a331d615940236858332ffbe0e35da015a09b931a64fe176a7df6fcb380ae2fb50ba8e1db58f49a6cb5f72383d1a633c200329559a37edba09e60ed4fa4a9004bbb57ad3b6416cfb50ba8e1db58f49b9a331d615940237858332ff41 = 0xd63d26e68cc7585665ff7d28046f0b0604dc98871aed00ade5d327f0bb53efb76d905b3ed42ea387cba64fe176a7df6f717da85d470e9c053d26e68cc75856d600329553d1a633c2d04f3076a4d1bf6dde160ccbfefa500835da015a09b9310eed4fbedf974c9fc202b8bed42ea3874e6b1e93734663ac2ba7015c5f6a1751c33ac2a6b1e9373466a011b42c1997fdf4a015a09b9310e35d4bbb57ad3fa4a900768056826e4c438d2ed4fbedf974c9fcd470e9c05717da85f7238b58f49a6cb5940237858332ff41 := by decide

theorem c10oa_r0c : keccakChi 0xd63d26e68cc7585665ff7d28046f0b0604dc98871aed00ade5d327f0bb53efb76d905b3ed42ea387cba64fe176a7df6f717da85d470e9c053d26e68cc75856d600329553d1a633c2d04f3076a4d1bf6dde160ccbfefa500835da015a09b9310eed4fbedf974c9fc202b8bed42ea3874e6b1e93734663ac2ba7015c5f6a1751c33ac2a6b1e9373466a011b42c1997fdf4a015a09b9310e35d4bbb57ad3fa4a900768056826e4c438d2ed4fbedf974c9fcd470e9c05717da85f7238b58f49a6cb5940237858332ff41 = 0x567e0226a79614664c7f24305447a88796dc9a41926d50fd84f042d8bf51e4b56d9cc339d482a38fcb96cae02781dfed6134984bc75ebc05b7a4a12cf7f915bc406b9d02d1a0bbc3ed4b52faa289fb79deb6204fd67a534c14d2926a09b89d2d274bb25e610edfc21228bfd42612a74286599378d72fb4ab0705fc4dea07139e7278a511fc979c662510ec621b97bc75bad7a20a7330e35f4bbb43893723b5a015a1deda1ac44339aed6dae8784675bc8470edc2511fd884dda799755cfa6dcd9452570580376d41 := by decide

theorem c10oa_r0 : keccakRound keccak_rotc_std 0x80000000000000000000000000000000000000000000000000000000000000000000000000000000000000000000000000000100000000000000000000000000000000000000000000000000000000000000001f686ea42da91854b9a331d6eb940237bb53efb7e55c0571721c6a15188e4b8e0000000000000000000000000000000000000000ff 0 = 0x567e0226a79614664c7f24305447a88796dc9a41926d50fd84f042d8bf51e4b56d9cc339d482a38fcb96cae02781dfed6134984bc75ebc05b7a4a12cf7f915bc406b9d02d1a0bbc3ed4b52faa289fb79deb6204fd67a534c14d2926a09b89d2d274bb25e610edfc21228bfd42612a74286599378d72fb4ab0705fc4dea07139e7278a511fc979c662510ec621b97bc75bad7a20a7330e35f4bbb43893723b5a015a1deda1ac44339aed6dae8784675bc8470edc2511fd884dda799755cfa6dcd9452570580376d40 := by

  simp only [keccakRound, c10oa_r0t, c10oa_r0p, c10oa_r0c]

  decide

theorem c10oa_r1t : keccakTheta 0x567e0226a79614664c7f24305447a88796dc9a41926d50fd84f042d8bf51e4b56d9cc339d482a38fcb96cae02781dfed6134984bc75ebc05b7a4a12cf7f915bc406b9d02d1a0bbc3ed4b52faa289fb79deb6204fd67a534c14d2926a09b89d2d274bb25e610edfc21228bfd42612a74286599378d72fb4ab0705fc4dea07139e7278a511fc979c662510ec621b97bc75bad7a20a7330e35f4bbb43893723b5a015a1deda1ac44339aed6dae8784675bc8470edc2511fd884dda799755cfa6dcd9452570580376d40 = 0x1877fa095861d6848d9389e5708c635ed7162e0c9a4e6b0133045c935442ced5fe0bfc5bc7e86a29c6fb7661591d6e3659284e5c411d2b7cc09598dac30a3f1d7ab9a135bb5739bdf372e06ca75de54894f5dc9e46a5a4210748ec40af7f39f5ce64aff3ac7698f85e8b8c5ac076f1ab425ef84bfd3918650fc81cbd8171a9076deb9bfffd8f2d45ebd14c3405e0a382d17a51bf9252b0779c73f755fdf908d4258a35c28d44a37aa70c6467b091b0effdd15630ad66ec94a679e64d6efa595a62e2bf9e8cb486d := by decide

theorem c10oa_r1p : keccakRhoPi keccak_rotc_std 0x1877fa095861d6848d9389e5708c635ed7162e0c9a4e6b0133045c935442ced5fe0bfc5bc7e86a29c6fb7661591d6e3659284e5c411d2b7cc09598dac30a3f1d7ab9a135bb5739bdf372e06ca75de54894f5dc9e46a5a4210748ec40af7f39f5ce64aff3ac7698f85e8b8c5ac076f1ab425ef84bfd3918650fc81cbd8171a9076deb9bfffd8f2d45ebd14c3405e0a382d17a51bf9252b0779c73f755fdf908d4258a35c28d44a37aa70c6467b091b0effdd15630ad66ec94a679e64d6efa595a62e2bf9e8cb486d = 0x4cc11724d510b3b4ebbca9be6e5c0d94352d2144a7aee4f26a3b6f5cdfffec797ff74558c2b59bb23548d9389e5708c6acc6d61851f8e604a2e316b01dbc6a17fdf908d79c73f755e146a251ba12c51aff16f1fa1a897f826fb7661591d6e39c8815efe73e20e91daf4530d017828e1794cf3cc9addf4b2a1dae2c5c19349cd6ae737af573426b76a12f7c25fe9c8c351cbd8171a9050fc867b091b0eaa70c64dfe82561875a00619cb8823a56ecb2503b4c7ae73257f9d652b072d17a51bf92a62e2bf9e8cb486d := by decide

theorem c10oa_r1c : keccakChi 0x4cc11724d510b3b4ebbca9be6e5c0d94352d2144a7aee4f26a3b6f5cdfffec797ff74558c2b59bb23548d9389e5708c6acc6d61851f8e604a2e316b01dbc6a17fdf908d79c73f755e146a251ba12c51aff16f1fa1a897f826fb7661591d6e39c8815efe73e20e91daf4530d017828e1794cf3cc9addf4b2a1dae2c5c19349cd6ae737af573426b76a12f7c25fe9c8c351cbd8171a9050fc867b091b0eaa70c64dfe82561875a00619cb8823a56ecb2503b4c7ae73257f9d652b072d17a51bf92a62e2bf9e8cb486d = 0x4cc93d20c85ad7fdd88ae9e66cf90596316c374436ae56d2a0abe7e697afe57d6af34558e2b59b3029f1d1be9a363a836cc0f45971f8231cb3eb1f9093bb62d5f1fdc8dfdc337355e344b471bb9ecd18d416f1ea0889fb976f7e6a143480e3b418157e0d3429f51fc8e730c096548c9794dff3ee85ff2a2205a32c1d18349f5ecc63eb5591c16b56b0a3782df6a818b512ed83a1a8476c8ac6b2edb4bc3f8c518f787561954ab7f3bcbe88a23e6dfa5c780c5fa6b345f9f7d600f2c93ef9bd928f6223dfe8cd0829 := by decide

theorem c10oa_r1 : keccakRound keccak_rotc_std 0x567e0226a79614664c7f24305447a88796dc9a41926d50fd84f042d8bf51e4b56d9cc339d482a38fcb96cae02781dfed6134984bc75ebc05b7a4a12cf7f915bc406b9d02d1a0bbc3ed4b52faa289fb79deb6204fd67a534c14d2926a09b89d2d274bb25e610edfc21228bfd42612a74286599378d72fb4ab0705fc4dea07139e7278a511fc979c662510ec621b97bc75bad7a20a7330e35f4bbb43893723b5a015a1deda1ac44339aed6dae8784675bc8470edc2511fd884dda799755cfa6dcd9452570580376d40 1 = 0x4cc93d20c85ad7fdd88ae9e66cf90596316c374436ae56d2a0abe7e697afe57d6af34558e2b59b3029f1d1be9a363a836cc0f45971f8231cb3eb1f9093bb62d5f1fdc8dfdc337355e344b471bb9ecd18d416f1ea0889fb976f7e6a143480e3b418157e0d3429f51fc8e730c096548c9794dff3ee85ff2a2205a32c1d18349f5ecc63eb5591c16b56b0a3782df6a818b512ed83a1a8476c8ac6b2edb4bc3f8c518f787561954ab7f3bcbe88a23e6dfa5c780c5fa6b345f9f7d600f2c93ef9bd928f6223dfe8cd88ab := by

  simp only [keccakRound, c10oa_r1t, c10oa_r1p, c10oa_r1c]

  decide

theorem c10oa_r2t : keccakTheta 0x4cc93d20c85ad7fdd88ae9e66cf90596316c374436ae56d2a0abe7e697afe57d6af34558e2b59b3029f1d1be9a363a836cc0f45971f8231cb3eb1f9093bb62d5f1fdc8dfdc337355e344b471bb9ecd18d416f1ea0889fb976f7e6a143480e3b418157e0d3429f51fc8e730c096548c9794dff3ee85ff2a2205a32c1d18349f5ecc63eb5591c16b56b0a3782df6a818b512ed83a1a8476c8ac6b2edb4bc3f8c518f787561954ab7f3bcbe88a23e6dfa5c780c5fa6b345f9f7d600f2c93ef9bd928f6223dfe8cd88ab = 0x4e51b0255e3b7229fd5d10a5171e59443be2716c7182351c5069c9efb62bdd39ebbedc72a3c3323a2b695cbb0c579f5749170d1a0a1f7fceb96559b8d497011b013fe6d6fdb74b1162092d5bfae86412d68e7cef9ee85e434aa993574f67bf66129b3825730596d138251ec9b7d0b4d315926ac4c4898328073ba1188e553a8ae9b41216ea263784ba2d3e05b1847b7be22fada889c354ce47ff749efd49255b8de0f864032b1227996971e1458aa68e7282198ef4699a3926c2dcc01f7d85d60e2fbaf5a9bb21a1 := by decide

theorem c10oa_r2p : keccakRhoPi keccak_rotc_std 0x4e51b0255e3b7229fd5d10a5171e59443be2716c7182351c5069c9efb62bdd39ebbedc72a3c3323a2b695cbb0c579f5749170d1a0a1f7fceb96559b8d497011b013fe6d6fdb74b1162092d5bfae86412d68e7cef9ee85e434aa993574f67bf66129b3825730596d138251ec9b7d0b4d315926ac4c4898328073ba1188e553a8ae9b41216ea263784ba2d3e05b1847b7be22fada889c354ce47ff749efd49255b8de0f864032b1227996971e1458aa68e7282198ef4699a3926c2dcc01f7d85d60e2fbaf5a9bb21a1 = 0x41a727bed8af74e5d0c824c4125ab7f5742f21eb473e77cfc274da090b75131b5ca08663bd1a668e44fd5d10a5171e59acdc6a4b808ddcb2947b26df42d34ce0d49255b47ff749ef201958913c6f07c371ca8f0cc8ebaefb695cbb0c579f572bae9ecf7ecc9553268b4f816c611edeee4d85b9803efb0bac877c4e2d8e3046a3e9622027fcdadfb6ac935626244c19401188e553a8a073ba1458aa68e996971e6c09578edc8a5394a34143eff9c922e12cb68894d9c12b98354cee22fada889c0e2fbaf5a9bb21a1 := by decide

theorem c10oa_r2c : keccakChi 0x41a727bed8af74e5d0c824c4125ab7f5742f21eb473e77cfc274da090b75131b5ca08663bd1a668e44fd5d10a5171e59acdc6a4b808ddcb2947b26df42d34ce0d49255b47ff749ef201958913c6f07c371ca8f0cc8ebaefb695cbb0c579f572bae9ecf7ecc9553268b4f816c611edeee4d85b9803efb0bac877c4e2d8e3046a3e9622027fcdadfb6ac935626244c19401188e553a8a073ba1458aa68e996971e6c09578edc8a5394a34143eff9c922e12cb68894d9c12b98354cee22fada889c0e2fbaf5a9bb21a1 = 0xc3f37fb6daca65f4ccc8a485374ab5ff750822d18f9b37cf42b4de0d1b35932b68aba781f910024a907f5834e68756758cdc6aca98e5dd30d45a33cf67c14ea9fc161db4fffbd9fd20707ada3c6f03c3f3808f6089ef7ab965598b8c618f562fbe1ccb7e44f5fbf6ca0fb16c7214dae76915f792b27a0aac86fc0b3e8e102603f96280679d5c4eaaaa8f182e266c194150e8c5527032b50cb84bb84cedda9f5e5d49138c8ecadb88a167eb9ed8f802c060be9c94ddc37a8cb60dad49dad288fd069dba61a8ba02a1 := by decide

theorem c10oa_r2 : keccakRound keccak_rotc_std 0x4cc93d20c85ad7fdd88ae9e66cf90596316c374436ae56d2a0abe7e697afe57d6af34558e2b59b3029f1d1be9a363a836cc0f45971f8231cb3eb1f9093bb62d5f1fdc8dfdc337355e344b471bb9ecd18d416f1ea0889fb976f7e6a143480e3b418157e0d3429f51fc8e730c096548c9794dff3ee85ff2a2205a32c1d18349f5ecc63eb5591c16b56b0a3782df6a818b512ed83a1a8476c8ac6b2edb4bc3f8c518f787561954ab7f3bcbe88a23e6dfa5c780c5fa6b345f9f7d600f2c93ef9bd928f6223dfe8cd88ab 2 = 0xc3f37fb6daca65f4ccc8a485374ab5ff750822d18f9b37cf42b4de0d1b35932b68aba781f910024a907f5834e68756758cdc6aca98e5dd30d45a33cf67c14ea9fc161db4fffbd9fd20707ada3c6f03c3f3808f6089ef7ab965598b8c618f562fbe1ccb7e44f5fbf6ca0fb16c7214dae76915f792b27a0aac86fc0b3e8e102603f96280679d5c4eaaaa8f182e266c194150e8c5527032b50cb84bb84cedda9f5e5d49138c8ecadb88a167eb9ed8f802c060be9c94ddc37a8cb60dad49dad288fd869dba61a8ba822b := by

  simp only [keccakRound, c10oa_r2t, c10oa_r2p, c10oa_r2c]

  decide

theorem c10oa_r3t : keccakTheta 0xc3f37fb6daca65f4ccc8a485374ab5ff750822d18f9b37cf42b4de0d1b35932b68aba781f910024a907f5834e68756758cdc6aca98e5dd30d45a33cf67c14ea9fc161db4fffbd9fd20707ada3c6f03c3f3808f6089ef7ab965598b8c618f562fbe1ccb7e44f5fbf6ca0fb16c7214dae76915f792b27a0aac86fc0b3e8e102603f96280679d5c4eaaaa8f182e266c194150e8c5527032b50cb84bb84cedda9f5e5d49138c8ecadb88a167eb9ed8f802c060be9c94ddc37a8cb60dad49dad288fd869dba61a8ba822b = 0x808b004435843bdeeec49afe0abb3dc41dd0646aa4a97f1bf7524b5d875147c03782224d341ded78d30727c609c9085faed054b1a514550bbc8275744cf3067d49f088e4639f0d167f59ff16f162ecf1b0f8f09266a124934755b5f75c7ede14d6c48dc56fc7b3227fe9243cee700e0c363c725e7f77e59ec58474cc615e7829db6ebe1ca0adc691c2575e950d5e5195e50e5002ec5661e7e7623d8020d7706c1e316c7e618485a2836bd5e5e5098afb0866da2ff6f1325803eb381946b65c16d9b43fad65b76d19 := by decide

theorem c10oa_r3p : keccakRhoPi keccak_rotc_std 0x808b004435843bdeeec49afe0abb3dc41dd0646aa4a97f1bf7524b5d875147c03782224d341ded78d30727c609c9085faed054b1a514550bbc8275744cf3067d49f088e4639f0d167f59ff16f162ecf1b0f8f09266a124934755b5f75c7ede14d6c48dc56fc7b3227fe9243cee700e0c363c725e7f77e59ec58474cc615e7829db6ebe1ca0adc691c2575e950d5e5195e50e5002ec5661e7e7623d8020d7706c1e316c7e618485a2836bd5e5e5098afb0866da2ff6f1325803eb381946b65c16d9b43fad65b76d19 = 0xdd492d761d451f03c5d9e2feb3fe2de2509249d87c78493348edb75f0e5056e30219b68bfdbc4c96c4eec49afe0abb3d3aba2679833ede41a490f3b9c03831ff0d7706ce7623d802f30c242d10f18b638934d077b5e0de080727c609c9085fd3eeb8fdbc288eab6b95d7a5435794657007d670328d6cb82c63ba0c8d54952fe3e1a2c93e111c8c73b1e392f3fbbf2cf14cc615e7829c58475e5098afb836bd5ec0110d610ef7a0229634a28aa175da0a3d9916b6246e2b7e661e7e50e5002ec5d9b43fad65b76d19 := by decide

theorem c10oa_r3c : keccakChi 0xdd492d761d451f03c5d9e2feb3fe2de2509249d87c78493348edb75f0e5056e30219b68bfdbc4c96c4eec49afe0abb3d3aba2679833ede41a490f3b9c03831ff0d7706ce7623d802f30c242d10f18b638934d077b5e0de080727c609c9085fd3eeb8fdbc288eab6b95d7a5435794657007d670328d6cb82c63ba0c8d54952fe3e1a2c93e111c8c73b1e392f3fbbf2cf14cc615e7829c58475e5098afb836bd5ec0110d610ef7a0229634a28aa175da0a3d9916b6246e2b7e661e7e50e5002ec5d9b43fad65b76d19 = 0x95ad2c221f050d62c7c9707753466d76489244d870795b32cda415798dd67223120bfe0b8d944586c89dc6589808eb3d09ba065c83cfde0360d4333bbc3810c3175d028e75251602538cd51c90e9aa9e19355536e7709b5801e5e609c1047ff766a8edca1c6e2b6394d0a742969431e06dfe288ea5663227633c09cd561d6fe2fde2591cb93e1c6fb3fb9672bf3e0f710cc65ceb829cd845ef711abfc11599eee61b4d318ef7a2e68f909006c07597137d981bd72aec0b5ee43ade586411fec5c0353f0b65d96c23 := by decide

theorem c10oa_r3 : keccakRound keccak_rotc_std 0xc3f37fb6daca65f4ccc8a485374ab5ff750822d18f9b37cf42b4de0d1b35932b68aba781f910024a907f5834e68756758cdc6aca98e5dd30d45a33cf67c14ea9fc161db4fffbd9fd20707ada3c6f03c3f3808f6089ef7ab965598b8c618f562fbe1ccb7e44f5fbf6ca0fb16c7214dae76915f792b27a0aac86fc0b3e8e102603f96280679d5c4eaaaa8f182e266c194150e8c5527032b50cb84bb84cedda9f5e5d49138c8ecadb88a167eb9ed8f802c060be9c94ddc37a8cb60dad49dad288fd869dba61a8ba822b 3 = 0x95ad2c221f050d62c7c9707753466d76489244d870795b32cda415798dd67223120bfe0b8d944586c89dc6589808eb3d09ba065c83cfde0360d4333bbc3810c3175d028e75251602538cd51c90e9aa9e19355536e7709b5801e5e609c1047ff766a8edca1c6e2b6394d0a742969431e06dfe288ea5663227633c09cd561d6fe2fde2591cb93e1c6fb3fb9672bf3e0f710cc65ceb829cd845ef711abfc11599eee61b4d318ef7a2e68f909006c07597137d981bd72aec0b5ee43ade586411fec540353f0be5d9ec23 := by

  simp only [keccakRound, c10oa_r3t, c10oa_r3p, c10oa_r3c]

  decide

theorem c10oa_r4t : keccakTheta 0x95ad2c221f050d62c7c9707753466d76489244d870795b32cda415798dd67223120bfe0b8d944586c89dc6589808eb3d09ba065c83cfde0360d4333bbc3810c3175d028e75251602538cd51c90e9aa9e19355536e7709b5801e5e609c1047ff766a8edca1c6e2b6394d0a742969431e06dfe288ea5663227633c09cd561d6fe2fde2591cb93e1c6fb3fb9672bf3e0f710cc65ceb829cd845ef711abfc11599eee61b4d318ef7a2e68f909006c07597137d981bd72aec0b5ee43ade586411fec540353f0be5d9ec23 = 0x2e3339414e6c1b79c501909a679469cc958fc4ae291fa78e4f831c4c9afb13aa9e8361b624d713067303d33bc961fd260b72e6b1b71ddab9bdc9b34de55eec7f957a0bbb6208778bdf044aa139aafc1ea2ab4055b6198d43032d06e4f5d67b4dbbb56dbc4508d7df16f7ae7781b95069e176b7330c2564a7d8a21cae077479f9ff2ab9f18dec18d56ee61604e658f3cd8ee155de95b1b9cc63f985026856cf6e5d855852df9eb4fd8d5870ebf4a793a9a0859ba1738af7e2661dd76d733c9f4cccbda0b64c9abaa3 := by decide

theorem c10oa_r4p : keccakRhoPi keccak_rotc_std 0x2e3339414e6c1b79c501909a679469cc958fc4ae291fa78e4f831c4c9afb13aa9e8361b624d713067303d33bc961fd260b72e6b1b71ddab9bdc9b34de55eec7f957a0bbb6208778bdf044aa139aafc1ea2ab4055b6198d43032d06e4f5d67b4dbbb56dbc4508d7df16f7ae7781b95069e176b7330c2564a7d8a21cae077479f9ff2ab9f18dec18d56ee61604e658f3cd8ee155de95b1b9cc63f985026856cf6e5d855852df9eb4fd8d5870ebf4a793a9a0859ba1738af7e2661dd76d733c9f4cccbda0b64c9abaa3 = 0x3e0c71326bec4ea955f83dbe089542730cc6a1d155a02adb6aff955cf8c6f60ca82166e85ce2bdf8ccc501909a679469d9a6f2af763fdee4deb9de06e541a45b856cf6e63f98502696fcf5a7eaec2ac286d8935c4c1a7a0d03d33bc961fd2673c9ebacf69a065a0db9858139963cf35bcc3baedae6793e98d2b1f895c523f4f10ef172af41776c410bb5b998612b253fcae077479f9d8a21bf4a793a98d5870ece50539b06de4b8cd636e3bb57216e5c46befdddab6de2281b9cc8ee155de95bccbda0b64c9abaa3 := by decide

theorem c10oa_r4c : keccakChi 0x3e0c71326bec4ea955f83dbe089542730cc6a1d155a02adb6aff955cf8c6f60ca82166e85ce2bdf8ccc501909a679469d9a6f2af763fdee4deb9de06e541a45b856cf6e63f98502696fcf5a7eaec2ac286d8935c4c1a7a0d03d33bc961fd2673c9ebacf69a065a0db9858139963cf35bcc3baedae6793e98d2b1f895c523f4f10ef172af41776c410bb5b998612b253fcae077479f9d8a21bf4a793a98d5870ece50539b06de4b8cd636e3bb57216e5c46befdddab6de2281b9cc8ee155de95bccbda0b64c9abaa3 = 0x7cd2e026cbe80cadd5d93b761c97f32326c2e1d136c826533bc78972f0d3b62cac21466959c2b52bcdc503d08f77c44dcb9e068816b7f466daf8df166d01a452846ad64f2da60a82cc6dfda72aad8e9bb75c927d5c1ebb4e4bf0174bc39c22e34de32ce296040201bb959230f7c5d7298c51821cee7b369c9211fed0c22bfcd023bb738559a36f4fdbb53188e52bb58fcea035609fc9c261be5ff1a2f8f7a210dd501bd3179b0ad4d69b439f1f21de7f4efeedddabb3e3a88b9ccacc415de50f889f95a7e6bab883 := by decide

theorem c10oa_r4 : keccakRound keccak_rotc_std 0x95ad2c221f050d62c7c9707753466d76489244d870795b32cda415798dd67223120bfe0b8d944586c89dc6589808eb3d09ba065c83cfde0360d4333bbc3810c3175d028e75251602538cd51c90e9aa9e19355536e7709b5801e5e609c1047ff766a8edca1c6e2b6394d0a742969431e06dfe288ea5663227633c09cd561d6fe2fde2591cb93e1c6fb3fb9672bf3e0f710cc65ceb829cd845ef711abfc11599eee61b4d318ef7a2e68f909006c07597137d981bd72aec0b5ee43ade586411fec540353f0be5d9ec23 4 = 0x7cd2e026cbe80cadd5d93b761c97f32326c2e1d136c826533bc78972f0d3b62cac21466959c2b52bcdc503d08f77c44dcb9e068816b7f466daf8df166d01a452846ad64f2da60a82cc6dfda72aad8e9bb75c927d5c1ebb4e4bf0174bc39c22e34de32ce296040201bb959230f7c5d7298c51821cee7b369c9211fed0c22bfcd023bb738559a36f4fdbb53188e52bb58fcea035609fc9c261be5ff1a2f8f7a210dd501bd3179b0ad4d69b439f1f21de7f4efeedddabb3e3a88b9ccacc415de50f889f95a7e6ba3808 := by

  simp only [keccakRound, c10oa_r4t, c10oa_r4p, c10oa_r4c]

  decide

theorem c10oa_r5t : keccakTheta 0x7cd2e026cbe80cadd5d93b761c97f32326c2e1d136c826533bc78972f0d3b62cac21466959c2b52bcdc503d08f77c44dcb9e068816b7f466daf8df166d01a452846ad64f2da60a82cc6dfda72aad8e9bb75c927d5c1ebb4e4bf0174bc39c22e34de32ce296040201bb959230f7c5d7298c51821cee7b369c9211fed0c22bfcd023bb738559a36f4fdbb53188e52bb58fcea035609fc9c261be5ff1a2f8f7a210dd501bd3179b0ad4d69b439f1f21de7f4efeedddabb3e3a88b9ccacc415de50f889f95a7e6ba3808 = 0x69ff41264265b652635edc1705a12e5026e8e62fdc914397a83f484475218d566723b7a27cbba953d8e8a2d006fa7eb27d19e1e90f812915dad2d8e88758c19617921779a85431f8076f0c6c0fd492e3a271337dd59301b1fd77f02adaaaff904dc92b1c7c5d67c5286d53067237ec53475373d7cb022ae4873c5fd04ba6462f953c94e44095b23cdb9f36760f72d04b5d58f4561a3bf91b755d0069dd8ebe68c87dbad39e16b02b601ca4fe0617030c4ed4ea2341ea866c18640bfac4afde75439d646cc3c32470 := by decide

theorem c10oa_r5p : keccakRhoPi keccak_rotc_std 0x69ff41264265b652635edc1705a12e5026e8e62fdc914397a83f484475218d566723b7a27cbba953d8e8a2d006fa7eb27d19e1e90f812915dad2d8e88758c19617921779a85431f8076f0c6c0fd492e3a271337dd59301b1fd77f02adaaaff904dc92b1c7c5d67c5286d53067237ec53475373d7cb022ae4873c5fd04ba6462f953c94e44095b23cdb9f36760f72d04b5d58f4561a3bf91b755d0069dd8ebe68c87dbad39e16b02b601ca4fe0617030c4ed4ea2341ea866c18640bfac4afde75439d646cc3c32470 = 0xa0fd2111d486355aa925c60ede18d81fc980d8d13899beea1e4a9e4a72204ad913b53a88d07aa19b50635edc1705a12e6c7443ac60cb6d69b54c19c8dfb14ca1d8ebe68755d0069d9cf0b5815e43edd6de89f2eea54d9c8ee8a2d006fa7eb2d855b555ff21faefe0e7cd9d83dcb412f630c817f5895fbceae4dd1cc5fb922872863f02f242ef350a3a9b9ebe58115722fd04ba6462f873c5e0617030c601ca4fd04990996d949a7f3d21f02522afa33ceb3e2a6e4958e3e2bf91b5d58f4561a3439d646cc3c32470 := by decide

theorem c10oa_r5c : keccakChi 0xa0fd2111d486355aa925c60ede18d81fc980d8d13899beea1e4a9e4a72204ad913b53a88d07aa19b50635edc1705a12e6c7443ac60cb6d69b54c19c8dfb14ca1d8ebe68755d0069d9cf0b5815e43edd6de89f2eea54d9c8ee8a2d006fa7eb2d855b555ff21faefe0e7cd9d83dcb412f630c817f5895fbceae4dd1cc5fb922872863f02f242ef350a3a9b9ebe58115722fd04ba6462f873c5e0617030c601ca4fd04990996d949a7f3d21f02522afa33ceb3e2a6e4958e3e2bf91b5d58f4561a3439d646cc3c32470 = 0xacb7a553f6867f1aba25dc86de60589ec958f9c0381f9baa3e6f9844b4200accd2357a19d8e315b910681cda1695a327e0e4e2ad288921b9a54f0598c8b5cca790dba4a3759a27d5b9f4acc9d462a5f6198c7aecf1ed9e9ac8e2d517f26c92b843bc771724fbe3e64fcf1d8306b002ee20f85789a81551eaf9d99681db6a19f2861f62c246eef7075a5b82bbe1015f527920ba24601653cde2fa74aade00ce6d6c4901086190dbfc3eb59441a0ec873c2b762af60448fba1ab9065d4ade261bf03b36e4683dba630 := by decide

theorem c10oa_r5 : keccakRound keccak_rotc_std 0x7cd2e026cbe80cadd5d93b761c97f32326c2e1d136c826533bc78972f0d3b62cac21466959c2b52bcdc503d08f77c44dcb9e068816b7f466daf8df166d01a452846ad64f2da60a82cc6dfda72aad8e9bb75c927d5c1ebb4e4bf0174bc39c22e34de32ce296040201bb959230f7c5d7298c51821cee7b369c9211fed0c22bfcd023bb738559a36f4fdbb53188e52bb58fcea035609fc9c261be5ff1a2f8f7a210dd501bd3179b0ad4d69b439f1f21de7f4efeedddabb3e3a88b9ccacc415de50f889f95a7e6ba3808 5 = 0xacb7a553f6867f1aba25dc86de60589ec958f9c0381f9baa3e6f9844b4200accd2357a19d8e315b910681cda1695a327e0e4e2ad288921b9a54f0598c8b5cca790dba4a3759a27d5b9f4acc9d462a5f6198c7aecf1ed9e9ac8e2d517f26c92b843bc771724fbe3e64fcf1d8306b002ee20f85789a81551eaf9d99681db6a19f2861f62c246eef7075a5b82bbe1015f527920ba24601653cde2fa74aade00ce6d6c4901086190dbfc3eb59441a0ec873c2b762af60448fba1ab9065d4ade261bf03b36e4603dba631 := by

  simp only [keccakRound, c10oa_r5t, c10oa_r5p, c10oa_r5c]

  decide

theorem c10oa_r6t : keccakTheta 0xacb7a553f6867f1aba25dc86de60589ec958f9c0381f9baa3e6f9844b4200accd2357a19d8e315b910681cda1695a327e0e4e2ad288921b9a54f0598c8b5cca790dba4a3759a27d5b9f4acc9d462a5f6198c7aecf1ed9e9ac8e2d517f26c92b843bc771724fbe3e64fcf1d8306b002ee20f85789a81551eaf9d99681db6a19f2861f62c246eef7075a5b82bbe1015f527920ba24601653cde2fa74aade00ce6d6c4901086190dbfc3eb59441a0ec873c2b762af60448fba1ab9065d4ade261bf03b36e4603dba631 = 0xd2df8f86e69ef74d8525565db97149d4af813c2bf7eeb167291345f5af5fa3058561d3dd661bae1a6e00360f068d2b70dfe468764f9830f3c396c0730744e66a87a779126ee58e1ceea0050d6a9a1e5567e45039e1f516cdf7e25fcc957d83f22565b2fceb0ac92b58b3c0321dcfab2777acfe4d16edea4987b1bc54cb7291a5b91fe81921ffe64d3c8247502ef0759f6e5c67957b69fa04b5aedd6e60f875ce12212bdd718853ab01b51e9ac7fd96764dafef1dcbb9d16cbcecb865b69dc87654e7c782bd231d92 := by decide

theorem c10oa_r6p : keccakRhoPi keccak_rotc_std 0xd2df8f86e69ef74d8525565db97149d4af813c2bf7eeb167291345f5af5fa3058561d3dd661bae1a6e00360f068d2b70dfe468764f9830f3c396c0730744e66a87a779126ee58e1ceea0050d6a9a1e5567e45039e1f516cdf7e25fcc957d83f22565b2fceb0ac92b58b3c0321dcfab2777acfe4d16edea4987b1bc54cb7291a5b91fe81921ffe64d3c8247502ef0759f6e5c67957b69fa04b5aedd6e60f875ce12212bdd718853ab01b51e9ac7fd96764dafef1dcbb9d16cbcecb865b69dc87654e7c782bd231d92 = 0xa44d17d6bd7e8c14343cabdd400a1ad5fa8b66b3f2281cf026dc8ff40c90fff3136bfbc772ee745bd48525565db97149603983a2733561cbcf00c8773eac9d620f875ceb5aedd6e6eb8c429d5891095e4f75986eb86a158700360f068d2b706e992afb07e5efc4bf2091d40bbc1d67cf79d970cb6d3b90edf5f027857efdd62cb1c390f4ef224ddcbd67f268b76f524bc54cb7291a587b1bac7fd967601b51e9e3e1b9a7bdd374b70ec9f3061e7bfc8d5649592b2d97e7589fa046e5c67957b654e7c782bd231d92 := by decide

theorem c10oa_r6c : keccakChi 0xa44d17d6bd7e8c14343cabdd400a1ad5fa8b66b3f2281cf026dc8ff40c90fff3136bfbc772ee745bd48525565db97149603983a2733561cbcf00c8773eac9d620f875ceb5aedd6e6eb8c429d5891095e4f75986eb86a158700360f068d2b706e992afb07e5efc4bf2091d40bbc1d67cf79d970cb6d3b90edf5f027857efdd62cb1c390f4ef224ddcbd67f268b76f524bc54cb7291a587b1bac7fd967601b51e9e3e1b9a7bdd374b70ec9f3061e7bfc8d5649592b2d97e7589fa046e5c67957b654e7c782bd231d92 = 0x80d913e6b16e07b4271e43dc028a6a9e7aca72b14f5c98f022e806b80c92fdf6cb689bc480c6745bd08639345fd5a7e94b31c12b733569dd5b84ec2332248d622fbe5f6b1bfcb66f2b8cc2897c91005e4f751c6e286e728530be6f87c83af006d66b6b6fd5afc13e2085d00bb41d578fe0f35bcf2cd910ddb4f0018d64bdfc3eb9cc4896ef204c1df957d569a7b2c06bc5ccb7bd5258768f945c9927c53c51a968e1b9c2ff8b36931acfb5061e5bf58db769518a8c17e76a9720e4e1d4114f3314aede8894a5bdda := by decide

theorem c10oa_r6 : keccakRound keccak_rotc_std 0xacb7a553f6867f1aba25dc86de60589ec958f9c0381f9baa3e6f9844b4200accd2357a19d8e315b910681cda1695a327e0e4e2ad288921b9a54f0598c8b5cca790dba4a3759a27d5b9f4acc9d462a5f6198c7aecf1ed9e9ac8e2d517f26c92b843bc771724fbe3e64fcf1d8306b002ee20f85789a81551eaf9d99681db6a19f2861f62c246eef7075a5b82bbe1015f527920ba24601653cde2fa74aade00ce6d6c4901086190dbfc3eb59441a0ec873c2b762af60448fba1ab9065d4ade261bf03b36e4603dba631 6 = 0x80d913e6b16e07b4271e43dc028a6a9e7aca72b14f5c98f022e806b80c92fdf6cb689bc480c6745bd08639345fd5a7e94b31c12b733569dd5b84ec2332248d622fbe5f6b1bfcb66f2b8cc2897c91005e4f751c6e286e728530be6f87c83af006d66b6b6fd5afc13e2085d00bb41d578fe0f35bcf2cd910ddb4f0018d64bdfc3eb9cc4896ef204c1df957d569a7b2c06bc5ccb7bd5258768f945c9927c53c51a968e1b9c2ff8b36931acfb5061e5bf58db769518a8c17e76a9720e4e1d4114f3394aede8814a53d5b := by

  simp only [keccakRound, c10oa_r6t, c10oa_r6p, c10oa_r6c]

  decide

theorem c10oa_r7t : keccakTheta 0x80d913e6b16e07b4271e43dc028a6a9e7aca72b14f5c98f022e806b80c92fdf6cb689bc480c6745bd08639345fd5a7e94b31c12b733569dd5b84ec2332248d622fbe5f6b1bfcb66f2b8cc2897c91005e4f751c6e286e728530be6f87c83af006d66b6b6fd5afc13e2085d00bb41d578fe0f35bcf2cd910ddb4f0018d64bdfc3eb9cc4896ef204c1df957d569a7b2c06bc5ccb7bd5258768f945c9927c53c51a968e1b9c2ff8b36931acfb5061e5bf58db769518a8c17e76a9720e4e1d4114f3394aede8814a53d5b = 0x7e81895cfbbe5d3518722f243a3ea9d8fad189f5fb9a28f1503ba1a80b601287f62ca03f9751277a2edea38e1505fd68745dadd34b81aa9bdb9f176786e23d635d6df87b1c0e591e16c8f9726b06537fb12d86d462be28040fd2037ff08e33405670902b6169713f5256771bb3efb8feddb760343b4e43fc4aa89b372e6da6bf86a0246ed7948f5b794c2e2d1374706ab71f10ad55aa99fea918a2dcd2ab028896b92378b55b6c1225a3d9fe26ef36cb3772aace38d1576be5f343f1d3e3a042a9eae57303326e7a := by decide

theorem c10oa_r7p : keccakRhoPi keccak_rotc_std 0x7e81895cfbbe5d3518722f243a3ea9d8fad189f5fb9a28f1503ba1a80b601287f62ca03f9751277a2edea38e1505fd68745dadd34b81aa9bdb9f176786e23d635d6df87b1c0e591e16c8f9726b06537fb12d86d462be28040fd2037ff08e33405670902b6169713f5256771bb3efb8feddb760343b4e43fc4aa89b372e6da6bf86a0246ed7948f5b794c2e2d1374706ab71f10ad55aa99fea918a2dcd2ab028896b92378b55b6c1225a3d9fe26ef36cb3772aace38d1576be5f343f1d3e3a042a9eae57303326e7a = 0x40ee86a02d804a1d0ca6fe2d91f2e4d65f14025896c36a31adc35012376bca47cddcaab38e3455dad818722f243a3ea98bb3c3711eb1edcf59dc6ecfbee3f9492ab0288a918a2dcdc5aadb6094b5c91b80fe5d449debd8b2dea38e1505fd682effe11c66801fa406530b8b44dd1c1a9ecbe687e3a7c740853f5a313ebf73451ecb23cbadbf0f6381edbb01a1da721fe6b372e6da6bf4aa89e26ef36cb25a3d9f62573eef974d5fa0ba697035536e8bb54b89fab384815b0ba99feb71f10ad55aa9eae57303326e7a := by decide

theorem c10oa_r7c : keccakChi 0x40ee86a02d804a1d0ca6fe2d91f2e4d65f14025896c36a31adc35012376bca47cddcaab38e3455dad818722f243a3ea98bb3c3711eb1edcf59dc6ecfbee3f9492ab0288a918a2dcdc5aadb6094b5c91b80fe5d449debd8b2dea38e1505fd682effe11c66801fa406530b8b44dd1c1a9ecbe687e3a7c740853f5a313ebf73451ecb23cbadbf0f6381edbb01a1da721fe6b372e6da6bf4aa89e26ef36cb25a3d9f62573eef974d5fa0ba697035536e8bb54b89fab384815b0ba99feb71f10ad55aa9eae57303326e7a = 0x60edd6a01ccbc01881b6d63e13c6f1141f5c02d8bac36038ad61ac37365b4e819fc8a8fb0eb475eaf20852a525301a6d8e114a318e342cdd09d45ec19ee9eb69a893a9ba919a294b94e69d25bad4191b90f75540c5f3c2a895a30cb627f9682bffbd4d26181d349653090955d8fc52b6670693c1a7c4e4852e4a35acf6d7c71e0b0709edbf075b00d9e331b3da021bf8b1722cd64ef9ca88aee7f24d225828f9624234ef6745cea033c1b125535cabef0b9ff47900800f0b19ffeb75a26455eeebeaf5f107b3647b := by decide

theorem c10oa_r7 : keccakRound keccak_rotc_std 0x80d913e6b16e07b4271e43dc028a6a9e7aca72b14f5c98f022e806b80c92fdf6cb689bc480c6745bd08639345fd5a7e94b31c12b733569dd5b84ec2332248d622fbe5f6b1bfcb66f2b8cc2897c91005e4f751c6e286e728530be6f87c83af006d66b6b6fd5afc13e2085d00bb41d578fe0f35bcf2cd910ddb4f0018d64bdfc3eb9cc4896ef204c1df957d569a7b2c06bc5ccb7bd5258768f945c9927c53c51a968e1b9c2ff8b36931acfb5061e5bf58db769518a8c17e76a9720e4e1d4114f3394aede8814a53d5b 7 = 0x60edd6a01ccbc01881b6d63e13c6f1141f5c02d8bac36038ad61ac37365b4e819fc8a8fb0eb475eaf20852a525301a6d8e114a318e342cdd09d45ec19ee9eb69a893a9ba919a294b94e69d25bad4191b90f75540c5f3c2a895a30cb627f9682bffbd4d26181d349653090955d8fc52b6670693c1a7c4e4852e4a35acf6d7c71e0b0709edbf075b00d9e331b3da021bf8b1722cd64ef9ca88aee7f24d225828f9624234ef6745cea033c1b125535cabef0b9ff47900800f0b19ffeb75a26455ee6beaf5f107b3e472 := by

  simp only [keccakRound, c10oa_r7t, c10oa_r7p, c10oa_r7c]

  decide

theorem c10oa_r8t : keccakTheta 0x60edd6a01ccbc01881b6d63e13c6f1141f5c02d8bac36038ad61ac37365b4e819fc8a8fb0eb475eaf20852a525301a6d8e114a318e342cdd09d45ec19ee9eb69a893a9ba919a294b94e69d25bad4191b90f75540c5f3c2a895a30cb627f9682bffbd4d26181d349653090955d8fc52b6670693c1a7c4e4852e4a35acf6d7c71e0b0709edbf075b00d9e331b3da021bf8b1722cd64ef9ca88aee7f24d225828f9624234ef6745cea033c1b125535cabef0b9ff47900800f0b19ffeb75a26455ee6beaf5f107b3e472 = 0x9064bd9726050cea26caa2c72e4778e6a4ae994185c3403972d7a47fcd7f5c162d3fee0a446f30bc028139921ffed69f296d3ec8b3b5a52fb226c558a1e9cb687725a1f26abe3bdc2611dbd4f00f5c4d607e3e77ff3d0e5a32df784f1a78e1d9444fd6bf271d14978cbf011d23d84021d5f1d530ed1fa1d3dec35e9bcc190becac7b7d148286d2f26211aa2ae5023bf96ec4249eb5ddd81f1c10b4bc68836daf92cb5fd85d8b025294bdc5dc6edd221db06d6fe03f802f0ac649e33d59404779d91db3004d68a124 := by decide

theorem c10oa_r8p : keccakRhoPi keccak_rotc_std 0x9064bd9726050cea26caa2c72e4778e6a4ae994185c3403972d7a47fcd7f5c162d3fee0a446f30bc028139921ffed69f296d3ec8b3b5a52fb226c558a1e9cb687725a1f26abe3bdc2611dbd4f00f5c4d607e3e77ff3d0e5a32df784f1a78e1d9444fd6bf271d14978cbf011d23d84021d5f1d530ed1fa1d3dec35e9bcc190becac7b7d148286d2f26211aa2ae5023bf96ec4249eb5ddd81f1c10b4bc68836daf92cb5fd85d8b025294bdc5dc6edd221db06d6fe03f802f0ac649e33d59404779d91db3004d68a124 = 0xcb5e91ff35fd70591eb89a4c23b7a9e09e872d303f1f3bff79563dbe8a414369ac1b5bf80fe00bc2e626caa2c72e477862ac50f4e5b45913fc04748f610086328836daf1c10b4bc6c2ec581294965afeb82911bcc2f0b4ff8139921ffed69f029e34f1c3b265bef0846a8ab9408efe588c93c67ab2808ef33495d32830b86807c77b8ee4b43e4d57af8ea98768fd0e9ee9bcc190becdec35c6edd221d94bdc5d2f65c981433aa419d91676b4a5e52da7e8a4ba227eb5f938dd81f6ec4249eb5dd91db3004d68a124 := by decide

theorem c10oa_r8c : keccakChi 0xcb5e91ff35fd70591eb89a4c23b7a9e09e872d303f1f3bff79563dbe8a414369ac1b5bf80fe00bc2e626caa2c72e477862ac50f4e5b45913fc04748f610086328836daf1c10b4bc6c2ec581294965afeb82911bcc2f0b4ff8139921ffed69f029e34f1c3b265bef0846a8ab9408efe588c93c67ab2808ef33495d32830b86807c77b8ee4b43e4d57af8ea98768fd0e9ee9bcc190becdec35c6edd221d94bdc5d2f65c981433aa419d91676b4a5e52da7e8a4ba227eb5f938dd81f6ec4249eb5dd91db3004d68a124 = 0x9a1ab5f9b5fc30703ab9d04c29b7a2625fc12c832b576be6796eaff28ae1c3692a9a5bf83afe3354ee34484386274678626440e4f52441957806fe8d630a805a8a9eda8145bf12c7b6ec7c1cb496deceb841193d82fec4f785ab545dced69502a634f063b2459e0d856388a50c1cff5a9687b73800e18e531d85d2b8163c482705138ee57d7dd90f9f0af88f687d2e9ea9cdc7f02acfad74c0effa26997bded72be58d6d413bee40090e44b4a9a52c83cec533233caf7920cc93b278c309efdaf939bb0271dcb104 := by decide

theorem c10oa_r8 : keccakRound keccak_rotc_std 0x60edd6a01ccbc01881b6d63e13c6f1141f5c02d8bac36038ad61ac37365b4e819fc8a8fb0eb475eaf20852a525301a6d8e114a318e342cdd09d45ec19ee9eb69a893a9ba919a294b94e69d25bad4191b90f75540c5f3c2a895a30cb627f9682bffbd4d26181d349653090955d8fc52b6670693c1a7c4e4852e4a35acf6d7c71e0b0709edbf075b00d9e331b3da021bf8b1722cd64ef9ca88aee7f24d225828f9624234ef6745cea033c1b125535cabef0b9ff47900800f0b19ffeb75a26455ee6beaf5f107b3e472 8 = 0x9a1ab5f9b5fc30703ab9d04c29b7a2625fc12c832b576be6796eaff28ae1c3692a9a5bf83afe3354ee34484386274678626440e4f52441957806fe8d630a805a8a9eda8145bf12c7b6ec7c1cb496deceb841193d82fec4f785ab545dced69502a634f063b2459e0d856388a50c1cff5a9687b73800e18e531d85d2b8163c482705138ee57d7dd90f9f0af88f687d2e9ea9cdc7f02acfad74c0effa26997bded72be58d6d413bee40090e44b4a9a52c83cec533233caf7920cc93b278c309efdaf939bb0271dcb18e := by

  simp only [keccakRound, c10oa_r8t, c10oa_r8p, c10oa_r8c]

  decide

theorem c10oa_r9t : keccakTheta 0x9a1ab5f9b5fc30703ab9d04c29b7a2625fc12c832b576be6796eaff28ae1c3692a9a5bf83afe3354ee34484386274678626440e4f52441957806fe8d630a805a8a9eda8145bf12c7b6ec7c1cb496deceb841193d82fec4f785ab545dced69502a634f063b2459e0d856388a50c1cff5a9687b73800e18e531d85d2b8163c482705138ee57d7dd90f9f0af88f687d2e9ea9cdc7f02acfad74c0effa26997bded72be58d6d413bee40090e44b4a9a52c83cec533233caf7920cc93b278c309efdaf939bb0271dcb18e = 0x2d3e18adbf3daa291e9a4f284b39a95ceedab9948ce8014fea30ad89b15b8be6f70ef01689d4ff785910e5178ce6dc214647df8097aa4aabc91d6b9ac4b5eaf319c0d8fa7e055a486b78d7f207bc12e20f65b469883f5eaea188cb39ac589e3c172f657415faf4a4163d8ade37a6b7d54b131cd6b3cb427faaa17fec1cfdd27e213011811ff3d2312e116d98cfc244373a93c58b1175e5fb1d7b51c82a5112fb9cc120394bfa74192d2ddbd0cb2b27bd7fdea6349b1013895fcdb003f8b3a75524ad10ecc2f67da2 := by decide

theorem c10oa_r9p : keccakRhoPi keccak_rotc_std 0x2d3e18adbf3daa291e9a4f284b39a95ceedab9948ce8014fea30ad89b15b8be6f70ef01689d4ff785910e5178ce6dc214647df8097aa4aabc91d6b9ac4b5eaf319c0d8fa7e055a486b78d7f207bc12e20f65b469883f5eaea188cb39ac589e3c172f657415faf4a4163d8ade37a6b7d54b131cd6b3cb427faaa17fec1cfdd27e213011811ff3d2312e116d98cfc244373a93c58b1175e5fb1d7b51c82a5112fb9cc120394bfa74192d2ddbd0cb2b27bd7fdea6349b1013895fcdb003f8b3a75524ad10ecc2f67da2 = 0xa8c2b626c56e2f9b7825c4d6f1afe40f1faf5707b2da34c418909808c08ff9e95ff7a98d26c404e25c1e9a4f284b39a9b5cd625af579e48ef62b78de9adf5458a5112fb1d7b51c82ca5fd3a0cce60901c05a2753fde3dc3b10e5178ce6dc21597358b13c79431196845b6633f0910dcbbf9b6007f1674eaafddb5732919d0029ab4903381b1f4fc05898e6b59e5a13fafec1cfdd27eaaa170cb2b27bd2d2ddbd862b6fcf6a8a4b4ff012f5495568c8fbd7a520b97b2ba0af5e5fb3a93c58b11724ad10ecc2f67da2 := by decide

theorem c10oa_r9c : keccakChi 0xa8c2b626c56e2f9b7825c4d6f1afe40f1faf5707b2da34c418909808c08ff9e95ff7a98d26c404e25c1e9a4f284b39a9b5cd625af579e48ef62b78de9adf5458a5112fb1d7b51c82ca5fd3a0cce60901c05a2753fde3dc3b10e5178ce6dc21597358b13c79431196845b6633f0910dcbbf9b6007f1674eaafddb5732919d0029ab4903381b1f4fc05898e6b59e5a13fafec1cfdd27eaaa170cb2b27bd2d2ddbd862b6fcf6a8a4b4ff012f5495568c8fbd7a520b97b2ba0af5e5fb3a93c58b11724ad10ecc2f67da2 = 0xa8c2a6260565d6922f10cd5fd32fe46f9f6d6527b69a3f54789018d881aa39e258d8ee8a149400e6791eb65e3b5a2d2b378c23fa31dde48ebe39e0db92dd4d79a4d52db1b295bc04987583eec4ac4959c01a2163fd73dd7a2f645788e6d823d9b342916f6060cdb484fe60b3760d2d82cc9bf10bf8255ebe0f9a1ab6b4b5222bab69a371595d92540c0ab2b71eda13d35d80ced526efe6170caa925b4ac2cc55dc79ccce5682cb5ad096e569d51cfc5bd18c2a3f51a9a3ab7e4d66e93818f947a50d10fc81d57d0a := by decide

theorem c10oa_r9 : keccakRound keccak_rotc_std 0x9a1ab5f9b5fc30703ab9d04c29b7a2625fc12c832b576be6796eaff28ae1c3692a9a5bf83afe3354ee34484386274678626440e4f52441957806fe8d630a805a8a9eda8145bf12c7b6ec7c1cb496deceb841193d82fec4f785ab545dced69502a634f063b2459e0d856388a50c1cff5a9687b73800e18e531d85d2b8163c482705138ee57d7dd90f9f0af88f687d2e9ea9cdc7f02acfad74c0effa26997bded72be58d6d413bee40090e44b4a9a52c83cec533233caf7920cc93b278c309efdaf939bb0271dcb18e 9 = 0xa8c2a6260565d6922f10cd5fd32fe46f9f6d6527b69a3f54789018d881aa39e258d8ee8a149400e6791eb65e3b5a2d2b378c23fa31dde48ebe39e0db92dd4d79a4d52db1b295bc04987583eec4ac4959c01a2163fd73dd7a2f645788e6d823d9b342916f6060cdb484fe60b3760d2d82cc9bf10bf8255ebe0f9a1ab6b4b5222bab69a371595d92540c0ab2b71eda13d35d80ced526efe6170caa925b4ac2cc55dc79ccce5682cb5ad096e569d51cfc5bd18c2a3f51a9a3ab7e4d66e93818f947a50d10fc81d57d82 := by

  simp only [keccakRound, c10oa_r9t, c10oa_r9p, c10oa_r9c]

  decide

theorem c10oa_r10t : keccakTheta 0xa8c2a6260565d6922f10cd5fd32fe46f9f6d6527b69a3f54789018d881aa39e258d8ee8a149400e6791eb65e3b5a2d2b378c23fa31dde48ebe39e0db92dd4d79a4d52db1b295bc04987583eec4ac4959c01a2163fd73dd7a2f645788e6d823d9b342916f6060cdb484fe60b3760d2d82cc9bf10bf8255ebe0f9a1ab6b4b5222bab69a371595d92540c0ab2b71eda13d35d80ced526efe6170caa925b4ac2cc55dc79ccce5682cb5ad096e569d51cfc5bd18c2a3f51a9a3ab7e4d66e93818f947a50d10fc81d57d82 = 0xafe764824b1bd608e4cb8f829a8c74eb7c1466aafd89120e42201e26740880f66c10f2258264a13c7e3b74fa75242db1fc576127787e740a5d40e356d9ce60239e652b4f47370510acbd9f41525ce883c73fe3c7b30ddde0e4bf1555af7bb35d503b92e22b73e0eebe4e664d83af9496f853eda46ed5ff6408bfd812facb22b160b2e1ac10fe02d0ef73b13a55c93e896730c82bd34d5f0338628ef4dc326d8fdb5c0e6a18fccbc01b4da7b49cbf6cdf32f529b21aba8ef144fd6017cdba405391c50c531725dc58 := by decide

theorem c10oa_r10p : keccakRhoPi keccak_rotc_std 0xafe764824b1bd608e4cb8f829a8c74eb7c1466aafd89120e42201e26740880f66c10f2258264a13c7e3b74fa75242db1fc576127787e740a5d40e356d9ce60239e652b4f47370510acbd9f41525ce883c73fe3c7b30ddde0e4bf1555af7bb35d503b92e22b73e0eebe4e664d83af9496f853eda46ed5ff6408bfd812facb22b160b2e1ac10fe02d0ef73b13a55c93e896730c82bd34d5f0338628ef4dc326d8fdb5c0e6a18fccbc01b4da7b49cbf6cdf32f529b21aba8ef144fd6017cdba405391c50c531725dc58 = 0x8807899d02203d9b9d107597b3e82a486eef0639ff1e3d968305970d6087f014cbd4a6c86aea3bcebe4cb8f829a8c7471ab6ce73011aea03999360ebe525af9c326d8f38628ef4d50c7e65e06dae073c896099284f1b0433b74fa75242db17eab5ef766bbc97e2adcec4e95724fa27b89fac02f9b7480a6cf828cd55fb12241e0a213cca569e8e6c29f6d2376affb27812facb22b108bfd49cbf6cdf1b4da7bd92092c6f5822bf924ef0fce815f8aec9f077281dc97115bd5f036730c82bd3491c50c531725dc58 := by decide

theorem c10oa_r10c : keccakChi 0x8807899d02203d9b9d107597b3e82a486eef0639ff1e3d968305970d6087f014cbd4a6c86aea3bcebe4cb8f829a8c7471ab6ce73011aea03999360ebe525af9c326d8f38628ef4d50c7e65e06dae073c896099284f1b0433b74fa75242db17eab5ef766bbc97e2adcec4e95724fa27b89fac02f9b7480a6cf828cd55fb12241e0a213cca569e8e6c29f6d2376affb27812facb22b108bfd49cbf6cdf1b4da7bd92092c6f5822bf924ef0fce815f8aec9f077281dc97115bd5f036730c82bd3491c50c531725dc58 = 0x2880698980225fd8fdec053d7db2228086ee88e31ff1e28051215e68b6067f25ca73ea6f8f5f236468c4d32e02ba837861a848b73451cea3b3ddb5063cd85aad8304901286294b4d685ec0523e88f0c39c920702e4fa921a3a1c3a583f29b1da6bdcf6e43b197e2bcccc4684766b232faae8714d12f4dca64fa684e755b123c5e0eb61c4056d30dccd9fe1322c3ff926a10fbe7eaa508b3d0b5bb7cca51baa799d10a0e6fd000add242a03df837a5eec4607e281a817304af5183b3d0dca37909bc24cd3c730dc13 := by decide

theorem c10oa_r10 : keccakRound keccak_rotc_std 0xa8c2a6260565d6922f10cd5fd32fe46f9f6d6527b69a3f54789018d881aa39e258d8ee8a149400e6791eb65e3b5a2d2b378c23fa31dde48ebe39e0db92dd4d79a4d52db1b295bc04987583eec4ac4959c01a2163fd73dd7a2f645788e6d823d9b342916f6060cdb484fe60b3760d2d82cc9bf10bf8255ebe0f9a1ab6b4b5222bab69a371595d92540c0ab2b71eda13d35d80ced526efe6170caa925b4ac2cc55dc79ccce5682cb5ad096e569d51cfc5bd18c2a3f51a9a3ab7e4d66e93818f947a50d10fc81d57d82 10 = 0x2880698980225fd8fdec053d7db2228086ee88e31ff1e28051215e68b6067f25ca73ea6f8f5f236468c4d32e02ba837861a848b73451cea3b3ddb5063cd85aad8304901286294b4d685ec0523e88f0c39c920702e4fa921a3a1c3a583f29b1da6bdcf6e43b197e2bcccc4684766b232faae8714d12f4dca64fa684e755b123c5e0eb61c4056d30dccd9fe1322c3ff926a10fbe7eaa508b3d0b5bb7cca51baa799d10a0e6fd000add242a03df837a5eec4607e281a817304af5183b3d0dca37909bc24cd347305c1a := by

  simp only [keccakRound, c10oa_r10t, c10oa_r10p, c10oa_r10c]

  decide

theorem c10oa_r11t : keccakTheta 0x2880698980225fd8fdec053d7db2228086ee88e31ff1e28051215e68b6067f25ca73ea6f8f5f236468c4d32e02ba837861a848b73451cea3b3ddb5063cd85aad8304901286294b4d685ec0523e88f0c39c920702e4fa921a3a1c3a583f29b1da6bdcf6e43b197e2bcccc4684766b232faae8714d12f4dca64fa684e755b123c5e0eb61c4056d30dccd9fe1322c3ff926a10fbe7eaa508b3d0b5bb7cca51baa799d10a0e6fd000add242a03df837a5eec4607e281a817304af5183b3d0dca37909bc24cd347305c1a = 0x7aa03c9ef2ee9ed4345afec67c0ce2ae0922aecd1f952ef863926f62cf3e989251ef68b0823113123ae4863970764274a81eb34c35ef0e8d3c1193283cbc96d5b1b7a118ff11acfaf3c2428d33e6c0b5ceb2521596365316f3aac1a33e9771f4e410d0ca3b7db253fe7f778e0f53c4983174f3921f9aecd01d86d1f0277de2c9295d9a3f04d3f0f24253c71c2c5b355e93bc8f74d3686c8a90c73513a8759a0fcf30f5f18fcccbd1ed9cf82482c49ec2c9cbc4afa873fc32c7ab0a3774f2d027005ece0c4a5e6c6c := by decide

theorem c10oa_r11p : keccakRhoPi keccak_rotc_std 0x7aa03c9ef2ee9ed4345afec67c0ce2ae0922aecd1f952ef863926f62cf3e989251ef68b0823113123ae4863970764274a81eb34c35ef0e8d3c1193283cbc96d5b1b7a118ff11acfaf3c2428d33e6c0b5ceb2521596365316f3aac1a33e9771f4e410d0ca3b7db253fe7f778e0f53c4983174f3921f9aecd01d86d1f0277de2c9295d9a3f04d3f0f24253c71c2c5b355e93bc8f74d3686c8a90c73513a8759a0fcf30f5f18fcccbd1ed9cf82482c49ec2c9cbc4afa873fc32c7ab0a3774f2d027005ece0c4a5e6c6c = 0x8e49bd8b3cfa6249cd816be784851a671b298b6759290acb7914aecd1f8269f8b272f12bea1cff0cae345afec67c0ce2c9941e5e4b6a9e08fdde383d4f1263f98759a0f90c73513a8c7e665e8e7987afa2c208c44c4947bde48639707642743a467d2ee3e9e7558394f1c70b16cd57908f56146ee9e5a04f012455d9a3f2a5df359f5636f4231fe28ba79c90fcd766811f0277de2c91d86d482c49ec2ed9cf820f27bcbba7b51ea86986bde1d1b503d6ed929f20868651db86c8a93bc8f74d36005ece0c4a5e6c6c := by decide

theorem c10oa_r11c : keccakChi 0x8e49bd8b3cfa6249cd816be784851a671b298b6759290acb7914aecd1f8269f8b272f12bea1cff0cae345afec67c0ce2c9941e5e4b6a9e08fdde383d4f1263f98759a0f90c73513a8c7e665e8e7987afa2c208c44c4947bde48639707642743a467d2ee3e9e7558394f1c70b16cd57908f56146ee9e5a04f012455d9a3f2a5df359f5636f4231fe28ba79c90fcd766811f0277de2c91d86d482c49ec2ed9cf820f27bcbba7b51ea86986bde1d1b503d6ed929f20868651db86c8a93bc8f74d36005ece0c4a5e6c6c = 0xc74db34f297862b9fdb32bc74681876319611f6f61536ac3bd94ce4d9b0679dcb05bf009aa35fd0fad35da5fc67e5cf2c9de3a5e436b1d05dbfe789dcb06631b8759a6bb0c1bcd3af4f87e5acd79a56eb263cbc55a41102de9922d5ad7e6d478443d2e67e1ee56063473d61b00cd77a8cd5a3c8e00c7a04c162663cba3f2b5b27d975e12f82a55e28b879d59ff07c69c2b1a35f82cb1c10fc889c1ecfe9fe90289a79d8827141fba69deffe599ff6392ebb39f3aa0864df386cc89fa99c64f32694cd80c4c5e7ca5 := by decide

theorem c10oa_r11 : keccakRound keccak_rotc_std 0x2880698980225fd8fdec053d7db2228086ee88e31ff1e28051215e68b6067f25ca73ea6f8f5f236468c4d32e02ba837861a848b73451cea3b3ddb5063cd85aad8304901286294b4d685ec0523e88f0c39c920702e4fa921a3a1c3a583f29b1da6bdcf6e43b197e2bcccc4684766b232faae8714d12f4dca64fa684e755b123c5e0eb61c4056d30dccd9fe1322c3ff926a10fbe7eaa508b3d0b5bb7cca51baa799d10a0e6fd000add242a03df837a5eec4607e281a817304af5183b3d0dca37909bc24cd347305c1a 11 = 0xc74db34f297862b9fdb32bc74681876319611f6f61536ac3bd94ce4d9b0679dcb05bf009aa35fd0fad35da5fc67e5cf2c9de3a5e436b1d05dbfe789dcb06631b8759a6bb0c1bcd3af4f87e5acd79a56eb263cbc55a41102de9922d5ad7e6d478443d2e67e1ee56063473d61b00cd77a8cd5a3c8e00c7a04c162663cba3f2b5b27d975e12f82a55e28b879d59ff07c69c2b1a35f82cb1c10fc889c1ecfe9fe90289a79d8827141fba69deffe599ff6392ebb39f3aa0864df386cc89fa99c64f32694cd80ccc5e7caf := by

  simp only [keccakRound, c10oa_r11t, c10oa_r11p, c10oa_r11c]

  decide

theorem c10oa_r12t : keccakTheta 0xc74db34f297862b9fdb32bc74681876319611f6f61536ac3bd94ce4d9b0679dcb05bf009aa35fd0fad35da5fc67e5cf2c9de3a5e436b1d05dbfe789dcb06631b8759a6bb0c1bcd3af4f87e5acd79a56eb263cbc55a41102de9922d5ad7e6d478443d2e67e1ee56063473d61b00cd77a8cd5a3c8e00c7a04c162663cba3f2b5b27d975e12f82a55e28b879d59ff07c69c2b1a35f82cb1c10fc889c1ecfe9fe90289a79d8827141fba69deffe599ff6392ebb39f3aa0864df386cc89fa99c64f32694cd80ccc5e7caf = 0x5e8278013035c1d79411d91d31f85b0e296427e92446d76d5884f29ce639bd3fb111a941dedae38634fa1111df33ff9ca07cc8843412c168ebfb401b8e13deb562499a6a712409d9f5b22712b996bbe72bac008b430cb3438030df80a09f0815743816e1a4fbeba8d163eaca7df2b34bcc1065c67428bec58fe9a885babf16dc1435acc88f53898fbb82a5dfba127b32ce0a0929518e05ecc9c398a48a70f78b106856c63e59bcd4007c0d3fee86bfffdbb6a7bce593f05d63dcb52be4f98bd168068144b8b16226 := by decide

theorem c10oa_r12p : keccakRhoPi keccak_rotc_std 0x5e8278013035c1d79411d91d31f85b0e296427e92446d76d5884f29ce639bd3fb111a941dedae38634fa1111df33ff9ca07cc8843412c168ebfb401b8e13deb562499a6a712409d9f5b22712b996bbe72bac008b430cb3438030df80a09f0815743816e1a4fbeba8d163eaca7df2b34bcc1065c67428bec58fe9a885babf16dc1435acc88f53898fbb82a5dfba127b32ce0a0929518e05ecc9c398a48a70f78b106856c63e59bcd4007c0d3fee86bfffdbb6a7bce593f05d63dcb52be4f98bd168068144b8b16226 = 0x6213ca7398e6f4fd2d77cfeb644e25738659a195d60045a1c78a1ad66447a9c476eda9ef3964fc170e9411d91d31f85ba00dc709ef5af5fd8fab29f7cacd2f45a70f78bc9c398a4831f2cde6a08342b6a5077b6b8e1ac446fa1111df33ff9c3401413e102b0061bfe0a977ee849eccaec7b96a57c9f317a2a52c84fd2488daed813b2c49334d4e2460832e33a145f62e885babf16dc8fe9afee86bfff007c0d39e004c0d7075d7a0108682582d140f99df5d43a1c0b70d27e05ecce0a092951868068144b8b16226 := by decide

theorem c10oa_r12c : keccakChi 0x6213ca7398e6f4fd2d77cfeb644e25738659a195d60045a1c78a1ad66447a9c476eda9ef3964fc170e9411d91d31f85ba00dc709ef5af5fd8fab29f7cacd2f45a70f78bc9c398a4831f2cde6a08342b6a5077b6b8e1ac446fa1111df33ff9c3401413e102b0061bfe0a977ee849eccaec7b96a57c9f317a2a52c84fd2488daed813b2c49334d4e2460832e33a145f62e885babf16dc8fe9afee86bfff007c0d39e004c0d7075d7a0108682582d140f99df5d43a1c0b70d27e05ecce0a092951868068144b8b16226 = 0xe311d863dce5f53d399bee67454e2d71c459a1854ea0952deeac54bc4409899676bc08eeab64b836889921c101097013916f0b2f4fd8f759813b3927daec2747870bbeb4b92b5af03952cca5e24767b385076ec38a160c4ab8a911cb721e8f9404475430a70021fd1ab97621946150aec6f96247e2f336b3a53f04fd2940e4e5dbfb474be34a4e364487ae87a5c566e70963abb97fc0f69a9e686ffd7002c0f71e5800ad707742b870800318a5942f9f515d0fa490d6dd07e0dc4cb88d92978077078245f8946a01 := by decide

theorem c10oa_r12 : keccakRound keccak_rotc_std 0xc74db34f297862b9fdb32bc74681876319611f6f61536ac3bd94ce4d9b0679dcb05bf009aa35fd0fad35da5fc67e5cf2c9de3a5e436b1d05dbfe789dcb06631b8759a6bb0c1bcd3af4f87e5acd79a56eb263cbc55a41102de9922d5ad7e6d478443d2e67e1ee56063473d61b00cd77a8cd5a3c8e00c7a04c162663cba3f2b5b27d975e12f82a55e28b879d59ff07c69c2b1a35f82cb1c10fc889c1ecfe9fe90289a79d8827141fba69deffe599ff6392ebb39f3aa0864df386cc89fa99c64f32694cd80ccc5e7caf 12 = 0xe311d863dce5f53d399bee67454e2d71c459a1854ea0952deeac54bc4409899676bc08eeab64b836889921c101097013916f0b2f4fd8f759813b3927daec2747870bbeb4b92b5af03952cca5e24767b385076ec38a160c4ab8a911cb721e8f9404475430a70021fd1ab97621946150aec6f96247e2f336b3a53f04fd2940e4e5dbfb474be34a4e364487ae87a5c566e70963abb97fc0f69a9e686ffd7002c0f71e5800ad707742b870800318a5942f9f515d0fa490d6dd07e0dc4cb88d929780770782457894ea8a := by

  simp only [keccakRound, c10oa_r12t, c10oa_r12p, c10oa_r12c]

  decide

theorem c10oa_r13t : keccakTheta 0xe311d863dce5f53d399bee67454e2d71c459a1854ea0952deeac54bc4409899676bc08eeab64b836889921c101097013916f0b2f4fd8f759813b3927daec2747870bbeb4b92b5af03952cca5e24767b385076ec38a160c4ab8a911cb721e8f9404475430a70021fd1ab97621946150aec6f96247e2f336b3a53f04fd2940e4e5dbfb474be34a4e364487ae87a5c566e70963abb97fc0f69a9e686ffd7002c0f71e5800ad707742b870800318a5942f9f515d0fa490d6dd07e0dc4cb88d929780770782457894ea8a = 0x98c7ffdaa43e47bec6b5a5b45e8b5b7428b5bb0da91d1fd4272ac46aebf11a3316166d8e938a52aaf34f067879d2c2906e4140fc541d815c6dd723af3d51adbe4e8d2e6216d3c95559f8a9c5daa98d2ffed1497af2cdbec947875a1869dbf991e8ab4eb840bdab04d33fe6f73b99c30ba6530727da1ddc2fdee92344519b566624d50c98f88f3833a86bb40f4278ec1ec0e53b6fd038653ffec20a9d48ec2a6b658e271408acf03b8fae48cbbe51599abdb1152c776b57fe295adc6e226a042517ade725407a0016 := by decide

theorem c10oa_r13p : keccakRhoPi keccak_rotc_std 0x98c7ffdaa43e47bec6b5a5b45e8b5b7428b5bb0da91d1fd4272ac46aebf11a3316166d8e938a52aaf34f067879d2c2906e4140fc541d815c6dd723af3d51adbe4e8d2e6216d3c95559f8a9c5daa98d2ffed1497af2cdbec947875a1869dbf991e8ab4eb840bdab04d33fe6f73b99c30ba6530727da1ddc2fdee92344519b566624d50c98f88f3833a86bb40f4278ec1ec0e53b6fd038653ffec20a9d48ec2a6b658e271408acf03b8fae48cbbe51599abdb1152c776b57fe295adc6e226a042517ade725407a0016 = 0x9cab11abafc468cc531a5eb3f1538bb566df64ff68a4bd7919926a864c7c479caf6c454b1ddad5ff74c6b5a5b45e8b5b91d79ea8d6df36ebff9bdcee670c2f4c8ec2a6bfec20a9d4a0456781db2c7138b63a4e294aa858594f067879d2c290f330d3b7f3228f0eb41aed03d09e3b07aa52b5b8dc44d4084a8516b761b523a3fa792aa9d1a5cc42da3298393ed0eee17d344519b5666dee92bbe51599a8fae48cfff6a90f91efa6311f8a83b02b8dc828ed5827455a75c2058653fc0e53b6fd0317ade725407a0016 := by decide

theorem c10oa_r13c : keccakChi 0x9cab11abafc468cc531a5eb3f1538bb566df64ff68a4bd7919926a864c7c479caf6c454b1ddad5ff74c6b5a5b45e8b5b91d79ea8d6df36ebff9bdcee670c2f4c8ec2a6bfec20a9d4a0456781db2c7138b63a4e294aa858594f067879d2c290f330d3b7f3228f0eb41aed03d09e3b07aa52b5b8dc44d4084a8516b761b523a3fa792aa9d1a5cc42da3298393ed0eee17d344519b5666dee92bbe51599a8fae48cfff6a90f91efa6311f8a83b02b8dc828ed5827455a75c2058653fc0e53b6fd0317ade725407a0016 = 0x8c393b2fefe06acc705e1af3e1491e86ea7e65f76620dd3108927086dd2f4518c92141323d5a6d9e7a44359b905e039f11d6dca89dff46cb9b9bfdeb470ca65c8e86a4bf7cf3b977d15c3fc1d8207730be724d29d0835ff90f83c8add69690f180ebb1f32aa746bc55e94bd84e7b97e972a70cff6450005e8116bf45f326a9e843cba949ad1406deb68c2f1ec0cd405d7d679974436dec10b97d35933878e5e17fa4b105826b5b301f83c5906b9dc82e0d2c0f4aca17e41494d17cbe723ef52b7ea5e464483b0212 := by decide

theorem c10oa_r13 : keccakRound keccak_rotc_std 0xe311d863dce5f53d399bee67454e2d71c459a1854ea0952deeac54bc4409899676bc08eeab64b836889921c101097013916f0b2f4fd8f759813b3927daec2747870bbeb4b92b5af03952cca5e24767b385076ec38a160c4ab8a911cb721e8f9404475430a70021fd1ab97621946150aec6f96247e2f336b3a53f04fd2940e4e5dbfb474be34a4e364487ae87a5c566e70963abb97fc0f69a9e686ffd7002c0f71e5800ad707742b870800318a5942f9f515d0fa490d6dd07e0dc4cb88d929780770782457894ea8a 13 = 0x8c393b2fefe06acc705e1af3e1491e86ea7e65f76620dd3108927086dd2f4518c92141323d5a6d9e7a44359b905e039f11d6dca89dff46cb9b9bfdeb470ca65c8e86a4bf7cf3b977d15c3fc1d8207730be724d29d0835ff90f83c8add69690f180ebb1f32aa746bc55e94bd84e7b97e972a70cff6450005e8116bf45f326a9e843cba949ad1406deb68c2f1ec0cd405d7d679974436dec10b97d35933878e5e17fa4b105826b5b301f83c5906b9dc82e0d2c0f4aca17e41494d17cbe723ef52bfea5e464483b0299 := by

  simp only [keccakRound, c10oa_r13t, c10oa_r13p, c10oa_r13c]

  decide

theorem c10oa_r14t : keccakTheta 0x8c393b2fefe06acc705e1af3e1491e86ea7e65f76620dd3108927086dd2f4518c92141323d5a6d9e7a44359b905e039f11d6dca89dff46cb9b9bfdeb470ca65c8e86a4bf7cf3b977d15c3fc1d8207730be724d29d0835ff90f83c8add69690f180ebb1f32aa746bc55e94bd84e7b97e972a70cff6450005e8116bf45f326a9e843cba949ad1406deb68c2f1ec0cd405d7d679974436dec10b97d35933878e5e17fa4b105826b5b301f83c5906b9dc82e0d2c0f4aca17e41494d17cbe723ef52bfea5e464483b0299 = 0xe47f1ef7619a9790578a88f35cf90ffbb4b3db826186a314b0ccc00b2ee58ba00b0af8b85ec24c96120210431e24fec336024ea8204f57b6c556439e40aad87936d814328f3977cf1377864bbbb85638d63468f15ef9a2a528575aad6b26818cde260f862d013899edb7fb55bdb15951b08cb57507c82156e9509a9d7d5c54b4641f3b4910a417a3e841916bc76b3e78c53929f9b0a722a87b568c195be0c4e917e294dd0c11a66c38575790d62dd95353e1b13fcdb19a312c8fcc3381f43b933c8e5dee2ba32391 := by decide

theorem c10oa_r14p : keccakRhoPi keccak_rotc_std 0xe47f1ef7619a9790578a88f35cf90ffbb4b3db826186a314b0ccc00b2ee58ba00b0af8b85ec24c96120210431e24fec336024ea8204f57b6c556439e40aad87936d814328f3977cf1377864bbbb85638d63468f15ef9a2a528575aad6b26818cde260f862d013899edb7fb55bdb15951b08cb57507c82156e9509a9d7d5c54b4641f3b4910a417a3e841916bc76b3e78c53929f9b0a722a87b568c195be0c4e917e294dd0c11a66c38575790d62dd95353e1b13fcdb19a312c8fcc3381f43b933c8e5dee2ba32391 = 0xc333002cbb962e8270ac7026ef0c97777cd152eb1a3478afd1b20f9da488520b54f86c4ff36c668cfb578a88f35cf90f21cf20556c3ce2abdfed56f6c56547b6be0c4e97b568c195e8608d3360bf14a6e2e17b0932582c2b0210431e24fec3125ad64d031850aeb510645af1dacf9e3a591f986703e8772696967b704c30d4622ef9e6db028651e78465aba83e410ab5a9d7d5c54b4e95090d62dd9533857579c7bdd866a5e4391fd50409eaf6c6c04909c4cef1307c3168722a8c53929f9b0a3c8e5dee2ba32391 := by decide

theorem c10oa_r14c : keccakChi 0xc333002cbb962e8270ac7026ef0c97777cd152eb1a3478afd1b20f9da488520b54f86c4ff36c668cfb578a88f35cf90f21cf20556c3ce2abdfed56f6c56547b6be0c4e97b568c195e8608d3360bf14a6e2e17b0932582c2b0210431e24fec3125ad64d031850aeb510645af1dacf9e3a591f986703e8772696967b704c30d4622ef9e6db028651e78465aba83e410ab5a9d7d5c54b4e95090d62dd9533857579c7bdd866a5e4391fd50409eaf6c6c04909c4cef1307c3168722a8c53929f9b0a3c8e5dee2ba32391 = 0x423103bcbf163e8164641c65af64d77bffc252e30aa6502fd19e2f994180d55b78b93c2de9584e28ed5bc80c661c381e21ef25666c9fe60b05fddc7e56255eb29e0e6e969d70619ca9819d5320ba1284e2813999ea5fa4331b0ec378255e9016ba3775020a50829c106458edfe61df38138d9d6503f857a336037b30047a54622799625e310370fe1463b28872718eb5834f91964bc8c44b0942f7bd07847fcd859d587735f8a115ed060c62fcc5c2c90b7d1ef5315c087ea62a8d59541d5b0b354a1f4e0bc303f1 := by decide

theorem c10oa_r14 : keccakRound keccak_rotc_std 0x8c393b2fefe06acc705e1af3e1491e86ea7e65f76620dd3108927086dd2f4518c92141323d5a6d9e7a44359b905e039f11d6dca89dff46cb9b9bfdeb470ca65c8e86a4bf7cf3b977d15c3fc1d8207730be724d29d0835ff90f83c8add69690f180ebb1f32aa746bc55e94bd84e7b97e972a70cff6450005e8116bf45f326a9e843cba949ad1406deb68c2f1ec0cd405d7d679974436dec10b97d35933878e5e17fa4b105826b5b301f83c5906b9dc82e0d2c0f4aca17e41494d17cbe723ef52bfea5e464483b0299 14 = 0x423103bcbf163e8164641c65af64d77bffc252e30aa6502fd19e2f994180d55b78b93c2de9584e28ed5bc80c661c381e21ef25666c9fe60b05fddc7e56255eb29e0e6e969d70619ca9819d5320ba1284e2813999ea5fa4331b0ec378255e9016ba3775020a50829c106458edfe61df38138d9d6503f857a336037b30047a54622799625e310370fe1463b28872718eb5834f91964bc8c44b0942f7bd07847fcd859d587735f8a115ed060c62fcc5c2c90b7d1ef5315c087ea62a8d59541d5b0bb54a1f4e0bc38378 := by

  simp only [keccakRound, c10oa_r14t, c10oa_r14p, c10oa_r14c]

  decide

theorem c10oa_r15t : keccakTheta 0x423103bcbf163e8164641c65af64d77bffc252e30aa6502fd19e2f994180d55b78b93c2de9584e28ed5bc80c661c381e21ef25666c9fe60b05fddc7e56255eb29e0e6e969d70619ca9819d5320ba1284e2813999ea5fa4331b0ec378255e9016ba3775020a50829c106458edfe61df38138d9d6503f857a336037b30047a54622799625e310370fe1463b28872718eb5834f91964bc8c44b0942f7bd07847fcd859d587735f8a115ed060c62fcc5c2c90b7d1ef5315c087ea62a8d59541d5b0bb54a1f4e0bc38378 = 0x2b503e2a18cec2a4c799e95bbf347206ad667f4061248233110f54b5ac21377573eee7199106f08d843af59ac1c4c43b8212d0587ccf43765759f1dd3da78cae5e9f15ba70d183b2a2d6466758e4ac218be0040f4d875816b8f33646350e356be89358a161d25080d0f523c113c03d1618da46517ba6e9065f6246a6a3a2a847846497602153d58346c79f2b19f35ca943deeabaa669266502152c897fdac168ecfc65e192205d304efbf95cec9567b459d933565adeda6266bbf675b9bcb925be1dc47a739d3ddd := by decide

theorem c10oa_r15p : keccakRhoPi keccak_rotc_std 0x2b503e2a18cec2a4c799e95bbf347206ad667f4061248233110f54b5ac21377573eee7199106f08d843af59ac1c4c43b8212d0587ccf43765759f1dd3da78cae5e9f15ba70d183b2a2d6466758e4ac218be0040f4d875816b8f33646350e356be89358a161d25080d0f523c113c03d1618da46517ba6e9065f6246a6a3a2a847846497602153d58346c79f2b19f35ca943deeabaa669266502152c897fdac168ecfc65e192205d304efbf95cec9567b459d933565adeda6266bbf675b9bcb925be1dc47a739d3ddd = 0x443d52d6b084ddd4c9584345ac8cceb1c3ac0b45f00207a6c1c2324bb010a9ea96764cd596b7b69806c799e95bbf3472f8ee9ed3c6572bacd48f044f00f45b43fdac16802152c8970c9102e98767e32f9c66441bc235cfbb3af59ac1c4c43b848c6a1c6ad771e66cb1e7cac67cd72a51cd77eceb7379724a75accfe80c24904630764bd3e2b74e1ac6d2328bdd3748306a6a3a2a8475f624cec9567b44efbf950f8a8633b0a90ad40b0f99e86ed0425a928407449ac50b0e9266543deeabaa66be1dc47a739d3ddd := by decide

theorem c10oa_r15c : keccakChi 0x443d52d6b084ddd4c9584345ac8cceb1c3ac0b45f00207a6c1c2324bb010a9ea96764cd596b7b69806c799e95bbf3472f8ee9ed3c6572bacd48f044f00f45b43fdac16802152c8970c9102e98767e32f9c66441bc235cfbb3af59ac1c4c43b848c6a1c6ad771e66cb1e7cac67cd72a51cd77eceb7379724a75accfe80c24904630764bd3e2b74e1ac6d2328bdd3748306a6a3a2a8475f624cec9567b44efbf950f8a8633b0a90ad40b0f99e86ed0425a928407449ac50b0e9266543deeabaa66be1dc47a739d3ddd = 0x5bd60dc9084d4b65b1a4f44aabfecb9c7891bd7e00216e2c992724bbc9c61fb945a45d1d6b5b09cf7eb8de97baf3ce2f0fe9cd34217e8a1d28e0567195c4f11d5cc8c10e751e83b0c9202a687c3f06face6461fceb3c7aa7be43221f58c0bc408685870d5402257837248477c5333d1c17ff8c3f059b666558ee7e88c34d066ba375bc0a27c618b835ab6a3d137d8745a4e737aa6f5f02e4a5956fa1dedb7850fe896363c8b88f6bb1ad9a02dc47753960401570aec038a9b6dcc958abbea36be9dc73a63d93cd5 := by decide

theorem c10oa_r15 : keccakRound keccak_rotc_std 0x423103bcbf163e8164641c65af64d77bffc252e30aa6502fd19e2f994180d55b78b93c2de9584e28ed5bc80c661c381e21ef25666c9fe60b05fddc7e56255eb29e0e6e969d70619ca9819d5320ba1284e2813999ea5fa4331b0ec378255e9016ba3775020a50829c106458edfe61df38138d9d6503f857a336037b30047a54622799625e310370fe1463b28872718eb5834f91964bc8c44b0942f7bd07847fcd859d587735f8a115ed060c62fcc5c2c90b7d1ef5315c087ea62a8d59541d5b0bb54a1f4e0bc38378 15 = 0x5bd60dc9084d4b65b1a4f44aabfecb9c7891bd7e00216e2c992724bbc9c61fb945a45d1d6b5b09cf7eb8de97baf3ce2f0fe9cd34217e8a1d28e0567195c4f11d5cc8c10e751e83b0c9202a687c3f06face6461fceb3c7aa7be43221f58c0bc408685870d5402257837248477c5333d1c17ff8c3f059b666558ee7e88c34d066ba375bc0a27c618b835ab6a3d137d8745a4e737aa6f5f02e4a5956fa1dedb7850fe896363c8b88f6bb1ad9a02dc47753960401570aec038a9b6dcc958abbea363e9dc73a63d9bcd6 := by

  simp only [keccakRound, c10oa_r15t, c10oa_r15p, c10oa_r15c]

  decide

theorem c10oa_r16t : keccakTheta 0x5bd60dc9084d4b65b1a4f44aabfecb9c7891bd7e00216e2c992724bbc9c61fb945a45d1d6b5b09cf7eb8de97baf3ce2f0fe9cd34217e8a1d28e0567195c4f11d5cc8c10e751e83b0c9202a687c3f06face6461fceb3c7aa7be43221f58c0bc408685870d5402257837248477c5333d1c17ff8c3f059b666558ee7e88c34d066ba375bc0a27c618b835ab6a3d137d8745a4e737aa6f5f02e4a5956fa1dedb7850fe896363c8b88f6bb1ad9a02dc47753960401570aec038a9b6dcc958abbea363e9dc73a63d9bcd6 = 0x8e765fe3bc2f363e5a860b997734a23f3bdcd589ceea84e2f482be568c0cdc892c928cc3543387e07c20b2d65704de6af162d80e9f9ca6272edbcb3937b4dd11e8dc400dd7c15549b45acbb40545c713272d7920e21825227a7876fc28074542f43d962efba8b057be62845a4cc38ea379b731d172df811ade45d8d7a09f32eebbab1f1d7ff72f0d7f0f78fdffdf4a74675ebf6796654d5cf2919fe89f6b80f98423a90910206a7eba869d7df04f39d56a51cf092404918aa67d0088ba2b574486550e28e15f8baa := by decide

theorem c10oa_r16p : keccakRhoPi keccak_rotc_std 0x8e765fe3bc2f363e5a860b997734a23f3bdcd589ceea84e2f482be568c0cdc892c928cc3543387e07c20b2d65704de6af162d80e9f9ca6272edbcb3937b4dd11e8dc400dd7c15549b45acbb40545c713272d7920e21825227a7876fc28074542f43d962efba8b057be62845a4cc38ea379b731d172df811ade45d8d7a09f32eebbab1f1d7ff72f0d7f0f78fdffdf4a74675ebf6796654d5cf2919fe89f6b80f98423a90910206a7eba869d7df04f39d56a51cf092404918aa67d0088ba2b574486550e28e15f8baa = 0xd20af95a303372278b8e2768b597680a0c12911396bc907186ddd58f8ebffb979a9473c2490124623f5a860b997734a2e59c9bda6e88976d8a1169330e3a8ef9f6b80f9f2919fe8948810353f4211d48330d50ce1f80b24a20b2d65704de6a7cf8500e8a84f4f0edc3de3f7ff7d29d1f4cfa01117456ae89477b9ab139dd509c2aa93d1b8801baf8cdb98e8b96fc08d38d7a09f32eede45ddf04f39d5ba869d797f8ef0bcd8fa39d01d3f394c4fe2c5b4582bfa1ecb177dd54d5c675ebf6796686550e28e15f8baa := by decide

theorem c10oa_r16c : keccakChi 0xd20af95a303372278b8e2768b597680a0c12911396bc907186ddd58f8ebffb979a9473c2490124623f5a860b997734a2e59c9bda6e88976d8a1169330e3a8ef9f6b80f9f2919fe8948810353f4211d48330d50ce1f80b24a20b2d65704de6a7cf8500e8a84f4f0edc3de3f7ff7d29d1f4cfa01117456ae89477b9ab139dd509c2aa93d1b8801baf8cdb98e8b96fc08d38d7a09f32eede45ddf04f39d5ba869d797f8ef0bcd8fa39d01d3f394c4fe2c5b4582bfa1ecb177dd54d5c675ebf6796686550e28e15f8baa = 0xd6437d57b68da9b2831a25e8fc976c4a5c124901969c82540551f3e7afbc939d929673d25901240289628a87906fd623a51d9a8a0a889e2590536d329f4dae7b93349d574999ef8d40806373f2031d38b0096ea09c00a35c6c40d746648866fdeb5d0e029ff460efc37cef2af7d8970f74fa01917472ce69470192d31d98d494b2ad5c17ca2193bb88eb0c2ba72048d7af7a38e326ec56759f857595cbb86155c7782f5ec72fd3d901d6f3b4e4ae2479d3aab3aae5b0f45954848661ebb87164875737a8e55e8d33 := by decide

theorem c10oa_r16 : keccakRound keccak_rotc_std 0x5bd60dc9084d4b65b1a4f44aabfecb9c7891bd7e00216e2c992724bbc9c61fb945a45d1d6b5b09cf7eb8de97baf3ce2f0fe9cd34217e8a1d28e0567195c4f11d5cc8c10e751e83b0c9202a687c3f06face6461fceb3c7aa7be43221f58c0bc408685870d5402257837248477c5333d1c17ff8c3f059b666558ee7e88c34d066ba375bc0a27c618b835ab6a3d137d8745a4e737aa6f5f02e4a5956fa1dedb7850fe896363c8b88f6bb1ad9a02dc47753960401570aec038a9b6dcc958abbea363e9dc73a63d9bcd6 16 = 0xd6437d57b68da9b2831a25e8fc976c4a5c124901969c82540551f3e7afbc939d929673d25901240289628a87906fd623a51d9a8a0a889e2590536d329f4dae7b93349d574999ef8d40806373f2031d38b0096ea09c00a35c6c40d746648866fdeb5d0e029ff460efc37cef2af7d8970f74fa01917472ce69470192d31d98d494b2ad5c17ca2193bb88eb0c2ba72048d7af7a38e326ec56759f857595cbb86155c7782f5ec72fd3d901d6f3b4e4ae2479d3aab3aae5b0f45954848661ebb87164075737a8e55e0d31 := by

  simp only [keccakRound, c10oa_r16t, c10oa_r16p, c10oa_r16c]

  decide

theorem c10oa_r17t : keccakTheta 0xd6437d57b68da9b2831a25e8fc976c4a5c124901969c82540551f3e7afbc939d929673d25901240289628a87906fd623a51d9a8a0a889e2590536d329f4dae7b93349d574999ef8d40806373f2031d38b0096ea09c00a35c6c40d746648866fdeb5d0e029ff460efc37cef2af7d8970f74fa01917472ce69470192d31d98d494b2ad5c17ca2193bb88eb0c2ba72048d7af7a38e326ec56759f857595cbb86155c7782f5ec72fd3d901d6f3b4e4ae2479d3aab3aae5b0f45954848661ebb87164075737a8e55e0d31 = 0x53031ccbe9b8bc8c21e5f9a2e8892b04008cf916320508fbc3d48b8bf741e836a009291e8007679f0c22eb1bcf5ac31d07e246c01e96d96bcccddd253bd424d455b1e53b11649426721f39bf2b055ea535490f3cc335b662cebf0b0c709621b3b7c3be153b6dea4005f99746af25eca446655b5dad748df4c241f34f42adc1aa1052805dde3fd4f5d475bc3c03b9c27869ff408f7e112ddead1a2f5912be22c842384ec2981ac6e7a3292ffef0b063378f3403bd41297ef69201fe0db3450acf35c86d643c584eac := by decide

theorem c10oa_r17p : keccakRhoPi keccak_rotc_std 0x53031ccbe9b8bc8c21e5f9a2e8892b04008cf916320508fbc3d48b8bf741e836a009291e8007679f0c22eb1bcf5ac31d07e246c01e96d96bcccddd253bd424d455b1e53b11649426721f39bf2b055ea535490f3cc335b662cebf0b0c709621b3b7c3be153b6dea4005f99746af25eca446655b5dad748df4c241f34f42adc1aa1052805dde3fd4f5d475bc3c03b9c27869ff408f7e112ddead1a2f5912be22c842384ec2981ac6e7a3292ffef0b063378f3403bd41297ef69201fe0db3450acf35c86d643c584eac = 0xf522e2fdd07a0db0abd4ae43e737e569adb311aa4879e617a8829402eef1feaa3cd00ef504a5fbd0421e5f9a2e8892bee929dea126a6666e65d1abc97b290172be22c8ad1a2f59114c0d6373a11c276a47a001d9e7e802422eb1bcf5ac31d0c18e12c43679d7e161d6f0f00ee709e352403fc1b668a159f60119f22c640a11f9284cab63ca7622c332adaed6ba46fa234f42adc1aac241fef0b06337a3292ffc732fa6e2f2314c0d803d2db2d60fc486f5205be1df0a9db12dde69ff408f7e135c86d643c584eac := by decide

theorem c10oa_r17c : keccakChi 0xf522e2fdd07a0db0abd4ae43e737e569adb311aa4879e617a8829402eef1feaa3cd00ef504a5fbd0421e5f9a2e8892bee929dea126a6666e65d1abc97b290172be22c8ad1a2f59114c0d6373a11c276a47a001d9e7e802422eb1bcf5ac31d0c18e12c43679d7e161d6f0f00ee709e352403fc1b668a159f60119f22c640a11f9284cab63ca7622c332adaed6ba46fa234f42adc1aac241fef0b06337a3292ffc732fa6e2f2314c0d803d2db2d60fc486f5205be1df0a9db12dde69ff408f7e135c86d643c584eac = 0x5752072ff3a2a099aa304a243e3b21729f99151165831ee87aac63a4349f7ffc239e10f5d04adfbc2f03cd71634abcaafe528fec0a7b2432e67c7aad3732191e2360a9c8d1ea93f1d0ddc4033c01c270bd16031d160e0a0422eae7cd3a4308979cf12c53e3a1fe363f651c8cf6329f3d2483dc586707759d70e5b7eec6cc851f1d8ecaa7049570cc533bcfeda9e4eeb1b4702ace0eaf2413ec01d6121b32d95fc52778f5ef23a581e8cbd7db3d38b66468622d9a1ff3a95b82dc34ded408a3e158ca6c4435a846b6 := by decide

theorem c10oa_r17 : keccakRound keccak_rotc_std 0xd6437d57b68da9b2831a25e8fc976c4a5c124901969c82540551f3e7afbc939d929673d25901240289628a87906fd623a51d9a8a0a889e2590536d329f4dae7b93349d574999ef8d40806373f2031d38b0096ea09c00a35c6c40d746648866fdeb5d0e029ff460efc37cef2af7d8970f74fa01917472ce69470192d31d98d494b2ad5c17ca2193bb88eb0c2ba72048d7af7a38e326ec56759f857595cbb86155c7782f5ec72fd3d901d6f3b4e4ae2479d3aab3aae5b0f45954848661ebb87164075737a8e55e0d31 17 = 0x5752072ff3a2a099aa304a243e3b21729f99151165831ee87aac63a4349f7ffc239e10f5d04adfbc2f03cd71634abcaafe528fec0a7b2432e67c7aad3732191e2360a9c8d1ea93f1d0ddc4033c01c270bd16031d160e0a0422eae7cd3a4308979cf12c53e3a1fe363f651c8cf6329f3d2483dc586707759d70e5b7eec6cc851f1d8ecaa7049570cc533bcfeda9e4eeb1b4702ace0eaf2413ec01d6121b32d95fc52778f5ef23a581e8cbd7db3d38b66468622d9a1ff3a95b82dc34ded408a3e1d8ca6c4435a84636 := by

  simp only [keccakRound, c10oa_r17t, c10oa_r17p, c10oa_r17c]

  decide

theorem c10oa_r18t : keccakTheta 0x5752072ff3a2a099aa304a243e3b21729f99151165831ee87aac63a4349f7ffc239e10f5d04adfbc2f03cd71634abcaafe528fec0a7b2432e67c7aad3732191e2360a9c8d1ea93f1d0ddc4033c01c270bd16031d160e0a0422eae7cd3a4308979cf12c53e3a1fe363f651c8cf6329f3d2483dc586707759d70e5b7eec6cc851f1d8ecaa7049570cc533bcfeda9e4eeb1b4702ace0eaf2413ec01d6121b32d95fc52778f5ef23a581e8cbd7db3d38b66468622d9a1ff3a95b82dc34ded408a3e1d8ca6c4435a84636 = 0x12885da78fa185979577e70d672ef20ac806a313c33e7cd5253c926c9f46f491f310874cec8200916ad997f91f4999a4c11522c5536ef74ab1e3ccaf918f7b237cf058007a33189c005353ba00c91d5df8cc59956a0d2f0a1dad4ae46356dbefcb6e9a51451c9c0b60f5ed445deb1450f40d4be15bcfaab0353fed66bacfa01122c9678e5d80a3b404a479ef0f598c8cebe0db06a576af7e3c8f41ab27fa067280fd227d9320808fd78c7af2642d651c3ffd9b98b94ecb66dd4cc5167fd1288c0844fbfd0960991b := by decide

theorem c10oa_r18p : keccakRhoPi keccak_rotc_std 0x12885da78fa185979577e70d672ef20ac806a313c33e7cd5253c926c9f46f491f310874cec8200916ad997f91f4999a4c11522c5536ef74ab1e3ccaf918f7b237cf058007a33189c005353ba00c91d5df8cc59956a0d2f0a1dad4ae46356dbefcb6e9a51451c9c0b60f5ed445deb1450f40d4be15bcfaab0353fed66bacfa01122c9678e5d80a3b404a479ef0f598c8cebe0db06a576af7e3c8f41ab27fa067280fd227d9320808fd78c7af2642d651c3ffd9b98b94ecb66dd4cc5167fd1288c0844fbfd0960991b = 0x94f249b27d1bd244923aba00a6a774010697857c662ccab5da1164b3c72ec0518fff66e62e53b2d90a9577e70d672ef2e657c8c7bd91d8f1d7b51177ac5141837fa06723c8f41ab2ec9904047c07e9131d33b2080247cc42d997f91f4999a46ac8c6adb7de3b5a95291e7bc3d6632301ba998a2cffa25119b900d4627867cf9a63138f9e0b000f46a06a5f0ade7d5587d66bacfa011353fe2642d651cd78c7af1769e3e86165c4a258aa6ddee95822a4e4e05e5b74d28a286af7eebe0db06a570844fbfd0960991b := by decide

theorem c10oa_r18c : keccakChi 0x94f249b27d1bd244923aba00a6a774010697857c662ccab5da1164b3c72ec0518fff66e62e53b2d90a9577e70d672ef2e657c8c7bd91d8f1d7b51177ac5141837fa06723c8f41ab2ec9904047c07e9131d33b2080247cc42d997f91f4999a46ac8c6adb7de3b5a95291e7bc3d6632301ba998a2cffa25119b900d4627867cf9a63138f9e0b000f46a06a5f0ade7d5587d66bacfa011353fe2642d651cd78c7af1769e3e86165c4a258aa6ddee95822a4e4e05e5b74d28a286af7eebe0db06a570844fbfd0960991b = 0xc4f249a3bc37924499379c44a4e754980257c4ce3f3448f14a395eb347adf4518b79e7aa0e53b87d19b514c48d973c52025fc8c7cd9119f0df352657ac3767815fe2afa3d97482c26c8c14505806a8121c35c3cb0206ee427b1ff13bb439b573cce6afb7dc7d1295380f2bcbd7e3876b7a590e18f7ba098d6929fcc87864dfca65518d8f8e180f63386a0f6aae1a951f957a2c6e001359be064285511314c3ae75dae7ea65f5a6e650ae75cbe1583bbde3a1dc7b74f74e2a72fdcf3a84b84ad38c44ebbc79221933 := by decide

theorem c10oa_r18 : keccakRound keccak_rotc_std 0x5752072ff3a2a099aa304a243e3b21729f99151165831ee87aac63a4349f7ffc239e10f5d04adfbc2f03cd71634abcaafe528fec0a7b2432e67c7aad3732191e2360a9c8d1ea93f1d0ddc4033c01c270bd16031d160e0a0422eae7cd3a4308979cf12c53e3a1fe363f651c8cf6329f3d2483dc586707759d70e5b7eec6cc851f1d8ecaa7049570cc533bcfeda9e4eeb1b4702ace0eaf2413ec01d6121b32d95fc52778f5ef23a581e8cbd7db3d38b66468622d9a1ff3a95b82dc34ded408a3e1d8ca6c4435a84636 18 = 0xc4f249a3bc37924499379c44a4e754980257c4ce3f3448f14a395eb347adf4518b79e7aa0e53b87d19b514c48d973c52025fc8c7cd9119f0df352657ac3767815fe2afa3d97482c26c8c14505806a8121c35c3cb0206ee427b1ff13bb439b573cce6afb7dc7d1295380f2bcbd7e3876b7a590e18f7ba098d6929fcc87864dfca65518d8f8e180f63386a0f6aae1a951f957a2c6e001359be064285511314c3ae75dae7ea65f5a6e650ae75cbe1583bbde3a1dc7b74f74e2a72fdcf3a84b84ad38c44ebbc79229939 := by

  simp only [keccakRound, c10oa_r18t, c10oa_r18p, c10oa_r18c]

  decide

theorem c10oa_r19t : keccakTheta 0xc4f249a3bc37924499379c44a4e754980257c4ce3f3448f14a395eb347adf4518b79e7aa0e53b87d19b514c48d973c52025fc8c7cd9119f0df352657ac3767815fe2afa3d97482c26c8c14505806a8121c35c3cb0206ee427b1ff13bb439b573cce6afb7dc7d1295380f2bcbd7e3876b7a590e18f7ba098d6929fcc87864dfca65518d8f8e180f63386a0f6aae1a951f957a2c6e001359be064285511314c3ae75dae7ea65f5a6e650ae75cbe1583bbde3a1dc7b74f74e2a72fdcf3a84b84ad38c44ebbc79229939 = 0x3e2f3240998ad86be87b09676d1ac0b9631446b896ba33efc90cf1c3a7537a85c25e113bbb47442ee3686f27a82a767d73135de4046c8dd1be76a42105b91c9fdcd700d3398a0c1625abe2c1ed125441e6e8b82827bba46d0a5364187dc42152ada52dc175f3698bbb3a84bb371d09bf337ef88942aef5de93f4872b5dd995e5141d18ac47e59b4259298d1c0794ee01164f831ee0edd76a4f6573c0a6003ffd8f079c094048ecc921e2e0e828a5af9c82e25e0ddd793534f1c8604a6446c407c5631d2dcc36656a := by decide

theorem c10oa_r19p : keccakRhoPi keccak_rotc_std 0x3e2f3240998ad86be87b09676d1ac0b9631446b896ba33efc90cf1c3a7537a85c25e113bbb47442ee3686f27a82a767d73135de4046c8dd1be76a42105b91c9fdcd700d3398a0c1625abe2c1ed125441e6e8b82827bba46d0a5364187dc42152ada52dc175f3698bbb3a84bb371d09bf337ef88942aef5de93f4872b5dd995e5141d18ac47e59b4259298d1c0794ee01164f831ee0edd76a4f6573c0a6003ffd8f079c094048ecc921e2e0e828a5af9c82e25e0ddd793534f1c8604a6446c407c5631d2dcc36656a = 0x2433c70e9d4dea1724a8824b57c583daddd236f3745c1413a10a0e8c5623f2cd20b89783775e4d4db9e87b09676d1ac0521082dc8e4fdf3bea12ecdc7426feec6003ffd4f6573c0a4a0247664c783ce044eeed1d10bb0978686f27a82a767de330fb8842a414a6c84a634701e53b8056e390c094c88d880fec6288d712d7467d4182db9ae01a67319bf7c44a1577aef172b5dd995e593f48828a5af9c21e2e0ecc902662b61acf8bbc808d91ba2e626b9b4c5d6d296e0bafdd76a164f831ee0ec5631d2dcc36656a := by decide

theorem c10oa_r19c : keccakChi 0x2433c70e9d4dea1724a8824b57c583daddd236f3745c1413a10a0e8c5623f2cd20b89783775e4d4db9e87b09676d1ac0521082dc8e4fdf3bea12ecdc7426feec6003ffd4f6573c0a4a0247664c783ce044eeed1d10bb0978686f27a82a767de330fb8842a414a6c84a634701e53b8056e390c094c88d880fec6288d712d7467d4182db9ae01a67319bf7c44a1577aef172b5dd995e593f48828a5af9c21e2e0ecc902662b61acf8bbc808d91ba2e626b9b4c5d6d296e0bafdd76a164f831ee0ec5631d2dcc36656a = 0xa531cf029d6c5897242092ca35d78692ddc173f7fc547c1681228e8455a271057c68a7f05702495f99e9c399d56a1aca101286ba865ffb1b43fa95dd1506fe2c7003fdd47c1e3d19c012476e4c58fe044c8dea1c35890928cb7f2728e272fde4347b4057b49da6d0026760a9ef59d975d30848d6c889ae879c570dd70e96573d430a89b220124f333797c40f07b2aebd32b5c609be517e480bc85abbc338aebfd4848622861b458fbde3949cf20a420bdb5c7f0f2d7e862ff9f621f46a318e4ec76b4124cd7864cb := by decide

theorem c10oa_r19 : keccakRound keccak_rotc_std 0xc4f249a3bc37924499379c44a4e754980257c4ce3f3448f14a395eb347adf4518b79e7aa0e53b87d19b514c48d973c52025fc8c7cd9119f0df352657ac3767815fe2afa3d97482c26c8c14505806a8121c35c3cb0206ee427b1ff13bb439b573cce6afb7dc7d1295380f2bcbd7e3876b7a590e18f7ba098d6929fcc87864dfca65518d8f8e180f63386a0f6aae1a951f957a2c6e001359be064285511314c3ae75dae7ea65f5a6e650ae75cbe1583bbde3a1dc7b74f74e2a72fdcf3a84b84ad38c44ebbc79229939 19 = 0xa531cf029d6c5897242092ca35d78692ddc173f7fc547c1681228e8455a271057c68a7f05702495f99e9c399d56a1aca101286ba865ffb1b43fa95dd1506fe2c7003fdd47c1e3d19c012476e4c58fe044c8dea1c35890928cb7f2728e272fde4347b4057b49da6d0026760a9ef59d975d30848d6c889ae879c570dd70e96573d430a89b220124f333797c40f07b2aebd32b5c609be517e480bc85abbc338aebfd4848622861b458fbde3949cf20a420bdb5c7f0f2d7e862ff9f621f46a318e4e476b41244d7864c1 := by

  simp only [keccakRound, c10oa_r19t, c10oa_r19p, c10oa_r19c]

  decide

theorem c10oa_r20t : keccakTheta 0xa531cf029d6c5897242092ca35d78692ddc173f7fc547c1681228e8455a271057c68a7f05702495f99e9c399d56a1aca101286ba865ffb1b43fa95dd1506fe2c7003fdd47c1e3d19c012476e4c58fe044c8dea1c35890928cb7f2728e272fde4347b4057b49da6d0026760a9ef59d975d30848d6c889ae879c570dd70e96573d430a89b220124f333797c40f07b2aebd32b5c609be517e480bc85abbc338aebfd4848622861b458fbde3949cf20a420bdb5c7f0f2d7e862ff9f621f46a318e4e476b41244d7864c1 = 0xe33686daa5a9728613a75552a8d03964e68cdb1ee91403d32fe507a9e637ba5734e5228a870ada46dfee8a41edaf30db279541221b5844ed78b73d34004681e9dec474f9cf8bf64b889fc2149c506d1d0a8aa3c40d4c2339fcf8e0b07f7542120f36e8bea1ddd915aca0e9845ccc12279b85cdac18813d9eda50440f36537d2c748d4e2abd15f0c50cda6ce612f2d1789c724f240dc4b51a4345dfc113303da69283cffabede6f9e8a6453046f0dfdfde011d7e6383ef9ea5731a8d9d9a4451c0fe6c45e9d70f7d8 := by decide

theorem c10oa_r20p : keccakRhoPi keccak_rotc_std 0xe33686daa5a9728613a75552a8d03964e68cdb1ee91403d32fe507a9e637ba5734e5228a870ada46dfee8a41edaf30db279541221b5844ed78b73d34004681e9dec474f9cf8bf64b889fc2149c506d1d0a8aa3c40d4c2339fcf8e0b07f7542120f36e8bea1ddd915aca0e9845ccc12279b85cdac18813d9eda50440f36537d2c748d4e2abd15f0c50cda6ce612f2d1789c724f240dc4b51a4345dfc113303da69283cffabede6f9e8a6453046f0dfdfde011d7e6383ef9ea5731a8d9d9a4451c0fe6c45e9d70f7d8 = 0xbf941ea798dee95ca0da3b113f842938a6119c854551e20662ba46a7155e8af8b80475f98e0fbe7a6413a75552a8d0399e9a002340f4bc5b83a6117330489eb23303da64345dfc11d5f6f37cf4941e7f8a2a1c2b6918d394ee8a41edaf30dbdf60feea8425f9f1c1369b3984bcb45e03ae6351b3b3488a387cd19b63dd22807a7ec97bd88e9f39f1dc2e6d60c409ecf440f36537d2cda50446f0dfdfd8a64530a1b6a96a5ca1b8cd24436b089da4f2a8eec8a879b745f50e4b51a9c724f240dc0fe6c45e9d70f7d8 := by decide

theorem c10oa_r20c : keccakChi 0xbf941ea798dee95ca0da3b113f842938a6119c854551e20662ba46a7155e8af8b80475f98e0fbe7a6413a75552a8d0399e9a002340f4bc5b83a6117330489eb23303da64345dfc11d5f6f37cf4941e7f8a2a1c2b6918d394ee8a41edaf30dbdf60feea8425f9f1c1369b3984bcb45e03ae6351b3b3488a387cd19b63dd22807a7ec97bd88e9f39f1dc2e6d60c409ecf440f36537d2cda50446f0dfdfd8a64530a1b6a96a5ca1b8cd24436b089da4f2a8eec8a879b745f50e4b51a9c724f240dc0fe6c45e9d70f7d8 = 0xfd2e1ca1898ee9dca0da5a4939853f1ab9159823c50b2242627065b72fda83c03c05edf9ce0ede7c4612af5552e130390f7e500be4e0b21de3a7b6272240de922f1bda6474e9dc585552f26ff4941cdd9ab2342f65ac8797cacb007d3d70d3f760def68665f1f1c1b89b38ed36b4541dee0793b3b2012bf87cd2bb43df6b207e7ce93f448e1b7cf1dc3eed4395296cfe623277afd85bb405dafcd79fdca60dc0e1a780eb7c23b8c92a032f1c1cf4b5b86f7c281bf744fd4b4b52eac72c52427cab6ec4660e7542da := by decide

theorem c10oa_r20 : keccakRound keccak_rotc_std 0xa531cf029d6c5897242092ca35d78692ddc173f7fc547c1681228e8455a271057c68a7f05702495f99e9c399d56a1aca101286ba865ffb1b43fa95dd1506fe2c7003fdd47c1e3d19c012476e4c58fe044c8dea1c35890928cb7f2728e272fde4347b4057b49da6d0026760a9ef59d975d30848d6c889ae879c570dd70e96573d430a89b220124f333797c40f07b2aebd32b5c609be517e480bc85abbc338aebfd4848622861b458fbde3949cf20a420bdb5c7f0f2d7e862ff9f621f46a318e4e476b41244d7864c1 20 = 0xfd2e1ca1898ee9dca0da5a4939853f1ab9159823c50b2242627065b72fda83c03c05edf9ce0ede7c4612af5552e130390f7e500be4e0b21de3a7b6272240de922f1bda6474e9dc585552f26ff4941cdd9ab2342f65ac8797cacb007d3d70d3f760def68665f1f1c1b89b38ed36b4541dee0793b3b2012bf87cd2bb43df6b207e7ce93f448e1b7cf1dc3eed4395296cfe623277afd85bb405dafcd79fdca60dc0e1a780eb7c23b8c92a032f1c1cf4b5b86f7c281bf744fd4b4b52eac72c52427c2b6ec4668e75c25b := by

  simp only [keccakRound, c10oa_r20t, c10oa_r20p, c10oa_r20c]

  decide

theorem c10oa_r21t : keccakTheta 0xfd2e1ca1898ee9dca0da5a4939853f1ab9159823c50b2242627065b72fda83c03c05edf9ce0ede7c4612af5552e130390f7e500be4e0b21de3a7b6272240de922f1bda6474e9dc585552f26ff4941cdd9ab2342f65ac8797cacb007d3d70d3f760def68665f1f1c1b89b38ed36b4541dee0793b3b2012bf87cd2bb43df6b207e7ce93f448e1b7cf1dc3eed4395296cfe623277afd85bb405dafcd79fdca60dc0e1a780eb7c23b8c92a032f1c1cf4b5b86f7c281bf744fd4b4b52eac72c52427c2b6ec4668e75c25b = 0x232e397f4fe433e150033f75e2452e35028fb6bbb970f0cc06eec1de343d9c4b39de6527e098e34098128a8b948bea04ffa735373f20a332583d98bf5e3b0c1c4b857e0d6f0ec3d350897ab1da0221e144b211f1a3c65daa3a126541e6b0c2d8db44d81e198a234fdc059c842d534b96ebdc1b6d9c9716c4a2d29e9d1901fa438c305a7855db6dde67a4c3dbe952be7006acd3c6c3bcab8edf275f41f23030fc3fa7a535ba4962f4dada4a20c734a497d4e606838b3f2fc52fcc4eae37b55df72eb54cb8a0e3ff67 := by decide

theorem c10oa_r21p : keccakRhoPi keccak_rotc_std 0x232e397f4fe433e150033f75e2452e35028fb6bbb970f0cc06eec1de343d9c4b39de6527e098e34098128a8b948bea04ffa735373f20a332583d98bf5e3b0c1c4b857e0d6f0ec3d350897ab1da0221e144b211f1a3c65daa3a126541e6b0c2d8db44d81e198a234fdc059c842d534b96ebdc1b6d9c9716c4a2d29e9d1901fa438c305a7855db6dde67a4c3dbe952be7006acd3c6c3bcab8edf275f41f23030fc3fa7a535ba4962f4dada4a20c734a497d4e606838b3f2fc52fcc4eae37b55df72eb54cb8a0e3ff67 = 0x1bbb0778d0f6712c0443c2a112f563b4e32ed5225908f8d1ef46182d3c2aedb6753981a0e2cfcbf13550033f75e2452ecc5faf1d860e2c1e167210b54d2e5b7023030fcdf275f41fadd24b17a1fd3d29949f82638d00e779128a8b948bea049883cd6185b07424cae930f6fa54af9c195f989d5c6f6abbee8051f6d7772e1e19d87a6970afc1ade15ee0db6ce4b8b627e9d1901fa43a2d290c734a497dada4a28e5fd3f90cf848cba6e7e414665ff4e6511a7eda26c0f0cccab8e06acd3c6c3b2eb54cb8a0e3ff67 := by decide

theorem c10oa_r21c : keccakChi 0x1bbb0778d0f6712c0443c2a112f563b4e32ed5225908f8d1ef46182d3c2aedb6753981a0e2cfcbf13550033f75e2452ecc5faf1d860e2c1e167210b54d2e5b7023030fcdf275f41fadd24b17a1fd3d29949f82638d00e779128a8b948bea049883cd6185b07424cae930f6fa54af9c195f989d5c6f6abbee8051f6d7772e1e19d87a6970afc1ade15ee0db6ce4b8b627e9d1901fa43a2d290c734a497dada4a28e5fd3f90cf848cba6e7e414665ff4e6511a7eda26c0f0cccab8e06acd3c6c3b2eb54cb8a0e3ff67 = 0x91fd1f75ccd6552a6043422130fce965f896d07a990ae8d9eb071aac3edfee92751144a2a3cfdbb0375107f727e2853844dde71d0613141f277210973cce1a50eb0ea0c57075d011b9a25b27acf7364934bfe0c19d85e368598a9688e9801c1e07d861e6b474c7abf9327cea5f259c095d559c59cf3a9b2c61d166c1f73c1710d4586178a7400d435ee14debb496a43f69cbb00faf7b24e91a5301293d2d36a44e5773bb41e448d38647e814c65c43c259026d332e60f8c56c5d606e8d2368193fb7522882236fa3 := by decide

theorem c10oa_r21 : keccakRound keccak_rotc_std 0xfd2e1ca1898ee9dca0da5a4939853f1ab9159823c50b2242627065b72fda83c03c05edf9ce0ede7c4612af5552e130390f7e500be4e0b21de3a7b6272240de922f1bda6474e9dc585552f26ff4941cdd9ab2342f65ac8797cacb007d3d70d3f760def68665f1f1c1b89b38ed36b4541dee0793b3b2012bf87cd2bb43df6b207e7ce93f448e1b7cf1dc3eed4395296cfe623277afd85bb405dafcd79fdca60dc0e1a780eb7c23b8c92a032f1c1cf4b5b86f7c281bf744fd4b4b52eac72c52427c2b6ec4668e75c25b 21 = 0x91fd1f75ccd6552a6043422130fce965f896d07a990ae8d9eb071aac3edfee92751144a2a3cfdbb0375107f727e2853844dde71d0613141f277210973cce1a50eb0ea0c57075d011b9a25b27acf7364934bfe0c19d85e368598a9688e9801c1e07d861e6b474c7abf9327cea5f259c095d559c59cf3a9b2c61d166c1f73c1710d4586178a7400d435ee14debb496a43f69cbb00faf7b24e91a5301293d2d36a44e5773bb41e448d38647e814c65c43c259026d332e60f8c56c5d606e8d236819bfb752288223ef23 := by

  simp only [keccakRound, c10oa_r21t, c10oa_r21p, c10oa_r21c]

  decide

theorem c10oa_r22t : keccakTheta 0x91fd1f75ccd6552a6043422130fce965f896d07a990ae8d9eb071aac3edfee92751144a2a3cfdbb0375107f727e2853844dde71d0613141f277210973cce1a50eb0ea0c57075d011b9a25b27acf7364934bfe0c19d85e368598a9688e9801c1e07d861e6b474c7abf9327cea5f259c095d559c59cf3a9b2c61d166c1f73c1710d4586178a7400d435ee14debb496a43f69cbb00faf7b24e91a5301293d2d36a44e5773bb41e448d38647e814c65c43c259026d332e60f8c56c5d606e8d236819bfb752288223ef23 = 0xd6f304178cbca46bc4b719813b6859ce5a2cb329d63a596960bac9d6575f927131de845f04096bfc705f1c9567887479e029bcbd0d87a4b485c873c473feabe060b373bf19f5acf2fd6d9bda0b31860573b1fba3ddef1229fd7ecd28e214acb5a56202b5fb44761b728faf9036a5e0ea199a5ca468fc2b6026df7da3b756e65170ac3ad8acd4bde8fc5b2eb8fba6158fe2766375c6fb580a5e9cc1d49aeb86e8095968d9018eb99222b3b3b4cdc8f369fbb80e6061504975e7e0b314e4a314fafb7892d525e55f6f := by decide

theorem c10oa_r22p : keccakRhoPi keccak_rotc_std 0xd6f304178cbca46bc4b719813b6859ce5a2cb329d63a596960bac9d6575f927131de845f04096bfc705f1c9567887479e029bcbd0d87a4b485c873c473feabe060b373bf19f5acf2fd6d9bda0b31860573b1fba3ddef1229fd7ecd28e214acb5a56202b5fb44761b728faf9036a5e0ea199a5ca468fc2b6026df7da3b756e65170ac3ad8acd4bde8fc5b2eb8fba6158fe2766375c6fb580a5e9cc1d49aeb86e8095968d9018eb99222b3b3b4cdc8f369fbb80e6061504975e7e0b314e4a314fafb7892d525e55f6f = 0x82eb27595d7e49c5630c0bfadb37b416f78914b9d8fdd1eef438561d6c566a5e7eee03981854125dcec4b719813b685939e239ff55f042e43ebe40da9783a9caaeb86e85e9cc1d49c80c75cc904acb46117c1025aff0c77a5f1c95678874797051c429596bfafd9a16cbae3ee98563ffcfc16629c94629f52b4596653ac74b2db59e4c166e77e33eccd2e52347e15b00da3b756e65126df74cdc8f36922b3b3bc105e32f291af5bc97a1b0f4969c053723b0dd2b1015afdab580ae2766375c6ffb7892d525e55f6f := by decide

theorem c10oa_r22c : keccakChi 0x82eb27595d7e49c5630c0bfadb37b416f78914b9d8fdd1eef438561d6c566a5e7eee03981854125dcec4b719813b685939e239ff55f042e43ebe40da9783a9caaeb86e85e9cc1d49c80c75cc904acb46117c1025aff0c77a5f1c95678874797051c429596bfafd9a16cbae3ee98563ffcfc16629c94629f52b4596653ac74b2db59e4c166e77e33eccd2e52347e15b00da3b756e65126df74cdc8f36922b3b3bc105e32f291af5bc97a1b0f4969c053723b0dd2b1015afdab580ae2766375c6ffb7892d525e55f6f = 0x2fb735c397c21c71f080b7adb37a60e776a30b8dcb5982ff43c5d5f6f544e4e7d6f033888fd83fde874bd18e8bf7c5039ea793b45b0c1e2f8bac6da178881d3aff857a0a9bc5f6dd80a759686496bc4017698338f718570919df36fc87251f551a429594c7a7b9018d33a186981639f8ec56768cb3cb5f5b966e62d5fd70fe9f1064504ee5fd32cc693774257615301eb377d7a4d04cdc9481c0f3790ca293bc585cf0d6b08f5bcadd9a02492790f7463b49e2039175f5221818ef3e0bf5c4af948c3dd35e5fcff := by decide

theorem c10oa_r22 : keccakRound keccak_rotc_std 0x91fd1f75ccd6552a6043422130fce965f896d07a990ae8d9eb071aac3edfee92751144a2a3cfdbb0375107f727e2853844dde71d0613141f277210973cce1a50eb0ea0c57075d011b9a25b27acf7364934bfe0c19d85e368598a9688e9801c1e07d861e6b474c7abf9327cea5f259c095d559c59cf3a9b2c61d166c1f73c1710d4586178a7400d435ee14debb496a43f69cbb00faf7b24e91a5301293d2d36a44e5773bb41e448d38647e814c65c43c259026d332e60f8c56c5d606e8d236819bfb752288223ef23 22 = 0x2fb735c397c21c71f080b7adb37a60e776a30b8dcb5982ff43c5d5f6f544e4e7d6f033888fd83fde874bd18e8bf7c5039ea793b45b0c1e2f8bac6da178881d3aff857a0a9bc5f6dd80a759686496bc4017698338f718570919df36fc87251f551a429594c7a7b9018d33a186981639f8ec56768cb3cb5f5b966e62d5fd70fe9f1064504ee5fd32cc693774257615301eb377d7a4d04cdc9481c0f3790ca293bc585cf0d6b08f5bcadd9a02492790f7463b49e2039175f5221818ef3e0bf5c4af948c3ddb5e5fcfe := by

  simp only [keccakRound, c10oa_r22t, c10oa_r22p, c10oa_r22c]

  decide

theorem c10oa_r23t : keccakTheta 0x2fb735c397c21c71f080b7adb37a60e776a30b8dcb5982ff43c5d5f6f544e4e7d6f033888fd83fde874bd18e8bf7c5039ea793b45b0c1e2f8bac6da178881d3aff857a0a9bc5f6dd80a759686496bc4017698338f718570919df36fc87251f551a429594c7a7b9018d33a186981639f8ec56768cb3cb5f5b966e62d5fd70fe9f1064504ee5fd32cc693774257615301eb377d7a4d04cdc9481c0f3790ca293bc585cf0d6b08f5bcadd9a02492790f7463b49e2039175f5221818ef3e0bf5c4af948c3ddb5e5fcfe = 0xdcb2ad0bd2e0db954a6fc38de6dc8d54298b3bca8bc0af93986eecc05d911a39f936fab3e7356730363d634f032386026c8db1cc785beab8a65bcda840fdb66fc3aae63f9b790b1a5c538c1de9818f09df3f466464ed7f22c4fa3b98f5997aaf0f45222b1b0f4c2c74818b875b4437e80a9c9ee3a4f45138672f387ab44bf5bba4618df3d3b4f87698727c30001464bd8765cce57fc199becc45f6bcff02cdf61bcc115a80940feef8be68d3af92242e3d5595526e6268ee4dd33f6cd27a083d7d113a56da2d1833 := by decide

theorem c10oa_r23p : keccakRhoPi keccak_rotc_std 0xdcb2ad0bd2e0db954a6fc38de6dc8d54298b3bca8bc0af93986eecc05d911a39f936fab3e7356730363d634f032386026c8db1cc785beab8a65bcda840fdb66fc3aae63f9b790b1a5c538c1de9818f09df3f466464ed7f22c4fa3b98f5997aaf0f45222b1b0f4c2c74818b875b4437e80a9c9ee3a4f45138672f387ab44bf5bba4618df3d3b4f87698727c30001464bd8765cce57fc199becc45f6bcff02cdf61bcc115a80940feef8be68d3af92242e3d5595526e6268ee4dd33f6cd27a083d7d113a56da2d1833 = 0x61bbb301764468e6031e12b8a7183bd376bf916f9fa332323b5230c6f9e9da7c8f5565549b989a3b544a6fc38de6dc8de6d4207edb37d32d062e1d6d10dfa1d2f02cdf6cc45f6bcfd404a07f70de608aeacf9cd59cc3e4db3d634f032386023631eb32f55f89f4771c9f0c0005192f669ba67ed9a4f4107a65316779517815f2216358755cc7f36f54e4f71d27a289c087ab44bf5bb672f33af92242ef8be68dab42f4b836e5772c398f0b7d570d91b67a61607a291158d8199be8765cce57fc7d113a56da2d1833 := by decide

theorem c10oa_r23c : keccakChi 0x61bbb301764468e6031e12b8a7183bd376bf916f9fa332323b5230c6f9e9da7c8f5565549b989a3b544a6fc38de6dc8de6d4207edb37d32d062e1d6d10dfa1d2f02cdf6cc45f6bcfd404a07f70de608aeacf9cd59cc3e4db3d634f032386023631eb32f55f89f4771c9f0c0005192f669ba67ed9a4f4107a65316779517815f2216358755cc7f36f54e4f71d27a289c087ab44bf5bb672f33af92242ef8be68dab42f4b836e5772c398f0b7d570d91b67a61607a291158d8199be8765cce57fc7d113a56da2d1833 = 0x51b9a383162528a28d5a56ec2e80a9ca161e306ecfe772163a523256d9f1d3bdcbf8e47d9d9aba39746230c309e7d7c866d0a042ab2ff32f162452ec141fad5210fcff7e0f7f39e2d206a07e605ee09aeed69cd59dcacbdf2c432d0b03b21216f367a221c3c810be109f4102251f2d66bac64c2cfe74c06be03323c4414c05803bab5877f244116210f4d015269a8d50a6a84cdf03f300dc6abd9142cb8b6f8dabc83498322730e06d9e013b9f0599a5f82194fa09f13ed01815e3730ac2d6da1f713a5efb3c1033 := by decide

theorem c10oa_r23 : keccakRound keccak_rotc_std 0x2fb735c397c21c71f080b7adb37a60e776a30b8dcb5982ff43c5d5f6f544e4e7d6f033888fd83fde874bd18e8bf7c5039ea793b45b0c1e2f8bac6da178881d3aff857a0a9bc5f6dd80a759686496bc4017698338f718570919df36fc87251f551a429594c7a7b9018d33a186981639f8ec56768cb3cb5f5b966e62d5fd70fe9f1064504ee5fd32cc693774257615301eb377d7a4d04cdc9481c0f3790ca293bc585cf0d6b08f5bcadd9a02492790f7463b49e2039175f5221818ef3e0bf5c4af948c3ddb5e5fcfe 23 = 0x51b9a383162528a28d5a56ec2e80a9ca161e306ecfe772163a523256d9f1d3bdcbf8e47d9d9aba39746230c309e7d7c866d0a042ab2ff32f162452ec141fad5210fcff7e0f7f39e2d206a07e605ee09aeed69cd59dcacbdf2c432d0b03b21216f367a221c3c810be109f4102251f2d66bac64c2cfe74c06be03323c4414c05803bab5877f244116210f4d015269a8d50a6a84cdf03f300dc6abd9142cb8b6f8dabc83498322730e06d9e013b9f0599a5f82194fa09f13ed01815e3730ac2d6da9f713a5e7b3c903b := by

  simp only [keccakRound, c10oa_r23t, c10oa_r23p, c10oa_r23c]

  decide

theorem c10oa_perm : keccak_f1600 keccak_rotc_std 0x80000000000000000000000000000000000000000000000000000000000000000000000000000000000000000000000000000100000000000000000000000000000000000000000000000000000000000000001f686ea42da91854b9a331d6eb940237bb53efb7e55c0571721c6a15188e4b8e0000000000000000000000000000000000000000ff = 0x51b9a383162528a28d5a56ec2e80a9ca161e306ecfe772163a523256d9f1d3bdcbf8e47d9d9aba39746230c309e7d7c866d0a042ab2ff32f162452ec141fad5210fcff7e0f7f39e2d206a07e605ee09aeed69cd59dcacbdf2c432d0b03b21216f367a221c3c810be109f4102251f2d66bac64c2cfe74c06be03323c4414c05803bab5877f244116210f4d015269a8d50a6a84cdf03f300dc6abd9142cb8b6f8dabc83498322730e06d9e013b9f0599a5f82194fa09f13ed01815e3730ac2d6da9f713a5e7b3c903b := by

  rw [keccak_f1600_expand, c10oa_r0, c10oa_r1, c10oa_r2, c10oa_r3, c10oa_r4, c10oa_r5, c10oa_r6, c10oa_r7, c10oa_r8, c10oa_r9, c10oa_r10, c10oa_r11, c10oa_r12, c10oa_r13, c10oa_r14, c10oa_r15, c10oa_r16, c10oa_r17, c10oa_r18, c10oa_r19, c10oa_r20, c10oa_r21, c10oa_r22, c10oa_r23]

theorem c10oa_sq : keccakSqueeze32 0x51b9a383162528a28d5a56ec2e80a9ca161e306ecfe772163a523256d9f1d3bdcbf8e47d9d9aba39746230c309e7d7c866d0a042ab2ff32f162452ec141fad5210fcff7e0f7f39e2d206a07e605ee09aeed69cd59dcacbdf2c432d0b03b21216f367a221c3c810be109f4102251f2d66bac64c2cfe74c06be03323c4414c05803bab5877f244116210f4d015269a8d50a6a84cdf03f300dc6abd9142cb8b6f8dabc83498322730e06d9e013b9f0599a5f82194fa09f13ed01815e3730ac2d6da9f713a5e7b3c903b = [59, 144, 60, 123, 94, 58, 113, 159, 218, 214, 194, 10, 115, 227, 21, 24, 208, 62, 241, 9, 250, 148, 33, 248, 165, 153, 5, 159, 59, 1, 158, 109] := by decide

theorem c10oa_value : keccak256 [255, 0, 0, 0, 0, 0, 0, 0, 0, 0, 0, 0, 0, 0, 0, 0, 0, 0, 0, 0, 0, 142, 75, 142, 24, 21, 106, 28, 114, 113, 5, 92, 229, 183, 239, 83, 187, 55, 2, 148, 235, 214, 49, 163, 185, 84, 24, 169, 45, 164, 110, 104, 31, 0, 0, 0, 0, 0, 0, 0, 0, 0, 0, 0, 0, 0, 0, 0, 0, 0, 0, 0, 0, 0, 0, 0, 0, 0, 0, 0, 0, 0, 0, 0, 0] = [59, 144, 60, 123, 94, 58, 113, 159, 218, 214, 194, 10, 115, 227, 21, 24, 208, 62, 241, 9, 250, 148, 33, 248, 165, 153, 5, 159, 59, 1, 158, 109] := by

  rw [keccak256_single_block [255, 0, 0, 0, 0, 0, 0, 0, 0, 0, 0, 0, 0, 0, 0, 0, 0, 0, 0, 0, 0, 142, 75, 142, 24, 21, 106, 28, 114, 113, 5, 92, 229, 183, 239, 83, 187, 55, 2, 148, 235, 214, 49, 163, 185, 84, 24, 169, 45, 164, 110, 104, 31, 0, 0, 0, 0, 0, 0, 0, 0, 0, 0, 0, 0, 0, 0, 0, 0, 0, 0, 0, 0, 0, 0, 0, 0, 0, 0, 0, 0, 0, 0, 0, 0] [255, 0, 0, 0, 0, 0, 0, 0, 0, 0, 0, 0, 0, 0, 0, 0, 0, 0, 0, 0, 0, 142, 75, 142, 24, 21, 106, 28, 114, 113, 5, 92, 229, 183, 239, 83, 187, 55, 2, 148, 235, 214, 49, 163, 185, 84, 24, 169, 45, 164, 110, 104, 31, 0, 0, 0, 0, 0, 0, 0, 0, 0, 0, 0, 0, 0, 0, 0, 0, 0, 0, 0, 0, 0, 0, 0, 0, 0, 0, 0, 0, 0, 0, 0, 0, 1, 0, 0, 0, 0, 0, 0, 0, 0, 0, 0, 0, 0, 0, 0, 0, 0, 0, 0, 0, 0, 0, 0, 0, 0, 0, 0, 0, 0, 0, 0, 0, 0, 0, 0, 0, 0, 0, 0, 0, 0, 0, 0, 0, 0, 0, 0, 0, 0, 0, 128] 0x80000000000000000000000000000000000000000000000000000000000000000000000000000000000000000000000000000100000000000000000000000000000000000000000000000000000000000000001f686ea42da91854b9a331d6eb940237bb53efb7e55c0571721c6a15188e4b8e0000000000000000000000000000000000000000ff c10oa_pad (by decide) (by decide) c10oa_abs, c10oa_perm, c10oa_sq]

theorem c10ob_pad : keccakPad [255, 0, 0, 0, 0, 0, 0, 0, 0, 0, 0, 0, 0, 0, 0, 0, 0, 0, 0, 0, 0, 51, 127, 84, 214, 138, 130, 0, 44, 132, 52, 60, 223, 247, 130, 165, 222, 76, 209, 159, 125, 161, 247, 236, 65, 137, 137, 192, 112, 70, 55, 180, 139, 0, 0, 0, 0, 0, 0, 0, 0, 0, 0, 0, 0, 0, 0, 0, 0, 0, 0, 0, 0, 0, 0, 0, 0, 0, 0, 0, 0, 0, 0, 0, 0] = [255, 0, 0, 0, 0, 0, 0, 0, 0, 0, 0, 0, 0, 0, 0, 0, 0, 0, 0, 0, 0, 51, 127, 84, 214, 138, 130, 0, 44, 132, 52, 60, 223, 247, 130, 165, 222, 76, 209, 159, 125, 161, 247, 236, 65, 137, 137, 192, 112, 70, 55, 180, 139, 0, 0, 0, 0, 0, 0, 0, 0, 0, 0, 0, 0, 0, 0, 0, 0, 0, 0, 0, 0, 0, 0, 0, 0, 0, 0, 0, 0, 0, 0, 0, 0, 1, 0, 0, 0, 0, 0, 0, 0, 0, 0, 0, 0, 0, 0, 0, 0, 0, 0, 0, 0, 0, 0, 0, 0, 0, 0, 0, 0, 0, 0, 0, 0, 0, 0, 0, 0, 0, 0, 0, 0, 0, 0, 0, 0, 0, 0, 0, 0, 0, 0, 128] := by decide

theorem c10ob_abs : keccakAbsorbBlock 0 [255, 0, 0, 0, 0, 0, 0, 0, 0, 0, 0, 0, 0, 0, 0, 0, 0, 0, 0, 0, 0, 51, 127, 84, 214, 138, 130, 0, 44, 132, 52, 60, 223, 247, 130, 165, 222, 76, 209, 159, 125, 161, 247, 236, 65, 137, 137, 192, 112, 70, 55, 180, 139, 0, 0, 0, 0, 0, 0, 0, 0, 0, 0, 0, 0, 0, 0, 0, 0, 0, 0, 0, 0, 0, 0, 0, 0, 0, 0, 0, 0, 0, 0, 0, 0, 1, 0, 0, 0, 0, 0, 0, 0, 0, 0, 0, 0, 0, 0, 0, 0, 0, 0, 0, 0, 0, 0, 0, 0, 0, 0, 0, 0, 0, 0, 0, 0, 0, 0, 0, 0, 0, 0, 0, 0, 0, 0, 0, 0, 0, 0, 0, 0, 0, 0, 128] = 0x80000000000000000000000000000000000000000000000000000000000000000000000000000000000000000000000000000100000000000000000000000000000000000000000000000000000000000000008bb4374670c0898941ecf7a17d9fd14cdea582f7df3c34842c00828ad6547f330000000000000000000000000000000000000000ff := by decide

theorem c10ob_r0t : keccakTheta 0x80000000000000000000000000000000000000000000000000000000000000000000000000000000000000000000000000000100000000000000000000000000000000000000000000000000000000000000008bb4374670c0898941ecf7a17d9fd14cdea582f7df3c34842c00828ad6547f330000000000000000000000000000000000000000ff = 0xbd2794afd96dc9d36bddaabd4b05efbff86908d3b53253dc6877ee41ecf7a1829fd14dc9cdec7b3ebd2794afd96dc9d36bddaabd4b05efbff86908d3b53253dce877ee41ecf7a1829fd14dc9cdec7b3ebd2794afd96dc9d36bddaabd4b05efbff86908d3b53253dc6877ee41ecf7a1829fd14cc9cdec7b3ebd2794afd96dc9d36bddaabd4b05efbff86908d3b53253dc6877eeca58c0e7f25f58c488211bda4322f6d8717cef3e0c57e92e914b876569ac163bd3b53253dc6877ee41ecf7a1829fd14dc9cdec7bc1 := by decide

theorem c10ob_r0p : keccakRhoPi keccak_rotc_std 0xbd2794afd96dc9d36bddaabd4b05efbff86908d3b53253dc6877ee41ecf7a1829fd14dc9cdec7b3ebd2794afd96dc9d36bddaabd4b05efbff86908d3b53253dce877ee41ecf7a1829fd14dc9cdec7b3ebd2794afd96dc9d36bddaabd4b05efbff86908d3b53253dc6877ee41ecf7a1829fd14cc9cdec7b3ebd2794afd96dc9d36bddaabd4b05efbff86908d3b53253dc6877eeca58c0e7f25f58c488211bda4322f6d8717cef3e0c57e92e914b876569ac163bd3b53253dc6877ee41ecf7a1829fd14dc9cdec7bc1 = 0xa1dfb907b3de8609d8f67d3fa29b939bb6e4e9de93ca57ecdfb5eed55ea582f72b058ef4ed4c94f7bf6bddaabd4b05ef8469da9929ee7c34dfb907b3de8609a111bda435f58c48828be779f06117b6c3372737b1ecfa7f452794afd96dc9d3bd7a960bdf7ed7bb551a4234ed4c94f73ed0efdc83d9ef43049f0d211a76a64a7bf4305d0efdc83d9efe8a664e6f63d9f44afd96dc9d3bd27914b87656957e92e9e52bf65b7274ef4957a960bdf7ed7bb5929ee7c348469da90e7f26877eeca58c9fd14dc9cdec7bc1 := by decide

theorem c10ob_r0c : keccakChi 0xa1dfb907b3de8609d8f67d3fa29b939bb6e4e9de93ca57ecdfb5eed55ea582f72b058ef4ed4c94f7bf6bddaabd4b05ef8469da9929ee7c34dfb907b3de8609a111bda435f58c48828be779f06117b6c3372737b1ecfa7f452794afd96dc9d3bd7a960bdf7ed7bb551a4234ed4c94f73ed0efdc83d9ef43049f0d211a76a64a7bf4305d0efdc83d9efe8a664e6f63d9f44afd96dc9d3bd27914b87656957e92e9e52bf65b7274ef4957a960bdf7ed7bb5929ee7c348469da90e7f26877eeca58c9fd14dc9cdec7bc1 = 0x756fd906a17f8409d2f67bcfee9b836d97ed69de828e53ec97a7faf47eb402e40b458ffe6c06c1ffaf7359af29c34def84edfac969face34e4bb02914a87086a11fd7c3dd4e43c9645e77a726b15b7e23d2717dde8eacb7fe75c67db7cccd3bd6ab51bfffee597151f4290ed4d9cb796b07bd791ebac4b45d548a1927ea70a6bf4800b4a7c90ad1ef587465e6d459b954acd8fdc0db3f673a0ba1654f73e9b6de505d45d40746b454d79693d7a656b35329c7181485619e14b5e26bbc945c7980f518c89cdee63e0 := by decide

theorem c10ob_r0 : keccakRound keccak_rotc_std 0x80000000000000000000000000000000000000000000000000000000000000000000000000000000000000000000000000000100000000000000000000000000000000000000000000000000000000000000008bb4374670c0898941ecf7a17d9fd14cdea582f7df3c34842c00828ad6547f330000000000000000000000000000000000000000ff 0 = 0x756fd906a17f8409d2f67bcfee9b836d97ed69de828e53ec97a7faf47eb402e40b458ffe6c06c1ffaf7359af29c34def84edfac969face34e4bb02914a87086a11fd7c3dd4e43c9645e77a726b15b7e23d2717dde8eacb7fe75c67db7cccd3bd6ab51bfffee597151f4290ed4d9cb796b07bd791ebac4b45d548a1927ea70a6bf4800b4a7c90ad1ef587465e6d459b954acd8fdc0db3f673a0ba1654f73e9b6de505d45d40746b454d79693d7a656b35329c7181485619e14b5e26bbc945c7980f518c89cdee63e1 := by

  simp only [keccakRound, c10ob_r0t, c10ob_r0p, c10ob_r0c]

  decide

theorem c10ob_r1t : keccakTheta 0x756fd906a17f8409d2f67bcfee9b836d97ed69de828e53ec97a7faf47eb402e40b458ffe6c06c1ffaf7359af29c34def84edfac969face34e4bb02914a87086a11fd7c3dd4e43c9645e77a726b15b7e23d2717dde8eacb7fe75c67db7cccd3bd6ab51bfffee597151f4290ed4d9cb796b07bd791ebac4b45d548a1927ea70a6bf4800b4a7c90ad1ef587465e6d459b954acd8fdc0db3f673a0ba1654f73e9b6de505d45d40746b454d79693d7a656b35329c7181485619e14b5e26bbc945c7980f518c89cdee63e1 = 0xdfb42c2df0f8576ea2e3f9d6406e0ae51e1bdfc85b045a7d7b65ccea8f255affed2413c374f6d25705a8ac8478449e88f4f878d0c70f47bc6d4db487930d01fbfd3f4a232575648da386e64f73e5a44a97fce2f6b96d18189749e5c2d2395a35e343ade9276f9e84f380a6f3bc0def8d561a4bacf35c58ed7f9354b92f20d90c84958953d26524967c71f048b4cf9204a60fb9c2fc22ae6846db8a69efce88c54fde217611f3b8223d6ceb24d490e2bdbb6ac79791dc1070a79c10a538d49f83e93010b4d51e7049 := by decide

theorem c10ob_r1p : keccakRhoPi keccak_rotc_std 0xdfb42c2df0f8576ea2e3f9d6406e0ae51e1bdfc85b045a7d7b65ccea8f255affed2413c374f6d25705a8ac8478449e88f4f878d0c70f47bc6d4db487930d01fbfd3f4a232575648da386e64f73e5a44a97fce2f6b96d18189749e5c2d2395a35e343ade9276f9e84f380a6f3bc0def8d561a4bacf35c58ed7f9354b92f20d90c84958953d26524967c71f048b4cf9204a60fb9c2fc22ae6846db8a69efce88c54fde217611f3b8223d6ceb24d490e2bdbb6ac79791dc1070a79c10a538d49f83e93010b4d51e7049 = 0xed9733aa3c956bfdcb4895470dcc9ee7b68c0c4bfe717b5c4b424ac4a9e932922edab1e5e477041ce5a2e3f9d6406e0ada43c98680fdb6a6029bcef037be37cefce88c546db8a69eb08f9dc1127ef10b4f0dd3db495fb490a8ac8478449e880585a472b46b2e93cb1c7c122d33e4811f4f38214a71a93f07a3c37bf90b608b4fac91bfa7e94464aeb0d25d679ae2c76a4b92f20d90c7f9354d490e2bd3d6ceb20b0b7c3e15dbb7ed1a18e1e8f79e9f0f7cf4271a1d6f493b2ae68a60fb9c2fc2e93010b4d51e7049 := by decide

theorem c10ob_r1c : keccakChi 0xed9733aa3c956bfdcb4895470dcc9ee7b68c0c4bfe717b5c4b424ac4a9e932922edab1e5e477041ce5a2e3f9d6406e0ada43c98680fdb6a6029bcef037be37cefce88c546db8a69eb08f9dc1127ef10b4f0dd3db495fb490a8ac8478449e880585a472b46b2e93cb1c7c122d33e4811f4f38214a71a93f07a3c37bf90b608b4fac91bfa7e94464aeb0d25d679ae2c76a4b92f20d90c7f9354d490e2bd3d6ceb20b0b7c3e15dbb7ed1a18e1e8f79e9f0f7cf4271a1d6f493b2ae68a60fb9c2fc2e93010b4d51e7049 = 0xac9779aa351d597fc9001502cdae9ae7921b2ee3ce601a440202dbc0a865b6319a56b5eeb2674d50a9c2e3edbbc0689eca4ed58680c327a7273bec8961be7fc624a88d52edf926beb29cdf610078e04b5f49c1fe4b1b3488a89ca478743e8302c2a52137626fa75b347496653774891bceb841da39a32dc7a1518bfd0b61ba4ae099bba539d2201eb3901d3f98c24c2b4793508df1c3d9b1fd090349d9f6c8f809cdf67e3f5bb86ffa28e168379adf0f7df73b0c1d2e69db28ee4a80190cb9c6bd2035aed17d3070 := by decide

theorem c10ob_r1 : keccakRound keccak_rotc_std 0x756fd906a17f8409d2f67bcfee9b836d97ed69de828e53ec97a7faf47eb402e40b458ffe6c06c1ffaf7359af29c34def84edfac969face34e4bb02914a87086a11fd7c3dd4e43c9645e77a726b15b7e23d2717dde8eacb7fe75c67db7cccd3bd6ab51bfffee597151f4290ed4d9cb796b07bd791ebac4b45d548a1927ea70a6bf4800b4a7c90ad1ef587465e6d459b954acd8fdc0db3f673a0ba1654f73e9b6de505d45d40746b454d79693d7a656b35329c7181485619e14b5e26bbc945c7980f518c89cdee63e1 1 = 0xac9779aa351d597fc9001502cdae9ae7921b2ee3ce601a440202dbc0a865b6319a56b5eeb2674d50a9c2e3edbbc0689eca4ed58680c327a7273bec8961be7fc624a88d52edf926beb29cdf610078e04b5f49c1fe4b1b3488a89ca478743e8302c2a52137626fa75b347496653774891bceb841da39a32dc7a1518bfd0b61ba4ae099bba539d2201eb3901d3f98c24c2b4793508df1c3d9b1fd090349d9f6c8f809cdf67e3f5bb86ffa28e168379adf0f7df73b0c1d2e69db28ee4a80190cb9c6bd2035aed17db0f2 := by

  simp only [keccakRound, c10ob_r1t, c10ob_r1p, c10ob_r1c]

  decide

theorem c10ob_r2t : keccakTheta 0xac9779aa351d597fc9001502cdae9ae7921b2ee3ce601a440202dbc0a865b6319a56b5eeb2674d50a9c2e3edbbc0689eca4ed58680c327a7273bec8961be7fc624a88d52edf926beb29cdf610078e04b5f49c1fe4b1b3488a89ca478743e8302c2a52137626fa75b347496653774891bceb841da39a32dc7a1518bfd0b61ba4ae099bba539d2201eb3901d3f98c24c2b4793508df1c3d9b1fd090349d9f6c8f809cdf67e3f5bb86ffa28e168379adf0f7df73b0c1d2e69db28ee4a80190cb9c6bd2035aed17db0f2 = 0x51427cfe0469698195e29c19660b73578d7e887b3a70e100d79c4caebbe980b49391262177d5b9da5417e6b98ab4586096ac5c9d2b66ce17385e4a1195ae8482f1361a3cfe75103bbb5b4caec5ca14c1a29cc4aa7a6f0476f47e2d63df9b6ab2ddc087af967f5c1fe1ea010b24f8bf9ec77fd215fc11d94d5c848ea93a158ab4bc7b32be9277c9aeacf5bba76cd2b76f920dc7e3e24fef34f4ce90861c443c72f418f32a0e2f8891a6ca68739c3f36bf62929d94e93e929ffd70ddee0a808f43b4e7a66114cf4478 := by decide

theorem c10ob_r2p : keccakRhoPi keccak_rotc_std 0x51427cfe0469698195e29c19660b73578d7e887b3a70e100d79c4caebbe980b49391262177d5b9da5417e6b98ab4586096ac5c9d2b66ce17385e4a1195ae8482f1361a3cfe75103bbb5b4caec5ca14c1a29cc4aa7a6f0476f47e2d63df9b6ab2ddc087af967f5c1fe1ea010b24f8bf9ec77fd215fc11d94d5c848ea93a158ab4bc7b32be9277c9aeacf5bba76cd2b76f920dc7e3e24fef34f4ce90861c443c72f418f32a0e2f8891a6ca68739c3f36bf62929d94e93e929ffd70ddee0a808f43b4e7a66114cf4478 = 0x5e7132baefa602d394298376b6995d8b37823b514e62553dd75e3d995f493be4d8a4a7653a4fa4a75795e29c19660b732508cad742411c2fa8042c93e2fe7b87c443c72f4ce9086150717c448fa0c7999885df56e76a4e4417e6b98ab4586054c7bf36d565e8fc5a3d6ee9db34addbebfae1bbdc15011e8711afd10f674e1c20a2077e26c3479fce3bfe90afe08eca6eea93a158ab45c84839c3f36bfa6ca6879f3f811a5a60545093a56cd9c2f2d58bfae0feee043d7cb3fef34920dc7e3e24b4e7a66114cf4478 := by decide

theorem c10ob_r2c : keccakChi 0x5e7132baefa602d394298376b6995d8b37823b514e62553dd75e3d995f493be4d8a4a7653a4fa4a75795e29c19660b732508cad742411c2fa8042c93e2fe7b87c443c72f4ce9086150717c448fa0c7999885df56e76a4e4417e6b98ab4586054c7bf36d565e8fc5a3d6ee9db34addbebfae1bbdc15011e8711afd10f674e1c20a2077e26c3479fce3bfe90afe08eca6eea93a158ab45c84839c3f36bfa6ca6879f3f811a5a60545093a56cd9c2f2d58bfae0feee043d7cb3fef34920dc7e3e24b4e7a66114cf4478 = 0x592b2a22aaa6199314ad0633a6d0f9af7dd20bd90744576d5777bdbfefd03366f824a5253a6de0bed39761b7592f03132568d697c4c1d8a7fa910c9bfbd878d7c14b056b4ce80c49787554d42db6b41f9d8b9f55c7c68f2c75869902a45970d74fbe708126caf25a2d2e60d1a4bddbef3870add854413a97d3bfd11f664f54688a475c465b673d492a5611a6c486ca4e6a92cf58a804ddc828afe3ccbae6a4a1d52fc81a92506e54b3654ab8c67dd5a3f6fa7fec1c3d7ce3fff649311ebcbf2cb4e710af14ce04eb := by decide

theorem c10ob_r2 : keccakRound keccak_rotc_std 0xac9779aa351d597fc9001502cdae9ae7921b2ee3ce601a440202dbc0a865b6319a56b5eeb2674d50a9c2e3edbbc0689eca4ed58680c327a7273bec8961be7fc624a88d52edf926beb29cdf610078e04b5f49c1fe4b1b3488a89ca478743e8302c2a52137626fa75b347496653774891bceb841da39a32dc7a1518bfd0b61ba4ae099bba539d2201eb3901d3f98c24c2b4793508df1c3d9b1fd090349d9f6c8f809cdf67e3f5bb86ffa28e168379adf0f7df73b0c1d2e69db28ee4a80190cb9c6bd2035aed17db0f2 2 = 0x592b2a22aaa6199314ad0633a6d0f9af7dd20bd90744576d5777bdbfefd03366f824a5253a6de0bed39761b7592f03132568d697c4c1d8a7fa910c9bfbd878d7c14b056b4ce80c49787554d42db6b41f9d8b9f55c7c68f2c75869902a45970d74fbe708126caf25a2d2e60d1a4bddbef3870add854413a97d3bfd11f664f54688a475c465b673d492a5611a6c486ca4e6a92cf58a804ddc828afe3ccbae6a4a1d52fc81a92506e54b3654ab8c67dd5a3f6fa7fec1c3d7ce3fff649311ebcbf2c34e710af14ce8461 := by

  simp only [keccakRound, c10ob_r2t, c10ob_r2p, c10ob_r2c]

  decide

theorem c10ob_r3t : keccakTheta 0x592b2a22aaa6199314ad0633a6d0f9af7dd20bd90744576d5777bdbfefd03366f824a5253a6de0bed39761b7592f03132568d697c4c1d8a7fa910c9bfbd878d7c14b056b4ce80c49787554d42db6b41f9d8b9f55c7c68f2c75869902a45970d74fbe708126caf25a2d2e60d1a4bddbef3870add854413a97d3bfd11f664f54688a475c465b673d492a5611a6c486ca4e6a92cf58a804ddc828afe3ccbae6a4a1d52fc81a92506e54b3654ab8c67dd5a3f6fa7fec1c3d7ce3fff649311ebcbf2c34e710af14ce8461 = 0x6c992bef2a903d4b23b38431249ccdc2a966eb0500dca323dbbc21e707b8ab0ab56fd43998464366e625607ad91927cb12765495468decca2e25ec47fc408c994d809933a4809425353e25c88f9d17c7a8399e9847f0abf442981b00261544ba9b0a905d21520614a1e5fc894cd54383753bdcc4f66a994fe60dd0d2e67970b0bd59de44d92b0924fee2f17ac31e3e00e6595300406c45a465e492d018cd0779e09dc9d712664a8c847bc8ba4431e1ce224e9f301ba588ad733dd569f6d4274079ac61b3b6e527b9 := by decide

theorem c10ob_r3p : keccakRhoPi keccak_rotc_std 0x6c992bef2a903d4b23b38431249ccdc2a966eb0500dca323dbbc21e707b8ab0ab56fd43998464366e625607ad91927cb12765495468decca2e25ec47fc408c994d809933a4809425353e25c88f9d17c7a8399e9847f0abf442981b00261544ba9b0a905d21520614a1e5fc894cd54383753bdcc4f66a994fe60dd0d2e67970b0bd59de44d92b0924fee2f17ac31e3e00e6595300406c45a465e492d018cd0779e09dc9d712664a8c847bc8ba4431e1ce224e9f301ba588ad733dd569f6d4274079ac61b3b6e527b9 = 0x6ef0879c1ee2ac2b3a2f8e6a7c4b911ff855fa541ccf4c23925eacef226c95844893a7cc06e9622bc223b38431249ccdf623fe20464c971297f22533550e0e878cd077965e492d01b89332546704ee4e50e661190d9ad5bf25607ad91927cbe6004c2a8974853036b8bc5eb0c78f803fe67baad3eda84e80752cdd60a01b94641284a9b013267490a9dee627b354ca7b0d2e67970b0e60dda4431e1ce847bc8b4afbcaa40f52db2692a8d1bd99424eca9030a4d85482e90ac45a4e659530040679ac61b3b6e527b9 := by decide

theorem c10ob_r3c : keccakChi 0x6ef0879c1ee2ac2b3a2f8e6a7c4b911ff855fa541ccf4c23925eacef226c95844893a7cc06e9622bc223b38431249ccdf623fe20464c971297f22533550e0e878cd077965e492d01b89332546704ee4e50e661190d9ad5bf25607ad91927cbe6004c2a8974853036b8bc5eb0c78f803fe67baad3eda84e80752cdd60a01b94641284a9b013267490a9dee627b354ca7b0d2e67970b0e60dda4431e1ce847bc8b4afbcaa40f52db2692a8d1bd99424eca9030a4d85482e90ac45a4e659530040679ac61b3b6e527b9 = 0xfcbc8fbf3ee639af3a2cae2a7c42d31fbc85fbc01e6f60039074a8c5426c04982092f5dc1a6a2a08c663f606296d9dccceb3fe70004cf51097f224b7642e064aecd1ad965c09bc11abb132756602ecc8486235390f9d55808379f01bf907c1e650ca2b89701d242f9d9c0ee0cead4bffe63b8adadda87e807c00bce3a313d43092c7abac5b625c1bccf6b267134d4a1f1f2e6e070b2c545d04939e3c581736a9cea9c4e00e42db20a3acf0ae29e76a53d863aed85292782ec6d21f401c7002c6698cc12bf667ceb1 := by decide

theorem c10ob_r3 : keccakRound keccak_rotc_std 0x592b2a22aaa6199314ad0633a6d0f9af7dd20bd90744576d5777bdbfefd03366f824a5253a6de0bed39761b7592f03132568d697c4c1d8a7fa910c9bfbd878d7c14b056b4ce80c49787554d42db6b41f9d8b9f55c7c68f2c75869902a45970d74fbe708126caf25a2d2e60d1a4bddbef3870add854413a97d3bfd11f664f54688a475c465b673d492a5611a6c486ca4e6a92cf58a804ddc828afe3ccbae6a4a1d52fc81a92506e54b3654ab8c67dd5a3f6fa7fec1c3d7ce3fff649311ebcbf2c34e710af14ce8461 3 = 0xfcbc8fbf3ee639af3a2cae2a7c42d31fbc85fbc01e6f60039074a8c5426c04982092f5dc1a6a2a08c663f606296d9dccceb3fe70004cf51097f224b7642e064aecd1ad965c09bc11abb132756602ecc8486235390f9d55808379f01bf907c1e650ca2b89701d242f9d9c0ee0cead4bffe63b8adadda87e807c00bce3a313d43092c7abac5b625c1bccf6b267134d4a1f1f2e6e070b2c545d04939e3c581736a9cea9c4e00e42db20a3acf0ae29e76a53d863aed85292782ec6d21f401c7002c6e98cc12b76674eb1 := by

  simp only [keccakRound, c10ob_r3t, c10ob_r3p, c10ob_r3c]

  decide

theorem c10ob_r4t : keccakTheta 0xfcbc8fbf3ee639af3a2cae2a7c42d31fbc85fbc01e6f60039074a8c5426c04982092f5dc1a6a2a08c663f606296d9dccceb3fe70004cf51097f224b7642e064aecd1ad965c09bc11abb132756602ecc8486235390f9d55808379f01bf907c1e650ca2b89701d242f9d9c0ee0cead4bffe63b8adadda87e807c00bce3a313d43092c7abac5b625c1bccf6b267134d4a1f1f2e6e070b2c545d04939e3c581736a9cea9c4e00e42db20a3acf0ae29e76a53d863aed85292782ec6d21f401c7002c6e98cc12b76674eb1 = 0xba3f5035d60b68bfd52c2f6c5d4e5eaf095b77b336e266acce226a235ada246e910c34b620049f2180e0298cc180ccdc21b37f36214078a0222ca8c44ca300e5b2876f7044bf9ce71a2ff31f5c6c59e10ee1eab3e77004906c79715dd80b4c56e514a7fa58902280c3cacc06d61b6b0957a54bb0e7c6cba93a8363694bfe85207dc72aea7a6ed1ab79283e143bc04cb04178ace1139a74abb50d5f5662798380882a1b6ae6af8a304cac71e808ebe7e36dbd22ab7a1f7e819884dda604c62230581200414c09fb98 := by decide

theorem c10ob_r4p : keccakRhoPi keccak_rotc_std 0xba3f5035d60b68bfd52c2f6c5d4e5eaf095b77b336e266acce226a235ada246e910c34b620049f2180e0298cc180ccdc21b37f36214078a0222ca8c44ca300e5b2876f7044bf9ce71a2ff31f5c6c59e10ee1eab3e77004906c79715dd80b4c56e514a7fa58902280c3cacc06d61b6b0957a54bb0e7c6cba93a8363694bfe85207dc72aea7a6ed1ab79283e143bc04cb04178ace1139a74abb50d5f5662798380882a1b6ae6af8a304cac71e808ebe7e36dbd22ab7a1f7e819884dda604c62230581200414c09fb98 = 0x3889a88d6b6891bbd8b3c2345fe63eb8b802480770f559f3d5bee395753d37685b6f48aade87dfa0afd52c2f6c5d4e5e54622651807291162b301b586dac270f2798380b50d5f56657357c51844150dbd2d880127c864430e0298cc180ccdc80bbb01698acd8f2e24a0f850ef0132c1e3109bb4c098c4461812b6ef666dc4cd5f39cf650edee0897bd2a5d873e365d4a3694bfe85203a836808ebe7e34cac71ed40d7582da2fee8fe6c4280f1404366f81140728a53fd2c4a74ab4178ace1139581200414c09fb98 := by decide

theorem c10ob_r4c : keccakChi 0x3889a88d6b6891bbd8b3c2345fe63eb8b802480770f559f3d5bee395753d37685b6f48aade87dfa0afd52c2f6c5d4e5e54622651807291162b301b586dac270f2798380b50d5f56657357c51844150dbd2d880127c864430e0298cc180ccdc80bbb01698acd8f2e24a0f850ef0132c1e3109bb4c098c4461812b6ef666dc4cd5f39cf650edee0897bd2a5d873e365d4a3694bfe85203a836808ebe7e34cac71ed40d7582da2fee8fe6c4280f1404366f81140728a53fd2c4a74ab4178ace1139581200414c09fb98 = 0xbc190b984a50b1f39bd58216cb6170b8980a608e50fdd8f0950f61a57a3f1160736f40a8de4797338f5d2c253cc9eb7a044276010072819780a5137601a1694773da1c0ad08765765f157f01a96952d298de84108c956c2ec128b78d81c4dcc1a960168ad0daf2d20a060d4ff017201e80b9a9dc05449681b73b6f7624dd64f5f3186658fdec8b9dbd0955213c26190a74001db893cba8a309a4fe7918fe92567345c19458e9eeaeeed6284e1004277f911d52a86f141a44c18a9c109ace3512580603696938395c := by decide

theorem c10ob_r4 : keccakRound keccak_rotc_std 0xfcbc8fbf3ee639af3a2cae2a7c42d31fbc85fbc01e6f60039074a8c5426c04982092f5dc1a6a2a08c663f606296d9dccceb3fe70004cf51097f224b7642e064aecd1ad965c09bc11abb132756602ecc8486235390f9d55808379f01bf907c1e650ca2b89701d242f9d9c0ee0cead4bffe63b8adadda87e807c00bce3a313d43092c7abac5b625c1bccf6b267134d4a1f1f2e6e070b2c545d04939e3c581736a9cea9c4e00e42db20a3acf0ae29e76a53d863aed85292782ec6d21f401c7002c6e98cc12b76674eb1 4 = 0xbc190b984a50b1f39bd58216cb6170b8980a608e50fdd8f0950f61a57a3f1160736f40a8de4797338f5d2c253cc9eb7a044276010072819780a5137601a1694773da1c0ad08765765f157f01a96952d298de84108c956c2ec128b78d81c4dcc1a960168ad0daf2d20a060d4ff017201e80b9a9dc05449681b73b6f7624dd64f5f3186658fdec8b9dbd0955213c26190a74001db893cba8a309a4fe7918fe92567345c19458e9eeaeeed6284e1004277f911d52a86f141a44c18a9c109ace3512580603696938b9d7 := by

  simp only [keccakRound, c10ob_r4t, c10ob_r4p, c10ob_r4c]

  decide

theorem c10ob_r5t : keccakTheta 0xbc190b984a50b1f39bd58216cb6170b8980a608e50fdd8f0950f61a57a3f1160736f40a8de4797338f5d2c253cc9eb7a044276010072819780a5137601a1694773da1c0ad08765765f157f01a96952d298de84108c956c2ec128b78d81c4dcc1a960168ad0daf2d20a060d4ff017201e80b9a9dc05449681b73b6f7624dd64f5f3186658fdec8b9dbd0955213c26190a74001db893cba8a309a4fe7918fe92567345c19458e9eeaeeed6284e1004277f911d52a86f141a44c18a9c109ace3512580603696938b9d7 = 0x5aad0deea37c13cd9c6fa7215a4496b47b18adf4d28135153d8cf37dcfbe9d6ae38af77ff2ab8bd36eef7639cae9bb546510e65deb7b8445f1ef9271c74a2e6b50db29876439dc0824290de88047d5c216d5f562cf21ce1833bcfe95f01e51276dbfcdbcd0f3973ccd1a3dd56d3d8a85dee46032429b90f0e88b43084ba143ab10b1e3c2329b24e62b2bf7021f3d2abb2d7b32a350f5015d4f311a63993bdd8caf61ad2f88e9e61acc5502acec11eac4ea6b8f972c1d1e5075d32823c0acda48551ecb648559659 := by decide

theorem c10ob_r5p : keccakRhoPi keccak_rotc_std 0x5aad0deea37c13cd9c6fa7215a4496b47b18adf4d28135153d8cf37dcfbe9d6ae38af77ff2ab8bd36eef7639cae9bb546510e65deb7b8445f1ef9271c74a2e6b50db29876439dc0824290de88047d5c216d5f562cf21ce1833bcfe95f01e51276dbfcdbcd0f3973ccd1a3dd56d3d8a85dee46032429b90f0e88b43084ba143ab10b1e3c2329b24e62b2bf7021f3d2abb2d7b32a350f5015d4f311a63993bdd8caf61ad2f88e9e61acc5502acec11eac4ea6b8f972c1d1e5075d32823c0acda48551ecb648559659 = 0x4f633cdf73efa75908fab9048521bd10790e7090b6afab162758858f1e1194d953a9ae3e5cb074796bd9c6fa7215a4497c938e3a51732f8f468f755b4f62a333993bdd8d4f311a6397c474f30e57b0d6bddffcaae2f6b8e2eef7639cae9bb536d2be03ca2506779facafdc087cf4aad80eba650478159b4828f6315be9a5026a73b816a1b6530ec8ef723019214dc87a43084ba143a0e88bacec11eacacc5502b437ba8df04f016accbbd6f70888ca2179cb9bb6dfe6de68f5015b2d7b32a3508551ecb648559659 := by decide

theorem c10ob_r5c : keccakChi 0x4f633cdf73efa75908fab9048521bd10790e7090b6afab162758858f1e1194d953a9ae3e5cb074796bd9c6fa7215a4497c938e3a51732f8f468f755b4f62a333993bdd8d4f311a6397c474f30e57b0d6bddffcaae2f6b8e2eef7639cae9bb536d2be03ca2506779facafdc087cf4aad80eba650478159b4828f6315be9a5026a73b816a1b6530ec8ef723019214dc87a43084ba143a0e88bacec11eacacc5502b437ba8df04f016accbbd6f70888ca2179cb9bb6dfe6de68f5015b2d7b32a3508551ecb648559659 = 0x6b333d5e71ee27d918723b248931ed303e0f744bc461a95f27a80c8b1f1180d90bafde2efc1e5f7f63e24ff63335ae68e897be3b5d313f1945c7359b6d662373a12b57ad5f2016efd14054a10e1511c61dda64a2e6169872ecd76298b69ab63ec3b69fe865627f5f80eebc1cf66d2af85caa66c67917ce4f6bf67b5ae885aae3f7b01601b41b5bc8e734114368e9c85853804d01d5b2ee0b009e21f2ea815572c437a984c36d206acdfb92c500985c3049cfb3be2fa1df2271311f6c7b3aa3518d9b6c24cc91ca71 := by decide

theorem c10ob_r5 : keccakRound keccak_rotc_std 0xbc190b984a50b1f39bd58216cb6170b8980a608e50fdd8f0950f61a57a3f1160736f40a8de4797338f5d2c253cc9eb7a044276010072819780a5137601a1694773da1c0ad08765765f157f01a96952d298de84108c956c2ec128b78d81c4dcc1a960168ad0daf2d20a060d4ff017201e80b9a9dc05449681b73b6f7624dd64f5f3186658fdec8b9dbd0955213c26190a74001db893cba8a309a4fe7918fe92567345c19458e9eeaeeed6284e1004277f911d52a86f141a44c18a9c109ace3512580603696938b9d7 5 = 0x6b333d5e71ee27d918723b248931ed303e0f744bc461a95f27a80c8b1f1180d90bafde2efc1e5f7f63e24ff63335ae68e897be3b5d313f1945c7359b6d662373a12b57ad5f2016efd14054a10e1511c61dda64a2e6169872ecd76298b69ab63ec3b69fe865627f5f80eebc1cf66d2af85caa66c67917ce4f6bf67b5ae885aae3f7b01601b41b5bc8e734114368e9c85853804d01d5b2ee0b009e21f2ea815572c437a984c36d206acdfb92c500985c3049cfb3be2fa1df2271311f6c7b3aa3518d9b6c244c91ca70 := by

  simp only [keccakRound, c10ob_r5t, c10ob_r5p, c10ob_r5c]

  decide

theorem c10ob_r6t : keccakTheta 0x6b333d5e71ee27d918723b248931ed303e0f744bc461a95f27a80c8b1f1180d90bafde2efc1e5f7f63e24ff63335ae68e897be3b5d313f1945c7359b6d662373a12b57ad5f2016efd14054a10e1511c61dda64a2e6169872ecd76298b69ab63ec3b69fe865627f5f80eebc1cf66d2af85caa66c67917ce4f6bf67b5ae885aae3f7b01601b41b5bc8e734114368e9c85853804d01d5b2ee0b009e21f2ea815572c437a984c36d206acdfb92c500985c3049cfb3be2fa1df2271311f6c7b3aa3518d9b6c244c91ca70 = 0x5bcb1d23fdef7bde7b62ce481c5739ac5621079b70879f1501e2549f24465b3ff8dc70544292271d531a6f8bbf34f26f8b874b57c857eb852de9464bd980153987610fb96477cd092233fadbb09969a42d2244df6a17c4758fc797f423fc62a2ab98ec38d1844915a6a4e408cd3af11eafd9c8bcc79bb62d5b0e5b276484f6e494a0e36d217d8f548f1a6293dc0ffe1275ca1515eee535edf3ed8f88540d2d10f4cf89f94f6c7c6daeeb67a995fe88ac21e1c06e9b47e968577b4778406d78b77ee8c25ef21db212 := by decide

theorem c10ob_r6p : keccakRhoPi keccak_rotc_std 0x5bcb1d23fdef7bde7b62ce481c5739ac5621079b70879f1501e2549f24465b3ff8dc70544292271d531a6f8bbf34f26f8b874b57c857eb852de9464bd980153987610fb96477cd092233fadbb09969a42d2244df6a17c4758fc797f423fc62a2ab98ec38d1844915a6a4e408cd3af11eafd9c8bcc79bb62d5b0e5b276484f6e494a0e36d217d8f548f1a6293dc0ffe1275ca1515eee535edf3ed8f88540d2d10f4cf89f94f6c7c6daeeb67a995fe88ac21e1c06e9b47e968577b4778406d78b77ee8c25ef21db212 = 0x789527c91196cfc32d3484467f5b7610be23a9691226fb5aa4a5071b690bec70878701ba6d1fa5aac7b62ce481c5739a325ecc00a9c96f493902334ebc47a9a40d2d10f3ed8f885ca7b63e36fa67c4fc1510a489c77e3711a6f8bbf34f26f53e847f8c5451f8f2fc698a4f703ff84a3aef68ef080daf16eaac420f36e10f3e2f9a130ec21f72c8e7ece45e63cddb16db276484f6e45b0e5995fe88acaeeb67ac748ff7bdef796f26af90afd70b170e92248ad5cc761c68c535ed75ca1515eee7ee8c25ef21db212 := by decide

theorem c10ob_r6c : keccakChi 0x789527c91196cfc32d3484467f5b7610be23a9691226fb5aa4a5071b690bec70878701ba6d1fa5aac7b62ce481c5739a325ecc00a9c96f493902334ebc47a9a40d2d10f3ed8f885ca7b63e36fa67c4fc1510a489c77e3711a6f8bbf34f26f53e847f8c5451f8f2fc698a4f703ff84a3aef68ef080daf16eaac420f36e10f3e2f9a130ec21f72c8e7ece45e63cddb16db276484f6e45b0e5995fe88acaeeb67ac748ff7bdef796f26af90afd70b170e92248ad5cc761c68c535ed75ca1515eee7ee8c25ef21db212 = 0xa58b521c811968793aa36847413525630eea28ae012a27299a5b1031d0452e8709d85a9da7f3bb6aacfbf2c25844d7b9e125ede12d3ebeb29fca213aabc43b9360f71dcf3ec07ce1597b41d3aea27e5581592a4f9f52e7f034c90f0f347a7f5d2957f885cd1a0f0fd4b0a7cd331fe4f386b1d6f0c4dafa6288e420b64a11f367e8baf8e4a11928967c8a45f572dd620d335778476f67bc67d5d7ed2ada76b772c65eea7bdfb7da1e52590af950b950e9a748585e4927409e1befd5fd91c16e8f5ee8ea5eb43d3212 := by decide

theorem c10ob_r6 : keccakRound keccak_rotc_std 0x6b333d5e71ee27d918723b248931ed303e0f744bc461a95f27a80c8b1f1180d90bafde2efc1e5f7f63e24ff63335ae68e897be3b5d313f1945c7359b6d662373a12b57ad5f2016efd14054a10e1511c61dda64a2e6169872ecd76298b69ab63ec3b69fe865627f5f80eebc1cf66d2af85caa66c67917ce4f6bf67b5ae885aae3f7b01601b41b5bc8e734114368e9c85853804d01d5b2ee0b009e21f2ea815572c437a984c36d206acdfb92c500985c3049cfb3be2fa1df2271311f6c7b3aa3518d9b6c244c91ca70 6 = 0xa58b521c811968793aa36847413525630eea28ae012a27299a5b1031d0452e8709d85a9da7f3bb6aacfbf2c25844d7b9e125ede12d3ebeb29fca213aabc43b9360f71dcf3ec07ce1597b41d3aea27e5581592a4f9f52e7f034c90f0f347a7f5d2957f885cd1a0f0fd4b0a7cd331fe4f386b1d6f0c4dafa6288e420b64a11f367e8baf8e4a11928967c8a45f572dd620d335778476f67bc67d5d7ed2ada76b772c65eea7bdfb7da1e52590af950b950e9a748585e4927409e1befd5fd91c16e8fdee8ea5e343db293 := by

  simp only [keccakRound, c10ob_r6t, c10ob_r6p, c10ob_r6c]

  decide

theorem c10ob_r7t : keccakTheta 0xa58b521c811968793aa36847413525630eea28ae012a27299a5b1031d0452e8709d85a9da7f3bb6aacfbf2c25844d7b9e125ede12d3ebeb29fca213aabc43b9360f71dcf3ec07ce1597b41d3aea27e5581592a4f9f52e7f034c90f0f347a7f5d2957f885cd1a0f0fd4b0a7cd331fe4f386b1d6f0c4dafa6288e420b64a11f367e8baf8e4a11928967c8a45f572dd620d335778476f67bc67d5d7ed2ada76b772c65eea7bdfb7da1e52590af950b950e9a748585e4927409e1befd5fd91c16e8fdee8ea5e343db293 = 0x4a7cbf3c6f4881f3d4300444ba69f6d6a316de4e71b57ab2801d038f4b997677c20315d3322202d9430c1fe2b6153e330fb681e2d6626d073236d7dadb5b66087ab10e71a51c241192a00e9d3b73c7e66eaec76f71030e7ada5a630ccf26ace884ab0e65bd855294cef6b473a8c3bc034d6a99be510b43d16713cd96a4401aed062994e75a45fb23d176b31502423f9629116bf9f4bbe4971e0ca2644fa70ec129a9075b31e63394bcca66faabe5835c0ab4aebe39b81d0501a9c6430a1d367f1533a510a1ec0b20 := by decide

theorem c10ob_r7p : keccakRhoPi keccak_rotc_std 0x4a7cbf3c6f4881f3d4300444ba69f6d6a316de4e71b57ab2801d038f4b997677c20315d3322202d9430c1fe2b6153e330fb681e2d6626d073236d7dadb5b66087ab10e71a51c241192a00e9d3b73c7e66eaec76f71030e7ada5a630ccf26ace884ab0e65bd855294cef6b473a8c3bc034d6a99be510b43d16713cd96a4401aed062994e75a45fb23d176b31502423f9629116bf9f4bbe4971e0ca2644fa70ec129a9075b31e63394bcca66faabe5835c0ab4aebe39b81d0501a9c6430a1d367f1533a510a1ec0b20 = 0x740e3d2e65d9dee78fcd25401d3a7681873d375763b7b8918314ca73ad22fd42ad2baf8e6e0741d6d4300444ba69f66bed6dadb304191bdad1cea30ef00f3bfa70ec11e0ca2644d98f319ca14d483a574cc8880b67080c0c1fe2b6153e3343199e4d59d1b4b4c65dacc540908fe5b403538c86143a6cfe5462dbc9ce36af5684822f5621ce34a36b54cdf2885a1e8ad96a4401aed6713caabe5835cbcca66f2fcf1bd2207cd29f3c5acc4da0e1f6d02a94a42558732decbe49729116bf9f4b1533a510a1ec0b20 := by decide

theorem c10ob_r7c : keccakChi 0x740e3d2e65d9dee78fcd25401d3a7681873d375763b7b8918314ca73ad22fd42ad2baf8e6e0741d6d4300444ba69f66bed6dadb304191bdad1cea30ef00f3bfa70ec11e0ca2644d98f319ca14d483a574cc8880b67080c0c1fe2b6153e3343199e4d59d1b4b4c65dacc540908fe5b403538c86143a6cfe5462dbc9ce36af5684822f5621ce34a36b54cdf2885a1e8ad96a4401aed6713caabe5835cbcca66f2fcf1bd2207cd29f3c5acc4da0e1f6d02a94a42558732decbe49729116bf9f4b1533a510a1ec0b20 = 0x91761a7d5fe4f962a506eca7c0173c7781f73f2f79037630f78bd4ca73b12abb42a9029a8a2c9241f4a4fc0504384fb262e66c35124119134ec1dea34a4a6fdfdb5ccd1d51ce3644d90e333eaf7d41010be089c88be2890c0c0ce6b0012657b14ade4551dbf5bcca59ad67e69485e6b50341849f550a7cbc0522dfc9ea24fe462e1e2f622006348a3b341d7b466a95de5de866058f52511d88aad1c7cbc4a8ed85874953366f46d42c6a684d2161fff02911b7b7586f2de3aa033ad9b63f4d5b15a72134e9ac2b84 := by decide

theorem c10ob_r7 : keccakRound keccak_rotc_std 0xa58b521c811968793aa36847413525630eea28ae012a27299a5b1031d0452e8709d85a9da7f3bb6aacfbf2c25844d7b9e125ede12d3ebeb29fca213aabc43b9360f71dcf3ec07ce1597b41d3aea27e5581592a4f9f52e7f034c90f0f347a7f5d2957f885cd1a0f0fd4b0a7cd331fe4f386b1d6f0c4dafa6288e420b64a11f367e8baf8e4a11928967c8a45f572dd620d335778476f67bc67d5d7ed2ada76b772c65eea7bdfb7da1e52590af950b950e9a748585e4927409e1befd5fd91c16e8fdee8ea5e343db293 7 = 0x91761a7d5fe4f962a506eca7c0173c7781f73f2f79037630f78bd4ca73b12abb42a9029a8a2c9241f4a4fc0504384fb262e66c35124119134ec1dea34a4a6fdfdb5ccd1d51ce3644d90e333eaf7d41010be089c88be2890c0c0ce6b0012657b14ade4551dbf5bcca59ad67e69485e6b50341849f550a7cbc0522dfc9ea24fe462e1e2f622006348a3b341d7b466a95de5de866058f52511d88aad1c7cbc4a8ed85874953366f46d42c6a684d2161fff02911b7b7586f2de3aa033ad9b63f4d5b95a72134e9acab8d := by

  simp only [keccakRound, c10ob_r7t, c10ob_r7p, c10ob_r7c]

  decide

theorem c10ob_r8t : keccakTheta 0x91761a7d5fe4f962a506eca7c0173c7781f73f2f79037630f78bd4ca73b12abb42a9029a8a2c9241f4a4fc0504384fb262e66c35124119134ec1dea34a4a6fdfdb5ccd1d51ce3644d90e333eaf7d41010be089c88be2890c0c0ce6b0012657b14ade4551dbf5bcca59ad67e69485e6b50341849f550a7cbc0522dfc9ea24fe462e1e2f622006348a3b341d7b466a95de5de866058f52511d88aad1c7cbc4a8ed85874953366f46d42c6a684d2161fff02911b7b7586f2de3aa033ad9b63f4d5b95a72134e9acab8d = 0x5338b0e0299419f4efe410e22e452ff290565fd952bbe3635dfa8d21ccf0bc16a91cbe6b9976d91636ea56987248af2428049070fc130a965f60be5561f2fa8c712d94f6ee8fa0e932bb8fcfbc270a56c9ae2355fd92699a46ee1af5ef7444345b7f25a7f04d2999f3dc3e0d2bc47018e8f4386e465037ebc76c75549c541ed064fcd327ce54270f2a957d8d6dd2008df7993fee3013c7b0631f6d36d89ee3ba47c9e3ce401fa64266889408cf33ec7538b0d74173d7b8b000726332097edbf67e129dc5faf6e0da := by decide

theorem c10ob_r8p : keccakRhoPi keccak_rotc_std 0x5338b0e0299419f4efe410e22e452ff290565fd952bbe3635dfa8d21ccf0bc16a91cbe6b9976d91636ea56987248af2428049070fc130a965f60be5561f2fa8c712d94f6ee8fa0e932bb8fcfbc270a56c9ae2355fd92699a46ee1af5ef7444345b7f25a7f04d2999f3dc3e0d2bc47018e8f4386e465037ebc76c75549c541ed064fcd327ce54270f2a957d8d6dd2008df7993fee3013c7b0631f6d36d89ee3ba47c9e3ce401fa64266889408cf33ec7538b0d74173d7b8b000726332097edbf67e129dc5faf6e0da = 0x77ea348733c2f0594e14ac65771f9f78c934cd64d711aafe87b27e6993e72a130e2c35d05cf5ee2cf2efe410e22e452f5f2ab0f97d462fb070f834af11c063cf89ee3ba631f6d36d7200fd32123e4f1ef9ae65db645aa472ea56987248af2436ebdee888688ddc35a55f635b7480234a00e4c66412fdb7ec720acbfb2a577c6cf41d2e25b29eddd147a1c3723281bf5f5549c541ed0c76c78cf33ec7566889402c380a65067d14ce0e1f826152c50092694ccadbf92d3f823c7b0f7993fee3017e129dc5faf6e0da := by decide

theorem c10ob_r8c : keccakChi 0x77ea348733c2f0594e14ac65771f9f78c934cd64d711aafe87b27e6993e72a130e2c35d05cf5ee2cf2efe410e22e452f5f2ab0f97d462fb070f834af11c063cf89ee3ba631f6d36d7200fd32123e4f1ef9ae65db645aa472ea56987248af2436ebdee888688ddc35a55f635b7480234a00e4c66412fdb7ec720acbfb2a577c6cf41d2e25b29eddd147a1c3723281bf5f5549c541ed0c76c78cf33ec7566889402c380a65067d14ce0e1f826152c50092694ccadbf92d3f823c7b0f7993fee3017e129dc5faf6e0da = 0xf6787eaeb0c0f04a4610ad353b2a915cf8dedde6d7d1caff81b25e68b3e93f134628b4d418e56ec07b01e694c3eed54e5f2aa9db6d5625a0d03d70af93e823c086ecbbf65df0df5d0210f93b123e6f9c5cb544c0005aa470ea161a565a0a37bafa768d014cdd5c75a55f732974a203484a644ee41af06bd923020afb83530aeb78ec1a21e6b65cd145a302a83ac09f73e555e9446d1236478e533cf544e900582c51085d077517cf5c1d17e1aa47e082496cc2dffd152bce3a680f59913ee3113f165d4792f7fc58 := by decide

theorem c10ob_r8 : keccakRound keccak_rotc_std 0x91761a7d5fe4f962a506eca7c0173c7781f73f2f79037630f78bd4ca73b12abb42a9029a8a2c9241f4a4fc0504384fb262e66c35124119134ec1dea34a4a6fdfdb5ccd1d51ce3644d90e333eaf7d41010be089c88be2890c0c0ce6b0012657b14ade4551dbf5bcca59ad67e69485e6b50341849f550a7cbc0522dfc9ea24fe462e1e2f622006348a3b341d7b466a95de5de866058f52511d88aad1c7cbc4a8ed85874953366f46d42c6a684d2161fff02911b7b7586f2de3aa033ad9b63f4d5b95a72134e9acab8d 8 = 0xf6787eaeb0c0f04a4610ad353b2a915cf8dedde6d7d1caff81b25e68b3e93f134628b4d418e56ec07b01e694c3eed54e5f2aa9db6d5625a0d03d70af93e823c086ecbbf65df0df5d0210f93b123e6f9c5cb544c0005aa470ea161a565a0a37bafa768d014cdd5c75a55f732974a203484a644ee41af06bd923020afb83530aeb78ec1a21e6b65cd145a302a83ac09f73e555e9446d1236478e533cf544e900582c51085d077517cf5c1d17e1aa47e082496cc2dffd152bce3a680f59913ee3113f165d4792f7fcd2 := by

  simp only [keccakRound, c10ob_r8t, c10ob_r8p, c10ob_r8c]

  decide

theorem c10ob_r9t : keccakTheta 0xf6787eaeb0c0f04a4610ad353b2a915cf8dedde6d7d1caff81b25e68b3e93f134628b4d418e56ec07b01e694c3eed54e5f2aa9db6d5625a0d03d70af93e823c086ecbbf65df0df5d0210f93b123e6f9c5cb544c0005aa470ea161a565a0a37bafa768d014cdd5c75a55f732974a203484a644ee41af06bd923020afb83530aeb78ec1a21e6b65cd145a302a83ac09f73e555e9446d1236478e533cf544e900582c51085d077517cf5c1d17e1aa47e082496cc2dffd152bce3a680f59913ee3113f165d4792f7fcd2 = 0x5f97a8a57c2ce3402575f1b31abea80a2a588bbc30488284821efcaeebbeaaf362cf8bdc22999e30d2ee309f0f02c6443c4ff55d4cc21cf602bb26f574716bbb8540193005a74abd26f7c63328429f6cf55a92cbccb6b77a897346d07b9e0eec28f0db5bab44140ea6f3d1ef2cf596a86e8371ec208c9b298aeddcf04fbf19e11b8946a7c7226587972554f2dd59d708e6f94b823545a3a7aab403fd7e95f0a885bede56cb9904c53f784b678bd3d9d49bea94851a8c63b539c4ad9fc96976f11bf1624fa88b0c22 := by decide

theorem c10ob_r9p : keccakRhoPi keccak_rotc_std 0x5f97a8a57c2ce3402575f1b31abea80a2a588bbc30488284821efcaeebbeaaf362cf8bdc22999e30d2ee309f0f02c6443c4ff55d4cc21cf602bb26f574716bbb8540193005a74abd26f7c63328429f6cf55a92cbccb6b77a897346d07b9e0eec28f0db5bab44140ea6f3d1ef2cf596a86e8371ec208c9b298aeddcf04fbf19e11b8946a7c7226587972554f2dd59d708e6f94b823545a3a7aab403fd7e95f0a885bede56cb9904c53f784b678bd3d9d49bea94851a8c63b539c4ad9fc96976f11bf1624fa88b0c22 = 0x87bf2bbaefaabce853ed84def8c66505b5bbd7aad4965e6c38dc4a353e3913266faa52146a318ed0a2575f1b31abea8937aba38b5dd815dcf47bcb3d65aa29be95f0a8aab403fd7b65cc8262c2df6f22f708a6678c18b3eee309f0f02c644d2a0f73c1dd912e68dc9553cb75675c22573895b3f92d2ede2854b117786091050e957b0a8032600b4741b8f610464d94bcf04fbf19e18aedd78bd3d9d43f784b6ea295f0b38d017e5aba998439ec789fe20a0714786dadd5a5a3a7e6f94b823541bf1624fa88b0c22 := by decide

theorem c10ob_r9c : keccakChi 0x87bf2bbaefaabce853ed84def8c66505b5bbd7aad4965e6c38dc4a353e3913266faa52146a318ed0a2575f1b31abea8937aba38b5dd815dcf47bcb3d65aa29be95f0a8aab403fd7b65cc8262c2df6f22f708a6678c18b3eee309f0f02c644d2a0f73c1dd912e68dc9553cb75675c22573895b3f92d2ede2854b117786091050e957b0a8032600b4741b8f610464d94bcf04fbf19e18aedd78bd3d9d43f784b6ea295f0b38d017e5aba998439ec789fe20a0714786dadd5a5a3a7e6f94b823541bf1624fa88b0c22 = 0x897eb239bfba2adce3bedd4daf8d7671531a9fc8ad3bec6847a984a6116793227ea89c79eaab7c2943267779305ab7ad2722323eb9f8c10fc742f972d4589c3bf96708828ac53e93b05c7c17783776faa724aee63ce4893bbeb9ce1680d42012a1b73c7da1136da18755bfb554b1c277532b5b371bd0c96a024bd3171a013a1991e39c2042d0841270138e36806dc90b4640cb799d1aae6948a6399d4393d5b4aa23432b2ce034b1ba79b8071ecc81fc60a0364fa6cacb5bd133f66f8cbd23f03b71634faac9d028 := by decide

theorem c10ob_r9 : keccakRound keccak_rotc_std 0xf6787eaeb0c0f04a4610ad353b2a915cf8dedde6d7d1caff81b25e68b3e93f134628b4d418e56ec07b01e694c3eed54e5f2aa9db6d5625a0d03d70af93e823c086ecbbf65df0df5d0210f93b123e6f9c5cb544c0005aa470ea161a565a0a37bafa768d014cdd5c75a55f732974a203484a644ee41af06bd923020afb83530aeb78ec1a21e6b65cd145a302a83ac09f73e555e9446d1236478e533cf544e900582c51085d077517cf5c1d17e1aa47e082496cc2dffd152bce3a680f59913ee3113f165d4792f7fcd2 9 = 0x897eb239bfba2adce3bedd4daf8d7671531a9fc8ad3bec6847a984a6116793227ea89c79eaab7c2943267779305ab7ad2722323eb9f8c10fc742f972d4589c3bf96708828ac53e93b05c7c17783776faa724aee63ce4893bbeb9ce1680d42012a1b73c7da1136da18755bfb554b1c277532b5b371bd0c96a024bd3171a013a1991e39c2042d0841270138e36806dc90b4640cb799d1aae6948a6399d4393d5b4aa23432b2ce034b1ba79b8071ecc81fc60a0364fa6cacb5bd133f66f8cbd23f03b71634faac9d0a0 := by

  simp only [keccakRound, c10ob_r9t, c10ob_r9p, c10ob_r9c]

  decide

theorem c10ob_r10t : keccakTheta 0x897eb239bfba2adce3bedd4daf8d7671531a9fc8ad3bec6847a984a6116793227ea89c79eaab7c2943267779305ab7ad2722323eb9f8c10fc742f972d4589c3bf96708828ac53e93b05c7c17783776faa724aee63ce4893bbeb9ce1680d42012a1b73c7da1136da18755bfb554b1c277532b5b371bd0c96a024bd3171a013a1991e39c2042d0841270138e36806dc90b4640cb799d1aae6948a6399d4393d5b4aa23432b2ce034b1ba79b8071ecc81fc60a0364fa6cacb5bd133f66f8cbd23f03b71634faac9d0a0 = 0x4d0746db52a35054ccbc8c65a905c165e8c9bcae6f42b33e318a0508cdf6acbe66c7aecd227a274ce88b12d3acaa874885727b54ce5eb68cad4fd709f975b605dd62c74177dc77a28989a8240bba8a72a8a68b2367496e211ccdb9d75c90a75ac21387feadcaafa23e49b43c9093b9ecbefbda2235c17378fe51543109125c03e9689abb7cdae757d858a34cba20e50e2f1ef8f00a25780d062df087b1f0be9278d857f26702b68150cad8cebd1ab9b6d36324ded050c007582d2991105da19a3b585da92450efd := by decide

theorem c10ob_r10p : keccakRhoPi keccak_rotc_std 0x4d0746db52a35054ccbc8c65a905c165e8c9bcae6f42b33e318a0508cdf6acbe66c7aecd227a274ce88b12d3acaa874885727b54ce5eb68cad4fd709f975b605dd62c74177dc77a28989a8240bba8a72a8a68b2367496e211ccdb9d75c90a75ac21387feadcaafa23e49b43c9093b9ecbefbda2235c17378fe51543109125c03e9689abb7cdae757d858a34cba20e50e2f1ef8f00a25780d062df087b1f0be9278d857f26702b68150cad8cebd1ab9b6d36324ded050c007582d2991105da19a3b585da92450efd = 0x8c628142337dab2f77514e51313504813a4b71154534591b3a9f4b44d5dbe6d71b4d8c937b414300164ccbc8c65a905c7eb84fcbadb0656a926d0f2424ee788fb1f0be9d062df087f933815b413c6c2bebb3489e89d399b188b12d3acaa874ce3aeb9214ea2399b761628d32e883941feb05a532220bb4326bd193795cde8566b8ef4bbac58e82ef5f7ded111ae0b9be543109125c08fe51cebd1ab9b150cad81d1b6d4a8d414134f6a99cbd6d110ae4e557d56109c3ff5625780e2f1ef8f00aa3b585da92450efd := by decide

theorem c10ob_r10c : keccakChi 0x8c628142337dab2f77514e51313504813a4b71154534591b3a9f4b44d5dbe6d71b4d8c937b414300164ccbc8c65a905c7eb84fcbadb0656a926d0f2424ee788fb1f0be9d062df087f933815b413c6c2bebb3489e89d399b188b12d3acaa874ce3aeb9214ea2399b761628d32e883941feb05a532220bb4326bd193795cde8566b8ef4bbac58e82ef5f7ded111ae0b9be543109125c08fe51cebd1ab9b150cad81d1b6d4a8d414134f6a99cbd6d110ae4e557d56109c3ff5625780e2f1ef8f00aa3b585da92450efd = 0xacf0c206b7e70ff8645c42c079354481b269f017477cf2357f8f4504e5dae2571b0dbc827b655a08168cf54cc05b00d8978b4fd8ac94094992298f2466a4e89bdd60fe568f3df5e7fb3e807b61fe6423ebd1409e415399bc88b5881ae8a050cc59e9d290eb701086e172a018e80bf057f18cb736202bbd927bd1927b10d6b1673cc3433a648ec8771c6d7d5002b0bcbef4b30bb89906fc10c5f1feb8b3b0cb761953676f81f9b136540d1c2d7f15042dec45b4238983be4637d006b37ae8f0aa63b2549a934601a9 := by decide

theorem c10ob_r10 : keccakRound keccak_rotc_std 0x897eb239bfba2adce3bedd4daf8d7671531a9fc8ad3bec6847a984a6116793227ea89c79eaab7c2943267779305ab7ad2722323eb9f8c10fc742f972d4589c3bf96708828ac53e93b05c7c17783776faa724aee63ce4893bbeb9ce1680d42012a1b73c7da1136da18755bfb554b1c277532b5b371bd0c96a024bd3171a013a1991e39c2042d0841270138e36806dc90b4640cb799d1aae6948a6399d4393d5b4aa23432b2ce034b1ba79b8071ecc81fc60a0364fa6cacb5bd133f66f8cbd23f03b71634faac9d0a0 10 = 0xacf0c206b7e70ff8645c42c079354481b269f017477cf2357f8f4504e5dae2571b0dbc827b655a08168cf54cc05b00d8978b4fd8ac94094992298f2466a4e89bdd60fe568f3df5e7fb3e807b61fe6423ebd1409e415399bc88b5881ae8a050cc59e9d290eb701086e172a018e80bf057f18cb736202bbd927bd1927b10d6b1673cc3433a648ec8771c6d7d5002b0bcbef4b30bb89906fc10c5f1feb8b3b0cb761953676f81f9b136540d1c2d7f15042dec45b4238983be4637d006b37ae8f0aa63b2549a134681a0 := by

  simp only [keccakRound, c10ob_r10t, c10ob_r10p, c10ob_r10c]

  decide

theorem c10ob_r11t : keccakTheta 0xacf0c206b7e70ff8645c42c079354481b269f017477cf2357f8f4504e5dae2571b0dbc827b655a08168cf54cc05b00d8978b4fd8ac94094992298f2466a4e89bdd60fe568f3df5e7fb3e807b61fe6423ebd1409e415399bc88b5881ae8a050cc59e9d290eb701086e172a018e80bf057f18cb736202bbd927bd1927b10d6b1673cc3433a648ec8771c6d7d5002b0bcbef4b30bb89906fc10c5f1feb8b3b0cb761953676f81f9b136540d1c2d7f15042dec45b4238983be4637d006b37ae8f0aa63b2549a134681a0 = 0xd0a45bc8a5f04c798b822391772f61cb15ce527c6b4bbbd4db71ad49fcaa3a9929de12c01ea01a7e6ad86c82d24c435978552e89a28e2c03358e2d4f4a93a17a799e161b964d2d29c9ed2e39043b24559785d9505344da3d676be94be6ba7586fe4e70fbc7475967458c4855f17b2899c35f197445eefde407850bb502c1f2e6d31d226b6a94ed3dbbcadf3b2e87f55f504de3f5807624def72250fad6758b006507fea193eef2b7bbd37d7c710f21674be21648a5b4f7a7932eeefe639828645161fad87683c1d6 := by decide

theorem c10ob_r11p : keccakRhoPi keccak_rotc_std 0xd0a45bc8a5f04c798b822391772f61cb15ce527c6b4bbbd4db71ad49fcaa3a9929de12c01ea01a7e6ad86c82d24c435978552e89a28e2c03358e2d4f4a93a17a799e161b964d2d29c9ed2e39043b24559785d9505344da3d676be94be6ba7586fe4e70fbc7475967458c4855f17b2899c35f197445eefde407850bb502c1f2e6d31d226b6a94ed3dbbcadf3b2e87f55f504de3f5807624def72250fad6758b006507fea193eef2b7bbd37d7c710f21674be21648a5b4f7a7932eeefe639828645161fad87683c1d6 = 0x6dc6b527f2a8ea677648ab93da5c7208a26d1ecbc2eca8299ee98e9135b54a76d2f88592296d3de9cb8b822391772f6116a7a549d0bd1ac7312157c5eca265166758b00f72250fad0c9f7795bb283ff54b007a8069f8a778d86c82d24c43596a97cd74eb0cced7d2f2b7cecba1fd57ee265dddfcc73050c982b9ca4f8d69777aa5a52f33c2c372c91af8cba22f77ef26bb502c1f2e607850c710f2167bbd37d716f2297c131e7429d13451c5806f0aa53acb3ff27387de3a624de504de3f58075161fad87683c1d6 := by decide

theorem c10ob_r11c : keccakChi 0x6dc6b527f2a8ea677648ab93da5c7208a26d1ecbc2eca8299ee98e9135b54a76d2f88592296d3de9cb8b822391772f6116a7a549d0bd1ac7312157c5eca265166758b00f72250fad0c9f7795bb283ff54b007a8069f8a778d86c82d24c43596a97cd74eb0cced7d2f2b7cecba1fd57ee265dddfcc73050c982b9ca4f8d69777aa5a52f33c2c372c91af8cba22f77ef26bb502c1f2e607850c710f2167bbd37d716f2297c131e7429d13451c5806f0aa53acb3ff27387de3a624de504de3f58075161fad87683c1d6 = 0x61c7bf26e638a871e470ab03d3196780abeb0aefe24c204ecae92f812da51876f2fc95d8eb259de0a8cb0229d1722f6912b3d0ddfab50a53f82955e7ede0403661de10076238156c1cbe305537aa5fe79ba278834935a05efc3107aeca4309eb94cd0ceb2d7671c2ba974cdbe1fc5fc62315eddccb32d0d9baf9c64689293f7ae0a51f23b057724c18e00bee225fea141e55080eeee06899c7b831b67aaab0f134fe2c789b226c2890358345e4ee8b733c0917ca6097aa32a379a5015e57588249e3e02a570347ee := by decide

theorem c10ob_r11 : keccakRound keccak_rotc_std 0xacf0c206b7e70ff8645c42c079354481b269f017477cf2357f8f4504e5dae2571b0dbc827b655a08168cf54cc05b00d8978b4fd8ac94094992298f2466a4e89bdd60fe568f3df5e7fb3e807b61fe6423ebd1409e415399bc88b5881ae8a050cc59e9d290eb701086e172a018e80bf057f18cb736202bbd927bd1927b10d6b1673cc3433a648ec8771c6d7d5002b0bcbef4b30bb89906fc10c5f1feb8b3b0cb761953676f81f9b136540d1c2d7f15042dec45b4238983be4637d006b37ae8f0aa63b2549a134681a0 11 = 0x61c7bf26e638a871e470ab03d3196780abeb0aefe24c204ecae92f812da51876f2fc95d8eb259de0a8cb0229d1722f6912b3d0ddfab50a53f82955e7ede0403661de10076238156c1cbe305537aa5fe79ba278834935a05efc3107aeca4309eb94cd0ceb2d7671c2ba974cdbe1fc5fc62315eddccb32d0d9baf9c64689293f7ae0a51f23b057724c18e00bee225fea141e55080eeee06899c7b831b67aaab0f134fe2c789b226c2890358345e4ee8b733c0917ca6097aa32a379a5015e57588249e3e02ad70347e4 := by

  simp only [keccakRound, c10ob_r11t, c10ob_r11p, c10ob_r11c]

  decide

theorem c10ob_r12t : keccakTheta 0x61c7bf26e638a871e470ab03d3196780abeb0aefe24c204ecae92f812da51876f2fc95d8eb259de0a8cb0229d1722f6912b3d0ddfab50a53f82955e7ede0403661de10076238156c1cbe305537aa5fe79ba278834935a05efc3107aeca4309eb94cd0ceb2d7671c2ba974cdbe1fc5fc62315eddccb32d0d9baf9c64689293f7ae0a51f23b057724c18e00bee225fea141e55080eeee06899c7b831b67aaab0f134fe2c789b226c2890358345e4ee8b733c0917ca6097aa32a379a5015e57588249e3e02ad70347e4 = 0x9dbc6cab2547fee0bec4bba06be3de35f3a21490923778874e2929c257955e84774c06cebafd2c7b54b0d1a4120d79f84807c07e424fb3e6a0604b989d9b18ffe51e16441808539e990ea3436672ee7c67d9ab0e8a4af6cfa685170d72b9b05ecc8412945d0d290b3e574a989bcc1934a6a57eca9aea6142468215cb4a5669ebba110f8008adcbf940a915915224b2dd9a950e4d94d02e6b4208a2a02b72016ac885fff5585d3ab9ca8193e65c1432c6644009b510ecf2fb27b9a34224671e70cc53733c86dbf67f := by decide

theorem c10ob_r12p : keccakRhoPi keccak_rotc_std 0x9dbc6cab2547fee0bec4bba06be3de35f3a21490923778874e2929c257955e84774c06cebafd2c7b54b0d1a4120d79f84807c07e424fb3e6a0604b989d9b18ffe51e16441808539e990ea3436672ee7c67d9ab0e8a4af6cfa685170d72b9b05ecc8412945d0d290b3e574a989bcc1934a6a57eca9aea6142468215cb4a5669ebba110f8008adcbf940a915915224b2dd9a950e4d94d02e6b4208a2a02b72016ac885fff5585d3ab9ca8193e65c1432c6644009b510ecf2fb27b9a34224671e70cc53733c86dbf67f = 0x38a4a7095e557a11e5dcf9321d4686cc257b67b3ecd58745fcdd0887c00456e5d910026d443b3cbe35bec4bba06be3de25cc4ecd8c7fd0305d2a626f3064d0f9b72016a4208a2a02aac2e9d5ce442fff1b3aebf4b1eddd30b0d1a4120d79f8541ae57360bd4d0a2e2a456454892cb7504f73468448ce3ce0fe7442921246ef100a73dca3c2c88301352bf654d7530a155cb4a5669eb4682165c1432c6ca8193e1b2ac951ffb8276f0fc849f67cc900f869485e642094a2e802e6b9a950e4d94dcc53733c86dbf67f := by decide

theorem c10ob_r12c : keccakChi 0x38a4a7095e557a11e5dcf9321d4686cc257b67b3ecd58745fcdd0887c00456e5d910026d443b3cbe35bec4bba06be3de25cc4ecd8c7fd0305d2a626f3064d0f9b72016a4208a2a02aac2e9d5ce442fff1b3aebf4b1eddd30b0d1a4120d79f8541ae57360bd4d0a2e2a456454892cb7504f73468448ce3ce0fe7442921246ef100a73dca3c2c88301352bf654d7530a155cb4a5669eb4682165c1432c6ca8193e1b2ac951ffb8276f0fc849f67cc900f869485e642094a2e802e6b9a950e4d94dcc53733c86dbf67f = 0x1c69af8bde51385024ccf9561d6c82623d5b61baaec4ff543c599087d106566dd832655d68eabdbe209ed29b80e1e3deaf8c6789c27bdc114d18e25d1064f33797e41a24ac912a02e2c8899ede20ff063b3ecba430cd5e20f490a012457bd89411cf38840dc90f0e8a55e046891c47005fd355a47c8f34cee640e6d080528f110bf2dd8fae60932fc12ff444c755660556e4adc59e3ce92144ca113c2deb1b2a198e41d0af9c2e6fcb997bda7c8ad0e8796ade65a3a485ef0466b83b0cadd95da55b3578a6cbd4df := by decide

theorem c10ob_r12 : keccakRound keccak_rotc_std 0x61c7bf26e638a871e470ab03d3196780abeb0aefe24c204ecae92f812da51876f2fc95d8eb259de0a8cb0229d1722f6912b3d0ddfab50a53f82955e7ede0403661de10076238156c1cbe305537aa5fe79ba278834935a05efc3107aeca4309eb94cd0ceb2d7671c2ba974cdbe1fc5fc62315eddccb32d0d9baf9c64689293f7ae0a51f23b057724c18e00bee225fea141e55080eeee06899c7b831b67aaab0f134fe2c789b226c2890358345e4ee8b733c0917ca6097aa32a379a5015e57588249e3e02ad70347e4 12 = 0x1c69af8bde51385024ccf9561d6c82623d5b61baaec4ff543c599087d106566dd832655d68eabdbe209ed29b80e1e3deaf8c6789c27bdc114d18e25d1064f33797e41a24ac912a02e2c8899ede20ff063b3ecba430cd5e20f490a012457bd89411cf38840dc90f0e8a55e046891c47005fd355a47c8f34cee640e6d080528f110bf2dd8fae60932fc12ff444c755660556e4adc59e3ce92144ca113c2deb1b2a198e41d0af9c2e6fcb997bda7c8ad0e8796ade65a3a485ef0466b83b0cadd95da55b357826cb5454 := by

  simp only [keccakRound, c10ob_r12t, c10ob_r12p, c10ob_r12c]

  decide

theorem c10ob_r13t : keccakTheta 0x1c69af8bde51385024ccf9561d6c82623d5b61baaec4ff543c599087d106566dd832655d68eabdbe209ed29b80e1e3deaf8c6789c27bdc114d18e25d1064f33797e41a24ac912a02e2c8899ede20ff063b3ecba430cd5e20f490a012457bd89411cf38840dc90f0e8a55e046891c47005fd355a47c8f34cee640e6d080528f110bf2dd8fae60932fc12ff444c755660556e4adc59e3ce92144ca113c2deb1b2a198e41d0af9c2e6fcb997bda7c8ad0e8796ade65a3a485ef0466b83b0cadd95da55b357826cb5454 = 0xaaa30d54141d8f610d0b4b7c49922b4431462f9159d37e060b722f21bf52ae6ac6e18adfe56d8f48965470444aad54ef864bd5a3968575374105ac76e7737265a0cfa582c2c5d205fc1b661c53a7cdf08df4697bfa81e911dd571238118571b21dd276affade8e5cbd7e5fe0e748bf074100ba26f1080638508a440f4a1e382022356fa5fa9e3a09cd32ba6f3042e75761cf1263f06811265a19febea06c29dcaf44e30f65d0995ee25ec9f0287479ce7577904e54b304bd334d079d62f9215abb88dafaab4c66a2 := by decide

theorem c10ob_r13p : keccakRhoPi keccak_rotc_std 0xaaa30d54141d8f610d0b4b7c49922b4431462f9159d37e060b722f21bf52ae6ac6e18adfe56d8f48965470444aad54ef864bd5a3968575374105ac76e7737265a0cfa582c2c5d205fc1b661c53a7cdf08df4697bfa81e911dd571238118571b21dd276affade8e5cbd7e5fe0e748bf074100ba26f1080638508a440f4a1e382022356fa5fa9e3a09cd32ba6f3042e75761cf1263f06811265a19febea06c29dcaf44e30f65d0995ee25ec9f0287479ce7577904e54b304bd334d079d62f9215abb88dafaab4c66a2 = 0x2dc8bc86fd4ab9a84f9be1f836cc38a740f488c6fa34bdfd04911ab7d2fd4f1d5d5de413952cc12f440d0b4b7c49922bd63b73b9b932a082f97f839d22fc1ef506c29dc5a19febea7b2e84caf57a27182b7f95b63d231b865470444aad54ef9670230ae365baae244cae9bcc10b9d5f3669a0f3ac5f242b4c628c5f22b3a6fc0ba40b419f4b058580805d137884031c240f4a1e3820508a40287479cee25ec9fc355050763d86aa8b472d0aea6f0c97af472e0ee93b57fd68112661cf1263f06bb88dafaab4c66a2 := by decide

theorem c10ob_r13c : keccakChi 0x2dc8bc86fd4ab9a84f9be1f836cc38a740f488c6fa34bdfd04911ab7d2fd4f1d5d5de413952cc12f440d0b4b7c49922bd63b73b9b932a082f97f839d22fc1ef506c29dc5a19febea7b2e84caf57a27182b7f95b63d231b865470444aad54ef9670230ae365baae244cae9bcc10b9d5f3669a0f3ac5f242b4c628c5f22b3a6fc0ba40b419f4b058580805d137884031c240f4a1e3820508a40287479cee25ec9fc355050763d86aa8b472d0aea6f0c97af472e0ee93b57fd68112661cf1263f06bb88dafaab4c66a2 = 0x2d48a622bf9bb7b81f8ea1e936e878a060b494c033363cf50b9a7b8fd6354f1f1d396453bd2c71cf40cd124e7ccc5ac9ed19f73938008592f97b8bdf66b50cdc00c2ede5389d4be8821386d2f71a330d235b05722d2a8ec510f04e426d84afa65b2c9b577599be2448fedfc498fd9461569b0f19a0f068b0865865912b3a6fe0bac7b61530b5d8474c2d90d5834a1642f2b485ebf6b540bc0a861788e665ddddc347210333fa73ac8cfa0a562ef4cd78b777e5efd2bd5d568112761cd566bf2ecfe85a18a9dd2672 := by decide

theorem c10ob_r13 : keccakRound keccak_rotc_std 0x1c69af8bde51385024ccf9561d6c82623d5b61baaec4ff543c599087d106566dd832655d68eabdbe209ed29b80e1e3deaf8c6789c27bdc114d18e25d1064f33797e41a24ac912a02e2c8899ede20ff063b3ecba430cd5e20f490a012457bd89411cf38840dc90f0e8a55e046891c47005fd355a47c8f34cee640e6d080528f110bf2dd8fae60932fc12ff444c755660556e4adc59e3ce92144ca113c2deb1b2a198e41d0af9c2e6fcb997bda7c8ad0e8796ade65a3a485ef0466b83b0cadd95da55b357826cb5454 13 = 0x2d48a622bf9bb7b81f8ea1e936e878a060b494c033363cf50b9a7b8fd6354f1f1d396453bd2c71cf40cd124e7ccc5ac9ed19f73938008592f97b8bdf66b50cdc00c2ede5389d4be8821386d2f71a330d235b05722d2a8ec510f04e426d84afa65b2c9b577599be2448fedfc498fd9461569b0f19a0f068b0865865912b3a6fe0bac7b61530b5d8474c2d90d5834a1642f2b485ebf6b540bc0a861788e665ddddc347210333fa73ac8cfa0a562ef4cd78b777e5efd2bd5d568112761cd566bf2e4fe85a18a9dd26f9 := by

  simp only [keccakRound, c10ob_r13t, c10ob_r13p, c10ob_r13c]

  decide

theorem c10ob_r14t : keccakTheta 0x2d48a622bf9bb7b81f8ea1e936e878a060b494c033363cf50b9a7b8fd6354f1f1d396453bd2c71cf40cd124e7ccc5ac9ed19f73938008592f97b8bdf66b50cdc00c2ede5389d4be8821386d2f71a330d235b05722d2a8ec510f04e426d84afa65b2c9b577599be2448fedfc498fd9461569b0f19a0f068b0865865912b3a6fe0bac7b61530b5d8474c2d90d5834a1642f2b485ebf6b540bc0a861788e665ddddc347210333fa73ac8cfa0a562ef4cd78b777e5efd2bd5d568112761cd566bf2e4fe85a18a9dd26f9 = 0xe0ad42e2884b52be31b4bb82aa7f4249f801673b9ceadca6f43639639090147b76f9e56de09dd03f8d28f68e4b1cbfcfc323ed52a497bf7b61ce7824c969ec8fff6eaf097e38108ce9d307ecaaab92fdeebee1b21afa6bc33eca5429f113954fc39968acda455e77b7529d28de58cf053d5b8e27fd41c9404bbd81511cea8ae694fdac7eac22e2aed498632e2c96f6110d18c707b0101bd8614696b6bbd47c2d0ea2c5c3042a96aaa2c0103db263f7912fc216147d61bd057ebe34f093c3e44a2428db26f46c8709 := by decide

theorem c10ob_r14p : keccakRhoPi keccak_rotc_std 0xe0ad42e2884b52be31b4bb82aa7f4249f801673b9ceadca6f43639639090147b76f9e56de09dd03f8d28f68e4b1cbfcfc323ed52a497bf7b61ce7824c969ec8fff6eaf097e38108ce9d307ecaaab92fdeebee1b21afa6bc33eca5429f113954fc39968acda455e77b7529d28de58cf053d5b8e27fd41c9404bbd81511cea8ae694fdac7eac22e2aed498632e2c96f6110d18c707b0101bd8614696b6bbd47c2d0ea2c5c3042a96aaa2c0103db263f7912fc216147d61bd057ebe34f093c3e44a2428db26f46c8709 = 0xd0d8e58e424051ef5725fbd3a60fd9557d35e1f75f70d90d574a7ed63f5611714bf085851f586f414931b4bb82aa7f423c1264b4f647b0e74a74a379633c16ddbd47c2d614696b6b182154b55075162e95b7827740fddbe728f68e4b1cbfcf8d53e2272a9e7d94a82618cb8b25bd8475fd7c69e12787c894df002ce7739d5b9402119fedd5e12fc7eadc713fea0e4a011511cea8ae64bbd8db263f791a2c010350b8a212d4afb82baa5492f7ef78647d2af3be1ccb4566d201bd80d18c707b012428db26f46c8709 := by decide

theorem c10ob_r14c : keccakChi 0xd0d8e58e424051ef5725fbd3a60fd9557d35e1f75f70d90d574a7ed63f5611714bf085851f586f414931b4bb82aa7f423c1264b4f647b0e74a74a379633c16ddbd47c2d614696b6b182154b55075162e95b7827740fddbe728f68e4b1cbfcf8d53e2272a9e7d94a82618cb8b25bd8475fd7c69e12787c894df002ce7739d5b9402119fedd5e12fc7eadc713fea0e4a011511cea8ae64bbd8db263f791a2c010350b8a212d4afb82baa5492f7ef78647d2af3be1ccb4566d201bd80d18c707b012428db26f46c8709 = 0xc4d29fdc624641df5c05fbd2bb17f755fdede5fb1f30d9a7554a64d69f59112163c504a45f78a74dec7736f986a216032c1224b0a612b0cb0b553372639459dd89458652802acb495a11759c336102ba97b7007d40c5df8640bee7cb3bbdcf9dc6e3271ede3d84ca0e0c43ca253fcf70ac9e4dc1bdc7d81cdb11ec67d7dde14c02378cf5ddc12fc437dc513dc8121a1115104068bb859e1e31ea0e6e5a264102512da2c3dcbfc02b8e54cbd3cf38637d7a5b9e1cdbc2fed081b98032a8487b2c0e6ae52ab76983db := by decide

theorem c10ob_r14 : keccakRound keccak_rotc_std 0x2d48a622bf9bb7b81f8ea1e936e878a060b494c033363cf50b9a7b8fd6354f1f1d396453bd2c71cf40cd124e7ccc5ac9ed19f73938008592f97b8bdf66b50cdc00c2ede5389d4be8821386d2f71a330d235b05722d2a8ec510f04e426d84afa65b2c9b577599be2448fedfc498fd9461569b0f19a0f068b0865865912b3a6fe0bac7b61530b5d8474c2d90d5834a1642f2b485ebf6b540bc0a861788e665ddddc347210333fa73ac8cfa0a562ef4cd78b777e5efd2bd5d568112761cd566bf2e4fe85a18a9dd26f9 14 = 0xc4d29fdc624641df5c05fbd2bb17f755fdede5fb1f30d9a7554a64d69f59112163c504a45f78a74dec7736f986a216032c1224b0a612b0cb0b553372639459dd89458652802acb495a11759c336102ba97b7007d40c5df8640bee7cb3bbdcf9dc6e3271ede3d84ca0e0c43ca253fcf70ac9e4dc1bdc7d81cdb11ec67d7dde14c02378cf5ddc12fc437dc513dc8121a1115104068bb859e1e31ea0e6e5a264102512da2c3dcbfc02b8e54cbd3cf38637d7a5b9e1cdbc2fed081b98032a8487b2c8e6ae52ab7690352 := by

  simp only [keccakRound, c10ob_r14t, c10ob_r14p, c10ob_r14c]

  decide

theorem c10ob_r15t : keccakTheta 0xc4d29fdc624641df5c05fbd2bb17f755fdede5fb1f30d9a7554a64d69f59112163c504a45f78a74dec7736f986a216032c1224b0a612b0cb0b553372639459dd89458652802acb495a11759c336102ba97b7007d40c5df8640bee7cb3bbdcf9dc6e3271ede3d84ca0e0c43ca253fcf70ac9e4dc1bdc7d81cdb11ec67d7dde14c02378cf5ddc12fc437dc513dc8121a1115104068bb859e1e31ea0e6e5a264102512da2c3dcbfc02b8e54cbd3cf38637d7a5b9e1cdbc2fed081b98032a8487b2c8e6ae52ab7690352 = 0x2d8d4f292f25fa134b840a9d54d9455ec2d37bf15e32a0f88438ce06c15bee78dbbf2170a338ee240528e60ccbc1adcf3b93d5ff49dc02c0346bad782296208258372c82de283410e26b5048cf214bd37ee8d0880da6644a573f1684d4737d96f9ddb9149f3ffd95df7ee91a7b3d302914e4681541879175324e3c929abe5a8015b67dba320f9dcf08e2cf378910634ec462eab8e587614789902bbaa666086bb872723691dc7be799d53a9c20f6d176456500169ac0878f50cb2ae2f64a84753610c0fe4b294a3b := by decide

theorem c10ob_r15p : keccakRhoPi keccak_rotc_std 0x2d8d4f292f25fa134b840a9d54d9455ec2d37bf15e32a0f88438ce06c15bee78dbbf2170a338ee240528e60ccbc1adcf3b93d5ff49dc02c0346bad782296208258372c82de283410e26b5048cf214bd37ee8d0880da6644a573f1684d4737d96f9ddb9149f3ffd95df7ee91a7b3d302914e4681541879175324e3c929abe5a8015b67dba320f9dcf08e2cf378910634ec462eab8e587614789902bbaa666086bb872723691dc7be799d53a9c20f6d176456500169ac0878f50cb2ae2f64a84753610c0fe4b294a3b = 0x10e3381b056fb9e24297a7c4d6a0919ed332253f74684406e78adb3edd1907ced1594005a6b021e35e4b840a9d54d945d6bc114b10411a35fba469ecf4c0a77d666086b89902bbaab48ee3df3dc3939185c28ce3b8936efc28e60ccbc1adcf0509a8e6fb2cae7e2d38b3cde24418d382a19655c5ec9508ea185a6f7e2bc6541f06820b06e5905bc5a72340aa0c3c8ba8c929abe5a80324e3c20f6d17699d53a953ca4bc97e84cb63bfe93b805807727affecafceedc8a4f976147c462eab8e583610c0fe4b294a3b := by decide

theorem c10ob_r15c : keccakChi 0x10e3381b056fb9e24297a7c4d6a0919ed332253f74684406e78adb3edd1907ced1594005a6b021e35e4b840a9d54d945d6bc114b10411a35fba469ecf4c0a77d666086b89902bbaab48ee3df3dc3939185c28ce3b8936efc28e60ccbc1adcf0509a8e6fb2cae7e2d38b3cde24418d382a19655c5ec9508ea185a6f7e2bc6541f06820b06e5905bc5a72340aa0c3c8ba8c929abe5a80324e3c20f6d17699d53a953ca4bc97e84cb63bfe93b805807727affecafceedc8a4f976147c462eab8e583610c0fe4b294a3b = 0x3661a3215c66bfee838fe7c07430919fc3523d2475276c66e70f59fe5f999656c169640486d061e31c2b802a1d54f16f7638729e30c218a5f3e7edec79d4663d627896bb9903a3aa2d0a8a9b590397c49de304c1b89bbdfc08f25dcf85a9cf078ca866db14bc5ed518f5c5e285195282a09e77dcc43324c7117aed9eabc4705dc4870b07a5895865bf7b24d2067a8fb2c9a9a0e1498374a6e40d2d1d6da1d8a113ce77c95a064f239bf9bbb6592e7262bfeeef87cb482df876156c463eacdc5abff843768a696a9a := by decide

theorem c10ob_r15 : keccakRound keccak_rotc_std 0xc4d29fdc624641df5c05fbd2bb17f755fdede5fb1f30d9a7554a64d69f59112163c504a45f78a74dec7736f986a216032c1224b0a612b0cb0b553372639459dd89458652802acb495a11759c336102ba97b7007d40c5df8640bee7cb3bbdcf9dc6e3271ede3d84ca0e0c43ca253fcf70ac9e4dc1bdc7d81cdb11ec67d7dde14c02378cf5ddc12fc437dc513dc8121a1115104068bb859e1e31ea0e6e5a264102512da2c3dcbfc02b8e54cbd3cf38637d7a5b9e1cdbc2fed081b98032a8487b2c8e6ae52ab7690352 15 = 0x3661a3215c66bfee838fe7c07430919fc3523d2475276c66e70f59fe5f999656c169640486d061e31c2b802a1d54f16f7638729e30c218a5f3e7edec79d4663d627896bb9903a3aa2d0a8a9b590397c49de304c1b89bbdfc08f25dcf85a9cf078ca866db14bc5ed518f5c5e285195282a09e77dcc43324c7117aed9eabc4705dc4870b07a5895865bf7b24d2067a8fb2c9a9a0e1498374a6e40d2d1d6da1d8a113ce77c95a064f239bf9bbb6592e7262bfeeef87cb482df876156c463eacdc5a3ff843768a69ea99 := by

  simp only [keccakRound, c10ob_r15t, c10ob_r15p, c10ob_r15c]

  decide

theorem c10ob_r16t : keccakTheta 0x3661a3215c66bfee838fe7c07430919fc3523d2475276c66e70f59fe5f999656c169640486d061e31c2b802a1d54f16f7638729e30c218a5f3e7edec79d4663d627896bb9903a3aa2d0a8a9b590397c49de304c1b89bbdfc08f25dcf85a9cf078ca866db14bc5ed518f5c5e285195282a09e77dcc43324c7117aed9eabc4705dc4870b07a5895865bf7b24d2067a8fb2c9a9a0e1498374a6e40d2d1d6da1d8a113ce77c95a064f239bf9bbb6592e7262bfeeef87cb482df876156c463eacdc5a3ff843768a69ea99 = 0xba4b355099cb1265553ce1bcb19aff5ca51a0b643a737b910917545b094a9b0730095599e7e232e49001165bd8f95ce4a08b74e2f568766695afdbac368071ca8c609b1ecfd0aefbdc6abb063831c4c311c992b07d361077de415bb34003a1c4eae0509b5be84922f6edc847d3ca5fd351fe4641a50177c09d507bef6e69ddd612340d7b602336a6d9331292492e984527b1ad441f5079f7156d1c800c938ba69fe4e1b89fabe2a84d4abdca9c841ca1d9a6d9c7841c3a0f980d61e3687fd10bce9872ebeb5bb99e := by decide

theorem c10ob_r16p : keccakRhoPi keccak_rotc_std 0xba4b355099cb1265553ce1bcb19aff5ca51a0b643a737b910917545b094a9b0730095599e7e232e49001165bd8f95ce4a08b74e2f568766695afdbac368071ca8c609b1ecfd0aefbdc6abb063831c4c311c992b07d361077de415bb34003a1c4eae0509b5be84922f6edc847d3ca5fd351fe4641a50177c09d507bef6e69ddd612340d7b602336a6d9331292492e984527b1ad441f5079f7156d1c800c938ba69fe4e1b89fabe2a84d4abdca9c841ca1d9a6d9c7841c3a0f980d61e3687fd10bce9872ebeb5bb99e = 0x245d516c252a6c1c638987b8d5760c709b083b88e4c9583e53091a06bdb0119bf669b671e1070e835c553ce1bcb19affedd61b4038e54ad7b7211f4f297f4fdbc938ba6156d1c800c4fd5f1544ff270d56679f88cb90c02501165bd8f95ce4906680074389bc82b74cc4a4924ba61176301ac3c6d0ffa21734a3416c874e6f7215df718c1363d9fa8ff2320d280bbe02bef6e69ddd69d507a9c841ca14d4abdccd542672c4996e929c5ead0eccd4116e424917570284dadf079f727b1ad441f5ce9872ebeb5bb99e := by decide

theorem c10ob_r16c : keccakChi 0x245d516c252a6c1c638987b8d5760c709b083b88e4c9583e53091a06bdb0119bf669b671e1070e835c553ce1bcb19affedd61b4038e54ad7b7211f4f297f4fdbc938ba6156d1c800c4fd5f1544ff270d56679f88cb90c02501165bd8f95ce4906680074389bc82b74cc4a4924ba61176301ac3c6d0ffa21734a3416c874e6f7215df718c1363d9fa8ff2320d280bbe02bef6e69ddd69d507a9c841ca14d4abdccd542672c4996e929c5ead0eccd4116e424917570284dadf079f727b1ad441f5ce9872ebeb5bb99e = 0x255d596a399a7d04b1a921a915730ef39f5c6bccc4c1383233889e36ac8615db7e6997f9a14e46a755559c81aeb152ff6d7e585478ab6fd7a7203beead6fdff381eeba614651c804f2fc5a1b6dd120d61aa3bb98c090d145210e1b9ee933c68230e183438b3c82924dd2fc0a3be67576121ac08750e720962295e7794e673b719c97710e03f35976afd2326dac079802aefba71dce0994ffa8c851ca34d681dccc532662d41d2ef39ed6fd87e796806203491527028db44f9b89da73d68440d58ed877efeb5b2394 := by decide

theorem c10ob_r16 : keccakRound keccak_rotc_std 0x3661a3215c66bfee838fe7c07430919fc3523d2475276c66e70f59fe5f999656c169640486d061e31c2b802a1d54f16f7638729e30c218a5f3e7edec79d4663d627896bb9903a3aa2d0a8a9b590397c49de304c1b89bbdfc08f25dcf85a9cf078ca866db14bc5ed518f5c5e285195282a09e77dcc43324c7117aed9eabc4705dc4870b07a5895865bf7b24d2067a8fb2c9a9a0e1498374a6e40d2d1d6da1d8a113ce77c95a064f239bf9bbb6592e7262bfeeef87cb482df876156c463eacdc5a3ff843768a69ea99 16 = 0x255d596a399a7d04b1a921a915730ef39f5c6bccc4c1383233889e36ac8615db7e6997f9a14e46a755559c81aeb152ff6d7e585478ab6fd7a7203beead6fdff381eeba614651c804f2fc5a1b6dd120d61aa3bb98c090d145210e1b9ee933c68230e183438b3c82924dd2fc0a3be67576121ac08750e720962295e7794e673b719c97710e03f35976afd2326dac079802aefba71dce0994ffa8c851ca34d681dccc532662d41d2ef39ed6fd87e796806203491527028db44f9b89da73d68440d50ed877efeb5ba396 := by

  simp only [keccakRound, c10ob_r16t, c10ob_r16p, c10ob_r16c]

  decide

theorem c10ob_r17t : keccakTheta 0x255d596a399a7d04b1a921a915730ef39f5c6bccc4c1383233889e36ac8615db7e6997f9a14e46a755559c81aeb152ff6d7e585478ab6fd7a7203beead6fdff381eeba614651c804f2fc5a1b6dd120d61aa3bb98c090d145210e1b9ee933c68230e183438b3c82924dd2fc0a3be67576121ac08750e720962295e7794e673b719c97710e03f35976afd2326dac079802aefba71dce0994ffa8c851ca34d681dccc532662d41d2ef39ed6fd87e796806203491527028db44f9b89da73d68440d50ed877efeb5ba396 = 0xabfbe100defecaec1d74ab53c2e89194aaab132bcc61b9d4431a5d207743e34b6f8962f6fff7549cdbf324eb49d5e517c1a3d2aeaf30f0b092d74309a5cf5e15f17c79779d943e94e31caf14336832ed940503f227f466ad8dd391643ea859e50516fba4839c03743d403f1ce02383e603fa35880e5e32adac335f13a9038c99304afbf4d468c6119a254a8aa4a719e4de69640b15cc626fb928a4c56a6f93e742f59e083379991b320b777d300d1f0536be6dc00a2d35a9eb1b19650d41b6451f3882e0b5e2b1ad := by decide

theorem c10ob_r17p : keccakRhoPi keccak_rotc_std 0xabfbe100defecaec1d74ab53c2e89194aaab132bcc61b9d4431a5d207743e34b6f8962f6fff7549cdbf324eb49d5e517c1a3d2aeaf30f0b092d74309a5cf5e15f17c79779d943e94e31caf14336832ed940503f227f466ad8dd391643ea859e50516fba4839c03743d403f1ce02383e603fa35880e5e32adac335f13a9038c99304afbf4d468c6119a254a8aa4a719e4de69640b15cc626fb928a4c56a6f93e742f59e083379991b320b777d300d1f0536be6dc00a2d35a9eb1b19650d41b6451f3882e0b5e2b1ad = 0xc697481dd0f8d2dd065dbc6395e2866fa3356ca0281f9130898257dfa6a34634daf9b70028b4d6a941d74ab53c2e891a184d2e7af0ac96b00fc73808e0f98f5a6f93e7b928a4c56419bccc8da17acf08bdbffdd5271be25f324eb49d5e517dbc87d50b3cb1ba7228952a2a929c67926d63632ca1a836c8b95556265798c373a87d29e2f8f2ef3b21fd1ac4072f19568f13a9038c99ac335d300d1f05320b777f84037bfb2bb2afe55d5e61e1618347ae01ba028b7dd241cc626fde69640b15c1f3882e0b5e2b1ad := by decide

theorem c10ob_r17c : keccakChi 0xc697481dd0f8d2dd065dbc6395e2866fa3356ca0281f9130898257dfa6a34634daf9b70028b4d6a941d74ab53c2e891a184d2e7af0ac96b00fc73808e0f98f5a6f93e7b928a4c56419bccc8da17acf08bdbffdd5271be25f324eb49d5e517dbc87d50b3cb1ba7228952a2a929c67926d63632ca1a836c8b95556265798c373a87d29e2f8f2ef3b21fd1ac4072f19568f13a9038c99ac335d300d1f05320b777f84037bfb2bb2afe55d5e61e1618347ae01ba028b7dd241cc626fde69640b15c1f3882e0b5e2b1ad = 0xc79508c256fbd2c91e350b63bde6824f63b72cbc6807c1a08dcac79c3343407bf8cc9f2020a847a327d4698534aa897e0065aa7271fcd0b14e55788decfb86507f9be1cb38a0d5c419f8d48d6123c51829b7ffc7335af01a700eb4bdd675751c0a64427c90b0f06ba5209e13d2269ff961b62d8d89aea8bb56f626df116773ac5d20fbf8d0e73f70fd4cc0002719160713882174494a1a7ddc1fdb06141a33f38464ab9b0bb2aae52ed665e1358a57b481bb189177e2e98d3e2bbf09640a13e3f2182e8947fb5ad := by decide

theorem c10ob_r17 : keccakRound keccak_rotc_std 0x255d596a399a7d04b1a921a915730ef39f5c6bccc4c1383233889e36ac8615db7e6997f9a14e46a755559c81aeb152ff6d7e585478ab6fd7a7203beead6fdff381eeba614651c804f2fc5a1b6dd120d61aa3bb98c090d145210e1b9ee933c68230e183438b3c82924dd2fc0a3be67576121ac08750e720962295e7794e673b719c97710e03f35976afd2326dac079802aefba71dce0994ffa8c851ca34d681dccc532662d41d2ef39ed6fd87e796806203491527028db44f9b89da73d68440d50ed877efeb5ba396 17 = 0xc79508c256fbd2c91e350b63bde6824f63b72cbc6807c1a08dcac79c3343407bf8cc9f2020a847a327d4698534aa897e0065aa7271fcd0b14e55788decfb86507f9be1cb38a0d5c419f8d48d6123c51829b7ffc7335af01a700eb4bdd675751c0a64427c90b0f06ba5209e13d2269ff961b62d8d89aea8bb56f626df116773ac5d20fbf8d0e73f70fd4cc0002719160713882174494a1a7ddc1fdb06141a33f38464ab9b0bb2aae52ed665e1358a57b481bb189177e2e98d3e2bbf09640a13ebf2182e8947fb52d := by

  simp only [keccakRound, c10ob_r17t, c10ob_r17p, c10ob_r17c]

  decide

theorem c10ob_r18t : keccakTheta 0xc79508c256fbd2c91e350b63bde6824f63b72cbc6807c1a08dcac79c3343407bf8cc9f2020a847a327d4698534aa897e0065aa7271fcd0b14e55788decfb86507f9be1cb38a0d5c419f8d48d6123c51829b7ffc7335af01a700eb4bdd675751c0a64427c90b0f06ba5209e13d2269ff961b62d8d89aea8bb56f626df116773ac5d20fbf8d0e73f70fd4cc0002719160713882174494a1a7ddc1fdb06141a33f38464ab9b0bb2aae52ed665e1358a57b481bb189177e2e98d3e2bbf09640a13ebf2182e8947fb52d = 0x58736a4289e710ba9738ce2376eed2f9622341dee62865c3c95acc98b21e99b7a160cc097827c32e66777c56ffc20501e6ddc4326a2f77d680fd649dfe67a1bcc67fdefdc2a0a0ec5f7388b3ac3f7b05d6914532dfbd0297a1db75de9057ed8c54be7732e9a316df7bd469004c08c44f88f76723a2b7addfe16558a35d9edaacc309912ac03ec92a9bccff1522d988b9b0bee2f635be0c17c32df84b1b6ce46b6c4c70771c3387385436f8cb5e681fa6dc03829c37d637411264db11e76a0c8ea1cd8713ee52f279 := by decide

theorem c10ob_r18p : keccakRhoPi keccak_rotc_std 0x58736a4289e710ba9738ce2376eed2f9622341dee62865c3c95acc98b21e99b7a160cc097827c32e66777c56ffc20501e6ddc4326a2f77d680fd649dfe67a1bcc67fdefdc2a0a0ec5f7388b3ac3f7b05d6914532dfbd0297a1db75de9057ed8c54be7732e9a316df7bd469004c08c44f88f76723a2b7addfe16558a35d9edaacc309912ac03ec92a9bccff1522d988b9b0bee2f635be0c17c32df84b1b6ce46b6c4c70771c3387385436f8cb5e681fa6dc03829c37d637411264db11e76a0c8ea1cd8713ee52f279 = 0x256b3262c87a66df7ef60abee7116758de814beb48a2996f956184c895601f647700e0a70df58dd0f99738ce2376eed2b24eff33d0de407e51a4013023113defb6ce46bc32df84b1b8e19c39c36263833025e09f0cba8583777c56ffc2050166bd20afdb1943b6ebf33fc548b6622e6624c9b623ced4191c6c44683bdcc50cb8141d98cffbdfb85447bb391d15bd6efc8a35d9edaace1655b5e681fa65436f8cda90a279c42e961c864d45eefadcdbb818b6faa5f3b9974de0c17b0bee2f635ba1cd8713ee52f279 := by decide

theorem c10ob_r18c : keccakChi 0x256b3262c87a66df7ef60abee7116758de814beb48a2996f956184c895601f647700e0a70df58dd0f99738ce2376eed2b24eff33d0de407e51a4013023113defb6ce46bc32df84b1b8e19c39c36263833025e09f0cba8583777c56ffc2050166bd20afdb1943b6ebf33fc548b6622e6624c9b623ced4191c6c44683bdcc50cb8141d98cffbdfb85447bb391d15bd6efc8a35d9edaace1655b5e681fa65436f8cda90a279c42e961c864d45eefadcdbb818b6faa5f3b9974de0c17b0bee2f635ba1cd8713ee52f279 = 0xa50a362a587a74fb2cf6ca3be294ee58df887bab40c899e8b51784dc327179743d80ab8445770ddbff997a4a13eb6ae2b22e7b0210de417f183501fc0031936f1484b8bfe211c4a1f9c19d39c2625acde313a1d73c98a3e173b440df0041197abd210fdb15f9326ab163956c74662f6228c99cb0c7d589956655303e56491ce985bf190fdadddb502ffb592d11bd6a549a31592f408c8655f06ca1ea707207249a90da71c403971ea70040ecd08cbbd9402658b4f79b934966887e41e66b2bebb9fb07b7ffc2667d := by decide

theorem c10ob_r18 : keccakRound keccak_rotc_std 0xc79508c256fbd2c91e350b63bde6824f63b72cbc6807c1a08dcac79c3343407bf8cc9f2020a847a327d4698534aa897e0065aa7271fcd0b14e55788decfb86507f9be1cb38a0d5c419f8d48d6123c51829b7ffc7335af01a700eb4bdd675751c0a64427c90b0f06ba5209e13d2269ff961b62d8d89aea8bb56f626df116773ac5d20fbf8d0e73f70fd4cc0002719160713882174494a1a7ddc1fdb06141a33f38464ab9b0bb2aae52ed665e1358a57b481bb189177e2e98d3e2bbf09640a13ebf2182e8947fb52d 18 = 0xa50a362a587a74fb2cf6ca3be294ee58df887bab40c899e8b51784dc327179743d80ab8445770ddbff997a4a13eb6ae2b22e7b0210de417f183501fc0031936f1484b8bfe211c4a1f9c19d39c2625acde313a1d73c98a3e173b440df0041197abd210fdb15f9326ab163956c74662f6228c99cb0c7d589956655303e56491ce985bf190fdadddb502ffb592d11bd6a549a31592f408c8655f06ca1ea707207249a90da71c403971ea70040ecd08cbbd9402658b4f79b934966887e41e66b2bebb9fb07b7ffc2e677 := by

  simp only [keccakRound, c10ob_r18t, c10ob_r18p, c10ob_r18c]

  decide

theorem c10ob_r19t : keccakTheta 0xa50a362a587a74fb2cf6ca3be294ee58df887bab40c899e8b51784dc327179743d80ab8445770ddbff997a4a13eb6ae2b22e7b0210de417f183501fc0031936f1484b8bfe211c4a1f9c19d39c2625acde313a1d73c98a3e173b440df0041197abd210fdb15f9326ab163956c74662f6228c99cb0c7d589956655303e56491ce985bf190fdadddb502ffb592d11bd6a549a31592f408c8655f06ca1ea707207249a90da71c403971ea70040ecd08cbbd9402658b4f79b934966887e41e66b2bebb9fb07b7ffc2e677 = 0x20e7868e3ec0dd8eb33db1df9b3443b6ac66a5c1b29c0b483a8a60a79b4cc544a056b0bea5f645c77a74caee7551c3972de500e6697eec916bdbdf96f26501cf9b195cc44b2c78916417860322e312d166fe11735a220a94ec7f3b3b79e1b494cecfd1b1e7ada0ca3efe7117dd5b9352b51f878a2754c189e3b8809a30f3b59c1a7462eba37d76be5c158747e3e9f8f415acbd54e9b13a656dbabad090f34f381f7d6ad5a2b93e6b38cb3b08a92c163733c886de05cf01e9e9159a3a4f5697db242d1c8d1f43ae6b := by decide

theorem c10ob_r19p : keccakRhoPi keccak_rotc_std 0x20e7868e3ec0dd8eb33db1df9b3443b6ac66a5c1b29c0b483a8a60a79b4cc544a056b0bea5f645c77a74caee7551c3972de500e6697eec916bdbdf96f26501cf9b195cc44b2c78916417860322e312d166fe11735a220a94ec7f3b3b79e1b494cecfd1b1e7ada0ca3efe7117dd5b9352b51f878a2754c189e3b8809a30f3b59c1a7462eba37d76be5c158747e3e9f8f415acbd54e9b13a656dbabad090f34f381f7d6ad5a2b93e6b38cb3b08a92c163733c886de05cf01e9e9159a3a4f5697db242d1c8d1f43ae6b = 0xea29829e6d331510c625a2c82f0c064511054a337f08b9ad5f0d3a3175d1bebb4cf221b78173c07ab6b33db1df9b3443efcb793280e7b5edf9c45f756e4d48fb0f34f386dbabad09ad15c9f358fbeb56c2fa97d9171e815a74caee7551c3977a76f3c36929d8fe760561d1f8fa7e3d17d22b34749ead2fb7158cd4b8365381698f1233632b988965a8fc3c513aa60c4d09a30f3b59ce3b888a92c163738cb3b0e1a38fb0376388391ccd2fdd9225bca06d0656767e8d8f3d13a6515acbd54e9b242d1c8d1f43ae6b := by decide

theorem c10ob_r19c : keccakChi 0xea29829e6d331510c625a2c82f0c064511054a337f08b9ad5f0d3a3175d1bebb4cf221b78173c07ab6b33db1df9b3443efcb793280e7b5edf9c45f756e4d48fb0f34f386dbabad09ad15c9f358fbeb56c2fa97d9171e815a74caee7551c3977a76f3c36929d8fe760561d1f8fa7e3d17d22b34749ead2fb7158cd4b8365381698f1233632b988965a8fc3c513aa60c4d09a30f3b59ce3b888a92c163738cb3b0e1a38fb0376388391ccd2fdd9225bca06d0656767e8d8f3d13a6515acbd54e9b242d1c8d1f43ae6b = 0xf924989e19b32b91c2f783e9af4cc62f390d4a253f3ba8bd992d9af975d5b8fb4cf261b58b7bc17eb4930fb55c9b304ae6cfb97080877ef9e9f45bf4315548f9093fd3845b09180d5dd5c5827cbfaba4c7ba5651774c915a64cbce51d962b9dff4c3d2e12fc4fe760569fdecaa7d3c1fa0b936759f2dedd714addaa03e118961050032206a14bbf5b870f8c92ee50c450ea10c1958d6baa82acef12351acb7f5f221cee2f7f7c8a918c13fd09a259ae28c24d6565bcf8f24036f78d34bf57e1b482d1aa92b4b2f4f := by decide

theorem c10ob_r19 : keccakRound keccak_rotc_std 0xa50a362a587a74fb2cf6ca3be294ee58df887bab40c899e8b51784dc327179743d80ab8445770ddbff997a4a13eb6ae2b22e7b0210de417f183501fc0031936f1484b8bfe211c4a1f9c19d39c2625acde313a1d73c98a3e173b440df0041197abd210fdb15f9326ab163956c74662f6228c99cb0c7d589956655303e56491ce985bf190fdadddb502ffb592d11bd6a549a31592f408c8655f06ca1ea707207249a90da71c403971ea70040ecd08cbbd9402658b4f79b934966887e41e66b2bebb9fb07b7ffc2e677 19 = 0xf924989e19b32b91c2f783e9af4cc62f390d4a253f3ba8bd992d9af975d5b8fb4cf261b58b7bc17eb4930fb55c9b304ae6cfb97080877ef9e9f45bf4315548f9093fd3845b09180d5dd5c5827cbfaba4c7ba5651774c915a64cbce51d962b9dff4c3d2e12fc4fe760569fdecaa7d3c1fa0b936759f2dedd714addaa03e118961050032206a14bbf5b870f8c92ee50c450ea10c1958d6baa82acef12351acb7f5f221cee2f7f7c8a918c13fd09a259ae28c24d6565bcf8f24036f78d34bf57e1bc82d1aa9ab4b2f45 := by

  simp only [keccakRound, c10ob_r19t, c10ob_r19p, c10ob_r19c]

  decide

theorem c10ob_r20t : keccakTheta 0xf924989e19b32b91c2f783e9af4cc62f390d4a253f3ba8bd992d9af975d5b8fb4cf261b58b7bc17eb4930fb55c9b304ae6cfb97080877ef9e9f45bf4315548f9093fd3845b09180d5dd5c5827cbfaba4c7ba5651774c915a64cbce51d962b9dff4c3d2e12fc4fe760569fdecaa7d3c1fa0b936759f2dedd714addaa03e118961050032206a14bbf5b870f8c92ee50c450ea10c1958d6baa82acef12351acb7f5f221cee2f7f7c8a918c13fd09a259ae28c24d6565bcf8f24036f78d34bf57e1bc82d1aa9ab4b2f45 = 0x2ec92373b3734f50b9ac4370cc9cdee1bdd780ea589b0dbea8d386f4eda9de01118343a5ffdba824f5b051c7e1f2f2e2fa2feae23027538cb2469dfabe7509f7a9f711260063d16003f900da839d0583c725cf855c88e3eada6898f7ae7b21ed613e0cab576e61076c95f7a91721904fd5363fa4bab962bef65d0091c959605cc6d75fec991b0349aa0cae2b45714237d01ae8f63d99fb37724a4ac852acc0909e9c44bd573d7cdd1ac780e39a09123aef4e47dc17d974270cfda4570fa5b0095c74f267fcd54b9 := by decide

theorem c10ob_r20p : keccakRhoPi keccak_rotc_std 0x2ec92373b3734f50b9ac4370cc9cdee1bdd780ea589b0dbea8d386f4eda9de01118343a5ffdba824f5b051c7e1f2f2e2fa2feae23027538cb2469dfabe7509f7a9f711260063d16003f900da839d0583c725cf855c88e3eada6898f7ae7b21ed613e0cab576e61076c95f7a91721904fd5363fa4bab962bef65d0091c959605cc6d75fec991b0349aa0cae2b45714237d01ae8f63d99fb37724a4ac852acc0909e9c44bd573d7cdd1ac780e39a09123aef4e47dc17d974270cfda4570fa5b0095c74f267fcd54b9 = 0xaa34e1bd3b6a778373a0b0007f201b50e4471f1e392e7c2a1a6636baff64c8d8abbd391f705f65d0ee0b9ac4370cc9cd34efd5f3a84fe592257dea45c86411db52acc097724a4ac85eab9ebe684f4e22d0e97ff6ea0844605b051c7e1f2f2e4f1ef5cf643d5b4d13a832b8ad15c508e6e19fb48ae1f4b600637baf01d4b1361bc7a2cf53ee224c00ea9b1fd25d5cb15f0091c959605ef65de39a09123d1ac780248dcecdcd3d40bbd5c4604ea705f45fb73086b09f0655ab99fb37d01ae8f63d95c74f267fcd54b9 := by decide

theorem c10ob_r20c : keccakChi 0xaa34e1bd3b6a778373a0b0007f201b50e4471f1e392e7c2a1a6636baff64c8d8abbd391f705f65d0ee0b9ac4370cc9cd34efd5f3a84fe592257dea45c86411db52acc097724a4ac85eab9ebe684f4e22d0e97ff6ea0844605b051c7e1f2f2e4f1ef5cf643d5b4d13a832b8ad15c508e6e19fb48ae1f4b600637baf01d4b1361bc7a2cf53ee224c00ea9b1fd25d5cb15f0091c959605ef65de39a09123d1ac780248dcecdcd3d40bbd5c4604ea705f45fb73086b09f0655ab99fb37d01ae8f63d95c74f267fcd54b9 = 0xba76e71db44aff8b7229a8023f351b006c535ea3396418a909c696bab964cb884fbc301b705551f2ee0fdac5250cc905244fd1c9e00ce3b0ef7de041df641996422ed5255241aec87bfab4fee06b5f31d8c977d3fe094c867a139c761edb9c4f9e1dace4dd5b0d33e932a8b717e12aaaf75af3cac9eef311637a6f4894f506464722cf41c7288d80cac23fd24dcd834405b10958c27cba5d09901f90201ac6822cb5fe1dcd1de2bf4486616c95c5e05f97390831d73e550bd93f579e3ae95669b3c7cf06facb553b := by decide

theorem c10ob_r20 : keccakRound keccak_rotc_std 0xf924989e19b32b91c2f783e9af4cc62f390d4a253f3ba8bd992d9af975d5b8fb4cf261b58b7bc17eb4930fb55c9b304ae6cfb97080877ef9e9f45bf4315548f9093fd3845b09180d5dd5c5827cbfaba4c7ba5651774c915a64cbce51d962b9dff4c3d2e12fc4fe760569fdecaa7d3c1fa0b936759f2dedd714addaa03e118961050032206a14bbf5b870f8c92ee50c450ea10c1958d6baa82acef12351acb7f5f221cee2f7f7c8a918c13fd09a259ae28c24d6565bcf8f24036f78d34bf57e1bc82d1aa9ab4b2f45 20 = 0xba76e71db44aff8b7229a8023f351b006c535ea3396418a909c696bab964cb884fbc301b705551f2ee0fdac5250cc905244fd1c9e00ce3b0ef7de041df641996422ed5255241aec87bfab4fee06b5f31d8c977d3fe094c867a139c761edb9c4f9e1dace4dd5b0d33e932a8b717e12aaaf75af3cac9eef311637a6f4894f506464722cf41c7288d80cac23fd24dcd834405b10958c27cba5d09901f90201ac6822cb5fe1dcd1de2bf4486616c95c5e05f97390831d73e550bd93f579e3ae9566933c7cf067acbd5ba := by

  simp only [keccakRound, c10ob_r20t, c10ob_r20p, c10ob_r20c]

  decide

theorem c10ob_r21t : keccakTheta 0xba76e71db44aff8b7229a8023f351b006c535ea3396418a909c696bab964cb884fbc301b705551f2ee0fdac5250cc905244fd1c9e00ce3b0ef7de041df641996422ed5255241aec87bfab4fee06b5f31d8c977d3fe094c867a139c761edb9c4f9e1dace4dd5b0d33e932a8b717e12aaaf75af3cac9eef311637a6f4894f506464722cf41c7288d80cac23fd24dcd834405b10958c27cba5d09901f90201ac6822cb5fe1dcd1de2bf4486616c95c5e05f97390831d73e550bd93f579e3ae9566933c7cf067acbd5ba = 0x6730e3ff21462b7eb41e3b5bf3d2fca04da57c6c1b2ba937711d7ac8f93491e4706a80994e5188bf3349de27b0001df0e27842902ceb0410ce8bc28efd2ba8083af539571211f4a4442c047cde6f867c058f73316b059873bc240f2fd23c7befbfeb8e2bff14bcad91e944c557b170c6c88c4348f7ea2a5cbe3c6baa01f9d2b381155c180bcf6a20eb341d1d6f8232da7d6ae52a822ce0313646af121e1e1fcff1f3faff5811364a82b1f235592207ffb6cf2afef571e495a1e4bbec7ab90c050c117f8444cf0cf7 := by decide

theorem c10ob_r21p : keccakRhoPi keccak_rotc_std 0x6730e3ff21462b7eb41e3b5bf3d2fca04da57c6c1b2ba937711d7ac8f93491e4706a80994e5188bf3349de27b0001df0e27842902ceb0410ce8bc28efd2ba8083af539571211f4a4442c047cde6f867c058f73316b059873bc240f2fd23c7befbfeb8e2bff14bcad91e944c557b170c6c88c4348f7ea2a5cbe3c6baa01f9d2b381155c180bcf6a20eb341d1d6f8232da7d6ae52a822ce0313646af121e1e1fcff1f3faff5811364a82b1f235592207ffb6cf2afef571e495a1e4bbec7ab90c050c117f8444cf0cf7 = 0xc475eb23e4d24791df0cf8885808f9bc82cc3982c7b998b510408aae0c05e7b56db3cabfbd5c7925a0b41e3b5bf3d2fce1477e95d4046745a513155ec5c31a47e1e1fcf3646af121fac089b2578f9fd70265394622fdc1aa49de27b0001df0335fa478f7df78481ecd07475be08cb6ba43c977d8f572180be9b4af8d836575263e94875ea72ae24244621a47bf5152e6baa01f9d2b3be3c65592207ff82b1f2338ffc8518adf99cc52059d60821c4f08a5e56dff5c715ff8ce0317d6ae52a8220c117f8444cf0cf7 := by decide

theorem c10ob_r21c : keccakChi 0xc475eb23e4d24791df0cf8885808f9bc82cc3982c7b998b510408aae0c05e7b56db3cabfbd5c7925a0b41e3b5bf3d2fce1477e95d4046745a513155ec5c31a47e1e1fcf3646af121fac089b2578f9fd70265394622fdc1aa49de27b0001df0335fa478f7df78481ecd07475be08cb6ba43c977d8f572180be9b4af8d836575263e94875ea72ae24244621a47bf5152e6baa01f9d2b3be3c65592207ff82b1f2338ffc8518adf99cc52059d60821c4f08a5e56dff5c715ff8ce0317d6ae52a8220c117f8444cf0cf7 = 0xd435eb23e4d3c101f68ef8144104c19882bd3aa1636b9eb44d404aa6140586bdef3ffbbf7ee46125a1956a7a7b93b2dcbb07ff15d0086a46a5a31574ce308affa1a59672746e9421fed288bed60e95918e6339452271671a08566128d51fe8325d8560b1fd984996cd5d405be089069b51694f7cea02500f4394b00d807595e22a96872cdf20e843854232c6bf1447c280349a852b1143c611d0203d6c6b0f03fafdc80320cf39cc5605aae4c61c4b3b8d1f2dee54b2cf3c9c0387d62c5ea8222df517ad14ee5b2f := by decide

theorem c10ob_r21 : keccakRound keccak_rotc_std 0xba76e71db44aff8b7229a8023f351b006c535ea3396418a909c696bab964cb884fbc301b705551f2ee0fdac5250cc905244fd1c9e00ce3b0ef7de041df641996422ed5255241aec87bfab4fee06b5f31d8c977d3fe094c867a139c761edb9c4f9e1dace4dd5b0d33e932a8b717e12aaaf75af3cac9eef311637a6f4894f506464722cf41c7288d80cac23fd24dcd834405b10958c27cba5d09901f90201ac6822cb5fe1dcd1de2bf4486616c95c5e05f97390831d73e550bd93f579e3ae9566933c7cf067acbd5ba 21 = 0xd435eb23e4d3c101f68ef8144104c19882bd3aa1636b9eb44d404aa6140586bdef3ffbbf7ee46125a1956a7a7b93b2dcbb07ff15d0086a46a5a31574ce308affa1a59672746e9421fed288bed60e95918e6339452271671a08566128d51fe8325d8560b1fd984996cd5d405be089069b51694f7cea02500f4394b00d807595e22a96872cdf20e843854232c6bf1447c280349a852b1143c611d0203d6c6b0f03fafdc80320cf39cc5605aae4c61c4b3b8d1f2dee54b2cf3c9c0387d62c5ea822adf517ad14eedbaf := by

  simp only [keccakRound, c10ob_r21t, c10ob_r21p, c10ob_r21c]

  decide

theorem c10ob_r22t : keccakTheta 0xd435eb23e4d3c101f68ef8144104c19882bd3aa1636b9eb44d404aa6140586bdef3ffbbf7ee46125a1956a7a7b93b2dcbb07ff15d0086a46a5a31574ce308affa1a59672746e9421fed288bed60e95918e6339452271671a08566128d51fe8325d8560b1fd984996cd5d405be089069b51694f7cea02500f4394b00d807595e22a96872cdf20e843854232c6bf1447c280349a852b1143c611d0203d6c6b0f03fafdc80320cf39cc5605aae4c61c4b3b8d1f2dee54b2cf3c9c0387d62c5ea822adf517ad14eedbaf = 0x143bb718cd26c1ba011d287cc1766569cdaa2cbf5e99a07f546de1d258a35cecd68a38146c34260a619b36415266b2674c942f7d507aceb7eab4036af3c2b434b8883d0638c84e70c7674b15c4ded2be4e6d657e0b8467a1ffc5b140556d4cc3129276afc06a775dd470eb2fac2fdcca68dc8cd7f8d21720839aec36a9809559dd0557445f524cb2ca5524d882e67909991931f167b799972865e3967ebb482c3af39438093a3977a1967a8c466eefcac2083bf06940f1f7852e2ca260f872739440d406063e9c80 := by decide

theorem c10ob_r22p : keccakRhoPi keccak_rotc_std 0x143bb718cd26c1ba011d287cc1766569cdaa2cbf5e99a07f546de1d258a35cecd68a38146c34260a619b36415266b2674c942f7d507aceb7eab4036af3c2b434b8883d0638c84e70c7674b15c4ded2be4e6d657e0b8467a1ffc5b140556d4cc3129276afc06a775dd470eb2fac2fdcca68dc8cd7f8d21720839aec36a9809559dd0557445f524cb2ca5524d882e67909991931f167b799972865e3967ebb482c3af39438093a3977a1967a8c466eefcac2083bf06940f1f7852e2ca260f872739440d406063e9c80 = 0x51b78749628d73b1bda57d8ece962b89c233d0a736b2bf05596e82aba22fa926f0820efc1a503c7d69011d287cc1766501b579e15a1a755ac3acbeb0bf732b51ebb482c2865e3967c049d1cbb9d79ca1e051b0d0982b5a289b36415266b2676180aada9987ff8b6295493620b99e42720a5c5944c1f0e4e7f9b54597ebd3340f09ce171107a0c71946e466bfc690b903c36a9809559839aec466eefcaa1967a8edc63349b06e850eefaa0f59d6e9928553bae89493b57e0379997991931f167b9440d406063e9c80 := by decide

theorem c10ob_r22c : keccakChi 0x51b78749628d73b1bda57d8ece962b89c233d0a736b2bf05596e82aba22fa926f0820efc1a503c7d69011d287cc1766501b579e15a1a755ac3acbeb0bf732b51ebb482c2865e3967c049d1cbb9d79ca1e051b0d0982b5a289b36415266b2676180aada9987ff8b6295493620b99e42720a5c5944c1f0e4e7f9b54597ebd3340f09ce171107a0c71946e466bfc690b903c36a9809559839aec466eefcaa1967a8edc63349b06e850eefaa0f59d6e9928553bae89493b57e0379997991931f167b9440d406063e9c80 = 0x58db074ac2a2f2b31da5753ad6c627c5822152e616bbef3564eaafa36a2ba9ae72935ef80ec02a7c42b51f287ac9572381fdb922db0cfddaabacbab89bb22974eba5c383c6566d6dc041edfb80f69eb1755096f0a0255838913a08562762c3a6e0eb6a191ff6936a8e5d3762d99e26730afe91ddc7916de7fabd5596be532c090d8cbd7907a884b9b6d526392ec38905ca60890954b87fb6c0e2884a2819e7a9845f1ad8216f8775ffaacb5fd0f98a0553fed894b3b37b09d5997ed8d75796ff96625402069ef480 := by decide

theorem c10ob_r22 : keccakRound keccak_rotc_std 0xd435eb23e4d3c101f68ef8144104c19882bd3aa1636b9eb44d404aa6140586bdef3ffbbf7ee46125a1956a7a7b93b2dcbb07ff15d0086a46a5a31574ce308affa1a59672746e9421fed288bed60e95918e6339452271671a08566128d51fe8325d8560b1fd984996cd5d405be089069b51694f7cea02500f4394b00d807595e22a96872cdf20e843854232c6bf1447c280349a852b1143c611d0203d6c6b0f03fafdc80320cf39cc5605aae4c61c4b3b8d1f2dee54b2cf3c9c0387d62c5ea822adf517ad14eedbaf 22 = 0x58db074ac2a2f2b31da5753ad6c627c5822152e616bbef3564eaafa36a2ba9ae72935ef80ec02a7c42b51f287ac9572381fdb922db0cfddaabacbab89bb22974eba5c383c6566d6dc041edfb80f69eb1755096f0a0255838913a08562762c3a6e0eb6a191ff6936a8e5d3762d99e26730afe91ddc7916de7fabd5596be532c090d8cbd7907a884b9b6d526392ec38905ca60890954b87fb6c0e2884a2819e7a9845f1ad8216f8775ffaacb5fd0f98a0553fed894b3b37b09d5997ed8d75796ff96625402869ef481 := by

  simp only [keccakRound, c10ob_r22t, c10ob_r22p, c10ob_r22c]

  decide

theorem c10ob_r23t : keccakTheta 0x58db074ac2a2f2b31da5753ad6c627c5822152e616bbef3564eaafa36a2ba9ae72935ef80ec02a7c42b51f287ac9572381fdb922db0cfddaabacbab89bb22974eba5c383c6566d6dc041edfb80f69eb1755096f0a0255838913a08562762c3a6e0eb6a191ff6936a8e5d3762d99e26730afe91ddc7916de7fabd5596be532c090d8cbd7907a884b9b6d526392ec38905ca60890954b87fb6c0e2884a2819e7a9845f1ad8216f8775ffaacb5fd0f98a0553fed894b3b37b09d5997ed8d75796ff96625402869ef481 = 0x7ac6480ff11a71b312518a69d7ad2d4a62439aa41b45cac7d2dca8e192142de25e98c60365aa6b5a60a8506d4971d4238e094671da67f7554bce72fa964c0c865d93c4c13e69e921ec4a7500eb9cdf97574dd9b5939ddb389ecef7052609c9290089a25b1208b698386b302021a1a23f26f50926acfb2cc1d8a01ad38debaf090278422a06c38e3656b7ee7b233dacf77c568e4bac87fbfaece910b14373a68fa642559d12d70475f05e340cd192808ab39c10d6be4d5efb63af799a2f6812b3ba69ccf9edf4b5a7 := by decide

theorem c10ob_r23p : keccakRhoPi keccak_rotc_std 0x7ac6480ff11a71b312518a69d7ad2d4a62439aa41b45cac7d2dca8e192142de25e98c60365aa6b5a60a8506d4971d4238e094671da67f7554bce72fa964c0c865d93c4c13e69e921ec4a7500eb9cdf97574dd9b5939ddb389ecef7052609c9290089a25b1208b698386b302021a1a23f26f50926acfb2cc1d8a01ad38debaf090278422a06c38e3656b7ee7b233dacf77c568e4bac87fbfaece910b14373a68fa642559d12d70475f05e340cd192808ab39c10d6be4d5efb63af799a2f6812b3ba69ccf9edf4b5a7 = 0x4b72a3864850b78b39bf2fd894ea01d7ceed9c2ba6ecdac91b013c21150361c7ece70435af9357be4a12518a69d7ad2d397d4b26064325e7acc080868688fce1373a68fece910b14e896b823ad3212ac180d96a9ad697a63a8506d4971d423600a4c1392533d9deeadfb9ec8cf6b3dd5c75ef3345ed02566ec4873548368b9583d242bb2789827cd37a8493567d96609ad38debaf09d8a01cd192808af05e3409203fc469c6cdeb1ce3b4cfeeab1c12845b4c0044d12d8907fbfa7c568e4bac8ba69ccf9edf4b5a7 := by decide

theorem c10ob_r23c : keccakChi 0x4b72a3864850b78b39bf2fd894ea01d7ceed9c2ba6ecdac91b013c21150361c7ece70435af9357be4a12518a69d7ad2d397d4b26064325e7acc080868688fce1373a68fece910b14e896b823ad3212ac180d96a9ad697a63a8506d4971d423600a4c1392533d9deeadfb9ec8cf6b3dd5c75ef3345ed02566ec4873548368b9583d242bb2789827cd37a8493567d96609ad38debaf09d8a01cd192808af05e3409203fc469c6cdeb1ce3b4cfeeab1c12845b4c0044d12d8907fbfa7c568e4bac8ba69ccf9edf4b5a7 = 0x58729b86585097ca9d3a2be9336941e38cad1c2deefc6cc12a131ff1050160d1280b843f0d7fcdb65d3a11562b56a43d99f9e30782633767eec2900eef1c74e9260723deced20a1260563823ad3ae64d30ac9a612c4262f26f020c5d234426641a418132df14c5ed0debf281efab1fd5c55af2264ec4a54ccc68a5e6d3f0b1593c3523ba549d65cdf7e01971e4b9fe19a53cfc38e89d8bc5df99290da8458748d795df429c6cd4f9e6534c478b21e02e55b47004595ec601f5b4ab3fca45bbe0ba698cf9e8e6f5b7 := by decide

theorem c10ob_r23 : keccakRound keccak_rotc_std 0x58db074ac2a2f2b31da5753ad6c627c5822152e616bbef3564eaafa36a2ba9ae72935ef80ec02a7c42b51f287ac9572381fdb922db0cfddaabacbab89bb22974eba5c383c6566d6dc041edfb80f69eb1755096f0a0255838913a08562762c3a6e0eb6a191ff6936a8e5d3762d99e26730afe91ddc7916de7fabd5596be532c090d8cbd7907a884b9b6d526392ec38905ca60890954b87fb6c0e2884a2819e7a9845f1ad8216f8775ffaacb5fd0f98a0553fed894b3b37b09d5997ed8d75796ff96625402869ef481 23 = 0x58729b86585097ca9d3a2be9336941e38cad1c2deefc6cc12a131ff1050160d1280b843f0d7fcdb65d3a11562b56a43d99f9e30782633767eec2900eef1c74e9260723deced20a1260563823ad3ae64d30ac9a612c4262f26f020c5d234426641a418132df14c5ed0debf281efab1fd5c55af2264ec4a54ccc68a5e6d3f0b1593c3523ba549d65cdf7e01971e4b9fe19a53cfc38e89d8bc5df99290da8458748d795df429c6cd4f9e6534c478b21e02e55b47004595ec601f5b4ab3fca45bbe03a698cf968e675bf := by

  simp only [keccakRound, c10ob_r23t, c10ob_r23p, c10ob_r23c]

  decide

theorem c10ob_perm : keccak_f1600 keccak_rotc_std 0x80000000000000000000000000000000000000000000000000000000000000000000000000000000000000000000000000000100000000000000000000000000000000000000000000000000000000000000008bb4374670c0898941ecf7a17d9fd14cdea582f7df3c34842c00828ad6547f330000000000000000000000000000000000000000ff = 0x58729b86585097ca9d3a2be9336941e38cad1c2deefc6cc12a131ff1050160d1280b843f0d7fcdb65d3a11562b56a43d99f9e30782633767eec2900eef1c74e9260723deced20a1260563823ad3ae64d30ac9a612c4262f26f020c5d234426641a418132df14c5ed0debf281efab1fd5c55af2264ec4a54ccc68a5e6d3f0b1593c3523ba549d65cdf7e01971e4b9fe19a53cfc38e89d8bc5df99290da8458748d795df429c6cd4f9e6534c478b21e02e55b47004595ec601f5b4ab3fca45bbe03a698cf968e675bf := by

  rw [keccak_f1600_expand, c10ob_r0, c10ob_r1, c10ob_r2, c10ob_r3, c10ob_r4, c10ob_r5, c10ob_r6, c10ob_r7, c10ob_r8, c10ob_r9, c10ob_r10, c10ob_r11, c10ob_r12, c10ob_r13, c10ob_r14, c10ob_r15, c10ob_r16, c10ob_r17, c10ob_r18, c10ob_r19, c10ob_r20, c10ob_r21, c10ob_r22, c10ob_r23]

theorem c10ob_sq : keccakSqueeze32 0x58729b86585097ca9d3a2be9336941e38cad1c2deefc6cc12a131ff1050160d1280b843f0d7fcdb65d3a11562b56a43d99f9e30782633767eec2900eef1c74e9260723deced20a1260563823ad3ae64d30ac9a612c4262f26f020c5d234426641a418132df14c5ed0debf281efab1fd5c55af2264ec4a54ccc68a5e6d3f0b1593c3523ba549d65cdf7e01971e4b9fe19a53cfc38e89d8bc5df99290da8458748d795df429c6cd4f9e6534c478b21e02e55b47004595ec601f5b4ab3fca45bbe03a698cf968e675bf = [191, 117, 230, 104, 249, 140, 105, 58, 224, 187, 69, 202, 63, 171, 180, 245, 1, 198, 94, 89, 4, 112, 180, 85, 46, 224, 33, 139, 71, 76, 83, 230] := by decide

theorem c10ob_value : keccak256 [255, 0, 0, 0, 0, 0, 0, 0, 0, 0, 0, 0, 0, 0, 0, 0, 0, 0, 0, 0, 0, 51, 127, 84, 214, 138, 130, 0, 44, 132, 52, 60, 223, 247, 130, 165, 222, 76, 209, 159, 125, 161, 247, 236, 65, 137, 137, 192, 112, 70, 55, 180, 139, 0, 0, 0, 0, 0, 0, 0, 0, 0, 0, 0, 0, 0, 0, 0, 0, 0, 0, 0, 0, 0, 0, 0, 0, 0, 0, 0, 0, 0, 0, 0, 0] = [191, 117, 230, 104, 249, 140, 105, 58, 224, 187, 69, 202, 63, 171, 180, 245, 1, 198, 94, 89, 4, 112, 180, 85, 46, 224, 33, 139, 71, 76, 83, 230] := by

  rw [keccak256_single_block [255, 0, 0, 0, 0, 0, 0, 0, 0, 0, 0, 0, 0, 0, 0, 0, 0, 0, 0, 0, 0, 51, 127, 84, 214, 138, 130, 0, 44, 132, 52, 60, 223, 247, 130, 165, 222, 76, 209, 159, 125, 161, 247, 236, 65, 137, 137, 192, 112, 70, 55, 180, 139, 0, 0, 0, 0, 0, 0, 0, 0, 0, 0, 0, 0, 0, 0, 0, 0, 0, 0, 0, 0, 0, 0, 0, 0, 0, 0, 0, 0, 0, 0, 0, 0] [255, 0, 0, 0, 0, 0, 0, 0, 0, 0, 0, 0, 0, 0, 0, 0, 0, 0, 0, 0, 0, 51, 127, 84, 214, 138, 130, 0, 44, 132, 52, 60, 223, 247, 130, 165, 222, 76, 209, 159, 125, 161, 247, 236, 65, 137, 137, 192, 112, 70, 55, 180, 139, 0, 0, 0, 0, 0, 0, 0, 0, 0, 0, 0, 0, 0, 0, 0, 0, 0, 0, 0, 0, 0, 0, 0, 0, 0, 0, 0, 0, 0, 0, 0, 0, 1, 0, 0, 0, 0, 0, 0, 0, 0, 0, 0, 0, 0, 0, 0, 0, 0, 0, 0, 0, 0, 0, 0, 0, 0, 0, 0, 0, 0, 0, 0, 0, 0, 0, 0, 0, 0, 0, 0, 0, 0, 0, 0, 0, 0, 0, 0, 0, 0, 0, 128] 0x80000000000000000000000000000000000000000000000000000000000000000000000000000000000000000000000000000100000000000000000000000000000000000000000000000000000000000000008bb4374670c0898941ecf7a17d9fd14cdea582f7df3c34842c00828ad6547f330000000000000000000000000000000000000000ff c10ob_pad (by decide) (by decide) c10ob_abs, c10ob_perm, c10ob_sq]

theorem c10_cat_a0 : [0, 0, 0, 0, 0, 0, 0, 0, 0, 0, 0, 0, 0, 0, 0, 0, 0, 0, 0, 0, 0, 0, 0, 0, 0, 0, 0, 0, 0, 0, 0, 0] ++ [17, 17, 17, 17, 17, 17, 17, 17, 17, 17, 17, 17, 17, 17, 17, 17, 17, 17, 17, 17, 17, 17, 17, 17, 17, 17, 17, 17, 17, 17, 17, 17] = [0, 0, 0, 0, 0, 0, 0, 0, 0, 0, 0, 0, 0, 0, 0, 0, 0, 0, 0, 0, 0, 0, 0, 0, 0, 0, 0, 0, 0, 0, 0, 0, 17, 17, 17, 17, 17, 17, 17, 17, 17, 17, 17, 17, 17, 17, 17, 17, 17, 17, 17, 17, 17, 17, 17, 17, 17, 17, 17, 17, 17, 17, 17, 17] := by decide

theorem c10_cat_b0 : [0, 0, 0, 0, 0, 0, 0, 0, 0, 0, 0, 0, 0, 0, 0, 0, 0, 0, 0, 0, 0, 0, 0, 0, 0, 0, 0, 0, 0, 0, 0, 0] ++ [0, 0, 0, 0, 0, 2, 179, 114, 54, 92, 113, 27, 52, 189, 73, 197, 12, 63, 54, 210, 78, 40, 60, 85, 113, 199, 28, 113, 199, 28, 113, 199] = [0, 0, 0, 0, 0, 0, 0, 0, 0, 0, 0, 0, 0, 0, 0, 0, 0, 0, 0, 0, 0, 0, 0, 0, 0, 0, 0, 0, 0, 0, 0, 0, 0, 0, 0, 0, 0, 2, 179, 114, 54, 92, 113, 27, 52, 189, 73, 197, 12, 63, 54, 210, 78, 40, 60, 85, 113, 199, 28, 113, 199, 28, 113, 199] := by decide

theorem c10_cat_ff : [0xff] ++ [0, 0, 0, 0, 0, 0, 0, 0, 0, 0, 0, 0, 0, 0, 0, 0, 0, 0, 0, 0] = [255, 0, 0, 0, 0, 0, 0, 0, 0, 0, 0, 0, 0, 0, 0, 0, 0, 0, 0, 0, 0] := by decide

theorem c10_cat_a2 : [255, 0, 0, 0, 0, 0, 0, 0, 0, 0, 0, 0, 0, 0, 0, 0, 0, 0, 0, 0, 0] ++ [142, 75, 142, 24, 21, 106, 28, 114, 113, 5, 92, 229, 183, 239, 83, 187, 55, 2, 148, 235, 214, 49, 163, 185, 84, 24, 169, 45, 164, 110, 104, 31] = [255, 0, 0, 0, 0, 0, 0, 0, 0, 0, 0, 0, 0, 0, 0, 0, 0, 0, 0, 0, 0, 142, 75, 142, 24, 21, 106, 28, 114, 113, 5, 92, 229, 183, 239, 83, 187, 55, 2, 148, 235, 214, 49, 163, 185, 84, 24, 169, 45, 164, 110, 104, 31] := by decide

theorem c10_cat_b2 : [255, 0, 0, 0, 0, 0, 0, 0, 0, 0, 0, 0, 0, 0, 0, 0, 0, 0, 0, 0, 0] ++ [51, 127, 84, 214, 138, 130, 0, 44, 132, 52, 60, 223, 247, 130, 165, 222, 76, 209, 159, 125, 161, 247, 236, 65, 137, 137, 192, 112, 70, 55, 180, 139] = [255, 0, 0, 0, 0, 0, 0, 0, 0, 0, 0, 0, 0, 0, 0, 0, 0, 0, 0, 0, 0, 51, 127, 84, 214, 138, 130, 0, 44, 132, 52, 60, 223, 247, 130, 165, 222, 76, 209, 159, 125, 161, 247, 236, 65, 137, 137, 192, 112, 70, 55, 180, 139] := by decide

theorem c10_cat_a3 : [255, 0, 0, 0, 0, 0, 0, 0, 0, 0, 0, 0, 0, 0, 0, 0, 0, 0, 0, 0, 0, 142, 75, 142, 24, 21, 106, 28, 114, 113, 5, 92, 229, 183, 239, 83, 187, 55, 2, 148, 235, 214, 49, 163, 185, 84, 24, 169, 45, 164, 110, 104, 31] ++ [0, 0, 0, 0, 0, 0, 0, 0, 0, 0, 0, 0, 0, 0, 0, 0, 0, 0, 0, 0, 0, 0, 0, 0, 0, 0, 0, 0, 0, 0, 0, 0] = [255, 0, 0, 0, 0, 0, 0, 0, 0, 0, 0, 0, 0, 0, 0, 0, 0, 0, 0, 0, 0, 142, 75, 142, 24, 21, 106, 28, 114, 113, 5, 92, 229, 183, 239, 83, 187, 55, 2, 148, 235, 214, 49, 163, 185, 84, 24, 169, 45, 164, 110, 104, 31, 0, 0, 0, 0, 0, 0, 0, 0, 0, 0, 0, 0, 0, 0, 0, 0, 0, 0, 0, 0, 0, 0, 0, 0, 0, 0, 0, 0, 0, 0, 0, 0] := by decide

theorem c10_cat_b3 : [255, 0, 0, 0, 0, 0, 0, 0, 0, 0, 0, 0, 0, 0, 0, 0, 0, 0, 0, 0, 0, 51, 127, 84, 214, 138, 130, 0, 44, 132, 52, 60, 223, 247, 130, 165, 222, 76, 209, 159, 125, 161, 247, 236, 65, 137, 137, 192, 112, 70, 55, 180, 139] ++ [0, 0, 0, 0, 0, 0, 0, 0, 0, 0, 0, 0, 0, 0, 0, 0, 0, 0, 0, 0, 0, 0, 0, 0, 0, 0, 0, 0, 0, 0, 0, 0] = [255, 0, 0, 0, 0, 0, 0, 0, 0, 0, 0, 0, 0, 0, 0, 0, 0, 0, 0, 0, 0, 51, 127, 84, 214, 138, 130, 0, 44, 132, 52, 60, 223, 247, 130, 165, 222, 76, 209, 159, 125, 161, 247, 236, 65, 137, 137, 192, 112, 70, 55, 180, 139, 0, 0, 0, 0, 0, 0, 0, 0, 0, 0, 0, 0, 0, 0, 0, 0, 0, 0, 0, 0, 0, 0, 0, 0, 0, 0, 0, 0, 0, 0, 0, 0] := by decide

theorem c10_addr_a : computeCreate2Address "0000000000000000000000000000000000000000" "0000000000000000000000000000000000000000000000000000000000000000" "0000000000000000000000000000000000000000000000000000000000000000" [17, 17, 17, 17, 17, 17, 17, 17, 17, 17, 17, 17, 17, 17, 17, 17, 17, 17, 17, 17, 17, 17, 17, 17, 17, 17, 17, 17, 17, 17, 17, 17] = [115, 227, 21, 24, 208, 62, 241, 9, 250, 148, 33, 248, 165, 153, 5, 159, 59, 1, 158, 109] := by
  rw [computeCreate2Address_eq_spec]
  simp only [create2SpecAddress, c10_fb, c10_izb, c10_cat_a0, c10sa_value, c10_cat_ff,
    c10_cat_a2, c10_cat_a3, c10oa_value]
  decide

theorem c10_addr_b : computeCreate2Address "0000000000000000000000000000000000000000" "0000000000000000000000000000000000000000000000000000000000000000" "0000000000000000000000000000000000000000000000000000000000000000" [0, 0, 0, 0, 0, 2, 179, 114, 54, 92, 113, 27, 52, 189, 73, 197, 12, 63, 54, 210, 78, 40, 60, 85, 113, 199, 28, 113, 199, 28, 113, 199] = [63, 171, 180, 245, 1, 198, 94, 89, 4, 112, 180, 85, 46, 224, 33, 139, 71, 76, 83, 230] := by
  rw [computeCreate2Address_eq_spec]
  simp only [create2SpecAddress, c10_fb, c10_izb, c10_cat_b0, c10sb_value, c10_cat_ff,
    c10_cat_b2, c10_cat_b3, c10ob_value]
  decide

/-! ## C4: the two kernels at base `2G`, offset 1, the genuine power table -/

theorem c4_load_bx : load_uint256_be c4_base = 0xc6047f9441ed7d6d3045406e95c07cd85c778e4b8cef3ca7abac09b95c709ee5 := by decide

theorem c4_load_by : load_uint256_be (c4_base.drop 32) = 0x1ae168fea63dc339a3c58419466ceaeef7f632653266d0e1236431a950cfe52a := by decide

theorem c4_scalar_aff : scalar_mul_g 1 c4_table = { x := 0x79be667ef9dcbbac55a06295ce870b07029bfcdb2dce28d959f2815b16f81798, y := 0x483ada7726a3c4655da4fbfc0e1108a8fd17b448a68554199c47d08ffb10d4b8, infinity := false } := by decide

theorem c4_scalar_jac : scalar_mul_g_jacobian 1 c4_table = { X := 0x79be667ef9dcbbac55a06295ce870b07029bfcdb2dce28d959f2815b16f81798, Y := 0x483ada7726a3c4655da4fbfc0e1108a8fd17b448a68554199c47d08ffb10d4b8, Z := 1, infinity := false } := by decide

theorem c4a_inv0_e0 : fp_sqr 0xb3b9e6eab7ef3e3f255b222738c68e2ea6246e8fa0deec31ae4677a0ba8774e2 = 0xb498cd053831b90e70142a520190e58f0386c0a8267cabe3fa53121140a6f790 := by decide
theorem c4a_inv0_e1 : fp_mul 0xb498cd053831b90e70142a520190e58f0386c0a8267cabe3fa53121140a6f790 0xb3b9e6eab7ef3e3f255b222738c68e2ea6246e8fa0deec31ae4677a0ba8774e2 = 0x30ee324c444c6848abbad2819df355e9380533c4ff5111c70fba1618b8fb1768 := by decide
theorem c4a_inv0_e2 : fp_sqr 0x30ee324c444c6848abbad2819df355e9380533c4ff5111c70fba1618b8fb1768 = 0xe14487c7fffde9e834668ce66c9f95152eb9b45f9c1c06b230e39562217c485 := by decide
theorem c4a_inv0_e3 : fp_mul 0xe14487c7fffde9e834668ce66c9f95152eb9b45f9c1c06b230e39562217c485 0xb3b9e6eab7ef3e3f255b222738c68e2ea6246e8fa0deec31ae4677a0ba8774e2 = 0x6b2e39393e3ba9cb60c759fa6601bf8d4cc2353368a6fd054af84bb40332b581 := by decide
theorem c4a_inv0_e4 : fp_sqr 0x6b2e39393e3ba9cb60c759fa6601bf8d4cc2353368a6fd054af84bb40332b581 = 0x45b2a993cb0ec789a35c4cea790e2842a5e7f4a191576485ba518c99df32f8e1 := by decide
theorem c4a_inv0_e5 : fp_sqr 0x45b2a993cb0ec789a35c4cea790e2842a5e7f4a191576485ba518c99df32f8e1 = 0xcd17e7245c6a62912c39e18cc484e62d3ca57b1ac8937ef71346dfcee42af48 := by decide
theorem c4a_inv0_e6 : fp_sqr 0xcd17e7245c6a62912c39e18cc484e62d3ca57b1ac8937ef71346dfcee42af48 = 0xa73ccc638277af674821adcc1d3f88b42581d2cb19db311d371e81fb94a94fbf := by decide
theorem c4a_inv0_e7 : fp_mul 0xa73ccc638277af674821adcc1d3f88b42581d2cb19db311d371e81fb94a94fbf 0x6b2e39393e3ba9cb60c759fa6601bf8d4cc2353368a6fd054af84bb40332b581 = 0x4daa2fce59a0a77ae5f1e547d6b8ff83c5876b6a91fb7352bf680a94bd02eb3c := by decide
theorem c4a_inv0_e8 : fp_sqr 0x4daa2fce59a0a77ae5f1e547d6b8ff83c5876b6a91fb7352bf680a94bd02eb3c = 0x4e24e93e52ab32448e5f1f7850c6ed822211962e7ed6273497a8246238aed5dc := by decide
theorem c4a_inv0_e9 : fp_sqr 0x4e24e93e52ab32448e5f1f7850c6ed822211962e7ed6273497a8246238aed5dc = 0xe9792b4896c1ddeec51609e0c071f3ac0567f62afcbc56fb325b38e82fc24cf7 := by decide
theorem c4a_inv0_e10 : fp_sqr 0xe9792b4896c1ddeec51609e0c071f3ac0567f62afcbc56fb325b38e82fc24cf7 = 0xc3062efe4da31840ca4203e083e7bc35c3ad12e28d3641e2af9dcea4dae3a35c := by decide
theorem c4a_inv0_e11 : fp_mul 0xc3062efe4da31840ca4203e083e7bc35c3ad12e28d3641e2af9dcea4dae3a35c 0x6b2e39393e3ba9cb60c759fa6601bf8d4cc2353368a6fd054af84bb40332b581 = 0xf0d4218ba30f85b2996c8ddb170fe4b7bd3c74a2a28e4526a3f33fea9b231903 := by decide
theorem c4a_inv0_e12 : fp_sqr 0xf0d4218ba30f85b2996c8ddb170fe4b7bd3c74a2a28e4526a3f33fea9b231903 = 0xa2c1ad0879751c42cf6aeb11a03ed57397ea6c6abd7ea51cc728929fe8773632 := by decide
theorem c4a_inv0_e13 : fp_sqr 0xa2c1ad0879751c42cf6aeb11a03ed57397ea6c6abd7ea51cc728929fe8773632 = 0x377fd607175aeeb72f16a2a8c3765138f91a4a1da2c07fb8a70c4fbc81cf4afc := by decide
theorem c4a_inv0_e14 : fp_mul 0x377fd607175aeeb72f16a2a8c3765138f91a4a1da2c07fb8a70c4fbc81cf4afc 0x30ee324c444c6848abbad2819df355e9380533c4ff5111c70fba1618b8fb1768 = 0x26d279ec9ed2983a122b78fac36d41535bbb1096293ec4c98995110da4de5ae4 := by decide
theorem c4a_inv0_e15 : fp_sqr 0x26d279ec9ed2983a122b78fac36d41535bbb1096293ec4c98995110da4de5ae4 = 0x786fc78dda36ad7d01e1cc2234d3ab956f6cd6369990bed95ae2375ea33c5180 := by decide
theorem c4a_inv0_e16 : fp_sqr 0x786fc78dda36ad7d01e1cc2234d3ab956f6cd6369990bed95ae2375ea33c5180 = 0x6f0a6f89e1fa0aac1fb1adbf53b38d470c6de628d7c2813b2cd2d8055e8af9d1 := by decide
theorem c4a_inv0_e17 : fp_sqr 0x6f0a6f89e1fa0aac1fb1adbf53b38d470c6de628d7c2813b2cd2d8055e8af9d1 = 0xfe1ca95b5f611e1be6717a9fd5e3c3dd87732b52c1ba38d3ede3d1c47f5266fe := by decide
theorem c4a_inv0_e18 : fp_sqr 0xfe1ca95b5f611e1be6717a9fd5e3c3dd87732b52c1ba38d3ede3d1c47f5266fe = 0xf41c35e11d48ad12e546b2c8f5a8245b2acbe3be6e26b4006a180f2bade63893 := by decide
theorem c4a_inv0_e19 : fp_sqr 0xf41c35e11d48ad12e546b2c8f5a8245b2acbe3be6e26b4006a180f2bade63893 = 0x1921278b54538edc3035d6de080eb73c8bac74765c6a3f9145e3c3f938afa9ef := by decide
theorem c4a_inv0_e20 : fp_sqr 0x1921278b54538edc3035d6de080eb73c8bac74765c6a3f9145e3c3f938afa9ef = 0x58d368821de84c41e2caa5c5e1a7e98c1ed2689392d5964c47564343492f19d := by decide
theorem c4a_inv0_e21 : fp_sqr 0x58d368821de84c41e2caa5c5e1a7e98c1ed2689392d5964c47564343492f19d = 0xbf08deba5bb1ba333350cda2bebf66e433e0ab8d08462a771e5232bfdd0f1239 := by decide
theorem c4a_inv0_e22 : fp_sqr 0xbf08deba5bb1ba333350cda2bebf66e433e0ab8d08462a771e5232bfdd0f1239 = 0x229ae7fa93e76f50f42b4c30a643538e44022669f5dd6000c9bfbe73828e4141 := by decide
theorem c4a_inv0_e23 : fp_sqr 0x229ae7fa93e76f50f42b4c30a643538e44022669f5dd6000c9bfbe73828e4141 = 0x62ead7df2a90cdc8d9765ca0db2042caf958e6bee405c9e7ef8895a47e0097e7 := by decide
theorem c4a_inv0_e24 : fp_sqr 0x62ead7df2a90cdc8d9765ca0db2042caf958e6bee405c9e7ef8895a47e0097e7 = 0x98fac2a49b2ba2695a2b5b8872bc7f1c019b8d815198bc9ec031042a6b659f34 := by decide
theorem c4a_inv0_e25 : fp_sqr 0x98fac2a49b2ba2695a2b5b8872bc7f1c019b8d815198bc9ec031042a6b659f34 = 0xd6d63e17b3260c7d1370719a9d513e1f3c8b7e13c52e72b51765d2ea3097ec43 := by decide
theorem c4a_inv0_e26 : fp_mul 0xd6d63e17b3260c7d1370719a9d513e1f3c8b7e13c52e72b51765d2ea3097ec43 0x26d279ec9ed2983a122b78fac36d41535bbb1096293ec4c98995110da4de5ae4 = 0x4d708306294e98062d5e5b98bb77e5c97d12683647843e1ed293a792b4b500aa := by decide
theorem c4a_inv0_e27 : fp_sqr 0x4d708306294e98062d5e5b98bb77e5c97d12683647843e1ed293a792b4b500aa = 0xc307614e60f8d57e09de1013ceabefdb7a22658ad995172d6d6b93005575549 := by decide
theorem c4a_inv0_e28 : fp_sqr 0xc307614e60f8d57e09de1013ceabefdb7a22658ad995172d6d6b93005575549 = 0xf38b5d949fa241e61dea0b9efa66ad9df6959d439c50d6a94c5dbaaeba8baef0 := by decide
theorem c4a_inv0_e29 : fp_sqr 0xf38b5d949fa241e61dea0b9efa66ad9df6959d439c50d6a94c5dbaaeba8baef0 = 0xb59c2e7923a9d02d8260afdc065f57e59d4ef0cfc22abeb9f71daee3301ba5c8 := by decide
theorem c4a_inv0_e30 : fp_sqr 0xb59c2e7923a9d02d8260afdc065f57e59d4ef0cfc22abeb9f71daee3301ba5c8 = 0x16d0d4b70355211fbc71ca5902b07be562f66bdaf3ce168367c4f954dda26f4b := by decide
theorem c4a_inv0_e31 : fp_sqr 0x16d0d4b70355211fbc71ca5902b07be562f66bdaf3ce168367c4f954dda26f4b = 0x83904cf43ceee2655e78e3e614ad47ec7b13f9843757cd39e092740f88ebb9a := by decide
theorem c4a_inv0_e32 : fp_sqr 0x83904cf43ceee2655e78e3e614ad47ec7b13f9843757cd39e092740f88ebb9a = 0x874434dd472af492324ea5e43ca561f45bf9ff91e91383b3f508134f6c5b8e1b := by decide
theorem c4a_inv0_e33 : fp_sqr 0x874434dd472af492324ea5e43ca561f45bf9ff91e91383b3f508134f6c5b8e1b = 0x6d36475c5dd408c0d21011a3a66e32485e20e0afecc050e3a595c52dbfb9045c := by decide
theorem c4a_inv0_e34 : fp_sqr 0x6d36475c5dd408c0d21011a3a66e32485e20e0afecc050e3a595c52dbfb9045c = 0x9b2ca1e788bf2c00406b47c70d77bcabf3fb171a7b1fc557e46cfd55b107c9e2 := by decide
theorem c4a_inv0_e35 : fp_sqr 0x9b2ca1e788bf2c00406b47c70d77bcabf3fb171a7b1fc557e46cfd55b107c9e2 = 0xb67d9a4874cf23150479969d97d13f99ced8a39c75b1849c0c7e6ccbf49d52d := by decide
theorem c4a_inv0_e36 : fp_sqr 0xb67d9a4874cf23150479969d97d13f99ced8a39c75b1849c0c7e6ccbf49d52d = 0x284a302840493f71f9f7c145abefd2a141fc587aa2387bcf4130862937f2dad1 := by decide
theorem c4a_inv0_e37 : fp_sqr 0x284a302840493f71f9f7c145abefd2a141fc587aa2387bcf4130862937f2dad1 = 0x63befd5d2a9a41eb2933cc63df81fdb7a13bc37524c0fb017b29092d5229526c := by decide
theorem c4a_inv0_e38 : fp_sqr 0x63befd5d2a9a41eb2933cc63df81fdb7a13bc37524c0fb017b29092d5229526c = 0x23f67e078baf792ec2e52a5eb03a08f8e2c3850889fb307d1418886133426bf7 := by decide
theorem c4a_inv0_e39 : fp_sqr 0x23f67e078baf792ec2e52a5eb03a08f8e2c3850889fb307d1418886133426bf7 = 0xe5b69b7d1ea36ea83bad1a9ef65efddc908cef2ef630fa78f2d860f6b951a100 := by decide
theorem c4a_inv0_e40 : fp_sqr 0xe5b69b7d1ea36ea83bad1a9ef65efddc908cef2ef630fa78f2d860f6b951a100 = 0xcaddd412d5a5e4251fccba9c258042f5c0c9d630cfbc3ff37c84e9c08ca1a5a := by decide
theorem c4a_inv0_e41 : fp_sqr 0xcaddd412d5a5e4251fccba9c258042f5c0c9d630cfbc3ff37c84e9c08ca1a5a = 0x321c98ec4c75ddbcd3935b91ea3f50ebb0a486ccb33555c148b8edbbd73b9216 := by decide
theorem c4a_inv0_e42 : fp_sqr 0x321c98ec4c75ddbcd3935b91ea3f50ebb0a486ccb33555c148b8edbbd73b9216 = 0xd01814280fca95c2c45e1a7a83365af7fce78c7fc2510d7940b675924fbc4283 := by decide
theorem c4a_inv0_e43 : fp_sqr 0xd01814280fca95c2c45e1a7a83365af7fce78c7fc2510d7940b675924fbc4283 = 0x5ae5b20e21b3290c1c2b1a5fac2508a199ab4862b5192cc0d9c7278d23a6e332 := by decide
theorem c4a_inv0_e44 : fp_sqr 0x5ae5b20e21b3290c1c2b1a5fac2508a199ab4862b5192cc0d9c7278d23a6e332 = 0x4eff635a42c4211880b9a0e5a2b3640a0b450f7d574623fc50c5a09b2d898e58 := by decide
theorem c4a_inv0_e45 : fp_sqr 0x4eff635a42c4211880b9a0e5a2b3640a0b450f7d574623fc50c5a09b2d898e58 = 0x9238589883c449737f5eaeec7ee3229986d105c67609d7874b1bec053704e0e := by decide
theorem c4a_inv0_e46 : fp_sqr 0x9238589883c449737f5eaeec7ee3229986d105c67609d7874b1bec053704e0e = 0xbf5f9534d6be221790155117fe3a6ac2851fdd34b84dd8855e4eb4ff5e5100a5 := by decide
theorem c4a_inv0_e47 : fp_sqr 0xbf5f9534d6be221790155117fe3a6ac2851fdd34b84dd8855e4eb4ff5e5100a5 = 0xe22e65b66fca6fc1be2f2397d0068f044961fd8b2a0c66f09632e31dbbe41b27 := by decide
theorem c4a_inv0_e48 : fp_sqr 0xe22e65b66fca6fc1be2f2397d0068f044961fd8b2a0c66f09632e31dbbe41b27 = 0xd67ba68c971325f6510a54c7b4231b05c9fe1d94750c3c2ae64790e35db4b580 := by decide
theorem c4a_inv0_e49 : fp_mul 0xd67ba68c971325f6510a54c7b4231b05c9fe1d94750c3c2ae64790e35db4b580 0x4d708306294e98062d5e5b98bb77e5c97d12683647843e1ed293a792b4b500aa = 0x700657b81b247c296d1359899fe3bcc967d209a847a9d11f0ed4c42786e26657 := by decide
theorem c4a_inv0_e50 : fp_sqr 0x700657b81b247c296d1359899fe3bcc967d209a847a9d11f0ed4c42786e26657 = 0x996b8a046a5cba2dc6a1d8b3b696571eb8593027b3c9df2f3736e0b47d7706cd := by decide
theorem c4a_inv0_e51 : fp_sqr 0x996b8a046a5cba2dc6a1d8b3b696571eb8593027b3c9df2f3736e0b47d7706cd = 0x2dffe7e778110c2ae7c01228b185c8dbbb020e4345935e97d3f271000412eae := by decide
theorem c4a_inv0_e52 : fp_sqr 0x2dffe7e778110c2ae7c01228b185c8dbbb020e4345935e97d3f271000412eae = 0x29192720c1cb9ce082c7c6054ca01101fb1781fb828482ad1f05acd9207c0be0 := by decide
theorem c4a_inv0_e53 : fp_sqr 0x29192720c1cb9ce082c7c6054ca01101fb1781fb828482ad1f05acd9207c0be0 = 0xf67f1791696771da29b113c4b219ffe7b693e45177ad03cfb22c724f2b0a7854 := by decide
theorem c4a_inv0_e54 : fp_sqr 0xf67f1791696771da29b113c4b219ffe7b693e45177ad03cfb22c724f2b0a7854 = 0xfe4c3e5b788f014f088b603c66bab08337439a023680a8a408a38b5a60ab25f0 := by decide
theorem c4a_inv0_e55 : fp_sqr 0xfe4c3e5b788f014f088b603c66bab08337439a023680a8a408a38b5a60ab25f0 = 0x9ce7121e2716f1f686664f4f1b6d207f739bada1e8dd6ca1e356176d903f9589 := by decide
theorem c4a_inv0_e56 : fp_sqr 0x9ce7121e2716f1f686664f4f1b6d207f739bada1e8dd6ca1e356176d903f9589 = 0xb89415b5271c3c2d5188826697e7f150cc7ea7d560070f5fc521585d6cd1a873 := by decide
theorem c4a_inv0_e57 : fp_sqr 0xb89415b5271c3c2d5188826697e7f150cc7ea7d560070f5fc521585d6cd1a873 = 0xa5dfd5dcbe34db2844fa2b5ec1c3d94beb080018c889f30730830e865a4614f5 := by decide
theorem c4a_inv0_e58 : fp_sqr 0xa5dfd5dcbe34db2844fa2b5ec1c3d94beb080018c889f30730830e865a4614f5 = 0x94414f2f21c63134b599ff2518ef94b4206a093a1cd293c9f986f9af8c4f996d := by decide
theorem c4a_inv0_e59 : fp_sqr 0x94414f2f21c63134b599ff2518ef94b4206a093a1cd293c9f986f9af8c4f996d = 0x54145d57b89e42c29f60b2822bd53c26d235c6e6938f5647c7df61839022e6e := by decide
theorem c4a_inv0_e60 : fp_sqr 0x54145d57b89e42c29f60b2822bd53c26d235c6e6938f5647c7df61839022e6e = 0xf37a23f9e4eaa04701e4df36e894d148f966a94ffc3342a991275175bc1bd7c0 := by decide
theorem c4a_inv0_e61 : fp_sqr 0xf37a23f9e4eaa04701e4df36e894d148f966a94ffc3342a991275175bc1bd7c0 = 0xd265f8069f3c5f4013e06087edc7e79dd0d522020712df7b2978ba1cde459457 := by decide
theorem c4a_inv0_e62 : fp_sqr 0xd265f8069f3c5f4013e06087edc7e79dd0d522020712df7b2978ba1cde459457 = 0xf566fbedf5a480e7596c1099b51e274ab353ac019dd19f68ddc781a37d22bab9 := by decide
theorem c4a_inv0_e63 : fp_sqr 0xf566fbedf5a480e7596c1099b51e274ab353ac019dd19f68ddc781a37d22bab9 = 0xf81436209f5691e9f22f653b5fa49ef02a726abdcea04f7a080e08eea6cc6e2d := by decide
theorem c4a_inv0_e64 : fp_sqr 0xf81436209f5691e9f22f653b5fa49ef02a726abdcea04f7a080e08eea6cc6e2d = 0xa952ef6f32a16125d7eafc355c84a877b1944e90aac464157c0fa15eb579fe9d := by decide
theorem c4a_inv0_e65 : fp_sqr 0xa952ef6f32a16125d7eafc355c84a877b1944e90aac464157c0fa15eb579fe9d = 0x5d6d8456c56a28fd313d431f6a93ab959de6f1e9e9c485cd6942f6f0fb957f7b := by decide
theorem c4a_inv0_e66 : fp_sqr 0x5d6d8456c56a28fd313d431f6a93ab959de6f1e9e9c485cd6942f6f0fb957f7b = 0xc29bdd0b78f63156a9c778367325b96c23ffd1407a9f10914ae4919f96942fb6 := by decide
theorem c4a_inv0_e67 : fp_sqr 0xc29bdd0b78f63156a9c778367325b96c23ffd1407a9f10914ae4919f96942fb6 = 0x1b90e3e2594853c881baf1d512e6ad960a5a2f502ba9644651523218f778a08c := by decide
theorem c4a_inv0_e68 : fp_sqr 0x1b90e3e2594853c881baf1d512e6ad960a5a2f502ba9644651523218f778a08c = 0xa1a57cc794d40de733408dcef5ca7c5cb4f8b09f754f1a1b3eec0c7733c48f65 := by decide
theorem c4a_inv0_e69 : fp_sqr 0xa1a57cc794d40de733408dcef5ca7c5cb4f8b09f754f1a1b3eec0c7733c48f65 = 0xb84efe7f315d832b4c9c40804d3c6a144a588cc2ef57eac4096fcbc92fe9e3a9 := by decide
theorem c4a_inv0_e70 : fp_sqr 0xb84efe7f315d832b4c9c40804d3c6a144a588cc2ef57eac4096fcbc92fe9e3a9 = 0x6c12ecc375a9eba4b4a7123b211d131aff513179a31e8089661909b08887d8b0 := by decide
theorem c4a_inv0_e71 : fp_sqr 0x6c12ecc375a9eba4b4a7123b211d131aff513179a31e8089661909b08887d8b0 = 0x6f4921ee36892d2c66da2707e0f36b4e2e7f7df1f73c3b730ac2657968cc65dd := by decide
theorem c4a_inv0_e72 : fp_sqr 0x6f4921ee36892d2c66da2707e0f36b4e2e7f7df1f73c3b730ac2657968cc65dd = 0x44ac60f2fcfb9f9945bc90ebfc3a7c7b5d84c098292a4d713030103e52da3f6 := by decide
theorem c4a_inv0_e73 : fp_sqr 0x44ac60f2fcfb9f9945bc90ebfc3a7c7b5d84c098292a4d713030103e52da3f6 = 0xe8554cebf3314c9aee0057bd7c2f2981434c8103a04a94c391d246ca40dc223 := by decide
theorem c4a_inv0_e74 : fp_sqr 0xe8554cebf3314c9aee0057bd7c2f2981434c8103a04a94c391d246ca40dc223 = 0x8aac4fabb12ca5008165ab8f2c5048ede4f8ca470d2892ab96da18fc89d2eabf := by decide
theorem c4a_inv0_e75 : fp_sqr 0x8aac4fabb12ca5008165ab8f2c5048ede4f8ca470d2892ab96da18fc89d2eabf = 0xa8a542839f603721d4c616c4af01b6bed8b0bc30b0928220dd4035da9f9d616a := by decide
theorem c4a_inv0_e76 : fp_sqr 0xa8a542839f603721d4c616c4af01b6bed8b0bc30b0928220dd4035da9f9d616a = 0x56c19aa136c790b3739722f83ae7923f8df5ca878e83616def05cb61d6ae5504 := by decide
theorem c4a_inv0_e77 : fp_sqr 0x56c19aa136c790b3739722f83ae7923f8df5ca878e83616def05cb61d6ae5504 = 0x1e002057b5305fd3aa7897d500deca40210c822be69875d398476189de0f8357 := by decide
theorem c4a_inv0_e78 : fp_sqr 0x1e002057b5305fd3aa7897d500deca40210c822be69875d398476189de0f8357 = 0xd5fb6f3bb1375156e7c284a0fb8383a3fadc0e926dad38dac8f7440cfd8296f2 := by decide
theorem c4a_inv0_e79 : fp_sqr 0xd5fb6f3bb1375156e7c284a0fb8383a3fadc0e926dad38dac8f7440cfd8296f2 = 0x2998989eac3553786587b8cef5ebc0ac4562b1769bcd12de90e7f9056ec95db0 := by decide
theorem c4a_inv0_e80 : fp_sqr 0x2998989eac3553786587b8cef5ebc0ac4562b1769bcd12de90e7f9056ec95db0 = 0xa2905659fb77cc3102f6e2bc31fd3f7632a042c54d970cde3d76a17688fad2d9 := by decide
theorem c4a_inv0_e81 : fp_sqr 0xa2905659fb77cc3102f6e2bc31fd3f7632a042c54d970cde3d76a17688fad2d9 = 0xd37775946d64e33a99cde85b056c8e867f5ea879d83f3fc4dce55c47adea959c := by decide
theorem c4a_inv0_e82 : fp_sqr 0xd37775946d64e33a99cde85b056c8e867f5ea879d83f3fc4dce55c47adea959c = 0xec1c84f1ad0ac0a0a293378cc5055ed0b7b08ccedb8ec11733e094c240cb0744 := by decide
theorem c4a_inv0_e83 : fp_sqr 0xec1c84f1ad0ac0a0a293378cc5055ed0b7b08ccedb8ec11733e094c240cb0744 = 0x60fd7ae6b21ed5b9c03fdd63854c4b797aba7d5284f638a4d274adbc300a5eeb := by decide
theorem c4a_inv0_e84 : fp_sqr 0x60fd7ae6b21ed5b9c03fdd63854c4b797aba7d5284f638a4d274adbc300a5eeb = 0xf8dca0ce6c29753362caf79fa45e3ae4109339661f7b320dc9c4369fed853e4a := by decide
theorem c4a_inv0_e85 : fp_sqr 0xf8dca0ce6c29753362caf79fa45e3ae4109339661f7b320dc9c4369fed853e4a = 0xb94b46b482d2e9f856576f7f71915fecc1622c6b7184dc702cf790d18bac38d := by decide
theorem c4a_inv0_e86 : fp_sqr 0xb94b46b482d2e9f856576f7f71915fecc1622c6b7184dc702cf790d18bac38d = 0x3623e6c7cd191415d34d3f1eb2bfb7e8f40ca9a9ca1abdfa0c910d0dc5f1fc38 := by decide
theorem c4a_inv0_e87 : fp_sqr 0x3623e6c7cd191415d34d3f1eb2bfb7e8f40ca9a9ca1abdfa0c910d0dc5f1fc38 = 0x77dc5e834696d3f6aa8eccf6e3cd9d53d5ab544e51e7acc2998c8e272c0b105 := by decide
theorem c4a_inv0_e88 : fp_sqr 0x77dc5e834696d3f6aa8eccf6e3cd9d53d5ab544e51e7acc2998c8e272c0b105 = 0x8a482cef1ca3312eb2dff990fa3eb42b1b1e6233dfd851caa271a41abc573ce4 := by decide
theorem c4a_inv0_e89 : fp_sqr 0x8a482cef1ca3312eb2dff990fa3eb42b1b1e6233dfd851caa271a41abc573ce4 = 0x3e0d042a49d1bbc2b67cede4f8ca563840be97549bf164ef29422778c33242dd := by decide
theorem c4a_inv0_e90 : fp_sqr 0x3e0d042a49d1bbc2b67cede4f8ca563840be97549bf164ef29422778c33242dd = 0x63c889fe0459c32952947b742e824c14dfeca45d8fe8a752ce1d6894e8e2808 := by decide
theorem c4a_inv0_e91 : fp_sqr 0x63c889fe0459c32952947b742e824c14dfeca45d8fe8a752ce1d6894e8e2808 = 0x8a6ae7971fbd2301e0abf2da936d62656a670b5259cc66f75c884fb01f52398 := by decide
theorem c4a_inv0_e92 : fp_sqr 0x8a6ae7971fbd2301e0abf2da936d62656a670b5259cc66f75c884fb01f52398 = 0x4e7ef3fca036637d058d8dfc66d8b5b70f479013ca5a03afdb7f74eeee16c28b := by decide
theorem c4a_inv0_e93 : fp_sqr 0x4e7ef3fca036637d058d8dfc66d8b5b70f479013ca5a03afdb7f74eeee16c28b = 0x5f808bd76b8ab403a1a7c60003cb39db201ca0d6fd5788734722d5c7a81fb030 := by decide
theorem c4a_inv0_e94 : fp_mul 0x5f808bd76b8ab403a1a7c60003cb39db201ca0d6fd5788734722d5c7a81fb030 0x700657b81b247c296d1359899fe3bcc967d209a847a9d11f0ed4c42786e26657 = 0x5e8e1f6b85219883113c2bbe030c8d994b412834fc51162632eda9f28f85f211 := by decide
theorem c4a_inv0_e95 : fp_sqr 0x5e8e1f6b85219883113c2bbe030c8d994b412834fc51162632eda9f28f85f211 = 0xcffc896762d6bf0d00dfd6082008a0b500378ecb4c0817b5b5653cb9cd1998fc := by decide
theorem c4a_inv0_e96 : fp_sqr 0xcffc896762d6bf0d00dfd6082008a0b500378ecb4c0817b5b5653cb9cd1998fc = 0x672a687bb4958c05724d4d737d52e1b33c8a911213c759864e591ff7cc649005 := by decide
theorem c4a_inv0_e97 : fp_sqr 0x672a687bb4958c05724d4d737d52e1b33c8a911213c759864e591ff7cc649005 = 0x52499e25b18ca2eeef599b4b87a768ab4fb3554e06504ccdae1708108acc48be := by decide
theorem c4a_inv0_e98 : fp_sqr 0x52499e25b18ca2eeef599b4b87a768ab4fb3554e06504ccdae1708108acc48be = 0xf34bbaa7decc4f9430a00b61a7aad68a9b5859f5f21fa58f9bc69c2d4068ff39 := by decide
theorem c4a_inv0_e99 : fp_sqr 0xf34bbaa7decc4f9430a00b61a7aad68a9b5859f5f21fa58f9bc69c2d4068ff39 = 0x6920e059629adcbc4bbd9f4c43618f585f0f1e93e5660a210047d1e1909debca := by decide
theorem c4a_inv0_e100 : fp_sqr 0x6920e059629adcbc4bbd9f4c43618f585f0f1e93e5660a210047d1e1909debca = 0xca097c19f8a3561dd008e2e2cb59c69ea077a0e59c466c020b63fd9b2e9d2de3 := by decide
theorem c4a_inv0_e101 : fp_sqr 0xca097c19f8a3561dd008e2e2cb59c69ea077a0e59c466c020b63fd9b2e9d2de3 = 0x8e8985ba14404862b0f4f573eacd45b023eb1180903b2be4185ebdf92a4a3746 := by decide
theorem c4a_inv0_e102 : fp_sqr 0x8e8985ba14404862b0f4f573eacd45b023eb1180903b2be4185ebdf92a4a3746 = 0x4a6385826435c00cdbb8f7f417796f29d7e9fdb29b90fbc969d10bac3e122716 := by decide
theorem c4a_inv0_e103 : fp_sqr 0x4a6385826435c00cdbb8f7f417796f29d7e9fdb29b90fbc969d10bac3e122716 = 0xb8ddf75fec99529cad179e5923077a645ed18c2f912ecea3c131161a253e2b0a := by decide
theorem c4a_inv0_e104 : fp_sqr 0xb8ddf75fec99529cad179e5923077a645ed18c2f912ecea3c131161a253e2b0a = 0x6de89e0fdb3aab94794b38b9e93fd8f7be98dc6a7f5a1ab359769382a95bf4e := by decide
theorem c4a_inv0_e105 : fp_sqr 0x6de89e0fdb3aab94794b38b9e93fd8f7be98dc6a7f5a1ab359769382a95bf4e = 0xc2f5b1c63de3582ed7f2651bb22abf4e25e674bba127b74c18fef69457ee2d30 := by decide
theorem c4a_inv0_e106 : fp_sqr 0xc2f5b1c63de3582ed7f2651bb22abf4e25e674bba127b74c18fef69457ee2d30 = 0xa554be348270470e96c9f3b8353bb8b7c6c80fe9e800d7cf606aec03a2869479 := by decide
theorem c4a_inv0_e107 : fp_sqr 0xa554be348270470e96c9f3b8353bb8b7c6c80fe9e800d7cf606aec03a2869479 = 0x68e88637bf8e95483343ac8e7b734f02f6999792aa46127975d9e4e18b72cf85 := by decide
theorem c4a_inv0_e108 : fp_sqr 0x68e88637bf8e95483343ac8e7b734f02f6999792aa46127975d9e4e18b72cf85 = 0x6e62d920b183461b48db14eef5e38cdcc0ad148c2dd572ccdaeb2289039b489a := by decide
theorem c4a_inv0_e109 : fp_sqr 0x6e62d920b183461b48db14eef5e38cdcc0ad148c2dd572ccdaeb2289039b489a = 0x60475cf9d4ea162a4ce139652d1c3fd0a37182cb9381ff6bcaef0273e77b288c := by decide
theorem c4a_inv0_e110 : fp_sqr 0x60475cf9d4ea162a4ce139652d1c3fd0a37182cb9381ff6bcaef0273e77b288c = 0x4f57f40d532d21b8572140aaf233b74fbd3ed5aa27bab00ee7dfa2a8f6feb36 := by decide
theorem c4a_inv0_e111 : fp_sqr 0x4f57f40d532d21b8572140aaf233b74fbd3ed5aa27bab00ee7dfa2a8f6feb36 = 0x60015eb537b52c281d9ed5ec0ac9fe91ecad74c0ddb5a6167b1bc12a102de578 := by decide
theorem c4a_inv0_e112 : fp_sqr 0x60015eb537b52c281d9ed5ec0ac9fe91ecad74c0ddb5a6167b1bc12a102de578 = 0x8a1f43c2e7eff68d7a92810d1dae66bc2170f26db231774c609431644a9771d6 := by decide
theorem c4a_inv0_e113 : fp_sqr 0x8a1f43c2e7eff68d7a92810d1dae66bc2170f26db231774c609431644a9771d6 = 0x69e30e701d63e4c1e3b5e52ded1327f780a5e0a5cfc209a81c67d6292ede2953 := by decide
theorem c4a_inv0_e114 : fp_sqr 0x69e30e701d63e4c1e3b5e52ded1327f780a5e0a5cfc209a81c67d6292ede2953 = 0x8a265db3f586676be8972fb11bbf411e5fccd66458d4af7a3a674eb76b19f0bc := by decide
theorem c4a_inv0_e115 : fp_sqr 0x8a265db3f586676be8972fb11bbf411e5fccd66458d4af7a3a674eb76b19f0bc = 0xdf846138a8de79cc6b6eb087084df958d3122317e4d2ab32d42aa8374403d005 := by decide
theorem c4a_inv0_e116 : fp_sqr 0xdf846138a8de79cc6b6eb087084df958d3122317e4d2ab32d42aa8374403d005 = 0xd578bb689bff1f6b192342340ac93be053c97272d375f0d7b1011e88f08c929f := by decide
theorem c4a_inv0_e117 : fp_sqr 0xd578bb689bff1f6b192342340ac93be053c97272d375f0d7b1011e88f08c929f = 0x6413e9aca4621c4d4188e018e76c2c180d4433f30b9e69516810e4c81294433d := by decide
theorem c4a_inv0_e118 : fp_sqr 0x6413e9aca4621c4d4188e018e76c2c180d4433f30b9e69516810e4c81294433d = 0x565092df6bb5174dcbccf49b5611df73e4daf3ebd8427b9c67fd6e8a7c587ab := by decide
theorem c4a_inv0_e119 : fp_sqr 0x565092df6bb5174dcbccf49b5611df73e4daf3ebd8427b9c67fd6e8a7c587ab = 0xd358c90ed46d6615f36d201d595164ccb84ab9a937a0c586a6f9fac7b6ecac53 := by decide
theorem c4a_inv0_e120 : fp_sqr 0xd358c90ed46d6615f36d201d595164ccb84ab9a937a0c586a6f9fac7b6ecac53 = 0x74ff2148646b681b33b8419cfd8b0cacc2e45b29291b83c71fc82943f798b182 := by decide
theorem c4a_inv0_e121 : fp_sqr 0x74ff2148646b681b33b8419cfd8b0cacc2e45b29291b83c71fc82943f798b182 = 0x110435b7622ac5591807a320176fad92799a5045c419e9900aa3249b9b33eacf := by decide
theorem c4a_inv0_e122 : fp_sqr 0x110435b7622ac5591807a320176fad92799a5045c419e9900aa3249b9b33eacf = 0xb07b8a6e6057d49b4d2ec7d3cfba4b3c2ebf6f84fd0dd3c826ff6c835d65a930 := by decide
theorem c4a_inv0_e123 : fp_sqr 0xb07b8a6e6057d49b4d2ec7d3cfba4b3c2ebf6f84fd0dd3c826ff6c835d65a930 = 0xc95d0b6a88880d8e805b4c6609c66f5ea4bd5500a7938ff4901a2ecd1eb61f67 := by decide
theorem c4a_inv0_e124 : fp_sqr 0xc95d0b6a88880d8e805b4c6609c66f5ea4bd5500a7938ff4901a2ecd1eb61f67 = 0x105fd462cf4d77d71f295fac76ef3182db04e35aa1356fa3edc09b194d6af963 := by decide
theorem c4a_inv0_e125 : fp_sqr 0x105fd462cf4d77d71f295fac76ef3182db04e35aa1356fa3edc09b194d6af963 = 0x1139ac5367202d63d380e9e615479e9f2869ea333a3999e67846019a79f99f0e := by decide
theorem c4a_inv0_e126 : fp_sqr 0x1139ac5367202d63d380e9e615479e9f2869ea333a3999e67846019a79f99f0e = 0xcfe64613f2655a2b45086f1dfda556792f3804ae99be1c7c0d64141aac5def70 := by decide
theorem c4a_inv0_e127 : fp_sqr 0xcfe64613f2655a2b45086f1dfda556792f3804ae99be1c7c0d64141aac5def70 = 0xe1d89d72b1b9b302a749cab8c8ff70731166ec20dc8ea21a0657aeef0fe60592 := by decide
theorem c4a_inv0_e128 : fp_sqr 0xe1d89d72b1b9b302a749cab8c8ff70731166ec20dc8ea21a0657aeef0fe60592 = 0x8c27e422513c01f4e65f9d9ab9c5adc420125e7c711eefd612fab2ecf910ab75 := by decide
theorem c4a_inv0_e129 : fp_sqr 0x8c27e422513c01f4e65f9d9ab9c5adc420125e7c711eefd612fab2ecf910ab75 = 0xa77ed58466e76934dd9871a2d74ed02a3d2ec64a70915432a3168db384094588 := by decide
theorem c4a_inv0_e130 : fp_sqr 0xa77ed58466e76934dd9871a2d74ed02a3d2ec64a70915432a3168db384094588 = 0xd3cdc5ee60c657681f1cb41c01b74f3e977351ef586f9fe28b3f9c7d113cd85 := by decide
theorem c4a_inv0_e131 : fp_sqr 0xd3cdc5ee60c657681f1cb41c01b74f3e977351ef586f9fe28b3f9c7d113cd85 = 0x4a1a099911dd181938993f2d8bd8a03f0f3343cce135cb88a7492eafdde69d1 := by decide
theorem c4a_inv0_e132 : fp_sqr 0x4a1a099911dd181938993f2d8bd8a03f0f3343cce135cb88a7492eafdde69d1 = 0x7b76d2dce51cf4ff6bca5ab8f675070fa6141d64a805fc094612c353502687bc := by decide
theorem c4a_inv0_e133 : fp_sqr 0x7b76d2dce51cf4ff6bca5ab8f675070fa6141d64a805fc094612c353502687bc = 0x5b4f988fad547adb1ead642070d584b6e07a237033b30e2901eb8439e86449c := by decide
theorem c4a_inv0_e134 : fp_sqr 0x5b4f988fad547adb1ead642070d584b6e07a237033b30e2901eb8439e86449c = 0x181ab3a6d9ec3b7ddb73ada97b4491c02a5f3580a9fd6eab834abf2c9beca0da := by decide
theorem c4a_inv0_e135 : fp_sqr 0x181ab3a6d9ec3b7ddb73ada97b4491c02a5f3580a9fd6eab834abf2c9beca0da = 0xb913bc6aa49571c1b61c253294a1ad3843391e79955567cd378818b7ffaab8cb := by decide
theorem c4a_inv0_e136 : fp_sqr 0xb913bc6aa49571c1b61c253294a1ad3843391e79955567cd378818b7ffaab8cb = 0x1a209fc7b88cbf4f8113479e25cb16eb3d5ccc4357aacda7aede885ff0390e18 := by decide
theorem c4a_inv0_e137 : fp_sqr 0x1a209fc7b88cbf4f8113479e25cb16eb3d5ccc4357aacda7aede885ff0390e18 = 0x700dea07655c784f2af82d7b64276fcbe1c59fbf8342f69ceac1708ca40c391e := by decide
theorem c4a_inv0_e138 : fp_sqr 0x700dea07655c784f2af82d7b64276fcbe1c59fbf8342f69ceac1708ca40c391e = 0x387e819e536b4ccf14d88b5b59b3c9faafcf8312ff9f04e6d52d7fc54898d5f1 := by decide
theorem c4a_inv0_e139 : fp_sqr 0x387e819e536b4ccf14d88b5b59b3c9faafcf8312ff9f04e6d52d7fc54898d5f1 = 0xd8b4e66106c3c12d054e2107bb8191d928a45a7a8adcafbcadc7b4c15358d910 := by decide
theorem c4a_inv0_e140 : fp_sqr 0xd8b4e66106c3c12d054e2107bb8191d928a45a7a8adcafbcadc7b4c15358d910 = 0x947f57680ad98f40be5884eb80a744ae37fcbe22dfd8638bfbdad021a502cf43 := by decide
theorem c4a_inv0_e141 : fp_sqr 0x947f57680ad98f40be5884eb80a744ae37fcbe22dfd8638bfbdad021a502cf43 = 0x8aba9eadea3c048ff23f67464c196ecb7ee79f85eb79fdddd78707e52040f5a2 := by decide
theorem c4a_inv0_e142 : fp_sqr 0x8aba9eadea3c048ff23f67464c196ecb7ee79f85eb79fdddd78707e52040f5a2 = 0xddfd322c768e8d96484a01023200175ab58964bf079ba9ee5604118fdbfda915 := by decide
theorem c4a_inv0_e143 : fp_sqr 0xddfd322c768e8d96484a01023200175ab58964bf079ba9ee5604118fdbfda915 = 0x4539f917cd73d93fe64dbf17e85cef6cf20704e0d5ec4915fccb44708dd786c4 := by decide
theorem c4a_inv0_e144 : fp_sqr 0x4539f917cd73d93fe64dbf17e85cef6cf20704e0d5ec4915fccb44708dd786c4 = 0x11cbc12ec3748cafa1b62b279d2a93d2270f98cf1f7d1f1ad90adab2a403aa02 := by decide
theorem c4a_inv0_e145 : fp_sqr 0x11cbc12ec3748cafa1b62b279d2a93d2270f98cf1f7d1f1ad90adab2a403aa02 = 0x4894668f2d0abfee34645a6a9c2d55bdb2f723b4aee9c3b1a394dfcc523f240 := by decide
theorem c4a_inv0_e146 : fp_sqr 0x4894668f2d0abfee34645a6a9c2d55bdb2f723b4aee9c3b1a394dfcc523f240 = 0x5825cd10476de5aab9452c0970595bd7bbc5b567d7823f94a8d216da5c284dd2 := by decide
theorem c4a_inv0_e147 : fp_sqr 0x5825cd10476de5aab9452c0970595bd7bbc5b567d7823f94a8d216da5c284dd2 = 0x17a5f602752d0a99bcaacc8cedc1ae2bba8042a86b63dbab0cf5d208ff468d0b := by decide
theorem c4a_inv0_e148 : fp_sqr 0x17a5f602752d0a99bcaacc8cedc1ae2bba8042a86b63dbab0cf5d208ff468d0b = 0x6be5f5102821d1df7120aa2b9c477309496851419e26577d9c08446c10c3fd65 := by decide
theorem c4a_inv0_e149 : fp_sqr 0x6be5f5102821d1df7120aa2b9c477309496851419e26577d9c08446c10c3fd65 = 0xfbfa79bbc07c0bc8f82d8df5a6cce33e9eb107c8a3e5409d287f21e39a20a197 := by decide
theorem c4a_inv0_e150 : fp_sqr 0xfbfa79bbc07c0bc8f82d8df5a6cce33e9eb107c8a3e5409d287f21e39a20a197 = 0x201e8e353e55b445de63168839e8b4d9e91b662a87f5588d164ad88a3563817d := by decide
theorem c4a_inv0_e151 : fp_sqr 0x201e8e353e55b445de63168839e8b4d9e91b662a87f5588d164ad88a3563817d = 0xe89c3c7939bf162a54a34952b2c8c1083cb630bc09866223a7819ed4c96d80f8 := by decide
theorem c4a_inv0_e152 : fp_sqr 0xe89c3c7939bf162a54a34952b2c8c1083cb630bc09866223a7819ed4c96d80f8 = 0xd810bad4c0914f5f6ab1747df2bf9c793fd5e042a1c3a5a9c7e245c4be033db4 := by decide
theorem c4a_inv0_e153 : fp_sqr 0xd810bad4c0914f5f6ab1747df2bf9c793fd5e042a1c3a5a9c7e245c4be033db4 = 0x8a817a8c84f7a3a53097201cdfb7ab1e00d53be94b1e161fa68a05a225db94b3 := by decide
theorem c4a_inv0_e154 : fp_sqr 0x8a817a8c84f7a3a53097201cdfb7ab1e00d53be94b1e161fa68a05a225db94b3 = 0x5ea664e405d74c28123c6f1b16476772e9d80aeb002c74d41e1350366dc76adc := by decide
theorem c4a_inv0_e155 : fp_sqr 0x5ea664e405d74c28123c6f1b16476772e9d80aeb002c74d41e1350366dc76adc = 0xca6945e12587fbd6042e65b4bc84b6194278e2355b4f077f66e57ccd0df145ff := by decide
theorem c4a_inv0_e156 : fp_sqr 0xca6945e12587fbd6042e65b4bc84b6194278e2355b4f077f66e57ccd0df145ff = 0xd9bc529ccc54a72f6035884ab324ee5616a87885510544b91e704563372435d1 := by decide
theorem c4a_inv0_e157 : fp_sqr 0xd9bc529ccc54a72f6035884ab324ee5616a87885510544b91e704563372435d1 = 0xa694cfe38733594c51cbdb8429d4c2b31992ddfc838a1bbe3deea98df18b75ca := by decide
theorem c4a_inv0_e158 : fp_sqr 0xa694cfe38733594c51cbdb8429d4c2b31992ddfc838a1bbe3deea98df18b75ca = 0x13c58940fd6975727e06f71b67f548d93ba2266c343231f62ba8a05ad12b08a0 := by decide
theorem c4a_inv0_e159 : fp_sqr 0x13c58940fd6975727e06f71b67f548d93ba2266c343231f62ba8a05ad12b08a0 = 0x3fd6768a5c97008e6b6b96d4b78d6f0131a543c7914af4e232bc58913457866a := by decide
theorem c4a_inv0_e160 : fp_sqr 0x3fd6768a5c97008e6b6b96d4b78d6f0131a543c7914af4e232bc58913457866a = 0x65db7014fa3ba4ec0c42f75cea656980910a4e7ba0746ea9e1e29fd514aa9c93 := by decide
theorem c4a_inv0_e161 : fp_sqr 0x65db7014fa3ba4ec0c42f75cea656980910a4e7ba0746ea9e1e29fd514aa9c93 = 0xff4ec4fd8a5b28c2af0f72621986d84891bd09a571529c87f891923702c0de02 := by decide
theorem c4a_inv0_e162 : fp_sqr 0xff4ec4fd8a5b28c2af0f72621986d84891bd09a571529c87f891923702c0de02 = 0x46e7b7b968325ee74ac0de47249f0c7baadb39126cec6e8276804609a690da85 := by decide
theorem c4a_inv0_e163 : fp_sqr 0x46e7b7b968325ee74ac0de47249f0c7baadb39126cec6e8276804609a690da85 = 0x88fa9f0e336f11fa8d38e6f933d159b0dce229fbbcd67711097cd955e1637232 := by decide
theorem c4a_inv0_e164 : fp_sqr 0x88fa9f0e336f11fa8d38e6f933d159b0dce229fbbcd67711097cd955e1637232 = 0x22d39acf591fdfd14eae6fa768556f20d4eabe06047600e417a82c6febc143f6 := by decide
theorem c4a_inv0_e165 : fp_sqr 0x22d39acf591fdfd14eae6fa768556f20d4eabe06047600e417a82c6febc143f6 = 0xfe3b73e74e30ab5bca4a8bd0734e0779b9b2cd9824b496837cf53e0c7035dd47 := by decide
theorem c4a_inv0_e166 : fp_sqr 0xfe3b73e74e30ab5bca4a8bd0734e0779b9b2cd9824b496837cf53e0c7035dd47 = 0x5fc69f975e61259810a26c5ad84f4e730b6ee121a3827b368e18952542a928ee := by decide
theorem c4a_inv0_e167 : fp_sqr 0x5fc69f975e61259810a26c5ad84f4e730b6ee121a3827b368e18952542a928ee = 0xae368f8b46bdb126d8cae7f98dd99f3944693656a83348eecc65dc4a54c918c7 := by decide
theorem c4a_inv0_e168 : fp_sqr 0xae368f8b46bdb126d8cae7f98dd99f3944693656a83348eecc65dc4a54c918c7 = 0x7322ff81b407d1671e81db05428ad927a64418738c1ea301db72ed31f740a7ac := by decide
theorem c4a_inv0_e169 : fp_sqr 0x7322ff81b407d1671e81db05428ad927a64418738c1ea301db72ed31f740a7ac = 0xa0c0e551c388e33a8f6cb2e2e89da96e65c6448803939e0724ba80e47299a041 := by decide
theorem c4a_inv0_e170 : fp_sqr 0xa0c0e551c388e33a8f6cb2e2e89da96e65c6448803939e0724ba80e47299a041 = 0x7cc84675d8aaa466c7e24907bb55668d550d99dfe82e899a8031fe47f1c14a59 := by decide
theorem c4a_inv0_e171 : fp_sqr 0x7cc84675d8aaa466c7e24907bb55668d550d99dfe82e899a8031fe47f1c14a59 = 0x31af421cbaf34750feeb331dfd0c70f7c6b19595b597e203d284899b6d0a266f := by decide
theorem c4a_inv0_e172 : fp_sqr 0x31af421cbaf34750feeb331dfd0c70f7c6b19595b597e203d284899b6d0a266f = 0x1766502b36695a472b0c1fe4d1cfdafbb25242882b34fe704e18bf792461f897 := by decide
theorem c4a_inv0_e173 : fp_sqr 0x1766502b36695a472b0c1fe4d1cfdafbb25242882b34fe704e18bf792461f897 = 0xf07b69d5d3d0d49a24d61163cd9e12d5d45da50b4e4c4fabadc8061d92fe965 := by decide
theorem c4a_inv0_e174 : fp_sqr 0xf07b69d5d3d0d49a24d61163cd9e12d5d45da50b4e4c4fabadc8061d92fe965 = 0x99266f66b4556bdd3398ae55c64850f533aa60aab8589d069ea02abf784edbc1 := by decide
theorem c4a_inv0_e175 : fp_sqr 0x99266f66b4556bdd3398ae55c64850f533aa60aab8589d069ea02abf784edbc1 = 0x2504aa860a359efc75e2bf2faf4fc98b621e6e3560d3fc1b5c2218145d5db633 := by decide
theorem c4a_inv0_e176 : fp_sqr 0x2504aa860a359efc75e2bf2faf4fc98b621e6e3560d3fc1b5c2218145d5db633 = 0x1c61d7c10f3dd2451c106b2b4e469c08c50749a13afd610992d6829f4161e6cc := by decide
theorem c4a_inv0_e177 : fp_sqr 0x1c61d7c10f3dd2451c106b2b4e469c08c50749a13afd610992d6829f4161e6cc = 0x28a750f890041bc4763687d8b3081548d322eb0b4a07b8f7a2afdca658869bf6 := by decide
theorem c4a_inv0_e178 : fp_sqr 0x28a750f890041bc4763687d8b3081548d322eb0b4a07b8f7a2afdca658869bf6 = 0x5953cac03d1d948bc6a9cf3207fd888567137892b9d09b44c3e0fbe13119a440 := by decide
theorem c4a_inv0_e179 : fp_sqr 0x5953cac03d1d948bc6a9cf3207fd888567137892b9d09b44c3e0fbe13119a440 = 0xafc7126166bca476a82542e65cfe003c950978a03562c9747bf50292bda78c6c := by decide
theorem c4a_inv0_e180 : fp_sqr 0xafc7126166bca476a82542e65cfe003c950978a03562c9747bf50292bda78c6c = 0x3958e4021f7874059559639cf06abca03db920bdc2094d7eada5d1b2f3d61f92 := by decide
theorem c4a_inv0_e181 : fp_sqr 0x3958e4021f7874059559639cf06abca03db920bdc2094d7eada5d1b2f3d61f92 = 0x7fb69d1d7e59ff7cbe298d87774500f1523ce3ec947f6933e93d82e3ac171fcd := by decide
theorem c4a_inv0_e182 : fp_sqr 0x7fb69d1d7e59ff7cbe298d87774500f1523ce3ec947f6933e93d82e3ac171fcd = 0x418256217ef31bc34cccd55ecf89387c3efeb78dd6540441d115e10885cf09b1 := by decide
theorem c4a_inv0_e183 : fp_mul 0x418256217ef31bc34cccd55ecf89387c3efeb78dd6540441d115e10885cf09b1 0x5e8e1f6b85219883113c2bbe030c8d994b412834fc51162632eda9f28f85f211 = 0xce1cc7bb852c03c208225b223dc904e71346d20b85fb710a856eccc43f3dd8f3 := by decide
theorem c4a_inv0_e184 : fp_sqr 0xce1cc7bb852c03c208225b223dc904e71346d20b85fb710a856eccc43f3dd8f3 = 0xfdc50370773bb055599757e2225f1786356a0c8f225434a31425e508df4c56ea := by decide
theorem c4a_inv0_e185 : fp_sqr 0xfdc50370773bb055599757e2225f1786356a0c8f225434a31425e508df4c56ea = 0x16ed52434143508415e0c8744d100e93d2b944e40d618e4d1463a8122c51f4c9 := by decide
theorem c4a_inv0_e186 : fp_sqr 0x16ed52434143508415e0c8744d100e93d2b944e40d618e4d1463a8122c51f4c9 = 0xc9495be251fb02b9727ca5cc5450d64501548a38c6e611020f5842fb95aa7fdd := by decide
theorem c4a_inv0_e187 : fp_sqr 0xc9495be251fb02b9727ca5cc5450d64501548a38c6e611020f5842fb95aa7fdd = 0xef278bbc7644e4b1c356a9e47944f03a06b980a2e6d387553a7749fce397eda := by decide
theorem c4a_inv0_e188 : fp_sqr 0xef278bbc7644e4b1c356a9e47944f03a06b980a2e6d387553a7749fce397eda = 0xa1022d054d8801086e3501fd1046ec237f3dabd67d8474796215c4317c178ff5 := by decide
theorem c4a_inv0_e189 : fp_sqr 0xa1022d054d8801086e3501fd1046ec237f3dabd67d8474796215c4317c178ff5 = 0x23b2e80845581e6a0dea4ccecba8aff699997163ea08db0c3348ebe10081f95b := by decide
theorem c4a_inv0_e190 : fp_sqr 0x23b2e80845581e6a0dea4ccecba8aff699997163ea08db0c3348ebe10081f95b = 0x3de6b14049317f141121caaf60e5e1fe4ee3b443919b83195cb7c5b70a8c513e := by decide
theorem c4a_inv0_e191 : fp_sqr 0x3de6b14049317f141121caaf60e5e1fe4ee3b443919b83195cb7c5b70a8c513e = 0x36ffd83348c2072fc0342ff9878e79cfb687b349f299a60651b09a69034ed00a := by decide
theorem c4a_inv0_e192 : fp_sqr 0x36ffd83348c2072fc0342ff9878e79cfb687b349f299a60651b09a69034ed00a = 0x87850cf8a1f1753e9775d17f8b16e6fa94724e831b86aa12ea3521606c55b14 := by decide
theorem c4a_inv0_e193 : fp_sqr 0x87850cf8a1f1753e9775d17f8b16e6fa94724e831b86aa12ea3521606c55b14 = 0xcabd4f95520228f09c4b55b3c709fc5b466e229e7d223dea5eaa73722eeb8893 := by decide
theorem c4a_inv0_e194 : fp_sqr 0xcabd4f95520228f09c4b55b3c709fc5b466e229e7d223dea5eaa73722eeb8893 = 0xd1cd162e90cafead61002726757a7af3a749b653eaf272781f88b986dc2dc41f := by decide
theorem c4a_inv0_e195 : fp_sqr 0xd1cd162e90cafead61002726757a7af3a749b653eaf272781f88b986dc2dc41f = 0x4f9bbd5a49de1bfca8d842a4b033579b7e2983357fd8fa3e5ea81895ff932748 := by decide
theorem c4a_inv0_e196 : fp_sqr 0x4f9bbd5a49de1bfca8d842a4b033579b7e2983357fd8fa3e5ea81895ff932748 = 0xef5d15e488585806c392c5a60d865857ca661954373522189ebd717ab06ea059 := by decide
theorem c4a_inv0_e197 : fp_sqr 0xef5d15e488585806c392c5a60d865857ca661954373522189ebd717ab06ea059 = 0x27e41b8a003baaa6d73b6e9e87f93fe098c272e385402ed2f08bcbbec4f22500 := by decide
theorem c4a_inv0_e198 : fp_sqr 0x27e41b8a003baaa6d73b6e9e87f93fe098c272e385402ed2f08bcbbec4f22500 = 0x126f265110d6803ed84705a21aea278f5d7c6d2dfdd0573d2b04e82293d47ec8 := by decide
theorem c4a_inv0_e199 : fp_sqr 0x126f265110d6803ed84705a21aea278f5d7c6d2dfdd0573d2b04e82293d47ec8 = 0xfd4b42d092183d69e6b009f205a989a7dca172c9b279cae4fde7316b8e7f4278 := by decide
theorem c4a_inv0_e200 : fp_sqr 0xfd4b42d092183d69e6b009f205a989a7dca172c9b279cae4fde7316b8e7f4278 = 0xeaa58425c1411a167eac05941d7a990ad08eefd344668e9b5dbe4198a1da9238 := by decide
theorem c4a_inv0_e201 : fp_sqr 0xeaa58425c1411a167eac05941d7a990ad08eefd344668e9b5dbe4198a1da9238 = 0x9f3ce720aaeb7603e74ee6ce6c833a3cd65de5ed81f15611c3374650766acd3e := by decide
theorem c4a_inv0_e202 : fp_sqr 0x9f3ce720aaeb7603e74ee6ce6c833a3cd65de5ed81f15611c3374650766acd3e = 0x89ae2b852249f18704c1ccdd628da91319cda3bae24dc34cf57b7d7eb91231ab := by decide
theorem c4a_inv0_e203 : fp_sqr 0x89ae2b852249f18704c1ccdd628da91319cda3bae24dc34cf57b7d7eb91231ab = 0x3613a860fa382bae7b0467b13e4a73997bd59fa0f6f6786bd5ea7f240fd365e6 := by decide
theorem c4a_inv0_e204 : fp_sqr 0x3613a860fa382bae7b0467b13e4a73997bd59fa0f6f6786bd5ea7f240fd365e6 = 0xb39d518bfa644fee423a1f67ba554997a45e799093892302417d1077241a633c := by decide
theorem c4a_inv0_e205 : fp_sqr 0xb39d518bfa644fee423a1f67ba554997a45e799093892302417d1077241a633c = 0xd6062d38505aab9ec2edf67053384baf63cd1de7b9c3b140145ed144b26dec96 := by decide
theorem c4a_inv0_e206 : fp_sqr 0xd6062d38505aab9ec2edf67053384baf63cd1de7b9c3b140145ed144b26dec96 = 0xb95b1c4d10c06d035ae8d4324bfe40b4a54a196cb29882f7c3dacb46ee440ab6 := by decide
theorem c4a_inv0_e207 : fp_sqr 0xb95b1c4d10c06d035ae8d4324bfe40b4a54a196cb29882f7c3dacb46ee440ab6 = 0x44005ea29e3a320a7b33e169963187469b1a2f4c1a71cafb50cc40476af8eec2 := by decide
theorem c4a_inv0_e208 : fp_sqr 0x44005ea29e3a320a7b33e169963187469b1a2f4c1a71cafb50cc40476af8eec2 = 0x4af0fde19d7afe3bd90c743bdab7aa4d9fcfafb3e2046deff9efb53346e41100 := by decide
theorem c4a_inv0_e209 : fp_sqr 0x4af0fde19d7afe3bd90c743bdab7aa4d9fcfafb3e2046deff9efb53346e41100 = 0x2e08287eb2e1831897bf101dffc3f1ef146bf3d50c7147a502029a0918186ac9 := by decide
theorem c4a_inv0_e210 : fp_sqr 0x2e08287eb2e1831897bf101dffc3f1ef146bf3d50c7147a502029a0918186ac9 = 0x37c4e8fddeb71622054729c987be1ff2a21bc88c8e62eb13694a65efefa8922c := by decide
theorem c4a_inv0_e211 : fp_sqr 0x37c4e8fddeb71622054729c987be1ff2a21bc88c8e62eb13694a65efefa8922c = 0x9fd45dc7a0046052643a7e39ab072c19600ca93d17bd5c22083ad2e8a2b32557 := by decide
theorem c4a_inv0_e212 : fp_sqr 0x9fd45dc7a0046052643a7e39ab072c19600ca93d17bd5c22083ad2e8a2b32557 = 0x7c91c7cad6833840f9dd9b8d0da5833d264ceef2a483f1a0fe6b7443b07060d1 := by decide
theorem c4a_inv0_e213 : fp_sqr 0x7c91c7cad6833840f9dd9b8d0da5833d264ceef2a483f1a0fe6b7443b07060d1 = 0x7d8680243675ca435b0c1a0ace7b9299cf862e1fa1b1a6f7dbf9bd19a1fe3084 := by decide
theorem c4a_inv0_e214 : fp_sqr 0x7d8680243675ca435b0c1a0ace7b9299cf862e1fa1b1a6f7dbf9bd19a1fe3084 = 0x9b4ade2d551d288fe25b38e67d554e6817aa8adef6cc9d31b9e1b51760b2e68f := by decide
theorem c4a_inv0_e215 : fp_sqr 0x9b4ade2d551d288fe25b38e67d554e6817aa8adef6cc9d31b9e1b51760b2e68f = 0xbfb9a48c1f1910ff09dc942cf91074ae2291a7f72e8ff25053d82e6735efa72b := by decide
theorem c4a_inv0_e216 : fp_sqr 0xbfb9a48c1f1910ff09dc942cf91074ae2291a7f72e8ff25053d82e6735efa72b = 0xac55f926c58dc189037bfb32e9aa7e186778d27fc5c56bd099b7d6c66549f878 := by decide
theorem c4a_inv0_e217 : fp_sqr 0xac55f926c58dc189037bfb32e9aa7e186778d27fc5c56bd099b7d6c66549f878 = 0xa79a4e950d7bafc3fd050bbaa755c9c1f58ea20e102efdb789a0167286b6656b := by decide
theorem c4a_inv0_e218 : fp_sqr 0xa79a4e950d7bafc3fd050bbaa755c9c1f58ea20e102efdb789a0167286b6656b = 0x8c7dbfce964b473a2469027be9d35c53d748efbee4c5e83449f34a29935ba53c := by decide
theorem c4a_inv0_e219 : fp_sqr 0x8c7dbfce964b473a2469027be9d35c53d748efbee4c5e83449f34a29935ba53c = 0x2390256738ee41f9c0ab6610d42999c7a3662bec2866485d6fc39014422fce27 := by decide
theorem c4a_inv0_e220 : fp_sqr 0x2390256738ee41f9c0ab6610d42999c7a3662bec2866485d6fc39014422fce27 = 0x7d296868750a110de2b7331c55e6d36af844f58444aefcb28633f376b7f4aaab := by decide
theorem c4a_inv0_e221 : fp_sqr 0x7d296868750a110de2b7331c55e6d36af844f58444aefcb28633f376b7f4aaab = 0x9466f992eaeb2f4fa8007a8d1d4392d81d47909136c5771244e726fa58fa027b := by decide
theorem c4a_inv0_e222 : fp_sqr 0x9466f992eaeb2f4fa8007a8d1d4392d81d47909136c5771244e726fa58fa027b = 0xd3bb533f8ea2d9626d966ab0638c8bee2efc0704342e6d28616ea281f4b6ed51 := by decide
theorem c4a_inv0_e223 : fp_sqr 0xd3bb533f8ea2d9626d966ab0638c8bee2efc0704342e6d28616ea281f4b6ed51 = 0x9e8d9be099ec67dae42df7ed7b562d3825418e9138784d9d7275f6b9616739c8 := by decide
theorem c4a_inv0_e224 : fp_sqr 0x9e8d9be099ec67dae42df7ed7b562d3825418e9138784d9d7275f6b9616739c8 = 0x91c4b809f9698142a3f2a6033ba543d6a8563aeaf8d0b7c3dbbbff203b299f60 := by decide
theorem c4a_inv0_e225 : fp_sqr 0x91c4b809f9698142a3f2a6033ba543d6a8563aeaf8d0b7c3dbbbff203b299f60 = 0x8bff7a415ee151bba2f16561a36009bfef268590cd835ed2d884d59b6b15f328 := by decide
theorem c4a_inv0_e226 : fp_sqr 0x8bff7a415ee151bba2f16561a36009bfef268590cd835ed2d884d59b6b15f328 = 0xe6ae0d76b39f599ebefe57399e3772447843221afb092efee32560fd01ab84cd := by decide
theorem c4a_inv0_e227 : fp_sqr 0xe6ae0d76b39f599ebefe57399e3772447843221afb092efee32560fd01ab84cd = 0xe5887521a7b6465e99646e2515ae6c048bcfd14e6e944077d9bd4c162d7b7599 := by decide
theorem c4a_inv0_e228 : fp_mul 0xe5887521a7b6465e99646e2515ae6c048bcfd14e6e944077d9bd4c162d7b7599 0x700657b81b247c296d1359899fe3bcc967d209a847a9d11f0ed4c42786e26657 = 0xbbb0733470dbf70a7eb020404fbd649c29dbf11c917b868b01b157b3116bfb3e := by decide
theorem c4a_inv0_e229 : fp_sqr 0xbbb0733470dbf70a7eb020404fbd649c29dbf11c917b868b01b157b3116bfb3e = 0x9158176c481fdd6e52a62df973d42ae9db00dd214bbffadb0d3f958c6aa5b7fd := by decide
theorem c4a_inv0_e230 : fp_sqr 0x9158176c481fdd6e52a62df973d42ae9db00dd214bbffadb0d3f958c6aa5b7fd = 0x441a72e82d3cf95958adf0c0d32380147cda2613eeac417d3713c9b147cb030b := by decide
theorem c4a_inv0_e231 : fp_sqr 0x441a72e82d3cf95958adf0c0d32380147cda2613eeac417d3713c9b147cb030b = 0xd5130cf645b2fe07c6c775f95c48a4e355cbd285dc55e5d3e59e636ba1a3c93e := by decide
theorem c4a_inv0_e232 : fp_mul 0xd5130cf645b2fe07c6c775f95c48a4e355cbd285dc55e5d3e59e636ba1a3c93e 0x6b2e39393e3ba9cb60c759fa6601bf8d4cc2353368a6fd054af84bb40332b581 = 0x1d131724c288ad5ff22480505dc687db5e076306256ded3a4b2f89c11736757b := by decide
theorem c4a_inv0_e233 : fp_sqr 0x1d131724c288ad5ff22480505dc687db5e076306256ded3a4b2f89c11736757b = 0xc307d57e50deb5e93bb791ccdb504ba40921d93f13c28ca85009e7d58fb116b2 := by decide
theorem c4a_inv0_e234 : fp_sqr 0xc307d57e50deb5e93bb791ccdb504ba40921d93f13c28ca85009e7d58fb116b2 = 0x75954e83f598f24e57b763b86a4093223630af6a461a4ebbebc4f78916e3f386 := by decide
theorem c4a_inv0_e235 : fp_sqr 0x75954e83f598f24e57b763b86a4093223630af6a461a4ebbebc4f78916e3f386 = 0x68185d3e86fbc07a1fb1aea956c7ed607767d228f8980a19db3a3cca6d9ab82b := by decide
theorem c4a_inv0_e236 : fp_sqr 0x68185d3e86fbc07a1fb1aea956c7ed607767d228f8980a19db3a3cca6d9ab82b = 0xc11e4e4defeac2a06ac41b27687ff45e04a5a12530d6de54b1470189192c882a := by decide
theorem c4a_inv0_e237 : fp_sqr 0xc11e4e4defeac2a06ac41b27687ff45e04a5a12530d6de54b1470189192c882a = 0x82672e80ce0fa8106812b1e06337b31ebc2a9065057a021dbc431ef4d5dfcb3d := by decide
theorem c4a_inv0_e238 : fp_sqr 0x82672e80ce0fa8106812b1e06337b31ebc2a9065057a021dbc431ef4d5dfcb3d = 0xf67865f3e61a2580f4ad9b8a3000c0fca316bdd4cd2a974cdfefcb95132fad91 := by decide
theorem c4a_inv0_e239 : fp_sqr 0xf67865f3e61a2580f4ad9b8a3000c0fca316bdd4cd2a974cdfefcb95132fad91 = 0x361fdcd0407c61bb6e61765ca50c52f3290020c290f006163817c2251ee03534 := by decide
theorem c4a_inv0_e240 : fp_sqr 0x361fdcd0407c61bb6e61765ca50c52f3290020c290f006163817c2251ee03534 = 0xabc0eebb5fb024e2766c03479cce16ef861614d2ac040bade7831dd7c95cf369 := by decide
theorem c4a_inv0_e241 : fp_sqr 0xabc0eebb5fb024e2766c03479cce16ef861614d2ac040bade7831dd7c95cf369 = 0xab3c32f28ecf7cd7d638aff9fef35ea310fda1fa42323f02812f0f17bcad38ae := by decide
theorem c4a_inv0_e242 : fp_sqr 0xab3c32f28ecf7cd7d638aff9fef35ea310fda1fa42323f02812f0f17bcad38ae = 0xa594a6e6be690dba3b81d77ff9603a7e4726cc860abee6e2299c43265e540d4 := by decide
theorem c4a_inv0_e243 : fp_sqr 0xa594a6e6be690dba3b81d77ff9603a7e4726cc860abee6e2299c43265e540d4 = 0xae5d51d0c9c5263c93d2033b3304150d25834d6e14968b3a9c4560987e526d7e := by decide
theorem c4a_inv0_e244 : fp_sqr 0xae5d51d0c9c5263c93d2033b3304150d25834d6e14968b3a9c4560987e526d7e = 0x42c8470094fa143f404aab43a184d64d57326429d2e2919d5598afec78db5c85 := by decide
theorem c4a_inv0_e245 : fp_sqr 0x42c8470094fa143f404aab43a184d64d57326429d2e2919d5598afec78db5c85 = 0x443f046f6c3c2f18e143afa5fc9500beeaa7c608f43a522399b18e5604986eea := by decide
theorem c4a_inv0_e246 : fp_sqr 0x443f046f6c3c2f18e143afa5fc9500beeaa7c608f43a522399b18e5604986eea = 0x37b5f202b2e7f9d4270e192655e7f7950b28f0a86c83368eb98d032fd42bec72 := by decide
theorem c4a_inv0_e247 : fp_sqr 0x37b5f202b2e7f9d4270e192655e7f7950b28f0a86c83368eb98d032fd42bec72 = 0x92bd4e136746793a020172d34b89c83bb473b8967660e61db9735fde4093ba15 := by decide
theorem c4a_inv0_e248 : fp_sqr 0x92bd4e136746793a020172d34b89c83bb473b8967660e61db9735fde4093ba15 = 0x1ed6728e9c9a538595b7abfb2abd0a13dcd5067c7a31d45a994cf6a7a6586a06 := by decide
theorem c4a_inv0_e249 : fp_sqr 0x1ed6728e9c9a538595b7abfb2abd0a13dcd5067c7a31d45a994cf6a7a6586a06 = 0x62725fbf5b7566fa28d0bc466d350c2c60a2c0561cca5a834ee401b0759e0f5a := by decide
theorem c4a_inv0_e250 : fp_sqr 0x62725fbf5b7566fa28d0bc466d350c2c60a2c0561cca5a834ee401b0759e0f5a = 0x3b3bb098fe4e1ebde0ce821cd8ccd347d7157e73d830d57ec0fc615415625b29 := by decide
theorem c4a_inv0_e251 : fp_sqr 0x3b3bb098fe4e1ebde0ce821cd8ccd347d7157e73d830d57ec0fc615415625b29 = 0x499fa8c7b0daf9ea2d56967d3f4018d8b10ca1457867ed40750503095a532b0e := by decide
theorem c4a_inv0_e252 : fp_sqr 0x499fa8c7b0daf9ea2d56967d3f4018d8b10ca1457867ed40750503095a532b0e = 0x6d2b8e583ddbe17eb3e7d39de98fc9681fec80de2ec177b60e4ed15d5b85056a := by decide
theorem c4a_inv0_e253 : fp_sqr 0x6d2b8e583ddbe17eb3e7d39de98fc9681fec80de2ec177b60e4ed15d5b85056a = 0x80e8880571ae303701438f64cd3cdfe190ae6afb60ed032487e627578e2cb2a4 := by decide
theorem c4a_inv0_e254 : fp_sqr 0x80e8880571ae303701438f64cd3cdfe190ae6afb60ed032487e627578e2cb2a4 = 0xed0d7aa2a72edb314298c5cd42fe73140a95009dc9bd11d8df0ac26421bc3 := by decide
theorem c4a_inv0_e255 : fp_sqr 0xed0d7aa2a72edb314298c5cd42fe73140a95009dc9bd11d8df0ac26421bc3 = 0xd31c0704a6b62aab3d14d913b54786ea6b50f25ebdcaae6ec9bc9e4bfd9be269 := by decide
theorem c4a_inv0_e256 : fp_mul 0xd31c0704a6b62aab3d14d913b54786ea6b50f25ebdcaae6ec9bc9e4bfd9be269 0x4d708306294e98062d5e5b98bb77e5c97d12683647843e1ed293a792b4b500aa = 0x895feb85feae18e5d108b9bc264ab588483967d22be6060ccb3cec1d3c8aba4 := by decide
theorem c4a_inv0_e257 : fp_sqr 0x895feb85feae18e5d108b9bc264ab588483967d22be6060ccb3cec1d3c8aba4 = 0x645be37e5ae78ae04238870d0c20057a65b4abe721d44dffe69de371875b0110 := by decide
theorem c4a_inv0_e258 : fp_sqr 0x645be37e5ae78ae04238870d0c20057a65b4abe721d44dffe69de371875b0110 = 0x96ed203fc054d1a118ffd5b7be7001ef454d63061006955c336feb2170b19c1a := by decide
theorem c4a_inv0_e259 : fp_sqr 0x96ed203fc054d1a118ffd5b7be7001ef454d63061006955c336feb2170b19c1a = 0xb9167eac07ae980f65315ee0c1886075c4d296b0657d992ebbade1c2fa77c9d1 := by decide
theorem c4a_inv0_e260 : fp_sqr 0xb9167eac07ae980f65315ee0c1886075c4d296b0657d992ebbade1c2fa77c9d1 = 0x844808eee5d5c18c523a2517e2c5a1e3590d0b19e0883ab764b499824d1fa252 := by decide
theorem c4a_inv0_e261 : fp_sqr 0x844808eee5d5c18c523a2517e2c5a1e3590d0b19e0883ab764b499824d1fa252 = 0x90dfd3a0a93127dfd57da7bac1d190c05b0b9d5f357fc69395fc17a1c9978382 := by decide
theorem c4a_inv0_e262 : fp_mul 0x90dfd3a0a93127dfd57da7bac1d190c05b0b9d5f357fc69395fc17a1c9978382 0xb3b9e6eab7ef3e3f255b222738c68e2ea6246e8fa0deec31ae4677a0ba8774e2 = 0x50b925be592a897dd5f6ecfe619d781001ea1b3d47a829ef0489c0165492ca68 := by decide
theorem c4a_inv0_e263 : fp_sqr 0x50b925be592a897dd5f6ecfe619d781001ea1b3d47a829ef0489c0165492ca68 = 0xc2323a7b8e479dfd08e385edc6fbbd55dbd3522df6bcb839e096d713e3f565df := by decide
theorem c4a_inv0_e264 : fp_sqr 0xc2323a7b8e479dfd08e385edc6fbbd55dbd3522df6bcb839e096d713e3f565df = 0xf4f00dc26826606b9328895931a796e8c4788e389f8a854d11533cb81e1a9380 := by decide
theorem c4a_inv0_e265 : fp_sqr 0xf4f00dc26826606b9328895931a796e8c4788e389f8a854d11533cb81e1a9380 = 0xc07aad064e362ac1f5c5f8b5a69a4e78a823a5787fb207329d71335ef14e60c4 := by decide
theorem c4a_inv0_e266 : fp_mul 0xc07aad064e362ac1f5c5f8b5a69a4e78a823a5787fb207329d71335ef14e60c4 0x30ee324c444c6848abbad2819df355e9380533c4ff5111c70fba1618b8fb1768 = 0x44fb40dfd6b58ecc2c6119de8f3548b693cd60da8536b1c77e664748789e61bd := by decide
theorem c4a_inv0_e267 : fp_sqr 0x44fb40dfd6b58ecc2c6119de8f3548b693cd60da8536b1c77e664748789e61bd = 0xac946f7cd9ccebb8d59803e73c7d12aa395b2eb7e59a8ba119742df442fc6604 := by decide
theorem c4a_inv0_e268 : fp_sqr 0xac946f7cd9ccebb8d59803e73c7d12aa395b2eb7e59a8ba119742df442fc6604 = 0xf40eddc56be412ce1fac22510fd4f9c249c90fbb8644213e53bba51fd56c8015 := by decide
theorem c4a_inv0_value : fp_inv 0xb3b9e6eab7ef3e3f255b222738c68e2ea6246e8fa0deec31ae4677a0ba8774e2 = 0xf40eddc56be412ce1fac22510fd4f9c249c90fbb8644213e53bba51fd56c8015 := by
  simp only [fp_inv, sqrN_step_1, sqrN_step_2, sqrN_step_3, sqrN_step_4, sqrN_step_5, sqrN_step_6, sqrN_step_7, sqrN_step_8, sqrN_step_9, sqrN_step_10, sqrN_step_11, sqrN_step_12, sqrN_step_13, sqrN_step_14, sqrN_step_15, sqrN_step_16, sqrN_step_17, sqrN_step_18, sqrN_step_19, sqrN_step_20, sqrN_step_21, sqrN_step_22, sqrN_step_23, sqrN_step_24, sqrN_step_25, sqrN_step_26, sqrN_step_27, sqrN_step_28, sqrN_step_29, sqrN_step_30, sqrN_step_31, sqrN_step_32, sqrN_step_33, sqrN_step_34, sqrN_step_35, sqrN_step_36, sqrN_step_37, sqrN_step_38, sqrN_step_39, sqrN_step_40, sqrN_step_41, sqrN_step_42, sqrN_step_43, sqrN_step_44, sqrN_step_45, sqrN_step_46, sqrN_step_47, sqrN_step_48, sqrN_step_49, sqrN_step_50, sqrN_step_51, sqrN_step_52, sqrN_step_53, sqrN_step_54, sqrN_step_55, sqrN_step_56, sqrN_step_57, sqrN_step_58, sqrN_step_59, sqrN_step_60, sqrN_step_61, sqrN_step_62, sqrN_step_63, sqrN_step_64, sqrN_step_65, sqrN_step_66, sqrN_step_67, sqrN_step_68, sqrN_step_69, sqrN_step_70, sqrN_step_71, sqrN_step_72, sqrN_step_73, sqrN_step_74, sqrN_step_75, sqrN_step_76, sqrN_step_77, sqrN_step_78, sqrN_step_79, sqrN_step_80, sqrN_step_81, sqrN_step_82, sqrN_step_83, sqrN_step_84, sqrN_step_85, sqrN_step_86, sqrN_step_87, sqrN_step_88, sqrN_zero, c4a_inv0_e0, c4a_inv0_e1, c4a_inv0_e2, c4a_inv0_e3, c4a_inv0_e4, c4a_inv0_e5, c4a_inv0_e6, c4a_inv0_e7, c4a_inv0_e8, c4a_inv0_e9, c4a_inv0_e10, c4a_inv0_e11, c4a_inv0_e12, c4a_inv0_e13, c4a_inv0_e14, c4a_inv0_e15, c4a_inv0_e16, c4a_inv0_e17, c4a_inv0_e18, c4a_inv0_e19, c4a_inv0_e20, c4a_inv0_e21, c4a_inv0_e22, c4a_inv0_e23, c4a_inv0_e24, c4a_inv0_e25, c4a_inv0_e26, c4a_inv0_e27, c4a_inv0_e28, c4a_inv0_e29, c4a_inv0_e30, c4a_inv0_e31, c4a_inv0_e32, c4a_inv0_e33, c4a_inv0_e34, c4a_inv0_e35, c4a_inv0_e36, c4a_inv0_e37, c4a_inv0_e38, c4a_inv0_e39, c4a_inv0_e40, c4a_inv0_e41, c4a_inv0_e42, c4a_inv0_e43, c4a_inv0_e44, c4a_inv0_e45, c4a_inv0_e46, c4a_inv0_e47, c4a_inv0_e48, c4a_inv0_e49, c4a_inv0_e50, c4a_inv0_e51, c4a_inv0_e52, c4a_inv0_e53, c4a_inv0_e54, c4a_inv0_e55, c4a_inv0_e56, c4a_inv0_e57, c4a_inv0_e58, c4a_inv0_e59, c4a_inv0_e60, c4a_inv0_e61, c4a_inv0_e62, c4a_inv0_e63, c4a_inv0_e64, c4a_inv0_e65, c4a_inv0_e66, c4a_inv0_e67, c4a_inv0_e68, c4a_inv0_e69, c4a_inv0_e70, c4a_inv0_e71, c4a_inv0_e72, c4a_inv0_e73, c4a_inv0_e74, c4a_inv0_e75, c4a_inv0_e76, c4a_inv0_e77, c4a_inv0_e78, c4a_inv0_e79, c4a_inv0_e80, c4a_inv0_e81, c4a_inv0_e82, c4a_inv0_e83, c4a_inv0_e84, c4a_inv0_e85, c4a_inv0_e86, c4a_inv0_e87, c4a_inv0_e88, c4a_inv0_e89, c4a_inv0_e90, c4a_inv0_e91, c4a_inv0_e92, c4a_inv0_e93, c4a_inv0_e94, c4a_inv0_e95, c4a_inv0_e96, c4a_inv0_e97, c4a_inv0_e98, c4a_inv0_e99, c4a_inv0_e100, c4a_inv0_e101, c4a_inv0_e102, c4a_inv0_e103, c4a_inv0_e104, c4a_inv0_e105, c4a_inv0_e106, c4a_inv0_e107, c4a_inv0_e108, c4a_inv0_e109, c4a_inv0_e110, c4a_inv0_e111, c4a_inv0_e112, c4a_inv0_e113, c4a_inv0_e114, c4a_inv0_e115, c4a_inv0_e116, c4a_inv0_e117, c4a_inv0_e118, c4a_inv0_e119, c4a_inv0_e120, c4a_inv0_e121, c4a_inv0_e122, c4a_inv0_e123, c4a_inv0_e124, c4a_inv0_e125, c4a_inv0_e126, c4a_inv0_e127, c4a_inv0_e128, c4a_inv0_e129, c4a_inv0_e130, c4a_inv0_e131, c4a_inv0_e132, c4a_inv0_e133, c4a_inv0_e134, c4a_inv0_e135, c4a_inv0_e136, c4a_inv0_e137, c4a_inv0_e138, c4a_inv0_e139, c4a_inv0_e140, c4a_inv0_e141, c4a_inv0_e142, c4a_inv0_e143, c4a_inv0_e144, c4a_inv0_e145, c4a_inv0_e146, c4a_inv0_e147, c4a_inv0_e148, c4a_inv0_e149, c4a_inv0_e150, c4a_inv0_e151, c4a_inv0_e152, c4a_inv0_e153, c4a_inv0_e154, c4a_inv0_e155, c4a_inv0_e156, c4a_inv0_e157, c4a_inv0_e158, c4a_inv0_e159, c4a_inv0_e160, c4a_inv0_e161, c4a_inv0_e162, c4a_inv0_e163, c4a_inv0_e164, c4a_inv0_e165, c4a_inv0_e166, c4a_inv0_e167, c4a_inv0_e168, c4a_inv0_e169, c4a_inv0_e170, c4a_inv0_e171, c4a_inv0_e172, c4a_inv0_e173, c4a_inv0_e174, c4a_inv0_e175, c4a_inv0_e176, c4a_inv0_e177, c4a_inv0_e178, c4a_inv0_e179, c4a_inv0_e180, c4a_inv0_e181, c4a_inv0_e182, c4a_inv0_e183, c4a_inv0_e184, c4a_inv0_e185, c4a_inv0_e186, c4a_inv0_e187, c4a_inv0_e188, c4a_inv0_e189, c4a_inv0_e190, c4a_inv0_e191, c4a_inv0_e192, c4a_inv0_e193, c4a_inv0_e194, c4a_inv0_e195, c4a_inv0_e196, c4a_inv0_e197, c4a_inv0_e198, c4a_inv0_e199, c4a_inv0_e200, c4a_inv0_e201, c4a_inv0_e202, c4a_inv0_e203, c4a_inv0_e204, c4a_inv0_e205, c4a_inv0_e206, c4a_inv0_e207, c4a_inv0_e208, c4a_inv0_e209, c4a_inv0_e210, c4a_inv0_e211, c4a_inv0_e212, c4a_inv0_e213, c4a_inv0_e214, c4a_inv0_e215, c4a_inv0_e216, c4a_inv0_e217, c4a_inv0_e218, c4a_inv0_e219, c4a_inv0_e220, c4a_inv0_e221, c4a_inv0_e222, c4a_inv0_e223, c4a_inv0_e224, c4a_inv0_e225, c4a_inv0_e226, c4a_inv0_e227, c4a_inv0_e228, c4a_inv0_e229, c4a_inv0_e230, c4a_inv0_e231, c4a_inv0_e232, c4a_inv0_e233, c4a_inv0_e234, c4a_inv0_e235, c4a_inv0_e236, c4a_inv0_e237, c4a_inv0_e238, c4a_inv0_e239, c4a_inv0_e240, c4a_inv0_e241, c4a_inv0_e242, c4a_inv0_e243, c4a_inv0_e244, c4a_inv0_e245, c4a_inv0_e246, c4a_inv0_e247, c4a_inv0_e248, c4a_inv0_e249, c4a_inv0_e250, c4a_inv0_e251, c4a_inv0_e252, c4a_inv0_e253, c4a_inv0_e254, c4a_inv0_e255, c4a_inv0_e256, c4a_inv0_e257, c4a_inv0_e258, c4a_inv0_e259, c4a_inv0_e260, c4a_inv0_e261, c4a_inv0_e262, c4a_inv0_e263, c4a_inv0_e264, c4a_inv0_e265, c4a_inv0_e266, c4a_inv0_e267, c4a_inv0_e268]

theorem c4a_e0 : uint256_eq 0xc6047f9441ed7d6d3045406e95c07cd85c778e4b8cef3ca7abac09b95c709ee5 0x79be667ef9dcbbac55a06295ce870b07029bfcdb2dce28d959f2815b16f81798 = false := by decide

theorem c4a_e1 : fp_sub 0x483ada7726a3c4655da4fbfc0e1108a8fd17b448a68554199c47d08ffb10d4b8 0x1ae168fea63dc339a3c58419466ceaeef7f632653266d0e1236431a950cfe52a = 0x2d5971788066012bb9df77e2c7a41dba052181e3741e833878e39ee6aa40ef8e := by decide

theorem c4a_e2 : fp_sub 0x79be667ef9dcbbac55a06295ce870b07029bfcdb2dce28d959f2815b16f81798 0xc6047f9441ed7d6d3045406e95c07cd85c778e4b8cef3ca7abac09b95c709ee5 = 0xb3b9e6eab7ef3e3f255b222738c68e2ea6246e8fa0deec31ae4677a0ba8774e2 := by decide

theorem c4a_e4 : fp_mul 0x2d5971788066012bb9df77e2c7a41dba052181e3741e833878e39ee6aa40ef8e 0xf40eddc56be412ce1fac22510fd4f9c249c90fbb8644213e53bba51fd56c8015 = 0x3ef1e6053d68d2b798e7ba1f259a0d7ac83f6f1f6ed87b1e3b551beb68f8c9c5 := by decide

theorem c4a_e5 : fp_sqr 0x3ef1e6053d68d2b798e7ba1f259a0d7ac83f6f1f6ed87b1e3b551beb68f8c9c5 = 0x7db0cdbeed9e9f3de23b70ce5243248d772cab888da699001a4deccdfc631eab := by decide

theorem c4a_e6 : fp_sub 0x7db0cdbeed9e9f3de23b70ce5243248d772cab888da699001a4deccdfc631eab 0xc6047f9441ed7d6d3045406e95c07cd85c778e4b8cef3ca7abac09b95c709ee5 = 0xb7ac4e2aabb121d0b1f6305fbc82a7b51ab51d3d00b75c586ea1e3139ff27bf5 := by decide

theorem c4a_e7 : fp_sub 0xb7ac4e2aabb121d0b1f6305fbc82a7b51ab51d3d00b75c586ea1e3139ff27bf5 0x79be667ef9dcbbac55a06295ce870b07029bfcdb2dce28d959f2815b16f81798 = 0x3dede7abb1d466245c55cdc9edfb9cae18192061d2e9337f14af61b888fa645d := by decide

theorem c4a_e8 : fp_sub 0xc6047f9441ed7d6d3045406e95c07cd85c778e4b8cef3ca7abac09b95c709ee5 0x3dede7abb1d466245c55cdc9edfb9cae18192061d2e9337f14af61b888fa645d = 0x881697e890191748d3ef72a4a7c4e02a445e6de9ba06092896fca800d3763a88 := by decide

theorem c4a_e9 : fp_mul 0x3ef1e6053d68d2b798e7ba1f259a0d7ac83f6f1f6ed87b1e3b551beb68f8c9c5 0x881697e890191748d3ef72a4a7c4e02a445e6de9ba06092896fca800d3763a88 = 0x78cdd37dd3d7cd67a44671ce42c3de754f5a1e0e29da5d0d6414c27fd28cc443 := by decide

theorem c4a_e10 : fp_sub 0x78cdd37dd3d7cd67a44671ce42c3de754f5a1e0e29da5d0d6414c27fd28cc443 0x1ae168fea63dc339a3c58419466ceaeef7f632653266d0e1236431a950cfe52a = 0x5dec6a7f2d9a0a2e0080edb4fc56f3865763eba8f7738c2c40b090d681bcdf19 := by decide

theorem c4_ecadd : ec_add { x := 0xc6047f9441ed7d6d3045406e95c07cd85c778e4b8cef3ca7abac09b95c709ee5, y := 0x1ae168fea63dc339a3c58419466ceaeef7f632653266d0e1236431a950cfe52a, infinity := false } { x := 0x79be667ef9dcbbac55a06295ce870b07029bfcdb2dce28d959f2815b16f81798, y := 0x483ada7726a3c4655da4fbfc0e1108a8fd17b448a68554199c47d08ffb10d4b8, infinity := false } = { x := 0x3dede7abb1d466245c55cdc9edfb9cae18192061d2e9337f14af61b888fa645d, y := 0x5dec6a7f2d9a0a2e0080edb4fc56f3865763eba8f7738c2c40b090d681bcdf19, infinity := false } := by
  simp only [ec_add, c4a_e0, c4a_e1, c4a_e2, c4a_e4, c4a_e5, c4a_e6, c4a_e7, c4a_e8, c4a_e9, c4a_e10, c4a_inv0_value]
  decide

theorem c4j_e0 : fp_sqr 0x1 = 0x1 := by decide

theorem c4j_e1 : fp_mul 0x1 0x1 = 0x1 := by decide

theorem c4j_e2 : fp_mul 0xc6047f9441ed7d6d3045406e95c07cd85c778e4b8cef3ca7abac09b95c709ee5 0x1 = 0xc6047f9441ed7d6d3045406e95c07cd85c778e4b8cef3ca7abac09b95c709ee5 := by decide

theorem c4j_e3 : fp_mul 0x1ae168fea63dc339a3c58419466ceaeef7f632653266d0e1236431a950cfe52a 0x1 = 0x1ae168fea63dc339a3c58419466ceaeef7f632653266d0e1236431a950cfe52a := by decide

theorem c4j_e4 : uint256_eq 0xc6047f9441ed7d6d3045406e95c07cd85c778e4b8cef3ca7abac09b95c709ee5 0x79be667ef9dcbbac55a06295ce870b07029bfcdb2dce28d959f2815b16f81798 = false := by decide

theorem c4j_e5 : fp_sub 0x79be667ef9dcbbac55a06295ce870b07029bfcdb2dce28d959f2815b16f81798 0xc6047f9441ed7d6d3045406e95c07cd85c778e4b8cef3ca7abac09b95c709ee5 = 0xb3b9e6eab7ef3e3f255b222738c68e2ea6246e8fa0deec31ae4677a0ba8774e2 := by decide

theorem c4j_e6 : fp_sub 0x483ada7726a3c4655da4fbfc0e1108a8fd17b448a68554199c47d08ffb10d4b8 0x1ae168fea63dc339a3c58419466ceaeef7f632653266d0e1236431a950cfe52a = 0x2d5971788066012bb9df77e2c7a41dba052181e3741e833878e39ee6aa40ef8e := by decide

theorem c4j_e7 : fp_sqr 0xb3b9e6eab7ef3e3f255b222738c68e2ea6246e8fa0deec31ae4677a0ba8774e2 = 0xb498cd053831b90e70142a520190e58f0386c0a8267cabe3fa53121140a6f790 := by decide

theorem c4j_e8 : fp_mul 0xb498cd053831b90e70142a520190e58f0386c0a8267cabe3fa53121140a6f790 0xb3b9e6eab7ef3e3f255b222738c68e2ea6246e8fa0deec31ae4677a0ba8774e2 = 0x30ee324c444c6848abbad2819df355e9380533c4ff5111c70fba1618b8fb1768 := by decide

theorem c4j_e9 : fp_mul 0xc6047f9441ed7d6d3045406e95c07cd85c778e4b8cef3ca7abac09b95c709ee5 0xb498cd053831b90e70142a520190e58f0386c0a8267cabe3fa53121140a6f790 = 0xbf4f716d9f336c868dbae61b4bd9a738eb5ee05b76d9e0f16e0999f41ed58a58 := by decide

theorem c4j_e10 : fp_mul 0x1ae168fea63dc339a3c58419466ceaeef7f632653266d0e1236431a950cfe52a 0x30ee324c444c6848abbad2819df355e9380533c4ff5111c70fba1618b8fb1768 = 0x3fab4e0a56894132ad0cf2e0bd1db63d773b074a0e73edf6af77612bab7bde28 := by decide

theorem c4j_e11 : fp_sqr 0x2d5971788066012bb9df77e2c7a41dba052181e3741e833878e39ee6aa40ef8e = 0xedeefe7f4e31fa7ae88610e56cac0fb32b6fce1089dcae9592502220decfb256 := by decide

theorem c4j_e12 : fp_add 0xbf4f716d9f336c868dbae61b4bd9a738eb5ee05b76d9e0f16e0999f41ed58a58 0xbf4f716d9f336c868dbae61b4bd9a738eb5ee05b76d9e0f16e0999f41ed58a58 = 0x7e9ee2db3e66d90d1b75cc3697b34e71d6bdc0b6edb3c1e2dc1333e93dab1881 := by decide

theorem c4j_e13 : fp_sub 0xedeefe7f4e31fa7ae88610e56cac0fb32b6fce1089dcae9592502220decfb256 0x30ee324c444c6848abbad2819df355e9380533c4ff5111c70fba1618b8fb1768 = 0xbd00cc3309e592323ccb3e63ceb8b9c9f36a9a4b8a8b9cce82960c0825d49aee := by decide

theorem c4j_e14 : fp_sub 0xbd00cc3309e592323ccb3e63ceb8b9c9f36a9a4b8a8b9cce82960c0825d49aee 0x7e9ee2db3e66d90d1b75cc3697b34e71d6bdc0b6edb3c1e2dc1333e93dab1881 = 0x3e61e957cb7eb9252155722d37056b581cacd9949cd7daeba682d81ee829826d := by decide

theorem c4j_e15 : fp_sub 0xbf4f716d9f336c868dbae61b4bd9a738eb5ee05b76d9e0f16e0999f41ed58a58 0x3e61e957cb7eb9252155722d37056b581cacd9949cd7daeba682d81ee829826d = 0x80ed8815d3b4b3616c6573ee14d43be0ceb206c6da020605c786c1d536ac07eb := by decide

theorem c4j_e16 : fp_mul 0x2d5971788066012bb9df77e2c7a41dba052181e3741e833878e39ee6aa40ef8e 0x80ed8815d3b4b3616c6573ee14d43be0ceb206c6da020605c786c1d536ac07eb = 0x4c467fdf0a7a7d607bcf0e3e0187bd0adc8b5e224309e435b48ac11feeca59cd := by decide

theorem c4j_e17 : fp_sub 0x4c467fdf0a7a7d607bcf0e3e0187bd0adc8b5e224309e435b48ac11feeca59cd 0x3fab4e0a56894132ad0cf2e0bd1db63d773b074a0e73edf6af77612bab7bde28 = 0xc9b31d4b3f13c2dcec21b5d446a06cd655056d83495f63f05135ff4434e7ba5 := by decide

theorem c4j_e18 : fp_mul 0x1 0xb3b9e6eab7ef3e3f255b222738c68e2ea6246e8fa0deec31ae4677a0ba8774e2 = 0xb3b9e6eab7ef3e3f255b222738c68e2ea6246e8fa0deec31ae4677a0ba8774e2 := by decide

theorem c4_mixed : mixed_add_jacobian { x := 0xc6047f9441ed7d6d3045406e95c07cd85c778e4b8cef3ca7abac09b95c709ee5, y := 0x1ae168fea63dc339a3c58419466ceaeef7f632653266d0e1236431a950cfe52a, infinity := false } { X := 0x79be667ef9dcbbac55a06295ce870b07029bfcdb2dce28d959f2815b16f81798, Y := 0x483ada7726a3c4655da4fbfc0e1108a8fd17b448a68554199c47d08ffb10d4b8, Z := 1, infinity := false } = { X := 0x3e61e957cb7eb9252155722d37056b581cacd9949cd7daeba682d81ee829826d, Y := 0xc9b31d4b3f13c2dcec21b5d446a06cd655056d83495f63f05135ff4434e7ba5, Z := 0xb3b9e6eab7ef3e3f255b222738c68e2ea6246e8fa0deec31ae4677a0ba8774e2, infinity := false } := by
  simp only [mixed_add_jacobian, c4j_e0, c4j_e1, c4j_e2, c4j_e3, c4j_e4, c4j_e5, c4j_e6, c4j_e7, c4j_e8, c4j_e9, c4j_e10, c4j_e11, c4j_e12, c4j_e13, c4j_e14, c4j_e15, c4j_e16, c4j_e17, c4j_e18]
  decide

theorem c4t_inv0_e0 : fp_sqr 0xb3b9e6eab7ef3e3f255b222738c68e2ea6246e8fa0deec31ae4677a0ba8774e2 = 0xb498cd053831b90e70142a520190e58f0386c0a8267cabe3fa53121140a6f790 := by decide
theorem c4t_inv0_e1 : fp_mul 0xb498cd053831b90e70142a520190e58f0386c0a8267cabe3fa53121140a6f790 0xb3b9e6eab7ef3e3f255b222738c68e2ea6246e8fa0deec31ae4677a0ba8774e2 = 0x30ee324c444c6848abbad2819df355e9380533c4ff5111c70fba1618b8fb1768 := by decide
theorem c4t_inv0_e2 : fp_sqr 0x30ee324c444c6848abbad2819df355e9380533c4ff5111c70fba1618b8fb1768 = 0xe14487c7fffde9e834668ce66c9f95152eb9b45f9c1c06b230e39562217c485 := by decide
theorem c4t_inv0_e3 : fp_mul 0xe14487c7fffde9e834668ce66c9f95152eb9b45f9c1c06b230e39562217c485 0xb3b9e6eab7ef3e3f255b222738c68e2ea6246e8fa0deec31ae4677a0ba8774e2 = 0x6b2e39393e3ba9cb60c759fa6601bf8d4cc2353368a6fd054af84bb40332b581 := by decide
theorem c4t_inv0_e4 : fp_sqr 0x6b2e39393e3ba9cb60c759fa6601bf8d4cc2353368a6fd054af84bb40332b581 = 0x45b2a993cb0ec789a35c4cea790e2842a5e7f4a191576485ba518c99df32f8e1 := by decide
theorem c4t_inv0_e5 : fp_sqr 0x45b2a993cb0ec789a35c4cea790e2842a5e7f4a191576485ba518c99df32f8e1 = 0xcd17e7245c6a62912c39e18cc484e62d3ca57b1ac8937ef71346dfcee42af48 := by decide
theorem c4t_inv0_e6 : fp_sqr 0xcd17e7245c6a62912c39e18cc484e62d3ca57b1ac8937ef71346dfcee42af48 = 0xa73ccc638277af674821adcc1d3f88b42581d2cb19db311d371e81fb94a94fbf := by decide
theorem c4t_inv0_e7 : fp_mul 0xa73ccc638277af674821adcc1d3f88b42581d2cb19db311d371e81fb94a94fbf 0x6b2e39393e3ba9cb60c759fa6601bf8d4cc2353368a6fd054af84bb40332b581 = 0x4daa2fce59a0a77ae5f1e547d6b8ff83c5876b6a91fb7352bf680a94bd02eb3c := by decide
theorem c4t_inv0_e8 : fp_sqr 0x4daa2fce59a0a77ae5f1e547d6b8ff83c5876b6a91fb7352bf680a94bd02eb3c = 0x4e24e93e52ab32448e5f1f7850c6ed822211962e7ed6273497a8246238aed5dc := by decide
theorem c4t_inv0_e9 : fp_sqr 0x4e24e93e52ab32448e5f1f7850c6ed822211962e7ed6273497a8246238aed5dc = 0xe9792b4896c1ddeec51609e0c071f3ac0567f62afcbc56fb325b38e82fc24cf7 := by decide
theorem c4t_inv0_e10 : fp_sqr 0xe9792b4896c1ddeec51609e0c071f3ac0567f62afcbc56fb325b38e82fc24cf7 = 0xc3062efe4da31840ca4203e083e7bc35c3ad12e28d3641e2af9dcea4dae3a35c := by decide
theorem c4t_inv0_e11 : fp_mul 0xc3062efe4da31840ca4203e083e7bc35c3ad12e28d3641e2af9dcea4dae3a35c 0x6b2e39393e3ba9cb60c759fa6601bf8d4cc2353368a6fd054af84bb40332b581 = 0xf0d4218ba30f85b2996c8ddb170fe4b7bd3c74a2a28e4526a3f33fea9b231903 := by decide
theorem c4t_inv0_e12 : fp_sqr 0xf0d4218ba30f85b2996c8ddb170fe4b7bd3c74a2a28e4526a3f33fea9b231903 = 0xa2c1ad0879751c42cf6aeb11a03ed57397ea6c6abd7ea51cc728929fe8773632 := by decide
theorem c4t_inv0_e13 : fp_sqr 0xa2c1ad0879751c42cf6aeb11a03ed57397ea6c6abd7ea51cc728929fe8773632 = 0x377fd607175aeeb72f16a2a8c3765138f91a4a1da2c07fb8a70c4fbc81cf4afc := by decide
theorem c4t_inv0_e14 : fp_mul 0x377fd607175aeeb72f16a2a8c3765138f91a4a1da2c07fb8a70c4fbc81cf4afc 0x30ee324c444c6848abbad2819df355e9380533c4ff5111c70fba1618b8fb1768 = 0x26d279ec9ed2983a122b78fac36d41535bbb1096293ec4c98995110da4de5ae4 := by decide
theorem c4t_inv0_e15 : fp_sqr 0x26d279ec9ed2983a122b78fac36d41535bbb1096293ec4c98995110da4de5ae4 = 0x786fc78dda36ad7d01e1cc2234d3ab956f6cd6369990bed95ae2375ea33c5180 := by decide
theorem c4t_inv0_e16 : fp_sqr 0x786fc78dda36ad7d01e1cc2234d3ab956f6cd6369990bed95ae2375ea33c5180 = 0x6f0a6f89e1fa0aac1fb1adbf53b38d470c6de628d7c2813b2cd2d8055e8af9d1 := by decide
theorem c4t_inv0_e17 : fp_sqr 0x6f0a6f89e1fa0aac1fb1adbf53b38d470c6de628d7c2813b2cd2d8055e8af9d1 = 0xfe1ca95b5f611e1be6717a9fd5e3c3dd87732b52c1ba38d3ede3d1c47f5266fe := by decide
theorem c4t_inv0_e18 : fp_sqr 0xfe1ca95b5f611e1be6717a9fd5e3c3dd87732b52c1ba38d3ede3d1c47f5266fe = 0xf41c35e11d48ad12e546b2c8f5a8245b2acbe3be6e26b4006a180f2bade63893 := by decide
theorem c4t_inv0_e19 : fp_sqr 0xf41c35e11d48ad12e546b2c8f5a8245b2acbe3be6e26b4006a180f2bade63893 = 0x1921278b54538edc3035d6de080eb73c8bac74765c6a3f9145e3c3f938afa9ef := by decide
theorem c4t_inv0_e20 : fp_sqr 0x1921278b54538edc3035d6de080eb73c8bac74765c6a3f9145e3c3f938afa9ef = 0x58d368821de84c41e2caa5c5e1a7e98c1ed2689392d5964c47564343492f19d := by decide
theorem c4t_inv0_e21 : fp_sqr 0x58d368821de84c41e2caa5c5e1a7e98c1ed2689392d5964c47564343492f19d = 0xbf08deba5bb1ba333350cda2bebf66e433e0ab8d08462a771e5232bfdd0f1239 := by decide
theorem c4t_inv0_e22 : fp_sqr 0xbf08deba5bb1ba333350cda2bebf66e433e0ab8d08462a771e5232bfdd0f1239 = 0x229ae7fa93e76f50f42b4c30a643538e44022669f5dd6000c9bfbe73828e4141 := by decide
theorem c4t_inv0_e23 : fp_sqr 0x229ae7fa93e76f50f42b4c30a643538e44022669f5dd6000c9bfbe73828e4141 = 0x62ead7df2a90cdc8d9765ca0db2042caf958e6bee405c9e7ef8895a47e0097e7 := by decide
theorem c4t_inv0_e24 : fp_sqr 0x62ead7df2a90cdc8d9765ca0db2042caf958e6bee405c9e7ef8895a47e0097e7 = 0x98fac2a49b2ba2695a2b5b8872bc7f1c019b8d815198bc9ec031042a6b659f34 := by decide
theorem c4t_inv0_e25 : fp_sqr 0x98fac2a49b2ba2695a2b5b8872bc7f1c019b8d815198bc9ec031042a6b659f34 = 0xd6d63e17b3260c7d1370719a9d513e1f3c8b7e13c52e72b51765d2ea3097ec43 := by decide
theorem c4t_inv0_e26 : fp_mul 0xd6d63e17b3260c7d1370719a9d513e1f3c8b7e13c52e72b51765d2ea3097ec43 0x26d279ec9ed2983a122b78fac36d41535bbb1096293ec4c98995110da4de5ae4 = 0x4d708306294e98062d5e5b98bb77e5c97d12683647843e1ed293a792b4b500aa := by decide
theorem c4t_inv0_e27 : fp_sqr 0x4d708306294e98062d5e5b98bb77e5c97d12683647843e1ed293a792b4b500aa = 0xc307614e60f8d57e09de1013ceabefdb7a22658ad995172d6d6b93005575549 := by decide
theorem c4t_inv0_e28 : fp_sqr 0xc307614e60f8d57e09de1013ceabefdb7a22658ad995172d6d6b93005575549 = 0xf38b5d949fa241e61dea0b9efa66ad9df6959d439c50d6a94c5dbaaeba8baef0 := by decide
theorem c4t_inv0_e29 : fp_sqr 0xf38b5d949fa241e61dea0b9efa66ad9df6959d439c50d6a94c5dbaaeba8baef0 = 0xb59c2e7923a9d02d8260afdc065f57e59d4ef0cfc22abeb9f71daee3301ba5c8 := by decide
theorem c4t_inv0_e30 : fp_sqr 0xb59c2e7923a9d02d8260afdc065f57e59d4ef0cfc22abeb9f71daee3301ba5c8 = 0x16d0d4b70355211fbc71ca5902b07be562f66bdaf3ce168367c4f954dda26f4b := by decide
theorem c4t_inv0_e31 : fp_sqr 0x16d0d4b70355211fbc71ca5902b07be562f66bdaf3ce168367c4f954dda26f4b = 0x83904cf43ceee2655e78e3e614ad47ec7b13f9843757cd39e092740f88ebb9a := by decide
theorem c4t_inv0_e32 : fp_sqr 0x83904cf43ceee2655e78e3e614ad47ec7b13f9843757cd39e092740f88ebb9a = 0x874434dd472af492324ea5e43ca561f45bf9ff91e91383b3f508134f6c5b8e1b := by decide
theorem c4t_inv0_e33 : fp_sqr 0x874434dd472af492324ea5e43ca561f45bf9ff91e91383b3f508134f6c5b8e1b = 0x6d36475c5dd408c0d21011a3a66e32485e20e0afecc050e3a595c52dbfb9045c := by decide
theorem c4t_inv0_e34 : fp_sqr 0x6d36475c5dd408c0d21011a3a66e32485e20e0afecc050e3a595c52dbfb9045c = 0x9b2ca1e788bf2c00406b47c70d77bcabf3fb171a7b1fc557e46cfd55b107c9e2 := by decide
theorem c4t_inv0_e35 : fp_sqr 0x9b2ca1e788bf2c00406b47c70d77bcabf3fb171a7b1fc557e46cfd55b107c9e2 = 0xb67d9a4874cf23150479969d97d13f99ced8a39c75b1849c0c7e6ccbf49d52d := by decide
theorem c4t_inv0_e36 : fp_sqr 0xb67d9a4874cf23150479969d97d13f99ced8a39c75b1849c0c7e6ccbf49d52d = 0x284a302840493f71f9f7c145abefd2a141fc587aa2387bcf4130862937f2dad1 := by decide
theorem c4t_inv0_e37 : fp_sqr 0x284a302840493f71f9f7c145abefd2a141fc587aa2387bcf4130862937f2dad1 = 0x63befd5d2a9a41eb2933cc63df81fdb7a13bc37524c0fb017b29092d5229526c := by decide
theorem c4t_inv0_e38 : fp_sqr 0x63befd5d2a9a41eb2933cc63df81fdb7a13bc37524c0fb017b29092d5229526c = 0x23f67e078baf792ec2e52a5eb03a08f8e2c3850889fb307d1418886133426bf7 := by decide
theorem c4t_inv0_e39 : fp_sqr 0x23f67e078baf792ec2e52a5eb03a08f8e2c3850889fb307d1418886133426bf7 = 0xe5b69b7d1ea36ea83bad1a9ef65efddc908cef2ef630fa78f2d860f6b951a100 := by decide
theorem c4t_inv0_e40 : fp_sqr 0xe5b69b7d1ea36ea83bad1a9ef65efddc908cef2ef630fa78f2d860f6b951a100 = 0xcaddd412d5a5e4251fccba9c258042f5c0c9d630cfbc3ff37c84e9c08ca1a5a := by decide
theorem c4t_inv0_e41 : fp_sqr 0xcaddd412d5a5e4251fccba9c258042f5c0c9d630cfbc3ff37c84e9c08ca1a5a = 0x321c98ec4c75ddbcd3935b91ea3f50ebb0a486ccb33555c148b8edbbd73b9216 := by decide
theorem c4t_inv0_e42 : fp_sqr 0x321c98ec4c75ddbcd3935b91ea3f50ebb0a486ccb33555c148b8edbbd73b9216 = 0xd01814280fca95c2c45e1a7a83365af7fce78c7fc2510d7940b675924fbc4283 := by decide
theorem c4t_inv0_e43 : fp_sqr 0xd01814280fca95c2c45e1a7a83365af7fce78c7fc2510d7940b675924fbc4283 = 0x5ae5b20e21b3290c1c2b1a5fac2508a199ab4862b5192cc0d9c7278d23a6e332 := by decide
theorem c4t_inv0_e44 : fp_sqr 0x5ae5b20e21b3290c1c2b1a5fac2508a199ab4862b5192cc0d9c7278d23a6e332 = 0x4eff635a42c4211880b9a0e5a2b3640a0b450f7d574623fc50c5a09b2d898e58 := by decide
theorem c4t_inv0_e45 : fp_sqr 0x4eff635a42c4211880b9a0e5a2b3640a0b450f7d574623fc50c5a09b2d898e58 = 0x9238589883c449737f5eaeec7ee3229986d105c67609d7874b1bec053704e0e := by decide
theorem c4t_inv0_e46 : fp_sqr 0x9238589883c449737f5eaeec7ee3229986d105c67609d7874b1bec053704e0e = 0xbf5f9534d6be221790155117fe3a6ac2851fdd34b84dd8855e4eb4ff5e5100a5 := by decide
theorem c4t_inv0_e47 : fp_sqr 0xbf5f9534d6be221790155117fe3a6ac2851fdd34b84dd8855e4eb4ff5e5100a5 = 0xe22e65b66fca6fc1be2f2397d0068f044961fd8b2a0c66f09632e31dbbe41b27 := by decide
theorem c4t_inv0_e48 : fp_sqr 0xe22e65b66fca6fc1be2f2397d0068f044961fd8b2a0c66f09632e31dbbe41b27 = 0xd67ba68c971325f6510a54c7b4231b05c9fe1d94750c3c2ae64790e35db4b580 := by decide
theorem c4t_inv0_e49 : fp_mul 0xd67ba68c971325f6510a54c7b4231b05c9fe1d94750c3c2ae64790e35db4b580 0x4d708306294e98062d5e5b98bb77e5c97d12683647843e1ed293a792b4b500aa = 0x700657b81b247c296d1359899fe3bcc967d209a847a9d11f0ed4c42786e26657 := by decide
theorem c4t_inv0_e50 : fp_sqr 0x700657b81b247c296d1359899fe3bcc967d209a847a9d11f0ed4c42786e26657 = 0x996b8a046a5cba2dc6a1d8b3b696571eb8593027b3c9df2f3736e0b47d7706cd := by decide
theorem c4t_inv0_e51 : fp_sqr 0x996b8a046a5cba2dc6a1d8b3b696571eb8593027b3c9df2f3736e0b47d7706cd = 0x2dffe7e778110c2ae7c01228b185c8dbbb020e4345935e97d3f271000412eae := by decide
theorem c4t_inv0_e52 : fp_sqr 0x2dffe7e778110c2ae7c01228b185c8dbbb020e4345935e97d3f271000412eae = 0x29192720c1cb9ce082c7c6054ca01101fb1781fb828482ad1f05acd9207c0be0 := by decide
theorem c4t_inv0_e53 : fp_sqr 0x29192720c1cb9ce082c7c6054ca01101fb1781fb828482ad1f05acd9207c0be0 = 0xf67f1791696771da29b113c4b219ffe7b693e45177ad03cfb22c724f2b0a7854 := by decide
theorem c4t_inv0_e54 : fp_sqr 0xf67f1791696771da29b113c4b219ffe7b693e45177ad03cfb22c724f2b0a7854 = 0xfe4c3e5b788f014f088b603c66bab08337439a023680a8a408a38b5a60ab25f0 := by decide
theorem c4t_inv0_e55 : fp_sqr 0xfe4c3e5b788f014f088b603c66bab08337439a023680a8a408a38b5a60ab25f0 = 0x9ce7121e2716f1f686664f4f1b6d207f739bada1e8dd6ca1e356176d903f9589 := by decide
theorem c4t_inv0_e56 : fp_sqr 0x9ce7121e2716f1f686664f4f1b6d207f739bada1e8dd6ca1e356176d903f9589 = 0xb89415b5271c3c2d5188826697e7f150cc7ea7d560070f5fc521585d6cd1a873 := by decide
theorem c4t_inv0_e57 : fp_sqr 0xb89415b5271c3c2d5188826697e7f150cc7ea7d560070f5fc521585d6cd1a873 = 0xa5dfd5dcbe34db2844fa2b5ec1c3d94beb080018c889f30730830e865a4614f5 := by decide
theorem c4t_inv0_e58 : fp_sqr 0xa5dfd5dcbe34db2844fa2b5ec1c3d94beb080018c889f30730830e865a4614f5 = 0x94414f2f21c63134b599ff2518ef94b4206a093a1cd293c9f986f9af8c4f996d := by decide
theorem c4t_inv0_e59 : fp_sqr 0x94414f2f21c63134b599ff2518ef94b4206a093a1cd293c9f986f9af8c4f996d = 0x54145d57b89e42c29f60b2822bd53c26d235c6e6938f5647c7df61839022e6e := by decide
theorem c4t_inv0_e60 : fp_sqr 0x54145d57b89e42c29f60b2822bd53c26d235c6e6938f5647c7df61839022e6e = 0xf37a23f9e4eaa04701e4df36e894d148f966a94ffc3342a991275175bc1bd7c0 := by decide
theorem c4t_inv0_e61 : fp_sqr 0xf37a23f9e4eaa04701e4df36e894d148f966a94ffc3342a991275175bc1bd7c0 = 0xd265f8069f3c5f4013e06087edc7e79dd0d522020712df7b2978ba1cde459457 := by decide
theorem c4t_inv0_e62 : fp_sqr 0xd265f8069f3c5f4013e06087edc7e79dd0d522020712df7b2978ba1cde459457 = 0xf566fbedf5a480e7596c1099b51e274ab353ac019dd19f68ddc781a37d22bab9 := by decide
theorem c4t_inv0_e63 : fp_sqr 0xf566fbedf5a480e7596c1099b51e274ab353ac019dd19f68ddc781a37d22bab9 = 0xf81436209f5691e9f22f653b5fa49ef02a726abdcea04f7a080e08eea6cc6e2d := by decide
theorem c4t_inv0_e64 : fp_sqr 0xf81436209f5691e9f22f653b5fa49ef02a726abdcea04f7a080e08eea6cc6e2d = 0xa952ef6f32a16125d7eafc355c84a877b1944e90aac464157c0fa15eb579fe9d := by decide
theorem c4t_inv0_e65 : fp_sqr 0xa952ef6f32a16125d7eafc355c84a877b1944e90aac464157c0fa15eb579fe9d = 0x5d6d8456c56a28fd313d431f6a93ab959de6f1e9e9c485cd6942f6f0fb957f7b := by decide
theorem c4t_inv0_e66 : fp_sqr 0x5d6d8456c56a28fd313d431f6a93ab959de6f1e9e9c485cd6942f6f0fb957f7b = 0xc29bdd0b78f63156a9c778367325b96c23ffd1407a9f10914ae4919f96942fb6 := by decide
theorem c4t_inv0_e67 : fp_sqr 0xc29bdd0b78f63156a9c778367325b96c23ffd1407a9f10914ae4919f96942fb6 = 0x1b90e3e2594853c881baf1d512e6ad960a5a2f502ba9644651523218f778a08c := by decide
theorem c4t_inv0_e68 : fp_sqr 0x1b90e3e2594853c881baf1d512e6ad960a5a2f502ba9644651523218f778a08c = 0xa1a57cc794d40de733408dcef5ca7c5cb4f8b09f754f1a1b3eec0c7733c48f65 := by decide
theorem c4t_inv0_e69 : fp_sqr 0xa1a57cc794d40de733408dcef5ca7c5cb4f8b09f754f1a1b3eec0c7733c48f65 = 0xb84efe7f315d832b4c9c40804d3c6a144a588cc2ef57eac4096fcbc92fe9e3a9 := by decide
theorem c4t_inv0_e70 : fp_sqr 0xb84efe7f315d832b4c9c40804d3c6a144a588cc2ef57eac4096fcbc92fe9e3a9 = 0x6c12ecc375a9eba4b4a7123b211d131aff513179a31e8089661909b08887d8b0 := by decide
theorem c4t_inv0_e71 : fp_sqr 0x6c12ecc375a9eba4b4a7123b211d131aff513179a31e8089661909b08887d8b0 = 0x6f4921ee36892d2c66da2707e0f36b4e2e7f7df1f73c3b730ac2657968cc65dd := by decide
theorem c4t_inv0_e72 : fp_sqr 0x6f4921ee36892d2c66da2707e0f36b4e2e7f7df1f73c3b730ac2657968cc65dd = 0x44ac60f2fcfb9f9945bc90ebfc3a7c7b5d84c098292a4d713030103e52da3f6 := by decide
theorem c4t_inv0_e73 : fp_sqr 0x44ac60f2fcfb9f9945bc90ebfc3a7c7b5d84c098292a4d713030103e52da3f6 = 0xe8554cebf3314c9aee0057bd7c2f2981434c8103a04a94c391d246ca40dc223 := by decide
theorem c4t_inv0_e74 : fp_sqr 0xe8554cebf3314c9aee0057bd7c2f2981434c8103a04a94c391d246ca40dc223 = 0x8aac4fabb12ca5008165ab8f2c5048ede4f8ca470d2892ab96da18fc89d2eabf := by decide
theorem c4t_inv0_e75 : fp_sqr 0x8aac4fabb12ca5008165ab8f2c5048ede4f8ca470d2892ab96da18fc89d2eabf = 0xa8a542839f603721d4c616c4af01b6bed8b0bc30b0928220dd4035da9f9d616a := by decide
theorem c4t_inv0_e76 : fp_sqr 0xa8a542839f603721d4c616c4af01b6bed8b0bc30b0928220dd4035da9f9d616a = 0x56c19aa136c790b3739722f83ae7923f8df5ca878e83616def05cb61d6ae5504 := by decide
theorem c4t_inv0_e77 : fp_sqr 0x56c19aa136c790b3739722f83ae7923f8df5ca878e83616def05cb61d6ae5504 = 0x1e002057b5305fd3aa7897d500deca40210c822be69875d398476189de0f8357 := by decide
theorem c4t_inv0_e78 : fp_sqr 0x1e002057b5305fd3aa7897d500deca40210c822be69875d398476189de0f8357 = 0xd5fb6f3bb1375156e7c284a0fb8383a3fadc0e926dad38dac8f7440cfd8296f2 := by decide
theorem c4t_inv0_e79 : fp_sqr 0xd5fb6f3bb1375156e7c284a0fb8383a3fadc0e926dad38dac8f7440cfd8296f2 = 0x2998989eac3553786587b8cef5ebc0ac4562b1769bcd12de90e7f9056ec95db0 := by decide
theorem c4t_inv0_e80 : fp_sqr 0x2998989eac3553786587b8cef5ebc0ac4562b1769bcd12de90e7f9056ec95db0 = 0xa2905659fb77cc3102f6e2bc31fd3f7632a042c54d970cde3d76a17688fad2d9 := by decide
theorem c4t_inv0_e81 : fp_sqr 0xa2905659fb77cc3102f6e2bc31fd3f7632a042c54d970cde3d76a17688fad2d9 = 0xd37775946d64e33a99cde85b056c8e867f5ea879d83f3fc4dce55c47adea959c := by decide
theorem c4t_inv0_e82 : fp_sqr 0xd37775946d64e33a99cde85b056c8e867f5ea879d83f3fc4dce55c47adea959c = 0xec1c84f1ad0ac0a0a293378cc5055ed0b7b08ccedb8ec11733e094c240cb0744 := by decide
theorem c4t_inv0_e83 : fp_sqr 0xec1c84f1ad0ac0a0a293378cc5055ed0b7b08ccedb8ec11733e094c240cb0744 = 0x60fd7ae6b21ed5b9c03fdd63854c4b797aba7d5284f638a4d274adbc300a5eeb := by decide
theorem c4t_inv0_e84 : fp_sqr 0x60fd7ae6b21ed5b9c03fdd63854c4b797aba7d5284f638a4d274adbc300a5eeb = 0xf8dca0ce6c29753362caf79fa45e3ae4109339661f7b320dc9c4369fed853e4a := by decide
theorem c4t_inv0_e85 : fp_sqr 0xf8dca0ce6c29753362caf79fa45e3ae4109339661f7b320dc9c4369fed853e4a = 0xb94b46b482d2e9f856576f7f71915fecc1622c6b7184dc702cf790d18bac38d := by decide
theorem c4t_inv0_e86 : fp_sqr 0xb94b46b482d2e9f856576f7f71915fecc1622c6b7184dc702cf790d18bac38d = 0x3623e6c7cd191415d34d3f1eb2bfb7e8f40ca9a9ca1abdfa0c910d0dc5f1fc38 := by decide
theorem c4t_inv0_e87 : fp_sqr 0x3623e6c7cd191415d34d3f1eb2bfb7e8f40ca9a9ca1abdfa0c910d0dc5f1fc38 = 0x77dc5e834696d3f6aa8eccf6e3cd9d53d5ab544e51e7acc2998c8e272c0b105 := by decide
theorem c4t_inv0_e88 : fp_sqr 0x77dc5e834696d3f6aa8eccf6e3cd9d53d5ab544e51e7acc2998c8e272c0b105 = 0x8a482cef1ca3312eb2dff990fa3eb42b1b1e6233dfd851caa271a41abc573ce4 := by decide
theorem c4t_inv0_e89 : fp_sqr 0x8a482cef1ca3312eb2dff990fa3eb42b1b1e6233dfd851caa271a41abc573ce4 = 0x3e0d042a49d1bbc2b67cede4f8ca563840be97549bf164ef29422778c33242dd := by decide
theorem c4t_inv0_e90 : fp_sqr 0x3e0d042a49d1bbc2b67cede4f8ca563840be97549bf164ef29422778c33242dd = 0x63c889fe0459c32952947b742e824c14dfeca45d8fe8a752ce1d6894e8e2808 := by decide
theorem c4t_inv0_e91 : fp_sqr 0x63c889fe0459c32952947b742e824c14dfeca45d8fe8a752ce1d6894e8e2808 = 0x8a6ae7971fbd2301e0abf2da936d62656a670b5259cc66f75c884fb01f52398 := by decide
theorem c4t_inv0_e92 : fp_sqr 0x8a6ae7971fbd2301e0abf2da936d62656a670b5259cc66f75c884fb01f52398 = 0x4e7ef3fca036637d058d8dfc66d8b5b70f479013ca5a03afdb7f74eeee16c28b := by decide
theorem c4t_inv0_e93 : fp_sqr 0x4e7ef3fca036637d058d8dfc66d8b5b70f479013ca5a03afdb7f74eeee16c28b = 0x5f808bd76b8ab403a1a7c60003cb39db201ca0d6fd5788734722d5c7a81fb030 := by decide
theorem c4t_inv0_e94 : fp_mul 0x5f808bd76b8ab403a1a7c60003cb39db201ca0d6fd5788734722d5c7a81fb030 0x700657b81b247c296d1359899fe3bcc967d209a847a9d11f0ed4c42786e26657 = 0x5e8e1f6b85219883113c2bbe030c8d994b412834fc51162632eda9f28f85f211 := by decide
theorem c4t_inv0_e95 : fp_sqr 0x5e8e1f6b85219883113c2bbe030c8d994b412834fc51162632eda9f28f85f211 = 0xcffc896762d6bf0d00dfd6082008a0b500378ecb4c0817b5b5653cb9cd1998fc := by decide
theorem c4t_inv0_e96 : fp_sqr 0xcffc896762d6bf0d00dfd6082008a0b500378ecb4c0817b5b5653cb9cd1998fc = 0x672a687bb4958c05724d4d737d52e1b33c8a911213c759864e591ff7cc649005 := by decide
theorem c4t_inv0_e97 : fp_sqr 0x672a687bb4958c05724d4d737d52e1b33c8a911213c759864e591ff7cc649005 = 0x52499e25b18ca2eeef599b4b87a768ab4fb3554e06504ccdae1708108acc48be := by decide
theorem c4t_inv0_e98 : fp_sqr 0x52499e25b18ca2eeef599b4b87a768ab4fb3554e06504ccdae1708108acc48be = 0xf34bbaa7decc4f9430a00b61a7aad68a9b5859f5f21fa58f9bc69c2d4068ff39 := by decide
theorem c4t_inv0_e99 : fp_sqr 0xf34bbaa7decc4f9430a00b61a7aad68a9b5859f5f21fa58f9bc69c2d4068ff39 = 0x6920e059629adcbc4bbd9f4c43618f585f0f1e93e5660a210047d1e1909debca := by decide
theorem c4t_inv0_e100 : fp_sqr 0x6920e059629adcbc4bbd9f4c43618f585f0f1e93e5660a210047d1e1909debca = 0xca097c19f8a3561dd008e2e2cb59c69ea077a0e59c466c020b63fd9b2e9d2de3 := by decide
theorem c4t_inv0_e101 : fp_sqr 0xca097c19f8a3561dd008e2e2cb59c69ea077a0e59c466c020b63fd9b2e9d2de3 = 0x8e8985ba14404862b0f4f573eacd45b023eb1180903b2be4185ebdf92a4a3746 := by decide
theorem c4t_inv0_e102 : fp_sqr 0x8e8985ba14404862b0f4f573eacd45b023eb1180903b2be4185ebdf92a4a3746 = 0x4a6385826435c00cdbb8f7f417796f29d7e9fdb29b90fbc969d10bac3e122716 := by decide
theorem c4t_inv0_e103 : fp_sqr 0x4a6385826435c00cdbb8f7f417796f29d7e9fdb29b90fbc969d10bac3e122716 = 0xb8ddf75fec99529cad179e5923077a645ed18c2f912ecea3c131161a253e2b0a := by decide
theorem c4t_inv0_e104 : fp_sqr 0xb8ddf75fec99529cad179e5923077a645ed18c2f912ecea3c131161a253e2b0a = 0x6de89e0fdb3aab94794b38b9e93fd8f7be98dc6a7f5a1ab359769382a95bf4e := by decide
theorem c4t_inv0_e105 : fp_sqr 0x6de89e0fdb3aab94794b38b9e93fd8f7be98dc6a7f5a1ab359769382a95bf4e = 0xc2f5b1c63de3582ed7f2651bb22abf4e25e674bba127b74c18fef69457ee2d30 := by decide
theorem c4t_inv0_e106 : fp_sqr 0xc2f5b1c63de3582ed7f2651bb22abf4e25e674bba127b74c18fef69457ee2d30 = 0xa554be348270470e96c9f3b8353bb8b7c6c80fe9e800d7cf606aec03a2869479 := by decide
theorem c4t_inv0_e107 : fp_sqr 0xa554be348270470e96c9f3b8353bb8b7c6c80fe9e800d7cf606aec03a2869479 = 0x68e88637bf8e95483343ac8e7b734f02f6999792aa46127975d9e4e18b72cf85 := by decide
theorem c4t_inv0_e108 : fp_sqr 0x68e88637bf8e95483343ac8e7b734f02f6999792aa46127975d9e4e18b72cf85 = 0x6e62d920b183461b48db14eef5e38cdcc0ad148c2dd572ccdaeb2289039b489a := by decide
theorem c4t_inv0_e109 : fp_sqr 0x6e62d920b183461b48db14eef5e38cdcc0ad148c2dd572ccdaeb2289039b489a = 0x60475cf9d4ea162a4ce139652d1c3fd0a37182cb9381ff6bcaef0273e77b288c := by decide
theorem c4t_inv0_e110 : fp_sqr 0x60475cf9d4ea162a4ce139652d1c3fd0a37182cb9381ff6bcaef0273e77b288c = 0x4f57f40d532d21b8572140aaf233b74fbd3ed5aa27bab00ee7dfa2a8f6feb36 := by decide
theorem c4t_inv0_e111 : fp_sqr 0x4f57f40d532d21b8572140aaf233b74fbd3ed5aa27bab00ee7dfa2a8f6feb36 = 0x60015eb537b52c281d9ed5ec0ac9fe91ecad74c0ddb5a6167b1bc12a102de578 := by decide
theorem c4t_inv0_e112 : fp_sqr 0x60015eb537b52c281d9ed5ec0ac9fe91ecad74c0ddb5a6167b1bc12a102de578 = 0x8a1f43c2e7eff68d7a92810d1dae66bc2170f26db231774c609431644a9771d6 := by decide
theorem c4t_inv0_e113 : fp_sqr 0x8a1f43c2e7eff68d7a92810d1dae66bc2170f26db231774c609431644a9771d6 = 0x69e30e701d63e4c1e3b5e52ded1327f780a5e0a5cfc209a81c67d6292ede2953 := by decide
theorem c4t_inv0_e114 : fp_sqr 0x69e30e701d63e4c1e3b5e52ded1327f780a5e0a5cfc209a81c67d6292ede2953 = 0x8a265db3f586676be8972fb11bbf411e5fccd66458d4af7a3a674eb76b19f0bc := by decide
theorem c4t_inv0_e115 : fp_sqr 0x8a265db3f586676be8972fb11bbf411e5fccd66458d4af7a3a674eb76b19f0bc = 0xdf846138a8de79cc6b6eb087084df958d3122317e4d2ab32d42aa8374403d005 := by decide
theorem c4t_inv0_e116 : fp_sqr 0xdf846138a8de79cc6b6eb087084df958d3122317e4d2ab32d42aa8374403d005 = 0xd578bb689bff1f6b192342340ac93be053c97272d375f0d7b1011e88f08c929f := by decide
theorem c4t_inv0_e117 : fp_sqr 0xd578bb689bff1f6b192342340ac93be053c97272d375f0d7b1011e88f08c929f = 0x6413e9aca4621c4d4188e018e76c2c180d4433f30b9e69516810e4c81294433d := by decide
theorem c4t_inv0_e118 : fp_sqr 0x6413e9aca4621c4d4188e018e76c2c180d4433f30b9e69516810e4c81294433d = 0x565092df6bb5174dcbccf49b5611df73e4daf3ebd8427b9c67fd6e8a7c587ab := by decide
theorem c4t_inv0_e119 : fp_sqr 0x565092df6bb5174dcbccf49b5611df73e4daf3ebd8427b9c67fd6e8a7c587ab = 0xd358c90ed46d6615f36d201d595164ccb84ab9a937a0c586a6f9fac7b6ecac53 := by decide
theorem c4t_inv0_e120 : fp_sqr 0xd358c90ed46d6615f36d201d595164ccb84ab9a937a0c586a6f9fac7b6ecac53 = 0x74ff2148646b681b33b8419cfd8b0cacc2e45b29291b83c71fc82943f798b182 := by decide
theorem c4t_inv0_e121 : fp_sqr 0x74ff2148646b681b33b8419cfd8b0cacc2e45b29291b83c71fc82943f798b182 = 0x110435b7622ac5591807a320176fad92799a5045c419e9900aa3249b9b33eacf := by decide
theorem c4t_inv0_e122 : fp_sqr 0x110435b7622ac5591807a320176fad92799a5045c419e9900aa3249b9b33eacf = 0xb07b8a6e6057d49b4d2ec7d3cfba4b3c2ebf6f84fd0dd3c826ff6c835d65a930 := by decide
theorem c4t_inv0_e123 : fp_sqr 0xb07b8a6e6057d49b4d2ec7d3cfba4b3c2ebf6f84fd0dd3c826ff6c835d65a930 = 0xc95d0b6a88880d8e805b4c6609c66f5ea4bd5500a7938ff4901a2ecd1eb61f67 := by decide
theorem c4t_inv0_e124 : fp_sqr 0xc95d0b6a88880d8e805b4c6609c66f5ea4bd5500a7938ff4901a2ecd1eb61f67 = 0x105fd462cf4d77d71f295fac76ef3182db04e35aa1356fa3edc09b194d6af963 := by decide
theorem c4t_inv0_e125 : fp_sqr 0x105fd462cf4d77d71f295fac76ef3182db04e35aa1356fa3edc09b194d6af963 = 0x1139ac5367202d63d380e9e615479e9f2869ea333a3999e67846019a79f99f0e := by decide
theorem c4t_inv0_e126 : fp_sqr 0x1139ac5367202d63d380e9e615479e9f2869ea333a3999e67846019a79f99f0e = 0xcfe64613f2655a2b45086f1dfda556792f3804ae99be1c7c0d64141aac5def70 := by decide
theorem c4t_inv0_e127 : fp_sqr 0xcfe64613f2655a2b45086f1dfda556792f3804ae99be1c7c0d64141aac5def70 = 0xe1d89d72b1b9b302a749cab8c8ff70731166ec20dc8ea21a0657aeef0fe60592 := by decide
theorem c4t_inv0_e128 : fp_sqr 0xe1d89d72b1b9b302a749cab8c8ff70731166ec20dc8ea21a0657aeef0fe60592 = 0x8c27e422513c01f4e65f9d9ab9c5adc420125e7c711eefd612fab2ecf910ab75 := by decide
theorem c4t_inv0_e129 : fp_sqr 0x8c27e422513c01f4e65f9d9ab9c5adc420125e7c711eefd612fab2ecf910ab75 = 0xa77ed58466e76934dd9871a2d74ed02a3d2ec64a70915432a3168db384094588 := by decide
theorem c4t_inv0_e130 : fp_sqr 0xa77ed58466e76934dd9871a2d74ed02a3d2ec64a70915432a3168db384094588 = 0xd3cdc5ee60c657681f1cb41c01b74f3e977351ef586f9fe28b3f9c7d113cd85 := by decide
theorem c4t_inv0_e131 : fp_sqr 0xd3cdc5ee60c657681f1cb41c01b74f3e977351ef586f9fe28b3f9c7d113cd85 = 0x4a1a099911dd181938993f2d8bd8a03f0f3343cce135cb88a7492eafdde69d1 := by decide
theorem c4t_inv0_e132 : fp_sqr 0x4a1a099911dd181938993f2d8bd8a03f0f3343cce135cb88a7492eafdde69d1 = 0x7b76d2dce51cf4ff6bca5ab8f675070fa6141d64a805fc094612c353502687bc := by decide
theorem c4t_inv0_e133 : fp_sqr 0x7b76d2dce51cf4ff6bca5ab8f675070fa6141d64a805fc094612c353502687bc = 0x5b4f988fad547adb1ead642070d584b6e07a237033b30e2901eb8439e86449c := by decide
theorem c4t_inv0_e134 : fp_sqr 0x5b4f988fad547adb1ead642070d584b6e07a237033b30e2901eb8439e86449c = 0x181ab3a6d9ec3b7ddb73ada97b4491c02a5f3580a9fd6eab834abf2c9beca0da := by decide
theorem c4t_inv0_e135 : fp_sqr 0x181ab3a6d9ec3b7ddb73ada97b4491c02a5f3580a9fd6eab834abf2c9beca0da = 0xb913bc6aa49571c1b61c253294a1ad3843391e79955567cd378818b7ffaab8cb := by decide
theorem c4t_inv0_e136 : fp_sqr 0xb913bc6aa49571c1b61c253294a1ad3843391e79955567cd378818b7ffaab8cb = 0x1a209fc7b88cbf4f8113479e25cb16eb3d5ccc4357aacda7aede885ff0390e18 := by decide
theorem c4t_inv0_e137 : fp_sqr 0x1a209fc7b88cbf4f8113479e25cb16eb3d5ccc4357aacda7aede885ff0390e18 = 0x700dea07655c784f2af82d7b64276fcbe1c59fbf8342f69ceac1708ca40c391e := by decide
theorem c4t_inv0_e138 : fp_sqr 0x700dea07655c784f2af82d7b64276fcbe1c59fbf8342f69ceac1708ca40c391e = 0x387e819e536b4ccf14d88b5b59b3c9faafcf8312ff9f04e6d52d7fc54898d5f1 := by decide
theorem c4t_inv0_e139 : fp_sqr 0x387e819e536b4ccf14d88b5b59b3c9faafcf8312ff9f04e6d52d7fc54898d5f1 = 0xd8b4e66106c3c12d054e2107bb8191d928a45a7a8adcafbcadc7b4c15358d910 := by decide
theorem c4t_inv0_e140 : fp_sqr 0xd8b4e66106c3c12d054e2107bb8191d928a45a7a8adcafbcadc7b4c15358d910 = 0x947f57680ad98f40be5884eb80a744ae37fcbe22dfd8638bfbdad021a502cf43 := by decide
theorem c4t_inv0_e141 : fp_sqr 0x947f57680ad98f40be5884eb80a744ae37fcbe22dfd8638bfbdad021a502cf43 = 0x8aba9eadea3c048ff23f67464c196ecb7ee79f85eb79fdddd78707e52040f5a2 := by decide
theorem c4t_inv0_e142 : fp_sqr 0x8aba9eadea3c048ff23f67464c196ecb7ee79f85eb79fdddd78707e52040f5a2 = 0xddfd322c768e8d96484a01023200175ab58964bf079ba9ee5604118fdbfda915 := by decide
theorem c4t_inv0_e143 : fp_sqr 0xddfd322c768e8d96484a01023200175ab58964bf079ba9ee5604118fdbfda915 = 0x4539f917cd73d93fe64dbf17e85cef6cf20704e0d5ec4915fccb44708dd786c4 := by decide
theorem c4t_inv0_e144 : fp_sqr 0x4539f917cd73d93fe64dbf17e85cef6cf20704e0d5ec4915fccb44708dd786c4 = 0x11cbc12ec3748cafa1b62b279d2a93d2270f98cf1f7d1f1ad90adab2a403aa02 := by decide
theorem c4t_inv0_e145 : fp_sqr 0x11cbc12ec3748cafa1b62b279d2a93d2270f98cf1f7d1f1ad90adab2a403aa02 = 0x4894668f2d0abfee34645a6a9c2d55bdb2f723b4aee9c3b1a394dfcc523f240 := by decide
theorem c4t_inv0_e146 : fp_sqr 0x4894668f2d0abfee34645a6a9c2d55bdb2f723b4aee9c3b1a394dfcc523f240 = 0x5825cd10476de5aab9452c0970595bd7bbc5b567d7823f94a8d216da5c284dd2 := by decide
theorem c4t_inv0_e147 : fp_sqr 0x5825cd10476de5aab9452c0970595bd7bbc5b567d7823f94a8d216da5c284dd2 = 0x17a5f602752d0a99bcaacc8cedc1ae2bba8042a86b63dbab0cf5d208ff468d0b := by decide
theorem c4t_inv0_e148 : fp_sqr 0x17a5f602752d0a99bcaacc8cedc1ae2bba8042a86b63dbab0cf5d208ff468d0b = 0x6be5f5102821d1df7120aa2b9c477309496851419e26577d9c08446c10c3fd65 := by decide
theorem c4t_inv0_e149 : fp_sqr 0x6be5f5102821d1df7120aa2b9c477309496851419e26577d9c08446c10c3fd65 = 0xfbfa79bbc07c0bc8f82d8df5a6cce33e9eb107c8a3e5409d287f21e39a20a197 := by decide
theorem c4t_inv0_e150 : fp_sqr 0xfbfa79bbc07c0bc8f82d8df5a6cce33e9eb107c8a3e5409d287f21e39a20a197 = 0x201e8e353e55b445de63168839e8b4d9e91b662a87f5588d164ad88a3563817d := by decide
theorem c4t_inv0_e151 : fp_sqr 0x201e8e353e55b445de63168839e8b4d9e91b662a87f5588d164ad88a3563817d = 0xe89c3c7939bf162a54a34952b2c8c1083cb630bc09866223a7819ed4c96d80f8 := by decide
theorem c4t_inv0_e152 : fp_sqr 0xe89c3c7939bf162a54a34952b2c8c1083cb630bc09866223a7819ed4c96d80f8 = 0xd810bad4c0914f5f6ab1747df2bf9c793fd5e042a1c3a5a9c7e245c4be033db4 := by decide
theorem c4t_inv0_e153 : fp_sqr 0xd810bad4c0914f5f6ab1747df2bf9c793fd5e042a1c3a5a9c7e245c4be033db4 = 0x8a817a8c84f7a3a53097201cdfb7ab1e00d53be94b1e161fa68a05a225db94b3 := by decide
theorem c4t_inv0_e154 : fp_sqr 0x8a817a8c84f7a3a53097201cdfb7ab1e00d53be94b1e161fa68a05a225db94b3 = 0x5ea664e405d74c28123c6f1b16476772e9d80aeb002c74d41e1350366dc76adc := by decide
theorem c4t_inv0_e155 : fp_sqr 0x5ea664e405d74c28123c6f1b16476772e9d80aeb002c74d41e1350366dc76adc = 0xca6945e12587fbd6042e65b4bc84b6194278e2355b4f077f66e57ccd0df145ff := by decide
theorem c4t_inv0_e156 : fp_sqr 0xca6945e12587fbd6042e65b4bc84b6194278e2355b4f077f66e57ccd0df145ff = 0xd9bc529ccc54a72f6035884ab324ee5616a87885510544b91e704563372435d1 := by decide
theorem c4t_inv0_e157 : fp_sqr 0xd9bc529ccc54a72f6035884ab324ee5616a87885510544b91e704563372435d1 = 0xa694cfe38733594c51cbdb8429d4c2b31992ddfc838a1bbe3deea98df18b75ca := by decide
theorem c4t_inv0_e158 : fp_sqr 0xa694cfe38733594c51cbdb8429d4c2b31992ddfc838a1bbe3deea98df18b75ca = 0x13c58940fd6975727e06f71b67f548d93ba2266c343231f62ba8a05ad12b08a0 := by decide
theorem c4t_inv0_e159 : fp_sqr 0x13c58940fd6975727e06f71b67f548d93ba2266c343231f62ba8a05ad12b08a0 = 0x3fd6768a5c97008e6b6b96d4b78d6f0131a543c7914af4e232bc58913457866a := by decide
theorem c4t_inv0_e160 : fp_sqr 0x3fd6768a5c97008e6b6b96d4b78d6f0131a543c7914af4e232bc58913457866a = 0x65db7014fa3ba4ec0c42f75cea656980910a4e7ba0746ea9e1e29fd514aa9c93 := by decide
theorem c4t_inv0_e161 : fp_sqr 0x65db7014fa3ba4ec0c42f75cea656980910a4e7ba0746ea9e1e29fd514aa9c93 = 0xff4ec4fd8a5b28c2af0f72621986d84891bd09a571529c87f891923702c0de02 := by decide
theorem c4t_inv0_e162 : fp_sqr 0xff4ec4fd8a5b28c2af0f72621986d84891bd09a571529c87f891923702c0de02 = 0x46e7b7b968325ee74ac0de47249f0c7baadb39126cec6e8276804609a690da85 := by decide
theorem c4t_inv0_e163 : fp_sqr 0x46e7b7b968325ee74ac0de47249f0c7baadb39126cec6e8276804609a690da85 = 0x88fa9f0e336f11fa8d38e6f933d159b0dce229fbbcd67711097cd955e1637232 := by decide
theorem c4t_inv0_e164 : fp_sqr 0x88fa9f0e336f11fa8d38e6f933d159b0dce229fbbcd67711097cd955e1637232 = 0x22d39acf591fdfd14eae6fa768556f20d4eabe06047600e417a82c6febc143f6 := by decide
theorem c4t_inv0_e165 : fp_sqr 0x22d39acf591fdfd14eae6fa768556f20d4eabe06047600e417a82c6febc143f6 = 0xfe3b73e74e30ab5bca4a8bd0734e0779b9b2cd9824b496837cf53e0c7035dd47 := by decide
theorem c4t_inv0_e166 : fp_sqr 0xfe3b73e74e30ab5bca4a8bd0734e0779b9b2cd9824b496837cf53e0c7035dd47 = 0x5fc69f975e61259810a26c5ad84f4e730b6ee121a3827b368e18952542a928ee := by decide
theorem c4t_inv0_e167 : fp_sqr 0x5fc69f975e61259810a26c5ad84f4e730b6ee121a3827b368e18952542a928ee = 0xae368f8b46bdb126d8cae7f98dd99f3944693656a83348eecc65dc4a54c918c7 := by decide
theorem c4t_inv0_e168 : fp_sqr 0xae368f8b46bdb126d8cae7f98dd99f3944693656a83348eecc65dc4a54c918c7 = 0x7322ff81b407d1671e81db05428ad927a64418738c1ea301db72ed31f740a7ac := by decide
theorem c4t_inv0_e169 : fp_sqr 0x7322ff81b407d1671e81db05428ad927a64418738c1ea301db72ed31f740a7ac = 0xa0c0e551c388e33a8f6cb2e2e89da96e65c6448803939e0724ba80e47299a041 := by decide
theorem c4t_inv0_e170 : fp_sqr 0xa0c0e551c388e33a8f6cb2e2e89da96e65c6448803939e0724ba80e47299a041 = 0x7cc84675d8aaa466c7e24907bb55668d550d99dfe82e899a8031fe47f1c14a59 := by decide
theorem c4t_inv0_e171 : fp_sqr 0x7cc84675d8aaa466c7e24907bb55668d550d99dfe82e899a8031fe47f1c14a59 = 0x31af421cbaf34750feeb331dfd0c70f7c6b19595b597e203d284899b6d0a266f := by decide
theorem c4t_inv0_e172 : fp_sqr 0x31af421cbaf34750feeb331dfd0c70f7c6b19595b597e203d284899b6d0a266f = 0x1766502b36695a472b0c1fe4d1cfdafbb25242882b34fe704e18bf792461f897 := by decide
theorem c4t_inv0_e173 : fp_sqr 0x1766502b36695a472b0c1fe4d1cfdafbb25242882b34fe704e18bf792461f897 = 0xf07b69d5d3d0d49a24d61163cd9e12d5d45da50b4e4c4fabadc8061d92fe965 := by decide
theorem c4t_inv0_e174 : fp_sqr 0xf07b69d5d3d0d49a24d61163cd9e12d5d45da50b4e4c4fabadc8061d92fe965 = 0x99266f66b4556bdd3398ae55c64850f533aa60aab8589d069ea02abf784edbc1 := by decide
theorem c4t_inv0_e175 : fp_sqr 0x99266f66b4556bdd3398ae55c64850f533aa60aab8589d069ea02abf784edbc1 = 0x2504aa860a359efc75e2bf2faf4fc98b621e6e3560d3fc1b5c2218145d5db633 := by decide
theorem c4t_inv0_e176 : fp_sqr 0x2504aa860a359efc75e2bf2faf4fc98b621e6e3560d3fc1b5c2218145d5db633 = 0x1c61d7c10f3dd2451c106b2b4e469c08c50749a13afd610992d6829f4161e6cc := by decide
theorem c4t_inv0_e177 : fp_sqr 0x1c61d7c10f3dd2451c106b2b4e469c08c50749a13afd610992d6829f4161e6cc = 0x28a750f890041bc4763687d8b3081548d322eb0b4a07b8f7a2afdca658869bf6 := by decide
theorem c4t_inv0_e178 : fp_sqr 0x28a750f890041bc4763687d8b3081548d322eb0b4a07b8f7a2afdca658869bf6 = 0x5953cac03d1d948bc6a9cf3207fd888567137892b9d09b44c3e0fbe13119a440 := by decide
theorem c4t_inv0_e179 : fp_sqr 0x5953cac03d1d948bc6a9cf3207fd888567137892b9d09b44c3e0fbe13119a440 = 0xafc7126166bca476a82542e65cfe003c950978a03562c9747bf50292bda78c6c := by decide
theorem c4t_inv0_e180 : fp_sqr 0xafc7126166bca476a82542e65cfe003c950978a03562c9747bf50292bda78c6c = 0x3958e4021f7874059559639cf06abca03db920bdc2094d7eada5d1b2f3d61f92 := by decide
theorem c4t_inv0_e181 : fp_sqr 0x3958e4021f7874059559639cf06abca03db920bdc2094d7eada5d1b2f3d61f92 = 0x7fb69d1d7e59ff7cbe298d87774500f1523ce3ec947f6933e93d82e3ac171fcd := by decide
theorem c4t_inv0_e182 : fp_sqr 0x7fb69d1d7e59ff7cbe298d87774500f1523ce3ec947f6933e93d82e3ac171fcd = 0x418256217ef31bc34cccd55ecf89387c3efeb78dd6540441d115e10885cf09b1 := by decide
theorem c4t_inv0_e183 : fp_mul 0x418256217ef31bc34cccd55ecf89387c3efeb78dd6540441d115e10885cf09b1 0x5e8e1f6b85219883113c2bbe030c8d994b412834fc51162632eda9f28f85f211 = 0xce1cc7bb852c03c208225b223dc904e71346d20b85fb710a856eccc43f3dd8f3 := by decide
theorem c4t_inv0_e184 : fp_sqr 0xce1cc7bb852c03c208225b223dc904e71346d20b85fb710a856eccc43f3dd8f3 = 0xfdc50370773bb055599757e2225f1786356a0c8f225434a31425e508df4c56ea := by decide
theorem c4t_inv0_e185 : fp_sqr 0xfdc50370773bb055599757e2225f1786356a0c8f225434a31425e508df4c56ea = 0x16ed52434143508415e0c8744d100e93d2b944e40d618e4d1463a8122c51f4c9 := by decide
theorem c4t_inv0_e186 : fp_sqr 0x16ed52434143508415e0c8744d100e93d2b944e40d618e4d1463a8122c51f4c9 = 0xc9495be251fb02b9727ca5cc5450d64501548a38c6e611020f5842fb95aa7fdd := by decide
theorem c4t_inv0_e187 : fp_sqr 0xc9495be251fb02b9727ca5cc5450d64501548a38c6e611020f5842fb95aa7fdd = 0xef278bbc7644e4b1c356a9e47944f03a06b980a2e6d387553a7749fce397eda := by decide
theorem c4t_inv0_e188 : fp_sqr 0xef278bbc7644e4b1c356a9e47944f03a06b980a2e6d387553a7749fce397eda = 0xa1022d054d8801086e3501fd1046ec237f3dabd67d8474796215c4317c178ff5 := by decide
theorem c4t_inv0_e189 : fp_sqr 0xa1022d054d8801086e3501fd1046ec237f3dabd67d8474796215c4317c178ff5 = 0x23b2e80845581e6a0dea4ccecba8aff699997163ea08db0c3348ebe10081f95b := by decide
theorem c4t_inv0_e190 : fp_sqr 0x23b2e80845581e6a0dea4ccecba8aff699997163ea08db0c3348ebe10081f95b = 0x3de6b14049317f141121caaf60e5e1fe4ee3b443919b83195cb7c5b70a8c513e := by decide
theorem c4t_inv0_e191 : fp_sqr 0x3de6b14049317f141121caaf60e5e1fe4ee3b443919b83195cb7c5b70a8c513e = 0x36ffd83348c2072fc0342ff9878e79cfb687b349f299a60651b09a69034ed00a := by decide
theorem c4t_inv0_e192 : fp_sqr 0x36ffd83348c2072fc0342ff9878e79cfb687b349f299a60651b09a69034ed00a = 0x87850cf8a1f1753e9775d17f8b16e6fa94724e831b86aa12ea3521606c55b14 := by decide
theorem c4t_inv0_e193 : fp_sqr 0x87850cf8a1f1753e9775d17f8b16e6fa94724e831b86aa12ea3521606c55b14 = 0xcabd4f95520228f09c4b55b3c709fc5b466e229e7d223dea5eaa73722eeb8893 := by decide
theorem c4t_inv0_e194 : fp_sqr 0xcabd4f95520228f09c4b55b3c709fc5b466e229e7d223dea5eaa73722eeb8893 = 0xd1cd162e90cafead61002726757a7af3a749b653eaf272781f88b986dc2dc41f := by decide
theorem c4t_inv0_e195 : fp_sqr 0xd1cd162e90cafead61002726757a7af3a749b653eaf272781f88b986dc2dc41f = 0x4f9bbd5a49de1bfca8d842a4b033579b7e2983357fd8fa3e5ea81895ff932748 := by decide
theorem c4t_inv0_e196 : fp_sqr 0x4f9bbd5a49de1bfca8d842a4b033579b7e2983357fd8fa3e5ea81895ff932748 = 0xef5d15e488585806c392c5a60d865857ca661954373522189ebd717ab06ea059 := by decide
theorem c4t_inv0_e197 : fp_sqr 0xef5d15e488585806c392c5a60d865857ca661954373522189ebd717ab06ea059 = 0x27e41b8a003baaa6d73b6e9e87f93fe098c272e385402ed2f08bcbbec4f22500 := by decide
theorem c4t_inv0_e198 : fp_sqr 0x27e41b8a003baaa6d73b6e9e87f93fe098c272e385402ed2f08bcbbec4f22500 = 0x126f265110d6803ed84705a21aea278f5d7c6d2dfdd0573d2b04e82293d47ec8 := by decide
theorem c4t_inv0_e199 : fp_sqr 0x126f265110d6803ed84705a21aea278f5d7c6d2dfdd0573d2b04e82293d47ec8 = 0xfd4b42d092183d69e6b009f205a989a7dca172c9b279cae4fde7316b8e7f4278 := by decide
theorem c4t_inv0_e200 : fp_sqr 0xfd4b42d092183d69e6b009f205a989a7dca172c9b279cae4fde7316b8e7f4278 = 0xeaa58425c1411a167eac05941d7a990ad08eefd344668e9b5dbe4198a1da9238 := by decide
theorem c4t_inv0_e201 : fp_sqr 0xeaa58425c1411a167eac05941d7a990ad08eefd344668e9b5dbe4198a1da9238 = 0x9f3ce720aaeb7603e74ee6ce6c833a3cd65de5ed81f15611c3374650766acd3e := by decide
theorem c4t_inv0_e202 : fp_sqr 0x9f3ce720aaeb7603e74ee6ce6c833a3cd65de5ed81f15611c3374650766acd3e = 0x89ae2b852249f18704c1ccdd628da91319cda3bae24dc34cf57b7d7eb91231ab := by decide
theorem c4t_inv0_e203 : fp_sqr 0x89ae2b852249f18704c1ccdd628da91319cda3bae24dc34cf57b7d7eb91231ab = 0x3613a860fa382bae7b0467b13e4a73997bd59fa0f6f6786bd5ea7f240fd365e6 := by decide
theorem c4t_inv0_e204 : fp_sqr 0x3613a860fa382bae7b0467b13e4a73997bd59fa0f6f6786bd5ea7f240fd365e6 = 0xb39d518bfa644fee423a1f67ba554997a45e799093892302417d1077241a633c := by decide
theorem c4t_inv0_e205 : fp_sqr 0xb39d518bfa644fee423a1f67ba554997a45e799093892302417d1077241a633c = 0xd6062d38505aab9ec2edf67053384baf63cd1de7b9c3b140145ed144b26dec96 := by decide
theorem c4t_inv0_e206 : fp_sqr 0xd6062d38505aab9ec2edf67053384baf63cd1de7b9c3b140145ed144b26dec96 = 0xb95b1c4d10c06d035ae8d4324bfe40b4a54a196cb29882f7c3dacb46ee440ab6 := by decide
theorem c4t_inv0_e207 : fp_sqr 0xb95b1c4d10c06d035ae8d4324bfe40b4a54a196cb29882f7c3dacb46ee440ab6 = 0x44005ea29e3a320a7b33e169963187469b1a2f4c1a71cafb50cc40476af8eec2 := by decide
theorem c4t_inv0_e208 : fp_sqr 0x44005ea29e3a320a7b33e169963187469b1a2f4c1a71cafb50cc40476af8eec2 = 0x4af0fde19d7afe3bd90c743bdab7aa4d9fcfafb3e2046deff9efb53346e41100 := by decide
theorem c4t_inv0_e209 : fp_sqr 0x4af0fde19d7afe3bd90c743bdab7aa4d9fcfafb3e2046deff9efb53346e41100 = 0x2e08287eb2e1831897bf101dffc3f1ef146bf3d50c7147a502029a0918186ac9 := by decide
theorem c4t_inv0_e210 : fp_sqr 0x2e08287eb2e1831897bf101dffc3f1ef146bf3d50c7147a502029a0918186ac9 = 0x37c4e8fddeb71622054729c987be1ff2a21bc88c8e62eb13694a65efefa8922c := by decide
theorem c4t_inv0_e211 : fp_sqr 0x37c4e8fddeb71622054729c987be1ff2a21bc88c8e62eb13694a65efefa8922c = 0x9fd45dc7a0046052643a7e39ab072c19600ca93d17bd5c22083ad2e8a2b32557 := by decide
theorem c4t_inv0_e212 : fp_sqr 0x9fd45dc7a0046052643a7e39ab072c19600ca93d17bd5c22083ad2e8a2b32557 = 0x7c91c7cad6833840f9dd9b8d0da5833d264ceef2a483f1a0fe6b7443b07060d1 := by decide
theorem c4t_inv0_e213 : fp_sqr 0x7c91c7cad6833840f9dd9b8d0da5833d264ceef2a483f1a0fe6b7443b07060d1 = 0x7d8680243675ca435b0c1a0ace7b9299cf862e1fa1b1a6f7dbf9bd19a1fe3084 := by decide
theorem c4t_inv0_e214 : fp_sqr 0x7d8680243675ca435b0c1a0ace7b9299cf862e1fa1b1a6f7dbf9bd19a1fe3084 = 0x9b4ade2d551d288fe25b38e67d554e6817aa8adef6cc9d31b9e1b51760b2e68f := by decide
theorem c4t_inv0_e215 : fp_sqr 0x9b4ade2d551d288fe25b38e67d554e6817aa8adef6cc9d31b9e1b51760b2e68f = 0xbfb9a48c1f1910ff09dc942cf91074ae2291a7f72e8ff25053d82e6735efa72b := by decide
theorem c4t_inv0_e216 : fp_sqr 0xbfb9a48c1f1910ff09dc942cf91074ae2291a7f72e8ff25053d82e6735efa72b = 0xac55f926c58dc189037bfb32e9aa7e186778d27fc5c56bd099b7d6c66549f878 := by decide
theorem c4t_inv0_e217 : fp_sqr 0xac55f926c58dc189037bfb32e9aa7e186778d27fc5c56bd099b7d6c66549f878 = 0xa79a4e950d7bafc3fd050bbaa755c9c1f58ea20e102efdb789a0167286b6656b := by decide
theorem c4t_inv0_e218 : fp_sqr 0xa79a4e950d7bafc3fd050bbaa755c9c1f58ea20e102efdb789a0167286b6656b = 0x8c7dbfce964b473a2469027be9d35c53d748efbee4c5e83449f34a29935ba53c := by decide
theorem c4t_inv0_e219 : fp_sqr 0x8c7dbfce964b473a2469027be9d35c53d748efbee4c5e83449f34a29935ba53c = 0x2390256738ee41f9c0ab6610d42999c7a3662bec2866485d6fc39014422fce27 := by decide
theorem c4t_inv0_e220 : fp_sqr 0x2390256738ee41f9c0ab6610d42999c7a3662bec2866485d6fc39014422fce27 = 0x7d296868750a110de2b7331c55e6d36af844f58444aefcb28633f376b7f4aaab := by decide
theorem c4t_inv0_e221 : fp_sqr 0x7d296868750a110de2b7331c55e6d36af844f58444aefcb28633f376b7f4aaab = 0x9466f992eaeb2f4fa8007a8d1d4392d81d47909136c5771244e726fa58fa027b := by decide
theorem c4t_inv0_e222 : fp_sqr 0x9466f992eaeb2f4fa8007a8d1d4392d81d47909136c5771244e726fa58fa027b = 0xd3bb533f8ea2d9626d966ab0638c8bee2efc0704342e6d28616ea281f4b6ed51 := by decide
theorem c4t_inv0_e223 : fp_sqr 0xd3bb533f8ea2d9626d966ab0638c8bee2efc0704342e6d28616ea281f4b6ed51 = 0x9e8d9be099ec67dae42df7ed7b562d3825418e9138784d9d7275f6b9616739c8 := by decide
theorem c4t_inv0_e224 : fp_sqr 0x9e8d9be099ec67dae42df7ed7b562d3825418e9138784d9d7275f6b9616739c8 = 0x91c4b809f9698142a3f2a6033ba543d6a8563aeaf8d0b7c3dbbbff203b299f60 := by decide
theorem c4t_inv0_e225 : fp_sqr 0x91c4b809f9698142a3f2a6033ba543d6a8563aeaf8d0b7c3dbbbff203b299f60 = 0x8bff7a415ee151bba2f16561a36009bfef268590cd835ed2d884d59b6b15f328 := by decide
theorem c4t_inv0_e226 : fp_sqr 0x8bff7a415ee151bba2f16561a36009bfef268590cd835ed2d884d59b6b15f328 = 0xe6ae0d76b39f599ebefe57399e3772447843221afb092efee32560fd01ab84cd := by decide
theorem c4t_inv0_e227 : fp_sqr 0xe6ae0d76b39f599ebefe57399e3772447843221afb092efee32560fd01ab84cd = 0xe5887521a7b6465e99646e2515ae6c048bcfd14e6e944077d9bd4c162d7b7599 := by decide
theorem c4t_inv0_e228 : fp_mul 0xe5887521a7b6465e99646e2515ae6c048bcfd14e6e944077d9bd4c162d7b7599 0x700657b81b247c296d1359899fe3bcc967d209a847a9d11f0ed4c42786e26657 = 0xbbb0733470dbf70a7eb020404fbd649c29dbf11c917b868b01b157b3116bfb3e := by decide
theorem c4t_inv0_e229 : fp_sqr 0xbbb0733470dbf70a7eb020404fbd649c29dbf11c917b868b01b157b3116bfb3e = 0x9158176c481fdd6e52a62df973d42ae9db00dd214bbffadb0d3f958c6aa5b7fd := by decide
theorem c4t_inv0_e230 : fp_sqr 0x9158176c481fdd6e52a62df973d42ae9db00dd214bbffadb0d3f958c6aa5b7fd = 0x441a72e82d3cf95958adf0c0d32380147cda2613eeac417d3713c9b147cb030b := by decide
theorem c4t_inv0_e231 : fp_sqr 0x441a72e82d3cf95958adf0c0d32380147cda2613eeac417d3713c9b147cb030b = 0xd5130cf645b2fe07c6c775f95c48a4e355cbd285dc55e5d3e59e636ba1a3c93e := by decide
theorem c4t_inv0_e232 : fp_mul 0xd5130cf645b2fe07c6c775f95c48a4e355cbd285dc55e5d3e59e636ba1a3c93e 0x6b2e39393e3ba9cb60c759fa6601bf8d4cc2353368a6fd054af84bb40332b581 = 0x1d131724c288ad5ff22480505dc687db5e076306256ded3a4b2f89c11736757b := by decide
theorem c4t_inv0_e233 : fp_sqr 0x1d131724c288ad5ff22480505dc687db5e076306256ded3a4b2f89c11736757b = 0xc307d57e50deb5e93bb791ccdb504ba40921d93f13c28ca85009e7d58fb116b2 := by decide
theorem c4t_inv0_e234 : fp_sqr 0xc307d57e50deb5e93bb791ccdb504ba40921d93f13c28ca85009e7d58fb116b2 = 0x75954e83f598f24e57b763b86a4093223630af6a461a4ebbebc4f78916e3f386 := by decide
theorem c4t_inv0_e235 : fp_sqr 0x75954e83f598f24e57b763b86a4093223630af6a461a4ebbebc4f78916e3f386 = 0x68185d3e86fbc07a1fb1aea956c7ed607767d228f8980a19db3a3cca6d9ab82b := by decide
theorem c4t_inv0_e236 : fp_sqr 0x68185d3e86fbc07a1fb1aea956c7ed607767d228f8980a19db3a3cca6d9ab82b = 0xc11e4e4defeac2a06ac41b27687ff45e04a5a12530d6de54b1470189192c882a := by decide
theorem c4t_inv0_e237 : fp_sqr 0xc11e4e4defeac2a06ac41b27687ff45e04a5a12530d6de54b1470189192c882a = 0x82672e80ce0fa8106812b1e06337b31ebc2a9065057a021dbc431ef4d5dfcb3d := by decide
theorem c4t_inv0_e238 : fp_sqr 0x82672e80ce0fa8106812b1e06337b31ebc2a9065057a021dbc431ef4d5dfcb3d = 0xf67865f3e61a2580f4ad9b8a3000c0fca316bdd4cd2a974cdfefcb95132fad91 := by decide
theorem c4t_inv0_e239 : fp_sqr 0xf67865f3e61a2580f4ad9b8a3000c0fca316bdd4cd2a974cdfefcb95132fad91 = 0x361fdcd0407c61bb6e61765ca50c52f3290020c290f006163817c2251ee03534 := by decide
theorem c4t_inv0_e240 : fp_sqr 0x361fdcd0407c61bb6e61765ca50c52f3290020c290f006163817c2251ee03534 = 0xabc0eebb5fb024e2766c03479cce16ef861614d2ac040bade7831dd7c95cf369 := by decide
theorem c4t_inv0_e241 : fp_sqr 0xabc0eebb5fb024e2766c03479cce16ef861614d2ac040bade7831dd7c95cf369 = 0xab3c32f28ecf7cd7d638aff9fef35ea310fda1fa42323f02812f0f17bcad38ae := by decide
theorem c4t_inv0_e242 : fp_sqr 0xab3c32f28ecf7cd7d638aff9fef35ea310fda1fa42323f02812f0f17bcad38ae = 0xa594a6e6be690dba3b81d77ff9603a7e4726cc860abee6e2299c43265e540d4 := by decide
theorem c4t_inv0_e243 : fp_sqr 0xa594a6e6be690dba3b81d77ff9603a7e4726cc860abee6e2299c43265e540d4 = 0xae5d51d0c9c5263c93d2033b3304150d25834d6e14968b3a9c4560987e526d7e := by decide
theorem c4t_inv0_e244 : fp_sqr 0xae5d51d0c9c5263c93d2033b3304150d25834d6e14968b3a9c4560987e526d7e = 0x42c8470094fa143f404aab43a184d64d57326429d2e2919d5598afec78db5c85 := by decide
theorem c4t_inv0_e245 : fp_sqr 0x42c8470094fa143f404aab43a184d64d57326429d2e2919d5598afec78db5c85 = 0x443f046f6c3c2f18e143afa5fc9500beeaa7c608f43a522399b18e5604986eea := by decide
theorem c4t_inv0_e246 : fp_sqr 0x443f046f6c3c2f18e143afa5fc9500beeaa7c608f43a522399b18e5604986eea = 0x37b5f202b2e7f9d4270e192655e7f7950b28f0a86c83368eb98d032fd42bec72 := by decide
theorem c4t_inv0_e247 : fp_sqr 0x37b5f202b2e7f9d4270e192655e7f7950b28f0a86c83368eb98d032fd42bec72 = 0x92bd4e136746793a020172d34b89c83bb473b8967660e61db9735fde4093ba15 := by decide
theorem c4t_inv0_e248 : fp_sqr 0x92bd4e136746793a020172d34b89c83bb473b8967660e61db9735fde4093ba15 = 0x1ed6728e9c9a538595b7abfb2abd0a13dcd5067c7a31d45a994cf6a7a6586a06 := by decide
theorem c4t_inv0_e249 : fp_sqr 0x1ed6728e9c9a538595b7abfb2abd0a13dcd5067c7a31d45a994cf6a7a6586a06 = 0x62725fbf5b7566fa28d0bc466d350c2c60a2c0561cca5a834ee401b0759e0f5a := by decide
theorem c4t_inv0_e250 : fp_sqr 0x62725fbf5b7566fa28d0bc466d350c2c60a2c0561cca5a834ee401b0759e0f5a = 0x3b3bb098fe4e1ebde0ce821cd8ccd347d7157e73d830d57ec0fc615415625b29 := by decide
theorem c4t_inv0_e251 : fp_sqr 0x3b3bb098fe4e1ebde0ce821cd8ccd347d7157e73d830d57ec0fc615415625b29 = 0x499fa8c7b0daf9ea2d56967d3f4018d8b10ca1457867ed40750503095a532b0e := by decide
theorem c4t_inv0_e252 : fp_sqr 0x499fa8c7b0daf9ea2d56967d3f4018d8b10ca1457867ed40750503095a532b0e = 0x6d2b8e583ddbe17eb3e7d39de98fc9681fec80de2ec177b60e4ed15d5b85056a := by decide
theorem c4t_inv0_e253 : fp_sqr 0x6d2b8e583ddbe17eb3e7d39de98fc9681fec80de2ec177b60e4ed15d5b85056a = 0x80e8880571ae303701438f64cd3cdfe190ae6afb60ed032487e627578e2cb2a4 := by decide
theorem c4t_inv0_e254 : fp_sqr 0x80e8880571ae303701438f64cd3cdfe190ae6afb60ed032487e627578e2cb2a4 = 0xed0d7aa2a72edb314298c5cd42fe73140a95009dc9bd11d8df0ac26421bc3 := by decide
theorem c4t_inv0_e255 : fp_sqr 0xed0d7aa2a72edb314298c5cd42fe73140a95009dc9bd11d8df0ac26421bc3 = 0xd31c0704a6b62aab3d14d913b54786ea6b50f25ebdcaae6ec9bc9e4bfd9be269 := by decide
theorem c4t_inv0_e256 : fp_mul 0xd31c0704a6b62aab3d14d913b54786ea6b50f25ebdcaae6ec9bc9e4bfd9be269 0x4d708306294e98062d5e5b98bb77e5c97d12683647843e1ed293a792b4b500aa = 0x895feb85feae18e5d108b9bc264ab588483967d22be6060ccb3cec1d3c8aba4 := by decide
theorem c4t_inv0_e257 : fp_sqr 0x895feb85feae18e5d108b9bc264ab588483967d22be6060ccb3cec1d3c8aba4 = 0x645be37e5ae78ae04238870d0c20057a65b4abe721d44dffe69de371875b0110 := by decide
theorem c4t_inv0_e258 : fp_sqr 0x645be37e5ae78ae04238870d0c20057a65b4abe721d44dffe69de371875b0110 = 0x96ed203fc054d1a118ffd5b7be7001ef454d63061006955c336feb2170b19c1a := by decide
theorem c4t_inv0_e259 : fp_sqr 0x96ed203fc054d1a118ffd5b7be7001ef454d63061006955c336feb2170b19c1a = 0xb9167eac07ae980f65315ee0c1886075c4d296b0657d992ebbade1c2fa77c9d1 := by decide
theorem c4t_inv0_e260 : fp_sqr 0xb9167eac07ae980f65315ee0c1886075c4d296b0657d992ebbade1c2fa77c9d1 = 0x844808eee5d5c18c523a2517e2c5a1e3590d0b19e0883ab764b499824d1fa252 := by decide
theorem c4t_inv0_e261 : fp_sqr 0x844808eee5d5c18c523a2517e2c5a1e3590d0b19e0883ab764b499824d1fa252 = 0x90dfd3a0a93127dfd57da7bac1d190c05b0b9d5f357fc69395fc17a1c9978382 := by decide
theorem c4t_inv0_e262 : fp_mul 0x90dfd3a0a93127dfd57da7bac1d190c05b0b9d5f357fc69395fc17a1c9978382 0xb3b9e6eab7ef3e3f255b222738c68e2ea6246e8fa0deec31ae4677a0ba8774e2 = 0x50b925be592a897dd5f6ecfe619d781001ea1b3d47a829ef0489c0165492ca68 := by decide
theorem c4t_inv0_e263 : fp_sqr 0x50b925be592a897dd5f6ecfe619d781001ea1b3d47a829ef0489c0165492ca68 = 0xc2323a7b8e479dfd08e385edc6fbbd55dbd3522df6bcb839e096d713e3f565df := by decide
theorem c4t_inv0_e264 : fp_sqr 0xc2323a7b8e479dfd08e385edc6fbbd55dbd3522df6bcb839e096d713e3f565df = 0xf4f00dc26826606b9328895931a796e8c4788e389f8a854d11533cb81e1a9380 := by decide
theorem c4t_inv0_e265 : fp_sqr 0xf4f00dc26826606b9328895931a796e8c4788e389f8a854d11533cb81e1a9380 = 0xc07aad064e362ac1f5c5f8b5a69a4e78a823a5787fb207329d71335ef14e60c4 := by decide
theorem c4t_inv0_e266 : fp_mul 0xc07aad064e362ac1f5c5f8b5a69a4e78a823a5787fb207329d71335ef14e60c4 0x30ee324c444c6848abbad2819df355e9380533c4ff5111c70fba1618b8fb1768 = 0x44fb40dfd6b58ecc2c6119de8f3548b693cd60da8536b1c77e664748789e61bd := by decide
theorem c4t_inv0_e267 : fp_sqr 0x44fb40dfd6b58ecc2c6119de8f3548b693cd60da8536b1c77e664748789e61bd = 0xac946f7cd9ccebb8d59803e73c7d12aa395b2eb7e59a8ba119742df442fc6604 := by decide
theorem c4t_inv0_e268 : fp_sqr 0xac946f7cd9ccebb8d59803e73c7d12aa395b2eb7e59a8ba119742df442fc6604 = 0xf40eddc56be412ce1fac22510fd4f9c249c90fbb8644213e53bba51fd56c8015 := by decide
theorem c4t_inv0_value : fp_inv 0xb3b9e6eab7ef3e3f255b222738c68e2ea6246e8fa0deec31ae4677a0ba8774e2 = 0xf40eddc56be412ce1fac22510fd4f9c249c90fbb8644213e53bba51fd56c8015 := by
  simp only [fp_inv, sqrN_step_1, sqrN_step_2, sqrN_step_3, sqrN_step_4, sqrN_step_5, sqrN_step_6, sqrN_step_7, sqrN_step_8, sqrN_step_9, sqrN_step_10, sqrN_step_11, sqrN_step_12, sqrN_step_13, sqrN_step_14, sqrN_step_15, sqrN_step_16, sqrN_step_17, sqrN_step_18, sqrN_step_19, sqrN_step_20, sqrN_step_21, sqrN_step_22, sqrN_step_23, sqrN_step_24, sqrN_step_25, sqrN_step_26, sqrN_step_27, sqrN_step_28, sqrN_step_29, sqrN_step_30, sqrN_step_31, sqrN_step_32, sqrN_step_33, sqrN_step_34, sqrN_step_35, sqrN_step_36, sqrN_step_37, sqrN_step_38, sqrN_step_39, sqrN_step_40, sqrN_step_41, sqrN_step_42, sqrN_step_43, sqrN_step_44, sqrN_step_45, sqrN_step_46, sqrN_step_47, sqrN_step_48, sqrN_step_49, sqrN_step_50, sqrN_step_51, sqrN_step_52, sqrN_step_53, sqrN_step_54, sqrN_step_55, sqrN_step_56, sqrN_step_57, sqrN_step_58, sqrN_step_59, sqrN_step_60, sqrN_step_61, sqrN_step_62, sqrN_step_63, sqrN_step_64, sqrN_step_65, sqrN_step_66, sqrN_step_67, sqrN_step_68, sqrN_step_69, sqrN_step_70, sqrN_step_71, sqrN_step_72, sqrN_step_73, sqrN_step_74, sqrN_step_75, sqrN_step_76, sqrN_step_77, sqrN_step_78, sqrN_step_79, sqrN_step_80, sqrN_step_81, sqrN_step_82, sqrN_step_83, sqrN_step_84, sqrN_step_85, sqrN_step_86, sqrN_step_87, sqrN_step_88, sqrN_zero, c4t_inv0_e0, c4t_inv0_e1, c4t_inv0_e2, c4t_inv0_e3, c4t_inv0_e4, c4t_inv0_e5, c4t_inv0_e6, c4t_inv0_e7, c4t_inv0_e8, c4t_inv0_e9, c4t_inv0_e10, c4t_inv0_e11, c4t_inv0_e12, c4t_inv0_e13, c4t_inv0_e14, c4t_inv0_e15, c4t_inv0_e16, c4t_inv0_e17, c4t_inv0_e18, c4t_inv0_e19, c4t_inv0_e20, c4t_inv0_e21, c4t_inv0_e22, c4t_inv0_e23, c4t_inv0_e24, c4t_inv0_e25, c4t_inv0_e26, c4t_inv0_e27, c4t_inv0_e28, c4t_inv0_e29, c4t_inv0_e30, c4t_inv0_e31, c4t_inv0_e32, c4t_inv0_e33, c4t_inv0_e34, c4t_inv0_e35, c4t_inv0_e36, c4t_inv0_e37, c4t_inv0_e38, c4t_inv0_e39, c4t_inv0_e40, c4t_inv0_e41, c4t_inv0_e42, c4t_inv0_e43, c4t_inv0_e44, c4t_inv0_e45, c4t_inv0_e46, c4t_inv0_e47, c4t_inv0_e48, c4t_inv0_e49, c4t_inv0_e50, c4t_inv0_e51, c4t_inv0_e52, c4t_inv0_e53, c4t_inv0_e54, c4t_inv0_e55, c4t_inv0_e56, c4t_inv0_e57, c4t_inv0_e58, c4t_inv0_e59, c4t_inv0_e60, c4t_inv0_e61, c4t_inv0_e62, c4t_inv0_e63, c4t_inv0_e64, c4t_inv0_e65, c4t_inv0_e66, c4t_inv0_e67, c4t_inv0_e68, c4t_inv0_e69, c4t_inv0_e70, c4t_inv0_e71, c4t_inv0_e72, c4t_inv0_e73, c4t_inv0_e74, c4t_inv0_e75, c4t_inv0_e76, c4t_inv0_e77, c4t_inv0_e78, c4t_inv0_e79, c4t_inv0_e80, c4t_inv0_e81, c4t_inv0_e82, c4t_inv0_e83, c4t_inv0_e84, c4t_inv0_e85, c4t_inv0_e86, c4t_inv0_e87, c4t_inv0_e88, c4t_inv0_e89, c4t_inv0_e90, c4t_inv0_e91, c4t_inv0_e92, c4t_inv0_e93, c4t_inv0_e94, c4t_inv0_e95, c4t_inv0_e96, c4t_inv0_e97, c4t_inv0_e98, c4t_inv0_e99, c4t_inv0_e100, c4t_inv0_e101, c4t_inv0_e102, c4t_inv0_e103, c4t_inv0_e104, c4t_inv0_e105, c4t_inv0_e106, c4t_inv0_e107, c4t_inv0_e108, c4t_inv0_e109, c4t_inv0_e110, c4t_inv0_e111, c4t_inv0_e112, c4t_inv0_e113, c4t_inv0_e114, c4t_inv0_e115, c4t_inv0_e116, c4t_inv0_e117, c4t_inv0_e118, c4t_inv0_e119, c4t_inv0_e120, c4t_inv0_e121, c4t_inv0_e122, c4t_inv0_e123, c4t_inv0_e124, c4t_inv0_e125, c4t_inv0_e126, c4t_inv0_e127, c4t_inv0_e128, c4t_inv0_e129, c4t_inv0_e130, c4t_inv0_e131, c4t_inv0_e132, c4t_inv0_e133, c4t_inv0_e134, c4t_inv0_e135, c4t_inv0_e136, c4t_inv0_e137, c4t_inv0_e138, c4t_inv0_e139, c4t_inv0_e140, c4t_inv0_e141, c4t_inv0_e142, c4t_inv0_e143, c4t_inv0_e144, c4t_inv0_e145, c4t_inv0_e146, c4t_inv0_e147, c4t_inv0_e148, c4t_inv0_e149, c4t_inv0_e150, c4t_inv0_e151, c4t_inv0_e152, c4t_inv0_e153, c4t_inv0_e154, c4t_inv0_e155, c4t_inv0_e156, c4t_inv0_e157, c4t_inv0_e158, c4t_inv0_e159, c4t_inv0_e160, c4t_inv0_e161, c4t_inv0_e162, c4t_inv0_e163, c4t_inv0_e164, c4t_inv0_e165, c4t_inv0_e166, c4t_inv0_e167, c4t_inv0_e168, c4t_inv0_e169, c4t_inv0_e170, c4t_inv0_e171, c4t_inv0_e172, c4t_inv0_e173, c4t_inv0_e174, c4t_inv0_e175, c4t_inv0_e176, c4t_inv0_e177, c4t_inv0_e178, c4t_inv0_e179, c4t_inv0_e180, c4t_inv0_e181, c4t_inv0_e182, c4t_inv0_e183, c4t_inv0_e184, c4t_inv0_e185, c4t_inv0_e186, c4t_inv0_e187, c4t_inv0_e188, c4t_inv0_e189, c4t_inv0_e190, c4t_inv0_e191, c4t_inv0_e192, c4t_inv0_e193, c4t_inv0_e194, c4t_inv0_e195, c4t_inv0_e196, c4t_inv0_e197, c4t_inv0_e198, c4t_inv0_e199, c4t_inv0_e200, c4t_inv0_e201, c4t_inv0_e202, c4t_inv0_e203, c4t_inv0_e204, c4t_inv0_e205, c4t_inv0_e206, c4t_inv0_e207, c4t_inv0_e208, c4t_inv0_e209, c4t_inv0_e210, c4t_inv0_e211, c4t_inv0_e212, c4t_inv0_e213, c4t_inv0_e214, c4t_inv0_e215, c4t_inv0_e216, c4t_inv0_e217, c4t_inv0_e218, c4t_inv0_e219, c4t_inv0_e220, c4t_inv0_e221, c4t_inv0_e222, c4t_inv0_e223, c4t_inv0_e224, c4t_inv0_e225, c4t_inv0_e226, c4t_inv0_e227, c4t_inv0_e228, c4t_inv0_e229, c4t_inv0_e230, c4t_inv0_e231, c4t_inv0_e232, c4t_inv0_e233, c4t_inv0_e234, c4t_inv0_e235, c4t_inv0_e236, c4t_inv0_e237, c4t_inv0_e238, c4t_inv0_e239, c4t_inv0_e240, c4t_inv0_e241, c4t_inv0_e242, c4t_inv0_e243, c4t_inv0_e244, c4t_inv0_e245, c4t_inv0_e246, c4t_inv0_e247, c4t_inv0_e248, c4t_inv0_e249, c4t_inv0_e250, c4t_inv0_e251, c4t_inv0_e252, c4t_inv0_e253, c4t_inv0_e254, c4t_inv0_e255, c4t_inv0_e256, c4t_inv0_e257, c4t_inv0_e258, c4t_inv0_e259, c4t_inv0_e260, c4t_inv0_e261, c4t_inv0_e262, c4t_inv0_e263, c4t_inv0_e264, c4t_inv0_e265, c4t_inv0_e266, c4t_inv0_e267, c4t_inv0_e268]

theorem c4t_e0 : uint256_eq 0xb3b9e6eab7ef3e3f255b222738c68e2ea6246e8fa0deec31ae4677a0ba8774e2 0x0 = false := by decide

theorem c4t_e2 : fp_sqr 0xf40eddc56be412ce1fac22510fd4f9c249c90fbb8644213e53bba51fd56c8015 = 0xf2c2b38c613cc8f9532a94b91b9ea1dc9dfad8dbb446a3719c9574d69d9d41f1 := by decide

theorem c4t_e3 : fp_mul 0xf2c2b38c613cc8f9532a94b91b9ea1dc9dfad8dbb446a3719c9574d69d9d41f1 0xf40eddc56be412ce1fac22510fd4f9c249c90fbb8644213e53bba51fd56c8015 = 0xdac7aa96bf03e3104419adaa60bd3a24e18590bcff9fc9893bec9e0292810add := by decide

theorem c4t_e4 : fp_mul 0x3e61e957cb7eb9252155722d37056b581cacd9949cd7daeba682d81ee829826d 0xf2c2b38c613cc8f9532a94b91b9ea1dc9dfad8dbb446a3719c9574d69d9d41f1 = 0x85bef35a44bdc39c4afb6249f9a808bd834abf27c615cc5548a0bb8ac878d788 := by decide

theorem c4t_e5 : fp_mul 0xc9b31d4b3f13c2dcec21b5d446a06cd655056d83495f63f05135ff4434e7ba5 0xdac7aa96bf03e3104419adaa60bd3a24e18590bcff9fc9893bec9e0292810add = 0xc6ac77e96f8662a7af253b6188762ba8f1e18262b14acbf8ff48838939215b1c := by decide

theorem c4_j2a : jacobian_to_affine { X := 0x3e61e957cb7eb9252155722d37056b581cacd9949cd7daeba682d81ee829826d, Y := 0xc9b31d4b3f13c2dcec21b5d446a06cd655056d83495f63f05135ff4434e7ba5, Z := 0xb3b9e6eab7ef3e3f255b222738c68e2ea6246e8fa0deec31ae4677a0ba8774e2, infinity := false } = { x := 0x85bef35a44bdc39c4afb6249f9a808bd834abf27c615cc5548a0bb8ac878d788, y := 0xc6ac77e96f8662a7af253b6188762ba8f1e18262b14acbf8ff48838939215b1c, infinity := false } := by
  simp only [jacobian_to_affine, Bool.false_or, c4t_e0, c4t_e2, c4t_e3, c4t_e4, c4t_e5, c4t_inv0_value]
  decide

theorem c4_pub_a : point_to_pubkey { x := 0x3dede7abb1d466245c55cdc9edfb9cae18192061d2e9337f14af61b888fa645d, y := 0x5dec6a7f2d9a0a2e0080edb4fc56f3865763eba8f7738c2c40b090d681bcdf19, infinity := false } = [61, 237, 231, 171, 177, 212, 102, 36, 92, 85, 205, 201, 237, 251, 156, 174, 24, 25, 32, 97, 210, 233, 51, 127, 20, 175, 97, 184, 136, 250, 100, 93, 93, 236, 106, 127, 45, 154, 10, 46, 0, 128, 237, 180, 252, 86, 243, 134, 87, 99, 235, 168, 247, 115, 140, 44, 64, 176, 144, 214, 129, 188, 223, 25] := by decide

theorem c4_pub_j : point_to_pubkey { x := 0x85bef35a44bdc39c4afb6249f9a808bd834abf27c615cc5548a0bb8ac878d788, y := 0xc6ac77e96f8662a7af253b6188762ba8f1e18262b14acbf8ff48838939215b1c, infinity := false } = [133, 190, 243, 90, 68, 189, 195, 156, 74, 251, 98, 73, 249, 168, 8, 189, 131, 74, 191, 39, 198, 21, 204, 85, 72, 160, 187, 138, 200, 120, 215, 136, 198, 172, 119, 233, 111, 134, 98, 167, 175, 37, 59, 97, 136, 118, 43, 168, 241, 225, 130, 98, 177, 74, 203, 248, 255, 72, 131, 137, 57, 33, 91, 28] := by decide

theorem c4ka_abs : keccak64AbsorbState [61, 237, 231, 171, 177, 212, 102, 36, 92, 85, 205, 201, 237, 251, 156, 174, 24, 25, 32, 97, 210, 233, 51, 127, 20, 175, 97, 184, 136, 250, 100, 93, 93, 236, 106, 127, 45, 154, 10, 46, 0, 128, 237, 180, 252, 86, 243, 134, 87, 99, 235, 168, 247, 115, 140, 44, 64, 176, 144, 214, 129, 188, 223, 25] = 0x80000000000000000000000000000000000000000000000000000000000000000000000000000000000000000000000000000000000000000000000000000000000000000000000119dfbc81d690b0402c8c73f7a8eb635786f356fcb4ed80002e0a9a2d7f6aec5d5d64fa88b861af147f33e9d261201918ae9cfbedc9cd555c2466d4b1abe7ed3d := by decide

theorem c4ka_r0t : keccakTheta 0x80000000000000000000000000000000000000000000000000000000000000000000000000000000000000000000000000000000000000000000000000000000000000000000000119dfbc81d690b0402c8c73f7a8eb635786f356fcb4ed80002e0a9a2d7f6aec5d5d64fa88b861af147f33e9d261201918ae9cfbedc9cd555c2466d4b1abe7ed3d = 0x184ffe128675756e3af96109496571e2b8d97d0b11e568216f4d28ea706b3f8d2a2b8a19bd26804b184ffe128675756e3af96109496571e2b8d97d0b11e56821ef4d28ea706b3f8d2a2b8a19bd26804b184ffe128675756e3af96109496571e2b8d97d0b11e568216f4d28ea706b3f8d2a2b8a19bd26804b184ffe128675756e3af96109496571e3a106c18ac775d86143c15b1dd8805cdaacd8dce509cb004b3645643ff91f9933679d9b81f104def6c7ea94d970c57139c1d1d307b9a66ad10e4d5ea816c16d76 := by decide

theorem c4ka_r0p : keccakRhoPi keccak_rotc 0x184ffe128675756e3af96109496571e2b8d97d0b11e568216f4d28ea706b3f8d2a2b8a19bd26804b184ffe128675756e3af96109496571e2b8d97d0b11e56821ef4d28ea706b3f8d2a2b8a19bd26804b184ffe128675756e3af96109496571e2b8d97d0b11e568216f4d28ea706b3f8d2a2b8a19bd26804b184ffe128675756e3af96109496571e3a106c18ac775d86143c15b1dd8805cdaacd8dce509cb004b3645643ff91f9933679d9b81f104def6c7ea94d970c57139c1d1d307b9a66ad10e4d5ea816c16d76 = 0xbd34a3a9c1acfe354d0096545714337a3abab70c27ff0943f19d7cb084a4b2b871faa5365c315c4ee23af96109496571be8588f2b410dc6c34a3a9c1acfe35bd9cb004bacd8dce50ffc8fcc999b22b212866f49a012ca8ae4ffe128675756e181292cae3c475f2c241b062b1dd76186883a3a60f734cd5a3a1623cad04371b2f67f1bde9a51d4e0d515c50cde93402596e184ffe128675751f104def6679d9b8ff84a19d5d5b861321292cae3c475f2c2b410dc6cbe8588f56c77620173690f00e4d5ea816c16d76 := by decide

theorem c4ka_r0c : keccakChi 0xbd34a3a9c1acfe354d0096545714337a3abab70c27ff0943f19d7cb084a4b2b871faa5365c315c4ee23af96109496571be8588f2b410dc6c34a3a9c1acfe35bd9cb004bacd8dce50ffc8fcc999b22b212866f49a012ca8ae4ffe128675756e181292cae3c475f2c241b062b1dd76186883a3a60f734cd5a3a1623cad04371b2f67f1bde9a51d4e0d515c50cde93402596e184ffe128675751f104def6679d9b8ff84a19d5d5b861321292cae3c475f2c2b410dc6cbe8588f56c77620173690f00e4d5ea816c16d76 = 0x3d31fb2941285c850dca92424b0533308a8e96a5a757c546b49d7ce0d4a480807bd8263a7f6a550de20af9534d44a121a3458c7a24a2d66c7499d8c0a5b714ac16b40488dd8d0610dfcb5588b9c01a8c6876b42a8d1ea0e6cc7f108307353b1932922efbc47d72640cdc72b5ec76147091a12e4d734d3721c16a3ebd14b13f6a79e1fcabc7558e9dd15e50c9e916137b48b9e2de168f39710e545dee8f49dbb0af06819d5c6d16932160728e3ec73648f5c58cd78af0d89c56ef5608233197d0274d576ede092579 := by decide

theorem c4ka_r0 : keccakRound keccak_rotc 0x80000000000000000000000000000000000000000000000000000000000000000000000000000000000000000000000000000000000000000000000000000000000000000000000119dfbc81d690b0402c8c73f7a8eb635786f356fcb4ed80002e0a9a2d7f6aec5d5d64fa88b861af147f33e9d261201918ae9cfbedc9cd555c2466d4b1abe7ed3d 0 = 0x3d31fb2941285c850dca92424b0533308a8e96a5a757c546b49d7ce0d4a480807bd8263a7f6a550de20af9534d44a121a3458c7a24a2d66c7499d8c0a5b714ac16b40488dd8d0610dfcb5588b9c01a8c6876b42a8d1ea0e6cc7f108307353b1932922efbc47d72640cdc72b5ec76147091a12e4d734d3721c16a3ebd14b13f6a79e1fcabc7558e9dd15e50c9e916137b48b9e2de168f39710e545dee8f49dbb0af06819d5c6d16932160728e3ec73648f5c58cd78af0d89c56ef5608233197d0274d576ede092578 := by

  simp only [keccakRound, c4ka_r0t, c4ka_r0p, c4ka_r0c]

  decide

theorem c4ka_r1t : keccakTheta 0x3d31fb2941285c850dca92424b0533308a8e96a5a757c546b49d7ce0d4a480807bd8263a7f6a550de20af9534d44a121a3458c7a24a2d66c7499d8c0a5b714ac16b40488dd8d0610dfcb5588b9c01a8c6876b42a8d1ea0e6cc7f108307353b1932922efbc47d72640cdc72b5ec76147091a12e4d734d3721c16a3ebd14b13f6a79e1fcabc7558e9dd15e50c9e916137b48b9e2de168f39710e545dee8f49dbb0af06819d5c6d16932160728e3ec73648f5c58cd78af0d89c56ef5608233197d0274d576ede092578 = 0x3e16d548196736c557963c237d22b22e4ece299355b63427780b529e7af5d63bc3be535d17065935e12dd732150bcb61f919221b12855772b0d967f65756e5cdda222af673dc50ab67ad20efd1ac16b46b519a4bd551caa69623bee23112ba07f6d291cd369c8305c04a5ccb422742cb29c75b2a1b213b19c24d10dc4cfe552a23bd52caf1720f83151eefff1bf7e21a842fcca0b8de6fcab6322889e725d788ac21affc04227cd37b3cdcef08e0b756318533e1781129fd9a7978768d60c16b9f2b2209b6652940 := by decide

theorem c4ka_r1p : keccakRhoPi keccak_rotc 0x3e16d548196736c557963c237d22b22e4ece299355b63427780b529e7af5d63bc3be535d17065935e12dd732150bcb61f919221b12855772b0d967f65756e5cdda222af673dc50ab67ad20efd1ac16b46b519a4bd551caa69623bee23112ba07f6d291cd369c8305c04a5ccb422742cb29c75b2a1b213b19c24d10dc4cfe552a23bd52caf1720f83151eefff1bf7e21a842fcca0b8de6fcab6322889e725d788ac21affc04227cd37b3cdcef08e0b756318533e1781129fd9a7978768d60c16b9f2b2209b6652940 = 0xe02d4a79ebd758ed582d68cf5a41dfa3a8e55335a8cd25eac191dea96578b9074c614cf85e044a7f2e57963c237d22b2b3fb2bab72e6d86c29732d089d0b2f01725d788b6322889ee02113e69d610d7f4d745c1964d70ef92dd732150bcb61e1c46225740f2c477d47bbffc6fdf8868534f2f0ed1ac182d7326ab6c684e9d9c58a157b44455ece7b4e3ad950d909d8c92ac24d10dc4cfe55f08e0b7567b3cdceb5520659cdb14f85436250aaee5f2324e4182fb6948e69b4f3282e379bf2a10b9f2b2209b6652940 := by decide

theorem c4ka_r1c : keccakChi 0xe02d4a79ebd758ed582d68cf5a41dfa3a8e55335a8cd25eac191dea96578b9074c614cf85e044a7f2e57963c237d22b2b3fb2bab72e6d86c29732d089d0b2f01725d788b6322889ee02113e69d610d7f4d745c1964d70ef92dd732150bcb61e1c46225740f2c477d47bbffc6fdf8868534f2f0ed1ac182d7326ab6c684e9d9c58a157b44455ece7b4e3ad950d909d8c92ac24d10dc4cfe55f08e0b7567b3cdceb5520659cdb14f85436250aaee5f2324e4182fb6948e69b4f3282e379bf2a10b9f2b2209b6652940 = 0x61bdd878caafe9ed546d6c4f4e41ddb108e55105095b25a69199f6633778630664054decd6814e973c0bfe35417fa23273db2a69eee6d5212577b91c9c120d93e0d57a2801c658f2e90316e601682a7e0e7d531b81ef0af91d5592f111cbe1e78442697c6b3849656e2eedc7fd3ba605b4b2f0dd18c5c3af382af2c61ca5ebd44a917275264cca717e505dd259a8c94daac76f14d81af867b4b69b3566b2cd46d5520a6fc423cf8e494b70aadc1b0364500829e7952e2535f04a7e3ff1a3a30b9b3b2389b26961f4 := by decide

theorem c4ka_r1 : keccakRound keccak_rotc 0x3d31fb2941285c850dca92424b0533308a8e96a5a757c546b49d7ce0d4a480807bd8263a7f6a550de20af9534d44a121a3458c7a24a2d66c7499d8c0a5b714ac16b40488dd8d0610dfcb5588b9c01a8c6876b42a8d1ea0e6cc7f108307353b1932922efbc47d72640cdc72b5ec76147091a12e4d734d3721c16a3ebd14b13f6a79e1fcabc7558e9dd15e50c9e916137b48b9e2de168f39710e545dee8f49dbb0af06819d5c6d16932160728e3ec73648f5c58cd78af0d89c56ef5608233197d0274d576ede092578 1 = 0x61bdd878caafe9ed546d6c4f4e41ddb108e55105095b25a69199f6633778630664054decd6814e973c0bfe35417fa23273db2a69eee6d5212577b91c9c120d93e0d57a2801c658f2e90316e601682a7e0e7d531b81ef0af91d5592f111cbe1e78442697c6b3849656e2eedc7fd3ba605b4b2f0dd18c5c3af382af2c61ca5ebd44a917275264cca717e505dd259a8c94daac76f14d81af867b4b69b3566b2cd46d5520a6fc423cf8e494b70aadc1b0364500829e7952e2535f04a7e3ff1a3a30b9b3b2389b269e176 := by

  simp only [keccakRound, c4ka_r1t, c4ka_r1p, c4ka_r1c]

  decide

theorem c4ka_r2t : keccakTheta 0x61bdd878caafe9ed546d6c4f4e41ddb108e55105095b25a69199f6633778630664054decd6814e973c0bfe35417fa23273db2a69eee6d5212577b91c9c120d93e0d57a2801c658f2e90316e601682a7e0e7d531b81ef0af91d5592f111cbe1e78442697c6b3849656e2eedc7fd3ba605b4b2f0dd18c5c3af382af2c61ca5ebd44a917275264cca717e505dd259a8c94daac76f14d81af867b4b69b3566b2cd46d5520a6fc423cf8e494b70aadc1b0364500829e7952e2535f04a7e3ff1a3a30b9b3b2389b269e176 = 0x74f628a6b67bdf63ae8282e0d9c49a603f798db27d11a3ff88b10fa84960f2215168215cc041a6d129400eeb3dab94bc8934c4c6796392f012eb65abe8588bcaf9fd83e37fdec9d5dc6e7a5617a8c2381b36a3c5fd3b3c77e7ba7c5e864ea636b3deb5cb1f72cf3c7706140c8323372281df9c6d0e052be92d6102186071dd5ab07e9cdab1c98da049cc81652de24f14b3ef96dfa602694081dbf78570722500c019fab1b8f7f900b3a49e054b9e44b56794f550e164a36ce96287f48fbb322cae564f39a4a90930 := by decide

theorem c4ka_r2p : keccakRhoPi keccak_rotc 0x74f628a6b67bdf63ae8282e0d9c49a603f798db27d11a3ff88b10fa84960f2215168215cc041a6d129400eeb3dab94bc8934c4c6796392f012eb65abe8588bcaf9fd83e37fdec9d5dc6e7a5617a8c2381b36a3c5fd3b3c77e7ba7c5e864ea636b3deb5cb1f72cf3c7706140c8323372281df9c6d0e052be92d6102186071dd5ab07e9cdab1c98da049cc81652de24f14b3ef96dfa602694081dbf78570722500c019fab1b8f7f900b3a49e054b9e44b56794f550e164a36ce96287f48fbb322cae564f39a4a90930 = 0x22c43ea12583c886518471b8dcf4ac2f9d9e3b8d9b51e2fed0583f4e6d58e4c619e53d54385928db60ae8282e0d9c49ab2d5f42c45e509751850320c8cdc89dc072250081dbf78578dc7bfc80600cfd5857301069b4545a0400eeb3dab94bc29bd0c9d4c6dcf74f87320594b7893c512d2c50fe91f766459b64fa2347fe7ef31d93abf3fb07c6ffb0efce36870295f4c5a2d6102186071dd54b9e44b5b3a49e08a29ad9ef7d8dd3d98cf2c725e1126989679e59ef5ae58fbe5b7e9809a502cfbae564f39a4a90930 := by decide

theorem c4ka_r2c : keccakChi 0x22c43ea12583c886518471b8dcf4ac2f9d9e3b8d9b51e2fed0583f4e6d58e4c619e53d54385928db60ae8282e0d9c49ab2d5f42c45e509751850320c8cdc89dc072250081dbf78578dc7bfc80600cfd5857301069b4545a0400eeb3dab94bc29bd0c9d4c6dcf74f87320594b7893c512d2c50fe91f766459b64fa2347fe7ef31d93abf3fb07c6ffb0efce36870295f4c5a2d6102186071dd54b9e44b5b3a49e08a29ad9ef7d8dd3d98cf2c725e1126989679e59ef5ae58fbe5b7e9809a502cfbae564f39a4a90930 = 0xe2dc3cab60830c8248a570ecc4ac8c76bfde358cba52a27e90587f7e29fce8c714633dd5aa582ae3628ec282f966f4983f94c96443e50230587a308e2cc44d56a5a794285c9e787695979dcc86404e5da4535104fbc4c4a2128ae5d4afa69c70387d9d4e7d8e357833223b7afa834d135ec98bed1a3a54b1bc4ba3347fa7df2c998afb74b0646f3b28b9e3683faadf4c8b2f7d159834516e506966233b3347e0cb880d1eed88f9f6bc996e535e30269894596412546681deed31e1e090410afbbc1e4b27c1075930 := by decide

theorem c4ka_r2 : keccakRound keccak_rotc 0x61bdd878caafe9ed546d6c4f4e41ddb108e55105095b25a69199f6633778630664054decd6814e973c0bfe35417fa23273db2a69eee6d5212577b91c9c120d93e0d57a2801c658f2e90316e601682a7e0e7d531b81ef0af91d5592f111cbe1e78442697c6b3849656e2eedc7fd3ba605b4b2f0dd18c5c3af382af2c61ca5ebd44a917275264cca717e505dd259a8c94daac76f14d81af867b4b69b3566b2cd46d5520a6fc423cf8e494b70aadc1b0364500829e7952e2535f04a7e3ff1a3a30b9b3b2389b269e176 2 = 0xe2dc3cab60830c8248a570ecc4ac8c76bfde358cba52a27e90587f7e29fce8c714633dd5aa582ae3628ec282f966f4983f94c96443e50230587a308e2cc44d56a5a794285c9e787695979dcc86404e5da4535104fbc4c4a2128ae5d4afa69c70387d9d4e7d8e357833223b7afa834d135ec98bed1a3a54b1bc4ba3347fa7df2c998afb74b0646f3b28b9e3683faadf4c8b2f7d159834516e506966233b3347e0cb880d1eed88f9f6bc996e535e30269894596412546681deed31e1e090410afb3c1e4b27c107d9ba := by

  simp only [keccakRound, c4ka_r2t, c4ka_r2p, c4ka_r2c]

  decide

theorem c4ka_r3t : keccakTheta 0xe2dc3cab60830c8248a570ecc4ac8c76bfde358cba52a27e90587f7e29fce8c714633dd5aa582ae3628ec282f966f4983f94c96443e50230587a308e2cc44d56a5a794285c9e787695979dcc86404e5da4535104fbc4c4a2128ae5d4afa69c70387d9d4e7d8e357833223b7afa834d135ec98bed1a3a54b1bc4ba3347fa7df2c998afb74b0646f3b28b9e3683faadf4c8b2f7d159834516e506966233b3347e0cb880d1eed88f9f6bc996e535e30269894596412546681deed31e1e090410afb3c1e4b27c107d9ba = 0xc4e0f8313e150bbc8c186dd5a4643c705e4ceba2b0b09363e56047e3e4434f168627a561557f3cef44b20618a7f0f3a6fb29d45d232db236b9e8eea026267c4bd09facb59121dfa707d3057879675851826f959ea552c39cd637f8edcf6e2c76d9ef4360776c0465461a03e7373ceac2cc8d1359e51d42bd9a7767ae2131d8125d37e64dd0acdf3dc92b3d463548ee51fe174588558bf6bfc22dfe97c41451ecedb4c984b31efec87824736a3ef8969e75cbba3c5e84b0c39809d97d5dfead2aae5ad3933e20cfb6 := by decide

theorem c4ka_r3p : keccakRhoPi keccak_rotc 0xc4e0f8313e150bbc8c186dd5a4643c705e4ceba2b0b09363e56047e3e4434f168627a561557f3cef44b20618a7f0f3a6fb29d45d232db236b9e8eea026267c4bd09facb59121dfa707d3057879675851826f959ea552c39cd637f8edcf6e2c76d9ef4360776c0465461a03e7373ceac2cc8d1359e51d42bd9a7767ae2131d8125d37e64dd0acdf3dc92b3d463548ee51fe174588558bf6bfc22dfe97c41451ecedb4c984b31efec87824736a3ef8969e75cbba3c5e84b0c39809d97d5dfead2aae5ad3933e20cfb6 = 0x95811f8f910d3c5bceb0a20fa60af0f2a961ce4137cacf529eae9bf326e8566fdd72ee8f17a12c30708c186dd5a4643c775013133e25dcf4680f9cdcf3ab091841451ecc22dfe97c2598f7f6476da64c958555fcf3be189eb20618a7f0f3a644db9edc58edac6ff14acf518d523b94723013b2fabbfd5a55745616126c6bc99d3bf4fa13f596b22464689acf28ea15ee129a7767ae2131d8a3ef8969e78247363e0c4f8542ef31388ba465b646df653a60232ecf7a1b03bbd1621562fdafff85ae5ad3933e20cfb6 := by decide

theorem c4ka_r3c : keccakChi 0x95811f8f910d3c5bceb0a20fa60af0f2a961ce4137cacf529eae9bf326e8566fdd72ee8f17a12c30708c186dd5a4643c775013133e25dcf4680f9cdcf3ab091841451ecc22dfe97c2598f7f6476da64c958555fcf3be189eb20618a7f0f3a644db9edc58edac6ff14acf518d523b94723013b2fabbfd5a55745616126c6bc99d3bf4fa13f596b22464689acf28ea15ee129a7767ae2131d8a3ef8969e78247363e0c4f8542ef31388ba465b646df653a60232ecf7a1b03bbd1621562fdafff85ae5ad3933e20cfb6 = 0x970d0effb1456e1486c2420fa0aaf0d2b860d3c126cfc35bd83ebbfda6e866cffc33aa8f06a3a52030c91065f5362d0c7240f4813c6c5eb4688394b0322b291056151dcf2edb3d980d9277e6964da64cdf4914f9b3bc9cbc9214baa5f8b2e405de1f9900eea0776b6acf512a42681476a1033eaa167931d464466014644af955b85d737a7616b406206a9ecf20835c77090e17777b3593d8c78f01e1e74843106f2c4be5836001390bf6f5a47adfabbc542b24ce7a3b13bb5ae65452f96b9b858e5bf91e3c30cf8c := by decide

theorem c4ka_r3 : keccakRound keccak_rotc 0xe2dc3cab60830c8248a570ecc4ac8c76bfde358cba52a27e90587f7e29fce8c714633dd5aa582ae3628ec282f966f4983f94c96443e50230587a308e2cc44d56a5a794285c9e787695979dcc86404e5da4535104fbc4c4a2128ae5d4afa69c70387d9d4e7d8e357833223b7afa834d135ec98bed1a3a54b1bc4ba3347fa7df2c998afb74b0646f3b28b9e3683faadf4c8b2f7d159834516e506966233b3347e0cb880d1eed88f9f6bc996e535e30269894596412546681deed31e1e090410afb3c1e4b27c107d9ba 3 = 0x970d0effb1456e1486c2420fa0aaf0d2b860d3c126cfc35bd83ebbfda6e866cffc33aa8f06a3a52030c91065f5362d0c7240f4813c6c5eb4688394b0322b291056151dcf2edb3d980d9277e6964da64cdf4914f9b3bc9cbc9214baa5f8b2e405de1f9900eea0776b6acf512a42681476a1033eaa167931d464466014644af955b85d737a7616b406206a9ecf20835c77090e17777b3593d8c78f01e1e74843106f2c4be5836001390bf6f5a47adfabbc542b24ce7a3b13bb5ae65452f96b9b850e5bf91ebc304f8c := by

  simp only [keccakRound, c4ka_r3t, c4ka_r3p, c4ka_r3c]

  decide

theorem c4ka_r4t : keccakTheta 0x970d0effb1456e1486c2420fa0aaf0d2b860d3c126cfc35bd83ebbfda6e866cffc33aa8f06a3a52030c91065f5362d0c7240f4813c6c5eb4688394b0322b291056151dcf2edb3d980d9277e6964da64cdf4914f9b3bc9cbc9214baa5f8b2e405de1f9900eea0776b6acf512a42681476a1033eaa167931d464466014644af955b85d737a7616b406206a9ecf20835c77090e17777b3593d8c78f01e1e74843106f2c4be5836001390bf6f5a47adfabbc542b24ce7a3b13bb5ae65452f96b9b850e5bf91ebc304f8c = 0x70dcb273622647841bb1655b219c6daea5177216bfb02f94b43268203afefd33e1cde367864c0c11d718ace92655049cef33d3d5bd5ac3c875f43567ab54c5df3a19ce12b2cda664106c3e0e16a20f7d3898a87560dfb52c0f679df179847979c36838d777df9ba406c382f7de7e8f8abcfd7742969698e58397dc98b729d0c5252e542ef720297a3d1d3f18b9fcb0b86502c4aae7230824da71480967a7ea2188fdf769500328a99685d2f0fbe936c0495c8519e344ff7436ea878f657d007913a5b0f63cdfe6bd := by decide

theorem c4ka_r4p : keccakRhoPi keccak_rotc 0x70dcb273622647841bb1655b219c6daea5177216bfb02f94b43268203afefd33e1cde367864c0c11d718ace92655049cef33d3d5bd5ac3c875f43567ab54c5df3a19ce12b2cda664106c3e0e16a20f7d3898a87560dfb52c0f679df179847979c36838d777df9ba406c382f7de7e8f8abcfd7742969698e58397dc98b729d0c5252e542ef720297a3d1d3f18b9fcb0b86502c4aae7230824da71480967a7ea2188fdf769500328a99685d2f0fbe936c0495c8519e344ff7436ea878f657d007913a5b0f63cdfe6bd = 0xd0c9a080ebfbf4ce441efa20d87c1c2d6fda961c4c543ab0bd12972a177b90141257214678d13fddae1bb1655b219c6d1ab3d5aa62efbafa0e0bdf79fa3e281b7a7ea21da71480964a8019454c47efbb8d9e19303047873718ace92655049cd7e2f308f2f21ecf3b474fc62e7f2c2e0f6dd50f1ecafa00f242d7f605f294a2eeb4cc874339c25659e7ebba14b4b4c72dc58397dc98b729d00fbe936c09685d2f2c9cd88991e11c377ab7ab58791de67afcdd261b41c6bbbeb12ab9c8c209194013a5b0f63cdfe6bd := by decide

theorem c4ka_r4c : keccakChi 0xd0c9a080ebfbf4ce441efa20d87c1c2d6fda961c4c543ab0bd12972a177b90141257214678d13fddae1bb1655b219c6d1ab3d5aa62efbafa0e0bdf79fa3e281b7a7ea21da71480964a8019454c47efbb8d9e19303047873718ace92655049cd7e2f308f2f21ecf3b474fc62e7f2c2e0f6dd50f1ecafa00f242d7f605f294a2eeb4cc874339c25659e7ebba14b4b4c72dc58397dc98b729d00fbe936c09685d2f2c9cd88991e11c377ab7ab58791de67afcdd261b41c6bbbeb12ab9c8c209194013a5b0f63cdfe6bd = 0x7dc936a8ecd174ce4608fb66c87c173cff1b969c6fd7da72bd16ff0a87539419509f215230d5157d9e65137df8319c695a33ddaa66a9d968aa03ff3ce33e2c1e6acea29fa7d512764e814425146dc7b28f94d9100543a93a78edef289fbc9c1767e118e2d25dcc1b5f43272a7a2c3ecbcd6507ce4ae8c1c282d6f2956203823eb9e4862b30aa0b58a5f8ca1076a0678bd587929f91f539802dd6bb6c2d689b028c96d18153e1057769968b2e550304f2f8d5769ac126a3bbb3083088fa105d005f70b6e53d194403 := by decide

theorem c4ka_r4 : keccakRound keccak_rotc 0x970d0effb1456e1486c2420fa0aaf0d2b860d3c126cfc35bd83ebbfda6e866cffc33aa8f06a3a52030c91065f5362d0c7240f4813c6c5eb4688394b0322b291056151dcf2edb3d980d9277e6964da64cdf4914f9b3bc9cbc9214baa5f8b2e405de1f9900eea0776b6acf512a42681476a1033eaa167931d464466014644af955b85d737a7616b406206a9ecf20835c77090e17777b3593d8c78f01e1e74843106f2c4be5836001390bf6f5a47adfabbc542b24ce7a3b13bb5ae65452f96b9b850e5bf91ebc304f8c 4 = 0x7dc936a8ecd174ce4608fb66c87c173cff1b969c6fd7da72bd16ff0a87539419509f215230d5157d9e65137df8319c695a33ddaa66a9d968aa03ff3ce33e2c1e6acea29fa7d512764e814425146dc7b28f94d9100543a93a78edef289fbc9c1767e118e2d25dcc1b5f43272a7a2c3ecbcd6507ce4ae8c1c282d6f2956203823eb9e4862b30aa0b58a5f8ca1076a0678bd587929f91f539802dd6bb6c2d689b028c96d18153e1057769968b2e550304f2f8d5769ac126a3bbb3083088fa105d005f70b6e53d19c488 := by

  simp only [keccakRound, c4ka_r4t, c4ka_r4p, c4ka_r4c]

  decide

theorem c4ka_r5t : keccakTheta 0x7dc936a8ecd174ce4608fb66c87c173cff1b969c6fd7da72bd16ff0a87539419509f215230d5157d9e65137df8319c695a33ddaa66a9d968aa03ff3ce33e2c1e6acea29fa7d512764e814425146dc7b28f94d9100543a93a78edef289fbc9c1767e118e2d25dcc1b5f43272a7a2c3ecbcd6507ce4ae8c1c282d6f2956203823eb9e4862b30aa0b58a5f8ca1076a0678bd587929f91f539802dd6bb6c2d689b028c96d18153e1057769968b2e550304f2f8d5769ac126a3bbb3083088fa105d005f70b6e53d19c488 = 0x8ad72c294453b028ed2d890c61cd64d37846c7f6f718bd85c3620bab2b172410eece4fd3720b6be0697b09fc50b3588ff116afc0cf18aa872d5eae567bf14be914ba563e0b91a27ff0d02aa456b3b92f788ac391adc16ddcd3c89d42360deff8e0bc49884a92abec2137d38bd6688ec27334694f0836bf5f75c8e814ca8146d812c1f441991b78b722a59b7aee6f007cabf3663e3db189899387d5ed6fb6e59f7b88cb00fb63c191c2b3f944fcb2771d7f8827f059e9c44ccd7cc4295654ed09e121d8647fc7ba15 := by decide

theorem c4ka_r5p : keccakRhoPi keccak_rotc 0x8ad72c294453b028ed2d890c61cd64d37846c7f6f718bd85c3620bab2b172410eece4fd3720b6be0697b09fc50b3588ff116afc0cf18aa872d5eae567bf14be914ba563e0b91a27ff0d02aa456b3b92f788ac391adc16ddcd3c89d42360deff8e0bc49884a92abec2137d38bd6688ec27334694f0836bf5f75c8e814ca8146d812c1f441991b78b722a59b7aee6f007cabf3663e3db189899387d5ed6fb6e59f7b88cb00fb63c191c2b3f944fcb2771d7f8827f059e9c44ccd7cc4295654ed09e121d8647fc7ba15 = 0xd882eacac5c904367725fe1a05548ade0b6ee3c4561c8d65b8960fa20cc8dbc1fe209fc167a7113d3ed2d890c61cd64572b3df8a5f496afdf4e2f59a23b0884fb6e59f9387d5ed607db1e0c8bdc46583f4dc82daf83bb397b09fc50b3588f69846c1bdff1a7913aa966debb9bc01f089af98852aca9da13fedee317b0af08d8344fe2974ac7c17299a34a7841b5fafbd875c8e814ca81464fcb2771dc2b3f94cb0a5114ec0a22b5f819e31550fe22d5955f6705e24c4254d98f8f6c62626afce121d8647fc7ba15 := by decide

theorem c4ka_r5c : keccakChi 0xd882eacac5c904367725fe1a05548ade0b6ee3c4561c8d65b8960fa20cc8dbc1fe209fc167a7113d3ed2d890c61cd64572b3df8a5f496afdf4e2f59a23b0884fb6e59f9387d5ed607db1e0c8bdc46583f4dc82daf83bb397b09fc50b3588f69846c1bdff1a7913aa966debb9bc01f089af98852aca9da13fedee317b0af08d8344fe2974ac7c17299a34a7841b5fafbd875c8e814ca81464fcb2771dc2b3f94cb0a5114ec0a22b5f819e31550fe22d5955f6705e24c4254d98f8f6c62626afce121d8647fc7ba15 = 0x4d814eae8cd81cef75105eb1b27729bde83ece30496958945cc9713b80d88d95bfd487f8535b31512bc96c783c40d5e253392ffc266894b75f8a2f58aa3a41c4fb4f49593db9c8fd03db380c09de46581e4b9e84bcc3be31fbb9fc02b370cf6b80281bf2fd24a12ad2673abb999811499ef18916cc8e5a216eea2b9fb06f889a354ee6f706c7f67653334b78f19df273fc39686f1e8880464e4925619d1e452dd384561cec2a625dd8386b75433bbad5965d77054e4c4274b18f0f7c72d04a7de571b865ffcbba15 := by decide

theorem c4ka_r5 : keccakRound keccak_rotc 0x7dc936a8ecd174ce4608fb66c87c173cff1b969c6fd7da72bd16ff0a87539419509f215230d5157d9e65137df8319c695a33ddaa66a9d968aa03ff3ce33e2c1e6acea29fa7d512764e814425146dc7b28f94d9100543a93a78edef289fbc9c1767e118e2d25dcc1b5f43272a7a2c3ecbcd6507ce4ae8c1c282d6f2956203823eb9e4862b30aa0b58a5f8ca1076a0678bd587929f91f539802dd6bb6c2d689b028c96d18153e1057769968b2e550304f2f8d5769ac126a3bbb3083088fa105d005f70b6e53d19c488 5 = 0x4d814eae8cd81cef75105eb1b27729bde83ece30496958945cc9713b80d88d95bfd487f8535b31512bc96c783c40d5e253392ffc266894b75f8a2f58aa3a41c4fb4f49593db9c8fd03db380c09de46581e4b9e84bcc3be31fbb9fc02b370cf6b80281bf2fd24a12ad2673abb999811499ef18916cc8e5a216eea2b9fb06f889a354ee6f706c7f67653334b78f19df273fc39686f1e8880464e4925619d1e452dd384561cec2a625dd8386b75433bbad5965d77054e4c4274b18f0f7c72d04a7de571b8657fcbba14 := by

  simp only [keccakRound, c4ka_r5t, c4ka_r5p, c4ka_r5c]

  decide

theorem c4ka_r6t : keccakTheta 0x4d814eae8cd81cef75105eb1b27729bde83ece30496958945cc9713b80d88d95bfd487f8535b31512bc96c783c40d5e253392ffc266894b75f8a2f58aa3a41c4fb4f49593db9c8fd03db380c09de46581e4b9e84bcc3be31fbb9fc02b370cf6b80281bf2fd24a12ad2673abb999811499ef18916cc8e5a216eea2b9fb06f889a354ee6f706c7f67653334b78f19df273fc39686f1e8880464e4925619d1e452dd384561cec2a625dd8386b75433bbad5965d77054e4c4274b18f0f7c72d04a7de571b8657fcbba14 = 0x6eea19af07f6860e0d391bf4b3ec1a37b1a5aa60c4eebb0a30ea5712b74a4f7f0a178dbd9206909e08a23b79b76e4f032b106ab927f3a73d06114b0827bda25a976c6f700a2b0a17b6183249c883e7973d20c98537ed24d08390b947b2ebfce1d9b37fa270a342b4be441c92ae0ad3a32b3283530dd3fbee4d817c9e3b41127b4d67a3b2075cc5fc0aa82f287c1a11ed901a4e46291a42acfb8a2f245c43e4e2f0ef011d6704f8bca0112e3042a0895fcfc61355c3cba1eaddac29554542889750b2b220be961bdb := by decide

theorem c4ka_r6p : keccakRhoPi keccak_rotc 0x6eea19af07f6860e0d391bf4b3ec1a37b1a5aa60c4eebb0a30ea5712b74a4f7f0a178dbd9206909e08a23b79b76e4f032b106ab927f3a73d06114b0827bda25a976c6f700a2b0a17b6183249c883e7973d20c98537ed24d08390b947b2ebfce1d9b37fa270a342b4be441c92ae0ad3a32b3283530dd3fbee4d817c9e3b41127b4d67a3b2075cc5fc0aa82f287c1a11ed901a4e46291a42acfb8a2f245c43e4e2f0ef011d6704f8bca0112e3042a0895fcfc61355c3cba1eaddac29554542889750b2b220be961bdb = 0xc3a95c4add293dfc07cf2f6c30649391f692681e9064c29bfe26b3d1d903ae62b3f184d570f2e87a370d391bf4b3ec1aa58413ded12d030810724ab82b4e8ef9c43e4e2fb8a2f245eb3827c5e787780836f6481a4278285ea23b79b76e4f03088f65d7f9c3072172aa0bca1f06847b42bb5852aa8a85112f4c189dd7615634b56142f2ed8dee014559941a986e9fdf717b4d817c9e3b4112042a0895fa0112e3866bc1fda1839bba5724fe74e7a5620d1a15a6cd9bfd138593918a4690ab240650b2b220be961bdb := by decide

theorem c4ka_r6c : keccakChi 0xc3a95c4add293dfc07cf2f6c30649391f692681e9064c29bfe26b3d1d903ae62b3f184d570f2e87a370d391bf4b3ec1aa58413ded12d030810724ab82b4e8ef9c43e4e2fb8a2f245eb3827c5e787780836f6481a4278285ea23b79b76e4f03088f65d7f9c3072172aa0bca1f06847b42bb5852aa8a85112f4c189dd7615634b56142f2ed8dee014559941a986e9fdf717b4d817c9e3b4112042a0895fa0112e3866bc1fda1839bba5724fe74e7a5620d1a15a6cd9bfd138593918a4690ab240650b2b220be961bdb = 0x8faf6f4a54283bfc379faff910b6539336b2381c5d6deef7ff6bb4b1f903bf62b361ccdb7096a8e3330b7131ec936e5f6db4151ad2291308027b62b90fdc62eb61ba5f696883f345fb782755e4cb74b036f5c00f4678421e2b336b17e6ca12299ba1d7f1c33709248a11e2192acc794abe3c474a4b86111f375d1cbf656c75a56160f2ed17ef0307558c178a0e8febc15b0f61191f5b411604ba12159a858c82056ac9bba1aabfbe07b4cc74f9b1624c9a5ea7449bff8a37d6b1d276f4ab440e58b696a9b5c2085a := by decide

theorem c4ka_r6 : keccakRound keccak_rotc 0x4d814eae8cd81cef75105eb1b27729bde83ece30496958945cc9713b80d88d95bfd487f8535b31512bc96c783c40d5e253392ffc266894b75f8a2f58aa3a41c4fb4f49593db9c8fd03db380c09de46581e4b9e84bcc3be31fbb9fc02b370cf6b80281bf2fd24a12ad2673abb999811499ef18916cc8e5a216eea2b9fb06f889a354ee6f706c7f67653334b78f19df273fc39686f1e8880464e4925619d1e452dd384561cec2a625dd8386b75433bbad5965d77054e4c4274b18f0f7c72d04a7de571b8657fcbba14 6 = 0x8faf6f4a54283bfc379faff910b6539336b2381c5d6deef7ff6bb4b1f903bf62b361ccdb7096a8e3330b7131ec936e5f6db4151ad2291308027b62b90fdc62eb61ba5f696883f345fb782755e4cb74b036f5c00f4678421e2b336b17e6ca12299ba1d7f1c33709248a11e2192acc794abe3c474a4b86111f375d1cbf656c75a56160f2ed17ef0307558c178a0e8febc15b0f61191f5b411604ba12159a858c82056ac9bba1aabfbe07b4cc74f9b1624c9a5ea7449bff8a37d6b1d276f4ab440ed8b696a935c288db := by

  simp only [keccakRound, c4ka_r6t, c4ka_r6p, c4ka_r6c]

  decide

theorem c4ka_r7t : keccakTheta 0x8faf6f4a54283bfc379faff910b6539336b2381c5d6deef7ff6bb4b1f903bf62b361ccdb7096a8e3330b7131ec936e5f6db4151ad2291308027b62b90fdc62eb61ba5f696883f345fb782755e4cb74b036f5c00f4678421e2b336b17e6ca12299ba1d7f1c33709248a11e2192acc794abe3c474a4b86111f375d1cbf656c75a56160f2ed17ef0307558c178a0e8febc15b0f61191f5b411604ba12159a858c82056ac9bba1aabfbe07b4cc74f9b1624c9a5ea7449bff8a37d6b1d276f4ab440ed8b696a935c288db = 0xcc31d0d77f1a9a2f27e98483604b0c1080555c6999c7b9701436e7fd8072bfeb39fab2f7ebeb15ae7095ceacc7a1cf8c7dc23e60a2d44c8bb49c06cccb76356c8ae70c2511f2f3cc71e359797fb6c9fd756b7f926d4ae3cd3b45406d96374daa2d46b384079d5ea3614cb15553bd79c334a73966d0fbac5274c3a3224e5ed4767116d99767125c84e36b73ffca25bc46b0523255662a419f8e216c3901f831cf46f476268a981e6d17c2e70e894c3dcf2cb9c3315f55ddb03dec813a8dda4487522de885aebf3596 := by decide

theorem c4ka_r7p : keccakRhoPi keccak_rotc 0xcc31d0d77f1a9a2f27e98483604b0c1080555c6999c7b9701436e7fd8072bfeb39fab2f7ebeb15ae7095ceacc7a1cf8c7dc23e60a2d44c8bb49c06cccb76356c8ae70c2511f2f3cc71e359797fb6c9fd756b7f926d4ae3cd3b45406d96374daa2d46b384079d5ea3614cb15553bd79c334a73966d0fbac5274c3a3224e5ed4767116d99767125c84e36b73ffca25bc46b0523255662a419f8e216c3901f831cf46f476268a981e6d17c2e70e894c3dcf2cb9c3315f55ddb03dec813a8dda4487522de885aebf3596 = 0x50db9ff601caffac6d93fae3c6b2f2ffa571e6bab5bfc93642388b6ccbb3892e0b2e70cc57d5776c1027e98483604b0c036665bb1ab65a4e32c5554ef5e70d851f831cf8e216c3903454c0f36a37a3b1cbdfafac56b8e7ea95ceacc7a1cf8c70db2c6e9b54768a80dadcfff2896f11b87bd902751bb4890e8d3338f72e100aab5e79915ce184a23ea539cb3687dd62917674c3a3224e5ed4e894c3dcf17c2e707435dfc6a68bf30ccc145a89916fb847eaf5196a359c203c8c95598a9067ec14522de885aebf3596 := by decide

theorem c4ka_r7c : keccakChi 0x50db9ff601caffac6d93fae3c6b2f2ffa571e6bab5bfc93642388b6ccbb3892e0b2e70cc57d5776c1027e98483604b0c036665bb1ab65a4e32c5554ef5e70d851f831cf8e216c3903454c0f36a37a3b1cbdfafac56b8e7ea95ceacc7a1cf8c70db2c6e9b54768a80dadcfff2896f11b87bd902751bb4890e8d3338f72e100aab5e79915ce184a23ea539cb3687dd62917674c3a3224e5ed4e894c3dcf17c2e707435dfc6a68bf30ccc145a89916fb847eaf5196a359c203c8c95598a9067ec14522de885aebf3596 = 0x10cb14d689e877ae66b79aeb90a7f2bfb539e3aeb4f7c4360aba932d89b3bbe7ae6f145e63d9377c1ba4f58c03600b0c273665c872a1faff22c4dd4a74a70c851ea13c49e80691da141081f57fd6afb44bdb522ed6f3f75aa5ceac96a8cb8474913d6db30246e90ade1e7fb628e615c87af9027c4fa4030e9b5338d42c125a2f3efd525430e8866e243be39589cd6a102c34d3eb424edefa699dcbc874ed0e71f8a5ceccb6cb3b0cce1c7a88995bbcd5dad49c2c131c633488951b0b10047457304de8e58b2735be := by decide

theorem c4ka_r7 : keccakRound keccak_rotc 0x8faf6f4a54283bfc379faff910b6539336b2381c5d6deef7ff6bb4b1f903bf62b361ccdb7096a8e3330b7131ec936e5f6db4151ad2291308027b62b90fdc62eb61ba5f696883f345fb782755e4cb74b036f5c00f4678421e2b336b17e6ca12299ba1d7f1c33709248a11e2192acc794abe3c474a4b86111f375d1cbf656c75a56160f2ed17ef0307558c178a0e8febc15b0f61191f5b411604ba12159a858c82056ac9bba1aabfbe07b4cc74f9b1624c9a5ea7449bff8a37d6b1d276f4ab440ed8b696a935c288db 7 = 0x10cb14d689e877ae66b79aeb90a7f2bfb539e3aeb4f7c4360aba932d89b3bbe7ae6f145e63d9377c1ba4f58c03600b0c273665c872a1faff22c4dd4a74a70c851ea13c49e80691da141081f57fd6afb44bdb522ed6f3f75aa5ceac96a8cb8474913d6db30246e90ade1e7fb628e615c87af9027c4fa4030e9b5338d42c125a2f3efd525430e8866e243be39589cd6a102c34d3eb424edefa699dcbc874ed0e71f8a5ceccb6cb3b0cce1c7a88995bbcd5dad49c2c131c633488951b0b10047457b04de8e58b27b5b7 := by

  simp only [keccakRound, c4ka_r7t, c4ka_r7p, c4ka_r7c]

  decide

theorem c4ka_r8t : keccakTheta 0x10cb14d689e877ae66b79aeb90a7f2bfb539e3aeb4f7c4360aba932d89b3bbe7ae6f145e63d9377c1ba4f58c03600b0c273665c872a1faff22c4dd4a74a70c851ea13c49e80691da141081f57fd6afb44bdb522ed6f3f75aa5ceac96a8cb8474913d6db30246e90ade1e7fb628e615c87af9027c4fa4030e9b5338d42c125a2f3efd525430e8866e243be39589cd6a102c34d3eb424edefa699dcbc874ed0e71f8a5ceccb6cb3b0cce1c7a88995bbcd5dad49c2c131c633488951b0b10047457b04de8e58b27b5b7 = 0x36c8064a32548121d81c3cdc45250f94f2c10d4f69133c70e3b27e0b945ccadc506561569348f7173da7e710b8dcfd83999dc3ffa72307d4653c33aba943f4c3f7a9d16ff5e9e0e1ea1af4fd8f476fdf6dd840b26d4f01d51b650aa17d49795fd6c58352dfa2114c37169290350964f384f37774bf35c365bd502a4897aeaca08056f463e56a7b4563c30d7454299256c53c3ecd5fa1afc19797bec0847cce1adea6dc500d77cd8370b7dcbf4cd941fe9d2c72cdcef89b72619df62d0deb056c4e479ded7bb675dc := by decide

theorem c4ka_r8p : keccakRhoPi keccak_rotc 0x36c8064a32548121d81c3cdc45250f94f2c10d4f69133c70e3b27e0b945ccadc506561569348f7173da7e710b8dcfd83999dc3ffa72307d4653c33aba943f4c3f7a9d16ff5e9e0e1ea1af4fd8f476fdf6dd840b26d4f01d51b650aa17d49795fd6c58352dfa2114c37169290350964f384f37774bf35c365bd502a4897aeaca08056f463e56a7b4563c30d7454299256c53c3ecd5fa1afc19797bec0847cce1adea6dc500d77cd8370b7dcbf4cd941fe9d2c72cdcef89b72619df62d0deb056c4e479ded7bb675dc = 0x8ec9f82e51732b738edfbfd435e9fb1ea780eab6ec205936a2c02b7a31f2b53da74b1cb373be26dc94d81c3cdc45250f19d5d4a1fa61b29e5a4a40d42593ccdc47cce1a9797bec08806bbe6c1ef536e2855a4d23dc5d4195a7e710b8dcfd833d42fa92f2be36ca15f0c35d150a649598c33bec5a1bd60ad8a9ed22678e1e58213c1c3ef53a2dfebd279bbba5f9ae1b2ca0bd502a4897aeacf4cd941fe70b7dcb01928c9520484db27ff4e460fa9333b8108a66b62c1a96fd0fb357e86bf0714f4e479ded7bb675dc := by decide

theorem c4ka_r8c : keccakChi 0x8ec9f82e51732b738edfbfd435e9fb1ea780eab6ec205936a2c02b7a31f2b53da74b1cb373be26dc94d81c3cdc45250f19d5d4a1fa61b29e5a4a40d42593ccdc47cce1a9797bec08806bbe6c1ef536e2855a4d23dc5d4195a7e710b8dcfd833d42fa92f2be36ca15f0c35d150a649598c33bec5a1bd60ad8a9ed22678e1e58213c1c3ef53a2dfebd279bbba5f9ae1b2ca0bd502a4897aeacf4cd941fe70b7dcb01928c9520484db27ff4e460fa9333b8108a66b62c1a96fd0fb357e86bf0714f4e479ded7bb675dc = 0x8e49db665133ba52afddbb451765ff92a780aa9cac325957aa9f3e3a203b1735a24bdc37bfbe6eded35c5dbdbd4fed0719f676e1f8d1a07ede4248c82197c9dd46597588a31bde0a9869be381a753636b59a5c26dc7dd495e5c6b0e0df7f897542e2dff1be368a9555c65d1d4aad94b0c1036eb8afc440dda9dd6247868ada05681caaed5b2cdb77a67abba77dbc1b2cb8b9547a4a964a3df3cf3f9a56236ccb0022ce9520084db131b1f508a12503f410886e232c52daff60c7d7a8b971504f5e4fbdfb7fbcf36c := by decide

theorem c4ka_r8 : keccakRound keccak_rotc 0x10cb14d689e877ae66b79aeb90a7f2bfb539e3aeb4f7c4360aba932d89b3bbe7ae6f145e63d9377c1ba4f58c03600b0c273665c872a1faff22c4dd4a74a70c851ea13c49e80691da141081f57fd6afb44bdb522ed6f3f75aa5ceac96a8cb8474913d6db30246e90ade1e7fb628e615c87af9027c4fa4030e9b5338d42c125a2f3efd525430e8866e243be39589cd6a102c34d3eb424edefa699dcbc874ed0e71f8a5ceccb6cb3b0cce1c7a88995bbcd5dad49c2c131c633488951b0b10047457b04de8e58b27b5b7 8 = 0x8e49db665133ba52afddbb451765ff92a780aa9cac325957aa9f3e3a203b1735a24bdc37bfbe6eded35c5dbdbd4fed0719f676e1f8d1a07ede4248c82197c9dd46597588a31bde0a9869be381a753636b59a5c26dc7dd495e5c6b0e0df7f897542e2dff1be368a9555c65d1d4aad94b0c1036eb8afc440dda9dd6247868ada05681caaed5b2cdb77a67abba77dbc1b2cb8b9547a4a964a3df3cf3f9a56236ccb0022ce9520084db131b1f508a12503f410886e232c52daff60c7d7a8b971504f5e4fbdfb7fbcf3e6 := by

  simp only [keccakRound, c4ka_r8t, c4ka_r8p, c4ka_r8c]

  decide

theorem c4ka_r9t : keccakTheta 0x8e49db665133ba52afddbb451765ff92a780aa9cac325957aa9f3e3a203b1735a24bdc37bfbe6eded35c5dbdbd4fed0719f676e1f8d1a07ede4248c82197c9dd46597588a31bde0a9869be381a753636b59a5c26dc7dd495e5c6b0e0df7f897542e2dff1be368a9555c65d1d4aad94b0c1036eb8afc440dda9dd6247868ada05681caaed5b2cdb77a67abba77dbc1b2cb8b9547a4a964a3df3cf3f9a56236ccb0022ce9520084db131b1f508a12503f410886e232c52daff60c7d7a8b971504f5e4fbdfb7fbcf3e6 = 0x294ae46bdcd0ba78a0efbf3b581e0cb6d27e7aa203dc029ee79b60aec75027b421c680e25de9f550745f62b030aced2d16c4729fb7aa535aabbc98f68e7992140b5d2b1c4470ee8b1be4e2edf822adb81299632b519ed4bfeaf4b49e90047a51371c0fcf11d8d15c18c20389adc6a431428e326d4d93db530ede5d4a0b69da2f672eae9314572853d3846b99d25240e5f5bd0aeeadfd7abc7042634fb474f745a721f198adeb4d9b3e83f176ee5ef0d06576be1d83bc81362dc3893c5e1a60ceddc2e12e9deb6868 := by decide

theorem c4ka_r9p : keccakRhoPi keccak_rotc 0x294ae46bdcd0ba78a0efbf3b581e0cb6d27e7aa203dc029ee79b60aec75027b421c680e25de9f550745f62b030aced2d16c4729fb7aa535aabbc98f68e7992140b5d2b1c4470ee8b1be4e2edf822adb81299632b519ed4bfeaf4b49e90047a51371c0fcf11d8d15c18c20389adc6a431428e326d4d93db530ede5d4a0b69da2f672eae9314572853d3846b99d25240e5f5bd0aeeadfd7abc7042634fb474f745a721f198adeb4d9b3e83f176ee5ef0d06576be1d83bc81362dc3893c5e1a60ceddc2e12e9deb6868 = 0x9e6d82bb1d409ed3455b7037c9c5dbf0cf6a5f894cb195a829b39757498a2b94995daf8760ef204db6a0efbf3b581e0c4c7b473cc90a55de080e26b71a90c463474f7457042634fbc56f5a6cdd390f8c038977a7d540871a5f62b030aced2d743d2008f4a3d5e969e11ae674949039745b871278bc34c19c54407b8053da4fcf1dd1616ba563888e1471936a6c9eda9a2f0ede5d4a0b69da6ee5ef0d03e83f17b91af7342e9e0a5253f6f54a6b42d88ec68ae1b8e07e788e42bbab7f5eaf3d6fddc2e12e9deb6868 := by decide

theorem c4ka_r9c : keccakChi 0x9e6d82bb1d409ed3455b7037c9c5dbf0cf6a5f894cb195a829b39757498a2b94995daf8760ef204db6a0efbf3b581e0c4c7b473cc90a55de080e26b71a90c463474f7457042634fbc56f5a6cdd390f8c038977a7d540871a5f62b030aced2d743d2008f4a3d5e969e11ae674949039745b871278bc34c19c54407b8053da4fcf1dd1616ba563888e1471936a6c9eda9a2f0ede5d4a0b69da6ee5ef0d03e83f17b91af7342e9e0a5253f6f54a6b42d88ec68ae1b8e07e788e42bbab7f5eaf3d6fddc2e12e9deb6868 = 0xbecf92eb14409543444b5d33a96afbfc554edd0158b191ab29a2b761c8ce61c45f15e70f64deb465b4a0cbac3b5e2e7f0d34577c0d2b545eba8e8e3428c0ce63033e355fc52c2567cd6f58ccc7a9cf8ca39193a3d5c0bf7a0764b06884d96df03da94f73f2d56b63a358567498b83d6047a71af89f710195554a6bd01bd90f073774e566a543b89e547189ea3e069ddb268ebe5ccb6a69de7e94ee2f277cad17bb23fd656c9a1f551736f540fa23b8a66e82e38ce4e27ade53cfbf3d55afbd6f59c2a1ae3dbb28e8 := by decide

theorem c4ka_r9 : keccakRound keccak_rotc 0x8e49db665133ba52afddbb451765ff92a780aa9cac325957aa9f3e3a203b1735a24bdc37bfbe6eded35c5dbdbd4fed0719f676e1f8d1a07ede4248c82197c9dd46597588a31bde0a9869be381a753636b59a5c26dc7dd495e5c6b0e0df7f897542e2dff1be368a9555c65d1d4aad94b0c1036eb8afc440dda9dd6247868ada05681caaed5b2cdb77a67abba77dbc1b2cb8b9547a4a964a3df3cf3f9a56236ccb0022ce9520084db131b1f508a12503f410886e232c52daff60c7d7a8b971504f5e4fbdfb7fbcf3e6 9 = 0xbecf92eb14409543444b5d33a96afbfc554edd0158b191ab29a2b761c8ce61c45f15e70f64deb465b4a0cbac3b5e2e7f0d34577c0d2b545eba8e8e3428c0ce63033e355fc52c2567cd6f58ccc7a9cf8ca39193a3d5c0bf7a0764b06884d96df03da94f73f2d56b63a358567498b83d6047a71af89f710195554a6bd01bd90f073774e566a543b89e547189ea3e069ddb268ebe5ccb6a69de7e94ee2f277cad17bb23fd656c9a1f551736f540fa23b8a66e82e38ce4e27ade53cfbf3d55afbd6f59c2a1ae3dbb2860 := by

  simp only [keccakRound, c4ka_r9t, c4ka_r9p, c4ka_r9c]

  decide

theorem c4ka_r10t : keccakTheta 0xbecf92eb14409543444b5d33a96afbfc554edd0158b191ab29a2b761c8ce61c45f15e70f64deb465b4a0cbac3b5e2e7f0d34577c0d2b545eba8e8e3428c0ce63033e355fc52c2567cd6f58ccc7a9cf8ca39193a3d5c0bf7a0764b06884d96df03da94f73f2d56b63a358567498b83d6047a71af89f710195554a6bd01bd90f073774e566a543b89e547189ea3e069ddb268ebe5ccb6a69de7e94ee2f277cad17bb23fd656c9a1f551736f540fa23b8a66e82e38ce4e27ade53cfbf3d55afbd6f59c2a1ae3dbb2860 = 0x3581ed9e263ba93e23ff93b0ea10007a75785c28acdfb80d0a1db19b5e8e3992e1891108fe7cfa943feeb4d9092512026a8099ff4e51afd89ab80f1ddcaee7c5208133a5536c7d3173f3aecb5d0b817d28dfecd6e7bb830760d07eebc7a396761d9fce5a06bb42c580e7508e0ef86536f93becff05d34f64de0414a529a2337a50c02be5e6394318744708c3ca68b47d0531b8a65d2a3188c0081828bddee3e6306d82105ee1232870823bc3b95943204eb462a5108c53787070b9c7c3efe539e75e57a9a7196691 := by decide

theorem c4ka_r10p : keccakRhoPi keccak_rotc 0x3581ed9e263ba93e23ff93b0ea10007a75785c28acdfb80d0a1db19b5e8e3992e1891108fe7cfa943feeb4d9092512026a8099ff4e51afd89ab80f1ddcaee7c5208133a5536c7d3173f3aecb5d0b817d28dfecd6e7bb830760d07eebc7a396761d9fce5a06bb42c580e7508e0ef86536f93becff05d34f64de0414a529a2337a50c02be5e6394318744708c3ca68b47d0531b8a65d2a3188c0081828bddee3e6306d82105ee1232870823bc3b95943204eb462a5108c53787070b9c7c3efe539e75e57a9a7196691 = 0x2876c66d7a38e6481702fae7e75d96baddc183946ff66b738c286015f2f31ca113ad18a9442314de7a23ff93b0ea1000078eee5773e2cd5c9d42383be194da03ddee3e6c0081828b82f7091941836c104423f9f3ea538624eeb4d9092512023fd78f472cecc1a0fd11c230f29a2d1f5de0e1738f87dfca7285159bf701aeaf0b8fa624102674aa6dc9df67f82e9a7b277ade0414a529a2333b959432070823bc7b67898eea4f8d603fe9ca35fb0d5013da1628ecfe72d0356e29974a8c62014ce75e57a9a7196691 := by decide

theorem c4ka_r10c : keccakChi 0x2876c66d7a38e6481702fae7e75d96baddc183946ff66b738c286015f2f31ca113ad18a9442314de7a23ff93b0ea1000078eee5773e2cd5c9d42383be194da03ddee3e6c0081828b82f7091941836c104423f9f3ea538624eeb4d9092512023fd78f472cecc1a0fd11c230f29a2d1f5de0e1738f87dfca7285159bf701aeaf0b8fa624102674aa6dc9df67f82e9a7b277ade0414a529a2333b959432070823bc7b67898eea4f8d603fe9ca35fb0d5013da1628ecfe72d0356e29974a8c62014ce75e57a9a7196691 = 0xa476a679c8e8ee69048be267e35e862cf5b5879c77d60b338e2a187672fa8829426c9b294927778c272bc9f7b0ea928b875aee5f32e3a14ce56329bb619cca03df62f82812e387d782f7090aa09734105521f983f27393294e74db05209e4a6dd78c67de268024fd39f2a8f39b3f1d5f26ec3483e31f6ad2c55f9bf3a18f2f08b52620102074aad9c9cefc1f2f107e257cfe0414a54d227bba94f7da0d9a7ab8734609cce22d8c2cbbf19c14fe1d32829a102966fe305d554bc0555b8d6f014e77487f0dd509b6a0 := by decide

theorem c4ka_r10 : keccakRound keccak_rotc 0xbecf92eb14409543444b5d33a96afbfc554edd0158b191ab29a2b761c8ce61c45f15e70f64deb465b4a0cbac3b5e2e7f0d34577c0d2b545eba8e8e3428c0ce63033e355fc52c2567cd6f58ccc7a9cf8ca39193a3d5c0bf7a0764b06884d96df03da94f73f2d56b63a358567498b83d6047a71af89f710195554a6bd01bd90f073774e566a543b89e547189ea3e069ddb268ebe5ccb6a69de7e94ee2f277cad17bb23fd656c9a1f551736f540fa23b8a66e82e38ce4e27ade53cfbf3d55afbd6f59c2a1ae3dbb2860 10 = 0xa476a679c8e8ee69048be267e35e862cf5b5879c77d60b338e2a187672fa8829426c9b294927778c272bc9f7b0ea928b875aee5f32e3a14ce56329bb619cca03df62f82812e387d782f7090aa09734105521f983f27393294e74db05209e4a6dd78c67de268024fd39f2a8f39b3f1d5f26ec3483e31f6ad2c55f9bf3a18f2f08b52620102074aad9c9cefc1f2f107e257cfe0414a54d227bba94f7da0d9a7ab8734609cce22d8c2cbbf19c14fe1d32829a102966fe305d554bc0555b8d6f014e77487f0d550936a9 := by

  simp only [keccakRound, c4ka_r10t, c4ka_r10p, c4ka_r10c]

  decide

theorem c4ka_r11t : keccakTheta 0xa476a679c8e8ee69048be267e35e862cf5b5879c77d60b338e2a187672fa8829426c9b294927778c272bc9f7b0ea928b875aee5f32e3a14ce56329bb619cca03df62f82812e387d782f7090aa09734105521f983f27393294e74db05209e4a6dd78c67de268024fd39f2a8f39b3f1d5f26ec3483e31f6ad2c55f9bf3a18f2f08b52620102074aad9c9cefc1f2f107e257cfe0414a54d227bba94f7da0d9a7ab8734609cce22d8c2cbbf19c14fe1d32829a102966fe305d554bc0555b8d6f014e77487f0d550936a9 = 0x305291ae43dad18150c5f6829112d94f2cd5480cfa47d00a8c890f00e313600d9d01acde26fc584bb30ffe203bd8ad63d314faba40affe2f3c03e62bec0d113addc1ef5e830a6ff35d9a3efdcf4c1bd7c105ce547941acc11a3acfe052d2150e0eeca84eab11ffc43b51bf850ad6f57bf98103748cc44515517bac242abd10e0e16834f55238f5ba10ae338fa281a51c7e5d136234a4ca5f65f9c02d6241557fe7623e1b691fb3c4efbf88f18c516de14370e6f673a1866c4963422d1c86e96aa82548fa3ad2196e := by decide

theorem c4ka_r11p : keccakRhoPi keccak_rotc 0x305291ae43dad18150c5f6829112d94f2cd5480cfa47d00a8c890f00e313600d9d01acde26fc584bb30ffe203bd8ad63d314faba40affe2f3c03e62bec0d113addc1ef5e830a6ff35d9a3efdcf4c1bd7c105ce547941acc11a3acfe052d2150e0eeca84eab11ffc43b51bf850ad6f57bf98103748cc44515517bac242abd10e0e16834f55238f5ba10ae338fa281a51c7e5d136234a4ca5f65f9c02d6241557fe7623e1b691fb3c4efbf88f18c516de14370e6f673a1866c4963422d1c86e96aa82548fa3ad2196e = 0x32243c038c4d80369837aebb347dfb9ea0d660e082e72a3cdd70b41a7aa91c7a10dc39bd9ce8619b4f50c5f6829112d9f315f606889d1e0146fe142b5bd5eced241557f65f9c02d6db48fd9e273b11f0b3789bf1612e74060ffe203bd8ad63b3c0a5a42a1c34759f2b8ce3e8a069470492c6845a390dd2d4019f48fa01459aa94dfe7bb83debd061cc081ba4662228afe0517bac242abd1018c516de1efbf88fa46b90f6b4604c14574815ffc5fa629f8ffe20776542755844d88d293297df97a82548fa3ad2196e := by decide

theorem c4ka_r11c : keccakChi 0x32243c038c4d80369837aebb347dfb9ea0d660e082e72a3cdd70b41a7aa91c7a10dc39bd9ce8619b4f50c5f6829112d9f315f606889d1e0146fe142b5bd5eced241557f65f9c02d6db48fd9e273b11f0b3789bf1612e74060ffe203bd8ad63b3c0a5a42a1c34759f2b8ce3e8a069470492c6845a390dd2d4019f48fa01459aa94dfe7bb83debd061cc081ba4662228afe0517bac242abd1018c516de1efbf88fa46b90f6b4604c14574815ffc5fa629f8ffe20776542755844d88d293297df97a82548fa3ad2196e = 0xff04b801ee4c9c5698efaf0724dd9a1782d670e00ae72a1cc5513a014eb1cdf8305a795d1cae439f6b45c796da1510df631dce0eadb71f214abe15db59d5ec359514b5f2df9410d699a2fd97277afdd99a70f851e14e71060f782431c0ace16370a53fea3d36619b24d6e3f960e0452452e780582519e24fe18f21da21459fb955be6dbc2351b067cc091be666262227e1a71bb43de36d5014cd16de5cfbf820e0b315f7b4658a855f4c5df7cf6873f52fdda0775542795814d898a1b22fdd10230368ac7f923926 := by decide

theorem c4ka_r11 : keccakRound keccak_rotc 0xa476a679c8e8ee69048be267e35e862cf5b5879c77d60b338e2a187672fa8829426c9b294927778c272bc9f7b0ea928b875aee5f32e3a14ce56329bb619cca03df62f82812e387d782f7090aa09734105521f983f27393294e74db05209e4a6dd78c67de268024fd39f2a8f39b3f1d5f26ec3483e31f6ad2c55f9bf3a18f2f08b52620102074aad9c9cefc1f2f107e257cfe0414a54d227bba94f7da0d9a7ab8734609cce22d8c2cbbf19c14fe1d32829a102966fe305d554bc0555b8d6f014e77487f0d550936a9 11 = 0xff04b801ee4c9c5698efaf0724dd9a1782d670e00ae72a1cc5513a014eb1cdf8305a795d1cae439f6b45c796da1510df631dce0eadb71f214abe15db59d5ec359514b5f2df9410d699a2fd97277afdd99a70f851e14e71060f782431c0ace16370a53fea3d36619b24d6e3f960e0452452e780582519e24fe18f21da21459fb955be6dbc2351b067cc091be666262227e1a71bb43de36d5014cd16de5cfbf820e0b315f7b4658a855f4c5df7cf6873f52fdda0775542795814d898a1b22fdd10230368acff92392c := by

  simp only [keccakRound, c4ka_r11t, c4ka_r11p, c4ka_r11c]

  decide

theorem c4ka_r12t : keccakTheta 0xff04b801ee4c9c5698efaf0724dd9a1782d670e00ae72a1cc5513a014eb1cdf8305a795d1cae439f6b45c796da1510df631dce0eadb71f214abe15db59d5ec359514b5f2df9410d699a2fd97277afdd99a70f851e14e71060f782431c0ace16370a53fea3d36619b24d6e3f960e0452452e780582519e24fe18f21da21459fb955be6dbc2351b067cc091be666262227e1a71bb43de36d5014cd16de5cfbf820e0b315f7b4658a855f4c5df7cf6873f52fdda0775542795814d898a1b22fdd10230368acff92392c = 0x98de38b330fa019added2991f9d2b7bcffca75183f114dd9bfb3826149d4a9673c8e1488a08bfbb90c9f472404a38d13261f489870b8328a37a210236c238bf0eff60d92d8f17449957690429b5f45fffdaa78e33ff8ecca4a7aa2a71da3ccc80db93a1208c0065e5e345b99678521bb5e33ed8d993c5a698655a168fff3027510bceb2afe5e9dccb1151e1e53d045e29b45a3d43a8609cf18197b0be0de4006876995456ad317491a4edb6112675e5e52c1a58f60b41e9d6e3a20c1b54ab98f2fd7057943b7810a := by decide

theorem c4ka_r12p : keccakRhoPi keccak_rotc 0x98de38b330fa019added2991f9d2b7bcffca75183f114dd9bfb3826149d4a9673c8e1488a08bfbb90c9f472404a38d13261f489870b8328a37a210236c238bf0eff60d92d8f17449957690429b5f45fffdaa78e33ff8ecca4a7aa2a71da3ccc80db93a1208c0065e5e345b99678521bb5e33ed8d993c5a698655a168fff3027510bceb2afe5e9dccb1151e1e53d045e29b45a3d43a8609cf18197b0be0de4006876995456ad317491a4edb6112675e5e52c1a58f60b41e9d6e3a20c1b54ab98f2fd7057943b7810a = 0xfece09852752a59ebe8bff2aed208536fc76657ed53c719fe6085e75957f2f4e54b06963d82d07a7bcdded2991f9d2b70811b611c5f81bd1d16e659e1486ed780de400618197b0be2b5698ba4c3b4caa5222822feee4f2389f472404a38d130c4e3b47999094f54545478794f41178acdc7441836a95731ea307e229bb3ff94e2e893dfec1b25b1ef19f6c6cc9e2d34a758655a168fff302112675e5e1a4edb68e2ccc3e8066a637130e17065144c3e90032f06dc9d0904668f50ea18273e6d12fd7057943b7810a := by decide

theorem c4ka_r12c : keccakChi 0xfece09852752a59ebe8bff2aed208536fc76657ed53c719fe6085e75957f2f4e54b06963d82d07a7bcdded2991f9d2b70811b611c5f81bd1d16e659e1486ed780de400618197b0be2b5698ba4c3b4caa5222822feee4f2389f472404a38d130c4e3b47999094f54545478794f41178acdc7441836a95731ea307e229bb3ff94e2e893dfec1b25b1ef19f6c6cc9e2d34a758655a168fff302112675e5e1a4edb68e2ccc3e8066a637130e17065144c3e90032f06dc9d0904668f50ea18273e6d12fd7057943b7810a = 0x5cc61f9122008dd6bebb9f48350d8717bc3265fbd76e5117e481c475bd7fab6e4cc64869982d5736b87ded68107d62a30b13a68389fa17d965a22cb604872d5e05f5926040efa23ffb5cfd24583b01ea5321043b7ae4fa9813136584a39c120a0e1bc5b2dcf41575d403a790d7187aa4d64c018a6a11f65fc787e229b364eb4e3ea9283a81325fae7099ae6df3ef730a7b86443368effb16913f5da960a4edfece0cc6be0026c0e632dd164712d5c2e18c12385549f2b4507bf909a39277a5782fd5f5350a37910c := by decide

theorem c4ka_r12 : keccakRound keccak_rotc 0xff04b801ee4c9c5698efaf0724dd9a1782d670e00ae72a1cc5513a014eb1cdf8305a795d1cae439f6b45c796da1510df631dce0eadb71f214abe15db59d5ec359514b5f2df9410d699a2fd97277afdd99a70f851e14e71060f782431c0ace16370a53fea3d36619b24d6e3f960e0452452e780582519e24fe18f21da21459fb955be6dbc2351b067cc091be666262227e1a71bb43de36d5014cd16de5cfbf820e0b315f7b4658a855f4c5df7cf6873f52fdda0775542795814d898a1b22fdd10230368acff92392c 12 = 0x5cc61f9122008dd6bebb9f48350d8717bc3265fbd76e5117e481c475bd7fab6e4cc64869982d5736b87ded68107d62a30b13a68389fa17d965a22cb604872d5e05f5926040efa23ffb5cfd24583b01ea5321043b7ae4fa9813136584a39c120a0e1bc5b2dcf41575d403a790d7187aa4d64c018a6a11f65fc787e229b364eb4e3ea9283a81325fae7099ae6df3ef730a7b86443368effb16913f5da960a4edfece0cc6be0026c0e632dd164712d5c2e18c12385549f2b4507bf909a39277a5782fd5f5358a371187 := by

  simp only [keccakRound, c4ka_r12t, c4ka_r12p, c4ka_r12c]

  decide

theorem c4ka_r13t : keccakTheta 0x5cc61f9122008dd6bebb9f48350d8717bc3265fbd76e5117e481c475bd7fab6e4cc64869982d5736b87ded68107d62a30b13a68389fa17d965a22cb604872d5e05f5926040efa23ffb5cfd24583b01ea5321043b7ae4fa9813136584a39c120a0e1bc5b2dcf41575d403a790d7187aa4d64c018a6a11f65fc787e229b364eb4e3ea9283a81325fae7099ae6df3ef730a7b86443368effb16913f5da960a4edfece0cc6be0026c0e632dd164712d5c2e18c12385549f2b4507bf909a39277a5782fd5f5358a371187 = 0x487145152fa42ba8e998212477bb55fadca41d8b1e66439b6dbdeda197eaab5898c6e217c3d63245accab7ec1dd9c4dd5c3018efcb4cc534053454c6cd8f3fd28cc9bbb46a7aa2092f5c575a03c0649947965ebf77405ce64430dbe8e12ac0e76e8dbdc215fc07f95d3f8e44fd8d7a92024cabf431ea932cd330b8adbec04d30698a9656c3848d43100fd61d3ae76186f2ba6de7427afb20453ff7d73b5f888ddabb9c3a0d82669865fea82b5063100cec84402580faa6dcf2c52077b8e2a54efbd55f4bd1cc74f4 := by decide

theorem c4ka_r13p : keccakRhoPi keccak_rotc 0x487145152fa42ba8e998212477bb55fadca41d8b1e66439b6dbdeda197eaab5898c6e217c3d63245accab7ec1dd9c4dd5c3018efcb4cc534053454c6cd8f3fd28cc9bbb46a7aa2092f5c575a03c0649947965ebf77405ce64430dbe8e12ac0e76e8dbdc215fc07f95d3f8e44fd8d7a92024cabf431ea932cd330b8adbec04d30698a9656c3848d43100fd61d3ae76186f2ba6de7427afb20453ff7d73b5f888ddabb9c3a0d82669865fea82b5063100cec84402580faa6dcf2c52077b8e2a54efbd55f4bd1cc74f4 = 0xb6f7b6865faaad6180c9325eb8aeb407a02e7323cb2f5fbba1b4c54b2b61c2463b211009603ea9b7fae998212477bb552a6366c79fe9029afe3913f635ea4974b5f888d453ff7d73d06c1334c6d5dce1885f0f58c916631bcab7ec1dd9c4ddacd1c25581ce8861b703f5874eb9d86184e58a40ef71c54a9db163ccc8737b94835441319937768d4f12655fa18f54996030d330b8adbec04db5063100c65fea8251454be90aea121c1df96998a68b8603e03fcb746dee10af9b79d09ebec83caefbd55f4bd1cc74f4 := by decide

theorem c4ka_r13c : keccakChi 0xb6f7b6865faaad6180c9325eb8aeb407a02e7323cb2f5fbba1b4c54b2b61c2463b211009603ea9b7fae998212477bb552a6366c79fe9029afe3913f635ea4974b5f888d453ff7d73d06c1334c6d5dce1885f0f58c916631bcab7ec1dd9c4ddacd1c25581ce8861b703f5874eb9d86184e58a40ef71c54a9db163ccc8737b94835441319937768d4f12655fa18f54996030d330b8adbec04db5063100c65fea8251454be90aea121c1df96998a68b8603e03fcb746dee10af9b79d09ebec83caefbd55f4bd1cc74f4 = 0x366373c454ebef2189c9325798bab4919618f7a38c2f56dba175c5171be162423b2b2229a030b40edf7910e1355d9a472a6765d35d69463a2eb18bd615fcf031b5baecd5d9fe7ff99a6d0016e2d5dce58a2a8858410e421baf37acbae905d528d18a56c1ce9a43a409c02f52a89cfd8c3588106e37c54aaeb1b2cc705adb94ce50450099b372e74fb34793e1cf5d89e074d310a09d9cc442b7227e01c41ff3a2516dcb7d24ea1a16b7697d9a778fe2e3a03bc915658e00b386b9f0163cc9baae9bd3542b90ea74f5 := by decide

theorem c4ka_r13 : keccakRound keccak_rotc 0x5cc61f9122008dd6bebb9f48350d8717bc3265fbd76e5117e481c475bd7fab6e4cc64869982d5736b87ded68107d62a30b13a68389fa17d965a22cb604872d5e05f5926040efa23ffb5cfd24583b01ea5321043b7ae4fa9813136584a39c120a0e1bc5b2dcf41575d403a790d7187aa4d64c018a6a11f65fc787e229b364eb4e3ea9283a81325fae7099ae6df3ef730a7b86443368effb16913f5da960a4edfece0cc6be0026c0e632dd164712d5c2e18c12385549f2b4507bf909a39277a5782fd5f5358a371187 13 = 0x366373c454ebef2189c9325798bab4919618f7a38c2f56dba175c5171be162423b2b2229a030b40edf7910e1355d9a472a6765d35d69463a2eb18bd615fcf031b5baecd5d9fe7ff99a6d0016e2d5dce58a2a8858410e421baf37acbae905d528d18a56c1ce9a43a409c02f52a89cfd8c3588106e37c54aaeb1b2cc705adb94ce50450099b372e74fb34793e1cf5d89e074d310a09d9cc442b7227e01c41ff3a2516dcb7d24ea1a16b7697d9a778fe2e3a03bc915658e00b386b9f0163cc9baae1bd3542b90ea747e := by

  simp only [keccakRound, c4ka_r13t, c4ka_r13p, c4ka_r13c]

  decide

theorem c4ka_r14t : keccakTheta 0x366373c454ebef2189c9325798bab4919618f7a38c2f56dba175c5171be162423b2b2229a030b40edf7910e1355d9a472a6765d35d69463a2eb18bd615fcf031b5baecd5d9fe7ff99a6d0016e2d5dce58a2a8858410e421baf37acbae905d528d18a56c1ce9a43a409c02f52a89cfd8c3588106e37c54aaeb1b2cc705adb94ce50450099b372e74fb34793e1cf5d89e074d310a09d9cc442b7227e01c41ff3a2516dcb7d24ea1a16b7697d9a778fe2e3a03bc915658e00b386b9f0163cc9baae1bd3542b90ea747e = 0xada8c50fff6b863cf4499af7d833abc7ae161dfe97af8c5f6df43dedc1001fe1660f02146914301c44b2a62a9eddf35a57e7cd731de0596c16bf618b0e7c2ab5793b142f031f025ac749202b2bf158f711e13e93ea8e2b06d2b7041aa98cca7ee984bc9cd51a9920c541d7a8727d802f68ac3053fee1cebc2a797abbf15bfdd32dc5a839f3fbf8198b4979bcd4dd5364b852e85a477db9e1ea065e3c0d3b77b0caa67db68f6a730bcae9d53a3706fdb5983523487e0eda374a3808ece628c70d46f7741659cef06c := by decide

theorem c4ka_r14p : keccakRhoPi keccak_rotc 0xada8c50fff6b863cf4499af7d833abc7ae161dfe97af8c5f6df43dedc1001fe1660f02146914301c44b2a62a9eddf35a57e7cd731de0596c16bf618b0e7c2ab5793b142f031f025ac749202b2bf158f711e13e93ea8e2b06d2b7041aa98cca7ee984bc9cd51a9920c541d7a8727d802f68ac3053fee1cebc2a797abbf15bfdd32dc5a839f3fbf8198b4979bcd4dd5364b852e85a477db9e1ea065e3c0d3b77b0caa67db68f6a730bcae9d53a3706fdb5983523487e0eda374a3808ece628c70d46f7741659cef06c = 0xb7d0f7b704007f85e2b1ef8e9240565747158308f09f49f50c96e2d41cf9fdfce60d48d21f83b68dc7f4499af7d833abb0c5873e155a8b5f075ea1c9f600bf15d3b77b0ea065e3c0b47b53985e5533ed0851a450c071983cb2a62a9eddf35a4435531994fda56e08d25e6f353754d922947011d9cc518e1abfd2f5f18bf5c2c3e04b4f276285e0634561829ff70e75e3d32a797abbf15bfda3706fdb5cae9d533143ffdae18f2b6aae63bc0b2d8afcf9d4c9074c25e4e6a8ba1691df6e786e1446f7741659cef06c := by decide

theorem c4ka_r14c : keccakChi 0xb7d0f7b704007f85e2b1ef8e9240565747158308f09f49f50c96e2d41cf9fdfce60d48d21f83b68dc7f4499af7d833abb0c5873e155a8b5f075ea1c9f600bf15d3b77b0ea065e3c0b47b53985e5533ed0851a450c071983cb2a62a9eddf35a4435531994fda56e08d25e6f353754d922947011d9cc518e1abfd2f5f18bf5c2c3e04b4f276285e0634561829ff70e75e3d32a797abbf15bfda3706fdb5cae9d533143ffdae18f2b6aae63bc0b2d8afcf9d4c9074c25e4e6a8ba1691df6e786e1446f7741659cef06c = 0xbf4255b3047836f5a2bce7ce89c3d65f52559339f49f6075ac368e521eb9ebfea50c49daff85b68c8470619c57f8f3ab80ce953e1d5f8b1b406ee94914808fb563367d38a13fe38ab033d35908552ff84a5fca74f375c91c26863b17d1f35c463d029dd4fda5ee3050fa4d3f3706c966b171015904f0a812efd8e5d128a4806fe06b452d368ffd735af1324f7e7e77637320345abb70dbfda731ed5e18a0b95189437e13c7bf257ae8d7bc0f35ca2cfdc5c9449ce5e1e5aa903429dc66727645023e7216584a70c4 := by decide

theorem c4ka_r14 : keccakRound keccak_rotc 0x366373c454ebef2189c9325798bab4919618f7a38c2f56dba175c5171be162423b2b2229a030b40edf7910e1355d9a472a6765d35d69463a2eb18bd615fcf031b5baecd5d9fe7ff99a6d0016e2d5dce58a2a8858410e421baf37acbae905d528d18a56c1ce9a43a409c02f52a89cfd8c3588106e37c54aaeb1b2cc705adb94ce50450099b372e74fb34793e1cf5d89e074d310a09d9cc442b7227e01c41ff3a2516dcb7d24ea1a16b7697d9a778fe2e3a03bc915658e00b386b9f0163cc9baae1bd3542b90ea747e 14 = 0xbf4255b3047836f5a2bce7ce89c3d65f52559339f49f6075ac368e521eb9ebfea50c49daff85b68c8470619c57f8f3ab80ce953e1d5f8b1b406ee94914808fb563367d38a13fe38ab033d35908552ff84a5fca74f375c91c26863b17d1f35c463d029dd4fda5ee3050fa4d3f3706c966b171015904f0a812efd8e5d128a4806fe06b452d368ffd735af1324f7e7e77637320345abb70dbfda731ed5e18a0b95189437e13c7bf257ae8d7bc0f35ca2cfdc5c9449ce5e1e5aa903429dc66727645823e7216584af04d := by

  simp only [keccakRound, c4ka_r14t, c4ka_r14p, c4ka_r14c]

  decide

theorem c4ka_r15t : keccakTheta 0xbf4255b3047836f5a2bce7ce89c3d65f52559339f49f6075ac368e521eb9ebfea50c49daff85b68c8470619c57f8f3ab80ce953e1d5f8b1b406ee94914808fb563367d38a13fe38ab033d35908552ff84a5fca74f375c91c26863b17d1f35c463d029dd4fda5ee3050fa4d3f3706c966b171015904f0a812efd8e5d128a4806fe06b452d368ffd735af1324f7e7e77637320345abb70dbfda731ed5e18a0b95189437e13c7bf257ae8d7bc0f35ca2cfdc5c9449ce5e1e5aa903429dc66727645823e7216584af04d = 0xb188ec5325c6168c3d51bd8b903b17c8362a51602d48adc74d74a82fa138b5f74b276be51b6fc68f8abad87c7646d3d21f23cf7b04a74a8c24112b10cd57420782745b451ebebd835e18f166ecbf5ffb44957394d2cbe965b96b6152c80b9dd1597d5f8d24722382b1b86b428887976f5f5a2366e01ad811e1125c31091aa0167f861f682f773ce43e8ef016a7a9bad19262122704f185f4491acf61fc4ac9528789c7f3e6010503773ae64a2c32ed6aa1b686c53c36281871760fa1d9f3284c6c155029bca0804e := by decide

theorem c4ka_r15p : keccakRhoPi keccak_rotc 0xb188ec5325c6168c3d51bd8b903b17c8362a51602d48adc74d74a82fa138b5f74b276be51b6fc68f8abad87c7646d3d21f23cf7b04a74a8c24112b10cd57420782745b451ebebd835e18f166ecbf5ffb44957394d2cbe965b96b6152c80b9dd1597d5f8d24722382b1b86b428887976f5f5a2366e01ad811e1125c31091aa0167f861f682f773ce43e8ef016a7a9bad19262122704f185f4491acf61fc4ac9528789c7f3e6010503773ae64a2c32ed6aa1b686c53c36281871760fa1d9f3284c6c155029bca0804e = 0x35d2a0be84e2d7dd7ebff6bc31e2cdd965f4b2a24ab9ca69723fc30fb417bb9e286da1b14f0d8a06c83d51bd8b903b17958866aba1039208e1ad0a221e5dbec6c4ac952491acf61f9f3008281c3c4e3faf946dbf1a3d2c9dbad87c7646d3d28aa590173ba372d6c2a3bc05a9ea6eb44fe2ec1f43b3e650982c05a915b8e6c54ad7b0704e8b68a3d7fad11b3700d6c08a16e1125c31091aa0a2c32ed6a773ae643b14c97185a32c62ef6094e95183e479911c12cbeafc69238489c13c617d24986c155029bca0804e := by decide

theorem c4ka_r15c : keccakChi 0x35d2a0be84e2d7dd7ebff6bc31e2cdd965f4b2a24ab9ca69723fc30fb417bb9e286da1b14f0d8a06c83d51bd8b903b17958866aba1039208e1ad0a221e5dbec6c4ac952491acf61f9f3008281c3c4e3faf946dbf1a3d2c9dbad87c7646d3d28aa590173ba372d6c2a3bc05a9ea6eb44fe2ec1f43b3e650982c05a915b8e6c54ad7b0704e8b68a3d7fad11b3700d6c08a16e1125c31091aa0a2c32ed6a773ae643b14c97185a32c62ef6094e95183e479911c12cbeafc69238489c13c617d24986c155029bca0804e = 0x67c0e2b034f0e6457692f7bd7aefc5db64b4b2a0ceb9d86d683487138555be0e2dad911105a5ca6788b1c4b90a108b1782886eabb52fd620a9981b3614cd97d1d0acf1ad30aef617be31022a126d46ffae846d17523588dafab06e36e711828aa09416b2bb5efad7b9f46dedaeefb447e6ec0d51b2f612183825b91da8eed5ca5572768c8c7989f3d2d492263050848213c17214ba2139f54ad327f5a7a56e6ebb9c4865c4fe08f2ab6184e16983647581085bdb6edc6121eae9451c707ea0c07d0142ea3620c96d := by decide

theorem c4ka_r15 : keccakRound keccak_rotc 0xbf4255b3047836f5a2bce7ce89c3d65f52559339f49f6075ac368e521eb9ebfea50c49daff85b68c8470619c57f8f3ab80ce953e1d5f8b1b406ee94914808fb563367d38a13fe38ab033d35908552ff84a5fca74f375c91c26863b17d1f35c463d029dd4fda5ee3050fa4d3f3706c966b171015904f0a812efd8e5d128a4806fe06b452d368ffd735af1324f7e7e77637320345abb70dbfda731ed5e18a0b95189437e13c7bf257ae8d7bc0f35ca2cfdc5c9449ce5e1e5aa903429dc66727645823e7216584af04d 15 = 0x67c0e2b034f0e6457692f7bd7aefc5db64b4b2a0ceb9d86d683487138555be0e2dad911105a5ca6788b1c4b90a108b1782886eabb52fd620a9981b3614cd97d1d0acf1ad30aef617be31022a126d46ffae846d17523588dafab06e36e711828aa09416b2bb5efad7b9f46dedaeefb447e6ec0d51b2f612183825b91da8eed5ca5572768c8c7989f3d2d492263050848213c17214ba2139f54ad327f5a7a56e6ebb9c4865c4fe08f2ab6184e16983647581085bdb6edc6121eae9451c707ea0c0fd0142ea3620496e := by

  simp only [keccakRound, c4ka_r15t, c4ka_r15p, c4ka_r15c]

  decide

theorem c4ka_r16t : keccakTheta 0x67c0e2b034f0e6457692f7bd7aefc5db64b4b2a0ceb9d86d683487138555be0e2dad911105a5ca6788b1c4b90a108b1782886eabb52fd620a9981b3614cd97d1d0acf1ad30aef617be31022a126d46ffae846d17523588dafab06e36e711828aa09416b2bb5efad7b9f46dedaeefb447e6ec0d51b2f612183825b91da8eed5ca5572768c8c7989f3d2d492263050848213c17214ba2139f54ad327f5a7a56e6ebb9c4865c4fe08f2ab6184e16983647581085bdb6edc6121eae9451c707ea0c0fd0142ea3620496e = 0x123c111790ace9b3cc6ff5a844c3e4727d82946085a444e9d65e91d4cea2a61e1f6973c0a7f63800fd4d371eae4c84e138756cbe8b03f789b0ae3df65fd00b556ec6e76a7b59ee078cf5e0fbb03eb498db789eb0f669872c404d6c23d93da323b9a23072f0436653079e7b2ae518ac57d428ef8010a5e07f4dd94aba0cb2da3cef8f7499b255a85acbe2b4e67b4d1806adab64d3f1d621e57817c52405f69c09ce60bbc260a20704119c86f457af45dc983e7d1b25c1fda5548353db3b89b8d0cfc5a03b9473bb09 := by decide

theorem c4ka_r16p : keccakRhoPi keccak_rotc 0x123c111790ace9b3cc6ff5a844c3e4727d82946085a444e9d65e91d4cea2a61e1f6973c0a7f63800fd4d371eae4c84e138756cbe8b03f789b0ae3df65fd00b556ec6e76a7b59ee078cf5e0fbb03eb498db789eb0f669872c404d6c23d93da323b9a23072f0436653079e7b2ae518ac57d428ef8010a5e07f4dd94aba0cb2da3cef8f7499b255a85acbe2b4e67b4d1806adab64d3f1d621e57817c52405f69c09ce60bbc260a20704119c86f457af45dc983e7d1b25c1fda5548353db3b89b8d0cfc5a03b9473bb09 = 0x597a47533a8a987b7d693119ebc1f76034c3966dbc4f587b2d77c7ba4cd92ad4660f9f46c9707f6972cc6ff5a844c3e41efb2fe805aad85779ecab9462b15c1e5f69c097817c524013051038267305decf029fd8e0007da54d371eae4c84e1fd47b27b4646809ad8f8ad399ed34601b2a906a7b6771371a08c10b4889d2fb0523dc0edd8dced4f6ba1477c00852f03fe3c4dd94aba0cb2da457af45dc119c86f0445e42b3a6cc48f97d1607ef1270ead1b329dcd11839782d934fc7588796b6acfc5a03b9473bb09 := by decide

theorem c4ka_r16c : keccakChi 0x597a47533a8a987b7d693119ebc1f76034c3966dbc4f587b2d77c7ba4cd92ad4660f9f46c9707f6972cc6ff5a844c3e41efb2fe805aad85779ecab9462b15c1e5f69c097817c524013051038267305decf029fd8e0007da54d371eae4c84e1fd47b27b4646809ad8f8ad399ed34601b2a906a7b6771371a08c10b4889d2fb0523dc0edd8dced4f6ba1477c00852f03fe3c4dd94aba0cb2da457af45dc119c86f0445e42b3a6cc48f97d1607ef1270ead1b329dcd11839782d934fc7588796b6acfc5a03b9473bb09 = 0x500a07eb3e0398ef5b6ca91d2ab1906034d1d02fac455060645fe6aa0f598dd4768f8f0379762f423ea4af72294891e41ffa3fe00399dc4d19e8eb81caf55fbe597ac4ff8476d20133813b3844f209c09fab87d060447db76d333e885b97e1fdc5b2fa16e68086d8f0a83d36db426097ae14e5f67393ebe8b415bd8aa72b82c27caaad8d9cfd074621576c00842db3ee20cd5892e2ccfedbc478d05dc43ac94b1475b86f326484ed5c51606e753435ad1b3619cc1bcb57805df59c47685d6347cdc7a1b385f12f89 := by decide

theorem c4ka_r16 : keccakRound keccak_rotc 0x67c0e2b034f0e6457692f7bd7aefc5db64b4b2a0ceb9d86d683487138555be0e2dad911105a5ca6788b1c4b90a108b1782886eabb52fd620a9981b3614cd97d1d0acf1ad30aef617be31022a126d46ffae846d17523588dafab06e36e711828aa09416b2bb5efad7b9f46dedaeefb447e6ec0d51b2f612183825b91da8eed5ca5572768c8c7989f3d2d492263050848213c17214ba2139f54ad327f5a7a56e6ebb9c4865c4fe08f2ab6184e16983647581085bdb6edc6121eae9451c707ea0c0fd0142ea3620496e 16 = 0x500a07eb3e0398ef5b6ca91d2ab1906034d1d02fac455060645fe6aa0f598dd4768f8f0379762f423ea4af72294891e41ffa3fe00399dc4d19e8eb81caf55fbe597ac4ff8476d20133813b3844f209c09fab87d060447db76d333e885b97e1fdc5b2fa16e68086d8f0a83d36db426097ae14e5f67393ebe8b415bd8aa72b82c27caaad8d9cfd074621576c00842db3ee20cd5892e2ccfedbc478d05dc43ac94b1475b86f326484ed5c51606e753435ad1b3619cc1bcb57805df59c47685d63474dc7a1b385f1af8b := by

  simp only [keccakRound, c4ka_r16t, c4ka_r16p, c4ka_r16c]

  decide

theorem c4ka_r17t : keccakTheta 0x500a07eb3e0398ef5b6ca91d2ab1906034d1d02fac455060645fe6aa0f598dd4768f8f0379762f423ea4af72294891e41ffa3fe00399dc4d19e8eb81caf55fbe597ac4ff8476d20133813b3844f209c09fab87d060447db76d333e885b97e1fdc5b2fa16e68086d8f0a83d36db426097ae14e5f67393ebe8b415bd8aa72b82c27caaad8d9cfd074621576c00842db3ee20cd5892e2ccfedbc478d05dc43ac94b1475b86f326484ed5c51606e753435ad1b3619cc1bcb57805df59c47685d63474dc7a1b385f1af8b = 0x9c1e223bbacc50802b4c4830f1e7182e96d8c0b44054ccc8a32fae613f29fcaf468112c22ecf186cf2b08aa2ad87598b6fdadecdd8cf5403bbe1fb1a26e4c3169e0a8c34b406a37a038fa6f9134b3eee53bfa200e48bb5d81d13dfa580c169b367bbea8d0a911a7037d875fdeb3211ec9e1a7837242adcc67801985a23e44aad0c8a4ca047ab8f08835e7c9b683c2f46e7bd1059d2bc8fa0f4764d9c9383fe65d8619dbfb6ab4c822c718143ae62bde3b93f0957f7dacb289a85d48c582d123c7dc93c72d24898a5 := by decide

theorem c4ka_r17p : keccakRhoPi keccak_rotc 0x9c1e223bbacc50802b4c4830f1e7182e96d8c0b44054ccc8a32fae613f29fcaf468112c22ecf186cf2b08aa2ad87598b6fdadecdd8cf5403bbe1fb1a26e4c3169e0a8c34b406a37a038fa6f9134b3eee53bfa200e48bb5d81d13dfa580c169b367bbea8d0a911a7037d875fdeb3211ec9e1a7837242adcc67801985a23e44aad0c8a4ca047ab8f08835e7c9b683c2f46e7bd1059d2bc8fa0f4764d9c9383fe65d8619dbfb6ab4c822c718143ae62bde3b93f0957f7dacb289a85d48c582d123c7dc93c72d24898a5 = 0x8cbeb984fca7f2be967ddc071f4df22645daec29dfd10072840645265023d5c72e4fc255fdf6b2ca2e2b4c4830f1e718fd8d1372618b5df061d7f7acc847b0df383fe65f4764d9c9fdb55a6416c30ced4b08bb3c61b11a04b08aa2ad87598bf24b0182d3663a27bfd79f26da0f0bd1a0350ba918b05a247916880a999912db18d46f53c151869680f0d3c1b92156e634ad7801985a23e44a3ae62bde32c71814888eeeb314202707d9bb19ea806dfb5b88d3833ddf546854441674af23e839ef7dc93c72d24898a5 := by decide

theorem c4ka_r17c : keccakChi 0x8cbeb984fca7f2be967ddc071f4df22645daec29dfd10072840645265023d5c72e4fc255fdf6b2ca2e2b4c4830f1e718fd8d1372618b5df061d7f7acc847b0df383fe65f4764d9c9fdb55a6416c30ced4b08bb3c61b11a04b08aa2ad87598bf24b0182d3663a27bfd79f26da0f0bd1a0350ba918b05a247916880a999912db18d46f53c151869680f0d3c1b92156e634ad7801985a23e44a3ae62bde32c71814888eeeb314202707d9bb19ea806dfb5b88d3833ddf546854441674af23e839ef7dc93c72d24898a5 = 0xcbebca6fca6b7bbb43c9e561e1df2664d58cda93f7300ea16235520502f27c36f976a5c7226b2fa2e21e85371d536182c1901566789551563f5bba4d83712d7a437e60d66ec94e9bc754bc49ec02cfb899cbdfe6eb0cb848489a2ad1713af8b00019bc3069a37bb671506f68e4a59e03d0b2919d06a026693900a99d1323f52fc09728773439684f253c9a1a946af2ca95413d80aa3f4ca6a65ebff13931a208898ae3e3580064dacfa09aa422563fb88d7652ccb546c50153e6c6d23c1aae4f508bf620e5cd8b5 := by decide

theorem c4ka_r17 : keccakRound keccak_rotc 0x500a07eb3e0398ef5b6ca91d2ab1906034d1d02fac455060645fe6aa0f598dd4768f8f0379762f423ea4af72294891e41ffa3fe00399dc4d19e8eb81caf55fbe597ac4ff8476d20133813b3844f209c09fab87d060447db76d333e885b97e1fdc5b2fa16e68086d8f0a83d36db426097ae14e5f67393ebe8b415bd8aa72b82c27caaad8d9cfd074621576c00842db3ee20cd5892e2ccfedbc478d05dc43ac94b1475b86f326484ed5c51606e753435ad1b3619cc1bcb57805df59c47685d63474dc7a1b385f1af8b 17 = 0xcbebca6fca6b7bbb43c9e561e1df2664d58cda93f7300ea16235520502f27c36f976a5c7226b2fa2e21e85371d536182c1901566789551563f5bba4d83712d7a437e60d66ec94e9bc754bc49ec02cfb899cbdfe6eb0cb848489a2ad1713af8b00019bc3069a37bb671506f68e4a59e03d0b2919d06a026693900a99d1323f52fc09728773439684f253c9a1a946af2ca95413d80aa3f4ca6a65ebff13931a208898ae3e3580064dacfa09aa422563fb88d7652ccb546c50153e6c6d23c1aae47508bf620e5cd835 := by

  simp only [keccakRound, c4ka_r17t, c4ka_r17p, c4ka_r17c]

  decide

theorem c4ka_r18t : keccakTheta 0xcbebca6fca6b7bbb43c9e561e1df2664d58cda93f7300ea16235520502f27c36f976a5c7226b2fa2e21e85371d536182c1901566789551563f5bba4d83712d7a437e60d66ec94e9bc754bc49ec02cfb899cbdfe6eb0cb848489a2ad1713af8b00019bc3069a37bb671506f68e4a59e03d0b2919d06a026693900a99d1323f52fc09728773439684f253c9a1a946af2ca95413d80aa3f4ca6a65ebff13931a208898ae3e3580064dacfa09aa422563fb88d7652ccb546c50153e6c6d23c1aae47508bf620e5cd835 = 0xa3e9421ee1c1f6d98002444d9333f2edbc8d8ac7115b4f004ff78bbb76f5b4450d4bb32d5680a80a817616eb6cb2777a1827db4deaa7559e9220fccaf61f5d3dfde338964036076fdea992b5ba66360b26cb434673d78ae6b0b778b69a3daf00f1d4dcad28b278513ec1d86da890ca665fd7f068f4cc18963cc7f421cc557e30c837a89cfe6d960f03868ecf876ee0c6f080cd432c79674c08b9328e373500d027cf508628e7472f98c4d3b1cf0b637079022242e57c23ba4ceab2f6051b396217d466132afac2c5 := by decide

theorem c4ka_r18p : keccakRhoPi keccak_rotc 0xa3e9421ee1c1f6d98002444d9333f2edbc8d8ac7115b4f004ff78bbb76f5b4450d4bb32d5680a80a817616eb6cb2777a1827db4deaa7559e9220fccaf61f5d3dfde338964036076fdea992b5ba66360b26cb434673d78ae6b0b778b69a3daf00f1d4dcad28b278513ec1d86da890ca665fd7f068f4cc18963cc7f421cc557e30c837a89cfe6d960f03868ecf876ee0c6f080cd432c79674c08b9328e373500d027cf508628e7472f98c4d3b1cf0b637079022242e57c23ba4ceab2f6051b396217d466132afac2c5 = 0x3fde2eeddbd6d115cc6c17bd53256b74ebc5731365a1a33907e41bd44e7f36cb9e408890b95f08eeed8002444d9333f27e657b0fae9ec9100761b6a2432998fb73500d008b9328e331473a39793e7a84ccb55a02a028352e7616eb6cb2777a816d347b5e01616ef1e1a3b3e1dbb8318099d565ec0a3672c458e22b69e01791b1c0edffbc6712c806febf8347a660c4b2303cc7f421cc557e1cf0b637098c4d3b5087b8707db668fa69bd54eab3c304fb93c28f8ea6e569453350cb1e59d33c2017d466132afac2c5 := by decide

theorem c4ka_r18c : keccakChi 0x3fde2eeddbd6d115cc6c17bd53256b74ebc5731365a1a33907e41bd44e7f36cb9e408890b95f08eeed8002444d9333f27e657b0fae9ec9100761b6a2432998fb73500d008b9328e331473a39793e7a84ccb55a02a028352e7616eb6cb2777a816d347b5e01616ef1e1a3b3e1dbb8318099d565ec0a3672c458e22b69e01791b1c0edffbc6712c806febf8347a660c4b2303cc7f421cc557e1cf0b637098c4d3b5087b8707db668fa69bd54eab3c304fb93c28f8ea6e569453350cb1e59d33c2017d466132afac2c5 = 0x3e7a3da99df6e7144c6c97ad732c639ed8575b53ed73333803cc1f785c7b7e8f7641e89398df89deaf900744cf1233916e2243369eb2811486e1b6e20228aa190b54440d270569e33566889b3916ea9cac97c80371a0342e6756ce80b8613841e5956b5c01696bdff3a133c169ae218095c12df20a773cb578ee6aa9c05781f5c4fd6baa6e9a840ce6bd83062665d503307cbb4c60de5d7ad273b6348faccdbb7087317c2cb754da6eed12e9b18b86fe83c0279eead101455b6d9b7e48d1389a975662938cde8380 := by decide

theorem c4ka_r18 : keccakRound keccak_rotc 0xcbebca6fca6b7bbb43c9e561e1df2664d58cda93f7300ea16235520502f27c36f976a5c7226b2fa2e21e85371d536182c1901566789551563f5bba4d83712d7a437e60d66ec94e9bc754bc49ec02cfb899cbdfe6eb0cb848489a2ad1713af8b00019bc3069a37bb671506f68e4a59e03d0b2919d06a026693900a99d1323f52fc09728773439684f253c9a1a946af2ca95413d80aa3f4ca6a65ebff13931a208898ae3e3580064dacfa09aa422563fb88d7652ccb546c50153e6c6d23c1aae47508bf620e5cd835 18 = 0x3e7a3da99df6e7144c6c97ad732c639ed8575b53ed73333803cc1f785c7b7e8f7641e89398df89deaf900744cf1233916e2243369eb2811486e1b6e20228aa190b54440d270569e33566889b3916ea9cac97c80371a0342e6756ce80b8613841e5956b5c01696bdff3a133c169ae218095c12df20a773cb578ee6aa9c05781f5c4fd6baa6e9a840ce6bd83062665d503307cbb4c60de5d7ad273b6348faccdbb7087317c2cb754da6eed12e9b18b86fe83c0279eead101455b6d9b7e48d1389a975662938cde038a := by

  simp only [keccakRound, c4ka_r18t, c4ka_r18p, c4ka_r18c]

  decide

theorem c4ka_r19t : keccakTheta 0x3e7a3da99df6e7144c6c97ad732c639ed8575b53ed73333803cc1f785c7b7e8f7641e89398df89deaf900744cf1233916e2243369eb2811486e1b6e20228aa190b54440d270569e33566889b3916ea9cac97c80371a0342e6756ce80b8613841e5956b5c01696bdff3a133c169ae218095c12df20a773cb578ee6aa9c05781f5c4fd6baa6e9a840ce6bd83062665d503307cbb4c60de5d7ad273b6348faccdbb7087317c2cb754da6eed12e9b18b86fe83c0279eead101455b6d9b7e48d1389a975662938cde038a = 0xf6f56c4a46811ca0f81be7afcee22e2e966fd564c271d0472cb3c2cfb1bba2386305d0a422c51a43671f56a71465c825da553334237ccca4c8d938d52d2a4966242b99bacac5b5542022b0ac830c7901641899e0aad7cf9ad321be8205af75f1abade56b2e6b88a0dcdeee76846efd37808515c5b06daf28b0613b4a1b207a41708a1ba8d354c9bca8850d310967367c1f0366fb8d1e81cdc7378e0335b65e26b808609ff7c0af6eda9a62eb0c45cb4ecdf8a9a9c5d3e23a741246c9a511e42d82125aa436c49017 := by decide

theorem c4ka_r19p : keccakRhoPi keccak_rotc 0xf6f56c4a46811ca0f81be7afcee22e2e966fd564c271d0472cb3c2cfb1bba2386305d0a422c51a43671f56a71465c825da553334237ccca4c8d938d52d2a4966242b99bacac5b5542022b0ac830c7901641899e0aad7cf9ad321be8205af75f1abade56b2e6b88a0dcdeee76846efd37808515c5b06daf28b0613b4a1b207a41708a1ba8d354c9bca8850d310967367c1f0366fb8d1e81cdc7378e0335b65e26b808609ff7c0af6eda9a62eb0c45cb4ecdf8a9a9c5d3e23a741246c9a511e42d82125aa436c49017 = 0xb2cf0b3ec6ee88e018f20240456159066be7cd320c4cf055de38450dd469aa64b37e2a6a7174f88e2ef81be7afcee22e9c6a969524b3646c7bb9da11bbf4df735b65e26c7378e033ffbe057b75c0430442908b14690d8c171f56a71465c82567040b5eebe3a6437d21434c4259cd9f2ae8248d934a23c85aac984e3a08f2cdfab6aa8485733759580428ae2d836d794441b0613b4a1b207ab0c45cb4eda9a62e5b1291a047283dbd66846f99949b4aa65c45055d6f2b5973d9bee347a07347c082125aa436c49017 := by decide

theorem c4ka_r19c : keccakChi 0xb2cf0b3ec6ee88e018f20240456159066be7cd320c4cf055de38450dd469aa64b37e2a6a7174f88e2ef81be7afcee22e9c6a969524b3646c7bb9da11bbf4df735b65e26c7378e033ffbe057b75c0430442908b14690d8c171f56a71465c82567040b5eebe3a6437d21434c4259cd9f2ae8248d934a23c85aac984e3a08f2cdfab6aa8485733759580428ae2d836d794441b0613b4a1b207ab0c45cb4eda9a62e5b1291a047283dbd66846f99949b4aa65c45055d6f2b5973d9bee347a07347c082125aa436c49017 = 0xfecf4e3b42e78a8019c2220074712908c9eac40c8ec270b5ce28474d9548a36692b9a2587970a89f2eb9f9e3adf6421d4d6c928d74b3656c5929d37330b85d71df27e6e8777bc03fdf261d6afd445c4443d3cb5478c19b37b772a39767ea652f448b56ebeba3cb6d3a17ed565d85bb28ec2c9f3ae801880feda86f310ae0cdaaa6ee9401963e7b5c0c38e4178badfde6f33261bb3a092062b4ccd2b06ccdff2a02be30e3c71b7a7de684259da45fcaa44557957d2c0b6c6afb3e89c730e3454486535ebc79cc8824 := by decide

theorem c4ka_r19 : keccakRound keccak_rotc 0x3e7a3da99df6e7144c6c97ad732c639ed8575b53ed73333803cc1f785c7b7e8f7641e89398df89deaf900744cf1233916e2243369eb2811486e1b6e20228aa190b54440d270569e33566889b3916ea9cac97c80371a0342e6756ce80b8613841e5956b5c01696bdff3a133c169ae218095c12df20a773cb578ee6aa9c05781f5c4fd6baa6e9a840ce6bd83062665d503307cbb4c60de5d7ad273b6348faccdbb7087317c2cb754da6eed12e9b18b86fe83c0279eead101455b6d9b7e48d1389a975662938cde038a 19 = 0xfecf4e3b42e78a8019c2220074712908c9eac40c8ec270b5ce28474d9548a36692b9a2587970a89f2eb9f9e3adf6421d4d6c928d74b3656c5929d37330b85d71df27e6e8777bc03fdf261d6afd445c4443d3cb5478c19b37b772a39767ea652f448b56ebeba3cb6d3a17ed565d85bb28ec2c9f3ae801880feda86f310ae0cdaaa6ee9401963e7b5c0c38e4178badfde6f33261bb3a092062b4ccd2b06ccdff2a02be30e3c71b7a7de684259da45fcaa44557957d2c0b6c6afb3e89c730e3454406535ebcf9cc882e := by

  simp only [keccakRound, c4ka_r19t, c4ka_r19p, c4ka_r19c]

  decide

theorem c4ka_r20t : keccakTheta 0xfecf4e3b42e78a8019c2220074712908c9eac40c8ec270b5ce28474d9548a36692b9a2587970a89f2eb9f9e3adf6421d4d6c928d74b3656c5929d37330b85d71df27e6e8777bc03fdf261d6afd445c4443d3cb5478c19b37b772a39767ea652f448b56ebeba3cb6d3a17ed565d85bb28ec2c9f3ae801880feda86f310ae0cdaaa6ee9401963e7b5c0c38e4178badfde6f33261bb3a092062b4ccd2b06ccdff2a02be30e3c71b7a7de684259da45fcaa44557957d2c0b6c6afb3e89c730e3454406535ebcf9cc882e = 0x7b20b4b4e5c605937d835442325996d7ad93258f910dfc85e74a8ab4888246fda823c81949e2364cab56036c0ad7cd0e292de4cf329bdab33d5032f02f77d141f6452b116ab125a4e5bc772bcdd6c297c63c31dbdfe01424d333d5d521c2daf020f2b768f46c475d137520af404f5eb3d6b6f57bd89316dc684795beadc142b9c2afe243d016c48368410594946271d6da50ac4227c3c5f98e56b8f15c5f61f98751ca6c603af56e82c553dfe277757b212e74fe33c4e05ad25c443e2d29a0df3cc934fdc95e16fd := by decide

theorem c4ka_r20p : keccakRhoPi keccak_rotc 0x7b20b4b4e5c605937d835442325996d7ad93258f910dfc85e74a8ab4888246fda823c81949e2364cab56036c0ad7cd0e292de4cf329bdab33d5032f02f77d141f6452b116ab125a4e5bc772bcdd6c297c63c31dbdfe01424d333d5d521c2daf020f2b768f46c475d137520af404f5eb3d6b6f57bd89316dc684795beadc142b9c2afe243d016c48368410594946271d6da50ac4227c3c5f98e56b8f15c5f61f98751ca6c603af56e82c553dfe277757b212e74fe33c4e05ad25c443e2d29a0df3cc934fdc95e16fd = 0x9d2a2ad222091bf7ad852fcb78ee579bf00a12631e18edef41e157f121e80b62884b9d3f8cf13816d77d835442325996197817bbe8a09ea8d482bd013d7acc4dc5f61f98e56b8f156301d7ab743a8e5320652788d932a08f56036c0ad7cd0eabaa4385b5e1a667ab10416525189c759aa4b8887c5a5341bfb1f221bf90b5b26424b49ec8a5622d56b5b7abdec498b6e6b9684795beadc142fe277757b82c553d2d2d39718164dec899e6537b566525bc623ae90795bb47a32b1089f0f17e76943cc934fdc95e16fd := by decide

theorem c4ka_r20c : keccakChi 0x9d2a2ad222091bf7ad852fcb78ee579bf00a12631e18edef41e157f121e80b62884b9d3f8cf13816d77d835442325996197817bbe8a09ea8d482bd013d7acc4dc5f61f98e56b8f156301d7ab743a8e5320652788d932a08f56036c0ad7cd0eabaa4385b5e1a667ab10416525189c759aa4b8887c5a5341bfb1f221bf90b5b26424b49ec8a5622d56b5b7abdec498b6e6b9684795beadc142fe277757b82c553d2d2d39718164dec899e6537b566525bc623ae90795bb47a32b1089f0f17e76943cc934fdc95e16fd = 0xdc8a681203011897adc4bae6f41e779be02012731c19e58b4c647a79410e197238419d3d92e1dc9b538b8b44c373589239784310dca818e912873d453f688d5bcc8e1d2225eb9db5730177aa6c2ace1b30244289d9be948fd29be47ed58c4f9b8a278635e994c7af44410d2f0ed57d9a0eba08ecbb71439eb0ba213f963432266ab1c8888d6a684f24f58ae9d40d24c6b96853959fcfc852fab0df1df83c63992e3db071b144bec8892657f71e7f25894633c10714bb9de3b2d49b88b33a56887ce354facddf17de := by decide

theorem c4ka_r20 : keccakRound keccak_rotc 0xfecf4e3b42e78a8019c2220074712908c9eac40c8ec270b5ce28474d9548a36692b9a2587970a89f2eb9f9e3adf6421d4d6c928d74b3656c5929d37330b85d71df27e6e8777bc03fdf261d6afd445c4443d3cb5478c19b37b772a39767ea652f448b56ebeba3cb6d3a17ed565d85bb28ec2c9f3ae801880feda86f310ae0cdaaa6ee9401963e7b5c0c38e4178badfde6f33261bb3a092062b4ccd2b06ccdff2a02be30e3c71b7a7de684259da45fcaa44557957d2c0b6c6afb3e89c730e3454406535ebcf9cc882e 20 = 0xdc8a681203011897adc4bae6f41e779be02012731c19e58b4c647a79410e197238419d3d92e1dc9b538b8b44c373589239784310dca818e912873d453f688d5bcc8e1d2225eb9db5730177aa6c2ace1b30244289d9be948fd29be47ed58c4f9b8a278635e994c7af44410d2f0ed57d9a0eba08ecbb71439eb0ba213f963432266ab1c8888d6a684f24f58ae9d40d24c6b96853959fcfc852fab0df1df83c63992e3db071b144bec8892657f71e7f25894633c10714bb9de3b2d49b88b33a5688fce354fa4ddf975f := by

  simp only [keccakRound, c4ka_r20t, c4ka_r20p, c4ka_r20c]

  decide

theorem c4ka_r21t : keccakTheta 0xdc8a681203011897adc4bae6f41e779be02012731c19e58b4c647a79410e197238419d3d92e1dc9b538b8b44c373589239784310dca818e912873d453f688d5bcc8e1d2225eb9db5730177aa6c2ace1b30244289d9be948fd29be47ed58c4f9b8a278635e994c7af44410d2f0ed57d9a0eba08ecbb71439eb0ba213f963432266ab1c8888d6a684f24f58ae9d40d24c6b96853959fcfc852fab0df1df83c63992e3db071b144bec8892657f71e7f25894633c10714bb9de3b2d49b88b33a5688fce354fa4ddf975f = 0xfe6839dc8d9d3e08f4c639298335d1096456b5f4868258533b40d63fa5f1901e87cce97e21d74bf07169da8a4def7e0d607ac0dfab83be7b96f19ac2a5f33083bbaab164c11414d9cc8c03e9df1c597012c613475722b2108b9967b1a2a7e9090e5121b2730f7a773365a169ea2af4f6b1377caf0847d4f5925870f118a814b933b34b47fa41cedda0832d6e4e96991ece4cffd37b30413e453dab5e4b0af4f20cdfe1bf3fd89857d024d4386954831bc24566808e20203bc5f037ce57c5dfe4436e20b9fee90034 := by decide

theorem c4ka_r21p : keccakRhoPi keccak_rotc 0xfe6839dc8d9d3e08f4c639298335d1096456b5f4868258533b40d63fa5f1901e87cce97e21d74bf07169da8a4def7e0d607ac0dfab83be7b96f19ac2a5f33083bbaab164c11414d9cc8c03e9df1c597012c613475722b2108b9967b1a2a7e9090e5121b2730f7a773365a169ea2af4f6b1377caf0847d4f5925870f118a814b933b34b47fa41cedda0832d6e4e96991ece4cffd37b30413e453dab5e4b0af4f20cdfe1bf3fd89857d024d4386954831bc24566808e20203bc5f037ce57c5dfe4436e20b9fee90034 = 0xed0358fe97c6407838b2e1991807d3be915908096309a3ab6e99d9a5a3fd20e7f09159a02388080e09f4c639298335d1cd6152f99841cb789685a7a8abd3d8cdb0af4f2453dab5e4f9fec4c2b866ff0da5f8875d2fc21f3369da8a4def7e0d7163454fd2131732cf20cb5b93a5a647a88be06f9caf8bbfc9be90d04b0a6c8ad6829b3775562c982289bbe578423ea7adb9925870f118a81486954831bd024d430e7723674f823f9a1bf57077cf6c0f587bd3b872890d93983ff4decc104fb393436e20b9fee90034 := by decide

theorem c4ka_r21c : keccakChi 0xed0358fe97c6407838b2e1991807d3be915908096309a3ab6e99d9a5a3fd20e7f09159a02388080e09f4c639298335d1cd6152f99841cb789685a7a8abd3d8cdb0af4f2453dab5e4f9fec4c2b866ff0da5f8875d2fc21f3369da8a4def7e0d7163454fd2131732cf20cb5b93a5a647a88be06f9caf8bbfc9be90d04b0a6c8ad6829b3775562c982289bbe578423ea7adb9925870f118a81486954831bd024d430e7723674f823f9a1bf57077cf6c0f587bd3b872890d93983ff4decc104fb393436e20b9fee90034 = 0xe30bd8fb17b360992822e099380fdbb85458106fe4c9a3eb463b3835bbfb70f361d159a863888b0609f5cd1d6a1b35313d6b523b08250174961123a88a51ec4cf9cf1f7543dab6d4fffe644a1067b70485f3975e2fe65f1363dae2cd6f77adb9e7654ac2139720cd2851db9e49ce4a98c8e46bdcbd9a8f8e8792c00b4a742ac2829e3f45e32edd23b5bb25724a7ea579bb924a75e518b01686bced39bf244aea32e7fd234f848c195afd70ef7f050f7c7fd1bb72898fa31a3fd09ec9562fbfd3036d008b77e9003c := by decide

theorem c4ka_r21 : keccakRound keccak_rotc 0xdc8a681203011897adc4bae6f41e779be02012731c19e58b4c647a79410e197238419d3d92e1dc9b538b8b44c373589239784310dca818e912873d453f688d5bcc8e1d2225eb9db5730177aa6c2ace1b30244289d9be948fd29be47ed58c4f9b8a278635e994c7af44410d2f0ed57d9a0eba08ecbb71439eb0ba213f963432266ab1c8888d6a684f24f58ae9d40d24c6b96853959fcfc852fab0df1df83c63992e3db071b144bec8892657f71e7f25894633c10714bb9de3b2d49b88b33a5688fce354fa4ddf975f 21 = 0xe30bd8fb17b360992822e099380fdbb85458106fe4c9a3eb463b3835bbfb70f361d159a863888b0609f5cd1d6a1b35313d6b523b08250174961123a88a51ec4cf9cf1f7543dab6d4fffe644a1067b70485f3975e2fe65f1363dae2cd6f77adb9e7654ac2139720cd2851db9e49ce4a98c8e46bdcbd9a8f8e8792c00b4a742ac2829e3f45e32edd23b5bb25724a7ea579bb924a75e518b01686bced39bf244aea32e7fd234f848c195afd70ef7f050f7c7fd1bb72898fa31a3fd09ec9562fbfd3836d008b77e980bc := by

  simp only [keccakRound, c4ka_r21t, c4ka_r21p, c4ka_r21c]

  decide

theorem c4ka_r22t : keccakTheta 0xe30bd8fb17b360992822e099380fdbb85458106fe4c9a3eb463b3835bbfb70f361d159a863888b0609f5cd1d6a1b35313d6b523b08250174961123a88a51ec4cf9cf1f7543dab6d4fffe644a1067b70485f3975e2fe65f1363dae2cd6f77adb9e7654ac2139720cd2851db9e49ce4a98c8e46bdcbd9a8f8e8792c00b4a742ac2829e3f45e32edd23b5bb25724a7ea579bb924a75e518b01686bced39bf244aea32e7fd234f848c195afd70ef7f050f7c7fd1bb72898fa31a3fd09ec9562fbfd3836d008b77e980bc = 0xebceb026d9b53607739578bc298cea701a5f078660fc6ac4cbac4db2c0bfdb3a9c67b6fc318721920130a5c0a41d63af66dcca1e19a630bcd81634410e64256374586af2389e1d1d02488b1e42681d908d36ff83e1e0098d386d7ae87ef49c71a9625d2b97a2e9e2a5c6ae19328ae15135528488ef95251a8f57a8d684727c5cd929a760f2adecebfbbc329bce4b6c5636053ff29e5c1bdf7b0a026ded2be07e3a2295fe8182da87014ae8ca6e863eb431d6ac9b0dba6a35b247eb4e2d6b141a7edbefdf25e62a28 := by decide

theorem c4ka_r22p : keccakRhoPi keccak_rotc 0xebceb026d9b53607739578bc298cea701a5f078660fc6ac4cbac4db2c0bfdb3a9c67b6fc318721920130a5c0a41d63af66dcca1e19a630bcd81634410e64256374586af2389e1d1d02488b1e42681d908d36ff83e1e0098d386d7ae87ef49c71a9625d2b97a2e9e2a5c6ae19328ae15135528488ef95251a8f57a8d684727c5cd929a760f2adecebfbbc329bce4b6c5636053ff29e5c1bdf7b0a026ded2be07e3a2295fe8182da87014ae8ca6e863eb431d6ac9b0dba6a35b247eb4e2d6b141a7edbefdf25e62a28 = 0x2eb136cb02ff6cebd03b200491163c84f004c6c69b7fc1f075ec94d3b07956f64c75ab26c36e9a8d70739578bc298cea1a20873212b1ec0b1ab864ca2b854697d2be07e7b0a026def40c16d439d114afdbf0c61c864a719e30a5c0a41d63af01d0fde938e270daf5ef0ca6f392db15be648fd69c5ad62835f0cc1f8d58834be0c3a3ae8b0d5e4713aa9424477ca928d15c8f57a8d684727ca6e863eb4014ae8cac09b66d4d81faf343c334c6178cdb99174f154b12e95cbd4ffca79706f7cd817edbefdf25e62a28 := by decide

theorem c4ka_r22c : keccakChi 0x2eb136cb02ff6cebd03b200491163c84f004c6c69b7fc1f075ec94d3b07956f64c75ab26c36e9a8d70739578bc298cea1a20873212b1ec0b1ab864ca2b854697d2be07e7b0a026def40c16d439d114afdbf0c61c864a719e30a5c0a41d63af01d0fde938e270daf5ef0ca6f392db15be648fd69c5ad62835f0cc1f8d58834be0c3a3ae8b0d5e4713aa9424477ca928d15c8f57a8d684727ca6e863eb4014ae8cac09b66d4d81faf343c334c6178cdb99174f154b12e95cbd4ffca79706f7cd817edbefdf25e62a28 = 0x1f39221a32ee2899907fa9205016ae80de84d00d9996819b75d7b4d3b0796af2cc75e922c8681b8d72c1945b3c09aeba9e2c85b61361fc0e7aeb7482878d4677d2be84d7a0908ed6fc0c76dc32d454ae50f0e67f0643641414aad02445f7a7201badef2060788a6bcf0ca6778fd830be747e9f943af6e274a8cb0b8dce031b90c583cee90d4ae31f9ad835432c2820311dacdd20d7d2357e04f843ac683da60dad2db66d4f903f7211117d5437eadb91bb4797625ae87cdf0f7c871303f34e816ed8ff9735ee3a14 := by decide

theorem c4ka_r22 : keccakRound keccak_rotc 0xe30bd8fb17b360992822e099380fdbb85458106fe4c9a3eb463b3835bbfb70f361d159a863888b0609f5cd1d6a1b35313d6b523b08250174961123a88a51ec4cf9cf1f7543dab6d4fffe644a1067b70485f3975e2fe65f1363dae2cd6f77adb9e7654ac2139720cd2851db9e49ce4a98c8e46bdcbd9a8f8e8792c00b4a742ac2829e3f45e32edd23b5bb25724a7ea579bb924a75e518b01686bced39bf244aea32e7fd234f848c195afd70ef7f050f7c7fd1bb72898fa31a3fd09ec9562fbfd3836d008b77e980bc 22 = 0x1f39221a32ee2899907fa9205016ae80de84d00d9996819b75d7b4d3b0796af2cc75e922c8681b8d72c1945b3c09aeba9e2c85b61361fc0e7aeb7482878d4677d2be84d7a0908ed6fc0c76dc32d454ae50f0e67f0643641414aad02445f7a7201badef2060788a6bcf0ca6778fd830be747e9f943af6e274a8cb0b8dce031b90c583cee90d4ae31f9ad835432c2820311dacdd20d7d2357e04f843ac683da60dad2db66d4f903f7211117d5437eadb91bb4797625ae87cdf0f7c871303f34e816ed8ff97b5ee3a15 := by

  simp only [keccakRound, c4ka_r22t, c4ka_r22p, c4ka_r22c]

  decide

theorem c4ka_r23t : keccakTheta 0x1f39221a32ee2899907fa9205016ae80de84d00d9996819b75d7b4d3b0796af2cc75e922c8681b8d72c1945b3c09aeba9e2c85b61361fc0e7aeb7482878d4677d2be84d7a0908ed6fc0c76dc32d454ae50f0e67f0643641414aad02445f7a7201badef2060788a6bcf0ca6778fd830be747e9f943af6e274a8cb0b8dce031b90c583cee90d4ae31f9ad835432c2820311dacdd20d7d2357e04f843ac683da60dad2db66d4f903f7211117d5437eadb91bb4797625ae87cdf0f7c871303f34e816ed8ff97b5ee3a15 = 0x8d1d15b735fc87277fff9b134ada324338e78253aac7b4bf674bdb9ebca6796e01f09c7cd77e8392e0e5a3f63b1b010471acb78509ad60cd9c8826dcb4dc7353c022eb9aac4f9d4a318903822dc2ccb1c2d4d1d20151cbaafb2ae2175f3b3be3fdcebd7e5329bf4fdd90c93a83072322b9fbeaca25e07a6b3aef3c20c911b42e2a03fcda17867fdc7cbb671d1f7915150f30b26ddb0d26e2c97d36f2772b3e123f0981c0488290ccfe914f672d2647525d24c53c69b949fb1de0e85e0f2c5d1da35d8ac9aaf8a20a := by decide

theorem c4ka_r23p : keccakRhoPi keccak_rotc 0x8d1d15b735fc87277fff9b134ada324338e78253aac7b4bf674bdb9ebca6796e01f09c7cd77e8392e0e5a3f63b1b010471acb78509ad60cd9c8826dcb4dc7353c022eb9aac4f9d4a318903822dc2ccb1c2d4d1d20151cbaafb2ae2175f3b3be3fdcebd7e5329bf4fdd90c93a83072322b9fbeaca25e07a6b3aef3c20c911b42e2a03fcda17867fdc7cbb671d1f7915150f30b26ddb0d26e2c97d36f2772b3e123f0981c0488290ccfe914f672d2647525d24c53c69b949fb1de0e85e0f2c5d1da35d8ac9aaf8a20a = 0x9d2f6e7af299e5b9859962631207045ba8e5d5616a68e900ee1501fe6d0bc33fd749314f1a6e527e437fff9b134ada32136e5a6e39a9ce444324ea0c1c8c8b7672b3e12c97d36f270244148661f84c0e71f35dfa0e4807c2e5a3f63b1b0104e02ebe7677c7f655c42ed9c747de45455f3bc1d0bc1e58ba3a4a7558f697e71cf0f3a958045d735589cfdf56512f03d35d2e3aef3c20c911b472d264752fe914f6456dcd7f21c9e347f0a135ac19ae35964dfa7fee75ebf2992c9b76c349b883cca35d8ac9aaf8a20a := by decide

theorem c4ka_r23c : keccakChi 0x9d2f6e7af299e5b9859962631207045ba8e5d5616a68e900ee1501fe6d0bc33fd749314f1a6e527e437fff9b134ada32136e5a6e39a9ce444324ea0c1c8c8b7672b3e12c97d36f270244148661f84c0e71f35dfa0e4807c2e5a3f63b1b0104e02ebe7677c7f655c42ed9c747de45455f3bc1d0bc1e58ba3a4a7558f697e71cf0f3a958045d735589cfdf56512f03d35d2e3aef3c20c911b472d264752fe914f6456dcd7f21c9e347f0a135ac19ae35964dfa7fee75ebf2992c9b76c349b883cca35d8ac9aaf8a20a = 0xb53b6eca979864b8c7d973661a61161db0c3d9798af008a0eb0d23fc7d0cc764d7a9e54e180e7a7e33cc1eb38549f913136e5a6a5919ca4803354f9d1ece9b4462f9f14eb6f22b2703401e8669f4cc5e75eb5ab9ce4d4287efa3763f0b11bcd83eee7fb7c3be56c6efd8474fc644457f3be7e08c1feaaaba465dd3fe97e71df0c32b7c05757b558fc78b56a3ad87db2d1e1ae73870b91534b317743420ebd6bf49efb97d60c9e28352b1372c939e359e48b6b7bd55aa30d89c9a76c341bc86cae23d83e59ebbd21b := by decide

theorem c4ka_r23 : keccakRound keccak_rotc 0x1f39221a32ee2899907fa9205016ae80de84d00d9996819b75d7b4d3b0796af2cc75e922c8681b8d72c1945b3c09aeba9e2c85b61361fc0e7aeb7482878d4677d2be84d7a0908ed6fc0c76dc32d454ae50f0e67f0643641414aad02445f7a7201badef2060788a6bcf0ca6778fd830be747e9f943af6e274a8cb0b8dce031b90c583cee90d4ae31f9ad835432c2820311dacdd20d7d2357e04f843ac683da60dad2db66d4f903f7211117d5437eadb91bb4797625ae87cdf0f7c871303f34e816ed8ff97b5ee3a15 23 = 0xb53b6eca979864b8c7d973661a61161db0c3d9798af008a0eb0d23fc7d0cc764d7a9e54e180e7a7e33cc1eb38549f913136e5a6a5919ca4803354f9d1ece9b4462f9f14eb6f22b2703401e8669f4cc5e75eb5ab9ce4d4287efa3763f0b11bcd83eee7fb7c3be56c6efd8474fc644457f3be7e08c1feaaaba465dd3fe97e71df0c32b7c05757b558fc78b56a3ad87db2d1e1ae73870b91534b317743420ebd6bf49efb97d60c9e28352b1372c939e359e48b6b7bd55aa30d89c9a76c341bc86ca623d83e51ebb5213 := by

  simp only [keccakRound, c4ka_r23t, c4ka_r23p, c4ka_r23c]

  decide

theorem c4ka_perm : keccak_f1600 keccak_rotc 0x80000000000000000000000000000000000000000000000000000000000000000000000000000000000000000000000000000000000000000000000000000000000000000000000119dfbc81d690b0402c8c73f7a8eb635786f356fcb4ed80002e0a9a2d7f6aec5d5d64fa88b861af147f33e9d261201918ae9cfbedc9cd555c2466d4b1abe7ed3d = 0xb53b6eca979864b8c7d973661a61161db0c3d9798af008a0eb0d23fc7d0cc764d7a9e54e180e7a7e33cc1eb38549f913136e5a6a5919ca4803354f9d1ece9b4462f9f14eb6f22b2703401e8669f4cc5e75eb5ab9ce4d4287efa3763f0b11bcd83eee7fb7c3be56c6efd8474fc644457f3be7e08c1feaaaba465dd3fe97e71df0c32b7c05757b558fc78b56a3ad87db2d1e1ae73870b91534b317743420ebd6bf49efb97d60c9e28352b1372c939e359e48b6b7bd55aa30d89c9a76c341bc86ca623d83e51ebb5213 := by

  rw [keccak_f1600_expand, c4ka_r0, c4ka_r1, c4ka_r2, c4ka_r3, c4ka_r4, c4ka_r5, c4ka_r6, c4ka_r7, c4ka_r8, c4ka_r9, c4ka_r10, c4ka_r11, c4ka_r12, c4ka_r13, c4ka_r14, c4ka_r15, c4ka_r16, c4ka_r17, c4ka_r18, c4ka_r19, c4ka_r20, c4ka_r21, c4ka_r22, c4ka_r23]

theorem c4ka_sq : keccakSqueeze32 0xb53b6eca979864b8c7d973661a61161db0c3d9798af008a0eb0d23fc7d0cc764d7a9e54e180e7a7e33cc1eb38549f913136e5a6a5919ca4803354f9d1ece9b4462f9f14eb6f22b2703401e8669f4cc5e75eb5ab9ce4d4287efa3763f0b11bcd83eee7fb7c3be56c6efd8474fc644457f3be7e08c1feaaaba465dd3fe97e71df0c32b7c05757b558fc78b56a3ad87db2d1e1ae73870b91534b317743420ebd6bf49efb97d60c9e28352b1372c939e359e48b6b7bd55aa30d89c9a76c341bc86ca623d83e51ebb5213 = [19, 82, 187, 30, 229, 131, 61, 98, 202, 134, 188, 65, 195, 118, 154, 156, 216, 48, 170, 85, 189, 183, 182, 72, 158, 53, 158, 147, 44, 55, 177, 82] := by decide

theorem c4ka_value : keccak256_64bytes [61, 237, 231, 171, 177, 212, 102, 36, 92, 85, 205, 201, 237, 251, 156, 174, 24, 25, 32, 97, 210, 233, 51, 127, 20, 175, 97, 184, 136, 250, 100, 93, 93, 236, 106, 127, 45, 154, 10, 46, 0, 128, 237, 180, 252, 86, 243, 134, 87, 99, 235, 168, 247, 115, 140, 44, 64, 176, 144, 214, 129, 188, 223, 25] = [19, 82, 187, 30, 229, 131, 61, 98, 202, 134, 188, 65, 195, 118, 154, 156, 216, 48, 170, 85, 189, 183, 182, 72, 158, 53, 158, 147, 44, 55, 177, 82] := by

  simp only [keccak256_64bytes, keccak256_64bytesWith, c4ka_abs, c4ka_perm, c4ka_sq]

theorem c4kb_abs : keccak64AbsorbState [133, 190, 243, 90, 68, 189, 195, 156, 74, 251, 98, 73, 249, 168, 8, 189, 131, 74, 191, 39, 198, 21, 204, 85, 72, 160, 187, 138, 200, 120, 215, 136, 198, 172, 119, 233, 111, 134, 98, 167, 175, 37, 59, 97, 136, 118, 43, 168, 241, 225, 130, 98, 177, 74, 203, 248, 255, 72, 131, 137, 57, 33, 91, 28] = 0x8000000000000000000000000000000000000000000000000000000000000000000000000000000000000000000000000000000000000000000000000000000000000000000000011c5b2139898348fff8cb4ab16282e1f1a82b7688613b25afa762866fe977acc688d778c88abba04855cc15c627bf4a83bd08a8f94962fb4a9cc3bd445af3be85 := by decide

theorem c4kb_r0t : keccakTheta 0x8000000000000000000000000000000000000000000000000000000000000000000000000000000000000000000000000000000000000000000000000000000000000000000000011c5b2139898348fff8cb4ab16282e1f1a82b7688613b25afa762866fe977acc688d778c88abba04855cc15c627bf4a83bd08a8f94962fb4a9cc3bd445af3be85 = 0xe106ef50fd2a961d075238207cd35bf1d46d13d93e975a28a7c6a23367b09fd22ce542ffbeb799b1e106ef50fd2a961d075238207cd35bf1d46d13d93e975a2827c6a23367b09fd22ce542ffbeb799b1e106ef50fd2a961d075238207cd35bf1d46d13d93e975a28a7c6a23367b09fd22ce542ffbeb799b1e106ef50fd2a961d075238207cd35bf0c83632e0b71412d75f0de88205327e2384ce3477df8cbc1e4664693f145d3adb8f8540e8f668fbb981a1061f192810ab1ace0aca2ed26498b026ffbbe4442734 := by decide

theorem c4kb_r0p : keccakRhoPi keccak_rotc 0xe106ef50fd2a961d075238207cd35bf1d46d13d93e975a28a7c6a23367b09fd22ce542ffbeb799b1e106ef50fd2a961d075238207cd35bf1d46d13d93e975a2827c6a23367b09fd22ce542ffbeb799b1e106ef50fd2a961d075238207cd35bf1d46d13d93e975a28a7c6a23367b09fd22ce542ffbeb799b1e106ef50fd2a961d075238207cd35bf0c83632e0b71412d75f0de88205327e2384ce3477df8cbc1e4664693f145d3adb8f8540e8f668fbb981a1061f192810ab1ace0aca2ed26498b026ffbbe4442734 = 0x9f1a88cd9ec27f4a6f336259ca85ff7d954b0ef08377a87ef803a91c103e69ade0684187c64a042af1075238207cd35b89ec9f4bad146a361a88cd9ec27f4a9ff8cbc1e84ce3477df8a2e9d6da3323490bfefade66c4b39506ef50fd2a961de140f9a6b7e20ea4700d8cb82dc504b5f2359c15945da4c9307b27d2eb451a8da213fa44f8d4466cf6672a17fdf5bccd891de106ef50fd2a968f668fbb98f8540ebbd43f4aa5877841040f9a6b7e20ea47bad146a3689ec9f47a20814c9f88d7c3b026ffbbe4442734 := by decide

theorem c4kb_r0c : keccakChi 0x9f1a88cd9ec27f4a6f336259ca85ff7d954b0ef08377a87ef803a91c103e69ade0684187c64a042af1075238207cd35b89ec9f4bad146a361a88cd9ec27f4a9ff8cbc1e84ce3477df8a2e9d6da3323490bfefade66c4b39506ef50fd2a961de140f9a6b7e20ea4700d8cb82dc504b5f2359c15945da4c9307b27d2eb451a8da213fa44f8d4466cf6672a17fdf5bccd891de106ef50fd2a968f668fbb98f8540ebbd43f4aa5877841040f9a6b7e20ea47bad146a3689ec9f47a20814c9f88d7c3b026ffbbe4442734 = 0x871920d58ef616cf0f53235b8a8dff5d054386749735a87c9233c91558be3eace5204767450b8478f14e521024bc976f814c368d77174a366a8b8daec217dbd679afd3a961e3675dfaa2e5c0582f2bcb03fe52f7e6c4875732ef55fd33b655c149e90cb5a64e06640b8ae865cd94ac7375ed13067faec9306ba6d2af051fa73297ba49e84ca63cfa0f2f85fef4a44c890d3146ef50bf0ae0ed6c9eab3df89107f1d43f0ebe0fa882042d5ada3e60ed73010163a3e919d9f47e2e190489a8f5c030f7b91884522f00 := by decide

theorem c4kb_r0 : keccakRound keccak_rotc 0x8000000000000000000000000000000000000000000000000000000000000000000000000000000000000000000000000000000000000000000000000000000000000000000000011c5b2139898348fff8cb4ab16282e1f1a82b7688613b25afa762866fe977acc688d778c88abba04855cc15c627bf4a83bd08a8f94962fb4a9cc3bd445af3be85 0 = 0x871920d58ef616cf0f53235b8a8dff5d054386749735a87c9233c91558be3eace5204767450b8478f14e521024bc976f814c368d77174a366a8b8daec217dbd679afd3a961e3675dfaa2e5c0582f2bcb03fe52f7e6c4875732ef55fd33b655c149e90cb5a64e06640b8ae865cd94ac7375ed13067faec9306ba6d2af051fa73297ba49e84ca63cfa0f2f85fef4a44c890d3146ef50bf0ae0ed6c9eab3df89107f1d43f0ebe0fa882042d5ada3e60ed73010163a3e919d9f47e2e190489a8f5c030f7b91884522f01 := by

  simp only [keccakRound, c4kb_r0t, c4kb_r0p, c4kb_r0c]

  decide

theorem c4kb_r1t : keccakTheta 0x871920d58ef616cf0f53235b8a8dff5d054386749735a87c9233c91558be3eace5204767450b8478f14e521024bc976f814c368d77174a366a8b8daec217dbd679afd3a961e3675dfaa2e5c0582f2bcb03fe52f7e6c4875732ef55fd33b655c149e90cb5a64e06640b8ae865cd94ac7375ed13067faec9306ba6d2af051fa73297ba49e84ca63cfa0f2f85fef4a44c890d3146ef50bf0ae0ed6c9eab3df89107f1d43f0ebe0fa882042d5ada3e60ed73010163a3e919d9f47e2e190489a8f5c030f7b91884522f01 = 0xc7975fe9845d96e7f8eb594e8b600d61c8848d75c33fc09875d89d625e3d274f2ce8d090e929987ab1c02d2c2e17174776f44c9876fab80aa74c86af961db3329e4487de67607ebe336a7237f40d37c943702dcbec6f077fc5572fe8325ba7fd842e07b4f2446e80ec61bc12cb17b590bc2584f1d38cd5322b28ad930fb4271a600233fd4d4bcec6c2e88effa0ae246deada1298563c130324a4095c91da8d05b15a4032b4a428aaf39520cf3f8d1f4fccc668a2bd13b11099c54d738f2bec23f93f2eef28703303 := by decide

theorem c4kb_r1p : keccakRhoPi keccak_rotc 0xc7975fe9845d96e7f8eb594e8b600d61c8848d75c33fc09875d89d625e3d274f2ce8d090e929987ab1c02d2c2e17174776f44c9876fab80aa74c86af961db3329e4487de67607ebe336a7237f40d37c943702dcbec6f077fc5572fe8325ba7fd842e07b4f2446e80ec61bc12cb17b590bc2584f1d38cd5322b28ad930fb4271a600233fd4d4bcec6c2e88effa0ae246deada1298563c130324a4095c91da8d05b15a4032b4a428aaf39520cf3f8d1f4fccc668a2bd13b11099c54d738f2bec23f93f2eef28703303 = 0xd762758978f49d3d1a6f9266d4e46fe83783bfa1b816e5f663300119fea6a5e733319a28af44ec4461f8eb594e8b600d4357cb0ed99953a686f04b2c5ed643b11da8d0524a4095c995a52145558ad2014243a4a661e8b3a3c02d2c2e171747b1d064b74ffb8aae5fba23bfe82b891b70338a9ae71e57d847aeb867f8131910910fd7d3c890fbccece12c278e9c66a9951a2b28ad930fb427f3f8d1f4ff39520cd7fa611765b9f1e5930edf57014ede8923740421703da79284a6158f04c0fab6f93f2eef28703303 := by decide

theorem c4kb_r1c : keccakChi 0xd762758978f49d3d1a6f9266d4e46fe83783bfa1b816e5f663300119fea6a5e733319a28af44ec4461f8eb594e8b600d4357cb0ed99953a686f04b2c5ed643b11da8d0524a4095c995a52145558ad2014243a4a661e8b3a3c02d2c2e171747b1d064b74ffb8aae5fba23bfe82b891b70338a9ae71e57d847aeb867f8131910910fd7d3c890fbccece12c278e9c66a9951a2b28ad930fb427f3f8d1f4ff39520cd7fa611765b9f1e5930edf57014ede8923740421703da79284a6158f04c0fab6f93f2eef28703303 = 0x9762749828569c9e3a7e184653e40fa8f283da28900675e36b5c015fba46afef27b22488af54ac5469f03b4b44cb65c5d752cb0ac899c1a6a6586b7d58d463b85caf5050cb4985cf17f52a69411c9031ca6281ae4060b093f1a5366f09000ff5d22637cf9b621e5dba2ab7c82f9c5ad073ce9ae0ce557c48a6bb4ff1131fb4b25e9743cc7cdb8ee0410403be9f66b98414f8f8ed9396f04f12fcd6f6f3595b9cd37a701761393951bb0bd1bf090edc8b67842421148c86f614acced90582a2bfda6f2ecf584d3603 := by decide

theorem c4kb_r1 : keccakRound keccak_rotc 0x871920d58ef616cf0f53235b8a8dff5d054386749735a87c9233c91558be3eace5204767450b8478f14e521024bc976f814c368d77174a366a8b8daec217dbd679afd3a961e3675dfaa2e5c0582f2bcb03fe52f7e6c4875732ef55fd33b655c149e90cb5a64e06640b8ae865cd94ac7375ed13067faec9306ba6d2af051fa73297ba49e84ca63cfa0f2f85fef4a44c890d3146ef50bf0ae0ed6c9eab3df89107f1d43f0ebe0fa882042d5ada3e60ed73010163a3e919d9f47e2e190489a8f5c030f7b91884522f01 1 = 0x9762749828569c9e3a7e184653e40fa8f283da28900675e36b5c015fba46afef27b22488af54ac5469f03b4b44cb65c5d752cb0ac899c1a6a6586b7d58d463b85caf5050cb4985cf17f52a69411c9031ca6281ae4060b093f1a5366f09000ff5d22637cf9b621e5dba2ab7c82f9c5ad073ce9ae0ce557c48a6bb4ff1131fb4b25e9743cc7cdb8ee0410403be9f66b98414f8f8ed9396f04f12fcd6f6f3595b9cd37a701761393951bb0bd1bf090edc8b67842421148c86f614acced90582a2bfda6f2ecf584db681 := by

  simp only [keccakRound, c4kb_r1t, c4kb_r1p, c4kb_r1c]

  decide

theorem c4kb_r2t : keccakTheta 0x9762749828569c9e3a7e184653e40fa8f283da28900675e36b5c015fba46afef27b22488af54ac5469f03b4b44cb65c5d752cb0ac899c1a6a6586b7d58d463b85caf5050cb4985cf17f52a69411c9031ca6281ae4060b093f1a5366f09000ff5d22637cf9b621e5dba2ab7c82f9c5ad073ce9ae0ce557c48a6bb4ff1131fb4b25e9743cc7cdb8ee0410403be9f66b98414f8f8ed9396f04f12fcd6f6f3595b9cd37a701761393951bb0bd1bf090edc8b67842421148c86f614acced90582a2bfda6f2ecf584db681 = 0x7843dbb9d9ed556f18605a753609b08a8d24e47a97d070c2a0bd2f6c81fb6c367d9874f460812c7e86d1946ab570ac34f54c8939ad747e84d9ff552f5f026699974e7e63f0f446164ddf7a158ec9101b25432e8fb1db7962d3bb745c6cedb0d7ad81099d9cb41b7c71cb99fb1421990929e4ca9c0180fc62499ae0d0e2a47d437c8901ff193631c23ea33dec98b0bca5df19d6dea82b339648d6868a3c8cdbb63c5bdf369082f0a09915938c6ce363a918231a73135a83d7df4de0ea3e3f616680457eb3979836ab := by decide

theorem c4kb_r2p : keccakRhoPi keccak_rotc 0x7843dbb9d9ed556f18605a753609b08a8d24e47a97d070c2a0bd2f6c81fb6c367d9874f460812c7e86d1946ab570ac34f54c8939ad747e84d9ff552f5f026699974e7e63f0f446164ddf7a158ec9101b25432e8fb1db7962d3bb745c6cedb0d7ad81099d9cb41b7c71cb99fb1421990929e4ca9c0180fc62499ae0d0e2a47d437c8901ff193631c23ea33dec98b0bca5df19d6dea82b339648d6868a3c8cdbb63c5bdf369082f0a09915938c6ce363a918231a73135a83d7df4de0ea3e3f616680457eb3979836ab = 0x82f4bdb207edb0da9220369bbef42b1dedbcb112a19747d8e13e4480ff8c9b18c608c69cc4d6a0f58a18605a753609b0aa97af81334cecff2e67ec50866425c7c8cdbb648d6868a3b484178501e2def9d3d18204b1f9f661d1946ab570ac3486b8d9db61afa776e8a8cf7b262c2f294fbe9bc1d47c7ec2cd8f52fa0e1851a49c88c2d2e9cfcc7e1e4f2654e00c07e31143499ae0d0e2a47dc6ce363a99915938f6ee767b555bde102735ae8fd09ea991a0dbe56c084cece575b7aa0acce5b7c680457eb3979836ab := by decide

theorem c4kb_r2c : keccakChi 0x82f4bdb207edb0da9220369bbef42b1dedbcb112a19747d8e13e4480ff8c9b18c608c69cc4d6a0f58a18605a753609b0aa97af81334cecff2e67ec50866425c7c8cdbb648d6868a3b484178501e2def9d3d18204b1f9f661d1946ab570ac3486b8d9db61afa776e8a8cf7b262c2f294fbe9bc1d47c7ec2cd8f52fa0e1851a49c88c2d2e9cfcc7e1e4f2654e00c07e31143499ae0d0e2a47dc6ce363a99915938f6ee767b555bde102735ae8fd09ea991a0dbe56c084cece575b7aa0acce5b7c680457eb3979836ab = 0xa3c2bdb23ce5abd2d62874977ee62b38ed683832a09ed71af33e4209e1ecb31dca88778ec4c5e435c251c83af93e29b29e13b804338c3ab62e6fac0ac25624c7485db8e5bc60a09b92a6539503e6dbbdd395b826b1f8df63fd9e2b653caa340aba985b612ef6b489e9cb5bb27c272949ae8b4195fffe946d8e5372ce583300d9c84ed6d94e4c273e48367ce61c166391c38918e9132ab873cae8723a95941a38835cf6731d3e5f542734a60f521e893a7011b51c0d0dbae57293a0891c77b6d6000d3bd797907e8a := by decide

theorem c4kb_r2 : keccakRound keccak_rotc 0x9762749828569c9e3a7e184653e40fa8f283da28900675e36b5c015fba46afef27b22488af54ac5469f03b4b44cb65c5d752cb0ac899c1a6a6586b7d58d463b85caf5050cb4985cf17f52a69411c9031ca6281ae4060b093f1a5366f09000ff5d22637cf9b621e5dba2ab7c82f9c5ad073ce9ae0ce557c48a6bb4ff1131fb4b25e9743cc7cdb8ee0410403be9f66b98414f8f8ed9396f04f12fcd6f6f3595b9cd37a701761393951bb0bd1bf090edc8b67842421148c86f614acced90582a2bfda6f2ecf584db681 2 = 0xa3c2bdb23ce5abd2d62874977ee62b38ed683832a09ed71af33e4209e1ecb31dca88778ec4c5e435c251c83af93e29b29e13b804338c3ab62e6fac0ac25624c7485db8e5bc60a09b92a6539503e6dbbdd395b826b1f8df63fd9e2b653caa340aba985b612ef6b489e9cb5bb27c272949ae8b4195fffe946d8e5372ce583300d9c84ed6d94e4c273e48367ce61c166391c38918e9132ab873cae8723a95941a38835cf6731d3e5f542734a60f521e893a7011b51c0d0dbae57293a0891c77b6d6800d3bd79790fe00 := by

  simp only [keccakRound, c4kb_r2t, c4kb_r2p, c4kb_r2c]

  decide

theorem c4kb_r3t : keccakTheta 0xa3c2bdb23ce5abd2d62874977ee62b38ed683832a09ed71af33e4209e1ecb31dca88778ec4c5e435c251c83af93e29b29e13b804338c3ab62e6fac0ac25624c7485db8e5bc60a09b92a6539503e6dbbdd395b826b1f8df63fd9e2b653caa340aba985b612ef6b489e9cb5bb27c272949ae8b4195fffe946d8e5372ce583300d9c84ed6d94e4c273e48367ce61c166391c38918e9132ab873cae8723a95941a38835cf6731d3e5f542734a60f521e893a7011b51c0d0dbae57293a0891c77b6d6800d3bd79790fe00 = 0x819d725424c5bfe9e982e012419fb005bb650f4c554df470cc0e632c617ec080b2e50ce1a8078e6ee00e07dce11e3d89a1b92c810cf5a18b78629b74378507ad776d99c03cf2d306eacb28fa6f24b1e6f1ca77c0a9d8cb58c234bfe003d3af37ec956c1fdb2597e3d6fb7a97fcb55ad4d6e63afa933cfe36ac0cbd28401314e2f7e4425c7135bc031e3b4b98e9c540fbfcb939cc93b8cbeeb2850955f9567063a1033995051e4b6f189e328a6d671207261c8262f8de998f4da381ac9ce5c54bf86040b8fb52945b := by decide

theorem c4kb_r3p : keccakRhoPi keccak_rotc 0x819d725424c5bfe9e982e012419fb005bb650f4c554df470cc0e632c617ec080b2e50ce1a8078e6ee00e07dce11e3d89a1b92c810cf5a18b78629b74378507ad776d99c03cf2d306eacb28fa6f24b1e6f1ca77c0a9d8cb58c234bfe003d3af37ec956c1fdb2597e3d6fb7a97fcb55ad4d6e63afa933cfe36ac0cbd28401314e2f7e4425c7135bc031e3b4b98e9c540fbfcb939cc93b8cbeeb2850955f9567063a1033995051e4b6f189e328a6d671207261c8262f8de998f4da381ac9ce5c54bf86040b8fb52945b = 0x30398cb185fb02034963cdd59651f4deec65ac78e53be05401fbf2212e389adec9872098be37a66305e982e012419fb04dba1bc283d6bc31edea5ff2d56b535b9567063b2850955fa828f25b7d0819cc3386a01e39bacb940e07dce11e3d89e0c007a75e6f84697f8ed2e63a71503ec79b47035939cb8a96e98aa9be8e176ca15a60ceedb338079eb731d7d499e7f1b6e2ac0cbd28401314a6d671207189e3285c9509316ffa606790219eb4317437252cbf1f64ab60fed94e7324ee32fbbf2ef86040b8fb52945b := by decide

theorem c4kb_r3c : keccakChi 0x30398cb185fb02034963cdd59651f4deec65ac78e53be05401fbf2212e389adec9872098be37a66305e982e012419fb04dba1bc283d6bc31edea5ff2d56b535b9567063b2850955fa828f25b7d0819cc3386a01e39bacb940e07dce11e3d89e0c007a75e6f84697f8ed2e63a71503ec79b47035939cb8a96e98aa9be8e176ca15a60ceedb338079eb731d7d499e7f1b6e2ac0cbd28401314a6d671207189e3285c9509316ffa606790219eb4317437252cbf1f64ab60fed94e7324ee32fbbf2ef86040b8fb52945b = 0x30415e9085f31a9f80e5edddac5550bedc7dac58e491e25500f9b3a43c788e5425832cc07f34c66310ae86c012111ba3e5ba6bd9eedebc7dedabdfd2c56a50db9577063b2ac4397fc0a0ab9ba8235bcc3716443c79aaffd58646dfa01e7c89e2f18787404e062b6b80d2be9b6169be47db42021d374fcbaea9a2a52386577cb55c349eedc2b0849616bbf6c695e09997aaec04940a58151cb3c7a260e02e038a5a862d776f534b433041de3ca174a33d602b1e65e5eabe9bde73a47e22efbe0ad8ec5bb87252d48a := by decide

theorem c4kb_r3 : keccakRound keccak_rotc 0xa3c2bdb23ce5abd2d62874977ee62b38ed683832a09ed71af33e4209e1ecb31dca88778ec4c5e435c251c83af93e29b29e13b804338c3ab62e6fac0ac25624c7485db8e5bc60a09b92a6539503e6dbbdd395b826b1f8df63fd9e2b653caa340aba985b612ef6b489e9cb5bb27c272949ae8b4195fffe946d8e5372ce583300d9c84ed6d94e4c273e48367ce61c166391c38918e9132ab873cae8723a95941a38835cf6731d3e5f542734a60f521e893a7011b51c0d0dbae57293a0891c77b6d6800d3bd79790fe00 3 = 0x30415e9085f31a9f80e5edddac5550bedc7dac58e491e25500f9b3a43c788e5425832cc07f34c66310ae86c012111ba3e5ba6bd9eedebc7dedabdfd2c56a50db9577063b2ac4397fc0a0ab9ba8235bcc3716443c79aaffd58646dfa01e7c89e2f18787404e062b6b80d2be9b6169be47db42021d374fcbaea9a2a52386577cb55c349eedc2b0849616bbf6c695e09997aaec04940a58151cb3c7a260e02e038a5a862d776f534b433041de3ca174a33d602b1e65e5eabe9bde73a47e22efbe0a58ec5bb8f252548a := by

  simp only [keccakRound, c4kb_r3t, c4kb_r3p, c4kb_r3c]

  decide

theorem c4kb_r4t : keccakTheta 0x30415e9085f31a9f80e5edddac5550bedc7dac58e491e25500f9b3a43c788e5425832cc07f34c66310ae86c012111ba3e5ba6bd9eedebc7dedabdfd2c56a50db9577063b2ac4397fc0a0ab9ba8235bcc3716443c79aaffd58646dfa01e7c89e2f18787404e062b6b80d2be9b6169be47db42021d374fcbaea9a2a52386577cb55c349eedc2b0849616bbf6c695e09997aaec04940a58151cb3c7a260e02e038a5a862d776f534b433041de3ca174a33d602b1e65e5eabe9bde73a47e22efbe0a58ec5bb8f252548a = 0x15b9bed85e885a16ff9ed9c4bd3b7c68a366355cc595c53ab831f7e8f1b3f28602d96f24c6bd4b8835566688c96a5b2a9ac15fc0ffb090ab92b046d6e46e77b42dbf4277e70f45ade7fae87f11aad62712eea474a2d1bf5cf93debb90f12a5348e9c1e446f020c04381afad7aca2c295fc1841f98ec646458c5a456b5d2c3c3c234faaf4d3dea84069a06fc2b4e4bef8122440d8c79369ce949de18459a78e617f7ecd3fb4280bca4f3aea25b01a8feb1f308761c4ee99f466bbe032ef24c2d87fb6185c4bdbd961 := by decide

theorem c4kb_r4p : keccakRhoPi keccak_rotc 0x15b9bed85e885a16ff9ed9c4bd3b7c68a366355cc595c53ab831f7e8f1b3f28602d96f24c6bd4b8835566688c96a5b2a9ac15fc0ffb090ab92b046d6e46e77b42dbf4277e70f45ade7fae87f11aad62712eea474a2d1bf5cf93debb90f12a5348e9c1e446f020c04381afad7aca2c295fc1841f98ec646458c5a456b5d2c3c3c234faaf4d3dea84069a06fc2b4e4bef8122440d8c79369ce949de18459a78e617f7ecd3fb4280bca4f3aea25b01a8feb1f308761c4ee99f466bbe032ef24c2d87fb6185c4bdbd961 = 0xe0c7dfa3c6cfca1a55ac4fcff5d0fe2368dfae0977523a512011a7d57a69ef5407cc21d8713ba67d68ff9ed9c4bd3b7c236b72373bda49586beb5eb28b0a54e09a78e61949de1845fda1405e53fbf669bc931af52e200b65566688c96a5b2a35721e254a69f27bd7681bf0ad392fbe1acd77c065de4985b0ab98b2b8a7546cc6e8b5a5b7e84efce1e0c20fcc7632322f3c8c5a456b5d2c3c5b01a8feb4f3aea26fb617a21685856ef81ff6121573582b10602474e0f22378103631e4da7384897fb6185c4bdbd961 := by decide

theorem c4kb_r4c : keccakChi 0xe0c7dfa3c6cfca1a55ac4fcff5d0fe2368dfae0977523a512011a7d57a69ef5407cc21d8713ba67d68ff9ed9c4bd3b7c236b72373bda49586beb5eb28b0a54e09a78e61949de1845fda1405e53fbf669bc931af52e200b65566688c96a5b2a35721e254a69f27bd7681bf0ad392fbe1acd77c065de4985b0ab98b2b8a7546cc6e8b5a5b7e84efce1e0c20fcc7632322f3c8c5a456b5d2c3c5b01a8feb4f3aea26fb617a21685856ef81ff6121573582b10602474e0f22378103631e4da7384897fb6185c4bdbd961 = 0xc0d659a6cc8f831a52a46f97c4e0da46c89c3e29755d3a493531e613fae92b764f0229d07429b67c6aa738d8ccb93378b66b323128988d59237fd27a4f2f66c49a78c61c790e115d9c2258fcd1fbb2c99c9b2a7d0f06316f170248c9ba12aea5da8f377e6dd27a976c7b782c3b26be3adf73c5279e99c4758f14e0b9ec586cdab8b4adf1f8ed7ec1e3ca1dc47122322934b9fa76e311e0fc9b43ad76a0d1bca16fb6360286a581e6e81ffe4e5c29002a17c025d4e276a63cf829e3e6cf72dc8a7ff61c4c6b5bfa11 := by decide

theorem c4kb_r4 : keccakRound keccak_rotc 0x30415e9085f31a9f80e5edddac5550bedc7dac58e491e25500f9b3a43c788e5425832cc07f34c66310ae86c012111ba3e5ba6bd9eedebc7dedabdfd2c56a50db9577063b2ac4397fc0a0ab9ba8235bcc3716443c79aaffd58646dfa01e7c89e2f18787404e062b6b80d2be9b6169be47db42021d374fcbaea9a2a52386577cb55c349eedc2b0849616bbf6c695e09997aaec04940a58151cb3c7a260e02e038a5a862d776f534b433041de3ca174a33d602b1e65e5eabe9bde73a47e22efbe0a58ec5bb8f252548a 4 = 0xc0d659a6cc8f831a52a46f97c4e0da46c89c3e29755d3a493531e613fae92b764f0229d07429b67c6aa738d8ccb93378b66b323128988d59237fd27a4f2f66c49a78c61c790e115d9c2258fcd1fbb2c99c9b2a7d0f06316f170248c9ba12aea5da8f377e6dd27a976c7b782c3b26be3adf73c5279e99c4758f14e0b9ec586cdab8b4adf1f8ed7ec1e3ca1dc47122322934b9fa76e311e0fc9b43ad76a0d1bca16fb6360286a581e6e81ffe4e5c29002a17c025d4e276a63cf829e3e6cf72dc8a7ff61c4c6b5b7a9a := by

  simp only [keccakRound, c4kb_r4t, c4kb_r4p, c4kb_r4c]

  decide

theorem c4kb_r5t : keccakTheta 0xc0d659a6cc8f831a52a46f97c4e0da46c89c3e29755d3a493531e613fae92b764f0229d07429b67c6aa738d8ccb93378b66b323128988d59237fd27a4f2f66c49a78c61c790e115d9c2258fcd1fbb2c99c9b2a7d0f06316f170248c9ba12aea5da8f377e6dd27a976c7b782c3b26be3adf73c5279e99c4758f14e0b9ec586cdab8b4adf1f8ed7ec1e3ca1dc47122322934b9fa76e311e0fc9b43ad76a0d1bca16fb6360286a581e6e81ffe4e5c29002a17c025d4e276a63cf829e3e6cf72dc8a7ff61c4c6b5b7a9a = 0xb27c1515dfa309bc3b53b7dacb8eb02a81f2f23b04a28c8d571a255983c14992860e370f38a1aa83180d746bdf95b9dedf9cea7c27f6e7356a111e683ed0d000f8530556002673b9552e46239d73ae36ee3166ce1c2abbc97ef59084b57cc4c993e1fb6c1c2dcc530e50bb66420edcde167fdbf8d211d88afdbeac0aff74e67cd14375bcf78314adaaa4d1d600dd84ed5692393c9a398218524fb3a9ec59a05e1d1c7ab195890b4081e8260353476a465eaee9c6938910f89a0220acb65abe6eb6fa029327d36665 := by decide

theorem c4kb_r5p : keccakRhoPi keccak_rotc 0xb27c1515dfa309bc3b53b7dacb8eb02a81f2f23b04a28c8d571a255983c14992860e370f38a1aa83180d746bdf95b9dedf9cea7c27f6e7356a111e683ed0d000f8530556002673b9552e46239d73ae36ee3166ce1c2abbc97ef59084b57cc4c993e1fb6c1c2dcc530e50bb66420edcde167fdbf8d211d88afdbeac0aff74e67cd14375bcf78314adaaa4d1d600dd84ed5692393c9a398218524fb3a9ec59a05e1d1c7ab195890b4081e8260353476a465eaee9c6938910f89a0220acb65abe6eb6fa029327d36665 = 0x5c6895660f052649e75c6caa5c8c473a155de4f718b3670e56e8a1bade7bc18a17abba71a4e2443e2a3b53b7dacb8eb08f341f686800350842ed99083b737839c59a05e524fb3a9e8cac485a00e8e3d5dc3ce286aa0e18380d746bdf95b9de18096af98992fdeb21a934758037613b6a340441596cb57cdd4760945191b03e5ece773f0a60aac004b3fedfc6908ec4507cfdbeac0aff74e6353476a4681e8260054577e8c26f2c9f4f84fedce6bbf39d6e629c9f0fdb60e18e4f268e608615a4b6fa029327d36665 := by decide

theorem c4kb_r5c : keccakChi 0x5c6895660f052649e75c6caa5c8c473a155de4f718b3670e56e8a1bade7bc18a17abba71a4e2443e2a3b53b7dacb8eb08f341f686800350842ed99083b737839c59a05e524fb3a9e8cac485a00e8e3d5dc3ce286aa0e18380d746bdf95b9de18096af98992fdeb21a934758037613b6a340441596cb57cdd4760945191b03e5ece773f0a60aac004b3fedfc6908ec4507cfdbeac0aff74e6353476a4681e8260054577e8c26f2c9f4f84fedce6bbf39d6e629c9f0fdb60e18e4f268e608615a4b6fa029327d36665 = 0x1c2894ec551ca7c9e4df46bbfc6e070c0d7d75b31bb2474fb4e8a9b29a77c1ba16befe34a462623a6b295612fed896ba0bb017206820544d62e6d99fa9b8f289488a038564fb3f9e8ec9d0521be8a3f4550cd606b94e1b1a2d746a86d108baddd9627989b8fbeb01ad2077d632612f72344ec950ec29bcdc0fa91c5993514ad8fe635dae08a44024b2fe5f97019efa0a30fc9ea46adf74e2b63637e6f81e02700d4053e4826b3d1ffd3efecfc32bb1fd6e239dbf0f9f6ce38fcb44ce80a686b8d6da9a82288a0624 := by decide

theorem c4kb_r5 : keccakRound keccak_rotc 0xc0d659a6cc8f831a52a46f97c4e0da46c89c3e29755d3a493531e613fae92b764f0229d07429b67c6aa738d8ccb93378b66b323128988d59237fd27a4f2f66c49a78c61c790e115d9c2258fcd1fbb2c99c9b2a7d0f06316f170248c9ba12aea5da8f377e6dd27a976c7b782c3b26be3adf73c5279e99c4758f14e0b9ec586cdab8b4adf1f8ed7ec1e3ca1dc47122322934b9fa76e311e0fc9b43ad76a0d1bca16fb6360286a581e6e81ffe4e5c29002a17c025d4e276a63cf829e3e6cf72dc8a7ff61c4c6b5b7a9a 5 = 0x1c2894ec551ca7c9e4df46bbfc6e070c0d7d75b31bb2474fb4e8a9b29a77c1ba16befe34a462623a6b295612fed896ba0bb017206820544d62e6d99fa9b8f289488a038564fb3f9e8ec9d0521be8a3f4550cd606b94e1b1a2d746a86d108baddd9627989b8fbeb01ad2077d632612f72344ec950ec29bcdc0fa91c5993514ad8fe635dae08a44024b2fe5f97019efa0a30fc9ea46adf74e2b63637e6f81e02700d4053e4826b3d1ffd3efecfc32bb1fd6e239dbf0f9f6ce38fcb44ce80a686b8d6da9a82a88a0625 := by

  simp only [keccakRound, c4kb_r5t, c4kb_r5p, c4kb_r5c]

  decide

theorem c4kb_r6t : keccakTheta 0x1c2894ec551ca7c9e4df46bbfc6e070c0d7d75b31bb2474fb4e8a9b29a77c1ba16befe34a462623a6b295612fed896ba0bb017206820544d62e6d99fa9b8f289488a038564fb3f9e8ec9d0521be8a3f4550cd606b94e1b1a2d746a86d108baddd9627989b8fbeb01ad2077d632612f72344ec950ec29bcdc0fa91c5993514ad8fe635dae08a44024b2fe5f97019efa0a30fc9ea46adf74e2b63637e6f81e02700d4053e4826b3d1ffd3efecfc32bb1fd6e239dbf0f9f6ce38fcb44ce80a686b8d6da9a82a88a0625 = 0x44c49834ddbb4d03cf33e7bcfffe747e618542c120b454c8ac75ccfa90a128a1eab0aa67eafa798d33c55aca767f7c70205cb6276bb0273f0e1eeeed92bee10e501766cd6e2dd68572c784015570b8430de0dade31e9f1d00698cb81d298c9afb59a4efb83fdf886b5bd129e38b7c669c8409d03a2b1a76b574510811bf6a012d58ffca90b343356de0668e53a98e98d2861fbec60099df94a3863b5b68619c755ac5f3c0accd7d5d6d25fc8c0bbc28f02dbaacd34997f64975621868a706fa32ad4ced1e6121d92 := by decide

theorem c4kb_r6p : keccakRhoPi keccak_rotc 0x44c49834ddbb4d03cf33e7bcfffe747e618542c120b454c8ac75ccfa90a128a1eab0aa67eafa798d33c55aca767f7c70205cb6276bb0273f0e1eeeed92bee10e501766cd6e2dd68572c784015570b8430de0dade31e9f1d00698cb81d298c9afb59a4efb83fdf886b5bd129e38b7c669c8409d03a2b1a76b574510811bf6a012d58ffca90b343356de0668e53a98e98d2861fbec60099df94a3863b5b68619c755ac5f3c0accd7d5d6d25fc8c0bbc28f02dbaacd34997f64975621868a706fa32ad4ced1e6121d92 = 0xb1d733ea4284a286e17086e58f0802aaf4f8e806f06d6f18ab6ac7fe54859a1900b6eab34d265fd97ecf33e7bcfffe747776c95f7087070ff44a78e2df19a6d668619c74a3863b5be05666beaaad62f9a99fabe9e637aac2c55aca767f7c703303a531935e0d3197819a394ea63a63772eac430d14e0df475824168a990c30a8bad0aa02ecd9adc54204e81d158d3b5e12574510811bf6a08c0bbc28fd6d25fc260d376ed340d131c4ed7604e7e40b96efc435acd277dc1f7efb1802677e4a182ad4ced1e6121d92 := by decide

theorem c4kb_r6c : keccakChi 0xb1d733ea4284a286e17086e58f0802aaf4f8e806f06d6f18ab6ac7fe54859a1900b6eab34d265fd97ecf33e7bcfffe747776c95f7087070ff44a78e2df19a6d668619c74a3863b5be05666beaaad62f9a99fabe9e637aac2c55aca767f7c703303a531935e0d3197819a394ea63a63772eac430d14e0df475824168a990c30a8bad0aa02ecd9adc54204e81d158d3b5e12574510811bf6a08c0bbc28fd6d25fc260d376ed340d131c4ed7604e7e40b96efc435acd277dc1f7efb1802677e4a182ad4ced1e6121d92 = 0x1a9f36a652052286e1504ef4822a5ff3e47fd90cb0e9cf1caa6ac11f5b859abb5426c2b3ed4e3ad976eeaba7bdfde776f7668d4772870786fcc34a4253615ea66b551d6983003a52745c063cf6b4e67d288d93ab442d8af2c37a8a726fbc25362b20101ade0ebb5745c0f32a874a23572c89439c4ce5cfc74a70579a991ee2a83edb022288b8a8910220fc9504892b76aa874712694b7221cc0b1425e9e92ca27226276cd22c9339cc3dbe95c3f60714cdc434c6c2770c3e7ed25a0242fe4998abd0eb7d76138995 := by decide

theorem c4kb_r6 : keccakRound keccak_rotc 0x1c2894ec551ca7c9e4df46bbfc6e070c0d7d75b31bb2474fb4e8a9b29a77c1ba16befe34a462623a6b295612fed896ba0bb017206820544d62e6d99fa9b8f289488a038564fb3f9e8ec9d0521be8a3f4550cd606b94e1b1a2d746a86d108baddd9627989b8fbeb01ad2077d632612f72344ec950ec29bcdc0fa91c5993514ad8fe635dae08a44024b2fe5f97019efa0a30fc9ea46adf74e2b63637e6f81e02700d4053e4826b3d1ffd3efecfc32bb1fd6e239dbf0f9f6ce38fcb44ce80a686b8d6da9a82a88a0625 6 = 0x1a9f36a652052286e1504ef4822a5ff3e47fd90cb0e9cf1caa6ac11f5b859abb5426c2b3ed4e3ad976eeaba7bdfde776f7668d4772870786fcc34a4253615ea66b551d6983003a52745c063cf6b4e67d288d93ab442d8af2c37a8a726fbc25362b20101ade0ebb5745c0f32a874a23572c89439c4ce5cfc74a70579a991ee2a83edb022288b8a8910220fc9504892b76aa874712694b7221cc0b1425e9e92ca27226276cd22c9339cc3dbe95c3f60714cdc434c6c2770c3e7ed25a0242fe49982bd0eb7df6130914 := by

  simp only [keccakRound, c4kb_r6t, c4kb_r6p, c4kb_r6c]

  decide

theorem c4kb_r7t : keccakTheta 0x1a9f36a652052286e1504ef4822a5ff3e47fd90cb0e9cf1caa6ac11f5b859abb5426c2b3ed4e3ad976eeaba7bdfde776f7668d4772870786fcc34a4253615ea66b551d6983003a52745c063cf6b4e67d288d93ab442d8af2c37a8a726fbc25362b20101ade0ebb5745c0f32a874a23572c89439c4ce5cfc74a70579a991ee2a83edb022288b8a8910220fc9504892b76aa874712694b7221cc0b1425e9e92ca27226276cd22c9339cc3dbe95c3f60714cdc434c6c2770c3e7ed25a0242fe49982bd0eb7df6130914 = 0xeb65334617909debe47cf94ab89c2f70fb8001ad6c2cd297b9b22f5be590b72589d8d877e55c74448714ae47f868581bf24a3af948317705e33c92e38fa4432d788df32d3d1517cca9a21cf8fea6a8e0d977964b01b8359fc6563dcc550a55b534dfc8bb02cba6dc56181d6e395f0ec9f177595844f7815abb8a527adc8b5dc53bf7b59cb20ed8121ddf2434d84c36fdb95fa956d75e5fbf11f50ee1e1fb623f83dc228c97b92c54c911092bf9407797d23bec671eb211b56d0ab446fceb6406f62ef1b9fe014789 := by decide

theorem c4kb_r7p : keccakRhoPi keccak_rotc 0xeb65334617909debe47cf94ab89c2f70fb8001ad6c2cd297b9b22f5be590b72589d8d877e55c74448714ae47f868581bf24a3af948317705e33c92e38fa4432d788df32d3d1517cca9a21cf8fea6a8e0d977964b01b8359fc6563dcc550a55b534dfc8bb02cba6dc56181d6e395f0ec9f177595844f7815abb8a527adc8b5dc53bf7b59cb20ed8121ddf2434d84c36fdb95fa956d75e5fbf11f50ee1e1fb623f83dc228c97b92c54c911092bf9407797d23bec671eb211b56d0ab446fceb6406f62ef1b9fe014789 = 0xe6c8bd6f9642dc964d51c1534439f1fddc1acfecbbcb2580091dfbdace59076c748efb19c7ac846d70e47cf94ab89c2f4971c7d22196f19e6075b8e57c3b25581fb623f11f50ee1e64bdc962a41ee11461df9571d112276314ae47f868581b8798aa14ab6b8cac7b77c90d36130dbf47da15688df9d6c80c35ad859a52ff7000a2f98f11be65a7a28bbacac227bc0ad7c5bb8a527adc8b5dbf9407797c9110924cd185e4277afad95f29062ee0be49475d36e1a6fe45d816ea55b5d797efee57f62ef1b9fe014789 := by decide

theorem c4kb_r7c : keccakChi 0xe6c8bd6f9642dc964d51c1534439f1fddc1acfecbbcb2580091dfbdace59076c748efb19c7ac846d70e47cf94ab89c2f4971c7d22196f19e6075b8e57c3b25581fb623f11f50ee1e64bdc962a41ee11461df9571d112276314ae47f868581b8798aa14ab6b8cac7b77c90d36130dbf47da15688df9d6c80c35ad859a52ff7000a2f98f11be65a7a28bbacac227bc0ad7c5bb8a527adc8b5dbf9407797c9110924cd185e4277afad95f29062ee0be49475d36e1a6fe45d816ea55b5d797efee57f62ef1b9fe014789 = 0xefd9bdad9e13df965d5783430595f1947e92f3c029892982085cfbc98a69d711a08cff3df62ea4ed6be65e6851f892254d6846d08590908e50f180cc3613297916b664e31ed43e9804fc5166c435e05444179043d31b10208eae2f74409cd38bf9fb84aafa8e881b73cd4e66135dacc3523778049156c83475860d9850b3fb4d28e98d709265a7309ebeca4867265ad7e5fa8f43e29d2e7db59447f979b11010448081a22694528fed07763738bf4c475de66066f9056a8ee85cb3df9755ef16e30cb19996015789 := by decide

theorem c4kb_r7 : keccakRound keccak_rotc 0x1a9f36a652052286e1504ef4822a5ff3e47fd90cb0e9cf1caa6ac11f5b859abb5426c2b3ed4e3ad976eeaba7bdfde776f7668d4772870786fcc34a4253615ea66b551d6983003a52745c063cf6b4e67d288d93ab442d8af2c37a8a726fbc25362b20101ade0ebb5745c0f32a874a23572c89439c4ce5cfc74a70579a991ee2a83edb022288b8a8910220fc9504892b76aa874712694b7221cc0b1425e9e92ca27226276cd22c9339cc3dbe95c3f60714cdc434c6c2770c3e7ed25a0242fe49982bd0eb7df6130914 7 = 0xefd9bdad9e13df965d5783430595f1947e92f3c029892982085cfbc98a69d711a08cff3df62ea4ed6be65e6851f892254d6846d08590908e50f180cc3613297916b664e31ed43e9804fc5166c435e05444179043d31b10208eae2f74409cd38bf9fb84aafa8e881b73cd4e66135dacc3523778049156c83475860d9850b3fb4d28e98d709265a7309ebeca4867265ad7e5fa8f43e29d2e7db59447f979b11010448081a22694528fed07763738bf4c475de66066f9056a8ee85cb3df9755ef16630cb1999601d780 := by

  simp only [keccakRound, c4kb_r7t, c4kb_r7p, c4kb_r7c]

  decide

theorem c4kb_r8t : keccakTheta 0xefd9bdad9e13df965d5783430595f1947e92f3c029892982085cfbc98a69d711a08cff3df62ea4ed6be65e6851f892254d6846d08590908e50f180cc3613297916b664e31ed43e9804fc5166c435e05444179043d31b10208eae2f74409cd38bf9fb84aafa8e881b73cd4e66135dacc3523778049156c83475860d9850b3fb4d28e98d709265a7309ebeca4867265ad7e5fa8f43e29d2e7db59447f979b11010448081a22694528fed07763738bf4c475de66066f9056a8ee85cb3df9755ef16630cb1999601d780 = 0xf518ec736daa104aabca21b3ab0da18ea8ed3d500f271e6f010360e630fbed7e90a1db2078a858fe71270fb6a2415df9bbf5e4202b08c094868e4e5c10bd1e941fe9ffcca44604f734d1757b4ab31c475ed6c19d20a2dffc78338d84ee0483912f844a3adc20bff67a92d549a9cf96ac621a5c191fd034276f475c46a30a3491de742f803cfdf72a48c104d841886d3aeca5146c580f141285b963e4f737ec035e41d07cd52d9d531b9ad4c796271c5d8b99aef6dfab5d63e10328f02dc7d5795321958418872b93 := by decide

theorem c4kb_r8p : keccakRhoPi keccak_rotc 0xf518ec736daa104aabca21b3ab0da18ea8ed3d500f271e6f010360e630fbed7e90a1db2078a858fe71270fb6a2415df9bbf5e4202b08c094868e4e5c10bd1e941fe9ffcca44604f734d1757b4ab31c475ed6c19d20a2dffc78338d84ee0483912f844a3adc20bff67a92d549a9cf96ac621a5c191fd034276f475c46a30a3491de742f803cfdf72a48c104d841886d3aeca5146c580f141285b963e4f737ec035e41d07cd52d9d531b9ad4c796271c5d8b99aef6dfab5d63e10328f02dc7d5795321958418872b93 = 0x40d8398c3efb5f866388e69a2eaf695516ffe2f6b60ce90956f3a17c01e7efbe2e66bbdb7ead7588eabca21b3ab0da1272e085e8f4a43474b5526a73e5ab1ea737ec0385b963e4fe6a96cea9af20e836c81e2a163fa4287270fb6a2415df97109dc090722f0671b30413610621b4e92c20651e05b8faaf3aa01e4e3cdf51da7c09ee3fd3ff9948810d2e0c8fe81a13b916f475c46a30a34796271c5d1b9ad4c3b1cdb6a8412bd468405611812977ebc05ffb17c2251d6e1451b1603c504bb295321958418872b93 := by decide

theorem c4kb_r8c : keccakChi 0x40d8398c3efb5f866388e69a2eaf695516ffe2f6b60ce90956f3a17c01e7efbe2e66bbdb7ead7588eabca21b3ab0da1272e085e8f4a43474b5526a73e5ab1ea737ec0385b963e4fe6a96cea9af20e836c81e2a163fa4287270fb6a2415df97109dc090722f0671b30413610621b4e92c20651e05b8faaf3aa01e4e3cdf51da7c09ee3fd3ff9948810d2e0c8fe81a13b916f475c46a30a34796271c5d1b9ad4c3b1cdb6a8412bd468405611812977ebc05ffb17c2251d6e1451b1603c504bb295321958418872b93 = 0x1104939a83fb9d5b84dae64c96eab495516affbf2a65cff8b37f3a5740944efea2e6af959c8a57589ffd4a31f2af3ded472e2c94871a4145c3d4e4860efbbd4a5754c860da967c4aeea84a6dbeba8f235cc0c4b143ea0687a509a7e259585101415c49060052659d164280b02316d6f2cb9a58e75b6f8bfa2a0ce2fbcbf71f9791fcf2f92ff134c03ad3e4ca3e85a81c5163446947db1eb479f2d14569b90c473f06d96941122d6ec424659c0a127c2d3ee72b1ea65157a3c51b5603d582933553c534f83ad66f53 := by decide

theorem c4kb_r8 : keccakRound keccak_rotc 0xefd9bdad9e13df965d5783430595f1947e92f3c029892982085cfbc98a69d711a08cff3df62ea4ed6be65e6851f892254d6846d08590908e50f180cc3613297916b664e31ed43e9804fc5166c435e05444179043d31b10208eae2f74409cd38bf9fb84aafa8e881b73cd4e66135dacc3523778049156c83475860d9850b3fb4d28e98d709265a7309ebeca4867265ad7e5fa8f43e29d2e7db59447f979b11010448081a22694528fed07763738bf4c475de66066f9056a8ee85cb3df9755ef16630cb1999601d780 8 = 0x1104939a83fb9d5b84dae64c96eab495516affbf2a65cff8b37f3a5740944efea2e6af959c8a57589ffd4a31f2af3ded472e2c94871a4145c3d4e4860efbbd4a5754c860da967c4aeea84a6dbeba8f235cc0c4b143ea0687a509a7e259585101415c49060052659d164280b02316d6f2cb9a58e75b6f8bfa2a0ce2fbcbf71f9791fcf2f92ff134c03ad3e4ca3e85a81c5163446947db1eb479f2d14569b90c473f06d96941122d6ec424659c0a127c2d3ee72b1ea65157a3c51b5603d582933553c534f83ad66fd9 := by

  simp only [keccakRound, c4kb_r8t, c4kb_r8p, c4kb_r8c]

  decide

theorem c4kb_r9t : keccakTheta 0x1104939a83fb9d5b84dae64c96eab495516affbf2a65cff8b37f3a5740944efea2e6af959c8a57589ffd4a31f2af3ded472e2c94871a4145c3d4e4860efbbd4a5754c860da967c4aeea84a6dbeba8f235cc0c4b143ea0687a509a7e259585101415c49060052659d164280b02316d6f2cb9a58e75b6f8bfa2a0ce2fbcbf71f9791fcf2f92ff134c03ad3e4ca3e85a81c5163446947db1eb479f2d14569b90c473f06d96941122d6ec424659c0a127c2d3ee72b1ea65157a3c51b5603d582933553c534f83ad66fd9 = 0x79e7d881bad01158dd6a36b65a45759451306becdbbf7e47b13159221295afc0a9f748c7724b101ef71e012acb84b1ee1e9efc6e4bb58044c38e70d5ff210cf5551aab1588979d74e5b9ad3f507bc86534238faa7ac18a84fcb9771895f790004106dd55f188d422140ce3c5711737ccc08bbfb5b5aeccbc42efa9e0f2dc9394c84c2203e35ef5c13a897099cf5f19a3532d271c15daff8a72e3361787784b0157e592727839a16d9d94b566c6bdbd2c3ebdbf4d578be61cc75535768783720b58d4d3aad417289f := by decide

theorem c4kb_r9p : keccakRhoPi keccak_rotc 0x79e7d881bad01158dd6a36b65a45759451306becdbbf7e47b13159221295afc0a9f748c7724b101ef71e012acb84b1ee1e9efc6e4bb58044c38e70d5ff210cf5551aab1588979d74e5b9ad3f507bc86534238faa7ac18a84fcb9771895f790004106dd55f188d422140ce3c5711737ccc08bbfb5b5aeccbc42efa9e0f2dc9394c84c2203e35ef5c13a897099cf5f19a3532d271c15daff8a72e3361787784b0157e592727839a16d9d94b566c6bdbd2c3ebdbf4d578be61cc75535768783720b58d4d3aad417289f = 0xc4c564884a56bf02f790cbcb735a7ea060c5421a11c7d53de0e4261101f1af7a0faf6fd355e2f98794dd6a36b65a4575386aff90867ae1c7338f15c45cdf30507784b0172e33617893c1cd0b6abf2c93231dc92c407aa7dd1e012acb84b1eef7312bef2001f972eea25c2673d7c668ce8eaa6aed0f06e4177d9b77efc8ea260df3ae8aa35562b112045dfdadad7665e69442efa9e0f2dc936c6bdbd2c9d94b56f6206eb404561e798dc976b00883d3df46a1120836eaaf8c49c70576bfe294cb58d4d3aad417289f := by decide

theorem c4kb_r9c : keccakChi 0xc4c564884a56bf02f790cbcb735a7ea060c5421a11c7d53de0e4261101f1af7a0faf6fd355e2f98794dd6a36b65a4575386aff90867ae1c7338f15c45cdf30507784b0172e33617893c1cd0b6abf2c93231dc92c407aa7dd1e012acb84b1eef7312bef2001f972eea25c2673d7c668ce8eaa6aed0f06e4177d9b77efc8ea260df3ae8aa35562b112045dfdadad7665e69442efa9e0f2dc936c6bdbd2c9d94b56f6206eb404561e798dc976b00883d3df46a1120836eaaf8c49c70576bfe294cb58d4d3aad417289f = 0x248564884a47b97afcbac09866fa3e256080661a19c3543f77f4afd063e985fa0fae2fd945e4a982f0d95a22b25a041d3b6a7a99cedfc945b71a15e26cdf34607fe45a07ac13a0ff93cac8cb3a733c930349cd3e90baaf1592a3080a8bb5aef510372e0441b373e6ac5c26b853c6e4df9f89a3ed0f3ff637ed9b53c6e8c8b28cf3ce02b35473f840084c88e125fe63eb67e0edabb0f24c836c76cbd6c4dd6a32f7236ae02fb68a39851de7bad882f35934811a0c32bea3acc08f61c6b7e3c4985ef4c1a2d41f039b := by decide

theorem c4kb_r9 : keccakRound keccak_rotc 0x1104939a83fb9d5b84dae64c96eab495516affbf2a65cff8b37f3a5740944efea2e6af959c8a57589ffd4a31f2af3ded472e2c94871a4145c3d4e4860efbbd4a5754c860da967c4aeea84a6dbeba8f235cc0c4b143ea0687a509a7e259585101415c49060052659d164280b02316d6f2cb9a58e75b6f8bfa2a0ce2fbcbf71f9791fcf2f92ff134c03ad3e4ca3e85a81c5163446947db1eb479f2d14569b90c473f06d96941122d6ec424659c0a127c2d3ee72b1ea65157a3c51b5603d582933553c534f83ad66fd9 9 = 0x248564884a47b97afcbac09866fa3e256080661a19c3543f77f4afd063e985fa0fae2fd945e4a982f0d95a22b25a041d3b6a7a99cedfc945b71a15e26cdf34607fe45a07ac13a0ff93cac8cb3a733c930349cd3e90baaf1592a3080a8bb5aef510372e0441b373e6ac5c26b853c6e4df9f89a3ed0f3ff637ed9b53c6e8c8b28cf3ce02b35473f840084c88e125fe63eb67e0edabb0f24c836c76cbd6c4dd6a32f7236ae02fb68a39851de7bad882f35934811a0c32bea3acc08f61c6b7e3c4985ef4c1a2d41f0313 := by

  simp only [keccakRound, c4kb_r9t, c4kb_r9p, c4kb_r9c]

  decide

theorem c4kb_r10t : keccakTheta 0x248564884a47b97afcbac09866fa3e256080661a19c3543f77f4afd063e985fa0fae2fd945e4a982f0d95a22b25a041d3b6a7a99cedfc945b71a15e26cdf34607fe45a07ac13a0ff93cac8cb3a733c930349cd3e90baaf1592a3080a8bb5aef510372e0441b373e6ac5c26b853c6e4df9f89a3ed0f3ff637ed9b53c6e8c8b28cf3ce02b35473f840084c88e125fe63eb67e0edabb0f24c836c76cbd6c4dd6a32f7236ae02fb68a39851de7bad882f35934811a0c32bea3acc08f61c6b7e3c4985ef4c1a2d41f0313 = 0x65fbae9c25f2fff89c819aec1aa7b85424e3971ddc2cb8e6b05a7f79445c2800c4455b6edc6710c7b1a79036ddef429f5b5120edb2824f34f379e4e5a930d8b9b84a8aae8ba60d055821bc7ca3f085d64237072aff0fe997f298527ef7e828845454df03845c9f3f6bf2f611747349255462d75a96bc4f72ace599d2877df40e93f558c7282e7e314c2f79e6e0118f32a04e3d029747e179a79dbf615d5ed377b65da0f44003ccbbe526bdcea4df752870e2eb0bf7514f750721b16f90566962951fb5154d9cba56 := by decide

theorem c4kb_r10p : keccakRhoPi keccak_rotc 0x65fbae9c25f2fff89c819aec1aa7b85424e3971ddc2cb8e6b05a7f79445c2800c4455b6edc6710c7b1a79036ddef429f5b5120edb2824f34f379e4e5a930d8b9b84a8aae8ba60d055821bc7ca3f085d64237072aff0fe997f298527ef7e828845454df03845c9f3f6bf2f611747349255462d75a96bc4f72ace599d2877df40e93f558c7282e7e314c2f79e6e0118f32a04e3d029747e179a79dbf615d5ed377b65da0f44003ccbbe526bdcea4df752870e2eb0bf7514f750721b16f90566962951fb5154d9cba56 = 0xc169fde51170a002e10bacb04378f94787f4cba11b83957f18c9faac6394173f5c38bac2fdd453dd549c819aec1aa7b8f272d4986c5cf9bccbd845d1cd2495afd5ed377a79dbf615a2001e65ddb2ed076dbb719c431f1115a79036ddef429fb1fdefd05109e530a40bde79b80463cc930e4362df20acd2c4e3bb85971cc49c72c1a0b7095155d174a316bad4b5e27b920eace599d2877df4ea4df7528e526bdceba7097cbffe197e1db65049e68b6a24e4f9faa2a6f81c228f40a5d1f85e6813951fb5154d9cba56 := by decide

theorem c4kb_r10c : keccakChi 0xc169fde51170a002e10bacb04378f94787f4cba11b83957f18c9faac6394173f5c38bac2fdd453dd549c819aec1aa7b8f272d4986c5cf9bccbd845d1cd2495afd5ed377a79dbf615a2001e65ddb2ed076dbb719c431f1115a79036ddef429fb1fdefd05109e530a40bde79b80463cc930e4362df20acd2c4e3bb85971cc49c72c1a0b7095155d174a316bad4b5e27b920eace599d2877df4ea4df7528e526bdceba7097cbffe197e1db65049e68b6a24e4f9faa2a6f81c228f40a5d1f85e6813951fb5154d9cba56 = 0xc1a8bdc91370a420fd1baeb2affcaa9a87949ae40b83957f78c2debc23ec7f3fdb0cbbc3e5d7d39d0171a080cc53b5a85072cafd7dfcb1bbcf5444d34d2693afe5cfa77259839e05a8105ee45996ecad6c2768bc475c1d06a5d0349ecfe25d71b5c4915109f830a009ce5f34e2614382fa62e29e2928e2e0e71b851e4c418852c9e4c549d347b2f8810dba42b96277904e0ce0909292fd904b5fed16ab3269dee1e709bc0fbc597f09aee448a68bc82406f8f396bf8c0d789646a598b85d0a17f5a6ef374b3cae76 := by decide

theorem c4kb_r10 : keccakRound keccak_rotc 0x248564884a47b97afcbac09866fa3e256080661a19c3543f77f4afd063e985fa0fae2fd945e4a982f0d95a22b25a041d3b6a7a99cedfc945b71a15e26cdf34607fe45a07ac13a0ff93cac8cb3a733c930349cd3e90baaf1592a3080a8bb5aef510372e0441b373e6ac5c26b853c6e4df9f89a3ed0f3ff637ed9b53c6e8c8b28cf3ce02b35473f840084c88e125fe63eb67e0edabb0f24c836c76cbd6c4dd6a32f7236ae02fb68a39851de7bad882f35934811a0c32bea3acc08f61c6b7e3c4985ef4c1a2d41f0313 10 = 0xc1a8bdc91370a420fd1baeb2affcaa9a87949ae40b83957f78c2debc23ec7f3fdb0cbbc3e5d7d39d0171a080cc53b5a85072cafd7dfcb1bbcf5444d34d2693afe5cfa77259839e05a8105ee45996ecad6c2768bc475c1d06a5d0349ecfe25d71b5c4915109f830a009ce5f34e2614382fa62e29e2928e2e0e71b851e4c418852c9e4c549d347b2f8810dba42b96277904e0ce0909292fd904b5fed16ab3269dee1e709bc0fbc597f09aee448a68bc82406f8f396bf8c0d789646a598b85d0a17f5a6ef37cb3c2e7f := by

  simp only [keccakRound, c4kb_r10t, c4kb_r10p, c4kb_r10c]

  decide

theorem c4kb_r11t : keccakTheta 0xc1a8bdc91370a420fd1baeb2affcaa9a87949ae40b83957f78c2debc23ec7f3fdb0cbbc3e5d7d39d0171a080cc53b5a85072cafd7dfcb1bbcf5444d34d2693afe5cfa77259839e05a8105ee45996ecad6c2768bc475c1d06a5d0349ecfe25d71b5c4915109f830a009ce5f34e2614382fa62e29e2928e2e0e71b851e4c418852c9e4c549d347b2f8810dba42b96277904e0ce0909292fd904b5fed16ab3269dee1e709bc0fbc597f09aee448a68bc82406f8f396bf8c0d789646a598b85d0a17f5a6ef37cb3c2e7f = 0x6655c7289191ac4ed3ef5aaf514a5d455afb1ab6691eb959baa7d64045ed7c7ee81c85715bd7a440a68cda614eb2bdc67e863ee0834a4664123bc4812fbbbf8927aaaf8e3f829d449b006056e7969b70cbda125dc5bd15688b24c0833154aaae68ab11036b651c86cbab57c8846040c3c972dc2c9728953d40e6ffffcea0803ce71031542df145275c623a10dbff5bb68c69e86cf493fed1784fd3a415321e03461a735d8d5d5111275a1055583d3ffbdb9773c4dd11215e5423ad64de5c0956c6b6d185753c59a2 := by decide

theorem c4kb_r11p : keccakRhoPi keccak_rotc 0x6655c7289191ac4ed3ef5aaf514a5d455afb1ab6691eb959baa7d64045ed7c7ee81c85715bd7a440a68cda614eb2bdc67e863ee0834a4664123bc4812fbbbf8927aaaf8e3f829d449b006056e7969b70cbda125dc5bd15688b24c0833154aaae68ab11036b651c86cbab57c8846040c3c972dc2c9728953d40e6ffffcea0803ce71031542df145275c623a10dbff5bb68c69e86cf493fed1784fd3a415321e03461a735d8d5d5111275a1055583d3ffbdb9773c4dd11215e5423ad64de5c0956c6b6d185753c59a2 = 0xea9f590117b5f1fa2d36e13600c0adcfde8ab465ed092ee293f38818aa16f8a2b6e5dcf13744485745d3ef5aaf514a5de24097dddfc4891dad5f221181030f2e5321e03784fd3a41ec6aea888a30d39a15c56f5e9103a0728cda614eb2bdc6a60662a9555d164981188e8436ffd6ed97a8475ac9bcb812ac56cd23d72b2b5f6353a884f555f1c7f04b96e164b944a9ee3c40e6ffffcea0805583d3ffb275a10571ca24646b139995dc106948cc8fd0c728e4334558881b5b7a1b3d24ffb4631ac6b6d185753c59a2 := by decide

theorem c4kb_r11c : keccakChi 0xea9f590117b5f1fa2d36e13600c0adcfde8ab465ed092ee293f38818aa16f8a2b6e5dcf13744485745d3ef5aaf514a5de24097dddfc4891dad5f221181030f2e5321e03784fd3a41ec6aea888a30d39a15c56f5e9103a0728cda614eb2bdc6a60662a9555d164981188e8436ffd6ed97a8475ac9bcb812ac56cd23d72b2b5f6353a884f555f1c7f04b96e164b944a9ee3c40e6ffffcea0805583d3ffb275a10571ca24646b139995dc106948cc8fd0c728e4334558881b5b7a1b3d24ffb4631ac6b6d185753c59a2 = 0xeb8d59099fa7415a395665c62080a5ca1c03ac64fa3c7ed2b2c7c90aaad679affaede894724d4e1756d2ef6dab9c621c4a68975ddfe4189fa8cc4a13a1124d6e112175fbda39ba504034e8888b32d6b4054deb68d2454d6124d871cf9e05d42a1767a7455c1469d19016c43c5d7f6bb1ae277388bcb812ac7e8d07d766a15fe352aa54ddc5a567f44fd3c266934eb1ed2c68e26ebb7fe6901615d2ffb275a86b49c30844e193bb8d5a24b8c9d8a390e5092e37617b98124bae0b752c7bb3a39ec652d3c4753441e3 := by decide

theorem c4kb_r11 : keccakRound keccak_rotc 0xc1a8bdc91370a420fd1baeb2affcaa9a87949ae40b83957f78c2debc23ec7f3fdb0cbbc3e5d7d39d0171a080cc53b5a85072cafd7dfcb1bbcf5444d34d2693afe5cfa77259839e05a8105ee45996ecad6c2768bc475c1d06a5d0349ecfe25d71b5c4915109f830a009ce5f34e2614382fa62e29e2928e2e0e71b851e4c418852c9e4c549d347b2f8810dba42b96277904e0ce0909292fd904b5fed16ab3269dee1e709bc0fbc597f09aee448a68bc82406f8f396bf8c0d789646a598b85d0a17f5a6ef37cb3c2e7f 11 = 0xeb8d59099fa7415a395665c62080a5ca1c03ac64fa3c7ed2b2c7c90aaad679affaede894724d4e1756d2ef6dab9c621c4a68975ddfe4189fa8cc4a13a1124d6e112175fbda39ba504034e8888b32d6b4054deb68d2454d6124d871cf9e05d42a1767a7455c1469d19016c43c5d7f6bb1ae277388bcb812ac7e8d07d766a15fe352aa54ddc5a567f44fd3c266934eb1ed2c68e26ebb7fe6901615d2ffb275a86b49c30844e193bb8d5a24b8c9d8a390e5092e37617b98124bae0b752c7bb3a39ec652d3c4f53441e9 := by

  simp only [keccakRound, c4kb_r11t, c4kb_r11p, c4kb_r11c]

  decide

theorem c4kb_r12t : keccakTheta 0xeb8d59099fa7415a395665c62080a5ca1c03ac64fa3c7ed2b2c7c90aaad679affaede894724d4e1756d2ef6dab9c621c4a68975ddfe4189fa8cc4a13a1124d6e112175fbda39ba504034e8888b32d6b4054deb68d2454d6124d871cf9e05d42a1767a7455c1469d19016c43c5d7f6bb1ae277388bcb812ac7e8d07d766a15fe352aa54ddc5a567f44fd3c266934eb1ed2c68e26ebb7fe6901615d2ffb275a86b49c30844e193bb8d5a24b8c9d8a390e5092e37617b98124bae0b752c7bb3a39ec652d3c4f53441e9 = 0x3d97d317e6cc182fc2bb74cd0df5489213409d6befafaf4ebcd5d3ce7789e9b516966514c9b81edf80c86573d2f73b69b1858656f291f5c7a78f7b1cb4819cf21f336f3f07662a4aac4f650830c7867cd3576176ab2e1414df3560c4b37039721824964a4987b84d9e04def88020fbab425cfe08074d4264a8978dc91fca0696a94745d6e8d08aac4090f36986dd6071227af8aa6620768afa6e5f7f0980f8a39fd9825a98f8e2f8a1c9a9c2f5d67dbd066d066e6e0bc3d7a0196fe8a6ec33842a295e444ec11121 := by decide

theorem c4kb_r12p : keccakRhoPi keccak_rotc 0x3d97d317e6cc182fc2bb74cd0df5489213409d6befafaf4ebcd5d3ce7789e9b516966514c9b81edf80c86573d2f73b69b1858656f291f5c7a78f7b1cb4819cf21f336f3f07662a4aac4f650830c7867cd3576176ab2e1414df3560c4b37039721824964a4987b84d9e04def88020fbab425cfe08074d4264a8978dc91fca0696a94745d6e8d08aac4090f36986dd6071227af8aa6620768afa6e5f7f0980f8a39fd9825a98f8e2f8a1c9a9c2f5d67dbd066d066e6e0bc3d7a0196fe8a6ec33842a295e444ec11121 = 0xf3574f39de27a6d68f0cf9589eca1061970a0a69abb0bb555654a3a2eb746845c19b419b9b82f0f592c2bb74cd0df548bd8e5a40ce7953c7137be20083eeae78980f8a3fa6e5f7f0d4c7c717c4fecc12945326e07b7c5a59c86573d2f73b69808966e072e5be6ac1243cda61b7581c504032dfd14dd86709ad7df5f5e9c26813c54943e66de7e0ec12e7f0403a6a132296a8978dc91fca062f5d67dbda1c9a9cf4c5f9b3060bcf65cade523eb8f630b03dc268c124b2524cbe2a99881da2889e2a295e444ec11121 := by decide

theorem c4kb_r12c : keccakChi 0xf3574f39de27a6d68f0cf9589eca1061970a0a69abb0bb555654a3a2eb746845c19b419b9b82f0f592c2bb74cd0df548bd8e5a40ce7953c7137be20083eeae78980f8a3fa6e5f7f0d4c7c717c4fecc12945326e07b7c5a59c86573d2f73b69808966e072e5be6ac1243cda61b7581c504032dfd14dd86709ad7df5f5e9c26813c54943e66de7e0ec12e7f0403a6a132296a8978dc91fca062f5d67dbda1c9a9cf4c5f9b3060bcf65cade523eb8f630b03dc268c124b2524cbe2a99881da2889e2a295e444ec11121 = 0xe513ed19be53aed68f84f9da9f4a4040e7590c48eb951dc35e5052b2ff3e6865409149d29b0263e59acab35cef0cc6a8f98b1e43ce8b5bd5113b433482ea0a70348b927feaf4a677d7b7a717c5f4c41ab05f26c0c97c42098845aac3f3bb4c809d74e452edfa7898643dc9e1a5591d50c970ffc30d7e05883ddd65f1e8c12811c74941ec7ffb72603ad34451ba6a1b3153a0942b8c9a2aca2f1a079be87c8bbc60c7783b172947fbc0f6547af03620b009c3c14022bb9d097c368bb685e6a82e2be93e056ed14361 := by decide

theorem c4kb_r12 : keccakRound keccak_rotc 0xeb8d59099fa7415a395665c62080a5ca1c03ac64fa3c7ed2b2c7c90aaad679affaede894724d4e1756d2ef6dab9c621c4a68975ddfe4189fa8cc4a13a1124d6e112175fbda39ba504034e8888b32d6b4054deb68d2454d6124d871cf9e05d42a1767a7455c1469d19016c43c5d7f6bb1ae277388bcb812ac7e8d07d766a15fe352aa54ddc5a567f44fd3c266934eb1ed2c68e26ebb7fe6901615d2ffb275a86b49c30844e193bb8d5a24b8c9d8a390e5092e37617b98124bae0b752c7bb3a39ec652d3c4f53441e9 12 = 0xe513ed19be53aed68f84f9da9f4a4040e7590c48eb951dc35e5052b2ff3e6865409149d29b0263e59acab35cef0cc6a8f98b1e43ce8b5bd5113b433482ea0a70348b927feaf4a677d7b7a717c5f4c41ab05f26c0c97c42098845aac3f3bb4c809d74e452edfa7898643dc9e1a5591d50c970ffc30d7e05883ddd65f1e8c12811c74941ec7ffb72603ad34451ba6a1b3153a0942b8c9a2aca2f1a079be87c8bbc60c7783b172947fbc0f6547af03620b009c3c14022bb9d097c368bb685e6a82e2be93e05eed1c3ea := by

  simp only [keccakRound, c4kb_r12t, c4kb_r12p, c4kb_r12c]

  decide

theorem c4kb_r13t : keccakTheta 0xe513ed19be53aed68f84f9da9f4a4040e7590c48eb951dc35e5052b2ff3e6865409149d29b0263e59acab35cef0cc6a8f98b1e43ce8b5bd5113b433482ea0a70348b927feaf4a677d7b7a717c5f4c41ab05f26c0c97c42098845aac3f3bb4c809d74e452edfa7898643dc9e1a5591d50c970ffc30d7e05883ddd65f1e8c12811c74941ec7ffb72603ad34451ba6a1b3153a0942b8c9a2aca2f1a079be87c8bbc60c7783b172947fbc0f6547af03620b009c3c14022bb9d097c368bb685e6a82e2be93e05eed1c3ea = 0xa9ace4e539af7f51f2ba1d7b4c88226835c3ab61091447eeb4f9265492b2506290ed01fe8f178534d675baa068f0172f84b5fae21d4939fdc3a1e41d606b505dde22e69987789e7007cbef3bd1e122cbfce02f3c4e80938ef57b4e6220792ea84fee437b0f7b22b58e94bd07c8d52557190cb7ef196be35971626c0d6f3df996ba77a54dac391048e849e37858eb411cb909e0cde11612cdff664fb7fc696d6d2c7871c790d5967cbdc8b0db23f44298db596669c03ac724969fff50e86a9029fb957629fac4253b := by decide

theorem c4kb_r13p : keccakRhoPi keccak_rotc 0xa9ace4e539af7f51f2ba1d7b4c88226835c3ab61091447eeb4f9265492b2506290ed01fe8f178534d675baa068f0172f84b5fae21d4939fdc3a1e41d606b505dde22e69987789e7007cbef3bd1e122cbfce02f3c4e80938ef57b4e6220792ea84fee437b0f7b22b58e94bd07c8d52557190cb7ef196be35971626c0d6f3df996ba77a54dac391048e849e37858eb411cb909e0cde11612cdff664fb7fc696d6d2c7871c790d5967cbdc8b0db23f44298db596669c03ac724969fff50e86a9029fb957629fac4253b = 0xd3e499524ac9418ac245960f97de77a34049c77e70179e27245d3bd2a6d61c8836d6599a700eb1c968f2ba1d7b4c8822f20eb035a82ee1d052f41f2354955e3ac696d6dff664fb7f3c86acb3e163c38e07fa3c5e14d243b475baa068f0172fd6c440f25d51eaf69c1278de163ad0473a2d3ffea1d0d520536c212288fdc6b87513ce1bc45cd330efc865bf78cb5f1ac89671626c0d6f3df9b23f44298bdc8b0d39394e6bdfd46a6b5c43a9273fb096bfd915aa7f721bd87b7833784584b36e42fb957629fac4253b := by decide

theorem c4kb_r13c : keccakChi 0xd3e499524ac9418ac245960f97de77a34049c77e70179e27245d3bd2a6d61c8836d6599a700eb1c968f2ba1d7b4c8822f20eb035a82ee1d052f41f2354955e3ac696d6dff664fb7f3c86acb3e163c38e07fa3c5e14d243b475baa068f0172fd6c440f25d51eaf69c1278de163ad0473a2d3ffea1d0d520536c212288fdc6b87513ce1bc45cd330efc865bf78cb5f1ac89671626c0d6f3df9b23f44298bdc8b0d39394e6bdfd46a6b5c43a9273fb096bfd915aa7f721bd87b7833784584b36e42fb957629fac4253b = 0xd3edbb12cc194d8ae657d687a7d8c7e251e9ce2e38169e2fa6592bd3211e7d0876d69db6200f33eeaae2e8516d48b053e60ab497280da25c5a04152b07d55618669c76cb5e4e5abf2ce6a593e1f2c78e15ba3c483ed2049c5dbf62c930120f95c600ee4b552ab6bc23c2de369ac54e78e93fdee891ff90d7686100ccf9e58c8581d05fe55ecb33e7a4449f706a5b92d885fb62e819ef1ddefa3bd93949cc890d391b462fdbe7202b9ec799271fb093aff82dec37b25fb03b7c717945891368c67a91f41388ccb502 := by decide

theorem c4kb_r13 : keccakRound keccak_rotc 0xe513ed19be53aed68f84f9da9f4a4040e7590c48eb951dc35e5052b2ff3e6865409149d29b0263e59acab35cef0cc6a8f98b1e43ce8b5bd5113b433482ea0a70348b927feaf4a677d7b7a717c5f4c41ab05f26c0c97c42098845aac3f3bb4c809d74e452edfa7898643dc9e1a5591d50c970ffc30d7e05883ddd65f1e8c12811c74941ec7ffb72603ad34451ba6a1b3153a0942b8c9a2aca2f1a079be87c8bbc60c7783b172947fbc0f6547af03620b009c3c14022bb9d097c368bb685e6a82e2be93e05eed1c3ea 13 = 0xd3edbb12cc194d8ae657d687a7d8c7e251e9ce2e38169e2fa6592bd3211e7d0876d69db6200f33eeaae2e8516d48b053e60ab497280da25c5a04152b07d55618669c76cb5e4e5abf2ce6a593e1f2c78e15ba3c483ed2049c5dbf62c930120f95c600ee4b552ab6bc23c2de369ac54e78e93fdee891ff90d7686100ccf9e58c8581d05fe55ecb33e7a4449f706a5b92d885fb62e819ef1ddefa3bd93949cc890d391b462fdbe7202b9ec799271fb093aff82dec37b25fb03b7c717945891368c6fa91f41388ccb589 := by

  simp only [keccakRound, c4kb_r13t, c4kb_r13p, c4kb_r13c]

  decide

theorem c4kb_r14t : keccakTheta 0xd3edbb12cc194d8ae657d687a7d8c7e251e9ce2e38169e2fa6592bd3211e7d0876d69db6200f33eeaae2e8516d48b053e60ab497280da25c5a04152b07d55618669c76cb5e4e5abf2ce6a593e1f2c78e15ba3c483ed2049c5dbf62c930120f95c600ee4b552ab6bc23c2de369ac54e78e93fdee891ff90d7686100ccf9e58c8581d05fe55ecb33e7a4449f706a5b92d885fb62e819ef1ddefa3bd93949cc890d391b462fdbe7202b9ec799271fb093aff82dec37b25fb03b7c717945891368c6fa91f41388ccb589 = 0xf653eac610a1378e0c4dc35f6e37305cce8fda9ab006163e36f46c27d5c69dea7e028558775c5fab8f5cb985b1f0ca570c10a14fe1e255e2c562019f8fc5de09f631313faa96ba5d2432bd7db6a1abcb30046d9ce26a7e98b7a57711f9fdf82b5966faffdd3a3eadb36f99c26e1dae9ae1ebc606c6acfc924ddf5118255df6816bca4a3d9724c4593b228bc4e24b1ac91556251ced37fd3cf2efc1d71e9fe5481ca517fb075f5a2f74dd8cffd65f6411674bf8833a4f382aecdc3eb17dcb8824f245ecfddf9fd9cc := by decide

theorem c4kb_r14p : keccakRhoPi keccak_rotc 0xf653eac610a1378e0c4dc35f6e37305cce8fda9ab006163e36f46c27d5c69dea7e028558775c5fab8f5cb985b1f0ca570c10a14fe1e255e2c562019f8fc5de09f631313faa96ba5d2432bd7db6a1abcb30046d9ce26a7e98b7a57711f9fdf82b5966faffdd3a3eadb36f99c26e1dae9ae1ebc606c6acfc924ddf5118255df6816bca4a3d9724c4593b228bc4e24b1ac91556251ced37fd3cf2efc1d71e9fe5481ca517fb075f5a2f74dd8cffd65f6411674bf8833a4f382aecdc3eb17dcb8824f245ecfddf9fd9cc = 0xdbd1b09f571a77a843579648657afb6d353f4c180236ce712cb5e5251ecb926299d2fe20ce93ce0a5c0c4dc35f6e373000cfc7e2ef04e2b1be6709b876ba6acde9fe548f2efc1d71d83afad178e528bf1561dd717eadf80a5cb985b1f0ca578f23f3fbf0576f4aeec8a2f13892c6b24ed9b87d62fb971049535600c2c7d9d1fbd74bbec62627f5520f5e30363567e497814ddf5118255df6fd65f641174dd8cffab184284de3bd9429fc3c4abc418214d1f56acb37d7fee989473b4dff4f0555f245ecfddf9fd9cc := by decide

theorem c4kb_r14c : keccakChi 0xdbd1b09f571a77a843579648657afb6d353f4c180236ce712cb5e5251ecb926299d2fe20ce93ce0a5c0c4dc35f6e373000cfc7e2ef04e2b1be6709b876ba6acde9fe548f2efc1d71d83afad178e528bf1561dd717eadf80a5cb985b1f0ca578f23f3fbf0576f4aeec8a2f13892c6b24ed9b87d62fb971049535600c2c7d9d1fbd74bbec62627f5520f5e30363567e497814ddf5118255df6fd65f641174dd8cffab184284de3bd9429fc3c4abc418214d1f56acb37d7fee989473b4dff4f0555f245ecfddf9fd9cc = 0xfff4b19a475267c84355d868edfb736fadbf6c8f1036caf16ef577657b83a36e88d8f638cea7821b7dc849cd5976227080fd75f2cf85ea3ee26701b966d07fcde97692cda7f89d41ce3bf3e128e74a3315635d697eed5a0c9421a5b371d857ce22b3a3b0594ae2ee94aaf5393246a74ffae977a2bebe58e9535e09d2cff9d4cb7b6a48c73623fd560f4a3036f4bfe43e514c51911a254cb6f377d667320f78cef3b397286da3b98529b8549f2e5dc25c03f4eaeb7675c369a14f2f4d774f0541a2f5ac7fdf0f2364 := by decide

theorem c4kb_r14 : keccakRound keccak_rotc 0xd3edbb12cc194d8ae657d687a7d8c7e251e9ce2e38169e2fa6592bd3211e7d0876d69db6200f33eeaae2e8516d48b053e60ab497280da25c5a04152b07d55618669c76cb5e4e5abf2ce6a593e1f2c78e15ba3c483ed2049c5dbf62c930120f95c600ee4b552ab6bc23c2de369ac54e78e93fdee891ff90d7686100ccf9e58c8581d05fe55ecb33e7a4449f706a5b92d885fb62e819ef1ddefa3bd93949cc890d391b462fdbe7202b9ec799271fb093aff82dec37b25fb03b7c717945891368c6fa91f41388ccb589 14 = 0xfff4b19a475267c84355d868edfb736fadbf6c8f1036caf16ef577657b83a36e88d8f638cea7821b7dc849cd5976227080fd75f2cf85ea3ee26701b966d07fcde97692cda7f89d41ce3bf3e128e74a3315635d697eed5a0c9421a5b371d857ce22b3a3b0594ae2ee94aaf5393246a74ffae977a2bebe58e9535e09d2cff9d4cb7b6a48c73623fd560f4a3036f4bfe43e514c51911a254cb6f377d667320f78cef3b397286da3b98529b8549f2e5dc25c03f4eaeb7675c369a14f2f4d774f054122f5ac7fdf0fa3ed := by

  simp only [keccakRound, c4kb_r14t, c4kb_r14p, c4kb_r14c]

  decide

theorem c4kb_r15t : keccakTheta 0xfff4b19a475267c84355d868edfb736fadbf6c8f1036caf16ef577657b83a36e88d8f638cea7821b7dc849cd5976227080fd75f2cf85ea3ee26701b966d07fcde97692cda7f89d41ce3bf3e128e74a3315635d697eed5a0c9421a5b371d857ce22b3a3b0594ae2ee94aaf5393246a74ffae977a2bebe58e9535e09d2cff9d4cb7b6a48c73623fd560f4a3036f4bfe43e514c51911a254cb6f377d667320f78cef3b397286da3b98529b8549f2e5dc25c03f4eaeb7675c369a14f2f4d774f054122f5ac7fdf0fa3ed = 0x21bfb52c677601994de4bbbac5bbe61e44232a2004d0f94cc0d757b194b10986793e11670a9b51cea3834d7b795244218e4c1620e7c57f4f0bfb471672364c704754b21948ca37a93fdd14beecdb99e6cb2859df5ec93c5d9a90c6615998c2bfcb2fe51f4dacd1533a88d5eddd740da70b0f90fd7a828b3c8d150d64efddb29a75db2b151e636827e6d67699e059d783ff6e7145f517e65e02913138f633ab1b2df8939e4d87dfd42709374d061d572dea68ac446293f0d40f6d0f99987dafa9d3134b201b337038 := by decide

theorem c4kb_r15p : keccakRhoPi keccak_rotc 0x21bfb52c677601994de4bbbac5bbe61e44232a2004d0f94cc0d757b194b10986793e11670a9b51cea3834d7b795244218e4c1620e7c57f4f0bfb471672364c704754b21948ca37a93fdd14beecdb99e6cb2859df5ec93c5d9a90c6615998c2bfcb2fe51f4dacd1533a88d5eddd740da70b0f90fd7a828b3c8d150d64efddb29a75db2b151e636827e6d67699e059d783ff6e7145f517e65e02913138f633ab1b2df8939e4d87dfd42709374d061d572dea68ac446293f0d40f6d0f99987dafa9d3134b201b337038 = 0x35d5ec652c4261bb733cc7fba297dd9649e2ee5942cefaf13baed958a8f31b43a9a2b1118a4fc351e4de4bbbac5bbe6a38b391b263805fd2357b775d0369cea633ab1b02913138ff26c3efea16fc49c459c2a6d4739e4f8834d7b79524421a3c2b331857f35218cb59da6781675e0f91eda1f3330fb5f5244009a1f2988846546f528ea96432919587c87ebd41459e09a8d150d64efddb2d061d572d2709374ed4b19dd8066486fc41cf8afe9f1c982668a9e597f28fa6d9c517d45f997bfdbd3134b201b337038 := by decide

theorem c4kb_r15c : keccakChi 0x35d5ec652c4261bb733cc7fba297dd9649e2ee5942cefaf13baed958a8f31b43a9a2b1118a4fc351e4de4bbbac5bbe6a38b391b263805fd2357b775d0369cea633ab1b02913138ff26c3efea16fc49c459c2a6d4739e4f8834d7b79524421a3c2b331857f35218cb59da6781675e0f91eda1f3330fb5f5244009a1f2988846546f528ea96432919587c87ebd41459e09a8d150d64efddb2d061d572d2709374ed4b19dd8066486fc41cf8afe9f1c982668a9e597f28fa6d9c517d45f997bfdbd3134b201b337038 = 0x27d9a42d0cf279b8fb1ed6eb209a5fd64d23c65d4e8edad809b2d8fa08e21e45e9e29710c84323e1f5f65bbb2d5a8e543ab235f271241e53f1373d548f326e8e3b2b9ba0f1b129af22938bb714b48fce4998a25413d4451990f6e6b62863aa1862331817a0ce5d4b4d1ec001635e0da5cf80eb659fb5e564e8c9a120d07c8e7d6946d8a44333a09587c15fefd9cdd849c0c3d0d66acfdab9011579042609334e10b2d9860e2c7acd60cba8ff2e0f9924fc99f097f2efa001c451de37946be59b199c9381d1b301c := by decide

theorem c4kb_r15 : keccakRound keccak_rotc 0xfff4b19a475267c84355d868edfb736fadbf6c8f1036caf16ef577657b83a36e88d8f638cea7821b7dc849cd5976227080fd75f2cf85ea3ee26701b966d07fcde97692cda7f89d41ce3bf3e128e74a3315635d697eed5a0c9421a5b371d857ce22b3a3b0594ae2ee94aaf5393246a74ffae977a2bebe58e9535e09d2cff9d4cb7b6a48c73623fd560f4a3036f4bfe43e514c51911a254cb6f377d667320f78cef3b397286da3b98529b8549f2e5dc25c03f4eaeb7675c369a14f2f4d774f054122f5ac7fdf0fa3ed 15 = 0x27d9a42d0cf279b8fb1ed6eb209a5fd64d23c65d4e8edad809b2d8fa08e21e45e9e29710c84323e1f5f65bbb2d5a8e543ab235f271241e53f1373d548f326e8e3b2b9ba0f1b129af22938bb714b48fce4998a25413d4451990f6e6b62863aa1862331817a0ce5d4b4d1ec001635e0da5cf80eb659fb5e564e8c9a120d07c8e7d6946d8a44333a09587c15fefd9cdd849c0c3d0d66acfdab9011579042609334e10b2d9860e2c7acd60cba8ff2e0f9924fc99f097f2efa001c451de37946be593199c9381d1bb01f := by

  simp only [keccakRound, c4kb_r15t, c4kb_r15p, c4kb_r15c]

  decide

theorem c4kb_r16t : keccakTheta 0x27d9a42d0cf279b8fb1ed6eb209a5fd64d23c65d4e8edad809b2d8fa08e21e45e9e29710c84323e1f5f65bbb2d5a8e543ab235f271241e53f1373d548f326e8e3b2b9ba0f1b129af22938bb714b48fce4998a25413d4451990f6e6b62863aa1862331817a0ce5d4b4d1ec001635e0da5cf80eb659fb5e564e8c9a120d07c8e7d6946d8a44333a09587c15fefd9cdd849c0c3d0d66acfdab9011579042609334e10b2d9860e2c7acd60cba8ff2e0f9924fc99f097f2efa001c451de37946be593199c9381d1bb01f = 0xf47feeb5671f35c7e99f9d044b29242098798a00f03e47bf45f345d7128b3470a7c05a900ed3d6f6e95d114c0505bab925855335de32c038c3b8c5b06c258cfa26dad1e2bd1e070e0b774b5a731cac34129bfed2f6ed560dff211e019ba6bb7c7a8887e45eda4fc671b98458a430f54ea5a67d575bacba9eb88eeee5bad7dabbb0ba1de0bd13bbd4a4d7a39bd94a779659645555d4a9e83f694f2471403777fc1709596fd732d5f0b022cae50bc0784fb362296c5bf85012d92d75bbcb43abcdc8c7bad91f4c54d7 := by decide

theorem c4kb_r16p : keccakRhoPi keccak_rotc 0xf47feeb5671f35c7e99f9d044b29242098798a00f03e47bf45f345d7128b3470a7c05a900ed3d6f6e95d114c0505bab925855335de32c038c3b8c5b06c258cfa26dad1e2bd1e070e0b774b5a731cac34129bfed2f6ed560dff211e019ba6bb7c7a8887e45eda4fc671b98458a430f54ea5a67d575bacba9eb88eeee5bad7dabbb0ba1de0bd13bbd4a4d7a39bd94a779659645555d4a9e83f694f2471403777fc1709596fd732d5f0b022cae50bc0784fb362296c5bf85012d92d75bbcb43abcdc8c7bad91f4c54d7 = 0x17cd175c4a2cd1c139586816ee96b4e676ab06894dff697bea585d0ef05e89ddacd88a5b16fe140420e99f9d044b292462d83612c67d61dce6116290c3d539c603777fc694f247147eb996af80b84acb6a403b4f5bda9f015d114c0505bab9e903374d76f9fe423c35e8e6f6529de5a9b25aeb779687579b401e07c8f7f30f31c0e1c4db5a3c57a32d33eabadd65d4f5bbb88eeee5bad7da50bc0784fb022caefbad59c7cd71fd1f66bbc6580704b0aad27e33d4443f22f61555752a7a0fd659c8c7bad91f4c54d7 := by decide

theorem c4kb_r16c : keccakChi 0x17cd175c4a2cd1c139586816ee96b4e676ab06894dff697bea585d0ef05e89ddacd88a5b16fe140420e99f9d044b292462d83612c67d61dce6116290c3d539c603777fc694f247147eb996af80b84acb6a403b4f5bda9f015d114c0505bab9e903374d76f9fe423c35e8e6f6529de5a9b25aeb779687579b401e07c8f7f30f31c0e1c4db5a3c57a32d33eabadd65d4f5bbb88eeee5bad7da50bc0784fb022caefbad59c7cd71fd1f66bbc6580704b0aad27e33d4443f22f61555752a7a0fd659c8c7bad91f4c54d7 = 0x55cd4258aa2c58189148e015fa44b0e2702e11c14dd7287ae3083518525e1d59b87b88da1b5f742621aff6dd10092c303cc8363046cd2317e630eb1dc3d731e603bf6bc490da070c9ab996bfc3bd72096fe03fcf1bc23f21cd0b8c3581bff97321777e3ca3be443c69e8e6f7569d5c68b04de2773fe5558feb1e8fa2f34bdc61d041c4df523c772d2d2de9ba78a6dce57b788aafe7a2d4d854bf6794e3472c8beebd1ce5ad727f1766f964401508b06a4b7a2a538c4e6fe331d4b122790f46510aedb80d1b7c7471 := by decide

theorem c4kb_r16 : keccakRound keccak_rotc 0x27d9a42d0cf279b8fb1ed6eb209a5fd64d23c65d4e8edad809b2d8fa08e21e45e9e29710c84323e1f5f65bbb2d5a8e543ab235f271241e53f1373d548f326e8e3b2b9ba0f1b129af22938bb714b48fce4998a25413d4451990f6e6b62863aa1862331817a0ce5d4b4d1ec001635e0da5cf80eb659fb5e564e8c9a120d07c8e7d6946d8a44333a09587c15fefd9cdd849c0c3d0d66acfdab9011579042609334e10b2d9860e2c7acd60cba8ff2e0f9924fc99f097f2efa001c451de37946be593199c9381d1bb01f 16 = 0x55cd4258aa2c58189148e015fa44b0e2702e11c14dd7287ae3083518525e1d59b87b88da1b5f742621aff6dd10092c303cc8363046cd2317e630eb1dc3d731e603bf6bc490da070c9ab996bfc3bd72096fe03fcf1bc23f21cd0b8c3581bff97321777e3ca3be443c69e8e6f7569d5c68b04de2773fe5558feb1e8fa2f34bdc61d041c4df523c772d2d2de9ba78a6dce57b788aafe7a2d4d854bf6794e3472c8beebd1ce5ad727f1766f964401508b06a4b7a2a538c4e6fe331d4b122790f46518aedb80d1b7cf473 := by

  simp only [keccakRound, c4kb_r16t, c4kb_r16p, c4kb_r16c]

  decide

theorem c4kb_r17t : keccakTheta 0x55cd4258aa2c58189148e015fa44b0e2702e11c14dd7287ae3083518525e1d59b87b88da1b5f742621aff6dd10092c303cc8363046cd2317e630eb1dc3d731e603bf6bc490da070c9ab996bfc3bd72096fe03fcf1bc23f21cd0b8c3581bff97321777e3ca3be443c69e8e6f7569d5c68b04de2773fe5558feb1e8fa2f34bdc61d041c4df523c772d2d2de9ba78a6dce57b788aafe7a2d4d854bf6794e3472c8beebd1ce5ad727f1766f964401508b06a4b7a2a538c4e6fe331d4b122790f46518aedb80d1b7cf473 = 0x1a44ffc1ee57e3697c349707dcaf8eba1fba6779b366a74d0da99880ffcf4b4c21bd979bf1e835306e264b4454729741d1b4412260261d4f89a49da53d66bed1ed1ec65c3d4b5119037f89fe290a331f206982565fb984502077fb27a754c72b4ee308845d0fcb0b87494b6ffb0c0a7d298bfd36d5521499a497323bb73067103d3db3cd74d7497542b99f02861753d295d927374a3382cdcd7978d509f06d9da134a17ce909c4668b85135233e38e3224ee5ceb72ffe0d4df751cbad49e1044132ba74cf1cbb565 := by decide

theorem c4kb_r17p : keccakRhoPi keccak_rotc 0x1a44ffc1ee57e3697c349707dcaf8eba1fba6779b366a74d0da99880ffcf4b4c21bd979bf1e835306e264b4454729741d1b4412260261d4f89a49da53d66bed1ed1ec65c3d4b5119037f89fe290a331f206982565fb984502077fb27a754c72b4ee308845d0fcb0b87494b6ffb0c0a7d298bfd36d5521499a497323bb73067103d3db3cd74d7497542b99f02861753d295d927374a3382cdcd7978d509f06d9da134a17ce909c4668b85135233e38e3224ee5ceb72ffe0d4df751cbad49e1044132ba74cf1cbb565 = 0x36a66203ff3d2d3014663e06ff13fc52dcc2281034c12b2fba9e9ed9e6ba6ba4093b973adcbff835ba7c349707dcaf8e4ed29eb35f68c4d2252dbfec3029f61d9f06d9dcd7978d50e7484e233509a50b5e6fc7a0d4c086f6264b44547297416e4f4ea98e5640eff6ae67c0a185d4f490beea3975a93c2089ef366cd4e9a3f74c6a233da3d8cb87a94c5fe9b6aa90a4c910a497323bb73067233e38e328b851353ff07b95f8da4691244c04c3a9fa36887e585a77184422e849cdd28ce0b36576132ba74cf1cbb565 := by decide

theorem c4kb_r17c : keccakChi 0x36a66203ff3d2d3014663e06ff13fc52dcc2281034c12b2fba9e9ed9e6ba6ba4093b973adcbff835ba7c349707dcaf8e4ed29eb35f68c4d2252dbfec3029f61d9f06d9dcd7978d50e7484e233509a50b5e6fc7a0d4c086f6264b44547297416e4f4ea98e5640eff6ae67c0a185d4f490beea3975a93c2089ef366cd4e9a3f74c6a233da3d8cb87a94c5fe9b6aa90a4c910a497323bb73067233e38e328b851353ff07b95f8da4691244c04c3a9fa36887e585a77184422e849cdd28ce0b36576132ba74cf1cbb565 = 0x84226ac2dd3d2eb01d7fab3eff912c57fe42681134ed2a0fbaba88df2da8bff44d7bb73accfef83ea27aa54bc54aa7de0bd2d4936f69c4d395019fe830bddd11d5d4d9cf98d78d92c76168031521d7065e6a0720d00052e686cb7c015bab6167176a2a2ed20069668e6684f1a543f498ffe2107bfb3c2befffb6ebc4faa4d70e6a2b2d80d8d38798c94ba9e28bb0d48d328483336bfc33476f655067a8b8d5bd77342b15f8ea06832447808ba8fb87ec65e82163484462f949c9d60c41097176253baf3fe98fb7ed := by decide

theorem c4kb_r17 : keccakRound keccak_rotc 0x55cd4258aa2c58189148e015fa44b0e2702e11c14dd7287ae3083518525e1d59b87b88da1b5f742621aff6dd10092c303cc8363046cd2317e630eb1dc3d731e603bf6bc490da070c9ab996bfc3bd72096fe03fcf1bc23f21cd0b8c3581bff97321777e3ca3be443c69e8e6f7569d5c68b04de2773fe5558feb1e8fa2f34bdc61d041c4df523c772d2d2de9ba78a6dce57b788aafe7a2d4d854bf6794e3472c8beebd1ce5ad727f1766f964401508b06a4b7a2a538c4e6fe331d4b122790f46518aedb80d1b7cf473 17 = 0x84226ac2dd3d2eb01d7fab3eff912c57fe42681134ed2a0fbaba88df2da8bff44d7bb73accfef83ea27aa54bc54aa7de0bd2d4936f69c4d395019fe830bddd11d5d4d9cf98d78d92c76168031521d7065e6a0720d00052e686cb7c015bab6167176a2a2ed20069668e6684f1a543f498ffe2107bfb3c2befffb6ebc4faa4d70e6a2b2d80d8d38798c94ba9e28bb0d48d328483336bfc33476f655067a8b8d5bd77342b15f8ea06832447808ba8fb87ec65e82163484462f949c9d60c41097176a53baf3fe98fb76d := by

  simp only [keccakRound, c4kb_r17t, c4kb_r17p, c4kb_r17c]

  decide

theorem c4kb_r18t : keccakTheta 0x84226ac2dd3d2eb01d7fab3eff912c57fe42681134ed2a0fbaba88df2da8bff44d7bb73accfef83ea27aa54bc54aa7de0bd2d4936f69c4d395019fe830bddd11d5d4d9cf98d78d92c76168031521d7065e6a0720d00052e686cb7c015bab6167176a2a2ed20069668e6684f1a543f498ffe2107bfb3c2befffb6ebc4faa4d70e6a2b2d80d8d38798c94ba9e28bb0d48d328483336bfc33476f655067a8b8d5bd77342b15f8ea06832447808ba8fb87ec65e82163484462f949c9d60c41097176a53baf3fe98fb76d = 0x2564a451a1ee6b282c95ee997e471050d812b58078d3bdefa4081269653489ea8940befe7354fba4033c6bd8b999e2463a389134eebff8d4b35142797c834af1cb664379d04bbb8c035a61c7aa8bd49cff2cc9b3acd3177eb72139a6da7d5d60313af7bf9e3efe8690d41e47eddfc2863bd919bf449628755ef02557867792965bc168275905bb9fef1b7473c78e436d2c36198523600559ab5e59a31712d627d672e5868439431b15adc52c292dbbeb43b8fcf2047af519577b4cba099547686100a6fb5625b4f7 := by decide

theorem c4kb_r18p : keccakRhoPi keccak_rotc 0x2564a451a1ee6b282c95ee997e471050d812b58078d3bdefa4081269653489ea8940befe7354fba4033c6bd8b999e2463a389134eebff8d4b35142797c834af1cb664379d04bbb8c035a61c7aa8bd49cff2cc9b3acd3177eb72139a6da7d5d60313af7bf9e3efe8690d41e47eddfc2863bd919bf449628755ef02557867792965bc168275905bb9fef1b7473c78e436d2c36198523600559ab5e59a31712d627d672e5868439431b15adc52c292dbbeb43b8fcf2047af519577b4cba099547686100a6fb5625b4f7 = 0x902049a594d227aa17a93806b4c38f55698bbf7f9664d9d6cfade0b413ac82dd50ee3f3c811ebd46502c95ee997e4710a13cbe41a578d9a850791fb77f0a1a43712d627ab5e59a313421ca18deb3972cfbf9cd53ee9225023c6bd8b999e246034db4fabac16e4273c6dd1cf1e390db7baef69974132a8ed0b00f1a77bdfb02567771996cc86f3a09dec8cdfa24b143a9965ef02557867792c292dbbeb15adc522914687b9aca0959269dd7ff1a874712f7f43189d7bdfcf1866148d801564b0d6100a6fb5625b4f7 := by decide

theorem c4kb_r18c : keccakChi 0x902049a594d227aa17a93806b4c38f55698bbf7f9664d9d6cfade0b413ac82dd50ee3f3c811ebd46502c95ee997e4710a13cbe41a578d9a850791fb77f0a1a43712d627ab5e59a313421ca18deb3972cfbf9cd53ee9225023c6bd8b999e246034db4fabac16e4273c6dd1cf1e390db7baef69974132a8ed0b00f1a77bdfb02567771996cc86f3a09dec8cdfa24b143a9965ef02557867792c292dbbeb15adc522914687b9aca0959269dd7ff1a874712f7f43189d7bdfcf1866148d801564b0d6100a6fb5625b4f7 = 0x1f2189258672253357670e1eb5cf1711e98bfede9674f97cd98de0b4332f84dc70ec2077055ee4441120b58cb83a4f01853df451e3f9498400791e19670c1c53d029c23a35955b993471d79d94b9976ebbf0c9d20e027429386dc89d88caccd38e24fff8a77e6373f6961cf0fb10df7ba7d67b7e13448ed0a4433a76fb7f21d635e158e4c86fe6095ec6cfe9112143ffb76fe0219fc84f928a12d664916bdc7baf75207b9b984251669d517f5ea2f3b4fef4198957f5f4b886688eae0954480f109497fa808c0007 := by decide

theorem c4kb_r18 : keccakRound keccak_rotc 0x84226ac2dd3d2eb01d7fab3eff912c57fe42681134ed2a0fbaba88df2da8bff44d7bb73accfef83ea27aa54bc54aa7de0bd2d4936f69c4d395019fe830bddd11d5d4d9cf98d78d92c76168031521d7065e6a0720d00052e686cb7c015bab6167176a2a2ed20069668e6684f1a543f498ffe2107bfb3c2befffb6ebc4faa4d70e6a2b2d80d8d38798c94ba9e28bb0d48d328483336bfc33476f655067a8b8d5bd77342b15f8ea06832447808ba8fb87ec65e82163484462f949c9d60c41097176a53baf3fe98fb76d 18 = 0x1f2189258672253357670e1eb5cf1711e98bfede9674f97cd98de0b4332f84dc70ec2077055ee4441120b58cb83a4f01853df451e3f9498400791e19670c1c53d029c23a35955b993471d79d94b9976ebbf0c9d20e027429386dc89d88caccd38e24fff8a77e6373f6961cf0fb10df7ba7d67b7e13448ed0a4433a76fb7f21d635e158e4c86fe6095ec6cfe9112143ffb76fe0219fc84f928a12d664916bdc7baf75207b9b984251669d517f5ea2f3b4fef4198957f5f4b886688eae0954480f109497fa808c800d := by

  simp only [keccakRound, c4kb_r18t, c4kb_r18p, c4kb_r18c]

  decide

theorem c4kb_r19t : keccakTheta 0x1f2189258672253357670e1eb5cf1711e98bfede9674f97cd98de0b4332f84dc70ec2077055ee4441120b58cb83a4f01853df451e3f9498400791e19670c1c53d029c23a35955b993471d79d94b9976ebbf0c9d20e027429386dc89d88caccd38e24fff8a77e6373f6961cf0fb10df7ba7d67b7e13448ed0a4433a76fb7f21d635e158e4c86fe6095ec6cfe9112143ffb76fe0219fc84f928a12d664916bdc7baf75207b9b984251669d517f5ea2f3b4fef4198957f5f4b886688eae0954480f109497fa808c800d = 0x55f12879e8cae1d0ed0c19ad0447dd335528d8bd6d21f1282f89bf0081cf476752416ee3839f969f5bf014d0d6828be23f56e3e2527183a6bcda387a9c591407262d9d8e8775982216dc99091278e5b5f120688e60bab0ca8206df2e394206f13287d99b5c2b6b270092434449f01cc0857b35ea9585fc0bee939b2a95c7e5358f8a4f5779e72c2be265e98aea744bab416bbf952d288c29a8bf98f017aaaea0e5a58127f52086b2dcf646ccef2a399642573feaaca0fcec706cd11abbb48bb43239d96e064df2d6 := by decide

theorem c4kb_r19p : keccakRhoPi keccak_rotc 0x55f12879e8cae1d0ed0c19ad0447dd335528d8bd6d21f1282f89bf0081cf476752416ee3839f969f5bf014d0d6828be23f56e3e2527183a6bcda387a9c591407262d9d8e8775982216dc99091278e5b5f120688e60bab0ca8206df2e394206f13287d99b5c2b6b270092434449f01cc0857b35ea9585fc0bee939b2a95c7e5358f8a4f5779e72c2be265e98aea744bab416bbf952d288c29a8bf98f017aaaea0e5a58127f52086b2dcf646ccef2a399642573feaaca0fcec706cd11abbb48bb43239d96e064df2d6 = 0xbe26fc02073d1d9cf1cb6a2db93212245d5865789034473015c7c527abbcf3961095cffaab283f3b33ed0c19ad0447dd1c3d4e2c8a03de6d490d1127c07300027aaaea0a8bf98f013fa90435972d2c09bb8e0e7e5a7d4905f014d0d6828be25b5c72840de3040dbe997a62ba9d12eaf8e0d9a2357769176817ada43e250aa51bb30444c5b3b1d0ee2bd9af54ac2fe05c35ee939b2a95c7e5cef2a3996dcf646c4a1e7a32b874157c7c4a4e3074c7eadc5b5939943eccdae1efe54b4a230a505a3239d96e064df2d6 := by decide

theorem c4kb_r19c : keccakChi 0xbe26fc02073d1d9cf1cb6a2db93212245d5865789034473015c7c527abbcf3961095cffaab283f3b33ed0c19ad0447dd1c3d4e2c8a03de6d490d1127c07300027aaaea0a8bf98f013fa90435972d2c09bb8e0e7e5a7d4905f014d0d6828be25b5c72840de3040dbe997a62ba9d12eaf8e0d9a2357769176817ada43e250aa51bb30444c5b3b1d0ee2bd9af54ac2fe05c35ee939b2a95c7e5cef2a3996dcf646c4a1e7a32b874157c7c4a4e3074c7eadc5b5939943eccdae1efe54b4a230a505a3239d96e064df2d6 = 0xbb64fc0707a9dd18f15a69d511323007537cf17a96394aa8b544cf2282bee392588defa2bb283b1b73efe613a5d4c4dd103d4e08982af66d6acd1136e57701926e9aa40281f9516c3eac1510d72f2c0ba2ac4ef4d26fa195b04570d7a78bf43357f88a25bb7004ba397e32689d9908b9a4d92630156d126e26a1b43c271a269a7b564744fb74908a2f700f6ea825c54da5ead31a3905d747c4e38fdde9e5447487da7832997615744c6bcf7c72ce085e594d0996b6fccfc1cbe70d6a630970462221e9fa1a897877 := by decide

theorem c4kb_r19 : keccakRound keccak_rotc 0x1f2189258672253357670e1eb5cf1711e98bfede9674f97cd98de0b4332f84dc70ec2077055ee4441120b58cb83a4f01853df451e3f9498400791e19670c1c53d029c23a35955b993471d79d94b9976ebbf0c9d20e027429386dc89d88caccd38e24fff8a77e6373f6961cf0fb10df7ba7d67b7e13448ed0a4433a76fb7f21d635e158e4c86fe6095ec6cfe9112143ffb76fe0219fc84f928a12d664916bdc7baf75207b9b984251669d517f5ea2f3b4fef4198957f5f4b886688eae0954480f109497fa808c800d 19 = 0xbb64fc0707a9dd18f15a69d511323007537cf17a96394aa8b544cf2282bee392588defa2bb283b1b73efe613a5d4c4dd103d4e08982af66d6acd1136e57701926e9aa40281f9516c3eac1510d72f2c0ba2ac4ef4d26fa195b04570d7a78bf43357f88a25bb7004ba397e32689d9908b9a4d92630156d126e26a1b43c271a269a7b564744fb74908a2f700f6ea825c54da5ead31a3905d747c4e38fdde9e5447487da7832997615744c6bcf7c72ce085e594d0996b6fccfc1cbe70d6a63097046a221e9fa9a89787d := by

  simp only [keccakRound, c4kb_r19t, c4kb_r19p, c4kb_r19c]

  decide

theorem c4kb_r20t : keccakTheta 0xbb64fc0707a9dd18f15a69d511323007537cf17a96394aa8b544cf2282bee392588defa2bb283b1b73efe613a5d4c4dd103d4e08982af66d6acd1136e57701926e9aa40281f9516c3eac1510d72f2c0ba2ac4ef4d26fa195b04570d7a78bf43357f88a25bb7004ba397e32689d9908b9a4d92630156d126e26a1b43c271a269a7b564744fb74908a2f700f6ea825c54da5ead31a3905d747c4e38fdde9e5447487da7832997615744c6bcf7c72ce085e594d0996b6fccfc1cbe70d6a63097046a221e9fa9a89787d = 0x950e567fb48c057a7f9734995b28627613eec8271cb802f42196aca4257650fd8a8a793dfcf28a285d854c6b16f11cbf9ef01344d230a41c2a5f286b6ff649cefa48c7842631e203ecab838f90f59d388cc6e48c614a79f73e882d9bed91a642176ab37831f14ce6adac51ee3a51bbd676deb0af52b7a35d08cb1e44943ffef8f59b1a08b16ec2fb6fe2363322a48d113138b09c9ecd642816e41942ae3ff547a9b0d24a2a53cd16c2a6923038d45a2f19df30cb3c7d879d5f356eecc4c1c32970267f65dd53c94e := by decide

theorem c4kb_r20p : keccakRhoPi keccak_rotc 0x950e567fb48c057a7f9734995b28627613eec8271cb802f42196aca4257650fd8a8a793dfcf28a285d854c6b16f11cbf9ef01344d230a41c2a5f286b6ff649cefa48c7842631e203ecab838f90f59d388cc6e48c614a79f73e882d9bed91a642176ab37831f14ce6adac51ee3a51bbd676deb0af52b7a35d08cb1e44943ffef8f59b1a08b16ec2fb6fe2363322a48d113138b09c9ecd642816e41942ae3ff547a9b0d24a2a53cd16c2a6923038d45a2f19df30cb3c7d879d5f356eecc4c1c32970267f65dd53c94e = 0x865ab29095d943f4eb3a71d957071f21a53cfbc6637246307dfacd8d0458b7614677cc32cf1f61e7767f9734995b28629435b7fb24e7152fb147b8e946ef5ab6e3ff54716e41942a51529e68b54d8692e4f7f3ca28a22a29854c6b16f11cbf5d37db234c847d105bf88d8cc8a923445bbe6addd98983865204e397005e827dd93c407f4918f084c6b6f5857a95bd1aebf808cb1e44943ffe038d45a2fc2a6923959fed23015ea543689a46148393de028a6730bb559bc18f2c2727b3590a0c4e70267f65dd53c94e := by decide

theorem c4kb_r20c : keccakChi 0x865ab29095d943f4eb3a71d957071f21a53cfbc6637246307dfacd8d0458b7614677cc32cf1f61e7767f9734995b28629435b7fb24e7152fb147b8e946ef5ab6e3ff54716e41942a51529e68b54d8692e4f7f3ca28a22a29854c6b16f11cbf5d37db234c847d105bf88d8cc8a923445bbe6addd98983865204e397005e827dd93c407f4918f084c6b6f5857a95bd1aebf808cb1e44943ffe038d45a2fc2a6923959fed23015ea543689a46148393de028a6730bb559bc18f2c2727b3590a0c4e70267f65dd53c94e = 0xbfd2b31d9599d5f4ab1f3dfb1d013f22a17c79c6e3aa06e437f8cd94105dae60c673fe70ac3d21f7d4d2d725d35b384a9535bfb300e393bfd30db8eddff772f6e7cf53634e419123415236e0b5e3cc06a472f3ca08826a209f446707701d3b0f5768b3848cdf107b7889c4dad823eb5fb938fedd8ddf9652fce31d1c5e166b053f4c3febb8d884e4b656057ad3bf63f2f008b11f4cd4bbfa057841c26d036922999eedb10156a14308ba54505f92960e1f62999855d7e0ce4cbf61b7db0a124ef2666f6dd9c208cf := by decide

theorem c4kb_r20 : keccakRound keccak_rotc 0xbb64fc0707a9dd18f15a69d511323007537cf17a96394aa8b544cf2282bee392588defa2bb283b1b73efe613a5d4c4dd103d4e08982af66d6acd1136e57701926e9aa40281f9516c3eac1510d72f2c0ba2ac4ef4d26fa195b04570d7a78bf43357f88a25bb7004ba397e32689d9908b9a4d92630156d126e26a1b43c271a269a7b564744fb74908a2f700f6ea825c54da5ead31a3905d747c4e38fdde9e5447487da7832997615744c6bcf7c72ce085e594d0996b6fccfc1cbe70d6a63097046a221e9fa9a89787d 20 = 0xbfd2b31d9599d5f4ab1f3dfb1d013f22a17c79c6e3aa06e437f8cd94105dae60c673fe70ac3d21f7d4d2d725d35b384a9535bfb300e393bfd30db8eddff772f6e7cf53634e419123415236e0b5e3cc06a472f3ca08826a209f446707701d3b0f5768b3848cdf107b7889c4dad823eb5fb938fedd8ddf9652fce31d1c5e166b053f4c3febb8d884e4b656057ad3bf63f2f008b11f4cd4bbfa057841c26d036922999eedb10156a14308ba54505f92960e1f62999855d7e0ce4cbf61b7db0a124e72666f6d59c2884e := by

  simp only [keccakRound, c4kb_r20t, c4kb_r20p, c4kb_r20c]

  decide

theorem c4kb_r21t : keccakTheta 0xbfd2b31d9599d5f4ab1f3dfb1d013f22a17c79c6e3aa06e437f8cd94105dae60c673fe70ac3d21f7d4d2d725d35b384a9535bfb300e393bfd30db8eddff772f6e7cf53634e419123415236e0b5e3cc06a472f3ca08826a209f446707701d3b0f5768b3848cdf107b7889c4dad823eb5fb938fedd8ddf9652fce31d1c5e166b053f4c3febb8d884e4b656057ad3bf63f2f008b11f4cd4bbfa057841c26d036922999eedb10156a14308ba54505f92960e1f62999855d7e0ce4cbf61b7db0a124e72666f6d59c2884e = 0xbb440c2c5ead6512732c1d0809eb43c69844eeaae72071bd66a409ecdd48fa04446f8c259eff977fd0446814186f88ac4d069f401409ef5bea352f81db7d05afb693971b8354c547c34e44b587217a8ea0e44cfbc3b6dac6477747f464f747eb6e5024e88855672229d500a21536bf3b3b248c88bf1d20daf875a22d9522dbe3e77f1f18ac32f8008f6e9216d73514aba154756781c1ef9e876433975fc1dfaa9d085280ca6211a5d08974a34b78eaea265a0ef4515d97971de3a5cf161f462af07a1d386b003ec6 := by decide

theorem c4kb_r21p : keccakRhoPi keccak_rotc 0xbb440c2c5ead6512732c1d0809eb43c69844eeaae72071bd66a409ecdd48fa04446f8c259eff977fd0446814186f88ac4d069f401409ef5bea352f81db7d05afb693971b8354c547c34e44b587217a8ea0e44cfbc3b6dac6477747f464f747eb6e5024e88855672229d500a21536bf3b3b248c88bf1d20daf875a22d9522dbe3e77f1f18ac32f8008f6e9216d73514aba154756781c1ef9e876433975fc1dfaa9d085280ca6211a5d08974a34b78eaea265a0ef4515d97971de3a5cf161f462af07a1d386b003ec6 = 0x9a9027b37523e81142f51d869c896b0edb6d635072267de10073bf8f8c56197cc99683bd145765e5c6732c1d0809eb4397c0edbe82d7f51a54028854dafceca7fc1dfaa8764339750653108d2ce8429430967bfe5dfd11be446814186f88acd0e8c9ee8fd68eee8fdba485b5cd452ae33bc74b9e2c3e8c54d55ce40e37b3089d98a8f6d272e3706ad9246445f8e906d1e3f875a22d9522db34b78eaead08974a030b17ab5944aed1e802813deb69a0d3ab391372812744421d59e0707be7a855f07a1d386b003ec6 := by decide

theorem c4kb_r21c : keccakChi 0x9a9027b37523e81142f51d869c896b0edb6d635072267de10073bf8f8c56197cc99683bd145765e5c6732c1d0809eb4397c0edbe82d7f51a54028854dafceca7fc1dfaa8764339750653108d2ce8429430967bfe5dfd11be446814186f88acd0e8c9ee8fd68eee8fdba485b5cd452ae33bc74b9e2c3e8c54d55ce40e37b3089d98a8f6d272e3706ad9246445f8e906d1e3f875a22d9522db34b78eaead08974a030b17ab5944aed1e802813deb69a0d3ab391372812744421d59e0707be7a855f07a1d386b003ec6 = 0x9af11bb1fd23f00903f39d8a9cdd6eea436d41611304fdf000e3a30900df1b72129ac3ed667701643e7fc63d5a0ad22297c0fd3ea637f58e14318855d2f4e6e67fdd9f027640286d065110d9a4548616f0b6ffdf9cbc331d4f2914184f8a2090d85f8569c6fbffa1df8495a5e4452ab31b8e21943eb448581614950e3726280cb80bfc72faebe7289c706449fdf90e44e370e7302f9752f12cb38eeb7d60934a0e0af7eb49a32ec01872892dc969b0d5a83005f091234a425d5b607d11af08c4525a0e3aeb007ac4 := by decide

theorem c4kb_r21 : keccakRound keccak_rotc 0xbfd2b31d9599d5f4ab1f3dfb1d013f22a17c79c6e3aa06e437f8cd94105dae60c673fe70ac3d21f7d4d2d725d35b384a9535bfb300e393bfd30db8eddff772f6e7cf53634e419123415236e0b5e3cc06a472f3ca08826a209f446707701d3b0f5768b3848cdf107b7889c4dad823eb5fb938fedd8ddf9652fce31d1c5e166b053f4c3febb8d884e4b656057ad3bf63f2f008b11f4cd4bbfa057841c26d036922999eedb10156a14308ba54505f92960e1f62999855d7e0ce4cbf61b7db0a124e72666f6d59c2884e 21 = 0x9af11bb1fd23f00903f39d8a9cdd6eea436d41611304fdf000e3a30900df1b72129ac3ed667701643e7fc63d5a0ad22297c0fd3ea637f58e14318855d2f4e6e67fdd9f027640286d065110d9a4548616f0b6ffdf9cbc331d4f2914184f8a2090d85f8569c6fbffa1df8495a5e4452ab31b8e21943eb448581614950e3726280cb80bfc72faebe7289c706449fdf90e44e370e7302f9752f12cb38eeb7d60934a0e0af7eb49a32ec01872892dc969b0d5a83005f091234a425d5b607d11af08c4d25a0e3aeb00fa44 := by

  simp only [keccakRound, c4kb_r21t, c4kb_r21p, c4kb_r21c]

  decide

theorem c4kb_r22t : keccakTheta 0x9af11bb1fd23f00903f39d8a9cdd6eea436d41611304fdf000e3a30900df1b72129ac3ed667701643e7fc63d5a0ad22297c0fd3ea637f58e14318855d2f4e6e67fdd9f027640286d065110d9a4548616f0b6ffdf9cbc331d4f2914184f8a2090d85f8569c6fbffa1df8495a5e4452ab31b8e21943eb448581614950e3726280cb80bfc72faebe7289c706449fdf90e44e370e7302f9752f12cb38eeb7d60934a0e0af7eb49a32ec01872892dc969b0d5a83005f091234a425d5b607d11af08c4d25a0e3aeb00fa44 = 0x2cafea06e2e504920fc31027d2ce1afab3a6c643223667b87c98ab0bd8bfc35639ede9c7aa391aca644232cc9077262b4cf51b647c67acbfc66a550f3d37d6df8f7b6bbcb14cf2a77550da8b88016de688d1ace0fb1935d6c26b890ae7bafd53008a86ce7dc642a58aebc1c5911cdf46a8a3ce52260d8908e2f701fa42b884c9b0450fa1b1a686d7427494cdcde95cf645ace8992c3b5b65db7939a61b40382963112fadaae8e803b7d25a528983f90406728f5b004d1c9da7149c4acfbef83a35e134bf7d46a8c := by decide

theorem c4kb_r22p : keccakRhoPi keccak_rotc 0x2cafea06e2e504920fc31027d2ce1afab3a6c643223667b87c98ab0bd8bfc35639ede9c7aa391aca644232cc9077262b4cf51b647c67acbfc66a550f3d37d6df8f7b6bbcb14cf2a77550da8b88016de688d1ace0fb1935d6c26b890ae7bafd53008a86ce7dc642a58aebc1c5911cdf46a8a3ce52260d8908e2f701fa42b884c9b0450fa1b1a686d7427494cdcde95cf645ace8992c3b5b65db7939a61b40382963112fadaae8e803b7d25a528983f90406728f5b004d1c9da7149c4acfbef83a35e134bf7d46a8c = 0x1f262ac2f62ff0d6002dbceeaa1b5171d8c9aeb4468d670736cd82287d0d8d345019ca3d6c013472af20fc31027d2ce152a879e9beb6fe33baf071644737d1621b403825db7939a6d6d5747404b188977a71ea8e46b18e7b44232cc9077262a6215cf75faad84d7109d2533737a573ddb4e2938959f7df078c86446ccf75674d99e55f1ef6d779625451e7291306c4834c8e2f701fa42b88528983f903b7d25abfa81b8b941240b236c8f8cf597699eae32151804543673eb3a264b0ed6d9916a35e134bf7d46a8c := by decide

theorem c4kb_r22c : keccakChi 0x1f262ac2f62ff0d6002dbceeaa1b5171d8c9aeb4468d670736cd82287d0d8d345019ca3d6c013472af20fc31027d2ce152a879e9beb6fe33baf071644737d1621b403825db7939a6d6d5747404b188977a71ea8e46b18e7b44232cc9077262a6215cf75faad84d7109d2533737a573ddb4e2938959f7df078c86446ccf75674d99e55f1ef6d779625451e7291306c4834c8e2f701fa42b88528983f903b7d25abfa81b8b941240b236c8f8cf597699eae32151804543673eb3a264b0ed6d9916a35e134bf7d46a8c = 0x39e22ac2e72379d240347cd3a21b5551c7cbacb412a9c78136e99262d51f9d449819e6a96e815671a620f430d9351dc1027d79adba367e2517f0f574477ed1a25b4830ac63f917b77665353400b748d77361aab860b1aea3c0a13dc81e3433a21b0c3559ea59c1284df15bb73287515b94ee37c1d1afd3278080686cd3754ecdcbecdc8ff655e9705053e7491a26c28ec52a3766fb7512e842d843f003b51659af087f3b9c3bd1a0369ef88f3ab2b3e66a015280c143272ea76accfff55901d6e35f024bf7d60ca4 := by decide

theorem c4kb_r22 : keccakRound keccak_rotc 0x9af11bb1fd23f00903f39d8a9cdd6eea436d41611304fdf000e3a30900df1b72129ac3ed667701643e7fc63d5a0ad22297c0fd3ea637f58e14318855d2f4e6e67fdd9f027640286d065110d9a4548616f0b6ffdf9cbc331d4f2914184f8a2090d85f8569c6fbffa1df8495a5e4452ab31b8e21943eb448581614950e3726280cb80bfc72faebe7289c706449fdf90e44e370e7302f9752f12cb38eeb7d60934a0e0af7eb49a32ec01872892dc969b0d5a83005f091234a425d5b607d11af08c4d25a0e3aeb00fa44 22 = 0x39e22ac2e72379d240347cd3a21b5551c7cbacb412a9c78136e99262d51f9d449819e6a96e815671a620f430d9351dc1027d79adba367e2517f0f574477ed1a25b4830ac63f917b77665353400b748d77361aab860b1aea3c0a13dc81e3433a21b0c3559ea59c1284df15bb73287515b94ee37c1d1afd3278080686cd3754ecdcbecdc8ff655e9705053e7491a26c28ec52a3766fb7512e842d843f003b51659af087f3b9c3bd1a0369ef88f3ab2b3e66a015280c143272ea76accfff55901d6e35f024b77d60ca5 := by

  simp only [keccakRound, c4kb_r22t, c4kb_r22p, c4kb_r22c]

  decide

theorem c4kb_r23t : keccakTheta 0x39e22ac2e72379d240347cd3a21b5551c7cbacb412a9c78136e99262d51f9d449819e6a96e815671a620f430d9351dc1027d79adba367e2517f0f574477ed1a25b4830ac63f917b77665353400b748d77361aab860b1aea3c0a13dc81e3433a21b0c3559ea59c1284df15bb73287515b94ee37c1d1afd3278080686cd3754ecdcbecdc8ff655e9705053e7491a26c28ec52a3766fb7512e842d843f003b51659af087f3b9c3bd1a0369ef88f3ab2b3e66a015280c143272ea76accfff55901d6e35f024b77d60ca5 = 0xf0537dbbba289569370763b9e522cc417aef97390d188b970f378525d7332f6edf1280756bf392806f91a349843ef17a754e66c7fd0fe735aad4cef958cf9db4629627eb61d5a59d316e53e805c58c26bad0fdc13dba4218b79222a2590daab2a6280ed4f5e88d3e742f4cf030abe371d3e5511dd4dd17d649313f158e7ea276bcdfc3e5b16c7060ed77dcc405978e98fcf42021f959a0c205d3252c06c7d2a866b92842c1303d1b41ade7e57d8b2af6d725690ddef26b389eb4dbb8f775b3fca454649772a4c854 := by decide

theorem c4kb_r23p : keccakRhoPi keccak_rotc 0xf0537dbbba289569370763b9e522cc417aef97390d188b970f378525d7332f6edf1280756bf392806f91a349843ef17a754e66c7fd0fe735aad4cef958cf9db4629627eb61d5a59d316e53e805c58c26bad0fdc13dba4218b79222a2590daab2a6280ed4f5e88d3e742f4cf030abe371d3e5511dd4dd17d649313f158e7ea276bcdfc3e5b16c7060ed77dcc405978e98fcf42021f959a0c205d3252c06c7d2a866b92842c1303d1b41ade7e57d8b2af6d725690ddef26b389eb4dbb8f775b3fca454649772a4c854 = 0x3cde14975cccbdb88b184c62dca7d00bdd210c5d687ee09e305e6fe1f2d8b63835c95a4377bc9ace41370763b9e522cc677cac67ceda556abd33c0c2af8dc5d06c7d2a805d3252c0160981e8db35c94201d5afce4a037c4a91a349843ef17a6f44b21b55656f24455df7310165e3a63b3d69b771eeeb67f9e721a31172ef5df2b4b3ac52c4fd6c3a9f2a88eea6e8beb67649313f158e7ea257d8b2af641ade7edf6eee8a255a7c14d8ffa1fce6aea9cc4469f5314076a7af08087e566830bf3da454649772a4c854 := by decide

theorem c4kb_r23c : keccakChi 0x3cde14975cccbdb88b184c62dca7d00bdd210c5d687ee09e305e6fe1f2d8b63835c95a4377bc9ace41370763b9e522cc677cac67ceda556abd33c0c2af8dc5d06c7d2a805d3252c0160981e8db35c94201d5afce4a037c4a91a349843ef17a6f44b21b55656f24455df7310165e3a63b3d69b771eeeb67f9e721a31172ef5df2b4b3ac52c4fd6c3a9f2a88eea6e8beb67649313f158e7ea257d8b2af641ade7edf6eee8a255a7c14d8ffa1fce6aea9cc4469f5314076a7af08087e566830bf3da454649772a4c854 = 0x3cc83137dc8c99888a190622ff97d24de9e71cc86836cd2e32462fc36659a639f8e85a5f7f9ada4829432d63bde7304c71742cef8cca9c68bd30c3c29ea8e7542e3106a51d6042ea870b41aa79b84c524143afce4b03fc48ad8b59b59a1979de44e6bd1f256d2045ccf671817f73fc113d69bd25eee767bdc720a201636b7d72a46bbcfcc0edee36dc2a8bef94eaaf7656d8152f559b3eaadefa3a6fc67a5e6ad766f4ca2d4a4b3df8efa1e9b40a298c4369bb334126f3bf909e7e9aceb8b77de035e5b672e2c8d6 := by decide

theorem c4kb_r23 : keccakRound keccak_rotc 0x39e22ac2e72379d240347cd3a21b5551c7cbacb412a9c78136e99262d51f9d449819e6a96e815671a620f430d9351dc1027d79adba367e2517f0f574477ed1a25b4830ac63f917b77665353400b748d77361aab860b1aea3c0a13dc81e3433a21b0c3559ea59c1284df15bb73287515b94ee37c1d1afd3278080686cd3754ecdcbecdc8ff655e9705053e7491a26c28ec52a3766fb7512e842d843f003b51659af087f3b9c3bd1a0369ef88f3ab2b3e66a015280c143272ea76accfff55901d6e35f024b77d60ca5 23 = 0x3cc83137dc8c99888a190622ff97d24de9e71cc86836cd2e32462fc36659a639f8e85a5f7f9ada4829432d63bde7304c71742cef8cca9c68bd30c3c29ea8e7542e3106a51d6042ea870b41aa79b84c524143afce4b03fc48ad8b59b59a1979de44e6bd1f256d2045ccf671817f73fc113d69bd25eee767bdc720a201636b7d72a46bbcfcc0edee36dc2a8bef94eaaf7656d8152f559b3eaadefa3a6fc67a5e6ad766f4ca2d4a4b3df8efa1e9b40a298c4369bb334126f3bf909e7e9aceb8b77d6035e5b6f2e248de := by

  simp only [keccakRound, c4kb_r23t, c4kb_r23p, c4kb_r23c]

  decide

theorem c4kb_perm : keccak_f1600 keccak_rotc 0x8000000000000000000000000000000000000000000000000000000000000000000000000000000000000000000000000000000000000000000000000000000000000000000000011c5b2139898348fff8cb4ab16282e1f1a82b7688613b25afa762866fe977acc688d778c88abba04855cc15c627bf4a83bd08a8f94962fb4a9cc3bd445af3be85 = 0x3cc83137dc8c99888a190622ff97d24de9e71cc86836cd2e32462fc36659a639f8e85a5f7f9ada4829432d63bde7304c71742cef8cca9c68bd30c3c29ea8e7542e3106a51d6042ea870b41aa79b84c524143afce4b03fc48ad8b59b59a1979de44e6bd1f256d2045ccf671817f73fc113d69bd25eee767bdc720a201636b7d72a46bbcfcc0edee36dc2a8bef94eaaf7656d8152f559b3eaadefa3a6fc67a5e6ad766f4ca2d4a4b3df8efa1e9b40a298c4369bb334126f3bf909e7e9aceb8b77d6035e5b6f2e248de := by

  rw [keccak_f1600_expand, c4kb_r0, c4kb_r1, c4kb_r2, c4kb_r3, c4kb_r4, c4kb_r5, c4kb_r6, c4kb_r7, c4kb_r8, c4kb_r9, c4kb_r10, c4kb_r11, c4kb_r12, c4kb_r13, c4kb_r14, c4kb_r15, c4kb_r16, c4kb_r17, c4kb_r18, c4kb_r19, c4kb_r20, c4kb_r21, c4kb_r22, c4kb_r23]

theorem c4kb_sq : keccakSqueeze32 0x3cc83137dc8c99888a190622ff97d24de9e71cc86836cd2e32462fc36659a639f8e85a5f7f9ada4829432d63bde7304c71742cef8cca9c68bd30c3c29ea8e7542e3106a51d6042ea870b41aa79b84c524143afce4b03fc48ad8b59b59a1979de44e6bd1f256d2045ccf671817f73fc113d69bd25eee767bdc720a201636b7d72a46bbcfcc0edee36dc2a8bef94eaaf7656d8152f559b3eaadefa3a6fc67a5e6ad766f4ca2d4a4b3df8efa1e9b40a298c4369bb334126f3bf909e7e9aceb8b77d6035e5b6f2e248de = [222, 72, 226, 242, 182, 229, 53, 96, 125, 183, 184, 206, 154, 126, 158, 144, 191, 243, 38, 65, 51, 187, 105, 67, 140, 41, 10, 180, 233, 161, 239, 248] := by decide

theorem c4kb_value : keccak256_64bytes [133, 190, 243, 90, 68, 189, 195, 156, 74, 251, 98, 73, 249, 168, 8, 189, 131, 74, 191, 39, 198, 21, 204, 85, 72, 160, 187, 138, 200, 120, 215, 136, 198, 172, 119, 233, 111, 134, 98, 167, 175, 37, 59, 97, 136, 118, 43, 168, 241, 225, 130, 98, 177, 74, 203, 248, 255, 72, 131, 137, 57, 33, 91, 28] = [222, 72, 226, 242, 182, 229, 53, 96, 125, 183, 184, 206, 154, 126, 158, 144, 191, 243, 38, 65, 51, 187, 105, 67, 140, 41, 10, 180, 233, 161, 239, 248] := by

  simp only [keccak256_64bytes, keccak256_64bytesWith, c4kb_abs, c4kb_perm, c4kb_sq]

theorem c4_map_a : (List.range 20).map (fun i => List.getD [19, 82, 187, 30, 229, 131, 61, 98, 202, 134, 188, 65, 195, 118, 154, 156, 216, 48, 170, 85, 189, 183, 182, 72, 158, 53, 158, 147, 44, 55, 177, 82] (i + 12) 0) = [195, 118, 154, 156, 216, 48, 170, 85, 189, 183, 182, 72, 158, 53, 158, 147, 44, 55, 177, 82] := by decide

theorem c4_map_j : (List.range 20).map (fun i => List.getD [222, 72, 226, 242, 182, 229, 53, 96, 125, 183, 184, 206, 154, 126, 158, 144, 191, 243, 38, 65, 51, 187, 105, 67, 140, 41, 10, 180, 233, 161, 239, 248] (i + 12) 0) = [154, 126, 158, 144, 191, 243, 38, 65, 51, 187, 105, 67, 140, 41, 10, 180, 233, 161, 239, 248] := by decide

theorem c4_affine_value : vanity_derive_affine c4_base c4_table 1 = some [195, 118, 154, 156, 216, 48, 170, 85, 189, 183, 182, 72, 158, 53, 158, 147, 44, 55, 177, 82] := by
  simp only [vanity_derive_affine, c4_load_bx, c4_load_by, c4_scalar_aff, c4_ecadd,
    c4_pub_a, c4ka_value, c4_map_a]
  decide

theorem c4_jacobian_value : vanity_derive_jacobian c4_base c4_table 1 = some [154, 126, 158, 144, 191, 243, 38, 65, 51, 187, 105, 67, 140, 41, 10, 180, 233, 161, 239, 248] := by
  simp only [vanity_derive_jacobian, kernel_derived_point, c4_load_bx, c4_load_by,
    c4_scalar_jac, c4_mixed, c4_j2a, c4_pub_j, c4kb_value, c4_map_j]
  decide

/-! ## C6: the reduction overflow at `a = b = p - 1` and at `a = b = (p+1)/2` -/

theorem c6_mul : fp_mul (secpP - 1) (secpP - 1) = 0xfffffffefffffffefffffffefffffffefffffffefffffffefffffc2cfffff85f := by decide

theorem c6_sqr : fp_sqr ((secpP + 1) / 2) = 0x3ffffffefffffffefffffffefffffffefffffffefffffffffffffffebffffb3b := by decide

/-! # Claim theorems -/

/-- The kernel's `get_nibble` agrees with the claim's nibble convention
(high half of byte `i/2` for even `i`, low half for odd `i`). -/
theorem get_nibble_eq_nibbleSpec (addr : List Nat) (i : Nat) :
    get_nibble addr i = nibbleSpec addr i := by
  unfold get_nibble nibbleSpec
  rcases Nat.mod_two_eq_zero_or_one i with h | h <;> simp [h]

/-- Reading a mapped range with a default inside the range is just the
function. -/
theorem map_range_getD (f : Nat → Nat) (n i : Nat) (h : i < n) :
    (List.map f (List.range n)).getD i 0 = f i := by
  rw [List.getD_eq_getElem _ 0 (by simpa using h)]
  simp

/-- C5: for a 20-byte address and a prefix pattern of at most 40 nibbles,
`pattern_matches` in prefix mode holds exactly when the first `len`
nibbles of the address (high nibble of byte 0 first) equal the pattern. -/
theorem c5_prefix_match_iff (addr P : List Nat) (h20 : addr.length = 20)
    (hP : P.length ≤ 40) :
    (pattern_matches addr
        { pattern_type := 0, pattern_len := P.length, suffix_len := 0,
          pattern_nibbles := P, suffix_nibbles := [] } = true ↔
      addrNibbles addr P.length = P) := by
  unfold pattern_matches match_pattern_at addrNibbles
  simp only [beq_self_eq_true, if_true, List.all_eq_true, List.mem_range, beq_iff_eq]
  constructor
  · intro h
    apply List.ext_getElem (by simp)
    intro i hi1 hi2
    have hh := h i (by simpa using hi1)
    rw [Nat.zero_add, get_nibble_eq_nibbleSpec, List.getD_eq_getElem P 0 hi2] at hh
    simpa using hh
  · intro h i hi
    have hh := congrArg (fun l => List.getD l i 0) h
    simp only [map_range_getD (nibbleSpec addr) P.length i hi] at hh
    rw [Nat.zero_add, get_nibble_eq_nibbleSpec]
    exact hh

/-- C5 witness: the address starting `0xdead…` matches prefix `de` and
its first two nibbles are `[0xd, 0xe]`. -/
theorem c5_prefix_match_iff_witness :
    ([0xde, 0xad, 0xbe, 0xef, 0, 0, 0, 0, 0, 0, 0, 0, 0, 0, 0, 0, 0, 0, 0, 0] :
        List Nat).length = 20 ∧
    ([0xd, 0xe] : List Nat).length ≤ 40 ∧
    (pattern_matches [0xde, 0xad, 0xbe, 0xef, 0, 0, 0, 0, 0, 0, 0, 0, 0, 0, 0, 0, 0, 0, 0, 0]
        { pattern_type := 0, pattern_len := 2, suffix_len := 0,
          pattern_nibbles := [0xd, 0xe], suffix_nibbles := [] } = true ↔
      addrNibbles [0xde, 0xad, 0xbe, 0xef, 0, 0, 0, 0, 0, 0, 0, 0, 0, 0, 0, 0, 0, 0, 0, 0] 2 =
        [0xd, 0xe]) :=
  ⟨by decide, by decide,
    c5_prefix_match_iff
      [0xde, 0xad, 0xbe, 0xef, 0, 0, 0, 0, 0, 0, 0, 0, 0, 0, 0, 0, 0, 0, 0, 0]
      [0xd, 0xe] (by decide) (by decide)⟩

/-- `hexToBytes` throws exactly on odd hex length. -/
theorem hexToBytes_some_iff (s : String) (b : List Nat) :
    hexToBytes s = some b ↔
      (strip0x s).length % 2 ≠ 1 ∧ b = bufferFromHex (strip0x s).toList := by
  simp only [hexToBytes]
  split
  · simp_all
  · simp_all [eq_comm]

/-- `hexToBytes` returns nothing exactly on odd hex length. -/
theorem hexToBytes_none_iff (s : String) :
    hexToBytes s = none ↔ (strip0x s).length % 2 = 1 := by
  simp only [hexToBytes]
  split <;> simp_all

/-- C9: the formula-mode verifier fails exactly on the enumerated
malformed inputs (odd hex length, or a parsed byte length different from
20/32/32/32 — for the salt nonce, no 32-byte value), and on well-formed
inputs it produces a 20-byte address. -/
theorem c9_formula_mode_iff (factory initCodeHash initializerHash saltNonce : String) :
    (runFormulaMode factory initCodeHash initializerHash saltNonce = none ↔
      c9_badInputs factory initCodeHash initializerHash saltNonce = true) ∧
    (c9_badInputs factory initCodeHash initializerHash saltNonce = false →
      ∃ a, runFormulaMode factory initCodeHash initializerHash saltNonce = some a ∧
        a.length = 20) := by
  unfold runFormulaMode
  rcases hf : hexToBytes factory with _ | fB
  · rw [hexToBytes_none_iff] at hf
    constructor
    · simp [c9_badInputs, hf]
    · intro hbad
      simp [c9_badInputs, hf] at hbad
  · rcases hic : hexToBytes initCodeHash with _ | icB
    · rw [hexToBytes_none_iff] at hic
      constructor
      · simp [c9_badInputs, hic]
      · intro hbad
        simp [c9_badInputs, hic] at hbad
    · rcases hiz : hexToBytes initializerHash with _ | izB
      · rw [hexToBytes_none_iff] at hiz
        constructor
        · simp [c9_badInputs, hiz]
        · intro hbad
          simp [c9_badInputs, hiz] at hbad
      · rcases hsn : saltNonceToBytes saltNonce with _ | snB
        · constructor
          · simp [c9_badInputs, hsn]
          · intro hbad
            simp [c9_badInputs, hsn] at hbad
        · obtain ⟨hfodd, hfB⟩ := (hexToBytes_some_iff _ _).mp hf
          obtain ⟨hicodd, hicB⟩ := (hexToBytes_some_iff _ _).mp hic
          obtain ⟨hizodd, hizB⟩ := (hexToBytes_some_iff _ _).mp hiz
          subst hfB hicB hizB
          constructor
          · by_cases h1 : (bufferFromHex (strip0x factory).data).length = 20 <;>
              by_cases h2 : (bufferFromHex (strip0x initCodeHash).data).length = 32 <;>
                by_cases h3 : (bufferFromHex (strip0x initializerHash).data).length = 32 <;>
                  by_cases h4 : snB.length = 32 <;>
                    simp [c9_badInputs, hsn, h1, h2, h3, h4, hfodd, hicodd, hizodd,
                      bne_iff_ne, beq_iff_eq]
          · intro hbad
            simp only [c9_badInputs, hsn] at hbad
            simp only [Bool.or_eq_false_iff, bne_eq_false_iff_eq, beq_eq_false_iff_ne] at hbad
            obtain ⟨⟨⟨⟨⟨⟨_, _⟩, _⟩, h1⟩, h2⟩, h3⟩, h4⟩ := hbad
            simp only [String.toList] at h1 h2 h3
            refine ⟨computeCreate2Address factory initCodeHash initializerHash snB, ?_, ?_⟩
            · simp [h1, h2, h3, h4]
            · exact computeCreate2Address_length _ _ _ _

/-- C1: for well-formed parsed inputs (20/32/32/32 bytes), the verifier's
`computeCreate2Address` is exactly the CREATE2 formula: the inner salt
hash is over the 64-byte `initializerHash ‖ saltNonce`, the outer hash
over the 85-byte `0xff ‖ factory ‖ salt ‖ initCodeHash`, and the address
is bytes 12..32 (the low 20 bytes) of the outer digest. -/
theorem c1_create2_formula (factory initCodeHash initializerHash : String)
    (saltNonceBytes : List Nat)
    (h1 : (bufferFromHex (strip0x factory).toList).length = 20)
    (h2 : (bufferFromHex (strip0x initCodeHash).toList).length = 32)
    (h3 : (bufferFromHex (strip0x initializerHash).toList).length = 32)
    (h4 : saltNonceBytes.length = 32) :
    computeCreate2Address factory initCodeHash initializerHash saltNonceBytes =
      create2SpecAddress (bufferFromHex (strip0x factory).toList)
        (bufferFromHex (strip0x initCodeHash).toList)
        (bufferFromHex (strip0x initializerHash).toList) saltNonceBytes ∧
    (bufferFromHex (strip0x initializerHash).toList ++ saltNonceBytes).length = 64 ∧
    ([0xff] ++ bufferFromHex (strip0x factory).toList ++
        keccak256 (bufferFromHex (strip0x initializerHash).toList ++ saltNonceBytes) ++
        bufferFromHex (strip0x initCodeHash).toList).length = 85 := by
  have h1d := h1
  have h2d := h2
  have h3d := h3
  simp only [String.toList] at h1d h2d h3d
  refine ⟨computeCreate2Address_eq_spec factory initCodeHash initializerHash saltNonceBytes,
    ?_, ?_⟩
  · simp [h3d, h4]
  · simp [h1d, h2d, keccak256_length]

/-- C1 witness: the all-zero well-formed input. -/
theorem c1_create2_formula_witness :
    (bufferFromHex
        (strip0x "0000000000000000000000000000000000000000").toList).length = 20 ∧
    (bufferFromHex (strip0x
        "0000000000000000000000000000000000000000000000000000000000000000").toList).length
      = 32 ∧
    (List.replicate 32 0).length = 32 ∧
    (computeCreate2Address "0000000000000000000000000000000000000000"
        "0000000000000000000000000000000000000000000000000000000000000000"
        "0000000000000000000000000000000000000000000000000000000000000000"
        (List.replicate 32 0) =
      create2SpecAddress
        (bufferFromHex (strip0x "0000000000000000000000000000000000000000").toList)
        (bufferFromHex (strip0x
          "0000000000000000000000000000000000000000000000000000000000000000").toList)
        (bufferFromHex (strip0x
          "0000000000000000000000000000000000000000000000000000000000000000").toList)
        (List.replicate 32 0) ∧
      (bufferFromHex (strip0x
          "0000000000000000000000000000000000000000000000000000000000000000").toList ++
        List.replicate 32 0).length = 64 ∧
      ([0xff] ++ bufferFromHex (strip0x "0000000000000000000000000000000000000000").toList ++
        keccak256 (bufferFromHex (strip0x
          "0000000000000000000000000000000000000000000000000000000000000000").toList ++
          List.replicate 32 0) ++
        bufferFromHex (strip0x
          "0000000000000000000000000000000000000000000000000000000000000000").toList).length
        = 85) :=
  ⟨by decide, by decide, by decide,
    c1_create2_formula "0000000000000000000000000000000000000000"
      "0000000000000000000000000000000000000000000000000000000000000000"
      "0000000000000000000000000000000000000000000000000000000000000000"
      (List.replicate 32 0) (by decide) (by decide) (by decide) (by decide)⟩

/-! ### C7 helper evaluations -/

theorem c7_u00 : uint256_eq 0 0 = true := by decide

theorem c7_m11 : fp_mul 1 1 = 1 := by decide

theorem c7_m01 : fp_mul 0 1 = 0 := by decide

theorem c7_load : load_uint256_be [] = 0 := by decide

theorem c7_scalar : scalar_mul_g_jacobian 1 [] =
    { X := 0, Y := 0, Z := 1, infinity := false } := by decide

theorem c7_mixed : mixed_add_jacobian { x := 0, y := 0, infinity := false }
    { X := 0, Y := 0, Z := 1, infinity := false } =
    { X := 0, Y := 0, Z := 0, infinity := true } := by
  simp only [mixed_add_jacobian, jacobian_double, fp_sqr, c7_m11, c7_m01, c7_u00]
  decide

theorem c7_kernel_inf : (kernel_derived_point [] [] 1).infinity = true := by
  simp only [kernel_derived_point, List.drop_nil, c7_load, c7_scalar, c7_mixed,
    jacobian_to_affine, Bool.true_or, reduceIte]

/-- C7: adding a point to its negation (equal `x`, unequal `y`) and
doubling a point with `y = 0` both return the point at infinity, and on
those paths no argument is ever passed to the field inversion; and a work
item whose derived point is at infinity leaves the result state
untouched (the candidate is skipped, nothing is written). -/
theorem c7_infinity_handling (P Q Pd : ec_point)
    (hP : P.infinity = false) (hQ : Q.infinity = false)
    (hx : uint256_eq P.x Q.x = true) (hy : uint256_eq P.y Q.y = false)
    (hPd : Pd.infinity = false) (hPdy : uint256_eq Pd.y 0 = true)
    (base g_table : List Nat) (cfg : gpu_pattern_config)
    (max_results batch_offset gid : Nat) (st : Nat × List gpu_result)
    (hinf : (kernel_derived_point base g_table
        ((gid + batch_offset) % 2 ^ 32)).infinity = true) :
    ((ec_add P Q).infinity = true ∧ ec_add_invArgs P Q = []) ∧
    ((ec_double Pd).infinity = true ∧ ec_double_invArgs Pd = []) ∧
    kernel_step base g_table cfg max_results batch_offset st gid = st := by
  refine ⟨⟨?_, ?_⟩, ⟨?_, ?_⟩, ?_⟩
  · simp [ec_add, hP, hQ, hx, hy]
  · simp [ec_add_invArgs, hP, hQ, hx, hy]
  · simp [ec_double, hPd, hPdy]
  · simp [ec_double_invArgs, hPd, hPdy]
  · have hinf2 : (kernel_derived_point base g_table
        ((gid + batch_offset) % 4294967296)).infinity = true := hinf
    have hitem : kernel_item base g_table cfg batch_offset gid = none := by
      simp [kernel_item, vanity_derive_jacobian, hinf2, ite_self]
    simp [kernel_step, hitem]

/-- C7 witness: the points `(1, 2)` and `(1, 3)` (equal `x`, unequal `y`),
the point `(5, 0)`, and the empty-table work item whose derived point is
at infinity. -/
theorem c7_infinity_handling_witness :
    (({ x := 1, y := 2, infinity := false } : ec_point).infinity = false ∧
     ({ x := 1, y := 3, infinity := false } : ec_point).infinity = false ∧
     uint256_eq 1 1 = true ∧ uint256_eq 2 3 = false ∧
     ({ x := 5, y := 0, infinity := false } : ec_point).infinity = false ∧
     uint256_eq 0 0 = true ∧
     (kernel_derived_point [] [] ((1 + 0) % 2 ^ 32)).infinity = true) ∧
    ((ec_add { x := 1, y := 2, infinity := false } { x := 1, y := 3, infinity := false }).infinity
        = true ∧
      ec_add_invArgs { x := 1, y := 2, infinity := false } { x := 1, y := 3, infinity := false }
        = []) ∧
    ((ec_double { x := 5, y := 0, infinity := false }).infinity = true ∧
      ec_double_invArgs { x := 5, y := 0, infinity := false } = []) ∧
    kernel_step [] [] (⟨0, 0, 0, [], []⟩ : gpu_pattern_config) 4 0 (0, []) 1 = (0, []) :=
  ⟨⟨rfl, rfl, by decide, by decide, rfl, by decide, c7_kernel_inf⟩,
    c7_infinity_handling { x := 1, y := 2, infinity := false }
      { x := 1, y := 3, infinity := false } { x := 5, y := 0, infinity := false }
      rfl rfl (by decide) (by decide) rfl (by decide)
      [] [] (⟨0, 0, 0, [], []⟩ : gpu_pattern_config) 4 0 1 (0, []) c7_kernel_inf⟩

/-! ### C8 helper lemmas -/

theorem set_take_succ {α : Type} (a : α) :
    ∀ (B : List α) (c : Nat), c < B.length → (B.set c a).take (c + 1) = B.take c ++ [a] := by
  intro B
  induction B with
  | nil => intro c h; simp at h
  | cons b t ih =>
    intro c h
    cases c with
    | zero => simp
    | succ c =>
      simp only [List.set_cons_succ, List.take_succ_cons, List.cons_append]
      rw [ih c (by simpa using h)]

theorem writeSeq_stop (max : Nat) :
    ∀ (hits : List (Nat × List Nat)) (c : Nat) (B : List gpu_result),
      max ≤ c → writeSeq max c B hits = B := by
  intro hits
  induction hits with
  | nil => intro c B h; rfl
  | cons h t ih =>
    intro c B hc
    simp only [writeSeq]
    rw [if_neg (by omega)]
    exact ih (c + 1) B (by omega)

theorem writeSeq_spec (max : Nat) :
    ∀ (hits : List (Nat × List Nat)) (c : Nat) (B : List gpu_result),
      B.length = max → c ≤ max →
      writeSeq max c B hits =
        B.take c ++ (hits.take (max - c)).map mk_result ++
          B.drop (c + min hits.length (max - c)) := by
  intro hits
  induction hits with
  | nil =>
    intro c B hB hc
    simp [writeSeq, List.take_append_drop]
  | cons h t ih =>
    intro c B hB hc
    rcases Nat.lt_or_ge c max with hlt | hge
    · simp only [writeSeq]
      rw [if_pos hlt, ih (c + 1) (B.set c (mk_result h)) (by simp [hB]) (by omega)]
      have hmc : max - c = (max - (c + 1)) + 1 := by omega
      rw [hmc, List.take_succ_cons, List.map_cons,
        set_take_succ (mk_result h) B c (by omega),
        List.drop_set, if_pos (by omega)]
      have hidx : c + min (h :: t).length ((max - (c + 1)) + 1) =
          c + 1 + min t.length (max - (c + 1)) := by
        simp only [List.length_cons]
        omega
      rw [hidx]
      simp [List.append_assoc]
    · have hce : c = max := by omega
      simp only [writeSeq]
      rw [if_neg (by omega), writeSeq_stop max t (c + 1) B (by omega)]
      rw [show max - c = 0 from by omega]
      simp [List.take_append_drop]

theorem kernel_batch_writeSeq (base g_table : List Nat) (cfg : gpu_pattern_config)
    (max_results batch_offset : Nat) :
    ∀ (gids : List Nat) (c : Nat) (B : List gpu_result),
      kernel_batch base g_table cfg max_results batch_offset gids (c, B) =
        (c + (gids.filterMap (kernel_item base g_table cfg batch_offset)).length,
         writeSeq max_results c B
           (gids.filterMap (kernel_item base g_table cfg batch_offset))) := by
  intro gids
  induction gids with
  | nil => intro c B; simp [kernel_batch, writeSeq]
  | cons g t ih =>
    intro c B
    have hstep : kernel_batch base g_table cfg max_results batch_offset (g :: t) (c, B) =
        kernel_batch base g_table cfg max_results batch_offset t
          (kernel_step base g_table cfg max_results batch_offset (c, B) g) := rfl
    rw [hstep]
    cases hitem : kernel_item base g_table cfg batch_offset g with
    | none =>
      rw [show kernel_step base g_table cfg max_results batch_offset (c, B) g = (c, B) from by
        simp [kernel_step, hitem]]
      rw [ih c B]
      simp [List.filterMap_cons, hitem]
    | some hit =>
      rw [show kernel_step base g_table cfg max_results batch_offset (c, B) g =
          (c + 1, if c < max_results then B.set c (mk_result hit) else B) from by
        simp [kernel_step, hitem]]
      rw [ih (c + 1) (if c < max_results then B.set c (mk_result hit) else B)]
      simp only [List.filterMap_cons, hitem, List.length_cons, writeSeq]
      exact Prod.ext (by omega) rfl

/-- C8: over a full batch with a result buffer of capacity `max_results`,
hits take counter values in dispatch order; the final counter is the
total number of hits, the buffer holds exactly the first `max_results`
hits (entries beyond the capacity are dropped without any write, and the
tail of the buffer keeps its prior contents), and in particular when the
batch produces at least `max_results` hits the buffer is exactly the
first `max_results` hit entries — already-written entries are never
overwritten. -/
theorem c8_saturation (base g_table : List Nat) (cfg : gpu_pattern_config)
    (max_results batch_offset : Nat) (gids : List Nat) (B : List gpu_result)
    (hB : B.length = max_results) :
    kernel_batch base g_table cfg max_results batch_offset gids (0, B) =
      ((gids.filterMap (kernel_item base g_table cfg batch_offset)).length,
        ((gids.filterMap (kernel_item base g_table cfg batch_offset)).take max_results).map
            mk_result ++
          B.drop (gids.filterMap (kernel_item base g_table cfg batch_offset)).length) ∧
    (max_results ≤ (gids.filterMap (kernel_item base g_table cfg batch_offset)).length →
      kernel_batch base g_table cfg max_results batch_offset gids (0, B) =
        ((gids.filterMap (kernel_item base g_table cfg batch_offset)).length,
          ((gids.filterMap (kernel_item base g_table cfg batch_offset)).take max_results).map
            mk_result)) := by
  have hmain : kernel_batch base g_table cfg max_results batch_offset gids (0, B) =
      ((gids.filterMap (kernel_item base g_table cfg batch_offset)).length,
        ((gids.filterMap (kernel_item base g_table cfg batch_offset)).take max_results).map
            mk_result ++
          B.drop (gids.filterMap (kernel_item base g_table cfg batch_offset)).length) := by
    rw [kernel_batch_writeSeq base g_table cfg max_results batch_offset gids 0 B,
      writeSeq_spec max_results (gids.filterMap (kernel_item base g_table cfg batch_offset))
        0 B hB (Nat.zero_le _)]
    simp only [List.take_zero, List.nil_append, Nat.zero_add, Nat.sub_zero]
    rcases Nat.le_total (gids.filterMap (kernel_item base g_table cfg batch_offset)).length
        max_results with hle | hge
    · rw [Nat.min_eq_left hle]
    · rw [Nat.min_eq_right hge, List.drop_eq_nil_of_le (by omega),
        List.drop_eq_nil_of_le (by omega)]
  refine ⟨hmain, fun hover => ?_⟩
  rw [hmain, List.drop_eq_nil_of_le (by omega), List.append_nil]

/-- C8 witness: a batch of one work item against a zero-capacity buffer. -/
theorem c8_saturation_witness :
    ([] : List gpu_result).length = 0 ∧
    (kernel_batch [] [] (⟨0, 0, 0, [], []⟩ : gpu_pattern_config) 0 0 [0] (0, []) =
        (([0].filterMap (kernel_item [] [] (⟨0, 0, 0, [], []⟩ : gpu_pattern_config) 0)).length,
          (([0].filterMap (kernel_item [] [] (⟨0, 0, 0, [], []⟩ : gpu_pattern_config) 0)).take 0).map
              mk_result ++
            ([] : List gpu_result).drop
              ([0].filterMap (kernel_item [] [] (⟨0, 0, 0, [], []⟩ : gpu_pattern_config) 0)).length) ∧
      (0 ≤ ([0].filterMap (kernel_item [] [] (⟨0, 0, 0, [], []⟩ : gpu_pattern_config) 0)).length →
        kernel_batch [] [] (⟨0, 0, 0, [], []⟩ : gpu_pattern_config) 0 0 [0] (0, []) =
          (([0].filterMap (kernel_item [] [] (⟨0, 0, 0, [], []⟩ : gpu_pattern_config) 0)).length,
            (([0].filterMap (kernel_item [] [] (⟨0, 0, 0, [], []⟩ : gpu_pattern_config) 0)).take 0).map
              mk_result))) :=
  ⟨rfl, c8_saturation [] [] (⟨0, 0, 0, [], []⟩ : gpu_pattern_config) 0 0 [0] [] rfl⟩

/-- C2: the kernel's `keccak256_64bytes` is not standard Keccak-256: on the
64-zero-byte input its digest differs from the standard digest (the kernel's
rho rotation table ends `39, 21, 56, 14` where the standard table ends
`39, 61, 20, 44`); running the same sponge with the standard table does
reproduce the standard digest, so the padding and everything else agree. -/
theorem c2_keccak_not_standard :
    keccak256 (List.replicate 64 0) = [173, 50, 40, 182, 118, 247, 211, 205, 66, 132, 165, 68, 63, 23, 241, 150, 43, 54, 228, 145, 179, 10, 64, 178, 64, 88, 73, 229, 151, 186, 95, 181] ∧
    keccak256_64bytes_std (List.replicate 64 0) = [173, 50, 40, 182, 118, 247, 211, 205, 66, 132, 165, 68, 63, 23, 241, 150, 43, 54, 228, 145, 179, 10, 64, 178, 64, 88, 73, 229, 151, 186, 95, 181] ∧
    keccak256_64bytes (List.replicate 64 0) = [249, 158, 52, 170, 227, 200, 229, 40, 116, 167, 47, 102, 70, 29, 153, 196, 162, 205, 38, 71, 127, 249, 12, 157, 34, 182, 101, 25, 73, 99, 67, 50] ∧
    keccak_rotc ≠ keccak_rotc_std ∧
    keccak256_64bytes (List.replicate 64 0) ≠ keccak256 (List.replicate 64 0) := by
  refine ⟨c2g_value, c2s_value_repl, c2c_value_repl, by decide, ?_⟩
  rw [c2c_value_repl, c2g_value]
  decide

theorem c3_mul2 : fp_mul 2 0x3ffffffefffffffefffffffefffffffefffffffefffffffffffffffebffffb3b = 0x7ffffffdfffffffdfffffffdfffffffdfffffffdfffffffffffffffd7ffff676 := by decide

/-- C3: `fp_inv` does not compute the modular inverse: at `a = 2` its fixed
chain returns a value different from `2 ^ (p - 2) mod p`, and
`fp_mul 2 (fp_inv 2) ≠ 1` (the chain's exponent is `p - 3`, and its final
squaring additionally hits the `fp_mul` reduction overflow). -/
theorem c3_fp_inv_not_inverse :
    fp_inv 2 = 0x3ffffffefffffffefffffffefffffffefffffffefffffffffffffffebffffb3b ∧
    2 ^ (secpP - 2) % secpP = 0x7fffffffffffffffffffffffffffffffffffffffffffffffffffffff7ffffe18 ∧
    fp_inv 2 ≠ 2 ^ (secpP - 2) % secpP ∧
    fp_mul 2 (fp_inv 2) ≠ 1 := by
  have hp : (2 : Nat) ^ (secpP - 2) % secpP = 0x7fffffffffffffffffffffffffffffffffffffffffffffffffffffff7ffffe18 := by
    rw [← powMod_eq]
    decide
  refine ⟨inv2_value, hp, ?_, ?_⟩
  · rw [inv2_value, hp]
    decide
  · rw [inv2_value, c3_mul2]
    decide

/-- C4: the affine and the Jacobian kernel pipelines are not equivalent:
with a genuine power table (all 32 entries on the curve, each entry the
double of the previous) and the base public key equal to table entry 1
(`2G`), the work item at offset 1 derives two different 20-byte
addresses. -/
theorem c4_kernels_diverge :
    (List.range 32).all (fun k => onCurve (load_g_table_entry c4_table k).x
        (load_g_table_entry c4_table k).y) = true ∧
    (List.range 31).all (fun k => isDoubleOf (load_g_table_entry c4_table k).x
        (load_g_table_entry c4_table k).y (load_g_table_entry c4_table (k + 1)).x
        (load_g_table_entry c4_table (k + 1)).y) = true ∧
    load_uint256_be c4_base = (load_g_table_entry c4_table 1).x ∧
    load_uint256_be (c4_base.drop 32) = (load_g_table_entry c4_table 1).y ∧
    vanity_derive_affine c4_base c4_table 1 = some [195, 118, 154, 156, 216, 48, 170, 85, 189, 183, 182, 72, 158, 53, 158, 147, 44, 55, 177, 82] ∧
    vanity_derive_jacobian c4_base c4_table 1 = some [154, 126, 158, 144, 191, 243, 38, 65, 51, 187, 105, 67, 140, 41, 10, 180, 233, 161, 239, 248] ∧
    vanity_derive_affine c4_base c4_table 1 ≠ vanity_derive_jacobian c4_base c4_table 1 := by
  refine ⟨by decide, by decide, by decide, by decide, c4_affine_value, c4_jacobian_value, ?_⟩
  rw [c4_affine_value, c4_jacobian_value]
  decide

/-- C6: `fp_mul` is not `(a * b) mod p` on all of `[0, p)`: at
`a = b = p - 1`, and likewise at `a = b = (p + 1) / 2` (the inverse of 2,
a value arising in real computations), the special-prime reduction loses a
carry and the result is wrong. -/
theorem c6_fp_mul_wrong :
    fp_mul (secpP - 1) (secpP - 1) = 0xfffffffefffffffefffffffefffffffefffffffefffffffefffffc2cfffff85f ∧
    (secpP - 1) * (secpP - 1) % secpP = 0x1 ∧
    fp_mul (secpP - 1) (secpP - 1) ≠ (secpP - 1) * (secpP - 1) % secpP ∧
    fp_sqr ((secpP + 1) / 2) = 0x3ffffffefffffffefffffffefffffffefffffffefffffffffffffffebffffb3b ∧
    (secpP + 1) / 2 * ((secpP + 1) / 2) % secpP = 0x3fffffffffffffffffffffffffffffffffffffffffffffffffffffffbfffff0c ∧
    fp_sqr ((secpP + 1) / 2) ≠ (secpP + 1) / 2 * ((secpP + 1) / 2) % secpP := by
  refine ⟨c6_mul, by decide, ?_, c6_sqr, by decide, ?_⟩
  · rw [c6_mul]
    decide
  · rw [c6_sqr]
    decide

/-- C10: a salt nonce whose 0x-stripped form is 64 hex characters is read
as raw big-endian hex bytes, never as a decimal number; and for the
64-digit decimal string of all ones, the hex reading and the decimal
reading produce different bytes, hence different CREATE2 addresses for
the same public inputs. -/
theorem c10_salt_nonce_hex_vs_decimal :
    (∀ s : String, (strip0x s).length = 64 →
      (∀ c ∈ (strip0x s).toList, isHexDigit c = true) →
      saltNonceToBytes s = some (bufferFromHex (strip0x s).toList)) ∧
    saltNonceToBytes "1111111111111111111111111111111111111111111111111111111111111111" = some [17, 17, 17, 17, 17, 17, 17, 17, 17, 17, 17, 17, 17, 17, 17, 17, 17, 17, 17, 17, 17, 17, 17, 17, 17, 17, 17, 17, 17, 17, 17, 17] ∧
    saltNonceDecimalToBytes "1111111111111111111111111111111111111111111111111111111111111111" = some [0, 0, 0, 0, 0, 2, 179, 114, 54, 92, 113, 27, 52, 189, 73, 197, 12, 63, 54, 210, 78, 40, 60, 85, 113, 199, 28, 113, 199, 28, 113, 199] ∧
    ([17, 17, 17, 17, 17, 17, 17, 17, 17, 17, 17, 17, 17, 17, 17, 17, 17, 17, 17, 17, 17, 17, 17, 17, 17, 17, 17, 17, 17, 17, 17, 17] : List Nat) ≠ [0, 0, 0, 0, 0, 2, 179, 114, 54, 92, 113, 27, 52, 189, 73, 197, 12, 63, 54, 210, 78, 40, 60, 85, 113, 199, 28, 113, 199, 28, 113, 199] ∧
    computeCreate2Address "0000000000000000000000000000000000000000" "0000000000000000000000000000000000000000000000000000000000000000" "0000000000000000000000000000000000000000000000000000000000000000" [17, 17, 17, 17, 17, 17, 17, 17, 17, 17, 17, 17, 17, 17, 17, 17, 17, 17, 17, 17, 17, 17, 17, 17, 17, 17, 17, 17, 17, 17, 17, 17] ≠
      computeCreate2Address "0000000000000000000000000000000000000000" "0000000000000000000000000000000000000000000000000000000000000000" "0000000000000000000000000000000000000000000000000000000000000000" [0, 0, 0, 0, 0, 2, 179, 114, 54, 92, 113, 27, 52, 189, 73, 197, 12, 63, 54, 210, 78, 40, 60, 85, 113, 199, 28, 113, 199, 28, 113, 199] := by
  refine ⟨?_, c10_snb_hex, c10_snb_dec, by decide, ?_⟩
  · intro s h1 h2
    have hall : (strip0x s).toList.all isHexDigit = true := List.all_eq_true.mpr h2
    simp only [String.toList] at hall
    simp [saltNonceToBytes, h1, hall]
  · rw [c10_addr_a, c10_addr_b]
    decide

end Vanity
